import Mathlib

/-!
# The SQL formatter of clickhouse-sql-parser

A shallow embedding of `parser/format.go` (the `Formatter` and the `FormatSQL`
methods of the syntax-tree nodes declared in `parser/ast.go`) and of the `Pos`,
`End`, `Type` and `Accept` methods of these nodes in `parser/ast.go`.

Conventions of the embedding

* A Go `string` is a Lean `String` and a Go `byte` is a `Char`.  `WriteString`
  walks the string one element at a time, as the Go loop over `s[i]` does; the
  only byte the formatter ever inspects is the newline, which is a single
  element in both readings.
* `strings.Builder` is the list of elements written so far (`builder`);
  `String()` packs it into a string.
* The methods of `*Formatter` mutate the receiver; here they take the state and
  return the new state.
* Go `int` fields (`mode`, `indentLevel`, `QuoteType`, positions) are `Int`.
  `indentLevel` changes by one per `Indent()`/`Dedent()` call, so the 64-bit
  bound is out of reach of any run and is not modelled.
-/

namespace SQLParser

/-! ## Formatter state (format.go, lines 5-33) -/

/-- Go `const whitespace byte = ' '`. -/
def whitespace : Char := ' '

/-- Go `const newline byte = '\n'`. -/
def newline : Char := '\n'

/-- Go `type FormatMode int`. -/
abbrev FormatMode := Int

/-- Go `FormatModeCompact FormatMode = iota + 1`. -/
def FormatModeCompact : FormatMode := 1

/-- Go `FormatModeBeautify`, the constant after `FormatModeCompact`. -/
def FormatModeBeautify : FormatMode := 2

/-- Go `type Formatter struct`. -/
structure Formatter where
  builder : List Char
  mode : FormatMode
  indentLevel : Int
  lineStart : Bool
  indent : String
  deriving DecidableEq

/-- Go `NewFormatter`. -/
def NewFormatter : Formatter :=
  { builder := [], mode := FormatModeCompact, indentLevel := 0, lineStart := true, indent := "  " }

/-- Go `(*Formatter).WithBeautify`. -/
def Formatter.WithBeautify (f : Formatter) : Formatter :=
  { f with mode := FormatModeBeautify }

/-- Go `(*Formatter).WithIndent`. -/
def Formatter.WithIndent (f : Formatter) (indent : String) : Formatter :=
  { f with indent := indent }

/-- The loop `for i := 0; i < f.indentLevel; i++ { f.builder.WriteString(f.indent) }`
of `writeIndentIfNeeded`, with `n` the number of iterations still to run. -/
def writeIndentLoop (indent : String) : Nat → List Char → List Char
  | 0, b => b
  | n + 1, b => writeIndentLoop indent n (b ++ indent.data)

/-- Go `(*Formatter).writeIndentIfNeeded`. The loop runs `indentLevel` times, and not at
all when `indentLevel` is not positive. -/
def Formatter.writeIndentIfNeeded (f : Formatter) : Formatter :=
  if !f.lineStart then f
  else
    { f with
      builder := writeIndentLoop f.indent f.indentLevel.toNat f.builder
      lineStart := false }

/-- Go `(*Formatter).WriteByte`. -/
def Formatter.WriteByte (f : Formatter) (b : Char) : Formatter :=
  if f.mode = FormatModeBeautify then
    if b = newline then
      { f with builder := f.builder ++ [newline], lineStart := true }
    else
      let f := f.writeIndentIfNeeded
      { f with builder := f.builder ++ [b] }
  else
    { f with builder := f.builder ++ [b] }

/-- The loop of `WriteString` over the elements of the string. -/
def Formatter.writeBytes (f : Formatter) : List Char → Formatter
  | [] => f
  | b :: bs => (f.WriteByte b).writeBytes bs

/-- Go `(*Formatter).WriteString`. -/
def Formatter.WriteString (f : Formatter) (s : String) : Formatter :=
  f.writeBytes s.data

/-- Go `(*Formatter).NewLine`. -/
def Formatter.NewLine (f : Formatter) : Formatter :=
  if f.mode ≠ FormatModeBeautify then f
  else f.WriteByte newline

/-- Go `(*Formatter).Break`. -/
def Formatter.Break (f : Formatter) : Formatter :=
  if f.mode = FormatModeBeautify then f.NewLine
  else f.WriteByte whitespace

/-- Go `(*Formatter).Indent`. -/
def Formatter.Indent (f : Formatter) : Formatter :=
  { f with indentLevel := f.indentLevel + 1 }

/-- Go `(*Formatter).Dedent`. -/
def Formatter.Dedent (f : Formatter) : Formatter :=
  if f.indentLevel > 0 then { f with indentLevel := f.indentLevel - 1 } else f

/-- Go `(*Formatter).String`. -/
def Formatter.String (f : Formatter) : String :=
  String.mk f.builder

/-- The indentation written at a line start: the indent unit repeated `n` times. -/
def indentation (indent : String) (n : Nat) : List Char :=
  (List.replicate n indent.data).flatten

/-! ## Syntax tree (ast.go)

Every struct of ast.go that has a method `FormatSQL` is embedded.  Sixty node kinds are
constructors of `Expr` that carry the fields of the Go struct of the same name: the ones
reachable from a `SELECT` statement with
`WITH`, `FROM`, `PREWHERE`, `WHERE` and `HAVING` clauses over identifiers, literals,
binary and ternary operations, together with column definitions, the `TTL` items of a
table, the `SAMPLE` clause, the column types, `CREATE DATABASE`, `ALTER TABLE` with its
`ADD COLUMN`, `ADD INDEX`, `ADD PROJECTION`, `DROP COLUMN` and `DROP PARTITION` clauses,
the `SETTINGS`, `GROUP BY` and `ON CLUSTER` clauses, `CASE` expressions, the attributes and
the `RANGE` and `LIFETIME` clauses of a dictionary, `GRANT` and `INSERT`.  The other node
kinds are the nodes of the generic constructor `Expr.Node`, whose `kind` names the struct
(`NodeKind`).  `JSONPath`, `JSONTypeHint`, `JSONOption` and `JSONOptions` are structures.

A field of
interface type `Expr` may hold Go's `nil` and is an `Option Expr`; so is a
pointer field that the methods test against `nil`.  A pointer field that
`FormatSQL` dereferences without a test is an `Expr` (or the leaf structure
itself): a tree where it is `nil` makes the Go code fail and is outside the
embedding.  A pointer field of Go type `*T` is not restricted to nodes of kind
`T`: the embedding admits more trees than Go does, so a statement about every
`Expr` covers the Go trees.  A slice of nodes is the list of its elements, which are
nodes: a slice with a `nil` element is outside the embedding. -/

/-- Go `type Pos int`. -/
abbrev Pos := Int

/-- Go `type TokenKind string`. -/
abbrev TokenKind := String

/-- Modelled from the spec: the keyword constant `KeywordAnd` is declared in the lexer,
which is not part of the sources at hand; the spec names the operator `AND`. -/
def KeywordAnd : String := "AND"

/-- Modelled from the spec: the keyword constant `KeywordOr` is declared in the lexer,
which is not part of the sources at hand; the spec names the operator `OR`. -/
def KeywordOr : String := "OR"

/-- Modelled from the spec: the token kind `TokenKindDash` is declared in the lexer,
which is not part of the sources at hand; the spec calls it the operator `-`. -/
def TokenKindDash : TokenKind := "-"

/-- Modelled from the spec: the quote-type tags of `Ident` are constants declared in
the lexer, which is not part of the sources at hand.  The spec lists the tags
unquoted, double-quote, backtick and single-quote; they are the cases of one Go
`switch`, hence pairwise different, and nothing else about their values is used. -/
def Unquoted : Int := 1

/-- Modelled from the spec: see `Unquoted`. -/
def DoubleQuote : Int := 2

/-- Modelled from the spec: see `Unquoted`. -/
def BackTicks : Int := 3

/-- Modelled from the spec: see `Unquoted`. -/
def SingleQuote : Int := 4

/-- The byte written around a `BackTicks` identifier. -/
def backtickByte : Char := Char.ofNat 96

/-- The byte written around a `DoubleQuote` identifier. -/
def doubleQuoteByte : Char := Char.ofNat 34

/-- The byte written around a `SingleQuote` identifier and a string literal. -/
def singleQuoteByte : Char := Char.ofNat 39

/-- Go `type Ident struct`. -/
structure Ident where
  Name : String
  QuoteType : Int
  NamePos : Pos
  NameEnd : Pos
  deriving DecidableEq

/-- Go `type JSONPath struct`. -/
structure JSONPath where
  Idents : List Ident

/-- Go `type JSONTypeHint struct`; `α` is the type of the syntax-tree nodes. -/
structure JSONTypeHint (α : Type) where
  Path : Option JSONPath
  type : Option α

/-- Go `type JSONOption struct`; `α` is the type of the syntax-tree nodes. -/
structure JSONOption (α : Type) where
  SkipPath : Option JSONPath
  SkipRegex : Option α
  MaxDynamicPaths : Option α
  MaxDynamicTypes : Option α
  Column : Option (JSONTypeHint α)

/-- Go `type JSONOptions struct`; `α` is the type of the syntax-tree nodes. -/
structure JSONOptions (α : Type) where
  LParen : Pos
  RParen : Pos
  Items : List (JSONOption α)

/-- Go `type OrderDirection string`. -/
abbrev OrderDirection := String

/-- Go `OrderDirectionNone`. -/
def OrderDirectionNone : OrderDirection := ""

/-- Modelled from the spec: the token kind `TokenKindSingleEQ` is declared in the lexer,
which is not part of the sources at hand; the name is that of the token `=`, which the
spec writes between the name and the value of a named parameter (`name = value`). -/
def TokenKindSingleEQ : TokenKind := "="

/-- Modelled from the spec: the keyword constant `KeywordDeduplicate` is declared in the
lexer, which is not part of the sources at hand; the spec names the clause
`Deduplicate` of `OptimizeStmt`, whose keyword is `DEDUPLICATE`. -/
def KeywordDeduplicate : String := "DEDUPLICATE"

/-- The structs of ast.go that the generic constructor embeds, each with its fields that
hold no node.  The documentation of a kind lists the fields that hold nodes, in the order
in which the node holds them. -/
inductive NodeKind where
  /-- Go `type AlterRole struct`; lists: `RoleRenamePairs`, `Settings`. -/
  | AlterRole (AlterPos StatementEnd : Pos) (IfExists : Bool)
  /-- Go `type AlterTableAttachPartition struct`; nodes: `Partition`; children: `From`. -/
  | AlterTableAttachPartition (AttachPos : Pos)
  /-- Go `type AlterTableClearColumn struct`; nodes: `ColumnName`; children: `PartitionExpr`. -/
  | AlterTableClearColumn (ClearPos StatementEnd : Pos) (IfExists : Bool)
  /-- Go `type AlterTableClearIndex struct`; nodes: `IndexName`; children: `PartitionExpr`. -/
  | AlterTableClearIndex (ClearPos StatementEnd : Pos) (IfExists : Bool)
  /-- Go `type AlterTableClearProjection struct`; nodes: `ProjectionName`; children:
  `PartitionExpr`. -/
  | AlterTableClearProjection (ClearPos StatementEnd : Pos) (IfExists : Bool)
  /-- Go `type AlterTableDelete struct`; children: `WhereClause`. -/
  | AlterTableDelete (DeletePos StatementEnd : Pos)
  /-- Go `type AlterTableDetachPartition struct`; nodes: `Partition`; children: `Settings`. -/
  | AlterTableDetachPartition (DetachPos : Pos)
  /-- Go `type AlterTableDropIndex struct`; nodes: `IndexName`. -/
  | AlterTableDropIndex (DropPos : Pos) (IfExists : Bool)
  /-- Go `type AlterTableDropProjection struct`; nodes: `ProjectionName`. -/
  | AlterTableDropProjection (DropPos : Pos) (IfExists : Bool)
  /-- Go `type AlterTableFreezePartition struct`; children: `Partition`. -/
  | AlterTableFreezePartition (FreezePos StatementEnd : Pos)
  /-- Go `type AlterTableMaterializeIndex struct`; nodes: `IndexName`; children: `Partition`. -/
  | AlterTableMaterializeIndex (MaterializedPos StatementEnd : Pos) (IfExists : Bool)
  /-- Go `type AlterTableMaterializeProjection struct`; nodes: `ProjectionName`; children:
  `Partition`. -/
  | AlterTableMaterializeProjection (MaterializedPos StatementEnd : Pos) (IfExists : Bool)
  /-- Go `type AlterTableModifyColumn struct`; nodes: `Column`; children: `RemovePropertyType`. -/
  | AlterTableModifyColumn (ModifyPos StatementEnd : Pos) (IfExists : Bool)
  /-- Go `type AlterTableModifyQuery struct`; nodes: `SelectExpr`. -/
  | AlterTableModifyQuery (ModifyPos StatementEnd : Pos)
  /-- Go `type AlterTableModifySetting struct`; lists: `Settings`. -/
  | AlterTableModifySetting (ModifyPos StatementEnd : Pos)
  /-- Go `type AlterTableModifyTTL struct`; nodes: `TTL`. -/
  | AlterTableModifyTTL (ModifyPos StatementEnd : Pos)
  /-- Go `type AlterTableRemoveTTL struct`; it holds no node. -/
  | AlterTableRemoveTTL (RemovePos StatementEnd : Pos)
  /-- Go `type AlterTableRenameColumn struct`; nodes: `OldColumnName`, `NewColumnName`. -/
  | AlterTableRenameColumn (RenamePos : Pos) (IfExists : Bool)
  /-- Go `type AlterTableReplacePartition struct`; nodes: `Partition`, `Table`. -/
  | AlterTableReplacePartition (ReplacePos : Pos)
  /-- Go `type AlterTableResetSetting struct`; lists: `Settings`. -/
  | AlterTableResetSetting (ResetPos StatementEnd : Pos)
  /-- Go `type AlterTableUpdate struct`; children: `InPartition`, `WhereClause`; lists:
  `Assignments`. -/
  | AlterTableUpdate (UpdatePos StatementEnd : Pos)
  /-- Go `type ArrayParamList struct`; nodes: `Items`. -/
  | ArrayParamList (LeftBracketPos RightBracketPos : Pos)
  /-- Go `type AuthenticationClause struct`; children: `AuthValue`, `LdapServer`, `KerberosRealm`.
  -/
  | AuthenticationClause (AuthPos AuthEnd : Pos) (NotIdentified : Bool) (AuthType : String)
      (IsKerberos : Bool)
  /-- Go `type BetweenClause struct`; children: `Expr`, `Between`, `And`. -/
  | BetweenClause (AndPos : Pos)
  /-- Go `type BoolLiteral struct`; it holds no node. -/
  | BoolLiteral (LiteralPos LiteralEnd : Pos) (Literal : String)
  /-- Go `type CTEStmt struct`; children: `Expr`, `Alias`. -/
  | CTEStmt (CTEPos : Pos)
  /-- Go `type CastExpr struct`; children: `Expr`, `AsType`. -/
  | CastExpr (CastPos : Pos) (Separator : String) (AsPos : Pos)
  /-- Go `type CheckStmt struct`; nodes: `Table`; children: `Partition`. -/
  | CheckStmt (CheckPos : Pos)
  /-- Go `type ColumnArgList struct`; lists: `Items`. -/
  | ColumnArgList (Distinct : Bool) (LeftParenPos RightParenPos : Pos)
  /-- Go `type ColumnExprList struct`; lists: `Items`. -/
  | ColumnExprList (ListPos ListEnd : Pos) (HasDistinct : Bool)
  /-- Go `type ColumnNamesExpr struct`; lists: `ColumnNames`. -/
  | ColumnNamesExpr (LeftParenPos RightParenPos : Pos)
  /-- Go `type ColumnTypeExpr struct`; nodes: `Name`. -/
  | ColumnTypeExpr
  /-- Go `type CompressionCodec struct`; children: `Type`, `TypeLevel`, `Name`, `Level`. -/
  | CompressionCodec (CodecPos RightParenPos : Pos)
  /-- Go `type ConstraintClause struct`; nodes: `Constraint`; children: `Expr`. -/
  | ConstraintClause (ConstraintPos : Pos)
  /-- Go `type CreateDictionary struct`; nodes: `Name`; children: `UUID`, `OnCluster`, `Schema`,
  `Engine`, `Comment`. -/
  | CreateDictionary (CreatePos StatementEnd : Pos) (OrReplace IfNotExists : Bool)
  /-- Go `type CreateFunction struct`; nodes: `FunctionName`, `Params`; children: `OnCluster`,
  `Expr`. -/
  | CreateFunction (CreatePos : Pos) (OrReplace IfNotExists : Bool)
  /-- Go `type CreateLiveView struct`; nodes: `Name`; children: `UUID`, `OnCluster`, `Destination`,
  `TableSchema`, `WithTimeout`, `SubQuery`. -/
  | CreateLiveView (CreatePos StatementEnd : Pos) (IfNotExists : Bool)
  /-- Go `type CreateMaterializedView struct`; nodes: `Name`; children: `OnCluster`, `Refresh`,
  `RandomizeFor`, `Settings`, `Engine`, `Destination`, `SubQuery`, `Comment`, `Definer`; lists:
  `DependsOn`.  `DependsOnSet` says whether the slice `DependsOn` is not `nil`. -/
  | CreateMaterializedView (CreatePos StatementEnd : Pos) (IfNotExists DependsOnSet HasAppend
      HasEmpty Populate : Bool) (SQLSecurity : String)
  /-- Go `type CreateNamedCollection struct`; nodes: `Name`; children: `OnCluster`; lists: `Params`.
  -/
  | CreateNamedCollection (CreatePos StatementEnd : Pos) (IfNotExists : Bool)
  /-- Go `type CreateRole struct`; children: `AccessStorageType`; lists: `RoleNames`, `Settings`. -/
  | CreateRole (CreatePos StatementEnd : Pos) (IfNotExists OrReplace : Bool)
  /-- Go `type CreateTable struct`; nodes: `Name`; children: `UUID`, `OnCluster`, `TableSchema`,
  `Engine`, `SubQuery`, `TableFunction`, `Comment`. -/
  | CreateTable (CreatePos StatementEnd : Pos) (OrReplace IfNotExists HasTemporary : Bool)
  /-- Go `type CreateUser struct`; children: `Authentication`, `DefaultRole`, `DefaultDatabase`,
  `Grantees`; lists: `UserNames`, `Hosts`, `Settings`. -/
  | CreateUser (CreatePos StatementEnd : Pos) (IfNotExists OrReplace DefaultDbNone : Bool)
  /-- Go `type CreateView struct`; nodes: `Name`; children: `UUID`, `OnCluster`, `TableSchema`,
  `SubQuery`. -/
  | CreateView (CreatePos StatementEnd : Pos) (OrReplace IfNotExists : Bool)
  /-- Go `type DeduplicateClause struct`; children: `By`, `Except`. -/
  | DeduplicateClause (DeduplicatePos : Pos)
  /-- Go `type DefaultRoleClause struct`; lists: `Roles`. -/
  | DefaultRoleClause (DefaultPos DefaultEnd : Pos) (None : Bool)
  /-- Go `type DeleteClause struct`; nodes: `Table`; children: `OnCluster`, `WhereExpr`. -/
  | DeleteClause (DeletePos : Pos)
  /-- Go `type DescribeStmt struct`; nodes: `Target`. -/
  | DescribeStmt (DescribePos StatementEnd : Pos) (DescribeType : String)
  /-- Go `type DestinationClause struct`; nodes: `TableIdentifier`; children: `TableSchema`. -/
  | DestinationClause (ToPos : Pos)
  /-- Go `type DictionaryArgExpr struct`; nodes: `Name`; children: `Value`. -/
  | DictionaryArgExpr (ArgPos : Pos)
  /-- Go `type DictionaryEngineClause struct`; children: `PrimaryKey`, `Source`, `Lifetime`,
  `Layout`, `Range`, `Settings`. -/
  | DictionaryEngineClause (EnginePos : Pos)
  /-- Go `type DictionaryLayoutClause struct`; nodes: `Layout`; lists: `Args`. -/
  | DictionaryLayoutClause (LayoutPos RParenPos : Pos)
  /-- Go `type DictionaryPrimaryKeyClause struct`; nodes: `Keys`. -/
  | DictionaryPrimaryKeyClause (PrimaryKeyPos RParenPos : Pos)
  /-- Go `type DictionarySchemaClause struct`; lists: `Attributes`. -/
  | DictionarySchemaClause (SchemaPos RParenPos : Pos)
  /-- Go `type DictionarySourceClause struct`; nodes: `Source`; lists: `Args`. -/
  | DictionarySourceClause (SourcePos RParenPos : Pos)
  /-- Go `type DistinctOn struct`; lists: `Idents`. -/
  | DistinctOn (DistinctOnPos DistinctOnEnd : Pos)
  /-- Go `type DropDatabase struct`; nodes: `Name`; children: `OnCluster`. -/
  | DropDatabase (DropPos StatementEnd : Pos) (IfExists : Bool)
  /-- Go `type DropStmt struct`; nodes: `Name`; children: `OnCluster`. -/
  | DropStmt (DropPos StatementEnd : Pos) (DropTarget : String) (IfExists IsTemporary : Bool)
      (Modifier : String)
  /-- Go `type DropUserOrRole struct`; children: `From`; lists: `Names`. -/
  | DropUserOrRole (DropPos : Pos) (Target : String) (StatementEnd : Pos) (IfExists : Bool)
      (Modifier : String)
  /-- Go `type EngineExpr struct`; children: `Params`, `PrimaryKey`, `PartitionBy`, `SampleBy`,
  `TTL`, `Settings`, `OrderBy`. -/
  | EngineExpr (EnginePos EngineEnd : Pos) (Name : String)
  /-- Go `type ExplainStmt struct`; children: `Statement`. -/
  | ExplainStmt (ExplainPos : Pos) (type : String)
  /-- Go `type ExtractExpr struct`; lists: `Parameters`. -/
  | ExtractExpr (ExtractPos ExtractEnd : Pos)
  /-- Go `type Fill struct`; children: `From`, `To`, `Step`, `Staleness`. -/
  | Fill (FillPos : Pos)
  /-- Go `type FunctionExpr struct`; nodes: `Name`, `Params`. -/
  | FunctionExpr
  /-- Go `type GlobalInOperation struct`; children: `Expr`. -/
  | GlobalInOperation (GlobalPos : Pos)
  /-- Go `type GranteesClause struct`; lists: `Grantees`, `ExceptUsers`. -/
  | GranteesClause (GranteesPos GranteesEnd : Pos) (Any None : Bool)
  /-- Go `type HostClause struct`; children: `HostValue`. -/
  | HostClause (HostPos HostEnd : Pos) (HostType : String)
  /-- Go `type IndexOperation struct`; children: `Object`, `Index`. -/
  | IndexOperation (Operation : TokenKind)
  /-- Go `type InterpolateClause struct`; lists: `Items`. -/
  | InterpolateClause (InterpolatePos ListEnd : Pos)
  /-- Go `type InterpolateItem struct`; nodes: `Column`; children: `Expr`. -/
  | InterpolateItem
  /-- Go `type IntervalExpr struct`; nodes: `Unit`; children: `Expr`. -/
  | IntervalExpr (IntervalPos : Pos)
  /-- Go `type IntervalFrom struct`; nodes: `Interval`; children: `FromExpr`. -/
  | IntervalFrom (FromPos : Pos)
  /-- Go `type IsNotNullExpr struct`; children: `Expr`. -/
  | IsNotNullExpr (IsPos : Pos)
  /-- Go `type IsNullExpr struct`; children: `Expr`. -/
  | IsNullExpr (IsPos : Pos)
  /-- Go `type JoinConstraintClause struct`; children: `On`, `Using`. -/
  | JoinConstraintClause (ConstraintPos : Pos)
  /-- Go `type LimitByClause struct`; children: `Limit`, `ByExpr`. -/
  | LimitByClause
  /-- Go `type LimitClause struct`; children: `Limit`, `Offset`. -/
  | LimitClause (LimitPos : Pos)
  /-- Go `type MapLiteral struct`; lists: the keys and the values of `KeyValues`. -/
  | MapLiteral (LBracePos RBracePos : Pos)
  /-- Go `type NamedCollectionParam struct`; nodes: `Name`; children: `Value`. -/
  | NamedCollectionParam (ParamPos : Pos) (Overridable NotOverridable : Bool)
  /-- Go `type NamedParameterExpr struct`; nodes: `Name`; children: `Value`. -/
  | NamedParameterExpr (NamePos : Pos)
  /-- Go `type NegateExpr struct`; children: `Expr`. -/
  | NegateExpr (NegatePos : Pos)
  /-- Go `type ObjectParams struct`; nodes: `Params`; children: `Object`. -/
  | ObjectParams
  /-- Go `type OnClause struct`; nodes: `On`. -/
  | OnClause (OnPos : Pos)
  /-- Go `type OperationExpr struct`; it holds no node. -/
  | OperationExpr (OperationPos : Pos) (Kind : TokenKind)
  /-- Go `type OptimizeStmt struct`; nodes: `Table`; children: `OnCluster`, `Partition`,
  `Deduplicate`. -/
  | OptimizeStmt (OptimizePos StatementEnd : Pos) (HasFinal : Bool)
  /-- Go `type OrderByClause struct`; children: `Interpolate`; lists: `Items`. -/
  | OrderByClause (OrderPos ListEnd : Pos)
  /-- Go `type OrderExpr struct`; children: `Expr`, `Alias`, `Fill`. -/
  | OrderExpr (OrderPos : Pos) (Direction : OrderDirection)
  /-- Go `type ParamExprList struct`; nodes: `Items`; children: `ColumnArgList`. -/
  | ParamExprList (LeftParenPos RightParenPos : Pos)
  /-- Go `type PartitionByClause struct`; children: `Expr`. -/
  | PartitionByClause (PartitionPos : Pos)
  /-- Go `type Path struct`; lists: `Fields`. -/
  | Path
  /-- Go `type PlaceHolder struct`; it holds no node. -/
  | PlaceHolder (PlaceholderPos PlaceHolderEnd : Pos) (type : String)
  /-- Go `type PrimaryKeyClause struct`; children: `Expr`. -/
  | PrimaryKeyClause (PrimaryPos : Pos)
  /-- Go `type ProjectionOrderByClause struct`; nodes: `Columns`. -/
  | ProjectionOrderByClause (OrderByPos : Pos)
  /-- Go `type ProjectionSelectStmt struct`; nodes: `SelectColumns`; children: `With`, `GroupBy`,
  `OrderBy`. -/
  | ProjectionSelectStmt (LeftParenPos RightParenPos : Pos)
  /-- Go `type QueryParam struct`; nodes: `Name`; children: `Type`. -/
  | QueryParam (LBracePos RBracePos : Pos)
  /-- Go `type RefreshExpr struct`; children: `Interval`, `Offset`. -/
  | RefreshExpr (RefreshPos : Pos) (Frequency : String)
  /-- Go `type RemovePropertyType struct`; children: `PropertyType`. -/
  | RemovePropertyType (RemovePos : Pos)
  /-- Go `type RenameStmt struct`; children: `OnCluster`; lists: `TargetPairList`. -/
  | RenameStmt (RenamePos StatementEnd : Pos) (RenameTarget : String)
  /-- Go `type RoleName struct`; children: `Name`, `Scope`, `OnCluster`. -/
  | RoleName
  /-- Go `type RoleRenamePair struct`; nodes: `RoleName`; children: `NewName`. -/
  | RoleRenamePair (StatementEnd : Pos)
  /-- Go `type RoleSetting struct`; children: `Modifier`; lists: `SettingPairs`. -/
  | RoleSetting
  /-- Go `type SampleByClause struct`; children: `Expr`. -/
  | SampleByClause (SamplePos : Pos)
  /-- Go `type SetStmt struct`; nodes: `Settings`. -/
  | SetStmt (SetPos : Pos)
  /-- Go `type SettingPair struct`; nodes: `Name`; children: `Value`. -/
  | SettingPair (Operation : TokenKind)
  /-- Go `type ShowStmt struct`; children: `Target`, `LikePattern`, `Limit`, `OutFile`, `Format`. -/
  | ShowStmt (ShowPos StatementEnd : Pos) (ShowType : String) (NotLike : Bool) (LikeType : String)
  /-- Go `type SubQuery struct`; children: `Select`. -/
  | SubQuery (HasParen : Bool)
  /-- Go `type SystemCtrlExpr struct`; children: `Cluster`. -/
  | SystemCtrlExpr (CtrlPos StatementEnd : Pos) (Command type : String)
  /-- Go `type SystemDropExpr struct`; it holds no node. -/
  | SystemDropExpr (DropPos StatementEnd : Pos) (type : String)
  /-- Go `type SystemFlushExpr struct`; children: `Distributed`. -/
  | SystemFlushExpr (FlushPos StatementEnd : Pos) (Logs : Bool)
  /-- Go `type SystemReloadExpr struct`; children: `Dictionary`. -/
  | SystemReloadExpr (ReloadPos StatementEnd : Pos) (type : String)
  /-- Go `type SystemStmt struct`; children: `Expr`. -/
  | SystemStmt (SystemPos : Pos)
  /-- Go `type SystemSyncExpr struct`; nodes: `Cluster`. -/
  | SystemSyncExpr (SyncPos : Pos)
  /-- Go `type TTLClause struct`; lists: `Items`. -/
  | TTLClause (TTLPos ListEnd : Pos)
  /-- Go `type TableArgListExpr struct`; lists: `Args`. -/
  | TableArgListExpr (LeftParenPos RightParenPos : Pos)
  /-- Go `type TableFunctionExpr struct`; nodes: `Args`; children: `Name`. -/
  | TableFunctionExpr
  /-- Go `type TableProjection struct`; nodes: `Identifier`, `Select`. -/
  | TableProjection (IncludeProjectionKeyword : Bool) (ProjectionPos : Pos)
  /-- Go `type TableSchemaClause struct`; children: `AliasTable`, `TableFunction`; lists: `Columns`.
  -/
  | TableSchemaClause (SchemaPos SchemaEnd : Pos)
  /-- Go `type TargetPair struct`; nodes: `Old`, `New`. -/
  | TargetPair
  /-- Go `type TopClause struct`; nodes: `Number`. -/
  | TopClause (TopPos TopEnd : Pos) (WithTies : Bool)
  /-- Go `type TruncateTable struct`; nodes: `Name`; children: `OnCluster`. -/
  | TruncateTable (TruncatePos StatementEnd : Pos) (IsTemporary IfExists : Bool)
  /-- Go `type TypedPlaceholder struct`; nodes: `Name`; children: `Type`. -/
  | TypedPlaceholder (LeftBracePos RightBracePos : Pos)
  /-- Go `type UUID struct`; nodes: `Value`. -/
  | UUID
  /-- Go `type UnaryExpr struct`; children: `Expr`. -/
  | UnaryExpr (UnaryPos : Pos) (Kind : TokenKind)
  /-- Go `type UpdateAssignment struct`; nodes: `Column`; children: `Expr`. -/
  | UpdateAssignment (AssignmentPos : Pos)
  /-- Go `type UseStmt struct`; nodes: `Database`. -/
  | UseStmt (UsePos StatementEnd : Pos)
  /-- Go `type UsingClause struct`; nodes: `Using`. -/
  | UsingClause (UsingPos : Pos)
  /-- Go `type WindowClause struct`; lists: `Windows`. -/
  | WindowClause (WindowPos EndPos : Pos)
  /-- Go `type WindowDefinition struct`; children: `Name`, `Expr`.  The struct has no method
  `Accept`, so it is not an `Expr` of Go: it occurs as an element of `WindowClause.Windows`
  only, and `(*WindowClause).Accept` visits its fields. -/
  | WindowDefinition (AsPos : Pos)
  /-- Go `type WindowExpr struct`; children: `PartitionBy`, `OrderBy`, `Frame`. -/
  | WindowExpr (LeftParenPos RightParenPos : Pos)
  /-- Go `type WindowFrameClause struct`; children: `Extend`. -/
  | WindowFrameClause (FramePos : Pos) (type : String)
  /-- Go `type WindowFrameCurrentRow struct`; it holds no node. -/
  | WindowFrameCurrentRow (CurrentPos RowEnd : Pos)
  /-- Go `type WindowFrameExtendExpr struct`; children: `Expr`. -/
  | WindowFrameExtendExpr (Direction : String) (EndPos : Pos)
  /-- Go `type WindowFrameNumber struct`; nodes: `Number`. -/
  | WindowFrameNumber (EndPos : Pos) (Direction : String)
  /-- Go `type WindowFrameParam struct`; nodes: `Param`. -/
  | WindowFrameParam (EndPos : Pos) (Direction : String)
  /-- Go `type WindowFrameUnbounded struct`; it holds no node. -/
  | WindowFrameUnbounded (UnboundedPos UnboundedEnd : Pos) (Direction : String)
  /-- Go `type WindowFunctionExpr struct`; nodes: `Function`; children: `OverExpr`. -/
  | WindowFunctionExpr (OverPos : Pos)
  /-- Go `type WithTimeoutClause struct`; nodes: `Number`; children: `Expr`. -/
  | WithTimeoutClause (WithTimeoutPos : Pos)

set_option maxHeartbeats 400000 in
/-- Go `interface Expr`, as the sum of the node kinds.  A constructor other than `Node`
carries the fields of the Go struct of the same name, in the order of declaration.  A node
`Node kind nodes children lists` is a struct of one of the kinds of `NodeKind`: `kind`
carries its fields that hold no node, `nodes` holds its pointer fields that no method
tests against `nil` (`FormatSQL` dereferences each of them), `children` its other fields
that hold one node, `lists` its slices of nodes, each in the order of declaration. -/
inductive Expr where
  | Ident (i : Ident)
  | NumberLiteral (NumPos NumEnd : Pos) (Literal : String) (Base : Int)
  | StringLiteral (LiteralPos LiteralEnd : Pos) (Literal : String)
  | NestedIdentifier (ident : Ident) (DotIdent : Option Ident)
  | TableIdentifier (Database : Option Ident) (Table : Ident)
  | BinaryOperation (LeftExpr : Option Expr) (Operation : TokenKind)
      (RightExpr : Option Expr) (HasGlobal HasNot : Bool)
  | NotExpr (NotPos : Pos) (expr : Option Expr)
  | AliasExpr (expr : Option Expr) (AliasPos : Pos) (Alias : Option Expr)
  | ColumnExpr (expr : Option Expr) (Alias : Option Ident)
  | SelectItem (expr : Option Expr) (Modifiers : List Expr) (Alias : Option Ident)
  | TableExpr (TablePos TableEnd : Pos) (Alias : Option Expr) (expr : Option Expr)
      (HasFinal : Bool)
  | JoinTableExpr (Table : Expr) (StatementEnd : Pos) ( SampleRatio : Option Expr)
      (HasFinal : Bool)
  | JoinExpr (JoinPos : Pos) (Left : Option Expr) (Right : Option Expr)
      (Modifiers : List String) (Constraints : Option Expr)
  | FromClause (FromPos : Pos) (expr : Option Expr)
  | WhereClause (WherePos : Pos) (expr : Option Expr)
  | PrewhereClause (PrewherePos : Pos) (expr : Option Expr)
  | HavingClause (HavingPos : Pos) (expr : Option Expr)
  | SelectQuery (SelectPos StatementEnd : Pos) (With : Option Expr)
      (Top : Option Expr) (HasDistinct : Bool) (DistinctOn : Option Expr)
      (SelectItems : List Expr) (From Window Prewhere Where GroupBy : Option Expr)
      (WithTotal : Bool) (Having OrderBy LimitBy Limit Settings Format : Option Expr)
      (UnionAll UnionDistinct Except : Option Expr)
  | WithClause (WithPos EndPos : Pos) (CTEs : List Expr)
  | TernaryOperation (Condition TrueExpr FalseExpr : Option Expr)
  | NullLiteral (NullPos : Pos)
  | NotNullLiteral (NotPos : Pos) (NullLiteral : Expr)
  | ColumnDef (NamePos ColumnEnd : Pos) (Name : Expr)
      (type NotNull Nullable DefaultExpr MaterializedExpr AliasExpr Codec TTL Comment :
        Option Expr)
      (CompressionCodec : Option Ident)
  | CreateDatabase (CreatePos StatementEnd : Pos) (Name : Option Expr) (IfNotExists : Bool)
      (OnCluster Engine Comment : Option Expr)
  | AlterTable (AlterPos StatementEnd : Pos) (TableIdentifier : Expr)
      (OnCluster : Option Expr) (AlterExprs : List Expr)
  | AlterTableDropPartition (DropPos : Pos) (HasDetached : Bool) (Partition : Expr)
      (Settings : Option Expr)
  | TTLPolicyRuleAction (ActionPos ActionEnd : Pos) (Action : String) (Codec : Option Expr)
  | TTLPolicyRule (RulePos : Pos) (ToVolume ToDisk Action : Option Expr)
  | TTLPolicy (Item Where GroupBy : Option Expr)
  | TTLExpr (TTLPos : Pos) (expr : Option Expr) (Policy : Option Expr)
  | RatioExpr (Numerator : Expr) (Denominator : Option Expr)
  | SampleClause (SamplePos : Pos) (Ratio : Expr) (Offset : Option Expr)
  | ScalarType (Name : Ident)
  | PropertyType (Name : Ident)
  | TypeWithParams (LeftParenPos RightParenPos : Pos) (Name : Ident) (Params : List Expr)
  | ComplexType (LeftParenPos RightParenPos : Pos) (Name : Ident) (Params : List Expr)
  | NestedType (LeftParenPos RightParenPos : Pos) (Name : Ident) (Columns : List Expr)
  | EnumValue (Name Value : Expr)
  | EnumType (Name : Ident) (ListPos ListEnd : Pos) (Values : List Expr)
  | JSONType (Name : Ident) (Options : Option (JSONOptions Expr))
  | AlterTableAddColumn (AddPos StatementEnd : Pos) (Column : Expr) (IfNotExists : Bool)
      (After Settings : Option Expr)
  | AlterTableDropColumn (DropPos : Pos) (ColumnName : Expr) (IfExists : Bool)
  | PartitionClause (PartitionPos : Pos) (expr ID : Option Expr) (All : Bool)
  | SettingExpr (SettingsPos : Pos) (Name : Ident) (expr : Option Expr)
  | SettingsClause (SettingsPos ListEnd : Pos) (Items : List Expr)
  | DictionaryLifetimeClause (LifetimePos : Pos) (Min Max Value : Option Expr)
      (RParenPos : Pos)
  | DictionaryRangeClause (RangePos : Pos) (Min Max : Option Ident) (RParenPos : Pos)
  | DictionaryAttribute (NamePos : Pos) (Name : Ident) (type Default Expression : Option Expr)
      (Hierarchical Injective IsObjectId : Bool)
  | WhenClause (WhenPos ThenPos : Pos) (When Then : Option Expr) (ElsePos : Pos)
      (Else : Option Expr)
  | CaseExpr (CasePos EndPos : Pos) (expr : Option Expr) (Whens : List Expr) (ElsePos : Pos)
      (Else : Option Expr)
  | GroupByClause (GroupByPos GroupByEnd : Pos) (AggregateType : String) (expr : Option Expr)
      (WithCube WithRollup WithTotals : Bool)
  | ClusterClause (OnPos : Pos) (expr : Option Expr)
  | PrivilegeClause (PrivilegePos PrivilegeEnd : Pos) (Keywords : List String)
      (Params : Option Expr)
  | GrantPrivilegeStmt (GrantPos StatementEnd : Pos) (OnCluster : Option Expr)
      (Privileges : List Expr) (On : Expr) (To : List Ident) (WithOptions : List String)
  | TableIndex (IndexPos : Pos) (Name ColumnExpr : Expr) (ColumnType : Option Expr)
      (Granularity : Expr)
  | AlterTableAddIndex (AddPos StatementEnd : Pos) (Index : Expr) (IfNotExists : Bool)
      (After : Option Expr)
  | AlterTableAddProjection (AddPos StatementEnd : Pos) (IfNotExists : Bool)
      (TableProjection : Expr) (After : Option Expr)
  | FormatClause (FormatPos : Pos) (Format : Ident)
  | AssignmentValues (LeftParenPos RightParenPos : Pos) (Values : List Expr)
  | InsertStmt (InsertPos : Pos) (Format : Option Expr) (HasTableKeyword : Bool)
      (Table ColumnNames : Option Expr) (Values : List Expr) (SelectExpr : Option Expr)
  | Node (kind : NodeKind) (nodes : List Expr) (children : List (Option Expr))
      (lists : List (List Expr))

/-! ## Rendering (format.go) -/

/-- Go `(*BinaryOperation).isLogicalOp`, on the fields it reads. -/
def BinaryOperation.isLogicalOp (Operation : TokenKind) (HasGlobal HasNot : Bool) : Bool :=
  if Operation = KeywordAnd ∨ Operation = KeywordOr then true
  else HasGlobal || HasNot

/-- Go `isLogicalBinaryOp`. -/
def isLogicalBinaryOp : Option Expr → Bool
  | some (.BinaryOperation _ op _ g n) => BinaryOperation.isLogicalOp op g n
  | _ => false

/-- The type assertion `_, isSelect := a.Expr.(*SelectQuery)` of `(*AliasExpr).FormatSQL`. -/
def isSelectQuery : Option Expr → Bool
  | some (.SelectQuery ..) => true
  | _ => false

/-- Go `(*Ident).FormatSQL`. -/
def Ident.FormatSQL (i : Ident) (formatter : Formatter) : Formatter :=
  if i.QuoteType = BackTicks then
    ((formatter.WriteByte backtickByte).WriteString i.Name).WriteByte backtickByte
  else if i.QuoteType = DoubleQuote then
    ((formatter.WriteByte doubleQuoteByte).WriteString i.Name).WriteByte doubleQuoteByte
  else if i.QuoteType = SingleQuote then
    ((formatter.WriteByte singleQuoteByte).WriteString i.Name).WriteByte singleQuoteByte
  else
    formatter.WriteString i.Name

/-- The operator part of `(*BinaryOperation).FormatSQL`: the `NOT ` or `GLOBAL ` modifier,
when flagged, and the operator. -/
def BinaryOperation.writeOperator (formatter : Formatter) (Operation : TokenKind)
    (HasGlobal HasNot : Bool) : Formatter :=
  let formatter :=
    if HasNot then formatter.WriteString "NOT "
    else if HasGlobal then formatter.WriteString "GLOBAL "
    else formatter
  formatter.WriteString Operation

/-- The loop of `(*JSONPath).FormatSQL`; `i` is the loop index of the first identifier of
the list. -/
def writeJSONPathIdents (formatter : Formatter) (i : Nat) : List Ident → Formatter
  | [] => formatter
  | ident :: rest =>
      let formatter := if i > 0 then formatter.WriteByte '.' else formatter
      let formatter := ident.FormatSQL formatter
      writeJSONPathIdents formatter (i + 1) rest

/-- Go `(*JSONPath).FormatSQL`. -/
def JSONPath.FormatSQL (j : JSONPath) (formatter : Formatter) : Formatter :=
  writeJSONPathIdents formatter 0 j.Idents

/-- The group in which `(*JSONOptions).FormatSQL` puts an item: 0 for the numeric options
(and for an item with no field set, the fallback of the loop), 1 for the type hints, 2
for the skip options. -/
def JSONOption.group {α : Type} (item : JSONOption α) : Nat :=
  if item.MaxDynamicPaths.isSome ∨ item.MaxDynamicTypes.isSome then 0
  else if item.Column.isSome then 1
  else if item.SkipPath.isSome ∨ item.SkipRegex.isSome then 2
  else 0

/-- The loop over `p.Keywords` of `(*PrivilegeClause).FormatSQL`; `i` is the loop index of
the first keyword of the list. -/
def writeKeywords (formatter : Formatter) (i : Nat) : List String → Formatter
  | [] => formatter
  | keyword :: rest =>
      let formatter := if i > 0 then formatter.WriteByte whitespace else formatter
      let formatter := formatter.WriteString keyword
      writeKeywords formatter (i + 1) rest

/-- The loop over `g.To` of `(*GrantPrivilegeStmt).FormatSQL`; `i` is the loop index of the
first role of the list. -/
def writeRoles (formatter : Formatter) (i : Nat) : List Ident → Formatter
  | [] => formatter
  | role :: rest =>
      let formatter := if i > 0 then formatter.WriteString ", " else formatter
      let formatter := role.FormatSQL formatter
      writeRoles formatter (i + 1) rest

/-- The loop over `g.WithOptions` of `(*GrantPrivilegeStmt).FormatSQL`. -/
def writeGrantOptions (formatter : Formatter) : List String → Formatter
  | [] => formatter
  | option :: rest =>
      let formatter := formatter.WriteString (" WITH " ++ option ++ " OPTION")
      writeGrantOptions formatter rest

/-- The part of `(*DictionaryRangeClause).FormatSQL` between the parentheses. -/
def writeRangeBounds (formatter : Formatter) (Min Max : Option Ident) : Formatter :=
  let formatter := formatter.WriteString "MIN "
  let formatter :=
    match Min with
    | some m => m.FormatSQL formatter
    | none => formatter
  match Max with
  | some m => m.FormatSQL (formatter.WriteString " MAX ")
  | none => formatter

/-- The field `Literal` of a number or string literal, which `(*TopClause).FormatSQL` and
`(*AuthenticationClause).FormatSQL` read through a field of Go type `*NumberLiteral` or
`*StringLiteral`; a node of another kind cannot stand in such a field, and the empty
string is taken for one. -/
def literalOf : Option Expr → String
  | some (.NumberLiteral _ _ Literal _) => Literal
  | some (.StringLiteral _ _ Literal) => Literal
  | _ => ""

/-! ## The node kinds of the generic constructor

Each of the remaining structs of ast.go is a node `Expr.Node kind nodes children lists`:
`kind` names the struct and carries its fields that hold no node, `nodes` holds the
pointer fields that no method tests against `nil`, `children` the other fields that hold
one node, `lists` the slices, each in the order of declaration.  The methods of such a
struct are functions of the values of its fields: a rendering for `FormatSQL`, a
traversal for `Accept`, a position for `Pos` and `End`.

A node that holds fewer `nodes` than its kind has pointer fields of that sort is not a
tree of Go: a method that reads the missing field writes nothing, calls `Accept` on no
field, or has no position.

Five pointer fields are tested against `nil` by some method of ast.go and passed to
`WriteExpr` without a test by `FormatSQL`: `j.Using` of `JoinConstraintClause` (when `j.On` is
`nil`), `s.Select` of `SubQuery`, `s.Distributed` of `SystemFlushExpr` (when `s.Logs` is
unset), `w.Name` and `w.Expr` of `WindowDefinition`.  They are `children`.  When such a
field is `nil`, `WriteExpr` of Go receives an interface that holds a `nil` pointer, calls
`FormatSQL` on it, and the call fails at the first access to a field; the rendering here
writes nothing for the field.  So the rendering is that of Go on every tree on which Go
returns, and a statement about every tree covers them. -/

/-- The effect of a call of `FormatSQL` on the formatter. -/
abbrev Render := Formatter → Formatter

/-- The fields of a node that hold nodes, with a value of type `τ` in the place of every
node: the pointer fields that no method tests against `nil`, the other fields that hold
one node, and the slices. -/
structure Parts (τ : Type) where
  nodes : List τ
  children : List (Option τ)
  lists : List (List τ)

/-- The fields of a node of no kind: nothing. -/
def Parts.empty {τ : Type} : Parts τ := ⟨[], [], []⟩

/-- The field number `i` among the fields that may be `nil`. -/
def Parts.child {τ : Type} (p : Parts τ) (i : Nat) : Option τ := p.children.getD i none

/-- The slice number `i`. -/
def Parts.list {τ : Type} (p : Parts τ) (i : Nat) : List τ := p.lists.getD i []

/-- A value computed from the pointer field number `i`; a node that lacks the field is not
a tree of Go, and `missing` is its value. -/
def Parts.withNode {τ α : Type} (p : Parts τ) (i : Nat) (missing : α) (k : τ → α) : α :=
  match p.nodes[i]? with
  | some x => k x
  | none => missing

/-- The image of the fields under a function of the nodes. -/
def Parts.map {τ υ : Type} (g : τ → υ) (p : Parts τ) : Parts υ :=
  ⟨p.nodes.map g, p.children.map (Option.map g), p.lists.map (List.map g)⟩

/-- The fields of a node together with the fields of the nodes they hold, for the methods
that read a field of a field, such as `a.Items.Items` or `pair.Old`. -/
structure View (τ : Type) where
  parts : Parts τ
  nodeParts : List (Parts τ)
  childParts : List (Parts τ)
  listParts : List (List (Parts τ))

/-- The fields of the pointer field number `i`. -/
def View.nodePart {τ : Type} (v : View τ) (i : Nat) : Parts τ := v.nodeParts.getD i Parts.empty

/-- The fields of the field number `i` among those that may be `nil`; nothing when it is
`nil`. -/
def View.childPart {τ : Type} (v : View τ) (i : Nat) : Parts τ :=
  v.childParts.getD i Parts.empty

/-- The fields of the elements of the slice number `i`. -/
def View.listPart {τ : Type} (v : View τ) (i : Nat) : List (Parts τ) := v.listParts.getD i []

/-- The image of a view under a function of the nodes. -/
def View.map {τ υ : Type} (g : τ → υ) (v : View τ) : View υ :=
  ⟨v.parts.map g, v.nodeParts.map (Parts.map g), v.childParts.map (Parts.map g),
    v.listParts.map (List.map (Parts.map g))⟩

/-- Go `(*Formatter).WriteExpr` on a field given by its rendering: nothing is written for
`nil`. -/
def Render.WriteExpr (formatter : Formatter) : Option Render → Formatter
  | none => formatter
  | some expr => expr formatter

/-- The loop `for i, item := range items { body }`: `body i item` is the body of the loop
for the index `i` and the element `item`; the first argument is the index of the first
element of the list. -/
def Render.forEach {α : Type} (body : Nat → α → Render) : Nat → List α → Render
  | _, [], formatter => formatter
  | i, item :: rest, formatter => Render.forEach body (i + 1) rest (body i item formatter)

/-- The call `formatter.WriteExpr(x.F)` on the pointer field number `i` of an element of a
slice, the element being given by its fields. -/
def Parts.writeNode (p : Parts Render) (i : Nat) : Render :=
  p.withNode i (fun formatter => formatter) fun x => x

/-- Go `strings.ToUpper`, on the letters `a` to `z`; the other bytes are kept. -/
def toUpper (s : String) : String :=
  String.mk (s.data.map Char.toUpper)

/-! ### `FormatSQL` of the node kinds of the generic constructor -/

/-- Go `(*AlterRole).FormatSQL`, on the fields it reads. -/
def AlterRole.FormatSQL (IfExists : Bool) (RoleRenamePairs Settings : List Render)
    (formatter : Formatter) : Formatter :=
  let formatter := formatter.WriteString "ALTER ROLE "
  let formatter := if IfExists then formatter.WriteString "IF EXISTS " else formatter
  let formatter :=
    Render.forEach
      (fun (i : Nat) (roleRenamePair : Render) (formatter : Formatter) =>
        let formatter := if i > 0 then formatter.WriteString ", " else formatter
        roleRenamePair formatter)
      0 RoleRenamePairs formatter
  if Settings.length > 0 then
    let formatter := formatter.WriteString " SETTINGS "
    Render.forEach
      (fun (i : Nat) (setting : Render) (formatter : Formatter) =>
        let formatter := if i > 0 then formatter.WriteString ", " else formatter
        setting formatter)
      0 Settings formatter
  else formatter

/-- Go `(*AlterTableAttachPartition).FormatSQL`, on the fields it reads. -/
def AlterTableAttachPartition.FormatSQL (Partition : Render) (From : Option Render)
    (formatter : Formatter) : Formatter :=
  let formatter := formatter.WriteString "ATTACH "
  let formatter := Partition formatter
  if From.isSome then
    let formatter := formatter.WriteString " FROM "
    Render.WriteExpr formatter From
  else formatter

/-- Go `(*AlterTableClearColumn).FormatSQL`, on the fields it reads. -/
def AlterTableClearColumn.FormatSQL (IfExists : Bool) (ColumnName : Render)
    (PartitionExpr : Option Render) (formatter : Formatter) : Formatter :=
  let formatter := formatter.WriteString "CLEAR COLUMN "
  let formatter := if IfExists then formatter.WriteString "IF EXISTS " else formatter
  let formatter := ColumnName formatter
  if PartitionExpr.isSome then
    let formatter := formatter.WriteString " IN "
    Render.WriteExpr formatter PartitionExpr
  else formatter

/-- Go `(*AlterTableClearIndex).FormatSQL`, on the fields it reads. -/
def AlterTableClearIndex.FormatSQL (IfExists : Bool) (IndexName : Render)
    (PartitionExpr : Option Render) (formatter : Formatter) : Formatter :=
  let formatter := formatter.WriteString "CLEAR INDEX "
  let formatter := if IfExists then formatter.WriteString "IF EXISTS " else formatter
  let formatter := IndexName formatter
  if PartitionExpr.isSome then
    let formatter := formatter.WriteString " IN "
    Render.WriteExpr formatter PartitionExpr
  else formatter

/-- Go `(*AlterTableClearProjection).FormatSQL`, on the fields it reads. -/
def AlterTableClearProjection.FormatSQL (IfExists : Bool) (ProjectionName : Render)
    (PartitionExpr : Option Render) (formatter : Formatter) : Formatter :=
  let formatter := formatter.WriteString "CLEAR PROJECTION "
  let formatter := if IfExists then formatter.WriteString "IF EXISTS " else formatter
  let formatter := ProjectionName formatter
  if PartitionExpr.isSome then
    let formatter := formatter.WriteString " IN "
    Render.WriteExpr formatter PartitionExpr
  else formatter

/-- Go `(*AlterTableDelete).FormatSQL`, on the fields it reads. -/
def AlterTableDelete.FormatSQL (WhereClause : Option Render) (formatter : Formatter) : Formatter :=
  let formatter := formatter.WriteString "DELETE WHERE "
  Render.WriteExpr formatter WhereClause

/-- Go `(*AlterTableDetachPartition).FormatSQL`, on the fields it reads. -/
def AlterTableDetachPartition.FormatSQL (Partition : Render) (Settings : Option Render)
    (formatter : Formatter) : Formatter :=
  let formatter := formatter.WriteString "DETACH "
  let formatter := Partition formatter
  if Settings.isSome then
    let formatter := formatter.Break
    Render.WriteExpr formatter Settings
  else formatter

/-- Go `(*AlterTableDropIndex).FormatSQL`, on the fields it reads. -/
def AlterTableDropIndex.FormatSQL (IndexName : Render) (IfExists : Bool) (formatter : Formatter) :
    Formatter :=
  let formatter := formatter.WriteString "DROP INDEX "
  let formatter := IndexName formatter
  if IfExists then formatter.WriteString " IF EXISTS" else formatter

/-- Go `(*AlterTableDropProjection).FormatSQL`, on the fields it reads. -/
def AlterTableDropProjection.FormatSQL (ProjectionName : Render) (IfExists : Bool)
    (formatter : Formatter) : Formatter :=
  let formatter := formatter.WriteString "DROP PROJECTION "
  let formatter := ProjectionName formatter
  if IfExists then formatter.WriteString " IF EXISTS" else formatter

/-- Go `(*AlterTableFreezePartition).FormatSQL`, on the fields it reads. -/
def AlterTableFreezePartition.FormatSQL (Partition : Option Render) (formatter : Formatter) :
    Formatter :=
  let formatter := formatter.WriteString "FREEZE"
  if Partition.isSome then
    let formatter := formatter.WriteByte whitespace
    Render.WriteExpr formatter Partition
  else formatter

/-- Go `(*AlterTableMaterializeIndex).FormatSQL`, on the fields it reads. -/
def AlterTableMaterializeIndex.FormatSQL (IfExists : Bool) (IndexName : Render)
    (Partition : Option Render) (formatter : Formatter) : Formatter :=
  let formatter := formatter.WriteString "MATERIALIZE INDEX"
  let formatter := if IfExists then formatter.WriteString " IF EXISTS" else formatter
  let formatter := formatter.WriteByte whitespace
  let formatter := IndexName formatter
  if Partition.isSome then
    let formatter := formatter.WriteString " IN "
    Render.WriteExpr formatter Partition
  else formatter

/-- Go `(*AlterTableMaterializeProjection).FormatSQL`, on the fields it reads. -/
def AlterTableMaterializeProjection.FormatSQL (IfExists : Bool) (ProjectionName : Render)
    (Partition : Option Render) (formatter : Formatter) : Formatter :=
  let formatter := formatter.WriteString "MATERIALIZE PROJECTION"
  let formatter := if IfExists then formatter.WriteString " IF EXISTS" else formatter
  let formatter := formatter.WriteByte whitespace
  let formatter := ProjectionName formatter
  if Partition.isSome then
    let formatter := formatter.WriteString " IN "
    Render.WriteExpr formatter Partition
  else formatter

/-- Go `(*AlterTableModifyColumn).FormatSQL`, on the fields it reads. -/
def AlterTableModifyColumn.FormatSQL (IfExists : Bool) (Column : Render)
    (RemovePropertyType : Option Render) (formatter : Formatter) : Formatter :=
  let formatter := formatter.WriteString "MODIFY COLUMN "
  let formatter := if IfExists then formatter.WriteString "IF EXISTS " else formatter
  let formatter := Column formatter
  if RemovePropertyType.isSome then
    Render.WriteExpr formatter RemovePropertyType
  else formatter

/-- Go `(*AlterTableModifyQuery).FormatSQL`, on the fields it reads. -/
def AlterTableModifyQuery.FormatSQL (SelectExpr : Render) (formatter : Formatter) : Formatter :=
  let formatter := formatter.WriteString "MODIFY QUERY "
  SelectExpr formatter

/-- Go `(*AlterTableModifySetting).FormatSQL`, on the fields it reads. -/
def AlterTableModifySetting.FormatSQL (Settings : List Render) (formatter : Formatter) :
    Formatter :=
  let formatter := formatter.WriteString "MODIFY SETTING "
  Render.forEach
    (fun (i : Nat) (setting : Render) (formatter : Formatter) =>
      let formatter := if i > 0 then formatter.WriteString ", " else formatter
      setting formatter)
    0 Settings formatter

/-- Go `(*AlterTableModifyTTL).FormatSQL`, on the fields it reads. -/
def AlterTableModifyTTL.FormatSQL (TTL : Render) (formatter : Formatter) : Formatter :=
  let formatter := formatter.WriteString "MODIFY "
  TTL formatter

/-- Go `(*AlterTableRemoveTTL).FormatSQL`, on the fields it reads. -/
def AlterTableRemoveTTL.FormatSQL (formatter : Formatter) : Formatter :=
  formatter.WriteString "REMOVE TTL"

/-- Go `(*AlterTableRenameColumn).FormatSQL`, on the fields it reads. -/
def AlterTableRenameColumn.FormatSQL (IfExists : Bool) (OldColumnName NewColumnName : Render)
    (formatter : Formatter) : Formatter :=
  let formatter := formatter.WriteString "RENAME COLUMN "
  let formatter := if IfExists then formatter.WriteString "IF EXISTS " else formatter
  let formatter := OldColumnName formatter
  let formatter := formatter.WriteString " TO "
  NewColumnName formatter

/-- Go `(*AlterTableReplacePartition).FormatSQL`, on the fields it reads. -/
def AlterTableReplacePartition.FormatSQL (Partition Table : Render) (formatter : Formatter) :
    Formatter :=
  let formatter := formatter.WriteString "REPLACE "
  let formatter := Partition formatter
  let formatter := formatter.WriteString " FROM "
  Table formatter

/-- Go `(*AlterTableResetSetting).FormatSQL`, on the fields it reads. -/
def AlterTableResetSetting.FormatSQL (Settings : List Render) (formatter : Formatter) : Formatter :=
  let formatter := formatter.WriteString "RESET SETTING "
  Render.forEach
    (fun (i : Nat) (setting : Render) (formatter : Formatter) =>
      let formatter := if i > 0 then formatter.WriteString ", " else formatter
      setting formatter)
    0 Settings formatter

/-- Go `(*AlterTableUpdate).FormatSQL`, on the fields it reads. -/
def AlterTableUpdate.FormatSQL (Assignments : List Render) (InPartition WhereClause : Option Render)
    (formatter : Formatter) : Formatter :=
  let formatter := formatter.WriteString "UPDATE "
  let formatter :=
    Render.forEach
      (fun (i : Nat) (assignment : Render) (formatter : Formatter) =>
        let formatter := if i > 0 then formatter.WriteString ", " else formatter
        assignment formatter)
      0 Assignments formatter
  let formatter :=
    if InPartition.isSome then
      let formatter := formatter.WriteString " IN "
      Render.WriteExpr formatter InPartition
    else formatter
  let formatter := formatter.WriteString " WHERE "
  Render.WriteExpr formatter WhereClause

/-- Go `(*ArrayParamList).FormatSQL`, on the fields it reads.  The loop runs over `a.Items.Items`,
the elements of the list that the field `Items` holds. -/
def ArrayParamList.FormatSQL (ItemsItems : List Render) (formatter : Formatter) : Formatter :=
  let formatter := formatter.WriteString "["
  let formatter :=
    Render.forEach
      (fun (i : Nat) (item : Render) (formatter : Formatter) =>
        let formatter := if i > 0 then formatter.WriteString ", " else formatter
        item formatter)
      0 ItemsItems formatter
  formatter.WriteString "]"

/-- Go `(*AuthenticationClause).FormatSQL`, on the fields it reads.  The statements after the early
`return` are the `else` branch; `KerberosRealmLiteral` is `a.KerberosRealm.Literal`. -/
def AuthenticationClause.FormatSQL (NotIdentified : Bool) (AuthType : String)
    (AuthValue LdapServer KerberosRealm : Option Render) (KerberosRealmLiteral : String)
    (IsKerberos : Bool) (formatter : Formatter) : Formatter :=
  if NotIdentified then
    formatter.WriteString "NOT IDENTIFIED"
  else
    let formatter := formatter.WriteString "IDENTIFIED"
    let formatter :=
      if AuthType ≠ "" then
        let formatter := formatter.WriteString " WITH "
        formatter.WriteString AuthType
      else formatter
    let formatter :=
      if AuthValue.isSome then
        let formatter := formatter.WriteString " BY "
        Render.WriteExpr formatter AuthValue
      else formatter
    let formatter :=
      if LdapServer.isSome then
        let formatter := formatter.WriteString " WITH ldap SERVER "
        Render.WriteExpr formatter LdapServer
      else formatter
    if IsKerberos then
      let formatter := formatter.WriteString " WITH kerberos"
      if KerberosRealm.isSome ∧ KerberosRealmLiteral ≠ "" then
        let formatter := formatter.WriteString " REALM "
        Render.WriteExpr formatter KerberosRealm
      else formatter
    else formatter

/-- Go `(*BetweenClause).FormatSQL`, on the fields it reads. -/
def BetweenClause.FormatSQL (expr Between And : Option Render) (formatter : Formatter) :
    Formatter :=
  let formatter :=
    if expr.isSome then
      let formatter := Render.WriteExpr formatter expr
      formatter.WriteString " BETWEEN "
    else formatter.WriteString "BETWEEN "
  let formatter := Render.WriteExpr formatter Between
  let formatter := formatter.WriteString " AND "
  Render.WriteExpr formatter And

/-- Go `(*BoolLiteral).FormatSQL`, on the fields it reads. -/
def BoolLiteral.FormatSQL (Literal : String) (formatter : Formatter) : Formatter :=
  formatter.WriteString Literal

/-- Go `(*CTEStmt).FormatSQL`, on the fields it reads.  The argument `isSelect` is the result of the
type assertion `c.Alias.(*SelectQuery)`. -/
def CTEStmt.FormatSQL (expr Alias : Option Render) (isSelect : Bool) (formatter : Formatter) :
    Formatter :=
  let formatter := Render.WriteExpr formatter expr
  let formatter := formatter.WriteString " AS "
  if isSelect then
    let formatter := formatter.WriteByte '('
    let formatter := Render.WriteExpr formatter Alias
    formatter.WriteByte ')'
  else Render.WriteExpr formatter Alias

/-- Go `(*CastExpr).FormatSQL`, on the fields it reads. -/
def CastExpr.FormatSQL (expr : Option Render) (Separator : String) (AsType : Option Render)
    (formatter : Formatter) : Formatter :=
  let formatter := formatter.WriteString "CAST("
  let formatter := Render.WriteExpr formatter expr
  let formatter :=
    if Separator = "," then
      formatter.WriteString ", "
    else formatter.WriteString " AS "
  let formatter := Render.WriteExpr formatter AsType
  formatter.WriteByte ')'

/-- Go `(*CheckStmt).FormatSQL`, on the fields it reads. -/
def CheckStmt.FormatSQL (Table : Render) (Partition : Option Render) (formatter : Formatter) :
    Formatter :=
  let formatter := formatter.WriteString "CHECK TABLE "
  let formatter := Table formatter
  if Partition.isSome then
    let formatter := formatter.WriteByte whitespace
    Render.WriteExpr formatter Partition
  else formatter

/-- Go `(*ColumnArgList).FormatSQL`, on the fields it reads. -/
def ColumnArgList.FormatSQL (Items : List Render) (formatter : Formatter) : Formatter :=
  let formatter := formatter.WriteByte '('
  let formatter :=
    Render.forEach
      (fun (i : Nat) (item : Render) (formatter : Formatter) =>
        let formatter := if i > 0 then formatter.WriteString ", " else formatter
        item formatter)
      0 Items formatter
  formatter.WriteByte ')'

/-- Go `(*ColumnExprList).FormatSQL`, on the fields it reads. -/
def ColumnExprList.FormatSQL (HasDistinct : Bool) (Items : List Render) (formatter : Formatter) :
    Formatter :=
  let formatter := if HasDistinct then formatter.WriteString "DISTINCT " else formatter
  Render.forEach
    (fun (i : Nat) (item : Render) (formatter : Formatter) =>
      let formatter := item formatter
      if i ≠ Items.length - 1 then formatter.WriteString ", " else formatter)
    0 Items formatter

/-- Go `(*ColumnNamesExpr).FormatSQL`, on the fields it reads.  The two statements `columnExpr :=
column` and `formatter.WriteExpr(&columnExpr)` write the element. -/
def ColumnNamesExpr.FormatSQL (ColumnNames : List Render) (formatter : Formatter) : Formatter :=
  let formatter := formatter.WriteByte '('
  let formatter :=
    Render.forEach
      (fun (i : Nat) (column : Render) (formatter : Formatter) =>
        let formatter := if i > 0 then formatter.WriteString ", " else formatter
        column formatter)
      0 ColumnNames formatter
  formatter.WriteByte ')'

/-- Go `(*ColumnTypeExpr).FormatSQL`, on the fields it reads. -/
def ColumnTypeExpr.FormatSQL (Name : Render) (formatter : Formatter) : Formatter :=
  Name formatter

/-- Go `(*CompressionCodec).FormatSQL`, on the fields it reads. -/
def CompressionCodec.FormatSQL (type TypeLevel Name Level : Option Render) (formatter : Formatter) :
    Formatter :=
  let formatter := formatter.WriteString "CODEC("
  let formatter :=
    if type.isSome then
      let formatter := Render.WriteExpr formatter type
      let formatter :=
        if TypeLevel.isSome then
          let formatter := formatter.WriteByte '('
          let formatter := Render.WriteExpr formatter TypeLevel
          formatter.WriteByte ')'
        else formatter
      let formatter := formatter.WriteByte ','
      formatter.WriteByte whitespace
    else formatter
  let formatter :=
    if Name.isSome then
      let formatter := Render.WriteExpr formatter Name
      if Level.isSome then
        let formatter := formatter.WriteByte '('
        let formatter := Render.WriteExpr formatter Level
        formatter.WriteByte ')'
      else formatter
    else formatter
  formatter.WriteByte ')'

/-- Go `(*ConstraintClause).FormatSQL`, on the fields it reads. -/
def ConstraintClause.FormatSQL (Constraint : Render) (expr : Option Render)
    (formatter : Formatter) : Formatter :=
  let formatter := Constraint formatter
  let formatter := formatter.WriteByte whitespace
  Render.WriteExpr formatter expr

/-- Go `(*CreateDictionary).FormatSQL`, on the fields it reads. -/
def CreateDictionary.FormatSQL (OrReplace : Bool) (Name : Render) (IfNotExists : Bool)
    (UUID OnCluster Schema Engine Comment : Option Render) (formatter : Formatter) : Formatter :=
  let formatter := formatter.WriteString "CREATE "
  let formatter := if OrReplace then formatter.WriteString "OR REPLACE " else formatter
  let formatter := formatter.WriteString "DICTIONARY "
  let formatter :=
    if IfNotExists then
      formatter.WriteString "IF NOT EXISTS "
    else formatter
  let formatter := Name formatter
  let formatter :=
    if UUID.isSome then
      let formatter := formatter.Break
      Render.WriteExpr formatter UUID
    else formatter
  let formatter :=
    if OnCluster.isSome then
      let formatter := formatter.Break
      Render.WriteExpr formatter OnCluster
    else formatter
  let formatter :=
    if Schema.isSome then
      let formatter := formatter.Break
      Render.WriteExpr formatter Schema
    else formatter
  let formatter :=
    if Engine.isSome then
      let formatter := formatter.Break
      Render.WriteExpr formatter Engine
    else formatter
  if Comment.isSome then
    let formatter := formatter.Break
    let formatter := formatter.WriteString "COMMENT "
    Render.WriteExpr formatter Comment
  else formatter

/-- Go `(*CreateFunction).FormatSQL`, on the fields it reads. -/
def CreateFunction.FormatSQL (OrReplace IfNotExists : Bool) (FunctionName : Render)
    (OnCluster : Option Render) (Params : Render) (expr : Option Render) (formatter : Formatter) :
    Formatter :=
  let formatter := formatter.WriteString "CREATE"
  let formatter := if OrReplace then formatter.WriteString " OR REPLACE" else formatter
  let formatter := formatter.WriteString " FUNCTION "
  let formatter :=
    if IfNotExists then
      formatter.WriteString "IF NOT EXISTS "
    else formatter
  let formatter := FunctionName formatter
  let formatter :=
    if OnCluster.isSome then
      let formatter := formatter.WriteByte whitespace
      Render.WriteExpr formatter OnCluster
    else formatter
  let formatter := formatter.WriteString " AS "
  let formatter := Params formatter
  let formatter := formatter.WriteString " -> "
  Render.WriteExpr formatter expr

/-- Go `(*CreateLiveView).FormatSQL`, on the fields it reads. -/
def CreateLiveView.FormatSQL (Name : Render) (IfNotExists : Bool)
    (OnCluster Destination TableSchema WithTimeout SubQuery : Option Render)
    (formatter : Formatter) : Formatter :=
  let formatter := formatter.WriteString "CREATE LIVE VIEW "
  let formatter :=
    if IfNotExists then
      formatter.WriteString "IF NOT EXISTS "
    else formatter
  let formatter := Name formatter
  let formatter :=
    if OnCluster.isSome then
      let formatter := formatter.WriteByte whitespace
      Render.WriteExpr formatter OnCluster
    else formatter
  let formatter :=
    if WithTimeout.isSome then
      let formatter := formatter.WriteByte whitespace
      Render.WriteExpr formatter WithTimeout
    else formatter
  let formatter :=
    if Destination.isSome then
      let formatter := formatter.WriteByte whitespace
      Render.WriteExpr formatter Destination
    else formatter
  let formatter :=
    if TableSchema.isSome then
      let formatter := formatter.WriteByte whitespace
      Render.WriteExpr formatter TableSchema
    else formatter
  if SubQuery.isSome then
    let formatter := formatter.WriteString " AS "
    Render.WriteExpr formatter SubQuery
  else formatter

/-- Go `(*CreateMaterializedView).FormatSQL`, on the fields it reads.  The argument `DependsOnSet`
is the test `c.DependsOn != nil`, `DestinationTableSchema` is `c.Destination.TableSchema`. -/
def CreateMaterializedView.FormatSQL (Name : Render) (IfNotExists : Bool)
    (OnCluster Refresh RandomizeFor : Option Render) (DependsOnSet : Bool) (DependsOn : List Render)
    (Settings : Option Render) (HasAppend : Bool) (Engine : Option Render) (HasEmpty : Bool)
    (Destination DestinationTableSchema SubQuery : Option Render) (Populate : Bool)
    (Comment Definer : Option Render) (SQLSecurity : String) (formatter : Formatter) : Formatter :=
  let formatter := formatter.WriteString "CREATE MATERIALIZED VIEW "
  let formatter :=
    if IfNotExists then
      formatter.WriteString "IF NOT EXISTS "
    else formatter
  let formatter := Name formatter
  let formatter :=
    if OnCluster.isSome then
      let formatter := formatter.Break
      Render.WriteExpr formatter OnCluster
    else formatter
  let formatter :=
    if Refresh.isSome then
      let formatter := formatter.Break
      Render.WriteExpr formatter Refresh
    else formatter
  let formatter :=
    if RandomizeFor.isSome then
      let formatter := formatter.Break
      let formatter := formatter.WriteString "RANDOMIZE FOR "
      Render.WriteExpr formatter RandomizeFor
    else formatter
  let formatter :=
    if DependsOnSet then
      let formatter := formatter.Break
      let formatter := formatter.WriteString "DEPENDS ON "
      Render.forEach
        (fun (i : Nat) (dep : Render) (formatter : Formatter) =>
          let formatter := if i > 0 then formatter.WriteString ", " else formatter
          dep formatter)
        0 DependsOn formatter
    else formatter
  let formatter :=
    if Settings.isSome then
      let formatter := formatter.Break
      Render.WriteExpr formatter Settings
    else formatter
  let formatter :=
    if HasAppend then
      let formatter := formatter.Break
      formatter.WriteString "APPEND"
    else formatter
  let formatter :=
    if Engine.isSome then
      let formatter := formatter.Break
      Render.WriteExpr formatter Engine
    else formatter
  let formatter :=
    if Destination.isSome then
      let formatter := formatter.Break
      let formatter := Render.WriteExpr formatter Destination
      if DestinationTableSchema.isSome then
        let formatter := formatter.Break
        Render.WriteExpr formatter DestinationTableSchema
      else formatter
    else formatter
  let formatter :=
    if HasEmpty then
      let formatter := formatter.Break
      formatter.WriteString "EMPTY"
    else formatter
  let formatter :=
    if Definer.isSome then
      let formatter := formatter.Break
      let formatter := formatter.WriteString "DEFINER = "
      Render.WriteExpr formatter Definer
    else formatter
  let formatter :=
    if SQLSecurity ≠ "" then
      let formatter := formatter.Break
      let formatter := formatter.WriteString "SQL SECURITY "
      formatter.WriteString SQLSecurity
    else formatter
  let formatter :=
    if Populate then
      let formatter := formatter.Break
      formatter.WriteString "POPULATE"
    else formatter
  let formatter :=
    if SubQuery.isSome then
      let formatter := formatter.Break
      let formatter := formatter.WriteString "AS"
      let formatter := formatter.Indent
      let formatter := formatter.Break
      let formatter := Render.WriteExpr formatter SubQuery
      formatter.Dedent
    else formatter
  if Comment.isSome then
    let formatter := formatter.Break
    let formatter := formatter.WriteString "COMMENT "
    Render.WriteExpr formatter Comment
  else formatter

/-- Go `(*CreateNamedCollection).FormatSQL`, on the fields it reads. -/
def CreateNamedCollection.FormatSQL (Name : Render) (IfNotExists : Bool) (OnCluster : Option Render)
    (Params : List Render) (formatter : Formatter) : Formatter :=
  let formatter := formatter.WriteString "CREATE NAMED COLLECTION "
  let formatter :=
    if IfNotExists then
      formatter.WriteString "IF NOT EXISTS "
    else formatter
  let formatter := Name formatter
  let formatter :=
    if OnCluster.isSome then
      let formatter := formatter.WriteByte whitespace
      Render.WriteExpr formatter OnCluster
    else formatter
  let formatter := formatter.WriteString " AS "
  Render.forEach
    (fun (i : Nat) (param : Render) (formatter : Formatter) =>
      let formatter := if i > 0 then formatter.WriteString ", " else formatter
      param formatter)
    0 Params formatter

/-- Go `(*CreateRole).FormatSQL`, on the fields it reads. -/
def CreateRole.FormatSQL (IfNotExists OrReplace : Bool) (RoleNames : List Render)
    (AccessStorageType : Option Render) (Settings : List Render) (formatter : Formatter) :
    Formatter :=
  let formatter := formatter.WriteString "CREATE ROLE "
  let formatter :=
    if IfNotExists then
      formatter.WriteString "IF NOT EXISTS "
    else formatter
  let formatter := if OrReplace then formatter.WriteString "OR REPLACE " else formatter
  let formatter :=
    Render.forEach
      (fun (i : Nat) (roleName : Render) (formatter : Formatter) =>
        let formatter := if i > 0 then formatter.WriteString ", " else formatter
        roleName formatter)
      0 RoleNames formatter
  let formatter :=
    if AccessStorageType.isSome then
      let formatter := formatter.WriteString " IN "
      Render.WriteExpr formatter AccessStorageType
    else formatter
  if Settings.length > 0 then
    let formatter := formatter.WriteString " SETTINGS "
    Render.forEach
      (fun (i : Nat) (setting : Render) (formatter : Formatter) =>
        let formatter := if i > 0 then formatter.WriteString ", " else formatter
        setting formatter)
      0 Settings formatter
  else formatter

/-- Go `(*CreateTable).FormatSQL`, on the fields it reads. -/
def CreateTable.FormatSQL (OrReplace : Bool) (Name : Render) (IfNotExists : Bool)
    (UUID OnCluster TableSchema Engine SubQuery TableFunction : Option Render) (HasTemporary : Bool)
    (Comment : Option Render) (formatter : Formatter) : Formatter :=
  let formatter := formatter.WriteString "CREATE"
  let formatter := if OrReplace then formatter.WriteString " OR REPLACE" else formatter
  let formatter := if HasTemporary then formatter.WriteString " TEMPORARY" else formatter
  let formatter := formatter.WriteString " TABLE "
  let formatter :=
    if IfNotExists then
      formatter.WriteString "IF NOT EXISTS "
    else formatter
  let formatter := Name formatter
  let formatter :=
    if UUID.isSome then
      let formatter := formatter.WriteByte whitespace
      Render.WriteExpr formatter UUID
    else formatter
  let formatter :=
    if OnCluster.isSome then
      let formatter := formatter.WriteByte whitespace
      Render.WriteExpr formatter OnCluster
    else formatter
  let formatter :=
    if TableSchema.isSome then
      let formatter := formatter.Break
      Render.WriteExpr formatter TableSchema
    else formatter
  let formatter :=
    if Engine.isSome then
      let formatter := formatter.Break
      Render.WriteExpr formatter Engine
    else formatter
  let formatter :=
    if SubQuery.isSome then
      let formatter := formatter.Break
      let formatter := formatter.WriteString "AS "
      Render.WriteExpr formatter SubQuery
    else formatter
  let formatter :=
    if TableFunction.isSome then
      let formatter := formatter.Break
      let formatter := formatter.WriteString "AS "
      Render.WriteExpr formatter TableFunction
    else formatter
  if Comment.isSome then
    let formatter := formatter.Break
    let formatter := formatter.WriteString "COMMENT "
    Render.WriteExpr formatter Comment
  else formatter

/-- Go `(*CreateUser).FormatSQL`, on the fields it reads. -/
def CreateUser.FormatSQL (IfNotExists OrReplace : Bool) (UserNames : List Render)
    (Authentication : Option Render) (Hosts : List Render)
    (DefaultRole DefaultDatabase : Option Render) (DefaultDbNone : Bool) (Grantees : Option Render)
    (Settings : List Render) (formatter : Formatter) : Formatter :=
  let formatter := formatter.WriteString "CREATE USER "
  let formatter :=
    if IfNotExists then
      formatter.WriteString "IF NOT EXISTS "
    else formatter
  let formatter := if OrReplace then formatter.WriteString "OR REPLACE " else formatter
  let formatter :=
    Render.forEach
      (fun (i : Nat) (userName : Render) (formatter : Formatter) =>
        let formatter := if i > 0 then formatter.WriteString ", " else formatter
        userName formatter)
      0 UserNames formatter
  let formatter :=
    if Authentication.isSome then
      let formatter := formatter.Break
      Render.WriteExpr formatter Authentication
    else formatter
  let formatter :=
    if Hosts.length > 0 then
      let formatter := formatter.Break
      Render.forEach
        (fun (i : Nat) (host : Render) (formatter : Formatter) =>
          let formatter := if i > 0 then formatter.WriteString ", " else formatter
          host formatter)
        0 Hosts formatter
    else formatter
  let formatter :=
    if DefaultRole.isSome then
      let formatter := formatter.Break
      Render.WriteExpr formatter DefaultRole
    else formatter
  let formatter :=
    if DefaultDatabase.isSome then
      let formatter := formatter.Break
      let formatter := formatter.WriteString "DEFAULT DATABASE "
      Render.WriteExpr formatter DefaultDatabase
    else if DefaultDbNone then
      let formatter := formatter.Break
      formatter.WriteString "DEFAULT DATABASE NONE"
    else formatter
  let formatter :=
    if Grantees.isSome then
      let formatter := formatter.Break
      Render.WriteExpr formatter Grantees
    else formatter
  if Settings.length > 0 then
    let formatter := formatter.Break
    let formatter := formatter.WriteString "SETTINGS"
    let formatter := formatter.Indent
    let formatter :=
      Render.forEach
        (fun (i : Nat) (setting : Render) (formatter : Formatter) =>
          let formatter := formatter.Break
          let formatter := setting formatter
          if i < Settings.length - 1 then
            formatter.WriteString ","
          else formatter)
        0 Settings formatter
    formatter.Dedent
  else formatter

/-- Go `(*CreateView).FormatSQL`, on the fields it reads. -/
def CreateView.FormatSQL (OrReplace : Bool) (Name : Render) (IfNotExists : Bool)
    (UUID OnCluster TableSchema SubQuery : Option Render) (formatter : Formatter) : Formatter :=
  let formatter := formatter.WriteString "CREATE"
  let formatter := if OrReplace then formatter.WriteString " OR REPLACE" else formatter
  let formatter := formatter.WriteString " VIEW "
  let formatter :=
    if IfNotExists then
      formatter.WriteString "IF NOT EXISTS "
    else formatter
  let formatter := Name formatter
  let formatter :=
    if UUID.isSome then
      let formatter := formatter.WriteByte whitespace
      Render.WriteExpr formatter UUID
    else formatter
  let formatter :=
    if OnCluster.isSome then
      let formatter := formatter.WriteByte whitespace
      Render.WriteExpr formatter OnCluster
    else formatter
  let formatter :=
    if TableSchema.isSome then
      let formatter := formatter.WriteByte whitespace
      Render.WriteExpr formatter TableSchema
    else formatter
  if SubQuery.isSome then
    let formatter := formatter.WriteString " AS "
    Render.WriteExpr formatter SubQuery
  else formatter

/-- Go `(*DeduplicateClause).FormatSQL`, on the fields it reads. -/
def DeduplicateClause.FormatSQL (By Except : Option Render) (formatter : Formatter) : Formatter :=
  let formatter := formatter.WriteString " DEDUPLICATE"
  let formatter :=
    if By.isSome then
      let formatter := formatter.WriteString " BY "
      Render.WriteExpr formatter By
    else formatter
  if Except.isSome then
    let formatter := formatter.WriteString " EXCEPT "
    Render.WriteExpr formatter Except
  else formatter

/-- Go `(*DefaultRoleClause).FormatSQL`, on the fields it reads. -/
def DefaultRoleClause.FormatSQL (Roles : List Render) (None : Bool) (formatter : Formatter) :
    Formatter :=
  let formatter := formatter.WriteString "DEFAULT ROLE "
  if None then
    formatter.WriteString "NONE"
  else
    Render.forEach
      (fun (i : Nat) (role : Render) (formatter : Formatter) =>
        let formatter := if i > 0 then formatter.WriteString ", " else formatter
        role formatter)
      0 Roles formatter

/-- Go `(*DeleteClause).FormatSQL`, on the fields it reads. -/
def DeleteClause.FormatSQL (Table : Render) (OnCluster WhereExpr : Option Render)
    (formatter : Formatter) : Formatter :=
  let formatter := formatter.WriteString "DELETE FROM "
  let formatter := Table formatter
  let formatter :=
    if OnCluster.isSome then
      let formatter := formatter.WriteByte whitespace
      Render.WriteExpr formatter OnCluster
    else formatter
  if WhereExpr.isSome then
    let formatter := formatter.WriteString " WHERE "
    Render.WriteExpr formatter WhereExpr
  else formatter

/-- Go `(*DescribeStmt).FormatSQL`, on the fields it reads. -/
def DescribeStmt.FormatSQL (DescribeType : String) (Target : Render) (formatter : Formatter) :
    Formatter :=
  let formatter := formatter.WriteString "DESCRIBE "
  let formatter :=
    if DescribeType ≠ "" then
      let formatter := formatter.WriteString DescribeType
      formatter.WriteByte whitespace
    else formatter
  Target formatter

/-- Go `(*DestinationClause).FormatSQL`, on the fields it reads. -/
def DestinationClause.FormatSQL (TableIdentifier : Render) (formatter : Formatter) : Formatter :=
  let formatter := formatter.WriteString "TO "
  TableIdentifier formatter

/-- Go `(*DictionaryArgExpr).FormatSQL`, on the fields it reads. -/
def DictionaryArgExpr.FormatSQL (Name : Render) (Value : Option Render) (formatter : Formatter) :
    Formatter :=
  let formatter := Name formatter
  let formatter := formatter.WriteByte whitespace
  Render.WriteExpr formatter Value

/-- Go `(*DictionaryEngineClause).FormatSQL`, on the fields it reads.  The closure `breakAndWrite`
is written out at each of its calls; the local variable `needsBreak` is `true` at a test exactly
when one of the fields tested before it is set; `SettingsItems` is `d.Settings.Items`. -/
def DictionaryEngineClause.FormatSQL
    (PrimaryKey Source Lifetime Layout Range Settings : Option Render) (SettingsItems : List Render)
    (formatter : Formatter) : Formatter :=
  let formatter :=
    if PrimaryKey.isSome then
      Render.WriteExpr formatter PrimaryKey
    else formatter
  let formatter :=
    if Source.isSome then
      let formatter := if PrimaryKey.isSome then formatter.Break else formatter
      Render.WriteExpr formatter Source
    else formatter
  let formatter :=
    if Lifetime.isSome then
      let formatter :=
        if PrimaryKey.isSome ∨ Source.isSome then
          formatter.Break
        else formatter
      Render.WriteExpr formatter Lifetime
    else formatter
  let formatter :=
    if Layout.isSome then
      let formatter :=
        if PrimaryKey.isSome ∨ Source.isSome ∨ Lifetime.isSome then
          formatter.Break
        else formatter
      Render.WriteExpr formatter Layout
    else formatter
  let formatter :=
    if Range.isSome then
      let formatter :=
        if PrimaryKey.isSome ∨ Source.isSome ∨ Lifetime.isSome ∨ Layout.isSome then
          formatter.Break
        else formatter
      Render.WriteExpr formatter Range
    else formatter
  if Settings.isSome then
    let formatter :=
      if PrimaryKey.isSome ∨ Source.isSome ∨ Lifetime.isSome ∨ Layout.isSome ∨ Range.isSome then
        formatter.Break
      else formatter
    let formatter := formatter.WriteString "SETTINGS("
    let formatter :=
      Render.forEach
        (fun (i : Nat) (item : Render) (formatter : Formatter) =>
          let formatter := if i > 0 then formatter.WriteString ", " else formatter
          item formatter)
        0 SettingsItems formatter
    formatter.WriteString ")"
  else formatter

/-- Go `(*DictionaryLayoutClause).FormatSQL`, on the fields it reads. -/
def DictionaryLayoutClause.FormatSQL (Layout : Render) (Args : List Render)
    (formatter : Formatter) : Formatter :=
  let formatter := formatter.WriteString "LAYOUT("
  let formatter := Layout formatter
  let formatter := formatter.WriteString "("
  let formatter :=
    Render.forEach
      (fun (i : Nat) (arg : Render) (formatter : Formatter) =>
        let formatter := if i > 0 then formatter.WriteByte whitespace else formatter
        arg formatter)
      0 Args formatter
  formatter.WriteString "))"

/-- Go `(*DictionaryPrimaryKeyClause).FormatSQL`, on the fields it reads. -/
def DictionaryPrimaryKeyClause.FormatSQL (Keys : Render) (formatter : Formatter) : Formatter :=
  let formatter := formatter.WriteString "PRIMARY KEY "
  Keys formatter

/-- Go `(*DictionarySchemaClause).FormatSQL`, on the fields it reads. -/
def DictionarySchemaClause.FormatSQL (Attributes : List Render) (formatter : Formatter) :
    Formatter :=
  let formatter := formatter.WriteByte '('
  let formatter := formatter.Indent
  let formatter :=
    Render.forEach
      (fun (i : Nat) (attr : Render) (formatter : Formatter) =>
        let formatter :=
          if i = 0 then
            formatter.NewLine
          else
            let formatter := formatter.WriteByte ','
            formatter.Break
        attr formatter)
      0 Attributes formatter
  let formatter := formatter.Dedent
  let formatter := formatter.NewLine
  formatter.WriteByte ')'

/-- Go `(*DictionarySourceClause).FormatSQL`, on the fields it reads. -/
def DictionarySourceClause.FormatSQL (Source : Render) (Args : List Render)
    (formatter : Formatter) : Formatter :=
  let formatter := formatter.WriteString "SOURCE("
  let formatter := Source formatter
  let formatter := formatter.WriteString "("
  let formatter :=
    Render.forEach
      (fun (i : Nat) (arg : Render) (formatter : Formatter) =>
        let formatter := if i > 0 then formatter.WriteByte whitespace else formatter
        arg formatter)
      0 Args formatter
  formatter.WriteString "))"

/-- Go `(*DistinctOn).FormatSQL`, on the fields it reads. -/
def DistinctOn.FormatSQL (Idents : List Render) (formatter : Formatter) : Formatter :=
  let formatter := formatter.WriteString "ON ("
  let formatter :=
    Render.forEach
      (fun (i : Nat) (ident : Render) (formatter : Formatter) =>
        let formatter := if i > 0 then formatter.WriteString ", " else formatter
        ident formatter)
      0 Idents formatter
  formatter.WriteByte ')'

/-- Go `(*DropDatabase).FormatSQL`, on the fields it reads. -/
def DropDatabase.FormatSQL (Name : Render) (IfExists : Bool) (OnCluster : Option Render)
    (formatter : Formatter) : Formatter :=
  let formatter := formatter.WriteString "DROP DATABASE "
  let formatter := if IfExists then formatter.WriteString "IF EXISTS " else formatter
  let formatter := Name formatter
  if OnCluster.isSome then
    let formatter := formatter.WriteByte whitespace
    Render.WriteExpr formatter OnCluster
  else formatter

/-- Go `(*DropStmt).FormatSQL`, on the fields it reads. -/
def DropStmt.FormatSQL (DropTarget : String) (Name : Render) (IfExists : Bool)
    (OnCluster : Option Render) (IsTemporary : Bool) (Modifier : String) (formatter : Formatter) :
    Formatter :=
  let formatter := formatter.WriteString "DROP "
  let formatter := if IsTemporary then formatter.WriteString "TEMPORARY " else formatter
  let formatter := formatter.WriteString (DropTarget ++ " ")
  let formatter := if IfExists then formatter.WriteString "IF EXISTS " else formatter
  let formatter := Name formatter
  let formatter :=
    if OnCluster.isSome then
      let formatter := formatter.WriteByte whitespace
      Render.WriteExpr formatter OnCluster
    else formatter
  if Modifier.length ≠ 0 then
    formatter.WriteString (" " ++ Modifier)
  else formatter

/-- Go `(*DropUserOrRole).FormatSQL`, on the fields it reads. -/
def DropUserOrRole.FormatSQL (Target : String) (Names : List Render) (IfExists : Bool)
    (Modifier : String) (From : Option Render) (formatter : Formatter) : Formatter :=
  let formatter := formatter.WriteString ("DROP " ++ Target ++ " ")
  let formatter := if IfExists then formatter.WriteString "IF EXISTS " else formatter
  let formatter :=
    Render.forEach
      (fun (i : Nat) (name : Render) (formatter : Formatter) =>
        let formatter := if i > 0 then formatter.WriteString ", " else formatter
        name formatter)
      0 Names formatter
  let formatter :=
    if Modifier.length ≠ 0 then
      formatter.WriteString (" " ++ Modifier)
    else formatter
  if From.isSome then
    let formatter := formatter.WriteString " FROM "
    Render.WriteExpr formatter From
  else formatter

/-- Go `(*EngineExpr).FormatSQL`, on the fields it reads. -/
def EngineExpr.FormatSQL (Name : String)
    (Params PrimaryKey PartitionBy SampleBy TTL Settings OrderBy : Option Render)
    (formatter : Formatter) : Formatter :=
  let formatter := formatter.WriteString "ENGINE = "
  let formatter := formatter.WriteString Name
  let formatter := if Params.isSome then Render.WriteExpr formatter Params else formatter
  let formatter :=
    if OrderBy.isSome then
      let formatter := formatter.Break
      Render.WriteExpr formatter OrderBy
    else formatter
  let formatter :=
    if PartitionBy.isSome then
      let formatter := formatter.Break
      Render.WriteExpr formatter PartitionBy
    else formatter
  let formatter :=
    if PrimaryKey.isSome then
      let formatter := formatter.Break
      Render.WriteExpr formatter PrimaryKey
    else formatter
  let formatter :=
    if SampleBy.isSome then
      let formatter := formatter.Break
      Render.WriteExpr formatter SampleBy
    else formatter
  let formatter :=
    if TTL.isSome then
      let formatter := formatter.Break
      Render.WriteExpr formatter TTL
    else formatter
  if Settings.isSome then
    let formatter := formatter.Break
    Render.WriteExpr formatter Settings
  else formatter

/-- Go `(*ExplainStmt).FormatSQL`, on the fields it reads. -/
def ExplainStmt.FormatSQL (type : String) (Statement : Option Render) (formatter : Formatter) :
    Formatter :=
  let formatter := formatter.WriteString "EXPLAIN "
  let formatter := formatter.WriteString type
  let formatter := formatter.WriteByte whitespace
  Render.WriteExpr formatter Statement

/-- Go `(*ExtractExpr).FormatSQL`, on the fields it reads. -/
def ExtractExpr.FormatSQL (Parameters : List Render) (formatter : Formatter) : Formatter :=
  let formatter := formatter.WriteString "EXTRACT("
  let formatter :=
    Render.forEach
      (fun (i : Nat) (param : Render) (formatter : Formatter) =>
        let formatter := if i > 0 then formatter.WriteString ", " else formatter
        param formatter)
      0 Parameters formatter
  formatter.WriteByte ')'

/-- Go `(*Fill).FormatSQL`, on the fields it reads. -/
def Fill.FormatSQL (From To Step Staleness : Option Render) (formatter : Formatter) : Formatter :=
  let formatter := formatter.WriteString "WITH FILL"
  let formatter :=
    if From.isSome then
      let formatter := formatter.WriteString " FROM "
      Render.WriteExpr formatter From
    else formatter
  let formatter :=
    if To.isSome then
      let formatter := formatter.WriteString " TO "
      Render.WriteExpr formatter To
    else formatter
  let formatter :=
    if Step.isSome then
      let formatter := formatter.WriteString " STEP "
      Render.WriteExpr formatter Step
    else formatter
  if Staleness.isSome then
    let formatter := formatter.WriteString " STALENESS "
    Render.WriteExpr formatter Staleness
  else formatter

/-- Go `(*FunctionExpr).FormatSQL`, on the fields it reads. -/
def FunctionExpr.FormatSQL (Name Params : Render) (formatter : Formatter) : Formatter :=
  let formatter := Name formatter
  Params formatter

/-- Go `(*GlobalInOperation).FormatSQL`, on the fields it reads. -/
def GlobalInOperation.FormatSQL (expr : Option Render) (formatter : Formatter) : Formatter :=
  let formatter := formatter.WriteString "GLOBAL "
  Render.WriteExpr formatter expr

/-- Go `(*GranteesClause).FormatSQL`, on the fields it reads. -/
def GranteesClause.FormatSQL (Grantees ExceptUsers : List Render) (Any None : Bool)
    (formatter : Formatter) : Formatter :=
  let formatter := formatter.WriteString "GRANTEES "
  let formatter :=
    if Any then
      formatter.WriteString "ANY"
    else if None then
      formatter.WriteString "NONE"
    else
      Render.forEach
        (fun (i : Nat) (grantee : Render) (formatter : Formatter) =>
          let formatter := if i > 0 then formatter.WriteString ", " else formatter
          grantee formatter)
        0 Grantees formatter
  if ExceptUsers.length > 0 then
    let formatter := formatter.Break
    let formatter := formatter.WriteString "EXCEPT "
    Render.forEach
      (fun (i : Nat) (except : Render) (formatter : Formatter) =>
        let formatter := if i > 0 then formatter.WriteString ", " else formatter
        except formatter)
      0 ExceptUsers formatter
  else formatter

/-- Go `(*HostClause).FormatSQL`, on the fields it reads. -/
def HostClause.FormatSQL (HostType : String) (HostValue : Option Render) (formatter : Formatter) :
    Formatter :=
  let formatter := formatter.WriteString "HOST "
  let formatter := formatter.WriteString HostType
  if HostValue.isSome then
    let formatter := formatter.WriteByte whitespace
    Render.WriteExpr formatter HostValue
  else formatter

/-- Go `(*IndexOperation).FormatSQL`, on the fields it reads. -/
def IndexOperation.FormatSQL (Object : Option Render) (Operation : TokenKind)
    (Index : Option Render) (formatter : Formatter) : Formatter :=
  let formatter := Render.WriteExpr formatter Object
  let formatter := formatter.WriteString Operation
  Render.WriteExpr formatter Index

/-- Go `(*InterpolateClause).FormatSQL`, on the fields it reads. -/
def InterpolateClause.FormatSQL (Items : List Render) (formatter : Formatter) : Formatter :=
  let formatter := formatter.WriteString "INTERPOLATE"
  if Items.length > 0 then
    let formatter := formatter.WriteString " ("
    let formatter :=
      Render.forEach
        (fun (idx : Nat) (item : Render) (formatter : Formatter) =>
          let formatter := item formatter
          if idx ≠ Items.length - 1 then
            formatter.WriteString ", "
          else formatter)
        0 Items formatter
    formatter.WriteByte ')'
  else formatter

/-- Go `(*InterpolateItem).FormatSQL`, on the fields it reads. -/
def InterpolateItem.FormatSQL (Column : Render) (expr : Option Render) (formatter : Formatter) :
    Formatter :=
  let formatter := Column formatter
  if expr.isSome then
    let formatter := formatter.WriteString " AS "
    Render.WriteExpr formatter expr
  else formatter

/-- Go `(*IntervalExpr).FormatSQL`, on the fields it reads. -/
def IntervalExpr.FormatSQL (IntervalPos : Pos) (expr : Option Render) (Unit : Render)
    (formatter : Formatter) : Formatter :=
  let formatter :=
    if IntervalPos ≠ 0 then
      formatter.WriteString "INTERVAL "
    else formatter
  let formatter := Render.WriteExpr formatter expr
  let formatter := formatter.WriteByte whitespace
  Unit formatter

/-- Go `(*IntervalFrom).FormatSQL`, on the fields it reads. -/
def IntervalFrom.FormatSQL (Interval : Render) (FromExpr : Option Render) (formatter : Formatter) :
    Formatter :=
  let formatter := Interval formatter
  let formatter := formatter.WriteString " FROM "
  Render.WriteExpr formatter FromExpr

/-- Go `(*IsNotNullExpr).FormatSQL`, on the fields it reads. -/
def IsNotNullExpr.FormatSQL (expr : Option Render) (formatter : Formatter) : Formatter :=
  let formatter := Render.WriteExpr formatter expr
  formatter.WriteString " IS NOT NULL"

/-- Go `(*IsNullExpr).FormatSQL`, on the fields it reads. -/
def IsNullExpr.FormatSQL (expr : Option Render) (formatter : Formatter) : Formatter :=
  let formatter := Render.WriteExpr formatter expr
  formatter.WriteString " IS NULL"

/-- Go `(*JoinConstraintClause).FormatSQL`, on the fields it reads. -/
def JoinConstraintClause.FormatSQL (On Using : Option Render) (formatter : Formatter) : Formatter :=
  if On.isSome then
    let formatter := formatter.WriteString "ON "
    Render.WriteExpr formatter On
  else
    let formatter := formatter.WriteString "USING "
    Render.WriteExpr formatter Using

/-- Go `(*LimitByClause).FormatSQL`, on the fields it reads. -/
def LimitByClause.FormatSQL (Limit ByExpr : Option Render) (formatter : Formatter) : Formatter :=
  let formatter := if Limit.isSome then Render.WriteExpr formatter Limit else formatter
  if ByExpr.isSome then
    let formatter := formatter.WriteString " BY "
    Render.WriteExpr formatter ByExpr
  else formatter

/-- Go `(*LimitClause).FormatSQL`, on the fields it reads. -/
def LimitClause.FormatSQL (Limit Offset : Option Render) (formatter : Formatter) : Formatter :=
  let formatter :=
    if Limit.isSome then
      let formatter := formatter.WriteString "LIMIT "
      let formatter := Render.WriteExpr formatter Limit
      if Offset.isSome then formatter.WriteByte whitespace else formatter
    else formatter
  if Offset.isSome then
    let formatter := formatter.WriteString "OFFSET "
    Render.WriteExpr formatter Offset
  else formatter

/-- Go `(*MapLiteral).FormatSQL`, on the fields it reads.  The slice `m.KeyValues` is given by the
list of its keys and the list of its values; `value.1` is `value.Key`, written by `key := value.Key`
and `formatter.WriteExpr(&key)`, and `value.2` is `value.Value`. -/
def MapLiteral.FormatSQL (Keys Values : List Render) (formatter : Formatter) : Formatter :=
  let formatter := formatter.WriteString "\x7b"
  let formatter :=
    Render.forEach
      (fun (i : Nat) (value : Render × Render) (formatter : Formatter) =>
        let formatter := if i > 0 then formatter.WriteString ", " else formatter
        let formatter := value.1 formatter
        let formatter := formatter.WriteString ": "
        value.2 formatter)
      0 (Keys.zip Values) formatter
  formatter.WriteString "\x7d"

/-- Go `(*NamedCollectionParam).FormatSQL`, on the fields it reads. -/
def NamedCollectionParam.FormatSQL (Name : Render) (Value : Option Render)
    (Overridable NotOverridable : Bool) (formatter : Formatter) : Formatter :=
  let formatter := Name formatter
  let formatter := formatter.WriteString " = "
  let formatter := Render.WriteExpr formatter Value
  if NotOverridable then
    formatter.WriteString " NOT OVERRIDABLE"
  else if Overridable then
    formatter.WriteString " OVERRIDABLE"
  else formatter

/-- Go `(*NamedParameterExpr).FormatSQL`, on the fields it reads. -/
def NamedParameterExpr.FormatSQL (Name : Render) (Value : Option Render) (formatter : Formatter) :
    Formatter :=
  let formatter := Name formatter
  let formatter := formatter.WriteByte '='
  Render.WriteExpr formatter Value

/-- Go `(*NegateExpr).FormatSQL`, on the fields it reads. -/
def NegateExpr.FormatSQL (expr : Option Render) (formatter : Formatter) : Formatter :=
  let formatter := formatter.WriteByte '-'
  Render.WriteExpr formatter expr

/-- Go `(*ObjectParams).FormatSQL`, on the fields it reads. -/
def ObjectParams.FormatSQL (Object : Option Render) (Params : Render) (formatter : Formatter) :
    Formatter :=
  let formatter := Render.WriteExpr formatter Object
  Params formatter

/-- Go `(*OnClause).FormatSQL`, on the fields it reads. -/
def OnClause.FormatSQL (On : Render) (formatter : Formatter) : Formatter :=
  let formatter := formatter.WriteString "ON "
  On formatter

/-- Go `(*OperationExpr).FormatSQL`, on the fields it reads. -/
def OperationExpr.FormatSQL (Kind : TokenKind) (formatter : Formatter) : Formatter :=
  formatter.WriteString ((toUpper Kind))

/-- Go `(*OptimizeStmt).FormatSQL`, on the fields it reads. -/
def OptimizeStmt.FormatSQL (Table : Render) (OnCluster Partition : Option Render) (HasFinal : Bool)
    (Deduplicate : Option Render) (formatter : Formatter) : Formatter :=
  let formatter := formatter.WriteString "OPTIMIZE TABLE "
  let formatter := Table formatter
  let formatter :=
    if OnCluster.isSome then
      let formatter := formatter.WriteByte whitespace
      Render.WriteExpr formatter OnCluster
    else formatter
  let formatter :=
    if Partition.isSome then
      let formatter := formatter.WriteByte whitespace
      Render.WriteExpr formatter Partition
    else formatter
  let formatter := if HasFinal then formatter.WriteString " FINAL" else formatter
  if Deduplicate.isSome then
    Render.WriteExpr formatter Deduplicate
  else formatter

/-- Go `(*OrderByClause).FormatSQL`, on the fields it reads. -/
def OrderByClause.FormatSQL (Items : List Render) (Interpolate : Option Render)
    (formatter : Formatter) : Formatter :=
  let formatter := formatter.WriteString "ORDER BY"
  let formatter := formatter.Indent
  let formatter :=
    Render.forEach
      (fun (i : Nat) (item : Render) (formatter : Formatter) =>
        let formatter :=
          if i = 0 then
            formatter.Break
          else
            let formatter := formatter.WriteByte ','
            formatter.Break
        item formatter)
      0 Items formatter
  let formatter :=
    if Interpolate.isSome then
      let formatter := formatter.Break
      Render.WriteExpr formatter Interpolate
    else formatter
  formatter.Dedent

/-- Go `(*OrderExpr).FormatSQL`, on the fields it reads. -/
def OrderExpr.FormatSQL (expr Alias : Option Render) (Direction : OrderDirection)
    (Fill : Option Render) (formatter : Formatter) : Formatter :=
  let formatter := Render.WriteExpr formatter expr
  let formatter :=
    if Alias.isSome then
      let formatter := formatter.WriteString " AS "
      Render.WriteExpr formatter Alias
    else formatter
  let formatter :=
    if Direction ≠ OrderDirectionNone then
      let formatter := formatter.WriteByte whitespace
      formatter.WriteString Direction
    else formatter
  if Fill.isSome then
    let formatter := formatter.WriteByte whitespace
    Render.WriteExpr formatter Fill
  else formatter

/-- Go `(*ParamExprList).FormatSQL`, on the fields it reads. -/
def ParamExprList.FormatSQL (Items : Render) (ColumnArgList : Option Render)
    (formatter : Formatter) : Formatter :=
  let formatter := formatter.WriteString "("
  let formatter := Items formatter
  let formatter := formatter.WriteString ")"
  if ColumnArgList.isSome then
    Render.WriteExpr formatter ColumnArgList
  else formatter

/-- Go `(*PartitionByClause).FormatSQL`, on the fields it reads. -/
def PartitionByClause.FormatSQL (expr : Option Render) (formatter : Formatter) : Formatter :=
  let formatter := formatter.WriteString "PARTITION BY "
  Render.WriteExpr formatter expr

/-- Go `(*Path).FormatSQL`, on the fields it reads. -/
def Path.FormatSQL (Fields : List Render) (formatter : Formatter) : Formatter :=
  Render.forEach
    (fun (i : Nat) (ident : Render) (formatter : Formatter) =>
      let formatter := if i > 0 then formatter.WriteByte '.' else formatter
      ident formatter)
    0 Fields formatter

/-- Go `(*PlaceHolder).FormatSQL`, on the fields it reads. -/
def PlaceHolder.FormatSQL (type : String) (formatter : Formatter) : Formatter :=
  formatter.WriteString type

/-- Go `(*PrimaryKeyClause).FormatSQL`, on the fields it reads. -/
def PrimaryKeyClause.FormatSQL (expr : Option Render) (formatter : Formatter) : Formatter :=
  let formatter := formatter.WriteString "PRIMARY KEY "
  Render.WriteExpr formatter expr

/-- Go `(*ProjectionOrderByClause).FormatSQL`, on the fields it reads. -/
def ProjectionOrderByClause.FormatSQL (Columns : Render) (formatter : Formatter) : Formatter :=
  let formatter := formatter.WriteString "ORDER BY "
  Columns formatter

/-- Go `(*ProjectionSelectStmt).FormatSQL`, on the fields it reads. -/
def ProjectionSelectStmt.FormatSQL (With : Option Render) (SelectColumns : Render)
    (GroupBy OrderBy : Option Render) (formatter : Formatter) : Formatter :=
  let formatter := formatter.WriteString "("
  let formatter :=
    if With.isSome then
      let formatter := Render.WriteExpr formatter With
      formatter.WriteByte whitespace
    else formatter
  let formatter := formatter.WriteString "SELECT "
  let formatter := SelectColumns formatter
  let formatter :=
    if GroupBy.isSome then
      let formatter := formatter.WriteByte whitespace
      Render.WriteExpr formatter GroupBy
    else formatter
  let formatter :=
    if OrderBy.isSome then
      let formatter := formatter.WriteByte whitespace
      Render.WriteExpr formatter OrderBy
    else formatter
  formatter.WriteString ")"

/-- Go `(*QueryParam).FormatSQL`, on the fields it reads. -/
def QueryParam.FormatSQL (Name : Render) (type : Option Render) (formatter : Formatter) :
    Formatter :=
  let formatter := formatter.WriteString "\x7b"
  let formatter := Name formatter
  let formatter := formatter.WriteString ": "
  let formatter := Render.WriteExpr formatter type
  formatter.WriteString "\x7d"

/-- Go `(*RefreshExpr).FormatSQL`, on the fields it reads. -/
def RefreshExpr.FormatSQL (Frequency : String) (Interval Offset : Option Render)
    (formatter : Formatter) : Formatter :=
  let formatter := formatter.WriteString "REFRESH "
  let formatter := formatter.WriteString Frequency
  let formatter :=
    if Interval.isSome then
      let formatter := formatter.WriteByte whitespace
      Render.WriteExpr formatter Interval
    else formatter
  if Offset.isSome then
    let formatter := formatter.WriteString " OFFSET "
    Render.WriteExpr formatter Offset
  else formatter

/-- Go `(*RemovePropertyType).FormatSQL`, on the fields it reads. -/
def RemovePropertyType.FormatSQL (PropertyType : Option Render) (formatter : Formatter) :
    Formatter :=
  let formatter := formatter.WriteString " REMOVE "
  Render.WriteExpr formatter PropertyType

/-- Go `(*RenameStmt).FormatSQL`, on the fields it reads.  An element of `r.TargetPairList` is given
by its fields: `pair.writeNode 0` is `formatter.WriteExpr(pair.Old)` and `pair.writeNode 1` is
`formatter.WriteExpr(pair.New)`. -/
def RenameStmt.FormatSQL (RenameTarget : String) (TargetPairList : List (Parts Render))
    (OnCluster : Option Render) (formatter : Formatter) : Formatter :=
  let formatter := formatter.WriteString (("RENAME " ++ RenameTarget ++ " "))
  let formatter :=
    Render.forEach
      (fun (i : Nat) (pair : Parts Render) (formatter : Formatter) =>
        let formatter := if i > 0 then formatter.WriteString ", " else formatter
        let formatter := pair.writeNode 0 formatter
        let formatter := formatter.WriteString " TO "
        pair.writeNode 1 formatter)
      0 TargetPairList formatter
  if OnCluster.isSome then
    let formatter := formatter.WriteByte whitespace
    Render.WriteExpr formatter OnCluster
  else formatter

/-- Go `(*RoleName).FormatSQL`, on the fields it reads. -/
def RoleName.FormatSQL (Name Scope OnCluster : Option Render) (formatter : Formatter) : Formatter :=
  let formatter := Render.WriteExpr formatter Name
  let formatter :=
    if Scope.isSome then
      let formatter := formatter.WriteString "@"
      Render.WriteExpr formatter Scope
    else formatter
  if OnCluster.isSome then
    let formatter := formatter.WriteByte whitespace
    Render.WriteExpr formatter OnCluster
  else formatter

/-- Go `(*RoleRenamePair).FormatSQL`, on the fields it reads. -/
def RoleRenamePair.FormatSQL (RoleName : Render) (NewName : Option Render) (formatter : Formatter) :
    Formatter :=
  let formatter := RoleName formatter
  if NewName.isSome then
    let formatter := formatter.WriteString " RENAME TO "
    Render.WriteExpr formatter NewName
  else formatter

/-- Go `(*RoleSetting).FormatSQL`, on the fields it reads. -/
def RoleSetting.FormatSQL (SettingPairs : List Render) (Modifier : Option Render)
    (formatter : Formatter) : Formatter :=
  let formatter :=
    Render.forEach
      (fun (i : Nat) (settingPair : Render) (formatter : Formatter) =>
        let formatter := if i > 0 then formatter.WriteByte whitespace else formatter
        settingPair formatter)
      0 SettingPairs formatter
  if Modifier.isSome then
    let formatter :=
      if SettingPairs.length > 0 then
        formatter.WriteByte whitespace
      else formatter
    Render.WriteExpr formatter Modifier
  else formatter

/-- Go `(*SampleByClause).FormatSQL`, on the fields it reads. -/
def SampleByClause.FormatSQL (expr : Option Render) (formatter : Formatter) : Formatter :=
  let formatter := formatter.WriteString "SAMPLE BY "
  Render.WriteExpr formatter expr

/-- Go `(*SetStmt).FormatSQL`, on the fields it reads.  The loop runs over `s.Settings.Items`, the
items of the clause that the field `Settings` holds. -/
def SetStmt.FormatSQL (SettingsItems : List Render) (formatter : Formatter) : Formatter :=
  let formatter := formatter.WriteString "SET "
  Render.forEach
    (fun (i : Nat) (item : Render) (formatter : Formatter) =>
      let formatter := if i > 0 then formatter.WriteString ", " else formatter
      item formatter)
    0 SettingsItems formatter

/-- Go `(*SettingPair).FormatSQL`, on the fields it reads. -/
def SettingPair.FormatSQL (Name : Render) (Operation : TokenKind) (Value : Option Render)
    (formatter : Formatter) : Formatter :=
  let formatter := Name formatter
  if Value.isSome then
    let formatter :=
      if Operation = TokenKindSingleEQ then
        formatter.WriteString Operation
      else formatter.WriteByte whitespace
    Render.WriteExpr formatter Value
  else formatter

/-- Go `(*ShowStmt).FormatSQL`, on the fields it reads. -/
def ShowStmt.FormatSQL (ShowType : String) (Target : Option Render) (NotLike : Bool)
    (LikeType : String) (LikePattern Limit OutFile Format : Option Render) (formatter : Formatter) :
    Formatter :=
  let formatter := formatter.WriteString "SHOW "
  let formatter := formatter.WriteString ShowType
  let formatter :=
    if Target.isSome then
      let formatter := formatter.WriteByte whitespace
      Render.WriteExpr formatter Target
    else formatter
  let formatter :=
    if LikeType ≠ "" ∧ LikePattern.isSome = true then
      let formatter :=
        if NotLike then
          formatter.WriteString " NOT "
        else formatter.WriteByte whitespace
      let formatter := formatter.WriteString LikeType
      let formatter := formatter.WriteByte whitespace
      Render.WriteExpr formatter LikePattern
    else formatter
  let formatter :=
    if Limit.isSome then
      let formatter := formatter.WriteString " LIMIT "
      Render.WriteExpr formatter Limit
    else formatter
  let formatter :=
    if OutFile.isSome then
      let formatter := formatter.WriteString " INTO OUTFILE "
      Render.WriteExpr formatter OutFile
    else formatter
  if Format.isSome then
    let formatter := formatter.WriteString " FORMAT "
    Render.WriteExpr formatter Format
  else formatter

/-- Go `(*SubQuery).FormatSQL`, on the fields it reads. -/
def SubQuery.FormatSQL (HasParen : Bool) (Select : Option Render) (formatter : Formatter) :
    Formatter :=
  let formatter := if HasParen then formatter.WriteByte '(' else formatter
  let formatter := Render.WriteExpr formatter Select
  if HasParen then formatter.WriteByte ')' else formatter

/-- Go `(*SystemCtrlExpr).FormatSQL`, on the fields it reads. -/
def SystemCtrlExpr.FormatSQL (Command type : String) (Cluster : Option Render)
    (formatter : Formatter) : Formatter :=
  let formatter := formatter.WriteString Command
  let formatter := formatter.WriteByte whitespace
  let formatter := formatter.WriteString type
  if Cluster.isSome then
    let formatter := formatter.WriteByte whitespace
    Render.WriteExpr formatter Cluster
  else formatter

/-- Go `(*SystemDropExpr).FormatSQL`, on the fields it reads. -/
def SystemDropExpr.FormatSQL (type : String) (formatter : Formatter) : Formatter :=
  let formatter := formatter.WriteString "DROP "
  formatter.WriteString type

/-- Go `(*SystemFlushExpr).FormatSQL`, on the fields it reads. -/
def SystemFlushExpr.FormatSQL (Logs : Bool) (Distributed : Option Render) (formatter : Formatter) :
    Formatter :=
  let formatter := formatter.WriteString "FLUSH "
  if Logs then
    formatter.WriteString "LOGS"
  else Render.WriteExpr formatter Distributed

/-- Go `(*SystemReloadExpr).FormatSQL`, on the fields it reads. -/
def SystemReloadExpr.FormatSQL (Dictionary : Option Render) (type : String)
    (formatter : Formatter) : Formatter :=
  let formatter := formatter.WriteString "RELOAD "
  let formatter := formatter.WriteString type
  if Dictionary.isSome then
    let formatter := formatter.WriteByte whitespace
    Render.WriteExpr formatter Dictionary
  else formatter

/-- Go `(*SystemStmt).FormatSQL`, on the fields it reads. -/
def SystemStmt.FormatSQL (expr : Option Render) (formatter : Formatter) : Formatter :=
  let formatter := formatter.WriteString "SYSTEM"
  let formatter := formatter.WriteByte whitespace
  Render.WriteExpr formatter expr

/-- Go `(*SystemSyncExpr).FormatSQL`, on the fields it reads. -/
def SystemSyncExpr.FormatSQL (Cluster : Render) (formatter : Formatter) : Formatter :=
  let formatter := formatter.WriteString "SYNC "
  Cluster formatter

/-- Go `(*TTLClause).FormatSQL`, on the fields it reads. -/
def TTLClause.FormatSQL (Items : List Render) (formatter : Formatter) : Formatter :=
  let formatter := formatter.WriteString "TTL "
  Render.forEach
    (fun (i : Nat) (item : Render) (formatter : Formatter) =>
      let formatter := if i > 0 then formatter.WriteString ", " else formatter
      item formatter)
    0 Items formatter

/-- Go `(*TableArgListExpr).FormatSQL`, on the fields it reads. -/
def TableArgListExpr.FormatSQL (Args : List Render) (formatter : Formatter) : Formatter :=
  let formatter := formatter.WriteByte '('
  let formatter :=
    Render.forEach
      (fun (i : Nat) (arg : Render) (formatter : Formatter) =>
        let formatter := if i > 0 then formatter.WriteString ", " else formatter
        arg formatter)
      0 Args formatter
  formatter.WriteByte ')'

/-- Go `(*TableFunctionExpr).FormatSQL`, on the fields it reads. -/
def TableFunctionExpr.FormatSQL (Name : Option Render) (Args : Render) (formatter : Formatter) :
    Formatter :=
  let formatter := Render.WriteExpr formatter Name
  Args formatter

/-- Go `(*TableProjection).FormatSQL`, on the fields it reads. -/
def TableProjection.FormatSQL (IncludeProjectionKeyword : Bool) (Identifier Select : Render)
    (formatter : Formatter) : Formatter :=
  let formatter :=
    if IncludeProjectionKeyword then
      formatter.WriteString "PROJECTION "
    else formatter
  let formatter := Identifier formatter
  let formatter := formatter.WriteByte whitespace
  Select formatter

/-- Go `(*TableSchemaClause).FormatSQL`, on the fields it reads. -/
def TableSchemaClause.FormatSQL (Columns : List Render) (AliasTable TableFunction : Option Render)
    (formatter : Formatter) : Formatter :=
  let formatter :=
    if Columns.length > 0 then
      let formatter := formatter.WriteByte '('
      let formatter := formatter.Indent
      let formatter :=
        Render.forEach
          (fun (i : Nat) (column : Render) (formatter : Formatter) =>
            let formatter :=
              if i = 0 then
                formatter.NewLine
              else
                let formatter := formatter.WriteByte ','
                formatter.Break
            column formatter)
          0 Columns formatter
      let formatter := formatter.Dedent
      let formatter := formatter.NewLine
      formatter.WriteByte ')'
    else formatter
  let formatter :=
    if AliasTable.isSome then
      let formatter := formatter.WriteString " AS "
      Render.WriteExpr formatter AliasTable
    else formatter
  if TableFunction.isSome then
    let formatter := formatter.WriteString " AS "
    Render.WriteExpr formatter TableFunction
  else formatter

/-- Go `(*TargetPair).FormatSQL`, on the fields it reads. -/
def TargetPair.FormatSQL (Old New : Render) (formatter : Formatter) : Formatter :=
  let formatter := Old formatter
  let formatter := formatter.WriteString " TO "
  New formatter

/-- Go `(*TopClause).FormatSQL`, on the fields it reads.  The argument `NumberLiteral` is
`t.Number.Literal`. -/
def TopClause.FormatSQL (NumberLiteral : String) (WithTies : Bool) (formatter : Formatter) :
    Formatter :=
  let formatter := formatter.WriteString "TOP "
  let formatter := formatter.WriteString NumberLiteral
  if WithTies then formatter.WriteString " WITH TIES" else formatter

/-- Go `(*TruncateTable).FormatSQL`, on the fields it reads. -/
def TruncateTable.FormatSQL (IsTemporary IfExists : Bool) (Name : Render)
    (OnCluster : Option Render) (formatter : Formatter) : Formatter :=
  let formatter := formatter.WriteString "TRUNCATE "
  let formatter := if IsTemporary then formatter.WriteString "TEMPORARY " else formatter
  let formatter := formatter.WriteString "TABLE "
  let formatter := if IfExists then formatter.WriteString "IF EXISTS " else formatter
  let formatter := Name formatter
  if OnCluster.isSome then
    let formatter := formatter.WriteByte whitespace
    Render.WriteExpr formatter OnCluster
  else formatter

/-- Go `(*TypedPlaceholder).FormatSQL`, on the fields it reads. -/
def TypedPlaceholder.FormatSQL (Name : Render) (type : Option Render) (formatter : Formatter) :
    Formatter :=
  let formatter := formatter.WriteString "\x7b"
  let formatter := Name formatter
  let formatter := formatter.WriteByte ':'
  let formatter := Render.WriteExpr formatter type
  formatter.WriteString "\x7d"

/-- Go `(*UUID).FormatSQL`, on the fields it reads. -/
def UUID.FormatSQL (Value : Render) (formatter : Formatter) : Formatter :=
  let formatter := formatter.WriteString "UUID "
  Value formatter

/-- Go `(*UnaryExpr).FormatSQL`, on the fields it reads. -/
def UnaryExpr.FormatSQL (Kind : TokenKind) (expr : Option Render) (formatter : Formatter) :
    Formatter :=
  let formatter := formatter.WriteString Kind
  let formatter := formatter.WriteByte whitespace
  Render.WriteExpr formatter expr

/-- Go `(*UpdateAssignment).FormatSQL`, on the fields it reads. -/
def UpdateAssignment.FormatSQL (Column : Render) (expr : Option Render) (formatter : Formatter) :
    Formatter :=
  let formatter := Column formatter
  let formatter := formatter.WriteString " = "
  Render.WriteExpr formatter expr

/-- Go `(*UseStmt).FormatSQL`, on the fields it reads. -/
def UseStmt.FormatSQL (Database : Render) (formatter : Formatter) : Formatter :=
  let formatter := formatter.WriteString "USE "
  Database formatter

/-- Go `(*UsingClause).FormatSQL`, on the fields it reads. -/
def UsingClause.FormatSQL (Using : Render) (formatter : Formatter) : Formatter :=
  let formatter := formatter.WriteString "USING "
  Using formatter

/-- Go `(*WindowClause).FormatSQL`, on the fields it reads. -/
def WindowClause.FormatSQL (Windows : List Render) (formatter : Formatter) : Formatter :=
  let formatter := formatter.WriteString "WINDOW "
  Render.forEach
    (fun (i : Nat) (window : Render) (formatter : Formatter) =>
      let formatter := window formatter
      if i ≠ Windows.length - 1 then
        formatter.WriteString ", "
      else formatter)
    0 Windows formatter

/-- Go `(*WindowDefinition).FormatSQL`, on the fields it reads. -/
def WindowDefinition.FormatSQL (Name expr : Option Render) (formatter : Formatter) : Formatter :=
  let formatter := Render.WriteExpr formatter Name
  let formatter := formatter.WriteString " AS "
  Render.WriteExpr formatter expr

/-- Go `(*WindowExpr).FormatSQL`, on the fields it reads.  The local variable `hasPart` is `true` at
the second test exactly when `w.PartitionBy` is set, and at the third exactly when `w.PartitionBy`
or `w.OrderBy` is set. -/
def WindowExpr.FormatSQL (PartitionBy OrderBy Frame : Option Render) (formatter : Formatter) :
    Formatter :=
  let formatter := formatter.WriteByte '('
  let formatter :=
    if PartitionBy.isSome then
      Render.WriteExpr formatter PartitionBy
    else formatter
  let formatter :=
    if OrderBy.isSome then
      let formatter :=
        if PartitionBy.isSome then
          formatter.WriteByte whitespace
        else formatter
      Render.WriteExpr formatter OrderBy
    else formatter
  let formatter :=
    if Frame.isSome then
      let formatter :=
        if PartitionBy.isSome ∨ OrderBy.isSome then
          formatter.WriteByte whitespace
        else formatter
      Render.WriteExpr formatter Frame
    else formatter
  formatter.WriteByte ')'

/-- Go `(*WindowFrameClause).FormatSQL`, on the fields it reads. -/
def WindowFrameClause.FormatSQL (type : String) (Extend : Option Render) (formatter : Formatter) :
    Formatter :=
  let formatter := formatter.WriteString type
  let formatter := formatter.WriteByte whitespace
  Render.WriteExpr formatter Extend

/-- Go `(*WindowFrameCurrentRow).FormatSQL`, on the fields it reads. -/
def WindowFrameCurrentRow.FormatSQL (formatter : Formatter) : Formatter :=
  formatter.WriteString "CURRENT ROW"

/-- Go `(*WindowFrameExtendExpr).FormatSQL`, on the fields it reads. -/
def WindowFrameExtendExpr.FormatSQL (expr : Option Render) (Direction : String)
    (formatter : Formatter) : Formatter :=
  let formatter := Render.WriteExpr formatter expr
  if Direction ≠ "" then
    let formatter := formatter.WriteByte whitespace
    formatter.WriteString Direction
  else formatter

/-- Go `(*WindowFrameNumber).FormatSQL`, on the fields it reads. -/
def WindowFrameNumber.FormatSQL (Number : Render) (Direction : String) (formatter : Formatter) :
    Formatter :=
  let formatter := Number formatter
  let formatter := formatter.WriteByte whitespace
  formatter.WriteString Direction

/-- Go `(*WindowFrameParam).FormatSQL`, on the fields it reads. -/
def WindowFrameParam.FormatSQL (Param : Render) (Direction : String) (formatter : Formatter) :
    Formatter :=
  let formatter := Param formatter
  let formatter := formatter.WriteByte whitespace
  formatter.WriteString Direction

/-- Go `(*WindowFrameUnbounded).FormatSQL`, on the fields it reads. -/
def WindowFrameUnbounded.FormatSQL (Direction : String) (formatter : Formatter) : Formatter :=
  let formatter := formatter.WriteString "UNBOUNDED "
  formatter.WriteString Direction

/-- Go `(*WindowFunctionExpr).FormatSQL`, on the fields it reads. -/
def WindowFunctionExpr.FormatSQL (Function : Render) (OverExpr : Option Render)
    (formatter : Formatter) : Formatter :=
  let formatter := Function formatter
  let formatter := formatter.WriteString " OVER "
  Render.WriteExpr formatter OverExpr

/-- Go `(*WithTimeoutClause).FormatSQL`, on the fields it reads. -/
def WithTimeoutClause.FormatSQL (Number : Render) (formatter : Formatter) : Formatter :=
  let formatter := formatter.WriteString "WITH TIMEOUT "
  Number formatter

/-- Go `FormatSQL` of the node kinds of the generic constructor: the method of the struct
that `kind` names, on the fields of the node (`raw`) and their renderings (`v`). -/
def NodeKind.FormatSQL (kind : NodeKind) (raw : Parts Expr) (v : View Render) : Render :=
  match kind with
  | .AlterRole _ _ IfExists => AlterRole.FormatSQL IfExists (v.parts.list 0) (v.parts.list 1)
  | .AlterTableAttachPartition _ => v.parts.withNode 0 (fun formatter => formatter) fun Partition =>
      AlterTableAttachPartition.FormatSQL Partition (v.parts.child 0)
  | .AlterTableClearColumn _ _ IfExists => v.parts.withNode 0 (fun formatter => formatter) fun
      ColumnName => AlterTableClearColumn.FormatSQL IfExists ColumnName (v.parts.child 0)
  | .AlterTableClearIndex _ _ IfExists => v.parts.withNode 0 (fun formatter => formatter) fun
      IndexName => AlterTableClearIndex.FormatSQL IfExists IndexName (v.parts.child 0)
  | .AlterTableClearProjection _ _ IfExists => v.parts.withNode 0 (fun formatter => formatter) fun
      ProjectionName => AlterTableClearProjection.FormatSQL IfExists ProjectionName (v.parts.child
      0)
  | .AlterTableDelete _ _ => AlterTableDelete.FormatSQL (v.parts.child 0)
  | .AlterTableDetachPartition _ => v.parts.withNode 0 (fun formatter => formatter) fun Partition =>
      AlterTableDetachPartition.FormatSQL Partition (v.parts.child 0)
  | .AlterTableDropIndex _ IfExists => v.parts.withNode 0 (fun formatter => formatter) fun IndexName
      => AlterTableDropIndex.FormatSQL IndexName IfExists
  | .AlterTableDropProjection _ IfExists => v.parts.withNode 0 (fun formatter => formatter) fun
      ProjectionName => AlterTableDropProjection.FormatSQL ProjectionName IfExists
  | .AlterTableFreezePartition _ _ => AlterTableFreezePartition.FormatSQL (v.parts.child 0)
  | .AlterTableMaterializeIndex _ _ IfExists => v.parts.withNode 0 (fun formatter => formatter) fun
      IndexName => AlterTableMaterializeIndex.FormatSQL IfExists IndexName (v.parts.child 0)
  | .AlterTableMaterializeProjection _ _ IfExists => v.parts.withNode 0 (fun formatter => formatter)
      fun ProjectionName => AlterTableMaterializeProjection.FormatSQL IfExists ProjectionName
      (v.parts.child 0)
  | .AlterTableModifyColumn _ _ IfExists => v.parts.withNode 0 (fun formatter => formatter) fun
      Column => AlterTableModifyColumn.FormatSQL IfExists Column (v.parts.child 0)
  | .AlterTableModifyQuery _ _ => v.parts.withNode 0 (fun formatter => formatter) fun SelectExpr =>
      AlterTableModifyQuery.FormatSQL SelectExpr
  | .AlterTableModifySetting _ _ => AlterTableModifySetting.FormatSQL (v.parts.list 0)
  | .AlterTableModifyTTL _ _ => v.parts.withNode 0 (fun formatter => formatter) fun TTL =>
      AlterTableModifyTTL.FormatSQL TTL
  | .AlterTableRemoveTTL _ _ => AlterTableRemoveTTL.FormatSQL
  | .AlterTableRenameColumn _ IfExists => v.parts.withNode 0 (fun formatter => formatter) fun
      OldColumnName => v.parts.withNode 1 (fun formatter => formatter) fun NewColumnName =>
      AlterTableRenameColumn.FormatSQL IfExists OldColumnName NewColumnName
  | .AlterTableReplacePartition _ => v.parts.withNode 0 (fun formatter => formatter) fun Partition
      => v.parts.withNode 1 (fun formatter => formatter) fun Table =>
      AlterTableReplacePartition.FormatSQL Partition Table
  | .AlterTableResetSetting _ _ => AlterTableResetSetting.FormatSQL (v.parts.list 0)
  | .AlterTableUpdate _ _ => AlterTableUpdate.FormatSQL (v.parts.list 0) (v.parts.child 0)
      (v.parts.child 1)
  | .ArrayParamList _ _ => ArrayParamList.FormatSQL ((v.nodePart 0).list 0)
  | .AuthenticationClause _ _ NotIdentified AuthType IsKerberos => AuthenticationClause.FormatSQL
      NotIdentified AuthType (v.parts.child 0) (v.parts.child 1) (v.parts.child 2) (literalOf
      (raw.child 2)) IsKerberos
  | .BetweenClause _ => BetweenClause.FormatSQL (v.parts.child 0) (v.parts.child 1) (v.parts.child
      2)
  | .BoolLiteral _ _ Literal => BoolLiteral.FormatSQL Literal
  | .CTEStmt _ => CTEStmt.FormatSQL (v.parts.child 0) (v.parts.child 1) (isSelectQuery (raw.child
      1))
  | .CastExpr _ Separator _ => CastExpr.FormatSQL (v.parts.child 0) Separator (v.parts.child 1)
  | .CheckStmt _ => v.parts.withNode 0 (fun formatter => formatter) fun Table => CheckStmt.FormatSQL
      Table (v.parts.child 0)
  | .ColumnArgList _ _ _ => ColumnArgList.FormatSQL (v.parts.list 0)
  | .ColumnExprList _ _ HasDistinct => ColumnExprList.FormatSQL HasDistinct (v.parts.list 0)
  | .ColumnNamesExpr _ _ => ColumnNamesExpr.FormatSQL (v.parts.list 0)
  | .ColumnTypeExpr => v.parts.withNode 0 (fun formatter => formatter) fun Name =>
      ColumnTypeExpr.FormatSQL Name
  | .CompressionCodec _ _ => CompressionCodec.FormatSQL (v.parts.child 0) (v.parts.child 1)
      (v.parts.child 2) (v.parts.child 3)
  | .ConstraintClause _ => v.parts.withNode 0 (fun formatter => formatter) fun Constraint =>
      ConstraintClause.FormatSQL Constraint (v.parts.child 0)
  | .CreateDictionary _ _ OrReplace IfNotExists => v.parts.withNode 0 (fun formatter => formatter)
      fun Name => CreateDictionary.FormatSQL OrReplace Name IfNotExists (v.parts.child 0)
      (v.parts.child 1) (v.parts.child 2) (v.parts.child 3) (v.parts.child 4)
  | .CreateFunction _ OrReplace IfNotExists => v.parts.withNode 0 (fun formatter => formatter) fun
      FunctionName => v.parts.withNode 1 (fun formatter => formatter) fun Params =>
      CreateFunction.FormatSQL OrReplace IfNotExists FunctionName (v.parts.child 0) Params
      (v.parts.child 1)
  | .CreateLiveView _ _ IfNotExists => v.parts.withNode 0 (fun formatter => formatter) fun Name =>
      CreateLiveView.FormatSQL Name IfNotExists (v.parts.child 1) (v.parts.child 2) (v.parts.child
      3) (v.parts.child 4) (v.parts.child 5)
  | .CreateMaterializedView _ _ IfNotExists DependsOnSet HasAppend HasEmpty Populate SQLSecurity =>
      v.parts.withNode 0 (fun formatter => formatter) fun Name => CreateMaterializedView.FormatSQL
      Name IfNotExists (v.parts.child 0) (v.parts.child 1) (v.parts.child 2) DependsOnSet
      (v.parts.list 0) (v.parts.child 3) HasAppend (v.parts.child 4) HasEmpty (v.parts.child 5)
      ((v.childPart 5).child 0) (v.parts.child 6) Populate (v.parts.child 7) (v.parts.child 8)
      SQLSecurity
  | .CreateNamedCollection _ _ IfNotExists => v.parts.withNode 0 (fun formatter => formatter) fun
      Name => CreateNamedCollection.FormatSQL Name IfNotExists (v.parts.child 0) (v.parts.list 0)
  | .CreateRole _ _ IfNotExists OrReplace => CreateRole.FormatSQL IfNotExists OrReplace
      (v.parts.list 0) (v.parts.child 0) (v.parts.list 1)
  | .CreateTable _ _ OrReplace IfNotExists HasTemporary => v.parts.withNode 0 (fun formatter =>
      formatter) fun Name => CreateTable.FormatSQL OrReplace Name IfNotExists (v.parts.child 0)
      (v.parts.child 1) (v.parts.child 2) (v.parts.child 3) (v.parts.child 4) (v.parts.child 5)
      HasTemporary (v.parts.child 6)
  | .CreateUser _ _ IfNotExists OrReplace DefaultDbNone => CreateUser.FormatSQL IfNotExists
      OrReplace (v.parts.list 0) (v.parts.child 0) (v.parts.list 1) (v.parts.child 1) (v.parts.child
      2) DefaultDbNone (v.parts.child 3) (v.parts.list 2)
  | .CreateView _ _ OrReplace IfNotExists => v.parts.withNode 0 (fun formatter => formatter) fun
      Name => CreateView.FormatSQL OrReplace Name IfNotExists (v.parts.child 0) (v.parts.child 1)
      (v.parts.child 2) (v.parts.child 3)
  | .DeduplicateClause _ => DeduplicateClause.FormatSQL (v.parts.child 0) (v.parts.child 1)
  | .DefaultRoleClause _ _ None => DefaultRoleClause.FormatSQL (v.parts.list 0) None
  | .DeleteClause _ => v.parts.withNode 0 (fun formatter => formatter) fun Table =>
      DeleteClause.FormatSQL Table (v.parts.child 0) (v.parts.child 1)
  | .DescribeStmt _ _ DescribeType => v.parts.withNode 0 (fun formatter => formatter) fun Target =>
      DescribeStmt.FormatSQL DescribeType Target
  | .DestinationClause _ => v.parts.withNode 0 (fun formatter => formatter) fun TableIdentifier =>
      DestinationClause.FormatSQL TableIdentifier
  | .DictionaryArgExpr _ => v.parts.withNode 0 (fun formatter => formatter) fun Name =>
      DictionaryArgExpr.FormatSQL Name (v.parts.child 0)
  | .DictionaryEngineClause _ => DictionaryEngineClause.FormatSQL (v.parts.child 0) (v.parts.child
      1) (v.parts.child 2) (v.parts.child 3) (v.parts.child 4) (v.parts.child 5) ((v.childPart
      5).list 0)
  | .DictionaryLayoutClause _ _ => v.parts.withNode 0 (fun formatter => formatter) fun Layout =>
      DictionaryLayoutClause.FormatSQL Layout (v.parts.list 0)
  | .DictionaryPrimaryKeyClause _ _ => v.parts.withNode 0 (fun formatter => formatter) fun Keys =>
      DictionaryPrimaryKeyClause.FormatSQL Keys
  | .DictionarySchemaClause _ _ => DictionarySchemaClause.FormatSQL (v.parts.list 0)
  | .DictionarySourceClause _ _ => v.parts.withNode 0 (fun formatter => formatter) fun Source =>
      DictionarySourceClause.FormatSQL Source (v.parts.list 0)
  | .DistinctOn _ _ => DistinctOn.FormatSQL (v.parts.list 0)
  | .DropDatabase _ _ IfExists => v.parts.withNode 0 (fun formatter => formatter) fun Name =>
      DropDatabase.FormatSQL Name IfExists (v.parts.child 0)
  | .DropStmt _ _ DropTarget IfExists IsTemporary Modifier => v.parts.withNode 0 (fun formatter =>
      formatter) fun Name => DropStmt.FormatSQL DropTarget Name IfExists (v.parts.child 0)
      IsTemporary Modifier
  | .DropUserOrRole _ Target _ IfExists Modifier => DropUserOrRole.FormatSQL Target (v.parts.list 0)
      IfExists Modifier (v.parts.child 0)
  | .EngineExpr _ _ Name => EngineExpr.FormatSQL Name (v.parts.child 0) (v.parts.child 1)
      (v.parts.child 2) (v.parts.child 3) (v.parts.child 4) (v.parts.child 5) (v.parts.child 6)
  | .ExplainStmt _ type => ExplainStmt.FormatSQL type (v.parts.child 0)
  | .ExtractExpr _ _ => ExtractExpr.FormatSQL (v.parts.list 0)
  | .Fill _ => Fill.FormatSQL (v.parts.child 0) (v.parts.child 1) (v.parts.child 2) (v.parts.child
      3)
  | .FunctionExpr => v.parts.withNode 0 (fun formatter => formatter) fun Name => v.parts.withNode 1
      (fun formatter => formatter) fun Params => FunctionExpr.FormatSQL Name Params
  | .GlobalInOperation _ => GlobalInOperation.FormatSQL (v.parts.child 0)
  | .GranteesClause _ _ Any None => GranteesClause.FormatSQL (v.parts.list 0) (v.parts.list 1) Any
      None
  | .HostClause _ _ HostType => HostClause.FormatSQL HostType (v.parts.child 0)
  | .IndexOperation Operation => IndexOperation.FormatSQL (v.parts.child 0) Operation (v.parts.child
      1)
  | .InterpolateClause _ _ => InterpolateClause.FormatSQL (v.parts.list 0)
  | .InterpolateItem => v.parts.withNode 0 (fun formatter => formatter) fun Column =>
      InterpolateItem.FormatSQL Column (v.parts.child 0)
  | .IntervalExpr IntervalPos => v.parts.withNode 0 (fun formatter => formatter) fun Unit =>
      IntervalExpr.FormatSQL IntervalPos (v.parts.child 0) Unit
  | .IntervalFrom _ => v.parts.withNode 0 (fun formatter => formatter) fun Interval =>
      IntervalFrom.FormatSQL Interval (v.parts.child 0)
  | .IsNotNullExpr _ => IsNotNullExpr.FormatSQL (v.parts.child 0)
  | .IsNullExpr _ => IsNullExpr.FormatSQL (v.parts.child 0)
  | .JoinConstraintClause _ => JoinConstraintClause.FormatSQL (v.parts.child 0) (v.parts.child 1)
  | .LimitByClause => LimitByClause.FormatSQL (v.parts.child 0) (v.parts.child 1)
  | .LimitClause _ => LimitClause.FormatSQL (v.parts.child 0) (v.parts.child 1)
  | .MapLiteral _ _ => MapLiteral.FormatSQL (v.parts.list 0) (v.parts.list 1)
  | .NamedCollectionParam _ Overridable NotOverridable => v.parts.withNode 0 (fun formatter =>
      formatter) fun Name => NamedCollectionParam.FormatSQL Name (v.parts.child 0) Overridable
      NotOverridable
  | .NamedParameterExpr _ => v.parts.withNode 0 (fun formatter => formatter) fun Name =>
      NamedParameterExpr.FormatSQL Name (v.parts.child 0)
  | .NegateExpr _ => NegateExpr.FormatSQL (v.parts.child 0)
  | .ObjectParams => v.parts.withNode 0 (fun formatter => formatter) fun Params =>
      ObjectParams.FormatSQL (v.parts.child 0) Params
  | .OnClause _ => v.parts.withNode 0 (fun formatter => formatter) fun On => OnClause.FormatSQL On
  | .OperationExpr _ Kind => OperationExpr.FormatSQL Kind
  | .OptimizeStmt _ _ HasFinal => v.parts.withNode 0 (fun formatter => formatter) fun Table =>
      OptimizeStmt.FormatSQL Table (v.parts.child 0) (v.parts.child 1) HasFinal (v.parts.child 2)
  | .OrderByClause _ _ => OrderByClause.FormatSQL (v.parts.list 0) (v.parts.child 0)
  | .OrderExpr _ Direction => OrderExpr.FormatSQL (v.parts.child 0) (v.parts.child 1) Direction
      (v.parts.child 2)
  | .ParamExprList _ _ => v.parts.withNode 0 (fun formatter => formatter) fun Items =>
      ParamExprList.FormatSQL Items (v.parts.child 0)
  | .PartitionByClause _ => PartitionByClause.FormatSQL (v.parts.child 0)
  | .Path => Path.FormatSQL (v.parts.list 0)
  | .PlaceHolder _ _ type => PlaceHolder.FormatSQL type
  | .PrimaryKeyClause _ => PrimaryKeyClause.FormatSQL (v.parts.child 0)
  | .ProjectionOrderByClause _ => v.parts.withNode 0 (fun formatter => formatter) fun Columns =>
      ProjectionOrderByClause.FormatSQL Columns
  | .ProjectionSelectStmt _ _ => v.parts.withNode 0 (fun formatter => formatter) fun SelectColumns
      => ProjectionSelectStmt.FormatSQL (v.parts.child 0) SelectColumns (v.parts.child 1)
      (v.parts.child 2)
  | .QueryParam _ _ => v.parts.withNode 0 (fun formatter => formatter) fun Name =>
      QueryParam.FormatSQL Name (v.parts.child 0)
  | .RefreshExpr _ Frequency => RefreshExpr.FormatSQL Frequency (v.parts.child 0) (v.parts.child 1)
  | .RemovePropertyType _ => RemovePropertyType.FormatSQL (v.parts.child 0)
  | .RenameStmt _ _ RenameTarget => RenameStmt.FormatSQL RenameTarget (v.listPart 0) (v.parts.child
      0)
  | .RoleName => RoleName.FormatSQL (v.parts.child 0) (v.parts.child 1) (v.parts.child 2)
  | .RoleRenamePair _ => v.parts.withNode 0 (fun formatter => formatter) fun RoleName =>
      RoleRenamePair.FormatSQL RoleName (v.parts.child 0)
  | .RoleSetting => RoleSetting.FormatSQL (v.parts.list 0) (v.parts.child 0)
  | .SampleByClause _ => SampleByClause.FormatSQL (v.parts.child 0)
  | .SetStmt _ => SetStmt.FormatSQL ((v.nodePart 0).list 0)
  | .SettingPair Operation => v.parts.withNode 0 (fun formatter => formatter) fun Name =>
      SettingPair.FormatSQL Name Operation (v.parts.child 0)
  | .ShowStmt _ _ ShowType NotLike LikeType => ShowStmt.FormatSQL ShowType (v.parts.child 0) NotLike
      LikeType (v.parts.child 1) (v.parts.child 2) (v.parts.child 3) (v.parts.child 4)
  | .SubQuery HasParen => SubQuery.FormatSQL HasParen (v.parts.child 0)
  | .SystemCtrlExpr _ _ Command type => SystemCtrlExpr.FormatSQL Command type (v.parts.child 0)
  | .SystemDropExpr _ _ type => SystemDropExpr.FormatSQL type
  | .SystemFlushExpr _ _ Logs => SystemFlushExpr.FormatSQL Logs (v.parts.child 0)
  | .SystemReloadExpr _ _ type => SystemReloadExpr.FormatSQL (v.parts.child 0) type
  | .SystemStmt _ => SystemStmt.FormatSQL (v.parts.child 0)
  | .SystemSyncExpr _ => v.parts.withNode 0 (fun formatter => formatter) fun Cluster =>
      SystemSyncExpr.FormatSQL Cluster
  | .TTLClause _ _ => TTLClause.FormatSQL (v.parts.list 0)
  | .TableArgListExpr _ _ => TableArgListExpr.FormatSQL (v.parts.list 0)
  | .TableFunctionExpr => v.parts.withNode 0 (fun formatter => formatter) fun Args =>
      TableFunctionExpr.FormatSQL (v.parts.child 0) Args
  | .TableProjection IncludeProjectionKeyword _ => v.parts.withNode 0 (fun formatter => formatter)
      fun Identifier => v.parts.withNode 1 (fun formatter => formatter) fun Select =>
      TableProjection.FormatSQL IncludeProjectionKeyword Identifier Select
  | .TableSchemaClause _ _ => TableSchemaClause.FormatSQL (v.parts.list 0) (v.parts.child 0)
      (v.parts.child 1)
  | .TargetPair => v.parts.withNode 0 (fun formatter => formatter) fun Old => v.parts.withNode 1
      (fun formatter => formatter) fun New => TargetPair.FormatSQL Old New
  | .TopClause _ _ WithTies => TopClause.FormatSQL (literalOf raw.nodes[0]?) WithTies
  | .TruncateTable _ _ IsTemporary IfExists => v.parts.withNode 0 (fun formatter => formatter) fun
      Name => TruncateTable.FormatSQL IsTemporary IfExists Name (v.parts.child 0)
  | .TypedPlaceholder _ _ => v.parts.withNode 0 (fun formatter => formatter) fun Name =>
      TypedPlaceholder.FormatSQL Name (v.parts.child 0)
  | .UUID => v.parts.withNode 0 (fun formatter => formatter) fun Value => UUID.FormatSQL Value
  | .UnaryExpr _ Kind => UnaryExpr.FormatSQL Kind (v.parts.child 0)
  | .UpdateAssignment _ => v.parts.withNode 0 (fun formatter => formatter) fun Column =>
      UpdateAssignment.FormatSQL Column (v.parts.child 0)
  | .UseStmt _ _ => v.parts.withNode 0 (fun formatter => formatter) fun Database =>
      UseStmt.FormatSQL Database
  | .UsingClause _ => v.parts.withNode 0 (fun formatter => formatter) fun Using =>
      UsingClause.FormatSQL Using
  | .WindowClause _ _ => WindowClause.FormatSQL (v.parts.list 0)
  | .WindowDefinition _ => WindowDefinition.FormatSQL (v.parts.child 0) (v.parts.child 1)
  | .WindowExpr _ _ => WindowExpr.FormatSQL (v.parts.child 0) (v.parts.child 1) (v.parts.child 2)
  | .WindowFrameClause _ type => WindowFrameClause.FormatSQL type (v.parts.child 0)
  | .WindowFrameCurrentRow _ _ => WindowFrameCurrentRow.FormatSQL
  | .WindowFrameExtendExpr Direction _ => WindowFrameExtendExpr.FormatSQL (v.parts.child 0)
      Direction
  | .WindowFrameNumber _ Direction => v.parts.withNode 0 (fun formatter => formatter) fun Number =>
      WindowFrameNumber.FormatSQL Number Direction
  | .WindowFrameParam _ Direction => v.parts.withNode 0 (fun formatter => formatter) fun Param =>
      WindowFrameParam.FormatSQL Param Direction
  | .WindowFrameUnbounded _ _ Direction => WindowFrameUnbounded.FormatSQL Direction
  | .WindowFunctionExpr _ => v.parts.withNode 0 (fun formatter => formatter) fun Function =>
      WindowFunctionExpr.FormatSQL Function (v.parts.child 0)
  | .WithTimeoutClause _ => v.parts.withNode 0 (fun formatter => formatter) fun Number =>
      WithTimeoutClause.FormatSQL Number

mutual

/-- Go `FormatSQL` of each node kind. -/
def Expr.FormatSQL : Expr → Formatter → Formatter
  | .Ident i, formatter => i.FormatSQL formatter
  | .NumberLiteral _ _ Literal _, formatter => formatter.WriteString Literal
  | .StringLiteral _ _ Literal, formatter =>
      let formatter := formatter.WriteByte singleQuoteByte
      let formatter := formatter.WriteString Literal
      formatter.WriteByte singleQuoteByte
  | .NestedIdentifier ident DotIdent, formatter =>
      match DotIdent with
      | some d =>
          let formatter := ident.FormatSQL formatter
          let formatter := formatter.WriteByte '.'
          d.FormatSQL formatter
      | none => ident.FormatSQL formatter
  | .TableIdentifier Database Table, formatter =>
      let formatter :=
        match Database with
        | some d => (d.FormatSQL formatter).WriteByte '.'
        | none => formatter
      Table.FormatSQL formatter
  | .BinaryOperation LeftExpr Operation RightExpr HasGlobal HasNot, formatter =>
      if BinaryOperation.isLogicalOp Operation HasGlobal HasNot
          ∧ formatter.mode = FormatModeBeautify then
        let formatter := writeLogicalOperand formatter LeftExpr
        let formatter := formatter.NewLine
        let formatter := BinaryOperation.writeOperator formatter Operation HasGlobal HasNot
        let formatter := formatter.NewLine
        writeLogicalOperand formatter RightExpr
      else
        let formatter := WriteExpr formatter LeftExpr
        let formatter :=
          if Operation ≠ TokenKindDash then formatter.WriteByte whitespace else formatter
        let formatter := BinaryOperation.writeOperator formatter Operation HasGlobal HasNot
        let formatter :=
          if Operation ≠ TokenKindDash then formatter.WriteByte whitespace else formatter
        WriteExpr formatter RightExpr
  | .NotExpr _ expr, formatter =>
      let formatter := formatter.WriteString "NOT"
      let formatter := formatter.WriteByte whitespace
      WriteExpr formatter expr
  | .AliasExpr expr _ Alias, formatter =>
      let formatter :=
        if isSelectQuery expr then
          let formatter := formatter.WriteByte '('
          let formatter := WriteExpr formatter expr
          formatter.WriteByte ')'
        else WriteExpr formatter expr
      let formatter := formatter.WriteString " AS "
      WriteExpr formatter Alias
  | .ColumnExpr expr Alias, formatter =>
      let formatter := WriteExpr formatter expr
      match Alias with
      | some a => a.FormatSQL (formatter.WriteString " AS ")
      | none => formatter
  | .SelectItem expr Modifiers Alias, formatter =>
      let formatter := WriteExpr formatter expr
      let formatter := writeModifiers formatter Modifiers
      match Alias with
      | some a => a.FormatSQL (formatter.WriteString " AS ")
      | none => formatter
  | .TableExpr _ _ Alias expr HasFinal, formatter =>
      let formatter := WriteExpr formatter expr
      let formatter := writeSpaced formatter Alias
      if HasFinal then formatter.WriteString " FINAL" else formatter
  | .JoinTableExpr Table _ SampleRatio HasFinal, formatter =>
      let formatter := Expr.FormatSQL Table formatter
      let formatter := writeSpaced formatter SampleRatio
      if HasFinal then formatter.WriteString " FINAL" else formatter
  | .JoinExpr _ Left Right _ _, formatter =>
      let formatter := WriteExpr formatter Left
      writeJoinSQL formatter Right
  | .FromClause _ expr, formatter =>
      let formatter := formatter.WriteString "FROM"
      let formatter := formatter.Indent
      let formatter := formatter.Break
      let formatter := WriteExpr formatter expr
      formatter.Dedent
  | .WhereClause _ expr, formatter =>
      let formatter := formatter.WriteString "WHERE"
      if isLogicalBinaryOp expr then
        let formatter := formatter.Break
        WriteExpr formatter expr
      else
        let formatter := formatter.Indent
        let formatter := formatter.Break
        let formatter := WriteExpr formatter expr
        formatter.Dedent
  | .PrewhereClause _ expr, formatter =>
      let formatter := formatter.WriteString "PREWHERE "
      WriteExpr formatter expr
  | .HavingClause _ expr, formatter =>
      let formatter := formatter.WriteString "HAVING "
      WriteExpr formatter expr
  | .SelectQuery _ _ With Top HasDistinct DistinctOn SelectItems From Window Prewhere Where
      GroupBy _ Having OrderBy LimitBy Limit Settings Format UnionAll UnionDistinct Except,
      formatter =>
      let formatter := writeWith formatter With
      let formatter := formatter.WriteString "SELECT"
      let formatter :=
        if HasDistinct then
          let formatter := formatter.WriteString " DISTINCT"
          writeSpaced formatter DistinctOn
        else formatter
      let formatter := writeSpaced formatter Top
      let formatter := formatter.Indent
      let formatter := writeBreakSeparated formatter 0 SelectItems
      let formatter := formatter.Dedent
      let formatter := writeClause formatter From
      let formatter := writeClause formatter Window
      let formatter := writeClause formatter Prewhere
      let formatter := writeClause formatter Where
      let formatter := writeClause formatter GroupBy
      let formatter := writeClause formatter Having
      let formatter := writeClause formatter OrderBy
      let formatter := writeClause formatter LimitBy
      let formatter := writeClause formatter Limit
      let formatter := writeClause formatter Settings
      let formatter := writeClause formatter Format
      if UnionAll.isSome then writeSetOperation formatter "UNION ALL" UnionAll
      else if UnionDistinct.isSome then writeSetOperation formatter "UNION DISTINCT" UnionDistinct
      else writeSetOperation formatter "EXCEPT" Except
  | .WithClause _ _ CTEs, formatter =>
      let formatter := formatter.WriteString "WITH "
      writeCommaSeparated formatter 0 CTEs
  | .TernaryOperation Condition TrueExpr FalseExpr, formatter =>
      let formatter := WriteExpr formatter Condition
      let formatter := formatter.WriteString " ? "
      let formatter := WriteExpr formatter TrueExpr
      let formatter := formatter.WriteString " : "
      WriteExpr formatter FalseExpr
  | .NullLiteral _, formatter => formatter.WriteString "NULL"
  | .NotNullLiteral _ _, formatter => formatter.WriteString "NOT NULL"
  | .ColumnDef _ _ Name type NotNull Nullable DefaultExpr MaterializedExpr AliasExpr Codec TTL
      Comment _, formatter =>
      let formatter := Expr.FormatSQL Name formatter
      let formatter := writeSpaced formatter type
      let formatter :=
        if NotNull.isSome then formatter.WriteString " NOT NULL"
        else if Nullable.isSome then formatter.WriteString " NULL"
        else formatter
      let formatter := writeIntroduced formatter " DEFAULT " DefaultExpr
      let formatter := writeIntroduced formatter " MATERIALIZED " MaterializedExpr
      let formatter := writeIntroduced formatter " ALIAS " AliasExpr
      let formatter := writeSpaced formatter Codec
      let formatter := writeSpaced formatter TTL
      writeIntroduced formatter " COMMENT " Comment
  | .CreateDatabase _ _ Name IfNotExists OnCluster Engine Comment, formatter =>
      let formatter := formatter.WriteString "CREATE DATABASE "
      let formatter :=
        if IfNotExists then formatter.WriteString "IF NOT EXISTS " else formatter
      let formatter := WriteExpr formatter Name
      let formatter := writeSpaced formatter OnCluster
      let formatter := writeClause formatter Engine
      writeIntroduced formatter " COMMENT " Comment
  | .AlterTable _ _ TableIdentifier OnCluster AlterExprs, formatter =>
      let formatter := formatter.WriteString "ALTER TABLE "
      let formatter := Expr.FormatSQL TableIdentifier formatter
      let formatter := writeClause formatter OnCluster
      writeAlterExprs formatter AlterExprs
  | .AlterTableDropPartition _ HasDetached Partition Settings, formatter =>
      let formatter := formatter.WriteString "DROP "
      let formatter :=
        if HasDetached then formatter.WriteString "DETACHED " else formatter
      let formatter := Expr.FormatSQL Partition formatter
      writeClause formatter Settings
  | .TTLPolicyRuleAction _ _ Action Codec, formatter =>
      let formatter := formatter.WriteString Action
      writeSpaced formatter Codec
  | .TTLPolicyRule _ ToVolume ToDisk Action, formatter =>
      if ToVolume.isSome then writeIntroduced formatter "TO VOLUME " ToVolume
      else if ToDisk.isSome then writeIntroduced formatter "TO DISK " ToDisk
      else WriteExpr formatter Action
  | .TTLPolicy Item Where GroupBy, formatter =>
      let formatter := WriteExpr formatter Item
      let formatter := writeSpaced formatter Where
      writeSpaced formatter GroupBy
  | .TTLExpr _ expr Policy, formatter =>
      let formatter := WriteExpr formatter expr
      writeSpaced formatter Policy
  | .RatioExpr Numerator Denominator, formatter =>
      let formatter := Expr.FormatSQL Numerator formatter
      writeIntroduced formatter "/" Denominator
  | .SampleClause _ Ratio Offset, formatter =>
      let formatter := formatter.WriteString "SAMPLE "
      let formatter := Expr.FormatSQL Ratio formatter
      writeIntroduced formatter " OFFSET " Offset
  | .ScalarType Name, formatter => Name.FormatSQL formatter
  | .PropertyType Name, formatter => Name.FormatSQL formatter
  | .TypeWithParams _ _ Name Params, formatter =>
      let formatter := Name.FormatSQL formatter
      let formatter := formatter.WriteByte '('
      let formatter := writeCommaSeparated formatter 0 Params
      formatter.WriteByte ')'
  | .ComplexType _ _ Name Params, formatter =>
      let formatter := Name.FormatSQL formatter
      let formatter := formatter.WriteByte '('
      let formatter := writeCommaSeparated formatter 0 Params
      formatter.WriteByte ')'
  | .NestedType _ _ Name Columns, formatter =>
      let formatter := Name.FormatSQL formatter
      let formatter := formatter.WriteByte '('
      let formatter := writeCommaTerminated formatter Columns
      formatter.WriteByte ')'
  | .EnumValue Name Value, formatter =>
      let formatter := Expr.FormatSQL Name formatter
      let formatter := formatter.WriteByte '='
      Expr.FormatSQL Value formatter
  | .EnumType Name _ _ Values, formatter =>
      let formatter := Name.FormatSQL formatter
      let formatter := formatter.WriteByte '('
      let formatter := writeCommaSeparated formatter 0 Values
      formatter.WriteByte ')'
  | .JSONType Name Options, formatter =>
      let formatter := Name.FormatSQL formatter
      writeJSONOptions formatter Options
  | .AlterTableAddColumn _ _ Column IfNotExists After Settings, formatter =>
      let formatter := formatter.WriteString "ADD COLUMN "
      let formatter :=
        if IfNotExists then formatter.WriteString "IF NOT EXISTS " else formatter
      let formatter := Expr.FormatSQL Column formatter
      let formatter := writeIntroduced formatter " AFTER " After
      writeClause formatter Settings
  | .AlterTableDropColumn _ ColumnName IfExists, formatter =>
      let formatter := formatter.WriteString "DROP COLUMN "
      let formatter := if IfExists then formatter.WriteString "IF EXISTS " else formatter
      Expr.FormatSQL ColumnName formatter
  | .PartitionClause _ expr ID All, formatter =>
      let formatter := formatter.WriteString "PARTITION "
      if ID.isSome then WriteExpr formatter ID
      else if All then formatter.WriteString "ALL"
      else WriteExpr formatter expr
  | .SettingExpr _ Name expr, formatter =>
      let formatter := Name.FormatSQL formatter
      let formatter := formatter.WriteByte '='
      WriteExpr formatter expr
  | .SettingsClause _ _ Items, formatter =>
      let formatter := formatter.WriteString "SETTINGS"
      let formatter := formatter.Indent
      let formatter := writeBreakSeparated formatter 0 Items
      formatter.Dedent
  | .DictionaryLifetimeClause _ Min Max Value _, formatter =>
      let formatter := formatter.WriteString "LIFETIME("
      let formatter :=
        if Value.isSome then WriteExpr formatter Value
        else if Min.isSome ∧ Max.isSome then
          let formatter := formatter.WriteString "MIN "
          let formatter := WriteExpr formatter Min
          let formatter := formatter.WriteString " MAX "
          WriteExpr formatter Max
        else formatter
      formatter.WriteString ")"
  | .DictionaryRangeClause _ Min Max _, formatter =>
      let formatter := formatter.WriteString "RANGE("
      let formatter := writeRangeBounds formatter Min Max
      formatter.WriteString ")"
  | .DictionaryAttribute _ Name type Default Expression Hierarchical Injective IsObjectId,
      formatter =>
      let formatter := Name.FormatSQL formatter
      let formatter := formatter.WriteByte whitespace
      let formatter := WriteExpr formatter type
      let formatter := writeIntroduced formatter " DEFAULT " Default
      let formatter := writeIntroduced formatter " EXPRESSION " Expression
      let formatter :=
        if Hierarchical then formatter.WriteString " HIERARCHICAL" else formatter
      let formatter := if Injective then formatter.WriteString " INJECTIVE" else formatter
      if IsObjectId then formatter.WriteString " IS_OBJECT_ID" else formatter
  | .WhenClause _ _ When Then _ Else, formatter =>
      let formatter := formatter.WriteString "WHEN "
      let formatter := WriteExpr formatter When
      let formatter := formatter.WriteString " THEN "
      let formatter := WriteExpr formatter Then
      writeIntroduced formatter " ELSE " Else
  | .CaseExpr _ _ expr Whens _ Else, formatter =>
      let formatter := formatter.WriteString "CASE"
      let formatter := writeSpaced formatter expr
      let formatter := formatter.Indent
      let formatter := writeWhens formatter Whens
      let formatter :=
        if Else.isSome then
          let formatter := formatter.Break
          let formatter := formatter.WriteString "ELSE "
          WriteExpr formatter Else
        else formatter
      let formatter := formatter.Dedent
      let formatter := formatter.Break
      formatter.WriteString "END"
  | .GroupByClause _ _ AggregateType expr WithCube WithRollup WithTotals, formatter =>
      let formatter := formatter.WriteString "GROUP BY"
      let formatter := formatter.Indent
      let formatter :=
        if AggregateType ≠ "" then
          let formatter := formatter.Break
          formatter.WriteString AggregateType
        else formatter
      let formatter :=
        if expr.isSome then
          let formatter := if AggregateType = "" then formatter.Break else formatter
          WriteExpr formatter expr
        else formatter
      let formatter :=
        if WithCube then
          let formatter := formatter.Break
          formatter.WriteString "WITH CUBE"
        else formatter
      let formatter :=
        if WithRollup then
          let formatter := formatter.Break
          formatter.WriteString "WITH ROLLUP"
        else formatter
      let formatter :=
        if WithTotals then
          let formatter := formatter.Break
          formatter.WriteString "WITH TOTALS"
        else formatter
      formatter.Dedent
  | .ClusterClause _ expr, formatter =>
      let formatter := formatter.WriteString "ON CLUSTER "
      WriteExpr formatter expr
  | .PrivilegeClause _ _ Keywords Params, formatter =>
      let formatter := writeKeywords formatter 0 Keywords
      WriteExpr formatter Params
  | .GrantPrivilegeStmt _ _ OnCluster Privileges On To WithOptions, formatter =>
      let formatter := formatter.WriteString "GRANT "
      let formatter := writeSpaced formatter OnCluster
      let formatter := writeCommaSeparated formatter 0 Privileges
      let formatter := formatter.WriteString " ON "
      let formatter := Expr.FormatSQL On formatter
      let formatter := formatter.WriteString " TO "
      let formatter := writeRoles formatter 0 To
      writeGrantOptions formatter WithOptions
  | .TableIndex _ Name ColumnExpr ColumnType Granularity, formatter =>
      let formatter := formatter.WriteString "INDEX"
      let formatter := formatter.WriteByte whitespace
      let formatter := Expr.FormatSQL Name formatter
      let columnExprStr := (Expr.FormatSQL ColumnExpr NewFormatter).String
      let formatter :=
        if columnExprStr.length > 0 ∧ columnExprStr.data.head? ≠ some '(' then
          formatter.WriteByte whitespace
        else formatter
      let formatter := formatter.WriteString columnExprStr
      let formatter := formatter.WriteByte whitespace
      let formatter := formatter.WriteString "TYPE"
      let formatter := formatter.WriteByte whitespace
      let formatter := WriteExpr formatter ColumnType
      let formatter := formatter.WriteByte whitespace
      let formatter := formatter.WriteString "GRANULARITY"
      let formatter := formatter.WriteByte whitespace
      Expr.FormatSQL Granularity formatter
  | .AlterTableAddIndex _ _ Index IfNotExists After, formatter =>
      let formatter := formatter.WriteString "ADD "
      let formatter := Expr.FormatSQL Index formatter
      let formatter :=
        if IfNotExists then formatter.WriteString "IF NOT EXISTS " else formatter
      writeIntroduced formatter " AFTER " After
  | .AlterTableAddProjection _ _ IfNotExists TableProjection After, formatter =>
      let formatter := formatter.WriteString "ADD PROJECTION "
      let formatter :=
        if IfNotExists then formatter.WriteString "IF NOT EXISTS " else formatter
      let formatter := Expr.FormatSQL TableProjection formatter
      writeIntroduced formatter " AFTER " After
  | .FormatClause _ Format, formatter =>
      let formatter := formatter.WriteString "FORMAT "
      Format.FormatSQL formatter
  | .AssignmentValues _ _ Values, formatter =>
      let formatter := formatter.WriteByte '('
      let formatter := writeCommaSeparated formatter 0 Values
      formatter.WriteByte ')'
  | .InsertStmt _ Format HasTableKeyword Table ColumnNames Values SelectExpr, formatter =>
      let formatter := formatter.WriteString "INSERT INTO "
      let formatter := if HasTableKeyword then formatter.WriteString "TABLE " else formatter
      let formatter := WriteExpr formatter Table
      let formatter :=
        if ColumnNames.isSome then
          let formatter := formatter.Break
          let formatter := formatter.Indent
          let formatter := WriteExpr formatter ColumnNames
          formatter.Dedent
        else formatter
      let formatter := writeSpaced formatter Format
      if SelectExpr.isSome then writeClause formatter SelectExpr
      else if Values.length > 0 then
        let formatter := formatter.Break
        let formatter := formatter.WriteString "VALUES"
        let formatter := formatter.Indent
        let formatter := writeInsertValues formatter Values
        formatter.Dedent
      else formatter
  | .Node kind nodes children lists, formatter =>
      NodeKind.FormatSQL kind ⟨nodes, children, lists⟩
        ⟨⟨formatItems nodes, formatChildren children, formatLists lists⟩,
          formatPartsItems nodes, formatPartsChildren children, formatPartsLists lists⟩
        formatter

/-- The loop over `c.Whens` of `(*CaseExpr).FormatSQL`: a break, then the clause. -/
def writeWhens (formatter : Formatter) : List Expr → Formatter
  | [] => formatter
  | when :: rest =>
      let formatter := formatter.Break
      let formatter := Expr.FormatSQL when formatter
      writeWhens formatter rest

/-- The loop over `i.Values` of `(*InsertStmt).FormatSQL`: a break, the value, and a comma
after every value but the last (`j != len(i.Values)-1`). -/
def writeInsertValues (formatter : Formatter) : List Expr → Formatter
  | [] => formatter
  | value :: rest =>
      let formatter := formatter.Break
      let formatter := Expr.FormatSQL value formatter
      let formatter := if rest.isEmpty then formatter else formatter.WriteByte ','
      writeInsertValues formatter rest

/-- The loop over `n.Columns` of `(*NestedType).FormatSQL`: the column, and `", "` after
every column but the last (`i != len(n.Columns)-1`). -/
def writeCommaTerminated (formatter : Formatter) : List Expr → Formatter
  | [] => formatter
  | column :: rest =>
      let formatter := Expr.FormatSQL column formatter
      let formatter := if rest.isEmpty then formatter else formatter.WriteString ", "
      writeCommaTerminated formatter rest

/-- The pattern `if x != nil { formatter.WriteString(name); formatter.WriteByte('=');
formatter.WriteExpr(x) }` of `(*JSONOption).FormatSQL`. -/
def writeAssigned (formatter : Formatter) (name : String) : Option Expr → Formatter
  | none => formatter
  | some x => Expr.FormatSQL x ((formatter.WriteString name).WriteByte '=')

/-- The last block of `(*JSONOption).FormatSQL`, which writes the type hint when
`j.Column`, its path and its type are all set; `wroteAny` is the value of the local
variable of that name. -/
def writeJSONColumn (formatter : Formatter) (wroteAny : Bool) :
    Option (JSONTypeHint Expr) → Formatter
  | some ⟨some path, some ty⟩ =>
      let formatter := if wroteAny then formatter.WriteByte whitespace else formatter
      let formatter := path.FormatSQL formatter
      let formatter := formatter.WriteByte whitespace
      Expr.FormatSQL ty formatter
  | _ => formatter

/-- Go `(*JSONOption).FormatSQL`.  The local variable `wroteAny` is `true` at the last
block exactly when one of the four fields tested before it is set. -/
def JSONOption.FormatSQL : JSONOption Expr → Formatter → Formatter
  | ⟨SkipPath, SkipRegex, MaxDynamicPaths, MaxDynamicTypes, Column⟩, formatter =>
      let formatter :=
        match SkipPath with
        | some path => path.FormatSQL (formatter.WriteString "SKIP ")
        | none => formatter
      let formatter := writeIntroduced formatter " SKIP REGEXP " SkipRegex
      let formatter := writeAssigned formatter "max_dynamic_paths" MaxDynamicPaths
      let formatter := writeAssigned formatter "max_dynamic_types" MaxDynamicTypes
      writeJSONColumn formatter
        (SkipPath.isSome || SkipRegex.isSome || MaxDynamicPaths.isSome
          || MaxDynamicTypes.isSome)
        Column

/-- The closure `writeItems` of `(*JSONOptions).FormatSQL`, applied to the items of one
group: the loop runs over all the items and skips those of another group, which is the
loop over the slice that holds the items of the group in their original order;
`wroteItem` is the value of the variable of that name when the loop reaches the list. -/
def writeJSONItems (formatter : Formatter) (group : Nat) (wroteItem : Bool) :
    List (JSONOption Expr) → Formatter
  | [] => formatter
  | item :: rest =>
      if item.group = group then
        let formatter := if wroteItem then formatter.WriteString ", " else formatter
        let formatter := JSONOption.FormatSQL item formatter
        writeJSONItems formatter group true rest
      else writeJSONItems formatter group wroteItem rest

/-- The block `if j.Options != nil { j.Options.FormatSQL(formatter) }` of
`(*JSONType).FormatSQL`, with Go `(*JSONOptions).FormatSQL`: the numeric options, then the
type hints, then the skip options; `wroteItem` is `true` once an item has been written. -/
def writeJSONOptions (formatter : Formatter) : Option (JSONOptions Expr) → Formatter
  | none => formatter
  | some ⟨_, _, Items⟩ =>
      let formatter := formatter.WriteByte '('
      let formatter := writeJSONItems formatter 0 false Items
      let formatter :=
        writeJSONItems formatter 1 (Items.any fun item => item.group = 0) Items
      let formatter :=
        writeJSONItems formatter 2
          (Items.any fun item => item.group = 0 ∨ item.group = 1) Items
      formatter.WriteByte ')'

/-- Go `(*Formatter).WriteExpr`: nothing is written for `nil`. -/
def WriteExpr (formatter : Formatter) : Option Expr → Formatter
  | none => formatter
  | some expr => Expr.FormatSQL expr formatter

/-- Go `(*BinaryOperation).writeLogicalOperand`.  The two calls of `WriteExpr` are
written out (nothing for `nil`, `FormatSQL` otherwise) so that the recursion is on a
child of the node; `writeLogicalOperand_eq` states the function in the words of the
source. -/
def writeLogicalOperand (formatter : Formatter) : Option Expr → Formatter
  | none =>
      let formatter := formatter.Indent
      formatter.Dedent
  | some expr =>
      if isLogicalBinaryOp (some expr) then
        Expr.FormatSQL expr formatter
      else
        let formatter := formatter.Indent
        let formatter := Expr.FormatSQL expr formatter
        formatter.Dedent

/-- The loop over `s.Modifiers` of `(*SelectItem).FormatSQL`. -/
def writeModifiers (formatter : Formatter) : List Expr → Formatter
  | [] => formatter
  | modifier :: rest =>
      let formatter := formatter.WriteByte whitespace
      let formatter := Expr.FormatSQL modifier formatter
      writeModifiers formatter rest

/-- The loops over `s.With.CTEs` and `s.SelectItems` of `(*SelectQuery).FormatSQL`;
`i` is the loop index of the first item of the list. -/
def writeBreakSeparated (formatter : Formatter) (i : Nat) : List Expr → Formatter
  | [] => formatter
  | item :: rest =>
      let formatter :=
        if i = 0 then formatter.Break
        else (formatter.WriteByte ',').Break
      let formatter := Expr.FormatSQL item formatter
      writeBreakSeparated formatter (i + 1) rest

/-- The block `if s.With != nil { ... }` of `(*SelectQuery).FormatSQL`; the argument is
`s.With`.  The field has Go type `*WithClause`; a node of another kind cannot stand in it,
and nothing is written for one. -/
def writeWith (formatter : Formatter) : Option Expr → Formatter
  | none => formatter
  | some (.WithClause _ _ CTEs) =>
      let formatter := formatter.WriteString "WITH"
      let formatter := formatter.Indent
      let formatter := writeBreakSeparated formatter 0 CTEs
      let formatter := formatter.Dedent
      formatter.Break
  | some _ => formatter

/-- The loop `for i, x := range xs { if i > 0 { formatter.WriteString(", ") };
formatter.WriteExpr(x) }` of `(*WithClause).FormatSQL`; `i` is the loop index of the first
item of the list. -/
def writeCommaSeparated (formatter : Formatter) (i : Nat) : List Expr → Formatter
  | [] => formatter
  | item :: rest =>
      let formatter := if i > 0 then formatter.WriteString ", " else formatter
      let formatter := Expr.FormatSQL item formatter
      writeCommaSeparated formatter (i + 1) rest

/-- The loop over `a.AlterExprs` of `(*AlterTable).FormatSQL`: a break, the clause, and a
comma after every clause but the last (`i != len(a.AlterExprs)-1`). -/
def writeAlterExprs (formatter : Formatter) : List Expr → Formatter
  | [] => formatter
  | expr :: rest =>
      let formatter := formatter.Break
      let formatter := Expr.FormatSQL expr formatter
      let formatter := if rest.isEmpty then formatter else formatter.WriteString ","
      writeAlterExprs formatter rest

/-- The pattern `if x != nil { formatter.WriteString(keyword); formatter.WriteExpr(x) }` of
the `FormatSQL` methods of `ColumnDef`, `CreateDatabase`, `TTLPolicyRule`, `RatioExpr` and
`SampleClause`. -/
def writeIntroduced (formatter : Formatter) (keyword : String) : Option Expr → Formatter
  | none => formatter
  | some x => Expr.FormatSQL x (formatter.WriteString keyword)

/-- One branch of the chain `if s.UnionAll != nil { ... } else if s.UnionDistinct != nil
{ ... } else if s.Except != nil { ... }` of `(*SelectQuery).FormatSQL`: the keyword between
two breaks, then the query; nothing when the query is `nil`. -/
def writeSetOperation (formatter : Formatter) (keyword : String) : Option Expr → Formatter
  | none => formatter
  | some query =>
      let formatter := formatter.Break
      let formatter := formatter.WriteString keyword
      let formatter := formatter.Break
      Expr.FormatSQL query formatter

/-- The pattern `if x != nil { formatter.WriteByte(whitespace); formatter.WriteExpr(x) }`
of the `FormatSQL` methods of `TableExpr`, `JoinTableExpr`, `SelectQuery`, `ColumnDef`,
`CreateDatabase`, `TTLPolicyRuleAction`, `TTLPolicy` and `TTLExpr`, and of `writeJoinSQL`. -/
def writeSpaced (formatter : Formatter) : Option Expr → Formatter
  | none => formatter
  | some x => Expr.FormatSQL x (formatter.WriteByte whitespace)

/-- The pattern `if s.X != nil { formatter.Break(); formatter.WriteExpr(s.X) }` of the
`FormatSQL` methods of `SelectQuery`, `CreateDatabase`, `AlterTable` and
`AlterTableDropPartition`. -/
def writeClause (formatter : Formatter) : Option Expr → Formatter
  | none => formatter
  | some clause => Expr.FormatSQL clause formatter.Break

/-- Go `writeJoinSQL`, together with the test `if j.Right != nil` that guards each of its
two calls: the argument is the `Right` field of the caller, and nothing is written
when it is `nil`. -/
def writeJoinSQL (formatter : Formatter) : Option Expr → Formatter
  | none => formatter
  | some (.JoinExpr _ Left Right Modifiers Constraints) =>
      let formatter :=
        if Modifiers.length = 0 then
          let formatter := formatter.WriteByte ','
          WriteExpr formatter Left
        else
          let formatter := formatter.Break
          let formatter := formatter.WriteString (" ".intercalate Modifiers)
          let formatter := formatter.Indent
          let formatter := formatter.Break
          let formatter := WriteExpr formatter Left
          let formatter := writeSpaced formatter Constraints
          formatter.Dedent
      writeJoinSQL formatter Right
  | some expr =>
      let formatter := formatter.WriteByte ','
      Expr.FormatSQL expr formatter

/-- The renderings of the nodes of a list. -/
def formatItems : List Expr → List Render
  | [] => []
  | x :: rest => (fun formatter => Expr.FormatSQL x formatter) :: formatItems rest

/-- The renderings of the fields that may be `nil`. -/
def formatChildren : List (Option Expr) → List (Option Render)
  | [] => []
  | none :: rest => none :: formatChildren rest
  | some x :: rest => some (fun formatter => Expr.FormatSQL x formatter) :: formatChildren rest

/-- The renderings of the elements of the slices. -/
def formatLists : List (List Expr) → List (List Render)
  | [] => []
  | xs :: rest => formatItems xs :: formatLists rest

/-- The renderings of the fields of a node, see `Expr.parts`. -/
def formatParts : Expr → Parts Render
  | .Node _ nodes children lists =>
      ⟨formatItems nodes, formatChildren children, formatLists lists⟩
  | .SettingsClause _ _ Items => ⟨[], [], [formatItems Items]⟩
  | _ => Parts.empty

/-- The renderings of the fields of the nodes of a list. -/
def formatPartsItems : List Expr → List (Parts Render)
  | [] => []
  | x :: rest => formatParts x :: formatPartsItems rest

/-- The renderings of the fields of the fields that may be `nil`. -/
def formatPartsChildren : List (Option Expr) → List (Parts Render)
  | [] => []
  | none :: rest => Parts.empty :: formatPartsChildren rest
  | some x :: rest => formatParts x :: formatPartsChildren rest

/-- The renderings of the fields of the elements of the slices. -/
def formatPartsLists : List (List Expr) → List (List (Parts Render))
  | [] => []
  | xs :: rest => formatPartsItems xs :: formatPartsLists rest

end

/-- Go `Format`: renders an expression into compact SQL. -/
def Format (expr : Option Expr) : String :=
  (WriteExpr NewFormatter expr).String

/-! ## Source positions (ast.go: the `Pos()` and `End()` methods)

A call that dereferences `nil` fails in Go; `Pos` and `End` return `none` for it.  A
field access such as `t.ToDisk.LiteralEnd` or `r.Numerator.NumPos` on a child held as an
`Expr` is the `End()` or `Pos()` of the child, which returns that field. -/

/-- The call `x.F.Pos()` or `x.F.End()` on a field that may be `nil`, the field being
given by the position that the call returns: the call fails on `nil`. -/
def positionOf : Option (Option Pos) → Option Pos
  | none => none
  | some position => position

/-- The call `x.F[0].Pos()`: the index is out of range on an empty slice, and the call
fails. -/
def positionOfFirst : List (Option Pos) → Option Pos
  | [] => none
  | position :: _ => position

/-- The call `x.F[len(x.F)-1].End()`: the index is out of range on an empty slice, and the
call fails. -/
def positionOfLast : List (Option Pos) → Option Pos
  | [] => none
  | position :: rest => if rest.isEmpty then position else positionOfLast rest

/-! ### `Pos` and `End` of the node kinds of the generic constructor -/

/-- Go `(*AlterRole).Pos`, on the fields it reads. -/
def AlterRole.Pos (AlterPos : SQLParser.Pos) : Option SQLParser.Pos :=
  some AlterPos

/-- Go `(*AlterRole).End`, on the fields it reads. -/
def AlterRole.End (StatementEnd : SQLParser.Pos) : Option SQLParser.Pos :=
  some StatementEnd

/-- Go `(*AlterTableAttachPartition).Pos`, on the fields it reads. -/
def AlterTableAttachPartition.Pos (AttachPos : SQLParser.Pos) : Option SQLParser.Pos :=
  some AttachPos

/-- Go `(*AlterTableAttachPartition).End`, on the fields it reads. -/
def AlterTableAttachPartition.End (Partition : Option SQLParser.Pos)
    (From : Option (Option SQLParser.Pos)) : Option SQLParser.Pos :=
  if From.isSome then positionOf From
  else Partition

/-- Go `(*AlterTableClearColumn).Pos`, on the fields it reads. -/
def AlterTableClearColumn.Pos (ClearPos : SQLParser.Pos) : Option SQLParser.Pos :=
  some ClearPos

/-- Go `(*AlterTableClearColumn).End`, on the fields it reads. -/
def AlterTableClearColumn.End (StatementEnd : SQLParser.Pos) : Option SQLParser.Pos :=
  some StatementEnd

/-- Go `(*AlterTableClearIndex).Pos`, on the fields it reads. -/
def AlterTableClearIndex.Pos (ClearPos : SQLParser.Pos) : Option SQLParser.Pos :=
  some ClearPos

/-- Go `(*AlterTableClearIndex).End`, on the fields it reads. -/
def AlterTableClearIndex.End (StatementEnd : SQLParser.Pos) : Option SQLParser.Pos :=
  some StatementEnd

/-- Go `(*AlterTableClearProjection).Pos`, on the fields it reads. -/
def AlterTableClearProjection.Pos (ClearPos : SQLParser.Pos) : Option SQLParser.Pos :=
  some ClearPos

/-- Go `(*AlterTableClearProjection).End`, on the fields it reads. -/
def AlterTableClearProjection.End (StatementEnd : SQLParser.Pos) : Option SQLParser.Pos :=
  some StatementEnd

/-- Go `(*AlterTableDelete).Pos`, on the fields it reads. -/
def AlterTableDelete.Pos (DeletePos : SQLParser.Pos) : Option SQLParser.Pos :=
  some DeletePos

/-- Go `(*AlterTableDelete).End`, on the fields it reads. -/
def AlterTableDelete.End (StatementEnd : SQLParser.Pos) : Option SQLParser.Pos :=
  some StatementEnd

/-- Go `(*AlterTableDetachPartition).Pos`, on the fields it reads. -/
def AlterTableDetachPartition.Pos (DetachPos : SQLParser.Pos) : Option SQLParser.Pos :=
  some DetachPos

/-- Go `(*AlterTableDetachPartition).End`, on the fields it reads. -/
def AlterTableDetachPartition.End (Partition : Option SQLParser.Pos) : Option SQLParser.Pos :=
  Partition

/-- Go `(*AlterTableDropIndex).Pos`, on the fields it reads. -/
def AlterTableDropIndex.Pos (DropPos : SQLParser.Pos) : Option SQLParser.Pos :=
  some DropPos

/-- Go `(*AlterTableDropIndex).End`, on the fields it reads. -/
def AlterTableDropIndex.End (IndexName : Option SQLParser.Pos) : Option SQLParser.Pos :=
  IndexName

/-- Go `(*AlterTableDropProjection).Pos`, on the fields it reads. -/
def AlterTableDropProjection.Pos (DropPos : SQLParser.Pos) : Option SQLParser.Pos :=
  some DropPos

/-- Go `(*AlterTableDropProjection).End`, on the fields it reads. -/
def AlterTableDropProjection.End (ProjectionName : Option SQLParser.Pos) : Option SQLParser.Pos :=
  ProjectionName

/-- Go `(*AlterTableFreezePartition).Pos`, on the fields it reads. -/
def AlterTableFreezePartition.Pos (FreezePos : SQLParser.Pos) : Option SQLParser.Pos :=
  some FreezePos

/-- Go `(*AlterTableFreezePartition).End`, on the fields it reads. -/
def AlterTableFreezePartition.End (StatementEnd : SQLParser.Pos) : Option SQLParser.Pos :=
  some StatementEnd

/-- Go `(*AlterTableMaterializeIndex).Pos`, on the fields it reads. -/
def AlterTableMaterializeIndex.Pos (MaterializedPos : SQLParser.Pos) : Option SQLParser.Pos :=
  some MaterializedPos

/-- Go `(*AlterTableMaterializeIndex).End`, on the fields it reads. -/
def AlterTableMaterializeIndex.End (StatementEnd : SQLParser.Pos) : Option SQLParser.Pos :=
  some StatementEnd

/-- Go `(*AlterTableMaterializeProjection).Pos`, on the fields it reads. -/
def AlterTableMaterializeProjection.Pos (MaterializedPos : SQLParser.Pos) : Option SQLParser.Pos :=
  some MaterializedPos

/-- Go `(*AlterTableMaterializeProjection).End`, on the fields it reads. -/
def AlterTableMaterializeProjection.End (StatementEnd : SQLParser.Pos) : Option SQLParser.Pos :=
  some StatementEnd

/-- Go `(*AlterTableModifyColumn).Pos`, on the fields it reads. -/
def AlterTableModifyColumn.Pos (ModifyPos : SQLParser.Pos) : Option SQLParser.Pos :=
  some ModifyPos

/-- Go `(*AlterTableModifyColumn).End`, on the fields it reads. -/
def AlterTableModifyColumn.End (StatementEnd : SQLParser.Pos) : Option SQLParser.Pos :=
  some StatementEnd

/-- Go `(*AlterTableModifyQuery).Pos`, on the fields it reads. -/
def AlterTableModifyQuery.Pos (ModifyPos : SQLParser.Pos) : Option SQLParser.Pos :=
  some ModifyPos

/-- Go `(*AlterTableModifyQuery).End`, on the fields it reads. -/
def AlterTableModifyQuery.End (StatementEnd : SQLParser.Pos) : Option SQLParser.Pos :=
  some StatementEnd

/-- Go `(*AlterTableModifySetting).Pos`, on the fields it reads. -/
def AlterTableModifySetting.Pos (ModifyPos : SQLParser.Pos) : Option SQLParser.Pos :=
  some ModifyPos

/-- Go `(*AlterTableModifySetting).End`, on the fields it reads. -/
def AlterTableModifySetting.End (StatementEnd : SQLParser.Pos) : Option SQLParser.Pos :=
  some StatementEnd

/-- Go `(*AlterTableModifyTTL).Pos`, on the fields it reads. -/
def AlterTableModifyTTL.Pos (ModifyPos : SQLParser.Pos) : Option SQLParser.Pos :=
  some ModifyPos

/-- Go `(*AlterTableModifyTTL).End`, on the fields it reads. -/
def AlterTableModifyTTL.End (StatementEnd : SQLParser.Pos) : Option SQLParser.Pos :=
  some StatementEnd

/-- Go `(*AlterTableRemoveTTL).Pos`, on the fields it reads. -/
def AlterTableRemoveTTL.Pos (RemovePos : SQLParser.Pos) : Option SQLParser.Pos :=
  some RemovePos

/-- Go `(*AlterTableRemoveTTL).End`, on the fields it reads. -/
def AlterTableRemoveTTL.End (StatementEnd : SQLParser.Pos) : Option SQLParser.Pos :=
  some StatementEnd

/-- Go `(*AlterTableRenameColumn).Pos`, on the fields it reads. -/
def AlterTableRenameColumn.Pos (RenamePos : SQLParser.Pos) : Option SQLParser.Pos :=
  some RenamePos

/-- Go `(*AlterTableRenameColumn).End`, on the fields it reads. -/
def AlterTableRenameColumn.End (NewColumnName : Option SQLParser.Pos) : Option SQLParser.Pos :=
  NewColumnName

/-- Go `(*AlterTableReplacePartition).Pos`, on the fields it reads. -/
def AlterTableReplacePartition.Pos (ReplacePos : SQLParser.Pos) : Option SQLParser.Pos :=
  some ReplacePos

/-- Go `(*AlterTableReplacePartition).End`, on the fields it reads. -/
def AlterTableReplacePartition.End (Table : Option SQLParser.Pos) : Option SQLParser.Pos :=
  Table

/-- Go `(*AlterTableResetSetting).Pos`, on the fields it reads. -/
def AlterTableResetSetting.Pos (ResetPos : SQLParser.Pos) : Option SQLParser.Pos :=
  some ResetPos

/-- Go `(*AlterTableResetSetting).End`, on the fields it reads. -/
def AlterTableResetSetting.End (StatementEnd : SQLParser.Pos) : Option SQLParser.Pos :=
  some StatementEnd

/-- Go `(*AlterTableUpdate).Pos`, on the fields it reads. -/
def AlterTableUpdate.Pos (UpdatePos : SQLParser.Pos) : Option SQLParser.Pos :=
  some UpdatePos

/-- Go `(*AlterTableUpdate).End`, on the fields it reads. -/
def AlterTableUpdate.End (StatementEnd : SQLParser.Pos) : Option SQLParser.Pos :=
  some StatementEnd

/-- Go `(*ArrayParamList).Pos`, on the fields it reads. -/
def ArrayParamList.Pos (LeftBracketPos : SQLParser.Pos) : Option SQLParser.Pos :=
  some LeftBracketPos

/-- Go `(*ArrayParamList).End`, on the fields it reads. -/
def ArrayParamList.End (RightBracketPos : SQLParser.Pos) : Option SQLParser.Pos :=
  some RightBracketPos

/-- Go `(*AuthenticationClause).Pos`, on the fields it reads. -/
def AuthenticationClause.Pos (AuthPos : SQLParser.Pos) : Option SQLParser.Pos :=
  some AuthPos

/-- Go `(*AuthenticationClause).End`, on the fields it reads. -/
def AuthenticationClause.End (AuthEnd : SQLParser.Pos) : Option SQLParser.Pos :=
  some AuthEnd

/-- Go `(*BetweenClause).Pos`, on the fields it reads. -/
def BetweenClause.Pos (expr Between : Option (Option SQLParser.Pos)) : Option SQLParser.Pos :=
  if expr.isSome then positionOf expr
  else positionOf Between

/-- Go `(*BetweenClause).End`, on the fields it reads. -/
def BetweenClause.End (And : Option (Option SQLParser.Pos)) : Option SQLParser.Pos :=
  positionOf And

/-- Go `(*BoolLiteral).Pos`, on the fields it reads. -/
def BoolLiteral.Pos (LiteralPos : SQLParser.Pos) : Option SQLParser.Pos :=
  some LiteralPos

/-- Go `(*BoolLiteral).End`, on the fields it reads. -/
def BoolLiteral.End (LiteralEnd : SQLParser.Pos) : Option SQLParser.Pos :=
  some LiteralEnd

/-- Go `(*CTEStmt).Pos`, on the fields it reads. -/
def CTEStmt.Pos (CTEPos : SQLParser.Pos) : Option SQLParser.Pos :=
  some CTEPos

/-- Go `(*CTEStmt).End`, on the fields it reads. -/
def CTEStmt.End (expr : Option (Option SQLParser.Pos)) : Option SQLParser.Pos :=
  positionOf expr

/-- Go `(*CastExpr).Pos`, on the fields it reads. -/
def CastExpr.Pos (CastPos : SQLParser.Pos) : Option SQLParser.Pos :=
  some CastPos

/-- Go `(*CastExpr).End`, on the fields it reads. -/
def CastExpr.End (AsType : Option (Option SQLParser.Pos)) : Option SQLParser.Pos :=
  positionOf AsType

/-- Go `(*CheckStmt).Pos`, on the fields it reads. -/
def CheckStmt.Pos (CheckPos : SQLParser.Pos) : Option SQLParser.Pos :=
  some CheckPos

/-- Go `(*CheckStmt).End`, on the fields it reads. -/
def CheckStmt.End (Partition : Option (Option SQLParser.Pos)) : Option SQLParser.Pos :=
  positionOf Partition

/-- Go `(*ColumnArgList).Pos`, on the fields it reads. -/
def ColumnArgList.Pos (LeftParenPos : SQLParser.Pos) : Option SQLParser.Pos :=
  some LeftParenPos

/-- Go `(*ColumnArgList).End`, on the fields it reads. -/
def ColumnArgList.End (RightParenPos : SQLParser.Pos) : Option SQLParser.Pos :=
  some RightParenPos

/-- Go `(*ColumnExprList).Pos`, on the fields it reads. -/
def ColumnExprList.Pos (ListPos : SQLParser.Pos) : Option SQLParser.Pos :=
  some ListPos

/-- Go `(*ColumnExprList).End`, on the fields it reads. -/
def ColumnExprList.End (ListEnd : SQLParser.Pos) : Option SQLParser.Pos :=
  some ListEnd

/-- Go `(*ColumnNamesExpr).Pos`, on the fields it reads. -/
def ColumnNamesExpr.Pos (LeftParenPos : SQLParser.Pos) : Option SQLParser.Pos :=
  some LeftParenPos

/-- Go `(*ColumnNamesExpr).End`, on the fields it reads. -/
def ColumnNamesExpr.End (RightParenPos : SQLParser.Pos) : Option SQLParser.Pos :=
  some RightParenPos

/-- Go `(*ColumnTypeExpr).Pos`, on the fields it reads. -/
def ColumnTypeExpr.Pos (Name : Option SQLParser.Pos) : Option SQLParser.Pos :=
  Name

/-- Go `(*ColumnTypeExpr).End`, on the fields it reads. -/
def ColumnTypeExpr.End (Name : Option SQLParser.Pos) : Option SQLParser.Pos :=
  Name

/-- Go `(*CompressionCodec).Pos`, on the fields it reads. -/
def CompressionCodec.Pos (CodecPos : SQLParser.Pos) : Option SQLParser.Pos :=
  some CodecPos

/-- Go `(*CompressionCodec).End`, on the fields it reads. -/
def CompressionCodec.End (RightParenPos : SQLParser.Pos) : Option SQLParser.Pos :=
  some RightParenPos

/-- Go `(*ConstraintClause).Pos`, on the fields it reads. -/
def ConstraintClause.Pos (ConstraintPos : SQLParser.Pos) : Option SQLParser.Pos :=
  some ConstraintPos

/-- Go `(*ConstraintClause).End`, on the fields it reads. -/
def ConstraintClause.End (expr : Option (Option SQLParser.Pos)) : Option SQLParser.Pos :=
  positionOf expr

/-- Go `(*CreateDictionary).Pos`, on the fields it reads. -/
def CreateDictionary.Pos (CreatePos : SQLParser.Pos) : Option SQLParser.Pos :=
  some CreatePos

/-- Go `(*CreateDictionary).End`, on the fields it reads. -/
def CreateDictionary.End (StatementEnd : SQLParser.Pos) : Option SQLParser.Pos :=
  some StatementEnd

/-- Go `(*CreateFunction).Pos`, on the fields it reads. -/
def CreateFunction.Pos (CreatePos : SQLParser.Pos) : Option SQLParser.Pos :=
  some CreatePos

/-- Go `(*CreateFunction).End`, on the fields it reads. -/
def CreateFunction.End (expr : Option (Option SQLParser.Pos)) : Option SQLParser.Pos :=
  positionOf expr

/-- Go `(*CreateLiveView).Pos`, on the fields it reads. -/
def CreateLiveView.Pos (CreatePos : SQLParser.Pos) : Option SQLParser.Pos :=
  some CreatePos

/-- Go `(*CreateLiveView).End`, on the fields it reads. -/
def CreateLiveView.End (StatementEnd : SQLParser.Pos) : Option SQLParser.Pos :=
  some StatementEnd

/-- Go `(*CreateMaterializedView).Pos`, on the fields it reads. -/
def CreateMaterializedView.Pos (CreatePos : SQLParser.Pos) : Option SQLParser.Pos :=
  some CreatePos

/-- Go `(*CreateMaterializedView).End`, on the fields it reads. -/
def CreateMaterializedView.End (StatementEnd : SQLParser.Pos) : Option SQLParser.Pos :=
  some StatementEnd

/-- Go `(*CreateNamedCollection).Pos`, on the fields it reads. -/
def CreateNamedCollection.Pos (CreatePos : SQLParser.Pos) : Option SQLParser.Pos :=
  some CreatePos

/-- Go `(*CreateNamedCollection).End`, on the fields it reads. -/
def CreateNamedCollection.End (StatementEnd : SQLParser.Pos) : Option SQLParser.Pos :=
  some StatementEnd

/-- Go `(*CreateRole).Pos`, on the fields it reads. -/
def CreateRole.Pos (CreatePos : SQLParser.Pos) : Option SQLParser.Pos :=
  some CreatePos

/-- Go `(*CreateRole).End`, on the fields it reads. -/
def CreateRole.End (StatementEnd : SQLParser.Pos) : Option SQLParser.Pos :=
  some StatementEnd

/-- Go `(*CreateTable).Pos`, on the fields it reads. -/
def CreateTable.Pos (CreatePos : SQLParser.Pos) : Option SQLParser.Pos :=
  some CreatePos

/-- Go `(*CreateTable).End`, on the fields it reads. -/
def CreateTable.End (StatementEnd : SQLParser.Pos) : Option SQLParser.Pos :=
  some StatementEnd

/-- Go `(*CreateUser).Pos`, on the fields it reads. -/
def CreateUser.Pos (CreatePos : SQLParser.Pos) : Option SQLParser.Pos :=
  some CreatePos

/-- Go `(*CreateUser).End`, on the fields it reads. -/
def CreateUser.End (StatementEnd : SQLParser.Pos) : Option SQLParser.Pos :=
  some StatementEnd

/-- Go `(*CreateView).Pos`, on the fields it reads. -/
def CreateView.Pos (CreatePos : SQLParser.Pos) : Option SQLParser.Pos :=
  some CreatePos

/-- Go `(*CreateView).End`, on the fields it reads. -/
def CreateView.End (StatementEnd : SQLParser.Pos) : Option SQLParser.Pos :=
  some StatementEnd

/-- Go `(*DeduplicateClause).Pos`, on the fields it reads. -/
def DeduplicateClause.Pos (DeduplicatePos : SQLParser.Pos) : Option SQLParser.Pos :=
  some DeduplicatePos

/-- Go `(*DeduplicateClause).End`, on the fields it reads. -/
def DeduplicateClause.End (DeduplicatePos : SQLParser.Pos)
    (By Except : Option (Option SQLParser.Pos)) : Option SQLParser.Pos :=
  if By.isSome then positionOf By
  else if Except.isSome then positionOf Except
  else some (DeduplicatePos + KeywordDeduplicate.utf8ByteSize)

/-- Go `(*DefaultRoleClause).Pos`, on the fields it reads. -/
def DefaultRoleClause.Pos (DefaultPos : SQLParser.Pos) : Option SQLParser.Pos :=
  some DefaultPos

/-- Go `(*DefaultRoleClause).End`, on the fields it reads. -/
def DefaultRoleClause.End (DefaultEnd : SQLParser.Pos) : Option SQLParser.Pos :=
  some DefaultEnd

/-- Go `(*DeleteClause).Pos`, on the fields it reads. -/
def DeleteClause.Pos (DeletePos : SQLParser.Pos) : Option SQLParser.Pos :=
  some DeletePos

/-- Go `(*DeleteClause).End`, on the fields it reads. -/
def DeleteClause.End (WhereExpr : Option (Option SQLParser.Pos)) : Option SQLParser.Pos :=
  positionOf WhereExpr

/-- Go `(*DescribeStmt).Pos`, on the fields it reads. -/
def DescribeStmt.Pos (DescribePos : SQLParser.Pos) : Option SQLParser.Pos :=
  some DescribePos

/-- Go `(*DescribeStmt).End`, on the fields it reads. -/
def DescribeStmt.End (Target : Option SQLParser.Pos) : Option SQLParser.Pos :=
  Target

/-- Go `(*DestinationClause).Pos`, on the fields it reads. -/
def DestinationClause.Pos (ToPos : SQLParser.Pos) : Option SQLParser.Pos :=
  some ToPos

/-- Go `(*DestinationClause).End`, on the fields it reads. -/
def DestinationClause.End (TableIdentifier : Option SQLParser.Pos) : Option SQLParser.Pos :=
  TableIdentifier

/-- Go `(*DictionaryArgExpr).Pos`, on the fields it reads. -/
def DictionaryArgExpr.Pos (ArgPos : SQLParser.Pos) : Option SQLParser.Pos :=
  some ArgPos

/-- Go `(*DictionaryArgExpr).End`, on the fields it reads. -/
def DictionaryArgExpr.End (Value : Option (Option SQLParser.Pos)) : Option SQLParser.Pos :=
  positionOf Value

/-- Go `(*DictionaryEngineClause).Pos`, on the fields it reads. -/
def DictionaryEngineClause.Pos (EnginePos : SQLParser.Pos) : Option SQLParser.Pos :=
  some EnginePos

/-- Go `(*DictionaryEngineClause).End`, on the fields it reads. -/
def DictionaryEngineClause.End (EnginePos : SQLParser.Pos)
    (PrimaryKey Source Lifetime Layout Range Settings : Option (Option SQLParser.Pos)) :
    Option SQLParser.Pos :=
  if Settings.isSome then positionOf Settings
  else if Range.isSome then positionOf Range
  else if Layout.isSome then positionOf Layout
  else if Lifetime.isSome then positionOf Lifetime
  else if Source.isSome then positionOf Source
  else if PrimaryKey.isSome then positionOf PrimaryKey
  else some EnginePos

/-- Go `(*DictionaryLayoutClause).Pos`, on the fields it reads. -/
def DictionaryLayoutClause.Pos (LayoutPos : SQLParser.Pos) : Option SQLParser.Pos :=
  some LayoutPos

/-- Go `(*DictionaryLayoutClause).End`, on the fields it reads. -/
def DictionaryLayoutClause.End (RParenPos : SQLParser.Pos) : Option SQLParser.Pos :=
  some (RParenPos + 1)

/-- Go `(*DictionaryPrimaryKeyClause).Pos`, on the fields it reads. -/
def DictionaryPrimaryKeyClause.Pos (PrimaryKeyPos : SQLParser.Pos) : Option SQLParser.Pos :=
  some PrimaryKeyPos

/-- Go `(*DictionaryPrimaryKeyClause).End`, on the fields it reads. -/
def DictionaryPrimaryKeyClause.End (RParenPos : SQLParser.Pos) : Option SQLParser.Pos :=
  some (RParenPos + 1)

/-- Go `(*DictionarySchemaClause).Pos`, on the fields it reads. -/
def DictionarySchemaClause.Pos (SchemaPos : SQLParser.Pos) : Option SQLParser.Pos :=
  some SchemaPos

/-- Go `(*DictionarySchemaClause).End`, on the fields it reads. -/
def DictionarySchemaClause.End (RParenPos : SQLParser.Pos) : Option SQLParser.Pos :=
  some (RParenPos + 1)

/-- Go `(*DictionarySourceClause).Pos`, on the fields it reads. -/
def DictionarySourceClause.Pos (SourcePos : SQLParser.Pos) : Option SQLParser.Pos :=
  some SourcePos

/-- Go `(*DictionarySourceClause).End`, on the fields it reads. -/
def DictionarySourceClause.End (RParenPos : SQLParser.Pos) : Option SQLParser.Pos :=
  some (RParenPos + 1)

/-- Go `(*DistinctOn).Pos`, on the fields it reads. -/
def DistinctOn.Pos (DistinctOnPos : SQLParser.Pos) : Option SQLParser.Pos :=
  some DistinctOnPos

/-- Go `(*DistinctOn).End`, on the fields it reads. -/
def DistinctOn.End (DistinctOnEnd : SQLParser.Pos) : Option SQLParser.Pos :=
  some DistinctOnEnd

/-- Go `(*DropDatabase).Pos`, on the fields it reads. -/
def DropDatabase.Pos (DropPos : SQLParser.Pos) : Option SQLParser.Pos :=
  some DropPos

/-- Go `(*DropDatabase).End`, on the fields it reads. -/
def DropDatabase.End (StatementEnd : SQLParser.Pos) : Option SQLParser.Pos :=
  some StatementEnd

/-- Go `(*DropStmt).Pos`, on the fields it reads. -/
def DropStmt.Pos (DropPos : SQLParser.Pos) : Option SQLParser.Pos :=
  some DropPos

/-- Go `(*DropStmt).End`, on the fields it reads. -/
def DropStmt.End (StatementEnd : SQLParser.Pos) : Option SQLParser.Pos :=
  some StatementEnd

/-- Go `(*DropUserOrRole).Pos`, on the fields it reads. -/
def DropUserOrRole.Pos (DropPos : SQLParser.Pos) : Option SQLParser.Pos :=
  some DropPos

/-- Go `(*DropUserOrRole).End`, on the fields it reads. -/
def DropUserOrRole.End (StatementEnd : SQLParser.Pos) : Option SQLParser.Pos :=
  some StatementEnd

/-- Go `(*EngineExpr).Pos`, on the fields it reads. -/
def EngineExpr.Pos (EnginePos : SQLParser.Pos) : Option SQLParser.Pos :=
  some EnginePos

/-- Go `(*EngineExpr).End`, on the fields it reads. -/
def EngineExpr.End (EngineEnd : SQLParser.Pos) : Option SQLParser.Pos :=
  some EngineEnd

/-- Go `(*ExplainStmt).Pos`, on the fields it reads. -/
def ExplainStmt.Pos (ExplainPos : SQLParser.Pos) : Option SQLParser.Pos :=
  some ExplainPos

/-- Go `(*ExplainStmt).End`, on the fields it reads. -/
def ExplainStmt.End (Statement : Option (Option SQLParser.Pos)) : Option SQLParser.Pos :=
  positionOf Statement

/-- Go `(*ExtractExpr).Pos`, on the fields it reads. -/
def ExtractExpr.Pos (ExtractPos : SQLParser.Pos) : Option SQLParser.Pos :=
  some ExtractPos

/-- Go `(*ExtractExpr).End`, on the fields it reads. -/
def ExtractExpr.End (ExtractEnd : SQLParser.Pos) : Option SQLParser.Pos :=
  some ExtractEnd

/-- Go `(*Fill).Pos`, on the fields it reads. -/
def Fill.Pos (FillPos : SQLParser.Pos) : Option SQLParser.Pos :=
  some FillPos

/-- Go `(*Fill).End`, on the fields it reads. -/
def Fill.End (FillPos : SQLParser.Pos) (From To Step Staleness : Option (Option SQLParser.Pos)) :
    Option SQLParser.Pos :=
  if Staleness.isSome then positionOf Staleness
  else if Step.isSome then positionOf Step
  else if To.isSome then positionOf To
  else if From.isSome then positionOf From
  else some (FillPos + ("FILL" : String).utf8ByteSize)

/-- Go `(*FunctionExpr).Pos`, on the fields it reads. -/
def FunctionExpr.Pos (Name : Option SQLParser.Pos) : Option SQLParser.Pos :=
  Name

/-- Go `(*FunctionExpr).End`, on the fields it reads. -/
def FunctionExpr.End (Params : Option SQLParser.Pos) : Option SQLParser.Pos :=
  Params

/-- Go `(*GlobalInOperation).Pos`, on the fields it reads. -/
def GlobalInOperation.Pos (GlobalPos : SQLParser.Pos) : Option SQLParser.Pos :=
  some GlobalPos

/-- Go `(*GlobalInOperation).End`, on the fields it reads. -/
def GlobalInOperation.End (expr : Option (Option SQLParser.Pos)) : Option SQLParser.Pos :=
  positionOf expr

/-- Go `(*GranteesClause).Pos`, on the fields it reads. -/
def GranteesClause.Pos (GranteesPos : SQLParser.Pos) : Option SQLParser.Pos :=
  some GranteesPos

/-- Go `(*GranteesClause).End`, on the fields it reads. -/
def GranteesClause.End (GranteesEnd : SQLParser.Pos) : Option SQLParser.Pos :=
  some GranteesEnd

/-- Go `(*HostClause).Pos`, on the fields it reads. -/
def HostClause.Pos (HostPos : SQLParser.Pos) : Option SQLParser.Pos :=
  some HostPos

/-- Go `(*HostClause).End`, on the fields it reads. -/
def HostClause.End (HostEnd : SQLParser.Pos) : Option SQLParser.Pos :=
  some HostEnd

/-- Go `(*IndexOperation).Pos`, on the fields it reads. -/
def IndexOperation.Pos (Object : Option (Option SQLParser.Pos)) : Option SQLParser.Pos :=
  positionOf Object

/-- Go `(*IndexOperation).End`, on the fields it reads. -/
def IndexOperation.End (Index : Option (Option SQLParser.Pos)) : Option SQLParser.Pos :=
  positionOf Index

/-- Go `(*InterpolateClause).Pos`, on the fields it reads. -/
def InterpolateClause.Pos (InterpolatePos : SQLParser.Pos) : Option SQLParser.Pos :=
  some InterpolatePos

/-- Go `(*InterpolateClause).End`, on the fields it reads. -/
def InterpolateClause.End (ListEnd : SQLParser.Pos) : Option SQLParser.Pos :=
  some ListEnd

/-- Go `(*InterpolateItem).Pos`, on the fields it reads. -/
def InterpolateItem.Pos (Column : Option SQLParser.Pos) : Option SQLParser.Pos :=
  Column

/-- Go `(*InterpolateItem).End`, on the fields it reads. -/
def InterpolateItem.End (Column : Option SQLParser.Pos) (expr : Option (Option SQLParser.Pos)) :
    Option SQLParser.Pos :=
  if expr.isSome then positionOf expr
  else Column

/-- Go `(*IntervalExpr).Pos`, on the fields it reads. -/
def IntervalExpr.Pos (IntervalPos : SQLParser.Pos) (expr : Option (Option SQLParser.Pos)) :
    Option SQLParser.Pos :=
  if IntervalPos ≠ 0 then some IntervalPos
  else positionOf expr

/-- Go `(*IntervalExpr).End`, on the fields it reads. -/
def IntervalExpr.End (Unit : Option SQLParser.Pos) : Option SQLParser.Pos :=
  Unit

/-- Go `(*IntervalFrom).Pos`, on the fields it reads. -/
def IntervalFrom.Pos (Interval : Option SQLParser.Pos) : Option SQLParser.Pos :=
  Interval

/-- Go `(*IntervalFrom).End`, on the fields it reads. -/
def IntervalFrom.End (FromExpr : Option (Option SQLParser.Pos)) : Option SQLParser.Pos :=
  positionOf FromExpr

/-- Go `(*IsNotNullExpr).Pos`, on the fields it reads. -/
def IsNotNullExpr.Pos (expr : Option (Option SQLParser.Pos)) : Option SQLParser.Pos :=
  positionOf expr

/-- Go `(*IsNotNullExpr).End`, on the fields it reads. -/
def IsNotNullExpr.End (expr : Option (Option SQLParser.Pos)) : Option SQLParser.Pos :=
  positionOf expr

/-- Go `(*IsNullExpr).Pos`, on the fields it reads. -/
def IsNullExpr.Pos (IsPos : SQLParser.Pos) : Option SQLParser.Pos :=
  some IsPos

/-- Go `(*IsNullExpr).End`, on the fields it reads. -/
def IsNullExpr.End (expr : Option (Option SQLParser.Pos)) : Option SQLParser.Pos :=
  positionOf expr

/-- Go `(*JoinConstraintClause).Pos`, on the fields it reads. -/
def JoinConstraintClause.Pos (ConstraintPos : SQLParser.Pos) : Option SQLParser.Pos :=
  some ConstraintPos

/-- Go `(*JoinConstraintClause).End`, on the fields it reads. -/
def JoinConstraintClause.End (On Using : Option (Option SQLParser.Pos)) : Option SQLParser.Pos :=
  if On.isSome then positionOf On
  else positionOf Using

/-- Go `(*LimitByClause).Pos`, on the fields it reads. -/
def LimitByClause.Pos (Limit : Option (Option SQLParser.Pos)) : Option SQLParser.Pos :=
  positionOf Limit

/-- Go `(*LimitByClause).End`, on the fields it reads. -/
def LimitByClause.End (Limit ByExpr : Option (Option SQLParser.Pos)) : Option SQLParser.Pos :=
  if ByExpr.isSome then positionOf ByExpr
  else if Limit.isSome then positionOf Limit
  else positionOf Limit

/-- Go `(*LimitClause).Pos`, on the fields it reads. -/
def LimitClause.Pos (LimitPos : SQLParser.Pos) : Option SQLParser.Pos :=
  some LimitPos

/-- Go `(*LimitClause).End`, on the fields it reads. -/
def LimitClause.End (Limit Offset : Option (Option SQLParser.Pos)) : Option SQLParser.Pos :=
  if Offset.isSome then positionOf Offset
  else positionOf Limit

/-- Go `(*MapLiteral).Pos`, on the fields it reads. -/
def MapLiteral.Pos (LBracePos : SQLParser.Pos) : Option SQLParser.Pos :=
  some LBracePos

/-- Go `(*MapLiteral).End`, on the fields it reads. -/
def MapLiteral.End (RBracePos : SQLParser.Pos) : Option SQLParser.Pos :=
  some RBracePos

/-- Go `(*NamedCollectionParam).Pos`, on the fields it reads. -/
def NamedCollectionParam.Pos (ParamPos : SQLParser.Pos) : Option SQLParser.Pos :=
  some ParamPos

/-- Go `(*NamedCollectionParam).End`, on the fields it reads. -/
def NamedCollectionParam.End (Value : Option (Option SQLParser.Pos)) : Option SQLParser.Pos :=
  positionOf Value

/-- Go `(*NamedParameterExpr).Pos`, on the fields it reads. -/
def NamedParameterExpr.Pos (NamePos : SQLParser.Pos) : Option SQLParser.Pos :=
  some NamePos

/-- Go `(*NamedParameterExpr).End`, on the fields it reads. -/
def NamedParameterExpr.End (Value : Option (Option SQLParser.Pos)) : Option SQLParser.Pos :=
  positionOf Value

/-- Go `(*NegateExpr).Pos`, on the fields it reads. -/
def NegateExpr.Pos (NegatePos : SQLParser.Pos) : Option SQLParser.Pos :=
  some NegatePos

/-- Go `(*NegateExpr).End`, on the fields it reads. -/
def NegateExpr.End (expr : Option (Option SQLParser.Pos)) : Option SQLParser.Pos :=
  positionOf expr

/-- Go `(*ObjectParams).Pos`, on the fields it reads. -/
def ObjectParams.Pos (Object : Option (Option SQLParser.Pos)) : Option SQLParser.Pos :=
  positionOf Object

/-- Go `(*ObjectParams).End`, on the fields it reads. -/
def ObjectParams.End (Params : Option SQLParser.Pos) : Option SQLParser.Pos :=
  Params

/-- Go `(*OnClause).Pos`, on the fields it reads. -/
def OnClause.Pos (OnPos : SQLParser.Pos) : Option SQLParser.Pos :=
  some OnPos

/-- Go `(*OnClause).End`, on the fields it reads. -/
def OnClause.End (On : Option SQLParser.Pos) : Option SQLParser.Pos :=
  On

/-- Go `(*OperationExpr).Pos`, on the fields it reads. -/
def OperationExpr.Pos (OperationPos : SQLParser.Pos) : Option SQLParser.Pos :=
  some OperationPos

/-- Go `(*OperationExpr).End`, on the fields it reads. -/
def OperationExpr.End (OperationPos : SQLParser.Pos) (Kind : TokenKind) : Option SQLParser.Pos :=
  some (OperationPos + Kind.utf8ByteSize)

/-- Go `(*OptimizeStmt).Pos`, on the fields it reads. -/
def OptimizeStmt.Pos (OptimizePos : SQLParser.Pos) : Option SQLParser.Pos :=
  some OptimizePos

/-- Go `(*OptimizeStmt).End`, on the fields it reads. -/
def OptimizeStmt.End (StatementEnd : SQLParser.Pos) : Option SQLParser.Pos :=
  some StatementEnd

/-- Go `(*OrderByClause).Pos`, on the fields it reads. -/
def OrderByClause.Pos (OrderPos : SQLParser.Pos) : Option SQLParser.Pos :=
  some OrderPos

/-- Go `(*OrderByClause).End`, on the fields it reads. -/
def OrderByClause.End (ListEnd : SQLParser.Pos) (Interpolate : Option (Option SQLParser.Pos)) :
    Option SQLParser.Pos :=
  if Interpolate.isSome then positionOf Interpolate
  else some ListEnd

/-- Go `(*OrderExpr).Pos`, on the fields it reads. -/
def OrderExpr.Pos (OrderPos : SQLParser.Pos) : Option SQLParser.Pos :=
  some OrderPos

/-- Go `(*OrderExpr).End`, on the fields it reads. -/
def OrderExpr.End (expr Alias Fill : Option (Option SQLParser.Pos)) : Option SQLParser.Pos :=
  if Fill.isSome then positionOf Fill
  else if Alias.isSome then positionOf Alias
  else positionOf expr

/-- Go `(*ParamExprList).Pos`, on the fields it reads. -/
def ParamExprList.Pos (LeftParenPos : SQLParser.Pos) : Option SQLParser.Pos :=
  some LeftParenPos

/-- Go `(*ParamExprList).End`, on the fields it reads. -/
def ParamExprList.End (RightParenPos : SQLParser.Pos) : Option SQLParser.Pos :=
  some RightParenPos

/-- Go `(*PartitionByClause).Pos`, on the fields it reads. -/
def PartitionByClause.Pos (PartitionPos : SQLParser.Pos) : Option SQLParser.Pos :=
  some PartitionPos

/-- Go `(*PartitionByClause).End`, on the fields it reads. -/
def PartitionByClause.End (expr : Option (Option SQLParser.Pos)) : Option SQLParser.Pos :=
  positionOf expr

/-- Go `(*Path).Pos`, on the fields it reads. -/
def Path.Pos (Fields : List (Option SQLParser.Pos)) : Option SQLParser.Pos :=
  if Fields.length > 0 then positionOfFirst Fields
  else some 0

/-- Go `(*Path).End`, on the fields it reads. -/
def Path.End (Fields : List (Option SQLParser.Pos)) : Option SQLParser.Pos :=
  if Fields.length > 0 then positionOfLast Fields
  else some 0

/-- Go `(*PlaceHolder).Pos`, on the fields it reads. -/
def PlaceHolder.Pos (PlaceholderPos : SQLParser.Pos) : Option SQLParser.Pos :=
  some PlaceholderPos

/-- Go `(*PlaceHolder).End`, on the fields it reads. -/
def PlaceHolder.End (PlaceHolderEnd : SQLParser.Pos) : Option SQLParser.Pos :=
  some PlaceHolderEnd

/-- Go `(*PrimaryKeyClause).Pos`, on the fields it reads. -/
def PrimaryKeyClause.Pos (PrimaryPos : SQLParser.Pos) : Option SQLParser.Pos :=
  some PrimaryPos

/-- Go `(*PrimaryKeyClause).End`, on the fields it reads. -/
def PrimaryKeyClause.End (expr : Option (Option SQLParser.Pos)) : Option SQLParser.Pos :=
  positionOf expr

/-- Go `(*ProjectionOrderByClause).Pos`, on the fields it reads. -/
def ProjectionOrderByClause.Pos (OrderByPos : SQLParser.Pos) : Option SQLParser.Pos :=
  some OrderByPos

/-- Go `(*ProjectionOrderByClause).End`, on the fields it reads. -/
def ProjectionOrderByClause.End (Columns : Option SQLParser.Pos) : Option SQLParser.Pos :=
  Columns

/-- Go `(*ProjectionSelectStmt).Pos`, on the fields it reads. -/
def ProjectionSelectStmt.Pos (LeftParenPos : SQLParser.Pos) : Option SQLParser.Pos :=
  some LeftParenPos

/-- Go `(*ProjectionSelectStmt).End`, on the fields it reads. -/
def ProjectionSelectStmt.End (RightParenPos : SQLParser.Pos) : Option SQLParser.Pos :=
  some RightParenPos

/-- Go `(*QueryParam).Pos`, on the fields it reads. -/
def QueryParam.Pos (LBracePos : SQLParser.Pos) : Option SQLParser.Pos :=
  some LBracePos

/-- Go `(*QueryParam).End`, on the fields it reads. -/
def QueryParam.End (RBracePos : SQLParser.Pos) : Option SQLParser.Pos :=
  some RBracePos

/-- Go `(*RefreshExpr).Pos`, on the fields it reads. -/
def RefreshExpr.Pos (RefreshPos : SQLParser.Pos) : Option SQLParser.Pos :=
  some RefreshPos

/-- Go `(*RefreshExpr).End`, on the fields it reads. -/
def RefreshExpr.End (Interval Offset : Option (Option SQLParser.Pos)) : Option SQLParser.Pos :=
  if Offset.isSome then positionOf Offset
  else positionOf Interval

/-- Go `(*RemovePropertyType).Pos`, on the fields it reads. -/
def RemovePropertyType.Pos (RemovePos : SQLParser.Pos) : Option SQLParser.Pos :=
  some RemovePos

/-- Go `(*RemovePropertyType).End`, on the fields it reads. -/
def RemovePropertyType.End (PropertyType : Option (Option SQLParser.Pos)) : Option SQLParser.Pos :=
  positionOf PropertyType

/-- Go `(*RenameStmt).Pos`, on the fields it reads. -/
def RenameStmt.Pos (RenamePos : SQLParser.Pos) : Option SQLParser.Pos :=
  some RenamePos

/-- Go `(*RenameStmt).End`, on the fields it reads. -/
def RenameStmt.End (StatementEnd : SQLParser.Pos) : Option SQLParser.Pos :=
  some StatementEnd

/-- Go `(*RoleName).Pos`, on the fields it reads. -/
def RoleName.Pos (Name : Option (Option SQLParser.Pos)) : Option SQLParser.Pos :=
  positionOf Name

/-- Go `(*RoleName).End`, on the fields it reads. -/
def RoleName.End (Name Scope OnCluster : Option (Option SQLParser.Pos)) : Option SQLParser.Pos :=
  if Scope.isSome then positionOf Scope
  else if OnCluster.isSome then positionOf OnCluster
  else positionOf Name

/-- Go `(*RoleRenamePair).Pos`, on the fields it reads. -/
def RoleRenamePair.Pos (RoleName : Option SQLParser.Pos) : Option SQLParser.Pos :=
  RoleName

/-- Go `(*RoleRenamePair).End`, on the fields it reads. -/
def RoleRenamePair.End (StatementEnd : SQLParser.Pos) : Option SQLParser.Pos :=
  some StatementEnd

/-- Go `(*RoleSetting).Pos`, on the fields it reads. -/
def RoleSetting.Pos (SettingPairs : List (Option SQLParser.Pos))
    (Modifier : Option (Option SQLParser.Pos)) : Option SQLParser.Pos :=
  if SettingPairs.length > 0 then positionOfFirst SettingPairs
  else positionOf Modifier

/-- Go `(*RoleSetting).End`, on the fields it reads. -/
def RoleSetting.End (SettingPairs : List (Option SQLParser.Pos))
    (Modifier : Option (Option SQLParser.Pos)) : Option SQLParser.Pos :=
  if Modifier.isSome then positionOf Modifier
  else positionOfLast SettingPairs

/-- Go `(*SampleByClause).Pos`, on the fields it reads. -/
def SampleByClause.Pos (SamplePos : SQLParser.Pos) : Option SQLParser.Pos :=
  some SamplePos

/-- Go `(*SampleByClause).End`, on the fields it reads. -/
def SampleByClause.End (expr : Option (Option SQLParser.Pos)) : Option SQLParser.Pos :=
  positionOf expr

/-- Go `(*SetStmt).Pos`, on the fields it reads. -/
def SetStmt.Pos (SetPos : SQLParser.Pos) : Option SQLParser.Pos :=
  some SetPos

/-- Go `(*SetStmt).End`, on the fields it reads. -/
def SetStmt.End (Settings : Option SQLParser.Pos) : Option SQLParser.Pos :=
  Settings

/-- Go `(*SettingPair).Pos`, on the fields it reads. -/
def SettingPair.Pos (Name : Option SQLParser.Pos) : Option SQLParser.Pos :=
  Name

/-- Go `(*SettingPair).End`, on the fields it reads. -/
def SettingPair.End (Value : Option (Option SQLParser.Pos)) : Option SQLParser.Pos :=
  positionOf Value

/-- Go `(*ShowStmt).Pos`, on the fields it reads. -/
def ShowStmt.Pos (ShowPos : SQLParser.Pos) : Option SQLParser.Pos :=
  some ShowPos

/-- Go `(*ShowStmt).End`, on the fields it reads. -/
def ShowStmt.End (StatementEnd : SQLParser.Pos)
    (Target LikePattern Limit OutFile Format : Option (Option SQLParser.Pos)) :
    Option SQLParser.Pos :=
  if Format.isSome then positionOf Format
  else if OutFile.isSome then positionOf OutFile
  else if Limit.isSome then positionOf Limit
  else if LikePattern.isSome then positionOf LikePattern
  else if Target.isSome then positionOf Target
  else some StatementEnd

/-- Go `(*SubQuery).Pos`, on the fields it reads. -/
def SubQuery.Pos (Select : Option (Option SQLParser.Pos)) : Option SQLParser.Pos :=
  positionOf Select

/-- Go `(*SubQuery).End`, on the fields it reads. -/
def SubQuery.End (Select : Option (Option SQLParser.Pos)) : Option SQLParser.Pos :=
  positionOf Select

/-- Go `(*SystemCtrlExpr).Pos`, on the fields it reads. -/
def SystemCtrlExpr.Pos (CtrlPos : SQLParser.Pos) : Option SQLParser.Pos :=
  some CtrlPos

/-- Go `(*SystemCtrlExpr).End`, on the fields it reads. -/
def SystemCtrlExpr.End (StatementEnd : SQLParser.Pos) : Option SQLParser.Pos :=
  some StatementEnd

/-- Go `(*SystemDropExpr).Pos`, on the fields it reads. -/
def SystemDropExpr.Pos (DropPos : SQLParser.Pos) : Option SQLParser.Pos :=
  some DropPos

/-- Go `(*SystemDropExpr).End`, on the fields it reads. -/
def SystemDropExpr.End (StatementEnd : SQLParser.Pos) : Option SQLParser.Pos :=
  some StatementEnd

/-- Go `(*SystemFlushExpr).Pos`, on the fields it reads. -/
def SystemFlushExpr.Pos (FlushPos : SQLParser.Pos) : Option SQLParser.Pos :=
  some FlushPos

/-- Go `(*SystemFlushExpr).End`, on the fields it reads. -/
def SystemFlushExpr.End (StatementEnd : SQLParser.Pos) : Option SQLParser.Pos :=
  some StatementEnd

/-- Go `(*SystemReloadExpr).Pos`, on the fields it reads. -/
def SystemReloadExpr.Pos (ReloadPos : SQLParser.Pos) : Option SQLParser.Pos :=
  some ReloadPos

/-- Go `(*SystemReloadExpr).End`, on the fields it reads. -/
def SystemReloadExpr.End (StatementEnd : SQLParser.Pos) : Option SQLParser.Pos :=
  some StatementEnd

/-- Go `(*SystemStmt).Pos`, on the fields it reads. -/
def SystemStmt.Pos (SystemPos : SQLParser.Pos) : Option SQLParser.Pos :=
  some SystemPos

/-- Go `(*SystemStmt).End`, on the fields it reads. -/
def SystemStmt.End (expr : Option (Option SQLParser.Pos)) : Option SQLParser.Pos :=
  positionOf expr

/-- Go `(*SystemSyncExpr).Pos`, on the fields it reads. -/
def SystemSyncExpr.Pos (SyncPos : SQLParser.Pos) : Option SQLParser.Pos :=
  some SyncPos

/-- Go `(*SystemSyncExpr).End`, on the fields it reads. -/
def SystemSyncExpr.End (Cluster : Option SQLParser.Pos) : Option SQLParser.Pos :=
  Cluster

/-- Go `(*TTLClause).Pos`, on the fields it reads. -/
def TTLClause.Pos (TTLPos : SQLParser.Pos) : Option SQLParser.Pos :=
  some TTLPos

/-- Go `(*TTLClause).End`, on the fields it reads. -/
def TTLClause.End (ListEnd : SQLParser.Pos) : Option SQLParser.Pos :=
  some ListEnd

/-- Go `(*TableArgListExpr).Pos`, on the fields it reads. -/
def TableArgListExpr.Pos (LeftParenPos : SQLParser.Pos) : Option SQLParser.Pos :=
  some LeftParenPos

/-- Go `(*TableArgListExpr).End`, on the fields it reads. -/
def TableArgListExpr.End (RightParenPos : SQLParser.Pos) : Option SQLParser.Pos :=
  some RightParenPos

/-- Go `(*TableFunctionExpr).Pos`, on the fields it reads. -/
def TableFunctionExpr.Pos (Name : Option (Option SQLParser.Pos)) : Option SQLParser.Pos :=
  positionOf Name

/-- Go `(*TableFunctionExpr).End`, on the fields it reads. -/
def TableFunctionExpr.End (Args : Option SQLParser.Pos) : Option SQLParser.Pos :=
  Args

/-- Go `(*TableProjection).Pos`, on the fields it reads. -/
def TableProjection.Pos (ProjectionPos : SQLParser.Pos) : Option SQLParser.Pos :=
  some ProjectionPos

/-- Go `(*TableProjection).End`, on the fields it reads. -/
def TableProjection.End (Select : Option SQLParser.Pos) : Option SQLParser.Pos :=
  Select

/-- Go `(*TableSchemaClause).Pos`, on the fields it reads. -/
def TableSchemaClause.Pos (SchemaPos : SQLParser.Pos) : Option SQLParser.Pos :=
  some SchemaPos

/-- Go `(*TableSchemaClause).End`, on the fields it reads. -/
def TableSchemaClause.End (SchemaEnd : SQLParser.Pos) : Option SQLParser.Pos :=
  some SchemaEnd

/-- Go `(*TargetPair).Pos`, on the fields it reads. -/
def TargetPair.Pos (Old : Option SQLParser.Pos) : Option SQLParser.Pos :=
  Old

/-- Go `(*TargetPair).End`, on the fields it reads. -/
def TargetPair.End (New : Option SQLParser.Pos) : Option SQLParser.Pos :=
  New

/-- Go `(*TopClause).Pos`, on the fields it reads. -/
def TopClause.Pos (TopPos : SQLParser.Pos) : Option SQLParser.Pos :=
  some TopPos

/-- Go `(*TopClause).End`, on the fields it reads. -/
def TopClause.End (TopEnd : SQLParser.Pos) : Option SQLParser.Pos :=
  some TopEnd

/-- Go `(*TruncateTable).Pos`, on the fields it reads. -/
def TruncateTable.Pos (TruncatePos : SQLParser.Pos) : Option SQLParser.Pos :=
  some TruncatePos

/-- Go `(*TruncateTable).End`, on the fields it reads. -/
def TruncateTable.End (StatementEnd : SQLParser.Pos) : Option SQLParser.Pos :=
  some StatementEnd

/-- Go `(*TypedPlaceholder).Pos`, on the fields it reads. -/
def TypedPlaceholder.Pos (LeftBracePos : SQLParser.Pos) : Option SQLParser.Pos :=
  some LeftBracePos

/-- Go `(*TypedPlaceholder).End`, on the fields it reads. -/
def TypedPlaceholder.End (RightBracePos : SQLParser.Pos) : Option SQLParser.Pos :=
  some RightBracePos

/-- Go `(*UUID).Pos`, on the fields it reads. -/
def UUID.Pos (Value : Option SQLParser.Pos) : Option SQLParser.Pos :=
  Value

/-- Go `(*UUID).End`, on the fields it reads. -/
def UUID.End (Value : Option SQLParser.Pos) : Option SQLParser.Pos :=
  Value

/-- Go `(*UnaryExpr).Pos`, on the fields it reads. -/
def UnaryExpr.Pos (UnaryPos : SQLParser.Pos) : Option SQLParser.Pos :=
  some UnaryPos

/-- Go `(*UnaryExpr).End`, on the fields it reads. -/
def UnaryExpr.End (expr : Option (Option SQLParser.Pos)) : Option SQLParser.Pos :=
  positionOf expr

/-- Go `(*UpdateAssignment).Pos`, on the fields it reads. -/
def UpdateAssignment.Pos (AssignmentPos : SQLParser.Pos) : Option SQLParser.Pos :=
  some AssignmentPos

/-- Go `(*UpdateAssignment).End`, on the fields it reads. -/
def UpdateAssignment.End (expr : Option (Option SQLParser.Pos)) : Option SQLParser.Pos :=
  positionOf expr

/-- Go `(*UseStmt).Pos`, on the fields it reads. -/
def UseStmt.Pos (UsePos : SQLParser.Pos) : Option SQLParser.Pos :=
  some UsePos

/-- Go `(*UseStmt).End`, on the fields it reads. -/
def UseStmt.End (Database : Option SQLParser.Pos) : Option SQLParser.Pos :=
  Database

/-- Go `(*UsingClause).Pos`, on the fields it reads. -/
def UsingClause.Pos (UsingPos : SQLParser.Pos) : Option SQLParser.Pos :=
  some UsingPos

/-- Go `(*UsingClause).End`, on the fields it reads. -/
def UsingClause.End (Using : Option SQLParser.Pos) : Option SQLParser.Pos :=
  Using

/-- Go `(*WindowClause).Pos`, on the fields it reads. -/
def WindowClause.Pos (WindowPos : SQLParser.Pos) : Option SQLParser.Pos :=
  some WindowPos

/-- Go `(*WindowClause).End`, on the fields it reads. -/
def WindowClause.End (WindowPos EndPos : SQLParser.Pos) (Windows : List (Option SQLParser.Pos)) :
    Option SQLParser.Pos :=
  if EndPos ≠ 0 then some EndPos
  else if Windows.length = 0 then some WindowPos
  else positionOfLast Windows

/-- Go `(*WindowDefinition).Pos`, on the fields it reads. -/
def WindowDefinition.Pos (Name : Option (Option SQLParser.Pos)) : Option SQLParser.Pos :=
  if Name.isNone then some 0
  else positionOf Name

/-- Go `(*WindowDefinition).End`, on the fields it reads. -/
def WindowDefinition.End (expr : Option (Option SQLParser.Pos)) : Option SQLParser.Pos :=
  if expr.isNone then some 0
  else positionOf expr

/-- Go `(*WindowExpr).Pos`, on the fields it reads. -/
def WindowExpr.Pos (LeftParenPos : SQLParser.Pos) : Option SQLParser.Pos :=
  some LeftParenPos

/-- Go `(*WindowExpr).End`, on the fields it reads. -/
def WindowExpr.End (RightParenPos : SQLParser.Pos) : Option SQLParser.Pos :=
  some RightParenPos

/-- Go `(*WindowFrameClause).Pos`, on the fields it reads. -/
def WindowFrameClause.Pos (FramePos : SQLParser.Pos) : Option SQLParser.Pos :=
  some FramePos

/-- Go `(*WindowFrameClause).End`, on the fields it reads. -/
def WindowFrameClause.End (Extend : Option (Option SQLParser.Pos)) : Option SQLParser.Pos :=
  positionOf Extend

/-- Go `(*WindowFrameCurrentRow).Pos`, on the fields it reads. -/
def WindowFrameCurrentRow.Pos (CurrentPos : SQLParser.Pos) : Option SQLParser.Pos :=
  some CurrentPos

/-- Go `(*WindowFrameCurrentRow).End`, on the fields it reads. -/
def WindowFrameCurrentRow.End (RowEnd : SQLParser.Pos) : Option SQLParser.Pos :=
  some RowEnd

/-- Go `(*WindowFrameExtendExpr).Pos`, on the fields it reads. -/
def WindowFrameExtendExpr.Pos (expr : Option (Option SQLParser.Pos)) : Option SQLParser.Pos :=
  positionOf expr

/-- Go `(*WindowFrameExtendExpr).End`, on the fields it reads. -/
def WindowFrameExtendExpr.End (expr : Option (Option SQLParser.Pos)) (EndPos : SQLParser.Pos) :
    Option SQLParser.Pos :=
  if EndPos ≠ 0 then some EndPos
  else positionOf expr

/-- Go `(*WindowFrameNumber).Pos`, on the fields it reads. -/
def WindowFrameNumber.Pos (Number : Option SQLParser.Pos) : Option SQLParser.Pos :=
  Number

/-- Go `(*WindowFrameNumber).End`, on the fields it reads. -/
def WindowFrameNumber.End (EndPos : SQLParser.Pos) : Option SQLParser.Pos :=
  some EndPos

/-- Go `(*WindowFrameParam).Pos`, on the fields it reads. -/
def WindowFrameParam.Pos (Param : Option SQLParser.Pos) : Option SQLParser.Pos :=
  Param

/-- Go `(*WindowFrameParam).End`, on the fields it reads. -/
def WindowFrameParam.End (EndPos : SQLParser.Pos) : Option SQLParser.Pos :=
  some EndPos

/-- Go `(*WindowFrameUnbounded).Pos`, on the fields it reads. -/
def WindowFrameUnbounded.Pos (UnboundedPos : SQLParser.Pos) : Option SQLParser.Pos :=
  some UnboundedPos

/-- Go `(*WindowFrameUnbounded).End`, on the fields it reads. -/
def WindowFrameUnbounded.End (UnboundedEnd : SQLParser.Pos) : Option SQLParser.Pos :=
  some UnboundedEnd

/-- Go `(*WindowFunctionExpr).Pos`, on the fields it reads. -/
def WindowFunctionExpr.Pos (Function : Option SQLParser.Pos) : Option SQLParser.Pos :=
  Function

/-- Go `(*WindowFunctionExpr).End`, on the fields it reads. -/
def WindowFunctionExpr.End (OverExpr : Option (Option SQLParser.Pos)) : Option SQLParser.Pos :=
  positionOf OverExpr

/-- Go `(*WithTimeoutClause).Pos`, on the fields it reads. -/
def WithTimeoutClause.Pos (WithTimeoutPos : SQLParser.Pos) : Option SQLParser.Pos :=
  some WithTimeoutPos

/-- Go `(*WithTimeoutClause).End`, on the fields it reads. -/
def WithTimeoutClause.End (Number : Option SQLParser.Pos) : Option SQLParser.Pos :=
  Number

/-- Go `Pos()` of the node kinds of the generic constructor: the method of the struct that
`kind` names, on the positions of the fields of the node; `none` when the call fails. -/
def NodeKind.Pos (kind : NodeKind) (p : Parts (Option SQLParser.Pos)) : Option SQLParser.Pos :=
  match kind with
  | .AlterRole AlterPos _ _ => AlterRole.Pos AlterPos
  | .AlterTableAttachPartition AttachPos => AlterTableAttachPartition.Pos AttachPos
  | .AlterTableClearColumn ClearPos _ _ => AlterTableClearColumn.Pos ClearPos
  | .AlterTableClearIndex ClearPos _ _ => AlterTableClearIndex.Pos ClearPos
  | .AlterTableClearProjection ClearPos _ _ => AlterTableClearProjection.Pos ClearPos
  | .AlterTableDelete DeletePos _ => AlterTableDelete.Pos DeletePos
  | .AlterTableDetachPartition DetachPos => AlterTableDetachPartition.Pos DetachPos
  | .AlterTableDropIndex DropPos _ => AlterTableDropIndex.Pos DropPos
  | .AlterTableDropProjection DropPos _ => AlterTableDropProjection.Pos DropPos
  | .AlterTableFreezePartition FreezePos _ => AlterTableFreezePartition.Pos FreezePos
  | .AlterTableMaterializeIndex MaterializedPos _ _ => AlterTableMaterializeIndex.Pos
      MaterializedPos
  | .AlterTableMaterializeProjection MaterializedPos _ _ => AlterTableMaterializeProjection.Pos
      MaterializedPos
  | .AlterTableModifyColumn ModifyPos _ _ => AlterTableModifyColumn.Pos ModifyPos
  | .AlterTableModifyQuery ModifyPos _ => AlterTableModifyQuery.Pos ModifyPos
  | .AlterTableModifySetting ModifyPos _ => AlterTableModifySetting.Pos ModifyPos
  | .AlterTableModifyTTL ModifyPos _ => AlterTableModifyTTL.Pos ModifyPos
  | .AlterTableRemoveTTL RemovePos _ => AlterTableRemoveTTL.Pos RemovePos
  | .AlterTableRenameColumn RenamePos _ => AlterTableRenameColumn.Pos RenamePos
  | .AlterTableReplacePartition ReplacePos => AlterTableReplacePartition.Pos ReplacePos
  | .AlterTableResetSetting ResetPos _ => AlterTableResetSetting.Pos ResetPos
  | .AlterTableUpdate UpdatePos _ => AlterTableUpdate.Pos UpdatePos
  | .ArrayParamList LeftBracketPos _ => ArrayParamList.Pos LeftBracketPos
  | .AuthenticationClause AuthPos _ _ _ _ => AuthenticationClause.Pos AuthPos
  | .BetweenClause _ => BetweenClause.Pos (p.child 0) (p.child 1)
  | .BoolLiteral LiteralPos _ _ => BoolLiteral.Pos LiteralPos
  | .CTEStmt CTEPos => CTEStmt.Pos CTEPos
  | .CastExpr CastPos _ _ => CastExpr.Pos CastPos
  | .CheckStmt CheckPos => CheckStmt.Pos CheckPos
  | .ColumnArgList _ LeftParenPos _ => ColumnArgList.Pos LeftParenPos
  | .ColumnExprList ListPos _ _ => ColumnExprList.Pos ListPos
  | .ColumnNamesExpr LeftParenPos _ => ColumnNamesExpr.Pos LeftParenPos
  | .ColumnTypeExpr => p.withNode 0 none fun Name => ColumnTypeExpr.Pos Name
  | .CompressionCodec CodecPos _ => CompressionCodec.Pos CodecPos
  | .ConstraintClause ConstraintPos => ConstraintClause.Pos ConstraintPos
  | .CreateDictionary CreatePos _ _ _ => CreateDictionary.Pos CreatePos
  | .CreateFunction CreatePos _ _ => CreateFunction.Pos CreatePos
  | .CreateLiveView CreatePos _ _ => CreateLiveView.Pos CreatePos
  | .CreateMaterializedView CreatePos _ _ _ _ _ _ _ => CreateMaterializedView.Pos CreatePos
  | .CreateNamedCollection CreatePos _ _ => CreateNamedCollection.Pos CreatePos
  | .CreateRole CreatePos _ _ _ => CreateRole.Pos CreatePos
  | .CreateTable CreatePos _ _ _ _ => CreateTable.Pos CreatePos
  | .CreateUser CreatePos _ _ _ _ => CreateUser.Pos CreatePos
  | .CreateView CreatePos _ _ _ => CreateView.Pos CreatePos
  | .DeduplicateClause DeduplicatePos => DeduplicateClause.Pos DeduplicatePos
  | .DefaultRoleClause DefaultPos _ _ => DefaultRoleClause.Pos DefaultPos
  | .DeleteClause DeletePos => DeleteClause.Pos DeletePos
  | .DescribeStmt DescribePos _ _ => DescribeStmt.Pos DescribePos
  | .DestinationClause ToPos => DestinationClause.Pos ToPos
  | .DictionaryArgExpr ArgPos => DictionaryArgExpr.Pos ArgPos
  | .DictionaryEngineClause EnginePos => DictionaryEngineClause.Pos EnginePos
  | .DictionaryLayoutClause LayoutPos _ => DictionaryLayoutClause.Pos LayoutPos
  | .DictionaryPrimaryKeyClause PrimaryKeyPos _ => DictionaryPrimaryKeyClause.Pos PrimaryKeyPos
  | .DictionarySchemaClause SchemaPos _ => DictionarySchemaClause.Pos SchemaPos
  | .DictionarySourceClause SourcePos _ => DictionarySourceClause.Pos SourcePos
  | .DistinctOn DistinctOnPos _ => DistinctOn.Pos DistinctOnPos
  | .DropDatabase DropPos _ _ => DropDatabase.Pos DropPos
  | .DropStmt DropPos _ _ _ _ _ => DropStmt.Pos DropPos
  | .DropUserOrRole DropPos _ _ _ _ => DropUserOrRole.Pos DropPos
  | .EngineExpr EnginePos _ _ => EngineExpr.Pos EnginePos
  | .ExplainStmt ExplainPos _ => ExplainStmt.Pos ExplainPos
  | .ExtractExpr ExtractPos _ => ExtractExpr.Pos ExtractPos
  | .Fill FillPos => Fill.Pos FillPos
  | .FunctionExpr => p.withNode 0 none fun Name => FunctionExpr.Pos Name
  | .GlobalInOperation GlobalPos => GlobalInOperation.Pos GlobalPos
  | .GranteesClause GranteesPos _ _ _ => GranteesClause.Pos GranteesPos
  | .HostClause HostPos _ _ => HostClause.Pos HostPos
  | .IndexOperation _ => IndexOperation.Pos (p.child 0)
  | .InterpolateClause InterpolatePos _ => InterpolateClause.Pos InterpolatePos
  | .InterpolateItem => p.withNode 0 none fun Column => InterpolateItem.Pos Column
  | .IntervalExpr IntervalPos => IntervalExpr.Pos IntervalPos (p.child 0)
  | .IntervalFrom _ => p.withNode 0 none fun Interval => IntervalFrom.Pos Interval
  | .IsNotNullExpr _ => IsNotNullExpr.Pos (p.child 0)
  | .IsNullExpr IsPos => IsNullExpr.Pos IsPos
  | .JoinConstraintClause ConstraintPos => JoinConstraintClause.Pos ConstraintPos
  | .LimitByClause => LimitByClause.Pos (p.child 0)
  | .LimitClause LimitPos => LimitClause.Pos LimitPos
  | .MapLiteral LBracePos _ => MapLiteral.Pos LBracePos
  | .NamedCollectionParam ParamPos _ _ => NamedCollectionParam.Pos ParamPos
  | .NamedParameterExpr NamePos => NamedParameterExpr.Pos NamePos
  | .NegateExpr NegatePos => NegateExpr.Pos NegatePos
  | .ObjectParams => ObjectParams.Pos (p.child 0)
  | .OnClause OnPos => OnClause.Pos OnPos
  | .OperationExpr OperationPos _ => OperationExpr.Pos OperationPos
  | .OptimizeStmt OptimizePos _ _ => OptimizeStmt.Pos OptimizePos
  | .OrderByClause OrderPos _ => OrderByClause.Pos OrderPos
  | .OrderExpr OrderPos _ => OrderExpr.Pos OrderPos
  | .ParamExprList LeftParenPos _ => ParamExprList.Pos LeftParenPos
  | .PartitionByClause PartitionPos => PartitionByClause.Pos PartitionPos
  | .Path => Path.Pos (p.list 0)
  | .PlaceHolder PlaceholderPos _ _ => PlaceHolder.Pos PlaceholderPos
  | .PrimaryKeyClause PrimaryPos => PrimaryKeyClause.Pos PrimaryPos
  | .ProjectionOrderByClause OrderByPos => ProjectionOrderByClause.Pos OrderByPos
  | .ProjectionSelectStmt LeftParenPos _ => ProjectionSelectStmt.Pos LeftParenPos
  | .QueryParam LBracePos _ => QueryParam.Pos LBracePos
  | .RefreshExpr RefreshPos _ => RefreshExpr.Pos RefreshPos
  | .RemovePropertyType RemovePos => RemovePropertyType.Pos RemovePos
  | .RenameStmt RenamePos _ _ => RenameStmt.Pos RenamePos
  | .RoleName => RoleName.Pos (p.child 0)
  | .RoleRenamePair _ => p.withNode 0 none fun RoleName => RoleRenamePair.Pos RoleName
  | .RoleSetting => RoleSetting.Pos (p.list 0) (p.child 0)
  | .SampleByClause SamplePos => SampleByClause.Pos SamplePos
  | .SetStmt SetPos => SetStmt.Pos SetPos
  | .SettingPair _ => p.withNode 0 none fun Name => SettingPair.Pos Name
  | .ShowStmt ShowPos _ _ _ _ => ShowStmt.Pos ShowPos
  | .SubQuery _ => SubQuery.Pos (p.child 0)
  | .SystemCtrlExpr CtrlPos _ _ _ => SystemCtrlExpr.Pos CtrlPos
  | .SystemDropExpr DropPos _ _ => SystemDropExpr.Pos DropPos
  | .SystemFlushExpr FlushPos _ _ => SystemFlushExpr.Pos FlushPos
  | .SystemReloadExpr ReloadPos _ _ => SystemReloadExpr.Pos ReloadPos
  | .SystemStmt SystemPos => SystemStmt.Pos SystemPos
  | .SystemSyncExpr SyncPos => SystemSyncExpr.Pos SyncPos
  | .TTLClause TTLPos _ => TTLClause.Pos TTLPos
  | .TableArgListExpr LeftParenPos _ => TableArgListExpr.Pos LeftParenPos
  | .TableFunctionExpr => TableFunctionExpr.Pos (p.child 0)
  | .TableProjection _ ProjectionPos => TableProjection.Pos ProjectionPos
  | .TableSchemaClause SchemaPos _ => TableSchemaClause.Pos SchemaPos
  | .TargetPair => p.withNode 0 none fun Old => TargetPair.Pos Old
  | .TopClause TopPos _ _ => TopClause.Pos TopPos
  | .TruncateTable TruncatePos _ _ _ => TruncateTable.Pos TruncatePos
  | .TypedPlaceholder LeftBracePos _ => TypedPlaceholder.Pos LeftBracePos
  | .UUID => p.withNode 0 none fun Value => UUID.Pos Value
  | .UnaryExpr UnaryPos _ => UnaryExpr.Pos UnaryPos
  | .UpdateAssignment AssignmentPos => UpdateAssignment.Pos AssignmentPos
  | .UseStmt UsePos _ => UseStmt.Pos UsePos
  | .UsingClause UsingPos => UsingClause.Pos UsingPos
  | .WindowClause WindowPos _ => WindowClause.Pos WindowPos
  | .WindowDefinition _ => WindowDefinition.Pos (p.child 0)
  | .WindowExpr LeftParenPos _ => WindowExpr.Pos LeftParenPos
  | .WindowFrameClause FramePos _ => WindowFrameClause.Pos FramePos
  | .WindowFrameCurrentRow CurrentPos _ => WindowFrameCurrentRow.Pos CurrentPos
  | .WindowFrameExtendExpr _ _ => WindowFrameExtendExpr.Pos (p.child 0)
  | .WindowFrameNumber _ _ => p.withNode 0 none fun Number => WindowFrameNumber.Pos Number
  | .WindowFrameParam _ _ => p.withNode 0 none fun Param => WindowFrameParam.Pos Param
  | .WindowFrameUnbounded UnboundedPos _ _ => WindowFrameUnbounded.Pos UnboundedPos
  | .WindowFunctionExpr _ => p.withNode 0 none fun Function => WindowFunctionExpr.Pos Function
  | .WithTimeoutClause WithTimeoutPos => WithTimeoutClause.Pos WithTimeoutPos

/-- Go `End()` of the node kinds of the generic constructor: the method of the struct that
`kind` names, on the positions of the fields of the node; `none` when the call fails. -/
def NodeKind.End (kind : NodeKind) (p : Parts (Option SQLParser.Pos)) : Option SQLParser.Pos :=
  match kind with
  | .AlterRole _ StatementEnd _ => AlterRole.End StatementEnd
  | .AlterTableAttachPartition _ => p.withNode 0 none fun Partition => AlterTableAttachPartition.End
      Partition (p.child 0)
  | .AlterTableClearColumn _ StatementEnd _ => AlterTableClearColumn.End StatementEnd
  | .AlterTableClearIndex _ StatementEnd _ => AlterTableClearIndex.End StatementEnd
  | .AlterTableClearProjection _ StatementEnd _ => AlterTableClearProjection.End StatementEnd
  | .AlterTableDelete _ StatementEnd => AlterTableDelete.End StatementEnd
  | .AlterTableDetachPartition _ => p.withNode 0 none fun Partition => AlterTableDetachPartition.End
      Partition
  | .AlterTableDropIndex _ _ => p.withNode 0 none fun IndexName => AlterTableDropIndex.End IndexName
  | .AlterTableDropProjection _ _ => p.withNode 0 none fun ProjectionName =>
      AlterTableDropProjection.End ProjectionName
  | .AlterTableFreezePartition _ StatementEnd => AlterTableFreezePartition.End StatementEnd
  | .AlterTableMaterializeIndex _ StatementEnd _ => AlterTableMaterializeIndex.End StatementEnd
  | .AlterTableMaterializeProjection _ StatementEnd _ => AlterTableMaterializeProjection.End
      StatementEnd
  | .AlterTableModifyColumn _ StatementEnd _ => AlterTableModifyColumn.End StatementEnd
  | .AlterTableModifyQuery _ StatementEnd => AlterTableModifyQuery.End StatementEnd
  | .AlterTableModifySetting _ StatementEnd => AlterTableModifySetting.End StatementEnd
  | .AlterTableModifyTTL _ StatementEnd => AlterTableModifyTTL.End StatementEnd
  | .AlterTableRemoveTTL _ StatementEnd => AlterTableRemoveTTL.End StatementEnd
  | .AlterTableRenameColumn _ _ => p.withNode 1 none fun NewColumnName => AlterTableRenameColumn.End
      NewColumnName
  | .AlterTableReplacePartition _ => p.withNode 1 none fun Table => AlterTableReplacePartition.End
      Table
  | .AlterTableResetSetting _ StatementEnd => AlterTableResetSetting.End StatementEnd
  | .AlterTableUpdate _ StatementEnd => AlterTableUpdate.End StatementEnd
  | .ArrayParamList _ RightBracketPos => ArrayParamList.End RightBracketPos
  | .AuthenticationClause _ AuthEnd _ _ _ => AuthenticationClause.End AuthEnd
  | .BetweenClause _ => BetweenClause.End (p.child 2)
  | .BoolLiteral _ LiteralEnd _ => BoolLiteral.End LiteralEnd
  | .CTEStmt _ => CTEStmt.End (p.child 0)
  | .CastExpr _ _ _ => CastExpr.End (p.child 1)
  | .CheckStmt _ => CheckStmt.End (p.child 0)
  | .ColumnArgList _ _ RightParenPos => ColumnArgList.End RightParenPos
  | .ColumnExprList _ ListEnd _ => ColumnExprList.End ListEnd
  | .ColumnNamesExpr _ RightParenPos => ColumnNamesExpr.End RightParenPos
  | .ColumnTypeExpr => p.withNode 0 none fun Name => ColumnTypeExpr.End Name
  | .CompressionCodec _ RightParenPos => CompressionCodec.End RightParenPos
  | .ConstraintClause _ => ConstraintClause.End (p.child 0)
  | .CreateDictionary _ StatementEnd _ _ => CreateDictionary.End StatementEnd
  | .CreateFunction _ _ _ => CreateFunction.End (p.child 1)
  | .CreateLiveView _ StatementEnd _ => CreateLiveView.End StatementEnd
  | .CreateMaterializedView _ StatementEnd _ _ _ _ _ _ => CreateMaterializedView.End StatementEnd
  | .CreateNamedCollection _ StatementEnd _ => CreateNamedCollection.End StatementEnd
  | .CreateRole _ StatementEnd _ _ => CreateRole.End StatementEnd
  | .CreateTable _ StatementEnd _ _ _ => CreateTable.End StatementEnd
  | .CreateUser _ StatementEnd _ _ _ => CreateUser.End StatementEnd
  | .CreateView _ StatementEnd _ _ => CreateView.End StatementEnd
  | .DeduplicateClause DeduplicatePos => DeduplicateClause.End DeduplicatePos (p.child 0) (p.child
      1)
  | .DefaultRoleClause _ DefaultEnd _ => DefaultRoleClause.End DefaultEnd
  | .DeleteClause _ => DeleteClause.End (p.child 1)
  | .DescribeStmt _ _ _ => p.withNode 0 none fun Target => DescribeStmt.End Target
  | .DestinationClause _ => p.withNode 0 none fun TableIdentifier => DestinationClause.End
      TableIdentifier
  | .DictionaryArgExpr _ => DictionaryArgExpr.End (p.child 0)
  | .DictionaryEngineClause EnginePos => DictionaryEngineClause.End EnginePos (p.child 0) (p.child
      1) (p.child 2) (p.child 3) (p.child 4) (p.child 5)
  | .DictionaryLayoutClause _ RParenPos => DictionaryLayoutClause.End RParenPos
  | .DictionaryPrimaryKeyClause _ RParenPos => DictionaryPrimaryKeyClause.End RParenPos
  | .DictionarySchemaClause _ RParenPos => DictionarySchemaClause.End RParenPos
  | .DictionarySourceClause _ RParenPos => DictionarySourceClause.End RParenPos
  | .DistinctOn _ DistinctOnEnd => DistinctOn.End DistinctOnEnd
  | .DropDatabase _ StatementEnd _ => DropDatabase.End StatementEnd
  | .DropStmt _ StatementEnd _ _ _ _ => DropStmt.End StatementEnd
  | .DropUserOrRole _ _ StatementEnd _ _ => DropUserOrRole.End StatementEnd
  | .EngineExpr _ EngineEnd _ => EngineExpr.End EngineEnd
  | .ExplainStmt _ _ => ExplainStmt.End (p.child 0)
  | .ExtractExpr _ ExtractEnd => ExtractExpr.End ExtractEnd
  | .Fill FillPos => Fill.End FillPos (p.child 0) (p.child 1) (p.child 2) (p.child 3)
  | .FunctionExpr => p.withNode 1 none fun Params => FunctionExpr.End Params
  | .GlobalInOperation _ => GlobalInOperation.End (p.child 0)
  | .GranteesClause _ GranteesEnd _ _ => GranteesClause.End GranteesEnd
  | .HostClause _ HostEnd _ => HostClause.End HostEnd
  | .IndexOperation _ => IndexOperation.End (p.child 1)
  | .InterpolateClause _ ListEnd => InterpolateClause.End ListEnd
  | .InterpolateItem => p.withNode 0 none fun Column => InterpolateItem.End Column (p.child 0)
  | .IntervalExpr _ => p.withNode 0 none fun Unit => IntervalExpr.End Unit
  | .IntervalFrom _ => IntervalFrom.End (p.child 0)
  | .IsNotNullExpr _ => IsNotNullExpr.End (p.child 0)
  | .IsNullExpr _ => IsNullExpr.End (p.child 0)
  | .JoinConstraintClause _ => JoinConstraintClause.End (p.child 0) (p.child 1)
  | .LimitByClause => LimitByClause.End (p.child 0) (p.child 1)
  | .LimitClause _ => LimitClause.End (p.child 0) (p.child 1)
  | .MapLiteral _ RBracePos => MapLiteral.End RBracePos
  | .NamedCollectionParam _ _ _ => NamedCollectionParam.End (p.child 0)
  | .NamedParameterExpr _ => NamedParameterExpr.End (p.child 0)
  | .NegateExpr _ => NegateExpr.End (p.child 0)
  | .ObjectParams => p.withNode 0 none fun Params => ObjectParams.End Params
  | .OnClause _ => p.withNode 0 none fun On => OnClause.End On
  | .OperationExpr OperationPos Kind => OperationExpr.End OperationPos Kind
  | .OptimizeStmt _ StatementEnd _ => OptimizeStmt.End StatementEnd
  | .OrderByClause _ ListEnd => OrderByClause.End ListEnd (p.child 0)
  | .OrderExpr _ _ => OrderExpr.End (p.child 0) (p.child 1) (p.child 2)
  | .ParamExprList _ RightParenPos => ParamExprList.End RightParenPos
  | .PartitionByClause _ => PartitionByClause.End (p.child 0)
  | .Path => Path.End (p.list 0)
  | .PlaceHolder _ PlaceHolderEnd _ => PlaceHolder.End PlaceHolderEnd
  | .PrimaryKeyClause _ => PrimaryKeyClause.End (p.child 0)
  | .ProjectionOrderByClause _ => p.withNode 0 none fun Columns => ProjectionOrderByClause.End
      Columns
  | .ProjectionSelectStmt _ RightParenPos => ProjectionSelectStmt.End RightParenPos
  | .QueryParam _ RBracePos => QueryParam.End RBracePos
  | .RefreshExpr _ _ => RefreshExpr.End (p.child 0) (p.child 1)
  | .RemovePropertyType _ => RemovePropertyType.End (p.child 0)
  | .RenameStmt _ StatementEnd _ => RenameStmt.End StatementEnd
  | .RoleName => RoleName.End (p.child 0) (p.child 1) (p.child 2)
  | .RoleRenamePair StatementEnd => RoleRenamePair.End StatementEnd
  | .RoleSetting => RoleSetting.End (p.list 0) (p.child 0)
  | .SampleByClause _ => SampleByClause.End (p.child 0)
  | .SetStmt _ => p.withNode 0 none fun Settings => SetStmt.End Settings
  | .SettingPair _ => SettingPair.End (p.child 0)
  | .ShowStmt _ StatementEnd _ _ _ => ShowStmt.End StatementEnd (p.child 0) (p.child 1) (p.child 2)
      (p.child 3) (p.child 4)
  | .SubQuery _ => SubQuery.End (p.child 0)
  | .SystemCtrlExpr _ StatementEnd _ _ => SystemCtrlExpr.End StatementEnd
  | .SystemDropExpr _ StatementEnd _ => SystemDropExpr.End StatementEnd
  | .SystemFlushExpr _ StatementEnd _ => SystemFlushExpr.End StatementEnd
  | .SystemReloadExpr _ StatementEnd _ => SystemReloadExpr.End StatementEnd
  | .SystemStmt _ => SystemStmt.End (p.child 0)
  | .SystemSyncExpr _ => p.withNode 0 none fun Cluster => SystemSyncExpr.End Cluster
  | .TTLClause _ ListEnd => TTLClause.End ListEnd
  | .TableArgListExpr _ RightParenPos => TableArgListExpr.End RightParenPos
  | .TableFunctionExpr => p.withNode 0 none fun Args => TableFunctionExpr.End Args
  | .TableProjection _ _ => p.withNode 1 none fun Select => TableProjection.End Select
  | .TableSchemaClause _ SchemaEnd => TableSchemaClause.End SchemaEnd
  | .TargetPair => p.withNode 1 none fun New => TargetPair.End New
  | .TopClause _ TopEnd _ => TopClause.End TopEnd
  | .TruncateTable _ StatementEnd _ _ => TruncateTable.End StatementEnd
  | .TypedPlaceholder _ RightBracePos => TypedPlaceholder.End RightBracePos
  | .UUID => p.withNode 0 none fun Value => UUID.End Value
  | .UnaryExpr _ _ => UnaryExpr.End (p.child 0)
  | .UpdateAssignment _ => UpdateAssignment.End (p.child 0)
  | .UseStmt _ _ => p.withNode 0 none fun Database => UseStmt.End Database
  | .UsingClause _ => p.withNode 0 none fun Using => UsingClause.End Using
  | .WindowClause WindowPos EndPos => WindowClause.End WindowPos EndPos (p.list 0)
  | .WindowDefinition _ => WindowDefinition.End (p.child 1)
  | .WindowExpr _ RightParenPos => WindowExpr.End RightParenPos
  | .WindowFrameClause _ _ => WindowFrameClause.End (p.child 0)
  | .WindowFrameCurrentRow _ RowEnd => WindowFrameCurrentRow.End RowEnd
  | .WindowFrameExtendExpr _ EndPos => WindowFrameExtendExpr.End (p.child 0) EndPos
  | .WindowFrameNumber EndPos _ => WindowFrameNumber.End EndPos
  | .WindowFrameParam EndPos _ => WindowFrameParam.End EndPos
  | .WindowFrameUnbounded _ UnboundedEnd _ => WindowFrameUnbounded.End UnboundedEnd
  | .WindowFunctionExpr _ => WindowFunctionExpr.End (p.child 0)
  | .WithTimeoutClause _ => p.withNode 0 none fun Number => WithTimeoutClause.End Number

mutual

/-- Go `Pos()` of each node kind. -/
def Expr.Pos : Expr → Option Pos
  | .Ident i => some i.NamePos
  | .NumberLiteral NumPos _ _ _ => some NumPos
  | .StringLiteral LiteralPos _ _ => some LiteralPos
  | .NestedIdentifier ident _ => some ident.NamePos
  | .TableIdentifier Database Table =>
      match Database with
      | some d => some d.NamePos
      | none => some Table.NamePos
  | .BinaryOperation LeftExpr _ _ _ _ => posOf LeftExpr
  | .NotExpr NotPos _ => some NotPos
  | .AliasExpr _ AliasPos _ => some AliasPos
  | .ColumnExpr expr _ => posOf expr
  | .SelectItem expr _ _ => posOf expr
  | .TableExpr TablePos _ _ _ _ => some TablePos
  | .JoinTableExpr Table _ _ _ => Expr.Pos Table
  | .JoinExpr JoinPos _ _ _ _ => some JoinPos
  | .FromClause FromPos _ => some FromPos
  | .WhereClause WherePos _ => some WherePos
  | .PrewhereClause PrewherePos _ => some PrewherePos
  | .HavingClause HavingPos _ => some HavingPos
  | .SelectQuery SelectPos _ _ _ _ _ _ _ _ _ _ _ _ _ _ _ _ _ _ _ _ _ => some SelectPos
  | .WithClause WithPos _ _ => some WithPos
  | .TernaryOperation Condition _ _ => posOf Condition
  | .NullLiteral NullPos => some NullPos
  | .NotNullLiteral NotPos _ => some NotPos
  | .ColumnDef _ _ Name _ _ _ _ _ _ _ _ _ _ => Expr.Pos Name
  | .CreateDatabase CreatePos _ _ _ _ _ _ => some CreatePos
  | .AlterTable AlterPos _ _ _ _ => some AlterPos
  | .AlterTableDropPartition DropPos _ _ _ => some DropPos
  | .TTLPolicyRuleAction ActionPos _ _ _ => some ActionPos
  | .TTLPolicyRule RulePos _ _ _ => some RulePos
  | .TTLPolicy Item Where GroupBy =>
      if Item.isSome then posOf Item
      else if Where.isSome then posOf Where
      else posOf GroupBy
  | .TTLExpr TTLPos _ _ => some TTLPos
  | .RatioExpr Numerator _ => Expr.Pos Numerator
  | .SampleClause SamplePos _ _ => some SamplePos
  | .ScalarType Name => some Name.NamePos
  | .PropertyType Name => some Name.NamePos
  | .TypeWithParams _ _ Name _ => some Name.NamePos
  | .ComplexType _ _ Name _ => some Name.NamePos
  | .NestedType _ _ Name _ => some Name.NamePos
  | .EnumValue Name _ => Expr.Pos Name
  | .EnumType _ ListPos _ _ => some ListPos
  | .JSONType Name _ => some Name.NamePos
  | .AlterTableAddColumn AddPos _ _ _ _ _ => some AddPos
  | .AlterTableDropColumn DropPos _ _ => some DropPos
  | .PartitionClause PartitionPos _ _ _ => some PartitionPos
  | .SettingExpr SettingsPos _ _ => some SettingsPos
  | .SettingsClause SettingsPos _ _ => some SettingsPos
  | .DictionaryLifetimeClause LifetimePos _ _ _ _ => some LifetimePos
  | .DictionaryRangeClause RangePos _ _ _ => some RangePos
  | .DictionaryAttribute NamePos _ _ _ _ _ _ _ => some NamePos
  | .WhenClause WhenPos _ _ _ _ _ => some WhenPos
  | .CaseExpr CasePos _ _ _ _ _ => some CasePos
  | .GroupByClause GroupByPos _ _ _ _ _ _ => some GroupByPos
  | .ClusterClause OnPos _ => some OnPos
  | .PrivilegeClause PrivilegePos _ _ _ => some PrivilegePos
  | .GrantPrivilegeStmt GrantPos _ _ _ _ _ _ => some GrantPos
  | .TableIndex IndexPos _ _ _ _ => some IndexPos
  | .AlterTableAddIndex AddPos _ _ _ _ => some AddPos
  | .AlterTableAddProjection AddPos _ _ _ _ => some AddPos
  | .FormatClause FormatPos _ => some FormatPos
  | .AssignmentValues LeftParenPos _ _ => some LeftParenPos
  | .InsertStmt InsertPos _ _ _ _ _ _ => some InsertPos
  | .Node kind nodes children lists =>
      NodeKind.Pos kind ⟨posItems nodes, posChildren children, posLists lists⟩

/-- The call `x.Pos()` on a field `x` that may be `nil`; the call fails on `nil`. -/
def posOf : Option Expr → Option Pos
  | none => none
  | some x => Expr.Pos x

/-- The positions of the nodes of a list. -/
def posItems : List Expr → List (Option Pos)
  | [] => []
  | x :: rest => Expr.Pos x :: posItems rest

/-- The positions of the fields that may be `nil`. -/
def posChildren : List (Option Expr) → List (Option (Option Pos))
  | [] => []
  | none :: rest => none :: posChildren rest
  | some x :: rest => some (Expr.Pos x) :: posChildren rest

/-- The positions of the elements of the slices. -/
def posLists : List (List Expr) → List (List (Option Pos))
  | [] => []
  | xs :: rest => posItems xs :: posLists rest

end

mutual

/-- Go `End()` of each node kind. -/
def Expr.End : Expr → Option Pos
  | .Ident i => some i.NameEnd
  | .NumberLiteral _ NumEnd _ _ => some NumEnd
  | .StringLiteral _ LiteralEnd _ => some LiteralEnd
  | .NestedIdentifier ident DotIdent =>
      match DotIdent with
      | some d => some d.NameEnd
      | none => some ident.NameEnd
  | .TableIdentifier _ Table => some Table.NameEnd
  | .BinaryOperation _ _ RightExpr _ _ => endOf RightExpr
  | .NotExpr _ expr => endOf expr
  | .AliasExpr _ _ Alias => endOf Alias
  | .ColumnExpr expr Alias =>
      match Alias with
      | some a => some a.NameEnd
      | none => endOf expr
  | .SelectItem expr Modifiers Alias =>
      match Alias with
      | some a => some a.NameEnd
      | none => if Modifiers.length > 0 then endOfLast Modifiers else endOf expr
  | .TableExpr _ TableEnd _ _ _ => some TableEnd
  | .JoinTableExpr _ StatementEnd _ _ => some StatementEnd
  | .JoinExpr _ Left Right _ Constraints =>
      if Right.isSome then endOf Right
      else if Constraints.isSome then endOf Constraints
      else endOf Left
  | .FromClause _ expr => endOf expr
  | .WhereClause _ expr => endOf expr
  | .PrewhereClause _ expr => endOf expr
  | .HavingClause _ expr => endOf expr
  | .SelectQuery _ StatementEnd _ _ _ _ _ _ _ _ _ _ _ _ _ _ _ _ _ _ _ _ => some StatementEnd
  | .WithClause _ EndPos _ => some EndPos
  | .TernaryOperation _ _ FalseExpr => endOf FalseExpr
  | .NullLiteral NullPos => some (NullPos + 4)
  | .NotNullLiteral _ nullLiteral => Expr.End nullLiteral
  | .ColumnDef _ ColumnEnd _ _ _ _ _ _ _ _ _ _ _ => some ColumnEnd
  | .CreateDatabase _ StatementEnd _ _ _ _ _ => some StatementEnd
  | .AlterTable _ StatementEnd _ _ _ => some StatementEnd
  | .AlterTableDropPartition _ _ Partition Settings =>
      if Settings.isSome then
        match endOf Settings with
        | some _ => Expr.End Partition
        | none => none
      else Expr.End Partition
  | .TTLPolicyRuleAction _ ActionEnd _ Codec =>
      if Codec.isSome then endOf Codec else some ActionEnd
  | .TTLPolicyRule _ ToVolume ToDisk Action =>
      if Action.isSome then endOf Action
      else if ToDisk.isSome then endOf ToDisk
      else endOf ToVolume
  | .TTLPolicy Item Where GroupBy =>
      if GroupBy.isSome then endOf GroupBy
      else if Where.isSome then endOf Where
      else endOf Item
  | .TTLExpr _ expr _ => endOf expr
  | .RatioExpr Numerator Denominator =>
      if Denominator.isSome then endOf Denominator else Expr.End Numerator
  | .SampleClause _ Ratio Offset =>
      if Offset.isSome then endOf Offset else Expr.End Ratio
  | .ScalarType Name => some Name.NameEnd
  | .PropertyType Name => some Name.NameEnd
  | .TypeWithParams _ RightParenPos _ _ => some RightParenPos
  | .ComplexType _ RightParenPos _ _ => some RightParenPos
  | .NestedType _ RightParenPos _ _ => some RightParenPos
  | .EnumValue _ Value => Expr.End Value
  | .EnumType _ _ ListEnd _ => some ListEnd
  | .JSONType Name Options =>
      match Options with
      | some o => some o.RParen
      | none => some Name.NameEnd
  | .AlterTableAddColumn _ StatementEnd _ _ _ Settings =>
      if Settings.isSome then endOf Settings else some StatementEnd
  | .AlterTableDropColumn _ ColumnName _ => Expr.End ColumnName
  | .PartitionClause _ expr ID _ =>
      if ID.isSome then endOf ID else endOf expr
  | .SettingExpr _ _ expr => endOf expr
  | .SettingsClause _ ListEnd _ => some ListEnd
  | .DictionaryLifetimeClause _ _ _ _ RParenPos => some (RParenPos + 1)
  | .DictionaryRangeClause _ _ _ RParenPos => some (RParenPos + 1)
  | .DictionaryAttribute NamePos _ type Default Expression Hierarchical Injective IsObjectId =>
      if IsObjectId then some (NamePos + ("IS_OBJECT_ID" : String).length)
      else if Injective then some (NamePos + ("INJECTIVE" : String).length)
      else if Hierarchical then some (NamePos + ("HIERARCHICAL" : String).length)
      else if Expression.isSome then endOf Expression
      else if Default.isSome then endOf Default
      else endOf type
  | .WhenClause _ _ _ Then _ Else => if Else.isSome then endOf Else else endOf Then
  | .CaseExpr _ EndPos _ _ _ _ => some EndPos
  | .GroupByClause _ GroupByEnd _ _ _ _ _ => some GroupByEnd
  | .ClusterClause _ expr => endOf expr
  | .PrivilegeClause _ PrivilegeEnd _ _ => some PrivilegeEnd
  | .GrantPrivilegeStmt _ StatementEnd _ _ _ _ _ => some StatementEnd
  | .TableIndex _ _ _ _ Granularity => Expr.End Granularity
  | .AlterTableAddIndex _ StatementEnd _ _ _ => some StatementEnd
  | .AlterTableAddProjection _ StatementEnd _ _ _ => some StatementEnd
  | .FormatClause _ Format => some Format.NameEnd
  | .AssignmentValues _ RightParenPos _ => some RightParenPos
  | .InsertStmt _ _ _ _ _ Values SelectExpr =>
      if SelectExpr.isSome then endOf SelectExpr else endOfLast Values
  | .Node kind nodes children lists =>
      NodeKind.End kind ⟨endItems nodes, endChildren children, endLists lists⟩

/-- The call `x.End()` on a field `x` that may be `nil`; the call fails on `nil`. -/
def endOf : Option Expr → Option Pos
  | none => none
  | some x => Expr.End x

/-- The call `xs[len(xs)-1].End()` of `(*SelectItem).End` (on `s.Modifiers`) and of
`(*InsertStmt).End` (on `i.Values`): the index is out of range on an empty list, and the
call fails. -/
def endOfLast : List Expr → Option Pos
  | [] => none
  | x :: rest => if rest.isEmpty then Expr.End x else endOfLast rest

/-- The end positions of the nodes of a list. -/
def endItems : List Expr → List (Option Pos)
  | [] => []
  | x :: rest => Expr.End x :: endItems rest

/-- The end positions of the fields that may be `nil`. -/
def endChildren : List (Option Expr) → List (Option (Option Pos))
  | [] => []
  | none :: rest => none :: endChildren rest
  | some x :: rest => some (Expr.End x) :: endChildren rest

/-- The end positions of the elements of the slices. -/
def endLists : List (List Expr) → List (List (Option Pos))
  | [] => []
  | xs :: rest => endItems xs :: endLists rest

end

/-! ## Visitor protocol (ast.go: the `Accept` methods) -/

/-- Modelled from the spec: the interface `ASTVisitor` is declared outside the sources at
hand.  A visitor is a caller-supplied object that receives `Enter`, `Leave` and the
node-kind-specific `VisitX` notifications; `Enter` and `Leave` return nothing, `VisitX`
returns an error or `nil`.  The object has a state of type `σ`, errors have type `ε`, and
`Visit` stands for all the `VisitX` methods, the kind being that of the node. -/
structure ASTVisitor (σ ε : Type) where
  Enter : Expr → σ → σ
  Leave : Expr → σ → σ
  Visit : Expr → σ → σ × Option ε

/-- A notification received by the visitor. -/
inductive Event where
  | Enter (node : Expr)
  | Visit (node : Expr)
  | Leave (node : Expr)

/-- How a call of `Accept` ends: it returns `nil`, it returns an error, or it fails on a
`nil` child that the method does not test. -/
inductive Outcome (ε : Type) where
  | ok
  | error (e : ε)
  | nilDereference

/-- A call of `Accept`, observed from outside: the state of the visitor afterwards, the
notifications it received, in order, and how the call ended. -/
structure Traversal (σ ε : Type) where
  state : σ
  events : List Event
  result : Outcome ε

/-! ### `Accept` of the node kinds of the generic constructor -/

/-- One statement of an `Accept` method between `defer visitor.Leave(x)` and the call of
the callback, on fields given as values of type `τ`. -/
inductive AcceptStep (τ : Type) where
  /-- The statement `if err := x.F.Accept(visitor); err != nil { return err }` on a
  pointer field that no method tests against `nil`. -/
  | node (child : τ)
  /-- The same statement on a field of interface type, which may be `nil`: the call fails
  on `nil`. -/
  | field (child : Option τ)
  /-- The statement `if x.F != nil { if err := x.F.Accept(visitor); err != nil { return err
  } }`. -/
  | ifPresent (child : Option τ)
  /-- The loop `for _, item := range x.F { if err := item.Accept(visitor); err != nil {
  return err } }`. -/
  | each (children : List τ)

/-- The image of a statement under a function of the nodes. -/
def AcceptStep.map {τ υ : Type} (g : τ → υ) : AcceptStep τ → AcceptStep υ
  | .node child => .node (g child)
  | .field child => .field (child.map g)
  | .ifPresent child => .ifPresent (child.map g)
  | .each children => .each (children.map g)

/-- The statement `if err := x.F.Accept(visitor); err != nil { return err }` on the pointer
field number `i` of an element of a slice, the element being given by its fields. -/
def Parts.acceptNode {τ : Type} (p : Parts τ) (i : Nat) : List (AcceptStep τ) :=
  p.withNode i [] fun x => [.node x]

/-- Go `(*AlterRole).Accept`: the calls of `Accept` on the fields, in the order of the method. -/
def AlterRole.Accept {τ : Type} (RoleRenamePairs Settings : List τ) : List (AcceptStep τ) :=
  [.each RoleRenamePairs, .each Settings]

/-- Go `(*AlterTableAttachPartition).Accept`: the calls of `Accept` on the fields, in the order of
the method. -/
def AlterTableAttachPartition.Accept {τ : Type} (Partition : τ) (From : Option τ) :
    List (AcceptStep τ) :=
  [.node Partition, .ifPresent From]

/-- Go `(*AlterTableClearColumn).Accept`: the calls of `Accept` on the fields, in the order of the
method. -/
def AlterTableClearColumn.Accept {τ : Type} (ColumnName : τ) (PartitionExpr : Option τ) :
    List (AcceptStep τ) :=
  [.node ColumnName, .ifPresent PartitionExpr]

/-- Go `(*AlterTableClearIndex).Accept`: the calls of `Accept` on the fields, in the order of the
method. -/
def AlterTableClearIndex.Accept {τ : Type} (IndexName : τ) (PartitionExpr : Option τ) :
    List (AcceptStep τ) :=
  [.node IndexName, .ifPresent PartitionExpr]

/-- Go `(*AlterTableClearProjection).Accept`: the calls of `Accept` on the fields, in the order of
the method. -/
def AlterTableClearProjection.Accept {τ : Type} (ProjectionName : τ) (PartitionExpr : Option τ) :
    List (AcceptStep τ) :=
  [.node ProjectionName, .ifPresent PartitionExpr]

/-- Go `(*AlterTableDelete).Accept`: the calls of `Accept` on the fields, in the order of the
method. -/
def AlterTableDelete.Accept {τ : Type} (WhereClause : Option τ) : List (AcceptStep τ) :=
  [.field WhereClause]

/-- Go `(*AlterTableDetachPartition).Accept`: the calls of `Accept` on the fields, in the order of
the method. -/
def AlterTableDetachPartition.Accept {τ : Type} (Partition : τ) (Settings : Option τ) :
    List (AcceptStep τ) :=
  [.node Partition, .ifPresent Settings]

/-- Go `(*AlterTableDropIndex).Accept`: the calls of `Accept` on the fields, in the order of the
method. -/
def AlterTableDropIndex.Accept {τ : Type} (IndexName : τ) : List (AcceptStep τ) :=
  [.node IndexName]

/-- Go `(*AlterTableDropProjection).Accept`: the calls of `Accept` on the fields, in the order of
the method. -/
def AlterTableDropProjection.Accept {τ : Type} (ProjectionName : τ) : List (AcceptStep τ) :=
  [.node ProjectionName]

/-- Go `(*AlterTableFreezePartition).Accept`: the calls of `Accept` on the fields, in the order of
the method. -/
def AlterTableFreezePartition.Accept {τ : Type} (Partition : Option τ) : List (AcceptStep τ) :=
  [.ifPresent Partition]

/-- Go `(*AlterTableMaterializeIndex).Accept`: the calls of `Accept` on the fields, in the order of
the method. -/
def AlterTableMaterializeIndex.Accept {τ : Type} (IndexName : τ) (Partition : Option τ) :
    List (AcceptStep τ) :=
  [.node IndexName, .ifPresent Partition]

/-- Go `(*AlterTableMaterializeProjection).Accept`: the calls of `Accept` on the fields, in the
order of the method. -/
def AlterTableMaterializeProjection.Accept {τ : Type} (ProjectionName : τ) (Partition : Option τ) :
    List (AcceptStep τ) :=
  [.node ProjectionName, .ifPresent Partition]

/-- Go `(*AlterTableModifyColumn).Accept`: the calls of `Accept` on the fields, in the order of the
method. -/
def AlterTableModifyColumn.Accept {τ : Type} (Column : τ) (RemovePropertyType : Option τ) :
    List (AcceptStep τ) :=
  [.node Column, .ifPresent RemovePropertyType]

/-- Go `(*AlterTableModifyQuery).Accept`: the calls of `Accept` on the fields, in the order of the
method. -/
def AlterTableModifyQuery.Accept {τ : Type} (SelectExpr : τ) : List (AcceptStep τ) :=
  [.node SelectExpr]

/-- Go `(*AlterTableModifySetting).Accept`: the calls of `Accept` on the fields, in the order of the
method. -/
def AlterTableModifySetting.Accept {τ : Type} (Settings : List τ) : List (AcceptStep τ) :=
  [.each Settings]

/-- Go `(*AlterTableModifyTTL).Accept`: the calls of `Accept` on the fields, in the order of the
method. -/
def AlterTableModifyTTL.Accept {τ : Type} (TTL : τ) : List (AcceptStep τ) :=
  [.node TTL]

/-- Go `(*AlterTableRemoveTTL).Accept`: the calls of `Accept` on the fields, in the order of the
method. -/
def AlterTableRemoveTTL.Accept {τ : Type} : List (AcceptStep τ) :=
  []

/-- Go `(*AlterTableRenameColumn).Accept`: the calls of `Accept` on the fields, in the order of the
method. -/
def AlterTableRenameColumn.Accept {τ : Type} (OldColumnName NewColumnName : τ) :
    List (AcceptStep τ) :=
  [.node OldColumnName, .node NewColumnName]

/-- Go `(*AlterTableReplacePartition).Accept`: the calls of `Accept` on the fields, in the order of
the method. -/
def AlterTableReplacePartition.Accept {τ : Type} (Partition Table : τ) : List (AcceptStep τ) :=
  [.node Partition, .node Table]

/-- Go `(*AlterTableResetSetting).Accept`: the calls of `Accept` on the fields, in the order of the
method. -/
def AlterTableResetSetting.Accept {τ : Type} (Settings : List τ) : List (AcceptStep τ) :=
  [.each Settings]

/-- Go `(*AlterTableUpdate).Accept`: the calls of `Accept` on the fields, in the order of the
method. -/
def AlterTableUpdate.Accept {τ : Type} (Assignments : List τ) (InPartition WhereClause : Option τ) :
    List (AcceptStep τ) :=
  [.each Assignments, .ifPresent InPartition, .field WhereClause]

/-- Go `(*ArrayParamList).Accept`: the calls of `Accept` on the fields, in the order of the method.
-/
def ArrayParamList.Accept {τ : Type} (Items : τ) : List (AcceptStep τ) :=
  [.node Items]

/-- Go `(*AuthenticationClause).Accept`: the calls of `Accept` on the fields, in the order of the
method. -/
def AuthenticationClause.Accept {τ : Type} (AuthValue LdapServer KerberosRealm : Option τ) :
    List (AcceptStep τ) :=
  [.ifPresent AuthValue, .ifPresent LdapServer, .ifPresent KerberosRealm]

/-- Go `(*BetweenClause).Accept`: the calls of `Accept` on the fields, in the order of the method.
-/
def BetweenClause.Accept {τ : Type} (expr Between And : Option τ) : List (AcceptStep τ) :=
  [.ifPresent expr, .field Between, .field And]

/-- Go `(*BoolLiteral).Accept`: the calls of `Accept` on the fields, in the order of the method. -/
def BoolLiteral.Accept {τ : Type} : List (AcceptStep τ) :=
  []

/-- Go `(*CTEStmt).Accept`: the calls of `Accept` on the fields, in the order of the method. -/
def CTEStmt.Accept {τ : Type} (expr Alias : Option τ) : List (AcceptStep τ) :=
  [.field expr, .field Alias]

/-- Go `(*CastExpr).Accept`: the calls of `Accept` on the fields, in the order of the method. -/
def CastExpr.Accept {τ : Type} (expr AsType : Option τ) : List (AcceptStep τ) :=
  [.field expr, .field AsType]

/-- Go `(*CheckStmt).Accept`: the calls of `Accept` on the fields, in the order of the method. -/
def CheckStmt.Accept {τ : Type} (Table : τ) (Partition : Option τ) : List (AcceptStep τ) :=
  [.node Table, .ifPresent Partition]

/-- Go `(*ColumnArgList).Accept`: the calls of `Accept` on the fields, in the order of the method.
-/
def ColumnArgList.Accept {τ : Type} (Items : List τ) : List (AcceptStep τ) :=
  [.each Items]

/-- Go `(*ColumnExprList).Accept`: the calls of `Accept` on the fields, in the order of the method.
-/
def ColumnExprList.Accept {τ : Type} (Items : List τ) : List (AcceptStep τ) :=
  [.each Items]

/-- Go `(*ColumnNamesExpr).Accept`: the calls of `Accept` on the fields, in the order of the method.
The loop `for i := range c.ColumnNames` calls `Accept` on every element. -/
def ColumnNamesExpr.Accept {τ : Type} (ColumnNames : List τ) : List (AcceptStep τ) :=
  [.each ColumnNames]

/-- Go `(*ColumnTypeExpr).Accept`: the calls of `Accept` on the fields, in the order of the method.
-/
def ColumnTypeExpr.Accept {τ : Type} (Name : τ) : List (AcceptStep τ) :=
  [.node Name]

/-- Go `(*CompressionCodec).Accept`: the calls of `Accept` on the fields, in the order of the
method. -/
def CompressionCodec.Accept {τ : Type} (type TypeLevel Name Level : Option τ) :
    List (AcceptStep τ) :=
  [.ifPresent type, .ifPresent TypeLevel, .ifPresent Name, .ifPresent Level]

/-- Go `(*ConstraintClause).Accept`: the calls of `Accept` on the fields, in the order of the
method. -/
def ConstraintClause.Accept {τ : Type} (Constraint : τ) (expr : Option τ) : List (AcceptStep τ) :=
  [.node Constraint, .field expr]

/-- Go `(*CreateDictionary).Accept`: the calls of `Accept` on the fields, in the order of the
method. -/
def CreateDictionary.Accept {τ : Type} (Name : τ)
    (UUID OnCluster Schema Engine Comment : Option τ) : List (AcceptStep τ) :=
  [.node Name, .ifPresent UUID, .ifPresent OnCluster, .ifPresent Schema, .ifPresent Engine,
    .ifPresent Comment]

/-- Go `(*CreateFunction).Accept`: the calls of `Accept` on the fields, in the order of the method.
-/
def CreateFunction.Accept {τ : Type} (FunctionName : τ) (OnCluster : Option τ) (Params : τ)
    (expr : Option τ) : List (AcceptStep τ) :=
  [.node FunctionName, .ifPresent OnCluster, .node Params, .field expr]

/-- Go `(*CreateLiveView).Accept`: the calls of `Accept` on the fields, in the order of the method.
-/
def CreateLiveView.Accept {τ : Type} (Name : τ)
    (UUID OnCluster Destination TableSchema WithTimeout SubQuery : Option τ) :
    List (AcceptStep τ) :=
  [.node Name, .ifPresent UUID, .ifPresent OnCluster, .ifPresent Destination, .ifPresent
    TableSchema, .ifPresent WithTimeout, .ifPresent SubQuery]

/-- Go `(*CreateMaterializedView).Accept`: the calls of `Accept` on the fields, in the order of the
method.  The argument `DependsOnSet` is the test `c.DependsOn != nil`, `DestinationTableSchema` is
`c.Destination.TableSchema`; the call on `c.Destination` stands inside the test of that field. -/
def CreateMaterializedView.Accept {τ : Type} (Name : τ) (OnCluster Refresh RandomizeFor : Option τ)
    (DependsOnSet : Bool) (DependsOn : List τ)
    (Settings Engine Destination DestinationTableSchema SubQuery Comment Definer : Option τ) :
    List (AcceptStep τ) :=
  [.node Name, .ifPresent OnCluster, .ifPresent Refresh, .ifPresent RandomizeFor] ++
    ((if DependsOnSet then [.each DependsOn] else []) ++
    ([.ifPresent Settings, .ifPresent Engine] ++
    ((if Destination.isSome then [.ifPresent Destination, .ifPresent DestinationTableSchema]
      else []) ++
    [.ifPresent SubQuery, .ifPresent Definer, .ifPresent Comment])))

/-- Go `(*CreateNamedCollection).Accept`: the calls of `Accept` on the fields, in the order of the
method. -/
def CreateNamedCollection.Accept {τ : Type} (Name : τ) (OnCluster : Option τ) (Params : List τ) :
    List (AcceptStep τ) :=
  [.node Name, .ifPresent OnCluster, .each Params]

/-- Go `(*CreateRole).Accept`: the calls of `Accept` on the fields, in the order of the method. -/
def CreateRole.Accept {τ : Type} (RoleNames : List τ) (AccessStorageType : Option τ)
    (Settings : List τ) : List (AcceptStep τ) :=
  [.each RoleNames, .ifPresent AccessStorageType, .each Settings]

/-- Go `(*CreateTable).Accept`: the calls of `Accept` on the fields, in the order of the method. -/
def CreateTable.Accept {τ : Type} (Name : τ)
    (UUID OnCluster TableSchema Engine SubQuery TableFunction : Option τ) : List (AcceptStep τ) :=
  [.node Name, .ifPresent UUID, .ifPresent OnCluster, .ifPresent TableSchema, .ifPresent Engine,
    .ifPresent SubQuery, .ifPresent TableFunction]

/-- Go `(*CreateUser).Accept`: the calls of `Accept` on the fields, in the order of the method. -/
def CreateUser.Accept {τ : Type} (UserNames : List τ) (Authentication : Option τ) (Hosts : List τ)
    (DefaultRole DefaultDatabase Grantees : Option τ) (Settings : List τ) : List (AcceptStep τ) :=
  [.each UserNames, .ifPresent Authentication, .each Hosts, .ifPresent DefaultRole, .ifPresent
    DefaultDatabase, .ifPresent Grantees, .each Settings]

/-- Go `(*CreateView).Accept`: the calls of `Accept` on the fields, in the order of the method. -/
def CreateView.Accept {τ : Type} (Name : τ) (UUID OnCluster TableSchema SubQuery : Option τ) :
    List (AcceptStep τ) :=
  [.node Name, .ifPresent UUID, .ifPresent OnCluster, .ifPresent TableSchema, .ifPresent SubQuery]

/-- Go `(*DeduplicateClause).Accept`: the calls of `Accept` on the fields, in the order of the
method. -/
def DeduplicateClause.Accept {τ : Type} (By Except : Option τ) : List (AcceptStep τ) :=
  [.ifPresent By, .ifPresent Except]

/-- Go `(*DefaultRoleClause).Accept`: the calls of `Accept` on the fields, in the order of the
method. -/
def DefaultRoleClause.Accept {τ : Type} (Roles : List τ) : List (AcceptStep τ) :=
  [.each Roles]

/-- Go `(*DeleteClause).Accept`: the calls of `Accept` on the fields, in the order of the method. -/
def DeleteClause.Accept {τ : Type} (Table : τ) (OnCluster WhereExpr : Option τ) :
    List (AcceptStep τ) :=
  [.node Table, .ifPresent OnCluster, .ifPresent WhereExpr]

/-- Go `(*DescribeStmt).Accept`: the calls of `Accept` on the fields, in the order of the method. -/
def DescribeStmt.Accept {τ : Type} (Target : τ) : List (AcceptStep τ) :=
  [.node Target]

/-- Go `(*DestinationClause).Accept`: the calls of `Accept` on the fields, in the order of the
method. -/
def DestinationClause.Accept {τ : Type} (TableIdentifier : τ) : List (AcceptStep τ) :=
  [.node TableIdentifier]

/-- Go `(*DictionaryArgExpr).Accept`: the calls of `Accept` on the fields, in the order of the
method. -/
def DictionaryArgExpr.Accept {τ : Type} (Name : τ) (Value : Option τ) : List (AcceptStep τ) :=
  [.node Name, .field Value]

/-- Go `(*DictionaryEngineClause).Accept`: the calls of `Accept` on the fields, in the order of the
method. -/
def DictionaryEngineClause.Accept {τ : Type}
    (PrimaryKey Source Lifetime Layout Range Settings : Option τ) : List (AcceptStep τ) :=
  [.ifPresent PrimaryKey, .ifPresent Source, .ifPresent Lifetime, .ifPresent Layout, .ifPresent
    Range, .ifPresent Settings]

/-- Go `(*DictionaryLayoutClause).Accept`: the calls of `Accept` on the fields, in the order of the
method. -/
def DictionaryLayoutClause.Accept {τ : Type} (Layout : τ) (Args : List τ) : List (AcceptStep τ) :=
  [.node Layout, .each Args]

/-- Go `(*DictionaryPrimaryKeyClause).Accept`: the calls of `Accept` on the fields, in the order of
the method. -/
def DictionaryPrimaryKeyClause.Accept {τ : Type} (Keys : τ) : List (AcceptStep τ) :=
  [.node Keys]

/-- Go `(*DictionarySchemaClause).Accept`: the calls of `Accept` on the fields, in the order of the
method. -/
def DictionarySchemaClause.Accept {τ : Type} (Attributes : List τ) : List (AcceptStep τ) :=
  [.each Attributes]

/-- Go `(*DictionarySourceClause).Accept`: the calls of `Accept` on the fields, in the order of the
method. -/
def DictionarySourceClause.Accept {τ : Type} (Source : τ) (Args : List τ) : List (AcceptStep τ) :=
  [.node Source, .each Args]

/-- Go `(*DistinctOn).Accept`: the calls of `Accept` on the fields, in the order of the method. -/
def DistinctOn.Accept {τ : Type} (Idents : List τ) : List (AcceptStep τ) :=
  [.each Idents]

/-- Go `(*DropDatabase).Accept`: the calls of `Accept` on the fields, in the order of the method. -/
def DropDatabase.Accept {τ : Type} (Name : τ) (OnCluster : Option τ) : List (AcceptStep τ) :=
  [.node Name, .ifPresent OnCluster]

/-- Go `(*DropStmt).Accept`: the calls of `Accept` on the fields, in the order of the method. -/
def DropStmt.Accept {τ : Type} (Name : τ) (OnCluster : Option τ) : List (AcceptStep τ) :=
  [.node Name, .ifPresent OnCluster]

/-- Go `(*DropUserOrRole).Accept`: the calls of `Accept` on the fields, in the order of the method.
-/
def DropUserOrRole.Accept {τ : Type} (Names : List τ) (From : Option τ) : List (AcceptStep τ) :=
  [.each Names, .ifPresent From]

/-- Go `(*EngineExpr).Accept`: the calls of `Accept` on the fields, in the order of the method. -/
def EngineExpr.Accept {τ : Type}
    (Params PrimaryKey PartitionBy SampleBy TTL Settings OrderBy : Option τ) :
    List (AcceptStep τ) :=
  [.ifPresent Params, .ifPresent PrimaryKey, .ifPresent PartitionBy, .ifPresent SampleBy, .ifPresent
    TTL, .ifPresent Settings, .ifPresent OrderBy]

/-- Go `(*ExplainStmt).Accept`: the calls of `Accept` on the fields, in the order of the method. -/
def ExplainStmt.Accept {τ : Type} (Statement : Option τ) : List (AcceptStep τ) :=
  [.field Statement]

/-- Go `(*ExtractExpr).Accept`: the calls of `Accept` on the fields, in the order of the method. -/
def ExtractExpr.Accept {τ : Type} (Parameters : List τ) : List (AcceptStep τ) :=
  [.each Parameters]

/-- Go `(*Fill).Accept`: the calls of `Accept` on the fields, in the order of the method. -/
def Fill.Accept {τ : Type} (From To Step Staleness : Option τ) : List (AcceptStep τ) :=
  [.ifPresent From, .ifPresent To, .ifPresent Step, .ifPresent Staleness]

/-- Go `(*FunctionExpr).Accept`: the calls of `Accept` on the fields, in the order of the method. -/
def FunctionExpr.Accept {τ : Type} (Name Params : τ) : List (AcceptStep τ) :=
  [.node Name, .node Params]

/-- Go `(*GlobalInOperation).Accept`: the calls of `Accept` on the fields, in the order of the
method. -/
def GlobalInOperation.Accept {τ : Type} (expr : Option τ) : List (AcceptStep τ) :=
  [.field expr]

/-- Go `(*GranteesClause).Accept`: the calls of `Accept` on the fields, in the order of the method.
-/
def GranteesClause.Accept {τ : Type} (Grantees ExceptUsers : List τ) : List (AcceptStep τ) :=
  [.each Grantees, .each ExceptUsers]

/-- Go `(*HostClause).Accept`: the calls of `Accept` on the fields, in the order of the method. -/
def HostClause.Accept {τ : Type} (HostValue : Option τ) : List (AcceptStep τ) :=
  [.ifPresent HostValue]

/-- Go `(*IndexOperation).Accept`: the calls of `Accept` on the fields, in the order of the method.
-/
def IndexOperation.Accept {τ : Type} (Object Index : Option τ) : List (AcceptStep τ) :=
  [.field Object, .field Index]

/-- Go `(*InterpolateClause).Accept`: the calls of `Accept` on the fields, in the order of the
method. -/
def InterpolateClause.Accept {τ : Type} (Items : List τ) : List (AcceptStep τ) :=
  [.each Items]

/-- Go `(*InterpolateItem).Accept`: the calls of `Accept` on the fields, in the order of the method.
-/
def InterpolateItem.Accept {τ : Type} (Column : τ) (expr : Option τ) : List (AcceptStep τ) :=
  [.node Column, .ifPresent expr]

/-- Go `(*IntervalExpr).Accept`: the calls of `Accept` on the fields, in the order of the method. -/
def IntervalExpr.Accept {τ : Type} (expr : Option τ) (Unit : τ) : List (AcceptStep τ) :=
  [.field expr, .node Unit]

/-- Go `(*IntervalFrom).Accept`: the calls of `Accept` on the fields, in the order of the method. -/
def IntervalFrom.Accept {τ : Type} (FromExpr : Option τ) : List (AcceptStep τ) :=
  [.field FromExpr]

/-- Go `(*IsNotNullExpr).Accept`: the calls of `Accept` on the fields, in the order of the method.
-/
def IsNotNullExpr.Accept {τ : Type} (expr : Option τ) : List (AcceptStep τ) :=
  [.field expr]

/-- Go `(*IsNullExpr).Accept`: the calls of `Accept` on the fields, in the order of the method. -/
def IsNullExpr.Accept {τ : Type} (expr : Option τ) : List (AcceptStep τ) :=
  [.field expr]

/-- Go `(*JoinConstraintClause).Accept`: the calls of `Accept` on the fields, in the order of the
method. -/
def JoinConstraintClause.Accept {τ : Type} (On Using : Option τ) : List (AcceptStep τ) :=
  [.ifPresent On, .ifPresent Using]

/-- Go `(*LimitByClause).Accept`: the calls of `Accept` on the fields, in the order of the method.
-/
def LimitByClause.Accept {τ : Type} (Limit ByExpr : Option τ) : List (AcceptStep τ) :=
  [.ifPresent Limit, .ifPresent ByExpr]

/-- Go `(*LimitClause).Accept`: the calls of `Accept` on the fields, in the order of the method. -/
def LimitClause.Accept {τ : Type} (Limit Offset : Option τ) : List (AcceptStep τ) :=
  [.ifPresent Limit, .ifPresent Offset]

/-- Go `(*MapLiteral).Accept`: the calls of `Accept` on the fields, in the order of the method.  The
slice `m.KeyValues` is given by the list of its keys and the list of its values; `kv.1` is `kv.Key`
and `kv.2` is `kv.Value`. -/
def MapLiteral.Accept {τ : Type} (Keys Values : List τ) : List (AcceptStep τ) :=
  ((Keys.zip Values).map fun kv => [AcceptStep.node kv.1, AcceptStep.node kv.2]).flatten

/-- Go `(*NamedCollectionParam).Accept`: the calls of `Accept` on the fields, in the order of the
method. -/
def NamedCollectionParam.Accept {τ : Type} (Name : τ) (Value : Option τ) : List (AcceptStep τ) :=
  [.node Name, .field Value]

/-- Go `(*NamedParameterExpr).Accept`: the calls of `Accept` on the fields, in the order of the
method. -/
def NamedParameterExpr.Accept {τ : Type} (Name : τ) (Value : Option τ) : List (AcceptStep τ) :=
  [.node Name, .field Value]

/-- Go `(*NegateExpr).Accept`: the calls of `Accept` on the fields, in the order of the method. -/
def NegateExpr.Accept {τ : Type} (expr : Option τ) : List (AcceptStep τ) :=
  [.field expr]

/-- Go `(*ObjectParams).Accept`: the calls of `Accept` on the fields, in the order of the method. -/
def ObjectParams.Accept {τ : Type} (Object : Option τ) (Params : τ) : List (AcceptStep τ) :=
  [.field Object, .node Params]

/-- Go `(*OnClause).Accept`: the calls of `Accept` on the fields, in the order of the method. -/
def OnClause.Accept {τ : Type} (On : τ) : List (AcceptStep τ) :=
  [.node On]

/-- Go `(*OperationExpr).Accept`: the calls of `Accept` on the fields, in the order of the method.
-/
def OperationExpr.Accept {τ : Type} : List (AcceptStep τ) :=
  []

/-- Go `(*OptimizeStmt).Accept`: the calls of `Accept` on the fields, in the order of the method. -/
def OptimizeStmt.Accept {τ : Type} (Table : τ) (OnCluster Partition Deduplicate : Option τ) :
    List (AcceptStep τ) :=
  [.node Table, .ifPresent OnCluster, .ifPresent Partition, .ifPresent Deduplicate]

/-- Go `(*OrderByClause).Accept`: the calls of `Accept` on the fields, in the order of the method.
-/
def OrderByClause.Accept {τ : Type} (Items : List τ) (Interpolate : Option τ) :
    List (AcceptStep τ) :=
  [.each Items, .ifPresent Interpolate]

/-- Go `(*OrderExpr).Accept`: the calls of `Accept` on the fields, in the order of the method. -/
def OrderExpr.Accept {τ : Type} (expr Alias Fill : Option τ) : List (AcceptStep τ) :=
  [.field expr, .ifPresent Alias, .ifPresent Fill]

/-- Go `(*ParamExprList).Accept`: the calls of `Accept` on the fields, in the order of the method.
-/
def ParamExprList.Accept {τ : Type} (Items : τ) (ColumnArgList : Option τ) : List (AcceptStep τ) :=
  [.node Items, .ifPresent ColumnArgList]

/-- Go `(*PartitionByClause).Accept`: the calls of `Accept` on the fields, in the order of the
method. -/
def PartitionByClause.Accept {τ : Type} (expr : Option τ) : List (AcceptStep τ) :=
  [.field expr]

/-- Go `(*Path).Accept`: the calls of `Accept` on the fields, in the order of the method. -/
def Path.Accept {τ : Type} (Fields : List τ) : List (AcceptStep τ) :=
  [.each Fields]

/-- Go `(*PlaceHolder).Accept`: the calls of `Accept` on the fields, in the order of the method. -/
def PlaceHolder.Accept {τ : Type} : List (AcceptStep τ) :=
  []

/-- Go `(*PrimaryKeyClause).Accept`: the calls of `Accept` on the fields, in the order of the
method. -/
def PrimaryKeyClause.Accept {τ : Type} (expr : Option τ) : List (AcceptStep τ) :=
  [.field expr]

/-- Go `(*ProjectionOrderByClause).Accept`: the calls of `Accept` on the fields, in the order of the
method. -/
def ProjectionOrderByClause.Accept {τ : Type} : List (AcceptStep τ) :=
  []

/-- Go `(*ProjectionSelectStmt).Accept`: the calls of `Accept` on the fields, in the order of the
method. -/
def ProjectionSelectStmt.Accept {τ : Type} (With : Option τ) (SelectColumns : τ)
    (GroupBy OrderBy : Option τ) : List (AcceptStep τ) :=
  [.ifPresent With, .node SelectColumns, .ifPresent GroupBy, .ifPresent OrderBy]

/-- Go `(*QueryParam).Accept`: the calls of `Accept` on the fields, in the order of the method. -/
def QueryParam.Accept {τ : Type} (Name : τ) (type : Option τ) : List (AcceptStep τ) :=
  [.node Name, .field type]

/-- Go `(*RefreshExpr).Accept`: the calls of `Accept` on the fields, in the order of the method. -/
def RefreshExpr.Accept {τ : Type} (Interval Offset : Option τ) : List (AcceptStep τ) :=
  [.ifPresent Interval, .ifPresent Offset]

/-- Go `(*RemovePropertyType).Accept`: the calls of `Accept` on the fields, in the order of the
method. -/
def RemovePropertyType.Accept {τ : Type} (PropertyType : Option τ) : List (AcceptStep τ) :=
  [.field PropertyType]

/-- Go `(*RenameStmt).Accept`: the calls of `Accept` on the fields, in the order of the method.  An
element of `r.TargetPairList` is given by its fields: `pair.acceptNode 0` is the call on `pair.Old`
and `pair.acceptNode 1` the call on `pair.New`. -/
def RenameStmt.Accept {τ : Type} (TargetPairList : List (Parts τ)) (OnCluster : Option τ) :
    List (AcceptStep τ) :=
  (TargetPairList.map fun pair => pair.acceptNode 0 ++ pair.acceptNode 1).flatten ++
    [.ifPresent OnCluster]

/-- Go `(*RoleName).Accept`: the calls of `Accept` on the fields, in the order of the method. -/
def RoleName.Accept {τ : Type} (Name Scope OnCluster : Option τ) : List (AcceptStep τ) :=
  [.field Name, .ifPresent Scope, .ifPresent OnCluster]

/-- Go `(*RoleRenamePair).Accept`: the calls of `Accept` on the fields, in the order of the method.
-/
def RoleRenamePair.Accept {τ : Type} (RoleName : τ) (NewName : Option τ) : List (AcceptStep τ) :=
  [.node RoleName, .ifPresent NewName]

/-- Go `(*RoleSetting).Accept`: the calls of `Accept` on the fields, in the order of the method. -/
def RoleSetting.Accept {τ : Type} (SettingPairs : List τ) (Modifier : Option τ) :
    List (AcceptStep τ) :=
  [.each SettingPairs, .ifPresent Modifier]

/-- Go `(*SampleByClause).Accept`: the calls of `Accept` on the fields, in the order of the method.
-/
def SampleByClause.Accept {τ : Type} (expr : Option τ) : List (AcceptStep τ) :=
  [.field expr]

/-- Go `(*SetStmt).Accept`: the calls of `Accept` on the fields, in the order of the method. -/
def SetStmt.Accept {τ : Type} (Settings : τ) : List (AcceptStep τ) :=
  [.node Settings]

/-- Go `(*SettingPair).Accept`: the calls of `Accept` on the fields, in the order of the method. -/
def SettingPair.Accept {τ : Type} (Name : τ) (Value : Option τ) : List (AcceptStep τ) :=
  [.node Name, .ifPresent Value]

/-- Go `(*ShowStmt).Accept`: the calls of `Accept` on the fields, in the order of the method. -/
def ShowStmt.Accept {τ : Type} (Target LikePattern Limit OutFile Format : Option τ) :
    List (AcceptStep τ) :=
  [.ifPresent Target, .ifPresent LikePattern, .ifPresent Limit, .ifPresent OutFile, .ifPresent
    Format]

/-- Go `(*SubQuery).Accept`: the calls of `Accept` on the fields, in the order of the method. -/
def SubQuery.Accept {τ : Type} (Select : Option τ) : List (AcceptStep τ) :=
  [.ifPresent Select]

/-- Go `(*SystemCtrlExpr).Accept`: the calls of `Accept` on the fields, in the order of the method.
-/
def SystemCtrlExpr.Accept {τ : Type} (Cluster : Option τ) : List (AcceptStep τ) :=
  [.ifPresent Cluster]

/-- Go `(*SystemDropExpr).Accept`: the calls of `Accept` on the fields, in the order of the method.
-/
def SystemDropExpr.Accept {τ : Type} : List (AcceptStep τ) :=
  []

/-- Go `(*SystemFlushExpr).Accept`: the calls of `Accept` on the fields, in the order of the method.
-/
def SystemFlushExpr.Accept {τ : Type} (Distributed : Option τ) : List (AcceptStep τ) :=
  [.ifPresent Distributed]

/-- Go `(*SystemReloadExpr).Accept`: the calls of `Accept` on the fields, in the order of the
method. -/
def SystemReloadExpr.Accept {τ : Type} (Dictionary : Option τ) : List (AcceptStep τ) :=
  [.ifPresent Dictionary]

/-- Go `(*SystemStmt).Accept`: the calls of `Accept` on the fields, in the order of the method. -/
def SystemStmt.Accept {τ : Type} (expr : Option τ) : List (AcceptStep τ) :=
  [.field expr]

/-- Go `(*SystemSyncExpr).Accept`: the calls of `Accept` on the fields, in the order of the method.
-/
def SystemSyncExpr.Accept {τ : Type} (Cluster : τ) : List (AcceptStep τ) :=
  [.node Cluster]

/-- Go `(*TTLClause).Accept`: the calls of `Accept` on the fields, in the order of the method. -/
def TTLClause.Accept {τ : Type} (Items : List τ) : List (AcceptStep τ) :=
  [.each Items]

/-- Go `(*TableArgListExpr).Accept`: the calls of `Accept` on the fields, in the order of the
method. -/
def TableArgListExpr.Accept {τ : Type} (Args : List τ) : List (AcceptStep τ) :=
  [.each Args]

/-- Go `(*TableFunctionExpr).Accept`: the calls of `Accept` on the fields, in the order of the
method. -/
def TableFunctionExpr.Accept {τ : Type} (Name : Option τ) (Args : τ) : List (AcceptStep τ) :=
  [.field Name, .node Args]

/-- Go `(*TableProjection).Accept`: the calls of `Accept` on the fields, in the order of the method.
-/
def TableProjection.Accept {τ : Type} (Identifier Select : τ) : List (AcceptStep τ) :=
  [.node Identifier, .node Select]

/-- Go `(*TableSchemaClause).Accept`: the calls of `Accept` on the fields, in the order of the
method. -/
def TableSchemaClause.Accept {τ : Type} (Columns : List τ) (AliasTable TableFunction : Option τ) :
    List (AcceptStep τ) :=
  [.each Columns, .ifPresent AliasTable, .ifPresent TableFunction]

/-- Go `(*TargetPair).Accept`: the calls of `Accept` on the fields, in the order of the method. -/
def TargetPair.Accept {τ : Type} (Old New : τ) : List (AcceptStep τ) :=
  [.node Old, .node New]

/-- Go `(*TopClause).Accept`: the calls of `Accept` on the fields, in the order of the method. -/
def TopClause.Accept {τ : Type} (Number : τ) : List (AcceptStep τ) :=
  [.node Number]

/-- Go `(*TruncateTable).Accept`: the calls of `Accept` on the fields, in the order of the method.
-/
def TruncateTable.Accept {τ : Type} (Name : τ) (OnCluster : Option τ) : List (AcceptStep τ) :=
  [.node Name, .ifPresent OnCluster]

/-- Go `(*TypedPlaceholder).Accept`: the calls of `Accept` on the fields, in the order of the
method. -/
def TypedPlaceholder.Accept {τ : Type} (Name : τ) (type : Option τ) : List (AcceptStep τ) :=
  [.node Name, .field type]

/-- Go `(*UUID).Accept`: the calls of `Accept` on the fields, in the order of the method. -/
def UUID.Accept {τ : Type} : List (AcceptStep τ) :=
  []

/-- Go `(*UnaryExpr).Accept`: the calls of `Accept` on the fields, in the order of the method. -/
def UnaryExpr.Accept {τ : Type} (expr : Option τ) : List (AcceptStep τ) :=
  [.field expr]

/-- Go `(*UpdateAssignment).Accept`: the calls of `Accept` on the fields, in the order of the
method. -/
def UpdateAssignment.Accept {τ : Type} (Column : τ) (expr : Option τ) : List (AcceptStep τ) :=
  [.node Column, .field expr]

/-- Go `(*UseStmt).Accept`: the calls of `Accept` on the fields, in the order of the method. -/
def UseStmt.Accept {τ : Type} (Database : τ) : List (AcceptStep τ) :=
  [.node Database]

/-- Go `(*UsingClause).Accept`: the calls of `Accept` on the fields, in the order of the method. -/
def UsingClause.Accept {τ : Type} (Using : τ) : List (AcceptStep τ) :=
  [.node Using]

/-- Go `(*WindowClause).Accept`: the calls of `Accept` on the fields, in the order of the method. 
An element of `w.Windows` is given by its fields, and is not `nil`: `window.child 0` is
`window.Name` and `window.child 1` is `window.Expr`. -/
def WindowClause.Accept {τ : Type} (Windows : List (Parts τ)) : List (AcceptStep τ) :=
  (Windows.map fun window =>
    [AcceptStep.ifPresent (window.child 0), AcceptStep.ifPresent (window.child 1)]).flatten

/-- Go `(*WindowExpr).Accept`: the calls of `Accept` on the fields, in the order of the method. -/
def WindowExpr.Accept {τ : Type} (PartitionBy OrderBy Frame : Option τ) : List (AcceptStep τ) :=
  [.ifPresent PartitionBy, .ifPresent OrderBy, .ifPresent Frame]

/-- Go `(*WindowFrameClause).Accept`: the calls of `Accept` on the fields, in the order of the
method. -/
def WindowFrameClause.Accept {τ : Type} (Extend : Option τ) : List (AcceptStep τ) :=
  [.field Extend]

/-- Go `(*WindowFrameCurrentRow).Accept`: the calls of `Accept` on the fields, in the order of the
method. -/
def WindowFrameCurrentRow.Accept {τ : Type} : List (AcceptStep τ) :=
  []

/-- Go `(*WindowFrameExtendExpr).Accept`: the calls of `Accept` on the fields, in the order of the
method. -/
def WindowFrameExtendExpr.Accept {τ : Type} (expr : Option τ) : List (AcceptStep τ) :=
  [.field expr]

/-- Go `(*WindowFrameNumber).Accept`: the calls of `Accept` on the fields, in the order of the
method. -/
def WindowFrameNumber.Accept {τ : Type} (Number : τ) : List (AcceptStep τ) :=
  [.node Number]

/-- Go `(*WindowFrameParam).Accept`: the calls of `Accept` on the fields, in the order of the
method. -/
def WindowFrameParam.Accept {τ : Type} (Param : τ) : List (AcceptStep τ) :=
  [.node Param]

/-- Go `(*WindowFrameUnbounded).Accept`: the calls of `Accept` on the fields, in the order of the
method. -/
def WindowFrameUnbounded.Accept {τ : Type} : List (AcceptStep τ) :=
  []

/-- Go `(*WindowFunctionExpr).Accept`: the calls of `Accept` on the fields, in the order of the
method. -/
def WindowFunctionExpr.Accept {τ : Type} (Function : τ) (OverExpr : Option τ) :
    List (AcceptStep τ) :=
  [.node Function, .field OverExpr]

/-- Go `(*WithTimeoutClause).Accept`: the calls of `Accept` on the fields, in the order of the
method. -/
def WithTimeoutClause.Accept {τ : Type} (Number : τ) : List (AcceptStep τ) :=
  [.node Number]

/-- Go `Accept` of the node kinds of the generic constructor, between the statement
`defer visitor.Leave(x)` and the call of the callback: the statements of the method of the
struct that `kind` names, on the fields of the node.  `WindowDefinition` has no method
`Accept`, and Go calls `Accept` on no node of this kind; the traversal of such a node is
empty here. -/
def NodeKind.Accept {τ : Type} (kind : NodeKind) (v : View τ) : List (AcceptStep τ) :=
  match kind with
  | .AlterRole _ _ _ => AlterRole.Accept (v.parts.list 0) (v.parts.list 1)
  | .AlterTableAttachPartition _ => v.parts.withNode 0 [] fun Partition =>
      AlterTableAttachPartition.Accept Partition (v.parts.child 0)
  | .AlterTableClearColumn _ _ _ => v.parts.withNode 0 [] fun ColumnName =>
      AlterTableClearColumn.Accept ColumnName (v.parts.child 0)
  | .AlterTableClearIndex _ _ _ => v.parts.withNode 0 [] fun IndexName =>
      AlterTableClearIndex.Accept IndexName (v.parts.child 0)
  | .AlterTableClearProjection _ _ _ => v.parts.withNode 0 [] fun ProjectionName =>
      AlterTableClearProjection.Accept ProjectionName (v.parts.child 0)
  | .AlterTableDelete _ _ => AlterTableDelete.Accept (v.parts.child 0)
  | .AlterTableDetachPartition _ => v.parts.withNode 0 [] fun Partition =>
      AlterTableDetachPartition.Accept Partition (v.parts.child 0)
  | .AlterTableDropIndex _ _ => v.parts.withNode 0 [] fun IndexName => AlterTableDropIndex.Accept
      IndexName
  | .AlterTableDropProjection _ _ => v.parts.withNode 0 [] fun ProjectionName =>
      AlterTableDropProjection.Accept ProjectionName
  | .AlterTableFreezePartition _ _ => AlterTableFreezePartition.Accept (v.parts.child 0)
  | .AlterTableMaterializeIndex _ _ _ => v.parts.withNode 0 [] fun IndexName =>
      AlterTableMaterializeIndex.Accept IndexName (v.parts.child 0)
  | .AlterTableMaterializeProjection _ _ _ => v.parts.withNode 0 [] fun ProjectionName =>
      AlterTableMaterializeProjection.Accept ProjectionName (v.parts.child 0)
  | .AlterTableModifyColumn _ _ _ => v.parts.withNode 0 [] fun Column =>
      AlterTableModifyColumn.Accept Column (v.parts.child 0)
  | .AlterTableModifyQuery _ _ => v.parts.withNode 0 [] fun SelectExpr =>
      AlterTableModifyQuery.Accept SelectExpr
  | .AlterTableModifySetting _ _ => AlterTableModifySetting.Accept (v.parts.list 0)
  | .AlterTableModifyTTL _ _ => v.parts.withNode 0 [] fun TTL => AlterTableModifyTTL.Accept TTL
  | .AlterTableRemoveTTL _ _ => AlterTableRemoveTTL.Accept
  | .AlterTableRenameColumn _ _ => v.parts.withNode 0 [] fun OldColumnName => v.parts.withNode 1 []
      fun NewColumnName => AlterTableRenameColumn.Accept OldColumnName NewColumnName
  | .AlterTableReplacePartition _ => v.parts.withNode 0 [] fun Partition => v.parts.withNode 1 []
      fun Table => AlterTableReplacePartition.Accept Partition Table
  | .AlterTableResetSetting _ _ => AlterTableResetSetting.Accept (v.parts.list 0)
  | .AlterTableUpdate _ _ => AlterTableUpdate.Accept (v.parts.list 0) (v.parts.child 0)
      (v.parts.child 1)
  | .ArrayParamList _ _ => v.parts.withNode 0 [] fun Items => ArrayParamList.Accept Items
  | .AuthenticationClause _ _ _ _ _ => AuthenticationClause.Accept (v.parts.child 0) (v.parts.child
      1) (v.parts.child 2)
  | .BetweenClause _ => BetweenClause.Accept (v.parts.child 0) (v.parts.child 1) (v.parts.child 2)
  | .BoolLiteral _ _ _ => BoolLiteral.Accept
  | .CTEStmt _ => CTEStmt.Accept (v.parts.child 0) (v.parts.child 1)
  | .CastExpr _ _ _ => CastExpr.Accept (v.parts.child 0) (v.parts.child 1)
  | .CheckStmt _ => v.parts.withNode 0 [] fun Table => CheckStmt.Accept Table (v.parts.child 0)
  | .ColumnArgList _ _ _ => ColumnArgList.Accept (v.parts.list 0)
  | .ColumnExprList _ _ _ => ColumnExprList.Accept (v.parts.list 0)
  | .ColumnNamesExpr _ _ => ColumnNamesExpr.Accept (v.parts.list 0)
  | .ColumnTypeExpr => v.parts.withNode 0 [] fun Name => ColumnTypeExpr.Accept Name
  | .CompressionCodec _ _ => CompressionCodec.Accept (v.parts.child 0) (v.parts.child 1)
      (v.parts.child 2) (v.parts.child 3)
  | .ConstraintClause _ => v.parts.withNode 0 [] fun Constraint => ConstraintClause.Accept
      Constraint (v.parts.child 0)
  | .CreateDictionary _ _ _ _ => v.parts.withNode 0 [] fun Name => CreateDictionary.Accept Name
      (v.parts.child 0) (v.parts.child 1) (v.parts.child 2) (v.parts.child 3) (v.parts.child 4)
  | .CreateFunction _ _ _ => v.parts.withNode 0 [] fun FunctionName => v.parts.withNode 1 [] fun
      Params => CreateFunction.Accept FunctionName (v.parts.child 0) Params (v.parts.child 1)
  | .CreateLiveView _ _ _ => v.parts.withNode 0 [] fun Name => CreateLiveView.Accept Name
      (v.parts.child 0) (v.parts.child 1) (v.parts.child 2) (v.parts.child 3) (v.parts.child 4)
      (v.parts.child 5)
  | .CreateMaterializedView _ _ _ DependsOnSet _ _ _ _ => v.parts.withNode 0 [] fun Name =>
      CreateMaterializedView.Accept Name (v.parts.child 0) (v.parts.child 1) (v.parts.child 2)
      DependsOnSet (v.parts.list 0) (v.parts.child 3) (v.parts.child 4) (v.parts.child 5)
      ((v.childPart 5).child 0) (v.parts.child 6) (v.parts.child 7) (v.parts.child 8)
  | .CreateNamedCollection _ _ _ => v.parts.withNode 0 [] fun Name => CreateNamedCollection.Accept
      Name (v.parts.child 0) (v.parts.list 0)
  | .CreateRole _ _ _ _ => CreateRole.Accept (v.parts.list 0) (v.parts.child 0) (v.parts.list 1)
  | .CreateTable _ _ _ _ _ => v.parts.withNode 0 [] fun Name => CreateTable.Accept Name
      (v.parts.child 0) (v.parts.child 1) (v.parts.child 2) (v.parts.child 3) (v.parts.child 4)
      (v.parts.child 5)
  | .CreateUser _ _ _ _ _ => CreateUser.Accept (v.parts.list 0) (v.parts.child 0) (v.parts.list 1)
      (v.parts.child 1) (v.parts.child 2) (v.parts.child 3) (v.parts.list 2)
  | .CreateView _ _ _ _ => v.parts.withNode 0 [] fun Name => CreateView.Accept Name (v.parts.child
      0) (v.parts.child 1) (v.parts.child 2) (v.parts.child 3)
  | .DeduplicateClause _ => DeduplicateClause.Accept (v.parts.child 0) (v.parts.child 1)
  | .DefaultRoleClause _ _ _ => DefaultRoleClause.Accept (v.parts.list 0)
  | .DeleteClause _ => v.parts.withNode 0 [] fun Table => DeleteClause.Accept Table (v.parts.child
      0) (v.parts.child 1)
  | .DescribeStmt _ _ _ => v.parts.withNode 0 [] fun Target => DescribeStmt.Accept Target
  | .DestinationClause _ => v.parts.withNode 0 [] fun TableIdentifier => DestinationClause.Accept
      TableIdentifier
  | .DictionaryArgExpr _ => v.parts.withNode 0 [] fun Name => DictionaryArgExpr.Accept Name
      (v.parts.child 0)
  | .DictionaryEngineClause _ => DictionaryEngineClause.Accept (v.parts.child 0) (v.parts.child 1)
      (v.parts.child 2) (v.parts.child 3) (v.parts.child 4) (v.parts.child 5)
  | .DictionaryLayoutClause _ _ => v.parts.withNode 0 [] fun Layout => DictionaryLayoutClause.Accept
      Layout (v.parts.list 0)
  | .DictionaryPrimaryKeyClause _ _ => v.parts.withNode 0 [] fun Keys =>
      DictionaryPrimaryKeyClause.Accept Keys
  | .DictionarySchemaClause _ _ => DictionarySchemaClause.Accept (v.parts.list 0)
  | .DictionarySourceClause _ _ => v.parts.withNode 0 [] fun Source => DictionarySourceClause.Accept
      Source (v.parts.list 0)
  | .DistinctOn _ _ => DistinctOn.Accept (v.parts.list 0)
  | .DropDatabase _ _ _ => v.parts.withNode 0 [] fun Name => DropDatabase.Accept Name (v.parts.child
      0)
  | .DropStmt _ _ _ _ _ _ => v.parts.withNode 0 [] fun Name => DropStmt.Accept Name (v.parts.child
      0)
  | .DropUserOrRole _ _ _ _ _ => DropUserOrRole.Accept (v.parts.list 0) (v.parts.child 0)
  | .EngineExpr _ _ _ => EngineExpr.Accept (v.parts.child 0) (v.parts.child 1) (v.parts.child 2)
      (v.parts.child 3) (v.parts.child 4) (v.parts.child 5) (v.parts.child 6)
  | .ExplainStmt _ _ => ExplainStmt.Accept (v.parts.child 0)
  | .ExtractExpr _ _ => ExtractExpr.Accept (v.parts.list 0)
  | .Fill _ => Fill.Accept (v.parts.child 0) (v.parts.child 1) (v.parts.child 2) (v.parts.child 3)
  | .FunctionExpr => v.parts.withNode 0 [] fun Name => v.parts.withNode 1 [] fun Params =>
      FunctionExpr.Accept Name Params
  | .GlobalInOperation _ => GlobalInOperation.Accept (v.parts.child 0)
  | .GranteesClause _ _ _ _ => GranteesClause.Accept (v.parts.list 0) (v.parts.list 1)
  | .HostClause _ _ _ => HostClause.Accept (v.parts.child 0)
  | .IndexOperation _ => IndexOperation.Accept (v.parts.child 0) (v.parts.child 1)
  | .InterpolateClause _ _ => InterpolateClause.Accept (v.parts.list 0)
  | .InterpolateItem => v.parts.withNode 0 [] fun Column => InterpolateItem.Accept Column
      (v.parts.child 0)
  | .IntervalExpr _ => v.parts.withNode 0 [] fun Unit => IntervalExpr.Accept (v.parts.child 0) Unit
  | .IntervalFrom _ => IntervalFrom.Accept (v.parts.child 0)
  | .IsNotNullExpr _ => IsNotNullExpr.Accept (v.parts.child 0)
  | .IsNullExpr _ => IsNullExpr.Accept (v.parts.child 0)
  | .JoinConstraintClause _ => JoinConstraintClause.Accept (v.parts.child 0) (v.parts.child 1)
  | .LimitByClause => LimitByClause.Accept (v.parts.child 0) (v.parts.child 1)
  | .LimitClause _ => LimitClause.Accept (v.parts.child 0) (v.parts.child 1)
  | .MapLiteral _ _ => MapLiteral.Accept (v.parts.list 0) (v.parts.list 1)
  | .NamedCollectionParam _ _ _ => v.parts.withNode 0 [] fun Name => NamedCollectionParam.Accept
      Name (v.parts.child 0)
  | .NamedParameterExpr _ => v.parts.withNode 0 [] fun Name => NamedParameterExpr.Accept Name
      (v.parts.child 0)
  | .NegateExpr _ => NegateExpr.Accept (v.parts.child 0)
  | .ObjectParams => v.parts.withNode 0 [] fun Params => ObjectParams.Accept (v.parts.child 0)
      Params
  | .OnClause _ => v.parts.withNode 0 [] fun On => OnClause.Accept On
  | .OperationExpr _ _ => OperationExpr.Accept
  | .OptimizeStmt _ _ _ => v.parts.withNode 0 [] fun Table => OptimizeStmt.Accept Table
      (v.parts.child 0) (v.parts.child 1) (v.parts.child 2)
  | .OrderByClause _ _ => OrderByClause.Accept (v.parts.list 0) (v.parts.child 0)
  | .OrderExpr _ _ => OrderExpr.Accept (v.parts.child 0) (v.parts.child 1) (v.parts.child 2)
  | .ParamExprList _ _ => v.parts.withNode 0 [] fun Items => ParamExprList.Accept Items
      (v.parts.child 0)
  | .PartitionByClause _ => PartitionByClause.Accept (v.parts.child 0)
  | .Path => Path.Accept (v.parts.list 0)
  | .PlaceHolder _ _ _ => PlaceHolder.Accept
  | .PrimaryKeyClause _ => PrimaryKeyClause.Accept (v.parts.child 0)
  | .ProjectionOrderByClause _ => ProjectionOrderByClause.Accept
  | .ProjectionSelectStmt _ _ => v.parts.withNode 0 [] fun SelectColumns =>
      ProjectionSelectStmt.Accept (v.parts.child 0) SelectColumns (v.parts.child 1) (v.parts.child
      2)
  | .QueryParam _ _ => v.parts.withNode 0 [] fun Name => QueryParam.Accept Name (v.parts.child 0)
  | .RefreshExpr _ _ => RefreshExpr.Accept (v.parts.child 0) (v.parts.child 1)
  | .RemovePropertyType _ => RemovePropertyType.Accept (v.parts.child 0)
  | .RenameStmt _ _ _ => RenameStmt.Accept (v.listPart 0) (v.parts.child 0)
  | .RoleName => RoleName.Accept (v.parts.child 0) (v.parts.child 1) (v.parts.child 2)
  | .RoleRenamePair _ => v.parts.withNode 0 [] fun RoleName => RoleRenamePair.Accept RoleName
      (v.parts.child 0)
  | .RoleSetting => RoleSetting.Accept (v.parts.list 0) (v.parts.child 0)
  | .SampleByClause _ => SampleByClause.Accept (v.parts.child 0)
  | .SetStmt _ => v.parts.withNode 0 [] fun Settings => SetStmt.Accept Settings
  | .SettingPair _ => v.parts.withNode 0 [] fun Name => SettingPair.Accept Name (v.parts.child 0)
  | .ShowStmt _ _ _ _ _ => ShowStmt.Accept (v.parts.child 0) (v.parts.child 1) (v.parts.child 2)
      (v.parts.child 3) (v.parts.child 4)
  | .SubQuery _ => SubQuery.Accept (v.parts.child 0)
  | .SystemCtrlExpr _ _ _ _ => SystemCtrlExpr.Accept (v.parts.child 0)
  | .SystemDropExpr _ _ _ => SystemDropExpr.Accept
  | .SystemFlushExpr _ _ _ => SystemFlushExpr.Accept (v.parts.child 0)
  | .SystemReloadExpr _ _ _ => SystemReloadExpr.Accept (v.parts.child 0)
  | .SystemStmt _ => SystemStmt.Accept (v.parts.child 0)
  | .SystemSyncExpr _ => v.parts.withNode 0 [] fun Cluster => SystemSyncExpr.Accept Cluster
  | .TTLClause _ _ => TTLClause.Accept (v.parts.list 0)
  | .TableArgListExpr _ _ => TableArgListExpr.Accept (v.parts.list 0)
  | .TableFunctionExpr => v.parts.withNode 0 [] fun Args => TableFunctionExpr.Accept (v.parts.child
      0) Args
  | .TableProjection _ _ => v.parts.withNode 0 [] fun Identifier => v.parts.withNode 1 [] fun Select
      => TableProjection.Accept Identifier Select
  | .TableSchemaClause _ _ => TableSchemaClause.Accept (v.parts.list 0) (v.parts.child 0)
      (v.parts.child 1)
  | .TargetPair => v.parts.withNode 0 [] fun Old => v.parts.withNode 1 [] fun New =>
      TargetPair.Accept Old New
  | .TopClause _ _ _ => v.parts.withNode 0 [] fun Number => TopClause.Accept Number
  | .TruncateTable _ _ _ _ => v.parts.withNode 0 [] fun Name => TruncateTable.Accept Name
      (v.parts.child 0)
  | .TypedPlaceholder _ _ => v.parts.withNode 0 [] fun Name => TypedPlaceholder.Accept Name
      (v.parts.child 0)
  | .UUID => UUID.Accept
  | .UnaryExpr _ _ => UnaryExpr.Accept (v.parts.child 0)
  | .UpdateAssignment _ => v.parts.withNode 0 [] fun Column => UpdateAssignment.Accept Column
      (v.parts.child 0)
  | .UseStmt _ _ => v.parts.withNode 0 [] fun Database => UseStmt.Accept Database
  | .UsingClause _ => v.parts.withNode 0 [] fun Using => UsingClause.Accept Using
  | .WindowClause _ _ => WindowClause.Accept (v.listPart 0)
  | .WindowDefinition _ => []
  | .WindowExpr _ _ => WindowExpr.Accept (v.parts.child 0) (v.parts.child 1) (v.parts.child 2)
  | .WindowFrameClause _ _ => WindowFrameClause.Accept (v.parts.child 0)
  | .WindowFrameCurrentRow _ _ => WindowFrameCurrentRow.Accept
  | .WindowFrameExtendExpr _ _ => WindowFrameExtendExpr.Accept (v.parts.child 0)
  | .WindowFrameNumber _ _ => v.parts.withNode 0 [] fun Number => WindowFrameNumber.Accept Number
  | .WindowFrameParam _ _ => v.parts.withNode 0 [] fun Param => WindowFrameParam.Accept Param
  | .WindowFrameUnbounded _ _ _ => WindowFrameUnbounded.Accept
  | .WindowFunctionExpr _ => v.parts.withNode 0 [] fun Function => WindowFunctionExpr.Accept
      Function (v.parts.child 0)
  | .WithTimeoutClause _ => v.parts.withNode 0 [] fun Number => WithTimeoutClause.Accept Number

/-- Whether `Accept` of the struct that `kind` names ends with the call of the callback
`VisitX`: every method does.  `WindowDefinition` has no method `Accept`. -/
def NodeKind.callsVisit : NodeKind → Bool
  | .WindowDefinition _ => false
  | _ => true

section
variable {σ ε : Type}

/-- The call `visitor.VisitX(node)`. -/
def callVisit (visitor : ASTVisitor σ ε) (node : Expr) (s : σ) : Traversal σ ε :=
  { state := (visitor.Visit node s).1
    events := [Event.Visit node]
    result :=
      match (visitor.Visit node s).2 with
      | none => Outcome.ok
      | some e => Outcome.error e }

/-- Nothing happens: the branch not taken of `if x != nil { ... }`. -/
def skipCall (s : σ) : Traversal σ ε :=
  { state := s, events := [], result := Outcome.ok }

/-- A method call on a `nil` interface value. -/
def nilCall (s : σ) : Traversal σ ε :=
  { state := s, events := [], result := Outcome.nilDereference }

/-- The statement `if err := first; err != nil { return err }` followed by `next`: `next`
runs only when `first` returned `nil`. -/
def andThen (first next : σ → Traversal σ ε) (s : σ) : Traversal σ ε :=
  match (first s).result with
  | Outcome.ok =>
      { state := (next (first s).state).state
        events := (first s).events ++ (next (first s).state).events
        result := (next (first s).state).result }
  | _ => first s

/-- The frame `visitor.Enter(node); defer visitor.Leave(node); body`: `Leave` runs when
the method returns, however `body` ended. -/
def entered (visitor : ASTVisitor σ ε) (node : Expr) (body : σ → Traversal σ ε) (s : σ) :
    Traversal σ ε :=
  { state := visitor.Leave node (body (visitor.Enter node s)).state
    events := Event.Enter node :: (body (visitor.Enter node s)).events ++ [Event.Leave node]
    result := (body (visitor.Enter node s)).result }

/-- Go `(*Ident).Accept`. -/
def Ident.Accept (visitor : ASTVisitor σ ε) (i : Ident) : σ → Traversal σ ε :=
  entered visitor (.Ident i) (callVisit visitor (.Ident i))

/-- The statement `if x != nil { if err := x.Accept(visitor); err != nil { return err } }`
on a field of type `*Ident`. -/
def acceptIdentIfPresent (visitor : ASTVisitor σ ε) : Option Ident → σ → Traversal σ ε
  | none => skipCall
  | some i => i.Accept visitor

/-- The statement `if err := x.Accept(visitor); err != nil { return err }` on a field of
type `*Ident` that the method does not test.  On `nil` the callbacks of the visitor are
handed a `nil` node, for which the embedding has no value: the call counts as failed. -/
def acceptIdentField (visitor : ASTVisitor σ ε) : Option Ident → σ → Traversal σ ε
  | none => nilCall
  | some i => i.Accept visitor

/-- The loop `for _, role := range g.To { if err := role.Accept(visitor); err != nil {
return err } }` of `(*GrantPrivilegeStmt).Accept`. -/
def acceptIdents (visitor : ASTVisitor σ ε) : List Ident → σ → Traversal σ ε
  | [] => skipCall
  | i :: rest => andThen (i.Accept visitor) (acceptIdents visitor rest)

/-- The loop `for _, item := range items { if err := item.Accept(visitor); err != nil {
return err } }`, the elements being given by their traversals. -/
def runEach : List (σ → Traversal σ ε) → σ → Traversal σ ε
  | [] => skipCall
  | child :: rest => andThen child (runEach rest)

/-- One statement of an `Accept` method, the fields being given by their traversals. -/
def AcceptStep.run : AcceptStep (σ → Traversal σ ε) → σ → Traversal σ ε
  | .node child => child
  | .field none => nilCall
  | .field (some child) => child
  | .ifPresent none => skipCall
  | .ifPresent (some child) => child
  | .each children => runEach children

/-- The statements of an `Accept` method, in order: a statement runs when the one before
it returned `nil`. -/
def runSteps : List (AcceptStep (σ → Traversal σ ε)) → σ → Traversal σ ε
  | [] => skipCall
  | step :: rest => andThen step.run (runSteps rest)

mutual

/-- The body of Go `Accept` of each node kind, after the two statements
`visitor.Enter(n)` and `defer visitor.Leave(n)` with which every `Accept` method begins. -/
def Expr.acceptBody (visitor : ASTVisitor σ ε) : Expr → σ → Traversal σ ε
  | .Ident i => callVisit visitor (.Ident i)
  | .NumberLiteral p q l b => callVisit visitor (.NumberLiteral p q l b)
  | .StringLiteral p q l => callVisit visitor (.StringLiteral p q l)
  | .NestedIdentifier ident DotIdent =>
      andThen (ident.Accept visitor)
        (andThen (acceptIdentIfPresent visitor DotIdent)
          (callVisit visitor (.NestedIdentifier ident DotIdent)))
  | .TableIdentifier Database Table =>
      andThen (acceptIdentIfPresent visitor Database)
        (andThen (Table.Accept visitor)
          (callVisit visitor (.TableIdentifier Database Table)))
  | .BinaryOperation LeftExpr op RightExpr g n =>
      andThen (acceptField visitor LeftExpr)
        (andThen (acceptField visitor RightExpr)
          (callVisit visitor (.BinaryOperation LeftExpr op RightExpr g n)))
  | .NotExpr p expr =>
      andThen (acceptField visitor expr) (callVisit visitor (.NotExpr p expr))
  | .AliasExpr expr p Alias =>
      andThen (acceptField visitor expr)
        (andThen (acceptField visitor Alias) (callVisit visitor (.AliasExpr expr p Alias)))
  | .ColumnExpr expr Alias =>
      andThen (acceptField visitor expr)
        (andThen (acceptIdentIfPresent visitor Alias)
          (callVisit visitor (.ColumnExpr expr Alias)))
  | .SelectItem expr Modifiers Alias =>
      andThen (acceptField visitor expr)
        (andThen (acceptEach visitor Modifiers)
          (andThen (acceptIdentIfPresent visitor Alias)
            (callVisit visitor (.SelectItem expr Modifiers Alias))))
  | .TableExpr p q Alias expr fin =>
      andThen (acceptField visitor expr)
        (andThen (acceptIfPresent visitor Alias)
          (callVisit visitor (.TableExpr p q Alias expr fin)))
  | .JoinTableExpr Table q SampleRatio fin =>
      andThen (entered visitor Table (Expr.acceptBody visitor Table))
        (match SampleRatio with
          | some s => entered visitor s (Expr.acceptBody visitor s)
          | none => callVisit visitor (.JoinTableExpr Table q none fin))
  | .JoinExpr p Left Right ms Constraints =>
      andThen (acceptField visitor Left)
        (andThen (acceptIfPresent visitor Right)
          (andThen (acceptIfPresent visitor Constraints)
            (callVisit visitor (.JoinExpr p Left Right ms Constraints))))
  | .FromClause p expr =>
      andThen (acceptField visitor expr) (callVisit visitor (.FromClause p expr))
  | .WhereClause p expr =>
      andThen (acceptField visitor expr) (callVisit visitor (.WhereClause p expr))
  | .PrewhereClause p expr =>
      andThen (acceptField visitor expr) (callVisit visitor (.PrewhereClause p expr))
  | .HavingClause p expr =>
      andThen (acceptField visitor expr) (callVisit visitor (.HavingClause p expr))
  | .SelectQuery p q With Top hd DistinctOn SelectItems From Window Prewhere Where GroupBy wt
      Having OrderBy LimitBy Limit Settings Format UnionAll UnionDistinct Except =>
      andThen (acceptIfPresent visitor With)
        (andThen (acceptIfPresent visitor Top)
        (andThen (acceptEach visitor SelectItems)
        (andThen (acceptIfPresent visitor From)
        (andThen (acceptIfPresent visitor Window)
        (andThen (acceptIfPresent visitor Prewhere)
        (andThen (acceptIfPresent visitor Where)
        (andThen (acceptIfPresent visitor GroupBy)
        (andThen (acceptIfPresent visitor Having)
        (andThen (acceptIfPresent visitor OrderBy)
        (andThen (acceptIfPresent visitor LimitBy)
        (andThen (acceptIfPresent visitor Limit)
        (andThen (acceptIfPresent visitor Settings)
        (andThen (acceptIfPresent visitor Format)
        (andThen (acceptIfPresent visitor UnionAll)
        (andThen (acceptIfPresent visitor UnionDistinct)
        (andThen (acceptIfPresent visitor Except)
          (callVisit visitor
            (.SelectQuery p q With Top hd DistinctOn SelectItems From Window Prewhere Where
              GroupBy wt Having OrderBy LimitBy Limit Settings Format UnionAll UnionDistinct
              Except))))))))))))))))))
  | .WithClause p q CTEs =>
      andThen (acceptEach visitor CTEs) (callVisit visitor (.WithClause p q CTEs))
  | .TernaryOperation Condition TrueExpr FalseExpr =>
      andThen (acceptField visitor TrueExpr)
        (andThen (acceptField visitor FalseExpr)
          (andThen (acceptField visitor Condition)
            (callVisit visitor (.TernaryOperation Condition TrueExpr FalseExpr))))
  | .NullLiteral p => callVisit visitor (.NullLiteral p)
  | .NotNullLiteral p nullLiteral =>
      andThen (entered visitor nullLiteral (Expr.acceptBody visitor nullLiteral))
        (callVisit visitor (.NotNullLiteral p nullLiteral))
  | .ColumnDef p q Name type NotNull Nullable DefaultExpr MaterializedExpr AliasExpr Codec TTL
      Comment cc =>
      andThen (entered visitor Name (Expr.acceptBody visitor Name))
        (andThen (acceptIfPresent visitor type)
        (andThen (acceptIfPresent visitor NotNull)
        (andThen (acceptIfPresent visitor Nullable)
        (andThen (acceptIfPresent visitor DefaultExpr)
        (andThen (acceptIfPresent visitor MaterializedExpr)
        (andThen (acceptIfPresent visitor AliasExpr)
        (andThen (acceptIfPresent visitor Codec)
        (andThen (acceptIfPresent visitor TTL)
        (andThen (acceptIfPresent visitor Comment)
          (callVisit visitor
            (.ColumnDef p q Name type NotNull Nullable DefaultExpr MaterializedExpr AliasExpr
              Codec TTL Comment cc)))))))))))
  | .CreateDatabase p q Name ine OnCluster Engine Comment =>
      andThen (acceptIfPresent visitor OnCluster)
        (andThen (acceptIfPresent visitor Engine)
          (callVisit visitor (.CreateDatabase p q Name ine OnCluster Engine Comment)))
  | .AlterTable p q TableIdentifier OnCluster AlterExprs =>
      andThen (entered visitor TableIdentifier (Expr.acceptBody visitor TableIdentifier))
        (andThen (acceptIfPresent visitor OnCluster)
          (andThen (acceptEach visitor AlterExprs)
            (callVisit visitor (.AlterTable p q TableIdentifier OnCluster AlterExprs))))
  | .AlterTableDropPartition p hd Partition Settings =>
      andThen (entered visitor Partition (Expr.acceptBody visitor Partition))
        (callVisit visitor (.AlterTableDropPartition p hd Partition Settings))
  | .TTLPolicyRuleAction p q a Codec =>
      andThen (acceptIfPresent visitor Codec)
        (callVisit visitor (.TTLPolicyRuleAction p q a Codec))
  | .TTLPolicyRule p ToVolume ToDisk Action =>
      andThen (acceptIfPresent visitor ToVolume)
        (andThen (acceptIfPresent visitor ToDisk)
          (callVisit visitor (.TTLPolicyRule p ToVolume ToDisk Action)))
  | .TTLPolicy Item Where GroupBy =>
      andThen (acceptIfPresent visitor Item)
        (andThen (acceptIfPresent visitor Where)
          (andThen (acceptIfPresent visitor GroupBy)
            (callVisit visitor (.TTLPolicy Item Where GroupBy))))
  | .TTLExpr p expr Policy =>
      andThen (acceptField visitor expr)
        (andThen (acceptIfPresent visitor Policy)
          (callVisit visitor (.TTLExpr p expr Policy)))
  | .RatioExpr Numerator Denominator =>
      andThen (entered visitor Numerator (Expr.acceptBody visitor Numerator))
        (andThen (acceptIfPresent visitor Denominator)
          (callVisit visitor (.RatioExpr Numerator Denominator)))
  | .SampleClause p Ratio Offset =>
      andThen (entered visitor Ratio (Expr.acceptBody visitor Ratio))
        (andThen (acceptIfPresent visitor Offset)
          (callVisit visitor (.SampleClause p Ratio Offset)))
  | .ScalarType Name => andThen (Name.Accept visitor) (callVisit visitor (.ScalarType Name))
  | .PropertyType Name =>
      andThen (Name.Accept visitor) (callVisit visitor (.PropertyType Name))
  | .TypeWithParams p q Name Params =>
      andThen (Name.Accept visitor)
        (andThen (acceptEach visitor Params)
          (callVisit visitor (.TypeWithParams p q Name Params)))
  | .ComplexType p q Name Params =>
      andThen (Name.Accept visitor)
        (andThen (acceptEach visitor Params)
          (callVisit visitor (.ComplexType p q Name Params)))
  | .NestedType p q Name Columns =>
      andThen (Name.Accept visitor)
        (andThen (acceptEach visitor Columns)
          (callVisit visitor (.NestedType p q Name Columns)))
  | .EnumValue Name Value =>
      andThen (entered visitor Name (Expr.acceptBody visitor Name))
        (andThen (entered visitor Value (Expr.acceptBody visitor Value))
          (callVisit visitor (.EnumValue Name Value)))
  | .EnumType Name p q Values =>
      andThen (Name.Accept visitor)
        (andThen (acceptEach visitor Values)
          (callVisit visitor (.EnumType Name p q Values)))
  | .JSONType Name Options =>
      andThen (Name.Accept visitor) (callVisit visitor (.JSONType Name Options))
  | .AlterTableAddColumn p q Column ine After Settings =>
      andThen (entered visitor Column (Expr.acceptBody visitor Column))
        (andThen (acceptIfPresent visitor After)
          (andThen (acceptIfPresent visitor Settings)
            (callVisit visitor (.AlterTableAddColumn p q Column ine After Settings))))
  | .AlterTableDropColumn p ColumnName ie =>
      andThen (entered visitor ColumnName (Expr.acceptBody visitor ColumnName))
        (callVisit visitor (.AlterTableDropColumn p ColumnName ie))
  | .PartitionClause p expr ID All =>
      andThen (acceptIfPresent visitor expr)
        (andThen (acceptIfPresent visitor ID)
          (callVisit visitor (.PartitionClause p expr ID All)))
  | .SettingExpr p Name expr =>
      andThen (Name.Accept visitor)
        (andThen (acceptField visitor expr) (callVisit visitor (.SettingExpr p Name expr)))
  | .SettingsClause p q Items =>
      andThen (acceptEach visitor Items) (callVisit visitor (.SettingsClause p q Items))
  | .DictionaryLifetimeClause p Min Max Value q =>
      andThen (acceptIfPresent visitor Value)
        (andThen (acceptIfPresent visitor Min)
          (andThen (acceptIfPresent visitor Max)
            (callVisit visitor (.DictionaryLifetimeClause p Min Max Value q))))
  | .DictionaryRangeClause p Min Max q =>
      andThen (acceptIdentField visitor Min)
        (andThen (acceptIdentField visitor Max)
          (callVisit visitor (.DictionaryRangeClause p Min Max q)))
  | .DictionaryAttribute p Name type Default Expression h i o =>
      andThen (Name.Accept visitor)
        (andThen (acceptField visitor type)
          (andThen (acceptIfPresent visitor Default)
            (andThen (acceptIfPresent visitor Expression)
              (callVisit visitor (.DictionaryAttribute p Name type Default Expression h i o)))))
  | .WhenClause p q When Then r Else =>
      andThen (acceptField visitor When)
        (andThen (acceptField visitor Then)
          (andThen (acceptIfPresent visitor Else)
            (callVisit visitor (.WhenClause p q When Then r Else))))
  | .CaseExpr p q expr Whens r Else =>
      andThen (acceptIfPresent visitor expr)
        (andThen (acceptEach visitor Whens)
          (andThen (acceptIfPresent visitor Else)
            (callVisit visitor (.CaseExpr p q expr Whens r Else))))
  | .GroupByClause p q a expr c r t =>
      andThen (acceptIfPresent visitor expr)
        (callVisit visitor (.GroupByClause p q a expr c r t))
  | .ClusterClause p expr =>
      andThen (acceptField visitor expr) (callVisit visitor (.ClusterClause p expr))
  | .PrivilegeClause p q ks Params =>
      andThen (acceptIfPresent visitor Params)
        (callVisit visitor (.PrivilegeClause p q ks Params))
  | .GrantPrivilegeStmt p q OnCluster Privileges On To ws =>
      andThen (acceptIfPresent visitor OnCluster)
        (andThen (acceptEach visitor Privileges)
          (andThen (entered visitor On (Expr.acceptBody visitor On))
            (andThen (acceptIdents visitor To)
              (callVisit visitor (.GrantPrivilegeStmt p q OnCluster Privileges On To ws)))))
  | .TableIndex p Name ColumnExpr ColumnType Granularity =>
      andThen (entered visitor Name (Expr.acceptBody visitor Name))
        (andThen (entered visitor ColumnExpr (Expr.acceptBody visitor ColumnExpr))
          (andThen (acceptField visitor ColumnType)
            (andThen (entered visitor Granularity (Expr.acceptBody visitor Granularity))
              (callVisit visitor (.TableIndex p Name ColumnExpr ColumnType Granularity)))))
  | .AlterTableAddIndex p q Index ine After =>
      andThen (entered visitor Index (Expr.acceptBody visitor Index))
        (andThen (acceptIfPresent visitor After)
          (callVisit visitor (.AlterTableAddIndex p q Index ine After)))
  | .AlterTableAddProjection p q ine TableProjection After =>
      andThen (entered visitor TableProjection (Expr.acceptBody visitor TableProjection))
        (andThen (acceptIfPresent visitor After)
          (callVisit visitor (.AlterTableAddProjection p q ine TableProjection After)))
  | .FormatClause p Format =>
      andThen (Format.Accept visitor) (callVisit visitor (.FormatClause p Format))
  | .AssignmentValues p q Values =>
      andThen (acceptEach visitor Values) (callVisit visitor (.AssignmentValues p q Values))
  | .InsertStmt p Format tk Table ColumnNames Values SelectExpr =>
      andThen (acceptIfPresent visitor Format)
        (andThen (acceptField visitor Table)
          (andThen (acceptIfPresent visitor ColumnNames)
            (andThen (acceptEach visitor Values)
              (andThen (acceptIfPresent visitor SelectExpr)
                (callVisit visitor
                  (.InsertStmt p Format tk Table ColumnNames Values SelectExpr))))))
  | .Node kind nodes children lists =>
      andThen
        (runSteps (NodeKind.Accept kind
          ⟨⟨acceptItems visitor nodes, acceptChildren visitor children,
              acceptLists visitor lists⟩,
            acceptPartsItems visitor nodes, acceptPartsChildren visitor children,
            acceptPartsLists visitor lists⟩))
        (if NodeKind.callsVisit kind then callVisit visitor (.Node kind nodes children lists)
          else skipCall)

/-- The call `x.Accept(visitor)` on a field `x` of interface type that the method does not
test: the call fails when `x` is `nil`. -/
def acceptField (visitor : ASTVisitor σ ε) : Option Expr → σ → Traversal σ ε
  | none => nilCall
  | some x => entered visitor x (Expr.acceptBody visitor x)

/-- The statement `if x != nil { if err := x.Accept(visitor); err != nil { return err } }`. -/
def acceptIfPresent (visitor : ASTVisitor σ ε) : Option Expr → σ → Traversal σ ε
  | none => skipCall
  | some x => entered visitor x (Expr.acceptBody visitor x)

/-- The loop `for _, x := range xs { if err := x.Accept(visitor); err != nil { return err
} }`. -/
def acceptEach (visitor : ASTVisitor σ ε) : List Expr → σ → Traversal σ ε
  | [] => skipCall
  | x :: rest =>
      andThen (entered visitor x (Expr.acceptBody visitor x)) (acceptEach visitor rest)

/-- The traversals of the nodes of a list. -/
def acceptItems (visitor : ASTVisitor σ ε) : List Expr → List (σ → Traversal σ ε)
  | [] => []
  | x :: rest => entered visitor x (Expr.acceptBody visitor x) :: acceptItems visitor rest

/-- The traversals of the fields that may be `nil`. -/
def acceptChildren (visitor : ASTVisitor σ ε) : List (Option Expr) → List (Option (σ → Traversal σ ε))
  | [] => []
  | none :: rest => none :: acceptChildren visitor rest
  | some x :: rest => some (entered visitor x (Expr.acceptBody visitor x)) :: acceptChildren visitor rest

/-- The traversals of the elements of the slices. -/
def acceptLists (visitor : ASTVisitor σ ε) : List (List Expr) → List (List (σ → Traversal σ ε))
  | [] => []
  | xs :: rest => acceptItems visitor xs :: acceptLists visitor rest

/-- The traversals of the fields of a node, see `Expr.parts`. -/
def acceptParts (visitor : ASTVisitor σ ε) : Expr → Parts (σ → Traversal σ ε)
  | .Node _ nodes children lists =>
      ⟨acceptItems visitor nodes, acceptChildren visitor children, acceptLists visitor lists⟩
  | .SettingsClause _ _ Items => ⟨[], [], [acceptItems visitor Items]⟩
  | _ => Parts.empty

/-- The traversals of the fields of the nodes of a list. -/
def acceptPartsItems (visitor : ASTVisitor σ ε) : List Expr → List (Parts (σ → Traversal σ ε))
  | [] => []
  | x :: rest => acceptParts visitor x :: acceptPartsItems visitor rest

/-- The traversals of the fields of the fields that may be `nil`. -/
def acceptPartsChildren (visitor : ASTVisitor σ ε) : List (Option Expr) → List (Parts (σ → Traversal σ ε))
  | [] => []
  | none :: rest => Parts.empty :: acceptPartsChildren visitor rest
  | some x :: rest => acceptParts visitor x :: acceptPartsChildren visitor rest

/-- The traversals of the fields of the elements of the slices. -/
def acceptPartsLists (visitor : ASTVisitor σ ε) : List (List Expr) → List (List (Parts (σ → Traversal σ ε)))
  | [] => []
  | xs :: rest => acceptPartsItems visitor xs :: acceptPartsLists visitor rest

end

/-- Go `Accept` of each node kind: `visitor.Enter(n)`, `defer visitor.Leave(n)`,
then the body of the method. -/
def Expr.Accept (visitor : ASTVisitor σ ε) (node : Expr) : σ → Traversal σ ε :=
  entered visitor node (Expr.acceptBody visitor node)

end

/-! ## Formatter operations as data -/

/-- One call on a formatter, for statements about sequences of calls. -/
inductive FmtOp where
  | Indent
  | Dedent
  | NewLine
  | Break
  | WriteByte (b : Char)
  | WriteString (s : String)
  deriving DecidableEq

/-- Apply one operation. -/
def FmtOp.apply (f : Formatter) : FmtOp → Formatter
  | .Indent => f.Indent
  | .Dedent => f.Dedent
  | .NewLine => f.NewLine
  | .Break => f.Break
  | .WriteByte b => f.WriteByte b
  | .WriteString s => f.WriteString s

/-- Apply a sequence of operations, first to last. -/
def runOps (f : Formatter) (ops : List FmtOp) : Formatter :=
  ops.foldl FmtOp.apply f

/-- The bytes that an operation hands to `WriteByte` in Beautify mode, in order. -/
def FmtOp.payload : FmtOp → List Char
  | .Indent => []
  | .Dedent => []
  | .NewLine => [newline]
  | .Break => [newline]
  | .WriteByte b => [b]
  | .WriteString s => s.data

/-- The bytes handed to `WriteByte` by a sequence of operations in Beautify mode. -/
def payload (ops : List FmtOp) : List Char :=
  (ops.map FmtOp.payload).flatten

/-- An output in which every byte `b` of a payload comes after `n` indent units of
inserted indentation, for the pairs `(n, b)` of the list. -/
def interleave (indent : String) : List (Nat × Char) → List Char
  | [] => []
  | (n, b) :: rest => indentation indent n ++ b :: interleave indent rest

/-- The output is empty or its last byte is the newline. -/
def atLineStart (out : List Char) : Prop :=
  out = [] ∨ out.getLast? = some newline

instance (out : List Char) : Decidable (atLineStart out) := by
  unfold atLineStart
  infer_instance

/-- The state invariant of a Beautify formatter with indent unit `u`. -/
def BeautifyInv (u : String) (f : Formatter) : Prop :=
  f.mode = FormatModeBeautify ∧ f.indent = u ∧
    (f.lineStart = true ↔ atLineStart f.builder)

/-! ## The layout of logical-operator chains, in the words of the specification -/

/-- The text of the operator of a binary operation: the operator, after `NOT ` or
`GLOBAL ` when the node is flagged. -/
def BinaryOperation.keyword (Operation : TokenKind) (HasGlobal HasNot : Bool) : String :=
  (if HasNot then "NOT " else if HasGlobal then "GLOBAL " else "") ++ Operation

/-- An operand rendered one level deeper: `WriteExpr` runs at indent level `k + 1`, where
`k` is the current level, and the level is `k` again afterwards. -/
def leafAtNextLevel (s : Formatter) (e : Option Expr) : Formatter :=
  { WriteExpr { s with indentLevel := s.indentLevel + 1 } e with indentLevel := s.indentLevel }

/-- A keyword alone on a line at the current indent level `k`: a newline, the indent unit
`k` times, the keyword, a newline; the formatter is at a line start afterwards. -/
def keywordLine (s : Formatter) (kw : String) : Formatter :=
  { s with
    builder :=
      s.builder ++ [newline] ++ indentation s.indent s.indentLevel.toNat ++ kw.data
        ++ [newline]
    lineStart := true }

mutual

/-- The layout of a node that is an operand of a logical operator; see `layoutChain`. -/
def layoutChainExpr (s : Formatter) : Expr → Formatter
  | .BinaryOperation l op r g n =>
      if BinaryOperation.isLogicalOp op g n then
        layoutChain (keywordLine (layoutChain s l) (BinaryOperation.keyword op g n)) r
      else leafAtNextLevel s (some (.BinaryOperation l op r g n))
  | e => leafAtNextLevel s (some e)

/-- The layout of an operand of a logical operator at indent level `k`: a logical
`BinaryOperation` is its left operand, the operator keyword alone on a line at level `k`,
and its right operand, both operands laid out by the same rule; any other operand is
rendered at level `k + 1`. -/
def layoutChain (s : Formatter) : Option Expr → Formatter
  | none => leafAtNextLevel s none
  | some e => layoutChainExpr s e

end

mutual

/-- No operator of the logical operators of a chain contains a newline; see
`operatorsNewlineFree`. -/
def operatorsNewlineFreeExpr : Expr → Bool
  | .BinaryOperation l op r g n =>
      if BinaryOperation.isLogicalOp op g n then
        decide (newline ∉ op.data) && operatorsNewlineFree l && operatorsNewlineFree r
      else true
  | _ => true

/-- No operator of the logical operators of a chain contains a newline. -/
def operatorsNewlineFree : Option Expr → Bool
  | none => true
  | some e => operatorsNewlineFreeExpr e

end

/-! ## Trees of the concrete scenarios -/

/-- An unquoted identifier at source offset `pos`. -/
def unquotedIdent (name : String) (pos : Pos) : Ident :=
  { Name := name, QuoteType := Unquoted, NamePos := pos, NameEnd := pos + name.length }

/-- The comparison `name op literal` of an identifier with a decimal number literal. -/
def comparison (name : String) (namePos : Pos) (op : TokenKind) (literal : String)
    (literalPos : Pos) : Expr :=
  .BinaryOperation (some (.Ident (unquotedIdent name namePos))) op
    (some (.NumberLiteral literalPos (literalPos + literal.length) literal 10)) false false

/-- The expression `a > 1 AND b < 2` of scenario 1. -/
def scenario1Where : Expr :=
  .BinaryOperation (some (comparison "a" 25 ">" "1" 29)) KeywordAnd
    (some (comparison "b" 35 "<" "2" 39)) false false

/-- The syntax tree of `SELECT a, b FROM t WHERE a > 1 AND b < 2` (scenario 1). -/
def scenario1Tree : Expr :=
  .SelectQuery 0 40 none none false none
    [.SelectItem (some (.Ident (unquotedIdent "a" 7))) [] none,
     .SelectItem (some (.Ident (unquotedIdent "b" 10))) [] none]
    (some (.FromClause 12
      (some (.JoinTableExpr
        (.TableExpr 17 18 none (some (.TableIdentifier none (unquotedIdent "t" 17))) false)
        18 none false))))
    none none
    (some (.WhereClause 19 (some scenario1Where)))
    none false none none none none none none none none none

/-- The expression `a NOT IN b`: the operator `IN` with the `NOT` flag set. -/
def notInExample : Expr :=
  .BinaryOperation (some (.Ident (unquotedIdent "a" 0))) "IN"
    (some (.Ident (unquotedIdent "b" 9))) false true

/-- The text of an identifier: its name, between the quote bytes of its tag. -/
def Ident.text (i : Ident) : List Char :=
  if i.QuoteType = BackTicks then [backtickByte] ++ i.Name.data ++ [backtickByte]
  else if i.QuoteType = DoubleQuote then [doubleQuoteByte] ++ i.Name.data ++ [doubleQuoteByte]
  else if i.QuoteType = SingleQuote then [singleQuoteByte] ++ i.Name.data ++ [singleQuoteByte]
  else i.Name.data

/-- A state in which a written byte is appended with no indentation before it: the mode
is not Beautify, or the indent level is 0. -/
def Flat (f : Formatter) : Prop :=
  f.mode ≠ FormatModeBeautify ∨ f.indentLevel = 0

/-- A property of formatter-state transformers that is closed under the constructions
used by the rendering functions. -/
structure RenderClosed (P : (Formatter → Formatter) → Prop) : Prop where
  skip : P (fun f => f)
  seq : ∀ {T₁ T₂ : Formatter → Formatter}, P T₁ → P T₂ → P (fun f => T₂ (T₁ f))
  writeByte : ∀ b : Char, P (fun f => f.WriteByte b)
  writeString : ∀ s : String, P (fun f => f.WriteString s)
  newLine : P (fun f => f.NewLine)
  brk : P (fun f => f.Break)
  indented : ∀ {T : Formatter → Formatter}, P T → P (fun f => (T f.Indent).Dedent)
  onMode : ∀ (c : Bool) {T₁ T₂ : Formatter → Formatter}, P T₁ → P T₂ →
    P (fun f => if c = true ∧ f.mode = FormatModeBeautify then T₁ f else T₂ f)

/-! ## An induction principle for the methods of the generic constructor -/

/-- A property of formatter-state transformers that is closed under the constructions
used by the rendering functions that do not test the mode. -/
structure BaseClosed (P : Render → Prop) : Prop where
  skip : P (fun f => f)
  seq : ∀ {T₁ T₂ : Render}, P T₁ → P T₂ → P (fun f => T₂ (T₁ f))
  writeByte : ∀ b : Char, P (fun f => f.WriteByte b)
  writeString : ∀ s : String, P (fun f => f.WriteString s)
  newLine : P (fun f => f.NewLine)
  brk : P (fun f => f.Break)
  indented : ∀ {T : Render}, P T → P (fun f => (T f.Indent).Dedent)

/-- The property holds of the field when it is set. -/
def OptClosed {τ : Type} (P : τ → Prop) (c : Option τ) : Prop :=
  ∀ x, c = some x → P x

/-- The property holds of every element of the slice. -/
def ListClosed {τ : Type} (P : τ → Prop) (l : List τ) : Prop :=
  ∀ x ∈ l, P x

/-- The property holds of every field of the node. -/
structure PartsClosed {τ : Type} (P : τ → Prop) (p : Parts τ) : Prop where
  nodes : ListClosed P p.nodes
  children : ∀ c ∈ p.children, OptClosed P c
  lists : ∀ l ∈ p.lists, ListClosed P l

/-- The property holds of every field of the node and of every field of its fields. -/
structure ViewClosed {τ : Type} (P : τ → Prop) (v : View τ) : Prop where
  parts : PartsClosed P v.parts
  nodeParts : ∀ p ∈ v.nodeParts, PartsClosed P p
  childParts : ∀ p ∈ v.childParts, PartsClosed P p
  listParts : ∀ l ∈ v.listParts, ∀ p ∈ l, PartsClosed P p

/-- The property holds of the fields that a statement of an `Accept` method reads. -/
def StepClosed {τ : Type} (P : τ → Prop) : AcceptStep τ → Prop
  | .node child => P child
  | .field child => OptClosed P child
  | .ifPresent child => OptClosed P child
  | .each children => ListClosed P children

/-! ## Properties of state transformers -/

/-- A transformer keeps the mode and the indent unit, and keeps the indent level when it
is not negative on entry. -/
def Framed (T : Formatter → Formatter) : Prop :=
  ∀ f : Formatter, (T f).mode = f.mode ∧ (T f).indent = f.indent ∧
    (0 ≤ f.indentLevel → (T f).indentLevel = f.indentLevel)

/-- On two states that are not in Beautify mode a transformer keeps the mode and appends
one and the same text to both outputs. -/
def CompactUniform (T : Formatter → Formatter) : Prop :=
  ∀ f g : Formatter, f.mode ≠ FormatModeBeautify → g.mode ≠ FormatModeBeautify →
    (T f).mode = f.mode ∧ (T g).mode = g.mode ∧
      ∃ t : List Char, (T f).builder = f.builder ++ t ∧ (T g).builder = g.builder ++ t

/-! ## The visitor protocol, in the words of the specification -/

section
variable {σ ε : Type}

/-- A child behind a test `if x != nil`: it is traversed when present. -/
def present : Option Expr → List (Option Expr)
  | none => []
  | some x => [some x]

/-- A child of type `*Ident` behind a test `if x != nil`. -/
def presentIdent : Option Ident → List (Option Expr)
  | none => []
  | some i => [some (.Ident i)]

/-- The children of type `*Ident` of a list, as nodes. -/
def identChildren : List Ident → List (Option Expr)
  | [] => []
  | i :: rest => some (.Ident i) :: identChildren rest

/-- The fields of a node that hold nodes: those of a node of the generic constructor, and
the items of a `SETTINGS` clause, which `SetStmt` and `DictionaryEngineClause` read. -/
def Expr.parts : Expr → Parts Expr
  | .Node _ nodes children lists => ⟨nodes, children, lists⟩
  | .SettingsClause _ _ Items => ⟨[], [], [Items]⟩
  | _ => Parts.empty

/-- The fields of a field that may be `nil`: nothing when it is `nil`. -/
def Expr.childParts : Option Expr → Parts Expr
  | none => Parts.empty
  | some x => x.parts

/-- The fields of a node of the generic constructor, with the fields of its fields. -/
def Expr.view (nodes : List Expr) (children : List (Option Expr)) (lists : List (List Expr)) :
    View Expr :=
  ⟨⟨nodes, children, lists⟩, nodes.map Expr.parts, children.map Expr.childParts,
    lists.map (List.map Expr.parts)⟩

/-- The children on which a statement of an `Accept` method calls `Accept`, in order. -/
def AcceptStep.children : AcceptStep Expr → List (Option Expr)
  | .node child => [some child]
  | .field child => [child]
  | .ifPresent child => present child
  | .each children => children.map some

/-- The children on which the statements of an `Accept` method call `Accept`, in order. -/
def stepsChildren (steps : List (AcceptStep Expr)) : List (Option Expr) :=
  (steps.map AcceptStep.children).flatten


/-- The children on which `Accept` of a node calls `Accept`, in the order of the calls.
An entry `none` is a field that is `nil` and that the method does not test. -/
def Expr.traversal : Expr → List (Option Expr)
  | .Ident _ => []
  | .NumberLiteral _ _ _ _ => []
  | .StringLiteral _ _ _ => []
  | .NestedIdentifier ident DotIdent => some (.Ident ident) :: presentIdent DotIdent
  | .TableIdentifier Database Table => presentIdent Database ++ [some (.Ident Table)]
  | .BinaryOperation LeftExpr _ RightExpr _ _ => [LeftExpr, RightExpr]
  | .NotExpr _ expr => [expr]
  | .AliasExpr expr _ Alias => [expr, Alias]
  | .ColumnExpr expr Alias => expr :: presentIdent Alias
  | .SelectItem expr Modifiers Alias => expr :: (Modifiers.map some ++ presentIdent Alias)
  | .TableExpr _ _ Alias expr _ => expr :: present Alias
  | .JoinTableExpr Table _ SampleRatio _ => some Table :: present SampleRatio
  | .JoinExpr _ Left Right _ Constraints => Left :: (present Right ++ present Constraints)
  | .FromClause _ expr => [expr]
  | .WhereClause _ expr => [expr]
  | .PrewhereClause _ expr => [expr]
  | .HavingClause _ expr => [expr]
  | .SelectQuery _ _ With Top _ _ SelectItems From Window Prewhere Where GroupBy _ Having
      OrderBy LimitBy Limit Settings Format UnionAll UnionDistinct Except =>
      present With ++ (present Top ++ (SelectItems.map some ++ (present From ++
        (present Window ++ (present Prewhere ++ (present Where ++ (present GroupBy ++
        (present Having ++ (present OrderBy ++ (present LimitBy ++ (present Limit ++
        (present Settings ++ (present Format ++ (present UnionAll ++
        (present UnionDistinct ++ present Except)))))))))))))))
  | .WithClause _ _ CTEs => CTEs.map some
  | .TernaryOperation Condition TrueExpr FalseExpr => [TrueExpr, FalseExpr, Condition]
  | .NullLiteral _ => []
  | .NotNullLiteral _ nullLiteral => [some nullLiteral]
  | .ColumnDef _ _ Name type NotNull Nullable DefaultExpr MaterializedExpr aliasExpr Codec TTL
      Comment _ =>
      some Name :: (present type ++ (present NotNull ++ (present Nullable ++
        (present DefaultExpr ++ (present MaterializedExpr ++ (present aliasExpr ++
        (present Codec ++ (present TTL ++ present Comment))))))))
  | .CreateDatabase _ _ _ _ OnCluster Engine _ => present OnCluster ++ present Engine
  | .AlterTable _ _ tableIdentifier OnCluster AlterExprs =>
      some tableIdentifier :: (present OnCluster ++ AlterExprs.map some)
  | .AlterTableDropPartition _ _ Partition _ => [some Partition]
  | .TTLPolicyRuleAction _ _ _ Codec => present Codec
  | .TTLPolicyRule _ ToVolume ToDisk _ => present ToVolume ++ present ToDisk
  | .TTLPolicy Item Where GroupBy => present Item ++ (present Where ++ present GroupBy)
  | .TTLExpr _ expr Policy => expr :: present Policy
  | .RatioExpr Numerator Denominator => some Numerator :: present Denominator
  | .SampleClause _ Ratio Offset => some Ratio :: present Offset
  | .ScalarType Name => [some (.Ident Name)]
  | .PropertyType Name => [some (.Ident Name)]
  | .TypeWithParams _ _ Name Params => some (.Ident Name) :: Params.map some
  | .ComplexType _ _ Name Params => some (.Ident Name) :: Params.map some
  | .NestedType _ _ Name Columns => some (.Ident Name) :: Columns.map some
  | .EnumValue Name Value => [some Name, some Value]
  | .EnumType Name _ _ Values => some (.Ident Name) :: Values.map some
  | .JSONType Name _ => [some (.Ident Name)]
  | .AlterTableAddColumn _ _ Column _ After Settings =>
      some Column :: (present After ++ present Settings)
  | .AlterTableDropColumn _ ColumnName _ => [some ColumnName]
  | .PartitionClause _ expr ID _ => present expr ++ present ID
  | .SettingExpr _ Name expr => [some (.Ident Name), expr]
  | .SettingsClause _ _ Items => Items.map some
  | .DictionaryLifetimeClause _ Min Max Value _ =>
      present Value ++ (present Min ++ present Max)
  | .DictionaryRangeClause _ Min Max _ => [Min.map Expr.Ident, Max.map Expr.Ident]
  | .DictionaryAttribute _ Name type Default Expression _ _ _ =>
      some (.Ident Name) :: type :: (present Default ++ present Expression)
  | .WhenClause _ _ When Then _ Else => When :: Then :: present Else
  | .CaseExpr _ _ expr Whens _ Else => present expr ++ (Whens.map some ++ present Else)
  | .GroupByClause _ _ _ expr _ _ _ => present expr
  | .ClusterClause _ expr => [expr]
  | .PrivilegeClause _ _ _ Params => present Params
  | .GrantPrivilegeStmt _ _ OnCluster Privileges On To _ =>
      present OnCluster ++ (Privileges.map some ++ (some On :: identChildren To))
  | .TableIndex _ name columnExpr columnType granularity =>
      [some name, some columnExpr, columnType, some granularity]
  | .AlterTableAddIndex _ _ Index _ After => some Index :: present After
  | .AlterTableAddProjection _ _ _ projection After =>
      some projection :: present After
  | .FormatClause _ format => [some (.Ident format)]
  | .AssignmentValues _ _ Values => Values.map some
  | .InsertStmt _ format _ Table ColumnNames Values SelectExpr =>
      present format ++ (Table :: (present ColumnNames ++ (Values.map some ++
        present SelectExpr)))
  | .Node kind nodes children lists =>
      stepsChildren (NodeKind.Accept kind (Expr.view nodes children lists))

/-- Whether `Accept` of a node, once its children are traversed, calls the `VisitX`
callback of the node: every method does, except `(*JoinTableExpr).Accept` on a node with a
`SampleRatio`, which returns the result of `j.SampleRatio.Accept(visitor)`; see
`NodeKind.callsVisit` for the nodes of the generic constructor. -/
def Expr.callsVisit : Expr → Bool
  | .JoinTableExpr _ _ (some _) _ => false
  | .Node kind _ _ _ => NodeKind.callsVisit kind
  | _ => true

/-- The calls `x.Accept(visitor)` on the children of a list, in order; the first call that
does not return `nil` ends the sequence. -/
def acceptAll (visitor : ASTVisitor σ ε) : List (Option Expr) → σ → Traversal σ ε
  | [] => skipCall
  | child :: rest => andThen (acceptField visitor child) (acceptAll visitor rest)

/-- Every callback `VisitX` of the visitor returns `nil`, in every state. -/
def VisitsSucceed (visitor : ASTVisitor σ ε) : Prop :=
  ∀ (node : Expr) (s : σ), (visitor.Visit node s).2 = none

/-- A property of traversals that is closed under the constructions used by the `Accept`
methods. -/
structure AcceptClosed (visitor : ASTVisitor σ ε) (P : (σ → Traversal σ ε) → Prop) :
    Prop where
  visit : ∀ node : Expr, P (callVisit visitor node)
  skip : P skipCall
  missing : P nilCall
  seq : ∀ {first next : σ → Traversal σ ε}, P first → P next → P (andThen first next)
  node : ∀ (n : Expr) {body : σ → Traversal σ ε}, P body → P (entered visitor n body)

end

section
variable {σ ε : Type}

/-- Follows the claim's words: the notifications of a child that is traversed if present,
from the state `s`: those of its `Accept` when the child is present, none otherwise. -/
def traceIfPresent (visitor : ASTVisitor σ ε) (child : Option Expr) (s : σ) : List Event :=
  match child with
  | some c => (Expr.Accept visitor c s).events
  | none => []

/-- Follows the claim's words: the state of the visitor after a child that is traversed if
present: the state after its `Accept` when the child is present, the state before
otherwise. -/
def stateIfPresent (visitor : ASTVisitor σ ε) (child : Option Expr) (s : σ) : σ :=
  match child with
  | some c => (Expr.Accept visitor c s).state
  | none => s

end

/-- A visitor without state whose callbacks all return `nil`. -/
def quietVisitor : ASTVisitor Unit String where
  Enter := fun _ s => s
  Leave := fun _ s => s
  Visit := fun _ s => (s, none)

/-- A visitor whose callback `VisitIdent` returns an error on the identifiers of the given
name and counts, in its state, the callbacks that returned `nil`. -/
def failingAt (name : String) : ASTVisitor Nat String where
  Enter := fun _ s => s
  Leave := fun _ s => s
  Visit := fun n s =>
    match n with
    | .Ident i => if i.Name = name then (s, some ("no " ++ name)) else (s + 1, none)
    | _ => (s + 1, none)

/-- The table reference `name` of a `FROM` clause, at the given position. -/
def tableRef (name : String) (pos : Pos) : Expr :=
  .TableExpr pos (pos + name.length) none
    (some (.TableIdentifier none (unquotedIdent name pos))) false

/-- The sampling clause `SAMPLE 0.1` at position 7. -/
def sampleTenth : Expr :=
  .SampleClause 7 (.RatioExpr (.NumberLiteral 14 17 "0.1" 10) none) none

/-- The `JoinTableExpr` of `FROM t SAMPLE 0.1`: the table `t` with a sampling clause. -/
def sampledTable : Expr :=
  .JoinTableExpr (tableRef "t" 5) 17 (some sampleTenth) false

/-- The `JoinTableExpr` of `FROM t`: the same table without a sampling clause. -/
def plainTable : Expr :=
  .JoinTableExpr (tableRef "t" 5) 6 none false

/-- The join `t, u` of `FROM t, u`: a left side and a right side, no constraints. -/
def joinExample : Expr :=
  .JoinExpr 5 (some (.JoinTableExpr (tableRef "t" 5) 6 none false))
    (some (.JoinTableExpr (tableRef "u" 8) 9 none false)) [] none

/-- The conditional expression `a ? b : c`. -/
def ternaryExample : Expr :=
  .TernaryOperation (some (.Ident (unquotedIdent "a" 0))) (some (.Ident (unquotedIdent "b" 4)))
    (some (.Ident (unquotedIdent "c" 8)))

/-- The statement `CREATE DATABASE db COMMENT 'x'`. -/
def createDatabaseExample : Expr :=
  .CreateDatabase 0 29 (some (.Ident (unquotedIdent "db" 16))) false none none
    (some (.StringLiteral 27 28 "x"))

/-- The TTL rule `DELETE`: a rule whose only child is its action. -/
def ttlRuleExample : Expr :=
  .TTLPolicyRule 2 none none (some (.TTLPolicyRuleAction 2 8 "DELETE" none))

/-- The policy `TO DISK 'hdd'` of the TTL item `d TO DISK 'hdd'`. -/
def ttlPolicyExample : Expr :=
  .TTLPolicy (some (.TTLPolicyRule 2 none (some (.StringLiteral 11 14 "hdd")) none)) none none

/-- The TTL item `d TO DISK 'hdd'`: the expression `d`, then its policy. -/
def ttlExample : Expr :=
  .TTLExpr 0 (some (.Ident (unquotedIdent "d" 0))) (some ttlPolicyExample)

/-- Follows the claim's words: an optional part of a rendering is its lead followed by the
Compact rendering of the part when the part is present, and no bytes when it is absent. -/
def optionalPart (lead : String) : Option Expr → String
  | none => ""
  | some x => lead ++ Format (some x)

/-! ## Canonical type names (ast.go: the `Type()` methods) -/

/-- Go `Type()` of the node kinds of the generic constructor that have the method;
`none` for a node kind without it. -/
def NodeKind.Type : NodeKind → Option String
  | .AlterRole _ _ _ => some "ROLE"
  | .CreateDictionary _ _ _ _ => some "DICTIONARY"
  | .CreateFunction _ _ _ => some "FUNCTION"
  | .CreateLiveView _ _ _ => some "LIVE_VIEW"
  | .CreateMaterializedView _ _ _ _ _ _ _ _ => some "MATERIALIZED_VIEW"
  | .CreateNamedCollection _ _ _ => some "NAMED COLLECTION"
  | .CreateRole _ _ _ _ => some "ROLE"
  | .CreateTable _ _ _ _ _ => some "CREATE TABLE"
  | .CreateUser _ _ _ _ _ => some "USER"
  | .CreateView _ _ _ _ => some "VIEW"
  | .DropDatabase _ _ _ => some "DATABASE"
  | .DropStmt _ _ DropTarget _ _ _ => some ("DROP " ++ DropTarget)
  | .DropUserOrRole _ Target _ _ _ => some Target
  | .RenameStmt _ _ RenameTarget => some ("RENAME " ++ RenameTarget)
  | .TruncateTable _ _ _ _ => some "TRUNCATE TABLE"
  | _ => none

/-- Go `Type()` of the node kinds that have the method: the column types (interface
`ColumnType`) and the statements (interface `DDL`); `none` for a node kind without the
method. -/
def Expr.Type : Expr → Option String
  | .ScalarType Name => some Name.Name
  | .PropertyType Name => some Name.Name
  | .TypeWithParams _ _ Name _ => some Name.Name
  | .ComplexType _ _ Name _ => some Name.Name
  | .NestedType _ _ Name _ => some Name.Name
  | .EnumType Name _ _ _ => some Name.Name
  | .JSONType Name _ => some Name.Name
  | .AlterTable _ _ _ _ _ => some "ALTER TABLE"
  | .CreateDatabase _ _ _ _ _ _ _ => some "DATABASE"
  | .GrantPrivilegeStmt _ _ _ _ _ _ _ => some "GRANT PRIVILEGE"
  | .Node kind _ _ _ => NodeKind.Type kind
  | _ => none

/-- Follows the claim's words: the identifier of a column-type node, which is its field
`Name`; `none` for a node of another kind. -/
def Expr.typeIdentifier : Expr → Option SQLParser.Ident
  | .ScalarType Name => some Name
  | .PropertyType Name => some Name
  | .TypeWithParams _ _ Name _ => some Name
  | .ComplexType _ _ Name _ => some Name
  | .NestedType _ _ Name _ => some Name
  | .EnumType Name _ _ _ => some Name
  | .JSONType Name _ => some Name
  | _ => none

/-! ## Compact mode, in the words of the specification -/

/-- Follows the claim's words: what an operation contributes to a Compact output: the
bytes passed to `WriteByte` or `WriteString`, one space for `Break()`, and nothing for
`NewLine()`, `Indent()` and `Dedent()`. -/
def FmtOp.compactText : FmtOp → List Char
  | .Indent => []
  | .Dedent => []
  | .NewLine => []
  | .Break => [whitespace]
  | .WriteByte b => [b]
  | .WriteString s => s.data

/-- The Compact output of a sequence of operations. -/
def compactText (ops : List FmtOp) : List Char :=
  (ops.map FmtOp.compactText).flatten

/-- The operations that only steer the layout: `Indent()`, `Dedent()` and `NewLine()`. -/
def FmtOp.isLayout : FmtOp → Bool
  | .Indent => true
  | .Dedent => true
  | .NewLine => true
  | _ => false

/-- Follows the claim's words: the clauses of an `ALTER TABLE` statement, each after one
space, with a comma after every clause but the last. -/
def alterClauseList : List Expr → String
  | [] => ""
  | clause :: rest =>
      " " ++ Format (some clause) ++ (if rest.isEmpty then "" else ",") ++ alterClauseList rest

/-! ## More example trees -/

/-- The column type `UInt8` at the given position. -/
def typeUInt8 (pos : Pos) : Expr := .ScalarType (unquotedIdent "UInt8" pos)

/-- The column name `name` at the given position. -/
def columnName (name : String) (pos : Pos) : Expr :=
  .NestedIdentifier (unquotedIdent name pos) none

/-- The syntax tree of `ALTER TABLE t ADD COLUMN x UInt8 AFTER y, DROP COLUMN z`: an
`AlterTableAddColumn` clause, then an `AlterTableDropColumn` clause. -/
def alterExample : Expr :=
  .AlterTable 0 55 (.TableIdentifier none (unquotedIdent "t" 12)) none
    [.AlterTableAddColumn 14 40
        (.ColumnDef 25 32 (columnName "x" 25) (some (typeUInt8 27)) none none none none none
          none none none none)
        false (some (columnName "y" 39)) none,
     .AlterTableDropColumn 42 (columnName "z" 54) false]

/-- The column type `FixedString(8)`. -/
def typeFixedString : Expr :=
  .TypeWithParams 11 13 (unquotedIdent "FixedString" 0) [.NumberLiteral 12 13 "8" 10]

/-- The clause `SETTINGS mutations_sync=2` at position 22. -/
def settingsExample : Expr :=
  .SettingsClause 22 47
    [.SettingExpr 31 (unquotedIdent "mutations_sync" 31) (some (.NumberLiteral 46 47 "2" 10))]

/-- The clause `PARTITION 202401` at position 5. -/
def partitionExample : Expr :=
  .PartitionClause 5 (some (.NumberLiteral 15 21 "202401" 10)) none false

/-- The clause `DROP PARTITION 202401 SETTINGS mutations_sync=2` of an `ALTER TABLE`
statement. -/
def dropPartitionExample : Expr :=
  .AlterTableDropPartition 0 false partitionExample (some settingsExample)

/-- A `DictionaryRangeClause` with no `Min` and the `Max` attribute `hi`. -/
def rangeWithoutMin : Expr :=
  .DictionaryRangeClause 0 none (some (unquotedIdent "hi" 15)) 17

/-- A `DictionaryLifetimeClause` with no `Value`, no `Min` and no `Max`. -/
def lifetimeWithoutBounds : Expr :=
  .DictionaryLifetimeClause 0 none none none 9

/-! ## The indent unit as a parameter of the output -/

/-- An output with the indent units left open: `none` stands for one indent unit and
`some b` for the byte `b`; the function fills in the unit `u`. -/
def fillIndent (u : String) : List (Option Char) → List Char
  | [] => []
  | none :: rest => u.data ++ fillIndent u rest
  | some b :: rest => b :: fillIndent u rest

/-- An output written with the one-byte indent unit `z`, read back as an output with the
indent units left open. -/
def openIndent (z : Char) (out : List Char) : List (Option Char) :=
  out.map fun b => if b = z then none else some b

/-- A transformer that treats the output so far and the indent unit as parameters: from a
given mode, indent level and line-start flag it appends one and the same output with the
indent units left open, and ends at one and the same level and flag. -/
def IndentUniform (T : Formatter → Formatter) : Prop :=
  ∀ (m : FormatMode) (k : Int) (ls : Bool),
    ∃ (sk : List (Option Char)) (k' : Int) (ls' : Bool), ∀ (b : List Char) (u : String),
      T { builder := b, mode := m, indentLevel := k, lineStart := ls, indent := u }
        = { builder := b ++ fillIndent u sk, mode := m, indentLevel := k', lineStart := ls',
            indent := u }

/-- The syntax tree of `SELECT col1, col2 FROM table1 WHERE col1 > 10`. -/
def customIndentTree : Expr :=
  .SelectQuery 0 45 none none false none
    [.SelectItem (some (.Ident (unquotedIdent "col1" 7))) [] none,
     .SelectItem (some (.Ident (unquotedIdent "col2" 13))) [] none]
    (some (.FromClause 18
      (some (.JoinTableExpr (tableRef "table1" 23) 29 none false))))
    none none
    (some (.WhereClause 30 (some (comparison "col1" 36 ">" "10" 43))))
    none false none none none none none none none none none

/-- The Beautify rendering of a tree by a new formatter with the indent unit `u`. -/
def beautify (u : String) (expr : Option Expr) : String :=
  (WriteExpr (NewFormatter.WithBeautify.WithIndent u) expr).String

/-! ## Layout bytes and the text between them -/

/-- A property of formatter-state transformers that is closed under the constructions
used by the rendering functions, the test of the mode excepted: the one method that tests
the mode, `(*BinaryOperation).FormatSQL`, is an assumption of its own. -/
structure LayoutClosed (P : (Formatter → Formatter) → Prop) : Prop where
  skip : P (fun f => f)
  seq : ∀ {T₁ T₂ : Formatter → Formatter}, P T₁ → P T₂ → P (fun f => T₂ (T₁ f))
  writeByte : ∀ b : Char, P (fun f => f.WriteByte b)
  writeString : ∀ s : String, P (fun f => f.WriteString s)
  newLine : P (fun f => f.NewLine)
  brk : P (fun f => f.Break)
  indented : ∀ {T : Formatter → Formatter}, P T → P (fun f => (T f.Indent).Dedent)
  binary : ∀ (l r : Option Expr) (op : TokenKind) (g n : Bool),
    P (fun f => WriteExpr f l) → P (fun f => WriteExpr f r) →
    P (fun f => Expr.FormatSQL (.BinaryOperation l op r g n) f)

/-- A layout byte: the space or the newline. -/
def isLayoutByte (b : Char) : Bool :=
  b = whitespace || b = newline

/-- The text with every space and every newline deleted. -/
def squeeze (out : List Char) : List Char :=
  out.filter fun b => !isLayoutByte b

/-- An indent unit made of layout bytes only. -/
def LayoutOnly (indent : String) : Prop :=
  ∀ b ∈ indent.data, isLayoutByte b = true

/-- A transformer that, whatever the state (its indent unit being made of layout bytes),
keeps the indent unit and appends the text `ink` to the output, up to layout bytes. -/
def InkIs (T : Formatter → Formatter) (ink : List Char) : Prop :=
  ∀ f : Formatter, LayoutOnly f.indent →
    (T f).indent = f.indent ∧ squeeze (T f).builder = squeeze f.builder ++ ink

/-- A transformer that appends one and the same text, up to layout bytes, in every
state. -/
def InkUniform (T : Formatter → Formatter) : Prop :=
  ∃ ink : List Char, InkIs T ink

/-! ## Trees of the literal, span and statement examples -/

/-- The string literal whose content is `a`, a newline, `b`, at source offset 8. -/
def multilineLiteral : Expr := .StringLiteral 8 11 "a\nb"

/-- The syntax tree of `SELECT 'a\nb'`, the literal holding a newline. -/
def multilineSelect : Expr :=
  .SelectQuery 0 12 none none false none [.SelectItem (some multilineLiteral) [] none]
    none none none none none false none none none none none none none none none

/-- The dictionary attribute `some_long_name UInt64 INJECTIVE`. -/
def injectiveAttribute : Expr :=
  .DictionaryAttribute 0 (unquotedIdent "some_long_name" 0)
    (some (.ScalarType (unquotedIdent "UInt64" 15))) none none false true false

/-- The dictionary attribute `some_long_name UInt64`, with no flag. -/
def plainAttribute : Expr :=
  .DictionaryAttribute 0 (unquotedIdent "some_long_name" 0)
    (some (.ScalarType (unquotedIdent "UInt64" 15))) none none false false false

/-- The statement `GRANT ON CLUSTER c SELECT ON db.t TO u`. -/
def grantOnCluster : Expr :=
  .GrantPrivilegeStmt 0 38
    (some (.ClusterClause 6 (some (.Ident (unquotedIdent "c" 17)))))
    [.PrivilegeClause 19 25 ["SELECT"] none]
    (.TableIdentifier (some (unquotedIdent "db" 29)) (unquotedIdent "t" 32))
    [unquotedIdent "u" 37] []

/-- The statement `GRANT SELECT ON db.t TO u`, with no cluster clause. -/
def grantPlain : Expr :=
  .GrantPrivilegeStmt 0 25 none
    [.PrivilegeClause 6 12 ["SELECT"] none]
    (.TableIdentifier (some (unquotedIdent "db" 16)) (unquotedIdent "t" 19))
    [unquotedIdent "u" 24] []

/-- The index definition `INDEX idx x TYPE minmax GRANULARITY 1` of
`ADD INDEX IF NOT EXISTS idx x TYPE minmax GRANULARITY 1`. -/
def indexExample : Expr :=
  .TableIndex 4 (.NestedIdentifier (unquotedIdent "idx" 24) none)
    (.ColumnExpr (some (.Ident (unquotedIdent "x" 28))) none)
    (some (.Ident (unquotedIdent "minmax" 35)))
    (.NumberLiteral 54 55 "1" 10)

/-- The clause `ADD INDEX IF NOT EXISTS idx x TYPE minmax GRANULARITY 1`. -/
def addIndexIfNotExists : Expr := .AlterTableAddIndex 0 55 indexExample true none

/-- The clause `ADD COLUMN IF NOT EXISTS x UInt8`. -/
def addColumnIfNotExists : Expr :=
  .AlterTableAddColumn 0 32
    (.ColumnDef 25 32 (columnName "x" 25) (some (typeUInt8 27)) none none none none none none
      none none none)
    true none none

/-- The operation `a GLOBAL NOT IN b`: the operator `IN` with both flags set. -/
def globalNotIn : Expr :=
  .BinaryOperation (some (.Ident (unquotedIdent "a" 0))) "IN"
    (some (.Ident (unquotedIdent "b" 16))) true true

/-- The operation `a GLOBAL IN b`: the operator `IN` with the `GLOBAL` flag alone. -/
def globalIn : Expr :=
  .BinaryOperation (some (.Ident (unquotedIdent "a" 0))) "IN"
    (some (.Ident (unquotedIdent "b" 12))) true false

/-- The clause `PARTITION ALL`: the flag `All`, neither `ID` nor `Expr`. -/
def partitionAll : Expr := .PartitionClause 0 none none true

/-- The clause `PARTITION ID '202401'`: the partition given by its `ID`. -/
def partitionById : Expr := .PartitionClause 0 none (some (.StringLiteral 14 20 "202401")) false

/-- The statement `INSERT INTO t FORMAT JSONEachRow`: no `SELECT`, no `VALUES`. -/
def insertFormatOnly : Expr :=
  .InsertStmt 0 (some (.FormatClause 14 (unquotedIdent "JSONEachRow" 21))) false
    (some (.TableIdentifier none (unquotedIdent "t" 12))) none [] none

/-- The statement `INSERT INTO t VALUES (1)`. -/
def insertValues : Expr :=
  .InsertStmt 0 none false (some (.TableIdentifier none (unquotedIdent "t" 12))) none
    [.AssignmentValues 21 23 [.NumberLiteral 22 23 "1" 10]] none

/-! ## The order of the JSON type options -/

/-- The order in which `(*JSONOptions).FormatSQL` writes the items: the slices
`numericOptionItems`, `columnItems` and `skipOptionItems` one after the other, each
holding the items of its group in the order of `j.Items`. -/
def writtenOrder (xs : List (JSONOption Expr)) : List (JSONOption Expr) :=
  xs.filter (fun item => item.group = 0)
    ++ (xs.filter (fun item => item.group = 1) ++ xs.filter (fun item => item.group = 2))

/-- Follows the claim's words: the kind of an item, the first that applies: `some 0` for
an item with a `max_dynamic_paths` or `max_dynamic_types` option, `some 1` for a type-hint
item, `some 2` for a `SKIP` or `SKIP REGEXP` item; an item with no field set is of no
kind. -/
def JSONOption.kind {α : Type} (item : JSONOption α) : Option Nat :=
  if item.MaxDynamicPaths.isSome ∨ item.MaxDynamicTypes.isSome then some 0
  else if item.Column.isSome then some 1
  else if item.SkipPath.isSome ∨ item.SkipRegex.isSome then some 2
  else none

/-- Follows the claim's words: the items with a `max_dynamic_paths` or `max_dynamic_types`
option, then the type-hint items, then the `SKIP` and `SKIP REGEXP` items, each group in
the order its items have in the list. -/
def claimedPartition (xs : List (JSONOption Expr)) : List (JSONOption Expr) :=
  xs.filter (fun item => item.kind = some 0)
    ++ (xs.filter (fun item => item.kind = some 1) ++ xs.filter (fun item => item.kind = some 2))

/-- Follows the amended claim: the partition of the claim, the first group holding also
the items with no field set. -/
def amendedPartition (xs : List (JSONOption Expr)) : List (JSONOption Expr) :=
  xs.filter (fun item => item.kind = some 0 ∨ item.kind = none)
    ++ (xs.filter (fun item => item.kind = some 1) ++ xs.filter (fun item => item.kind = some 2))

/-- Follows the claim's words: the renderings of the items one after the other, joined by
`, `; `wrote` tells whether an item has been written before the first one of the list. -/
def writeJoined (formatter : Formatter) (wrote : Bool) : List (JSONOption Expr) → Formatter
  | [] => formatter
  | item :: rest =>
      writeJoined
        (JSONOption.FormatSQL item (if wrote then formatter.WriteString ", " else formatter))
        true rest

/-- The options `(SKIP a, a.b UInt8, max_dynamic_paths=10)` of a `JSON` type, in the order
of the source text. -/
def jsonOptionsExample : JSONOptions Expr :=
  { LParen := 4, RParen := 44,
    Items :=
      [{ SkipPath := some ⟨[unquotedIdent "a" 10]⟩, SkipRegex := none, MaxDynamicPaths := none,
         MaxDynamicTypes := none, Column := none },
       { SkipPath := none, SkipRegex := none, MaxDynamicPaths := none, MaxDynamicTypes := none,
         Column := some ⟨some ⟨[unquotedIdent "a" 13, unquotedIdent "b" 15]⟩,
           some (typeUInt8 17)⟩ },
       { SkipPath := none, SkipRegex := none,
         MaxDynamicPaths := some (.NumberLiteral 42 44 "10" 10), MaxDynamicTypes := none,
         Column := none }] }

/-- A list of options with an item that has no field set: a `SKIP a` item, the item with
no field, and a `max_dynamic_paths=10` item. -/
def optionsWithEmptyItem : List (JSONOption Expr) :=
  [{ SkipPath := some ⟨[unquotedIdent "a" 10]⟩, SkipRegex := none, MaxDynamicPaths := none,
     MaxDynamicTypes := none, Column := none },
   { SkipPath := none, SkipRegex := none, MaxDynamicPaths := none, MaxDynamicTypes := none,
     Column := none },
   { SkipPath := none, SkipRegex := none,
     MaxDynamicPaths := some (.NumberLiteral 31 33 "10" 10), MaxDynamicTypes := none,
     Column := none }]

/-- The expression `CASE WHEN a > 1 THEN 1 ELSE 0 END`. -/
def caseExample : Expr :=
  .CaseExpr 0 33 none
    [.WhenClause 5 16 (some (comparison "a" 10 ">" "1" 14))
      (some (.NumberLiteral 21 22 "1" 10)) 0 none]
    23 (some (.NumberLiteral 28 29 "0" 10))

/-! ## Trees of the node kinds of the generic constructor -/

/-- The clause `ORDER BY a DESC, b`. -/
def orderByExample : Expr :=
  .Node (.OrderByClause 0 18) [] [none]
    [[.Node (.OrderExpr 9 "DESC") [] [some (.Ident (unquotedIdent "a" 9)), none, none] [],
      .Node (.OrderExpr 17 "") [] [some (.Ident (unquotedIdent "b" 17)), none, none] []]]

/-- The column definition `name type` of a table. -/
def columnExample (name : String) (namePos : Pos) (type : String) : Expr :=
  .ColumnDef namePos (namePos + name.length + 1 + type.length)
    (.NestedIdentifier (unquotedIdent name namePos) none)
    (some (.ScalarType (unquotedIdent type (namePos + name.length + 1))))
    none none none none none none none none none

/-- The statement `CREATE TABLE t (a Int, b String) ENGINE = MergeTree ORDER BY a`. -/
def createTableExample : Expr :=
  .Node (.CreateTable 0 62 false false false)
    [.TableIdentifier none (unquotedIdent "t" 13)]
    [none, none,
      some (.Node (.TableSchemaClause 15 32) [] [none, none]
        [[columnExample "a" 16 "Int", columnExample "b" 23 "String"]]),
      some (.Node (.EngineExpr 33 62 "MergeTree") []
        [none, none, none, none, none, none,
          some (.Node (.OrderByClause 52 62) [] [none]
            [[.Node (.OrderExpr 61 "") [] [some (.Ident (unquotedIdent "a" 61)), none, none]
                []]])]
        []),
      none, none, none]
    []

/-- The statement `CREATE USER IF NOT EXISTS u SETTINGS s, t`, the settings being given by
their names. -/
def createUserExample : Expr :=
  .Node (.CreateUser 0 41 true false false) [] [none, none, none, none]
    [[.Node .RoleName [] [some (.Ident (unquotedIdent "u" 26)), none, none] []], [],
      [.Node .RoleSetting [] [none]
          [[.Node (.SettingPair "") [.Ident (unquotedIdent "s" 37)] [none] []]],
        .Node .RoleSetting [] [none]
          [[.Node (.SettingPair "") [.Ident (unquotedIdent "t" 40)] [none] []]]]]

/-- The schema `(id UInt64, name String)` of a dictionary. -/
def dictionarySchemaExample : Expr :=
  .Node (.DictionarySchemaClause 0 23) [] []
    [[.DictionaryAttribute 1 (unquotedIdent "id" 1)
        (some (.ScalarType (unquotedIdent "UInt64" 4))) none none false false false,
      .DictionaryAttribute 12 (unquotedIdent "name" 12)
        (some (.ScalarType (unquotedIdent "String" 17))) none none false false false]]

/-- The statement `CREATE MATERIALIZED VIEW v TO d AS SELECT a FROM s`. -/
def materializedViewExample : Expr :=
  .Node (.CreateMaterializedView 0 50 false false false false false "")
    [.TableIdentifier none (unquotedIdent "v" 25)]
    [none, none, none, none, none,
      some (.Node (.DestinationClause 27) [.TableIdentifier none (unquotedIdent "d" 30)]
        [none] []),
      some (.Node (.SubQuery false) []
        [some (.SelectQuery 35 50 none none false none
          [.SelectItem (some (.Ident (unquotedIdent "a" 42))) [] none]
          (some (.FromClause 44
            (some (.JoinTableExpr
              (.TableExpr 49 50 none (some (.TableIdentifier none (unquotedIdent "s" 49)))
                false)
              50 none false))))
          none none none none false none none none none none none none none none)]
        []),
      none, none]
    [[]]

/-- The clause `WINDOW w AS (PARTITION BY a)`. -/
def windowExample : Expr :=
  .Node (.WindowClause 0 28) [] []
    [[.Node (.WindowDefinition 9) []
        [some (.Ident (unquotedIdent "w" 7)),
          some (.Node (.WindowExpr 12 27) []
            [some (.Node (.PartitionByClause 13) [] [some (.Ident (unquotedIdent "a" 26))]
              []), none, none] [])]
        []]]

/-- The statement `RENAME TABLE a TO b`. -/
def renameExample : Expr :=
  .Node (.RenameStmt 0 19 "TABLE") [] [none]
    [[.Node .TargetPair
        [.TableIdentifier none (unquotedIdent "a" 13),
          .TableIdentifier none (unquotedIdent "b" 18)]
        [] []]]

/-- The statement `SET x=1, y=2`: `(*SetStmt).FormatSQL` writes the items of `s.Settings`
itself. -/
def setExample : Expr :=
  .Node (.SetStmt 0)
    [.SettingsClause 4 12
      [.SettingExpr 4 (unquotedIdent "x" 4) (some (.NumberLiteral 6 7 "1" 10)),
        .SettingExpr 9 (unquotedIdent "y" 9) (some (.NumberLiteral 11 12 "2" 10))]]
    [] []

/-- The clause `TOP 3 WITH TIES`: `(*TopClause).FormatSQL` writes `t.Number.Literal`. -/
def topExample : Expr :=
  .Node (.TopClause 0 15 true) [.NumberLiteral 4 5 "3" 10] [] []

/-- The array `[a, b]`: `(*ArrayParamList).FormatSQL` writes the items of `a.Items`
itself. -/
def arrayExample : Expr :=
  .Node (.ArrayParamList 0 5)
    [.Node (.ColumnExprList 1 5 false) [] []
      [[.Ident (unquotedIdent "a" 1), .Ident (unquotedIdent "b" 4)]]]
    [] []

/-- The map literal `{'k': 1}`. -/
def mapExample : Expr :=
  .Node (.MapLiteral 0 7) [] [] [[.StringLiteral 2 3 "k"], [.NumberLiteral 6 7 "1" 10]]

/-! # Theorems -/

/-! ## The formatter primitives -/

theorem writeIndentLoop_eq (indent : String) (n : Nat) (b : List Char) :
    writeIndentLoop indent n b = b ++ indentation indent n := by
  induction n generalizing b with
  | zero => simp [writeIndentLoop, indentation]
  | succ n ih =>
      simp only [writeIndentLoop, ih, indentation, List.replicate_succ, List.flatten_cons,
        List.append_assoc]

theorem compact_ne_beautify : FormatModeCompact ≠ FormatModeBeautify := by decide

/-- C1. `Break()` appends exactly one newline byte in Beautify mode and exactly one space
byte in Compact mode, whatever the state of the formatter. -/
theorem Break_mode_polymorphic (f : Formatter) :
    (f.mode = FormatModeBeautify → f.Break.builder = f.builder ++ [newline]) ∧
    (f.mode = FormatModeCompact → f.Break.builder = f.builder ++ [whitespace]) := by
  constructor
  · intro h
    simp [Formatter.Break, Formatter.NewLine, Formatter.WriteByte, h]
  · intro h
    have hne : f.mode ≠ FormatModeBeautify := by rw [h]; exact compact_ne_beautify
    simp [Formatter.Break, Formatter.WriteByte, hne]

theorem Break_mode_polymorphic_witness :
    NewFormatter.WithBeautify.Break.builder = [] ++ [newline] ∧
    NewFormatter.Break.builder = [] ++ [whitespace] :=
  ⟨(Break_mode_polymorphic NewFormatter.WithBeautify).1 rfl,
   (Break_mode_polymorphic NewFormatter).2 rfl⟩

/-- C2. Lazy indentation in Beautify mode: a byte other than the newline is preceded by
the indent unit repeated `indentLevel` times when the formatter is at a line start and is
written alone otherwise; the newline byte is written alone at every indent level and puts
the formatter at a line start. -/
theorem WriteByte_lazy_indentation (f : Formatter) (h : f.mode = FormatModeBeautify) :
    (∀ b : Char, b ≠ newline → f.lineStart = true →
      (f.WriteByte b).builder
        = f.builder ++ indentation f.indent f.indentLevel.toNat ++ [b]) ∧
    (∀ b : Char, b ≠ newline → f.lineStart = false →
      (f.WriteByte b).builder = f.builder ++ [b]) ∧
    (f.WriteByte newline).builder = f.builder ++ [newline] ∧
    (f.WriteByte newline).lineStart = true := by
  refine ⟨?_, ?_, ?_, ?_⟩
  · intro b hb hs
    simp [Formatter.WriteByte, Formatter.writeIndentIfNeeded, h, hb, hs, writeIndentLoop_eq]
  · intro b hb hs
    simp [Formatter.WriteByte, Formatter.writeIndentIfNeeded, h, hb, hs]
  · simp [Formatter.WriteByte, h]
  · simp [Formatter.WriteByte, h]

theorem WriteByte_lazy_indentation_witness :
    ((NewFormatter.WithBeautify.Indent.Indent).WriteByte 'x').builder
        = [] ++ indentation "  " 2 ++ ['x'] ∧
    (((NewFormatter.WithBeautify.Indent).WriteByte 'x').WriteByte 'y').builder
        = [' ', ' ', 'x'] ++ ['y'] ∧
    ((NewFormatter.WithBeautify.Indent).WriteByte newline).builder = [] ++ [newline] ∧
    ((NewFormatter.WithBeautify.Indent).WriteByte newline).lineStart = true :=
  ⟨(WriteByte_lazy_indentation (NewFormatter.WithBeautify.Indent.Indent) rfl).1 'x'
      (by decide) rfl,
   (WriteByte_lazy_indentation ((NewFormatter.WithBeautify.Indent).WriteByte 'x') rfl).2.1 'y'
      (by decide) rfl,
   (WriteByte_lazy_indentation (NewFormatter.WithBeautify.Indent) rfl).2.2.1,
   (WriteByte_lazy_indentation (NewFormatter.WithBeautify.Indent) rfl).2.2.2⟩

theorem interleave_append (indent : String) (xs ys : List (Nat × Char)) :
    interleave indent (xs ++ ys) = interleave indent xs ++ interleave indent ys := by
  induction xs with
  | nil => rfl
  | cons x xs ih =>
      obtain ⟨n, b⟩ := x
      simp [interleave, ih]

theorem BeautifyInv_Indent {u : String} {f : Formatter} (h : BeautifyInv u f) :
    BeautifyInv u f.Indent ∧ f.Indent.builder = f.builder := by
  obtain ⟨h1, h2, h3⟩ := h
  exact ⟨⟨h1, h2, h3⟩, rfl⟩

theorem BeautifyInv_Dedent {u : String} {f : Formatter} (h : BeautifyInv u f) :
    BeautifyInv u f.Dedent ∧ f.Dedent.builder = f.builder := by
  obtain ⟨h1, h2, h3⟩ := h
  unfold Formatter.Dedent
  split
  · exact ⟨⟨h1, h2, h3⟩, rfl⟩
  · exact ⟨⟨h1, h2, h3⟩, rfl⟩

theorem BeautifyInv_WriteByte {u : String} {f : Formatter} (h : BeautifyInv u f) (b : Char) :
    ∃ n : Nat, (b = newline → n = 0) ∧
      (f.WriteByte b).builder = f.builder ++ interleave u [(n, b)] ∧
      BeautifyInv u (f.WriteByte b) := by
  obtain ⟨h1, h2, h3⟩ := h
  by_cases hb : b = newline
  · refine ⟨0, fun _ => rfl, ?_, ?_⟩
    · simp [Formatter.WriteByte, h1, hb, interleave, indentation]
    · refine ⟨?_, ?_, ?_⟩
      · simp [Formatter.WriteByte, h1, hb]
      · simp [Formatter.WriteByte, h1, hb, h2]
      · simp [Formatter.WriteByte, h1, hb, atLineStart]
  · cases hs : f.lineStart with
    | true =>
        refine ⟨f.indentLevel.toNat, fun h => absurd h hb, ?_, ?_⟩
        · simp [Formatter.WriteByte, Formatter.writeIndentIfNeeded, h1, hb, hs,
            writeIndentLoop_eq, interleave, h2]
        · refine ⟨?_, ?_, ?_⟩
          · simp [Formatter.WriteByte, Formatter.writeIndentIfNeeded, h1, hb, hs]
          · simp [Formatter.WriteByte, Formatter.writeIndentIfNeeded, h1, hb, hs, h2]
          · simp [Formatter.WriteByte, Formatter.writeIndentIfNeeded, h1, hb, hs, atLineStart]
    | false =>
        refine ⟨0, fun _ => rfl, ?_, ?_⟩
        · simp [Formatter.WriteByte, Formatter.writeIndentIfNeeded, h1, hb, hs, interleave,
            indentation]
        · refine ⟨?_, ?_, ?_⟩
          · simp [Formatter.WriteByte, Formatter.writeIndentIfNeeded, h1, hb, hs]
          · simp [Formatter.WriteByte, Formatter.writeIndentIfNeeded, h1, hb, hs, h2]
          · simp [Formatter.WriteByte, Formatter.writeIndentIfNeeded, h1, hb, hs, atLineStart]

theorem BeautifyInv_writeBytes {u : String} (bs : List Char) :
    ∀ {f : Formatter}, BeautifyInv u f →
    ∃ marks : List (Nat × Char), marks.map Prod.snd = bs ∧
      (∀ m ∈ marks, m.2 = newline → m.1 = 0) ∧
      (f.writeBytes bs).builder = f.builder ++ interleave u marks ∧
      BeautifyInv u (f.writeBytes bs) := by
  induction bs with
  | nil =>
      intro f h
      exact ⟨[], rfl, by simp, by simp [Formatter.writeBytes, interleave], h⟩
  | cons b bs ih =>
      intro f h
      obtain ⟨n, hn, hb, hinv⟩ := BeautifyInv_WriteByte h b
      obtain ⟨marks, hm1, hm2, hm3, hm4⟩ := ih hinv
      refine ⟨(n, b) :: marks, by simp [hm1], ?_, ?_, hm4⟩
      · intro m hm
        rcases List.mem_cons.mp hm with rfl | hm
        · exact hn
        · exact hm2 m hm
      · simp only [Formatter.writeBytes, hm3, hb, interleave, List.append_assoc,
          List.singleton_append, List.nil_append, List.cons_append, List.append_nil]

theorem BeautifyInv_apply {u : String} {f : Formatter} (h : BeautifyInv u f) (op : FmtOp) :
    ∃ marks : List (Nat × Char), marks.map Prod.snd = op.payload ∧
      (∀ m ∈ marks, m.2 = newline → m.1 = 0) ∧
      (op.apply f).builder = f.builder ++ interleave u marks ∧
      BeautifyInv u (op.apply f) := by
  have hbytes : ∀ bs : List Char, ∃ marks : List (Nat × Char), marks.map Prod.snd = bs ∧
      (∀ m ∈ marks, m.2 = newline → m.1 = 0) ∧
      (f.writeBytes bs).builder = f.builder ++ interleave u marks ∧
      BeautifyInv u (f.writeBytes bs) := fun bs => BeautifyInv_writeBytes bs h
  have hmode := h.1
  cases op with
  | Indent =>
      exact ⟨[], rfl, by simp, by simp [FmtOp.apply, interleave, (BeautifyInv_Indent h).2],
        (BeautifyInv_Indent h).1⟩
  | Dedent =>
      exact ⟨[], rfl, by simp, by simp [FmtOp.apply, interleave, (BeautifyInv_Dedent h).2],
        (BeautifyInv_Dedent h).1⟩
  | NewLine =>
      have e : f.NewLine = f.writeBytes [newline] := by
        simp [Formatter.NewLine, hmode, Formatter.writeBytes]
      simpa [FmtOp.apply, FmtOp.payload, e] using hbytes [newline]
  | Break =>
      have e : f.Break = f.writeBytes [newline] := by
        simp [Formatter.Break, Formatter.NewLine, hmode, Formatter.writeBytes]
      simpa [FmtOp.apply, FmtOp.payload, e] using hbytes [newline]
  | WriteByte b =>
      have e : f.WriteByte b = f.writeBytes [b] := by simp [Formatter.writeBytes]
      simpa [FmtOp.apply, FmtOp.payload, e] using hbytes [b]
  | WriteString s =>
      simpa [FmtOp.apply, FmtOp.payload, Formatter.WriteString] using hbytes s.data

theorem BeautifyInv_runOps {u : String} (ops : List FmtOp) :
    ∀ {f : Formatter}, BeautifyInv u f →
    ∃ marks : List (Nat × Char), marks.map Prod.snd = payload ops ∧
      (∀ m ∈ marks, m.2 = newline → m.1 = 0) ∧
      (runOps f ops).builder = f.builder ++ interleave u marks ∧
      BeautifyInv u (runOps f ops) := by
  induction ops with
  | nil =>
      intro f h
      exact ⟨[], rfl, by simp, by simp [runOps, interleave], h⟩
  | cons op ops ih =>
      intro f h
      obtain ⟨m1, ha, hb, hc, hd⟩ := BeautifyInv_apply h op
      obtain ⟨m2, ha2, hb2, hc2, hd2⟩ := ih hd
      refine ⟨m1 ++ m2, ?_, ?_, ?_, ?_⟩
      · rw [List.map_append, ha, ha2]
        simp [payload]
      · intro m hm
        rcases List.mem_append.mp hm with hm | hm
        · exact hb m hm
        · exact hb2 m hm
      · have : runOps f (op :: ops) = runOps (op.apply f) ops := rfl
        rw [this, hc2, hc, interleave_append, List.append_assoc]
      · exact hd2

theorem BeautifyInv_new : BeautifyInv "  " NewFormatter.WithBeautify :=
  ⟨rfl, rfl, by simp [NewFormatter, Formatter.WithBeautify, atLineStart]⟩

theorem runOps_newlines (n : Nat) :
    ∀ f : Formatter, f.mode = FormatModeBeautify →
      (runOps f (List.replicate n FmtOp.NewLine)).builder
        = f.builder ++ List.replicate n newline := by
  induction n with
  | zero => intro f _; simp [runOps]
  | succ n ih =>
      intro f h
      have hm : f.NewLine.mode = FormatModeBeautify := by
        simp [Formatter.NewLine, Formatter.WriteByte, h]
      have hb : f.NewLine.builder = f.builder ++ [newline] := by
        simp [Formatter.NewLine, Formatter.WriteByte, h]
      have : runOps f (List.replicate (n + 1) FmtOp.NewLine)
          = runOps f.NewLine (List.replicate n FmtOp.NewLine) := rfl
      rw [this, ih _ hm, hb, List.replicate_succ]
      simp

/-- C3. No indentation on blank lines.  After every finite sequence of `Indent`, `Dedent`,
`NewLine`, `Break`, `WriteByte` and `WriteString` calls on `NewFormatter().WithBeautify()`:
the line-start flag is set exactly when the output is empty or ends with a newline; the
output is the bytes handed to the formatter, each preceded by a run of inserted
indentation that is empty before every newline byte; and any number of newlines written
next are adjacent in the output, at whatever indent level. -/
theorem no_indentation_on_blank_lines (ops : List FmtOp) :
    ((runOps NewFormatter.WithBeautify ops).lineStart = true
        ↔ atLineStart (runOps NewFormatter.WithBeautify ops).builder) ∧
    (∃ marks : List (Nat × Char), marks.map Prod.snd = payload ops ∧
        (∀ m ∈ marks, m.2 = newline → m.1 = 0) ∧
        (runOps NewFormatter.WithBeautify ops).builder = interleave "  " marks) ∧
    (∀ n : Nat,
        (runOps (runOps NewFormatter.WithBeautify ops)
            (List.replicate n FmtOp.NewLine)).builder
          = (runOps NewFormatter.WithBeautify ops).builder ++ List.replicate n newline) := by
  obtain ⟨marks, h1, h2, h3, h4⟩ := BeautifyInv_runOps ops BeautifyInv_new
  refine ⟨h4.2.2, ⟨marks, h1, h2, ?_⟩, fun n => runOps_newlines n _ h4.1⟩
  rw [h3]
  rfl

theorem apply_indentLevel_nonneg (f : Formatter) (op : FmtOp) (h : 0 ≤ f.indentLevel) :
    0 ≤ (op.apply f).indentLevel := by
  have hwb : ∀ (g : Formatter) (b : Char), (g.WriteByte b).indentLevel = g.indentLevel := by
    intro g b
    unfold Formatter.WriteByte Formatter.writeIndentIfNeeded
    split <;> try split
    all_goals (try split)
    all_goals rfl
  have hws : ∀ (bs : List Char) (g : Formatter),
      (g.writeBytes bs).indentLevel = g.indentLevel := by
    intro bs
    induction bs with
    | nil => intro g; rfl
    | cons b bs ih => intro g; simp [Formatter.writeBytes, ih, hwb]
  cases op with
  | Indent => simp only [FmtOp.apply, Formatter.Indent]; omega
  | Dedent =>
      simp only [FmtOp.apply, Formatter.Dedent]
      split
      · simp only; omega
      · exact h
  | NewLine =>
      simp only [FmtOp.apply, Formatter.NewLine]
      split
      · exact h
      · rw [hwb]; exact h
  | Break =>
      simp only [FmtOp.apply, Formatter.Break, Formatter.NewLine]
      split
      · split
        · exact h
        · rw [hwb]; exact h
      · rw [hwb]; exact h
  | WriteByte b => simp only [FmtOp.apply, hwb]; exact h
  | WriteString s => simp only [FmtOp.apply, Formatter.WriteString, hws]; exact h

theorem runOps_indentLevel_nonneg (ops : List FmtOp) :
    ∀ f : Formatter, 0 ≤ f.indentLevel → 0 ≤ (runOps f ops).indentLevel := by
  induction ops with
  | nil => intro f h; exact h
  | cons op ops ih => intro f h; exact ih _ (apply_indentLevel_nonneg f op h)

theorem Dedent_Indent (f : Formatter) (h : 0 ≤ f.indentLevel) : f.Indent.Dedent = f := by
  have : f.indentLevel + 1 > 0 := by omega
  simp [Formatter.Indent, Formatter.Dedent, this]

/-- C4. The indent level is never negative: after each call of a finite sequence of calls
on a new formatter (of `Indent()` and `Dedent()`, and of the writing operations as well)
the indent level is at least 0; `Dedent()` after `Indent()` gives back the state that held
before the `Indent()`; and `Dedent()` at level 0 leaves the whole state unchanged. -/
theorem indentLevel_never_negative (ops : List FmtOp) (f : Formatter)
    (h0 : f.indentLevel = 0) :
    (∀ n : Nat, 0 ≤ (runOps NewFormatter (ops.take n)).indentLevel) ∧
    (∀ n : Nat, (runOps NewFormatter (ops.take n)).Indent.Dedent
        = runOps NewFormatter (ops.take n)) ∧
    f.Dedent = f := by
  have hnn : ∀ n : Nat, 0 ≤ (runOps NewFormatter (ops.take n)).indentLevel :=
    fun n => runOps_indentLevel_nonneg _ _ (by decide)
  refine ⟨hnn, fun n => Dedent_Indent _ (hnn n), ?_⟩
  simp [Formatter.Dedent, h0]

theorem indentLevel_never_negative_witness :
    (∀ n : Nat, 0 ≤ (runOps NewFormatter
        ([FmtOp.Dedent, FmtOp.Indent, FmtOp.Dedent, FmtOp.Dedent].take n)).indentLevel) ∧
    (∀ n : Nat, (runOps NewFormatter
        ([FmtOp.Dedent, FmtOp.Indent, FmtOp.Dedent, FmtOp.Dedent].take n)).Indent.Dedent
        = runOps NewFormatter ([FmtOp.Dedent, FmtOp.Indent, FmtOp.Dedent, FmtOp.Dedent].take n)) ∧
    NewFormatter.Dedent = NewFormatter :=
  indentLevel_never_negative [FmtOp.Dedent, FmtOp.Indent, FmtOp.Dedent, FmtOp.Dedent]
    NewFormatter rfl

/-! ## Frame lemmas: what rendering leaves unchanged -/

@[simp] theorem WriteByte_mode (f : Formatter) (b : Char) : (f.WriteByte b).mode = f.mode := by
  unfold Formatter.WriteByte Formatter.writeIndentIfNeeded
  split <;> try split
  all_goals (try split)
  all_goals rfl

@[simp] theorem WriteByte_indent (f : Formatter) (b : Char) :
    (f.WriteByte b).indent = f.indent := by
  unfold Formatter.WriteByte Formatter.writeIndentIfNeeded
  split <;> try split
  all_goals (try split)
  all_goals rfl

@[simp] theorem WriteByte_indentLevel (f : Formatter) (b : Char) :
    (f.WriteByte b).indentLevel = f.indentLevel := by
  unfold Formatter.WriteByte Formatter.writeIndentIfNeeded
  split <;> try split
  all_goals (try split)
  all_goals rfl

@[simp] theorem writeBytes_mode (bs : List Char) (f : Formatter) :
    (f.writeBytes bs).mode = f.mode := by
  induction bs generalizing f with
  | nil => rfl
  | cons b bs ih => simp [Formatter.writeBytes, ih]

@[simp] theorem writeBytes_indent (bs : List Char) (f : Formatter) :
    (f.writeBytes bs).indent = f.indent := by
  induction bs generalizing f with
  | nil => rfl
  | cons b bs ih => simp [Formatter.writeBytes, ih]

@[simp] theorem writeBytes_indentLevel (bs : List Char) (f : Formatter) :
    (f.writeBytes bs).indentLevel = f.indentLevel := by
  induction bs generalizing f with
  | nil => rfl
  | cons b bs ih => simp [Formatter.writeBytes, ih]

@[simp] theorem WriteString_mode (f : Formatter) (s : String) :
    (f.WriteString s).mode = f.mode := by simp [Formatter.WriteString]

@[simp] theorem WriteString_indent (f : Formatter) (s : String) :
    (f.WriteString s).indent = f.indent := by simp [Formatter.WriteString]

@[simp] theorem WriteString_indentLevel (f : Formatter) (s : String) :
    (f.WriteString s).indentLevel = f.indentLevel := by simp [Formatter.WriteString]

@[simp] theorem NewLine_mode (f : Formatter) : f.NewLine.mode = f.mode := by
  unfold Formatter.NewLine; split <;> simp

@[simp] theorem NewLine_indent (f : Formatter) : f.NewLine.indent = f.indent := by
  unfold Formatter.NewLine; split <;> simp

@[simp] theorem NewLine_indentLevel (f : Formatter) :
    f.NewLine.indentLevel = f.indentLevel := by
  unfold Formatter.NewLine; split <;> simp

@[simp] theorem Break_mode (f : Formatter) : f.Break.mode = f.mode := by
  unfold Formatter.Break; split <;> simp

@[simp] theorem Break_indent (f : Formatter) : f.Break.indent = f.indent := by
  unfold Formatter.Break; split <;> simp

@[simp] theorem Break_indentLevel (f : Formatter) : f.Break.indentLevel = f.indentLevel := by
  unfold Formatter.Break; split <;> simp

@[simp] theorem Indent_mode (f : Formatter) : f.Indent.mode = f.mode := rfl

@[simp] theorem Indent_indent (f : Formatter) : f.Indent.indent = f.indent := rfl

@[simp] theorem Indent_indentLevel (f : Formatter) :
    f.Indent.indentLevel = f.indentLevel + 1 := rfl

@[simp] theorem Dedent_mode (f : Formatter) : f.Dedent.mode = f.mode := by
  unfold Formatter.Dedent; split <;> rfl

@[simp] theorem Dedent_indent (f : Formatter) : f.Dedent.indent = f.indent := by
  unfold Formatter.Dedent; split <;> rfl

theorem Dedent_indentLevel (f : Formatter) (h : 0 < f.indentLevel) :
    f.Dedent.indentLevel = f.indentLevel - 1 := by
  simp [Formatter.Dedent, h]

@[simp] theorem Ident_FormatSQL_mode (i : Ident) (f : Formatter) :
    (i.FormatSQL f).mode = f.mode := by
  unfold Ident.FormatSQL
  split <;> try split
  all_goals (try split)
  all_goals simp

@[simp] theorem Ident_FormatSQL_indent (i : Ident) (f : Formatter) :
    (i.FormatSQL f).indent = f.indent := by
  unfold Ident.FormatSQL
  split <;> try split
  all_goals (try split)
  all_goals simp

@[simp] theorem Ident_FormatSQL_indentLevel (i : Ident) (f : Formatter) :
    (i.FormatSQL f).indentLevel = f.indentLevel := by
  unfold Ident.FormatSQL
  split <;> try split
  all_goals (try split)
  all_goals simp

@[simp] theorem writeOperator_mode (f : Formatter) (op : TokenKind) (g n : Bool) :
    (BinaryOperation.writeOperator f op g n).mode = f.mode := by
  unfold BinaryOperation.writeOperator
  cases n <;> cases g <;> simp

@[simp] theorem writeOperator_indent (f : Formatter) (op : TokenKind) (g n : Bool) :
    (BinaryOperation.writeOperator f op g n).indent = f.indent := by
  unfold BinaryOperation.writeOperator
  cases n <;> cases g <;> simp

@[simp] theorem writeOperator_indentLevel (f : Formatter) (op : TokenKind) (g n : Bool) :
    (BinaryOperation.writeOperator f op g n).indentLevel = f.indentLevel := by
  unfold BinaryOperation.writeOperator
  cases n <;> cases g <;> simp

/-! ## Unfolding equations of the rendering functions -/

theorem WriteExpr_some (f : Formatter) (e : Expr) : WriteExpr f (some e) = e.FormatSQL f := rfl

/-- The function `writeLogicalOperand` in the words of the source. -/
theorem writeLogicalOperand_eq (f : Formatter) (e : Option Expr) :
    writeLogicalOperand f e
      = if isLogicalBinaryOp e then WriteExpr f e else (WriteExpr f.Indent e).Dedent := by
  cases e <;> rfl

/-- The function `writeSpaced` in the words of the source. -/
theorem writeSpaced_eq (f : Formatter) (e : Option Expr) :
    writeSpaced f e = if e.isSome then WriteExpr (f.WriteByte whitespace) e else f := by
  cases e <;> rfl

/-- The function `writeClause` in the words of the source. -/
theorem writeClause_eq (f : Formatter) (e : Option Expr) :
    writeClause f e = if e.isSome then WriteExpr f.Break e else f := by
  cases e <;> rfl

/-- The function `writeSetOperation` in the words of the source. -/
theorem writeSetOperation_eq (f : Formatter) (keyword : String) (e : Option Expr) :
    writeSetOperation f keyword e
      = if e.isSome then WriteExpr ((f.Break.WriteString keyword).Break) e else f := by
  cases e <;> rfl

theorem writeWith_none (f : Formatter) : writeWith f none = f := rfl

theorem writeWith_some (f : Formatter) (p q : Pos) (CTEs : List Expr) :
    writeWith f (some (.WithClause p q CTEs))
      = ((writeBreakSeparated (f.WriteString "WITH").Indent 0 CTEs).Dedent).Break := rfl

/-- The function `writeIntroduced` in the words of the source. -/
theorem writeIntroduced_eq (f : Formatter) (keyword : String) (e : Option Expr) :
    writeIntroduced f keyword e
      = if e.isSome then WriteExpr (f.WriteString keyword) e else f := by
  cases e <;> rfl

theorem writeCommaSeparated_nil (f : Formatter) (i : Nat) :
    writeCommaSeparated f i [] = f := rfl

theorem writeCommaSeparated_cons (f : Formatter) (i : Nat) (x : Expr) (xs : List Expr) :
    writeCommaSeparated f i (x :: xs)
      = writeCommaSeparated
          (x.FormatSQL (if i > 0 then f.WriteString ", " else f)) (i + 1) xs := rfl

theorem writeAlterExprs_nil (f : Formatter) : writeAlterExprs f [] = f := rfl

theorem writeAlterExprs_cons (f : Formatter) (x : Expr) (xs : List Expr) :
    writeAlterExprs f (x :: xs)
      = writeAlterExprs
          (if xs.isEmpty then x.FormatSQL f.Break else (x.FormatSQL f.Break).WriteString ",")
          xs := rfl

theorem FormatSQL_WithClause (p q : Pos) (CTEs : List Expr) (f : Formatter) :
    Expr.FormatSQL (.WithClause p q CTEs) f
      = writeCommaSeparated (f.WriteString "WITH ") 0 CTEs := rfl

theorem FormatSQL_TernaryOperation (c t e : Option Expr) (f : Formatter) :
    Expr.FormatSQL (.TernaryOperation c t e) f
      = WriteExpr ((WriteExpr ((WriteExpr f c).WriteString " ? ") t).WriteString " : ") e :=
  rfl

theorem FormatSQL_NullLiteral (p : Pos) (f : Formatter) :
    Expr.FormatSQL (.NullLiteral p) f = f.WriteString "NULL" := rfl

theorem FormatSQL_NotNullLiteral (p : Pos) (n : Expr) (f : Formatter) :
    Expr.FormatSQL (.NotNullLiteral p n) f = f.WriteString "NOT NULL" := rfl

theorem FormatSQL_ColumnDef (p q : Pos) (name : Expr)
    (ty notNull nullable dflt mat als codec ttl comment : Option Expr) (cc : Option Ident)
    (f : Formatter) :
    Expr.FormatSQL
        (.ColumnDef p q name ty notNull nullable dflt mat als codec ttl comment cc) f
      = writeIntroduced
          (writeSpaced (writeSpaced
            (writeIntroduced (writeIntroduced (writeIntroduced
              (if notNull.isSome then (writeSpaced (name.FormatSQL f) ty).WriteString " NOT NULL"
               else if nullable.isSome then
                (writeSpaced (name.FormatSQL f) ty).WriteString " NULL"
               else writeSpaced (name.FormatSQL f) ty)
              " DEFAULT " dflt) " MATERIALIZED " mat) " ALIAS " als)
            codec) ttl)
          " COMMENT " comment := rfl

theorem FormatSQL_CreateDatabase (p q : Pos) (name : Option Expr) (ine : Bool)
    (cluster engine comment : Option Expr) (f : Formatter) :
    Expr.FormatSQL (.CreateDatabase p q name ine cluster engine comment) f
      = writeIntroduced
          (writeClause
            (writeSpaced
              (WriteExpr
                (if ine then (f.WriteString "CREATE DATABASE ").WriteString "IF NOT EXISTS "
                 else f.WriteString "CREATE DATABASE ") name)
              cluster)
            engine)
          " COMMENT " comment := rfl

theorem FormatSQL_AlterTable (p q : Pos) (t : Expr) (cluster : Option Expr)
    (clauses : List Expr) (f : Formatter) :
    Expr.FormatSQL (.AlterTable p q t cluster clauses) f
      = writeAlterExprs (writeClause (t.FormatSQL (f.WriteString "ALTER TABLE ")) cluster)
          clauses := rfl

theorem FormatSQL_AlterTableDropPartition (p : Pos) (detached : Bool) (partition : Expr)
    (settings : Option Expr) (f : Formatter) :
    Expr.FormatSQL (.AlterTableDropPartition p detached partition settings) f
      = writeClause
          (partition.FormatSQL
            (if detached then (f.WriteString "DROP ").WriteString "DETACHED "
             else f.WriteString "DROP "))
          settings := rfl

theorem FormatSQL_TTLPolicyRuleAction (p q : Pos) (action : String) (codec : Option Expr)
    (f : Formatter) :
    Expr.FormatSQL (.TTLPolicyRuleAction p q action codec) f
      = writeSpaced (f.WriteString action) codec := rfl

theorem FormatSQL_TTLPolicyRule (p : Pos) (vol disk action : Option Expr) (f : Formatter) :
    Expr.FormatSQL (.TTLPolicyRule p vol disk action) f
      = if vol.isSome then writeIntroduced f "TO VOLUME " vol
        else if disk.isSome then writeIntroduced f "TO DISK " disk
        else WriteExpr f action := rfl

theorem FormatSQL_TTLPolicy (item wh gb : Option Expr) (f : Formatter) :
    Expr.FormatSQL (.TTLPolicy item wh gb) f
      = writeSpaced (writeSpaced (WriteExpr f item) wh) gb := rfl

theorem FormatSQL_TTLExpr (p : Pos) (e pol : Option Expr) (f : Formatter) :
    Expr.FormatSQL (.TTLExpr p e pol) f = writeSpaced (WriteExpr f e) pol := rfl

theorem FormatSQL_RatioExpr (n : Expr) (d : Option Expr) (f : Formatter) :
    Expr.FormatSQL (.RatioExpr n d) f = writeIntroduced (n.FormatSQL f) "/" d := rfl

theorem FormatSQL_SampleClause (p : Pos) (r : Expr) (o : Option Expr) (f : Formatter) :
    Expr.FormatSQL (.SampleClause p r o) f
      = writeIntroduced (r.FormatSQL (f.WriteString "SAMPLE ")) " OFFSET " o := rfl

theorem FormatSQL_ScalarType (n : Ident) (f : Formatter) :
    Expr.FormatSQL (.ScalarType n) f = n.FormatSQL f := rfl

theorem FormatSQL_PropertyType (n : Ident) (f : Formatter) :
    Expr.FormatSQL (.PropertyType n) f = n.FormatSQL f := rfl

theorem FormatSQL_TypeWithParams (p q : Pos) (n : Ident) (ps : List Expr) (f : Formatter) :
    Expr.FormatSQL (.TypeWithParams p q n ps) f
      = (writeCommaSeparated ((n.FormatSQL f).WriteByte '(') 0 ps).WriteByte ')' := rfl

theorem FormatSQL_ComplexType (p q : Pos) (n : Ident) (ps : List Expr) (f : Formatter) :
    Expr.FormatSQL (.ComplexType p q n ps) f
      = (writeCommaSeparated ((n.FormatSQL f).WriteByte '(') 0 ps).WriteByte ')' := rfl

theorem FormatSQL_NestedType (p q : Pos) (n : Ident) (cs : List Expr) (f : Formatter) :
    Expr.FormatSQL (.NestedType p q n cs) f
      = (writeCommaTerminated ((n.FormatSQL f).WriteByte '(') cs).WriteByte ')' := rfl

theorem FormatSQL_EnumValue (n v : Expr) (f : Formatter) :
    Expr.FormatSQL (.EnumValue n v) f = v.FormatSQL ((n.FormatSQL f).WriteByte '=') := rfl

theorem FormatSQL_EnumType (n : Ident) (p q : Pos) (vs : List Expr) (f : Formatter) :
    Expr.FormatSQL (.EnumType n p q vs) f
      = (writeCommaSeparated ((n.FormatSQL f).WriteByte '(') 0 vs).WriteByte ')' := rfl

theorem FormatSQL_JSONType (n : Ident) (o : Option (JSONOptions Expr)) (f : Formatter) :
    Expr.FormatSQL (.JSONType n o) f = writeJSONOptions (n.FormatSQL f) o := rfl

theorem FormatSQL_AlterTableAddColumn (p q : Pos) (c : Expr) (ine : Bool)
    (after settings : Option Expr) (f : Formatter) :
    Expr.FormatSQL (.AlterTableAddColumn p q c ine after settings) f
      = writeClause
          (writeIntroduced
            (c.FormatSQL
              (if ine then (f.WriteString "ADD COLUMN ").WriteString "IF NOT EXISTS "
               else f.WriteString "ADD COLUMN "))
            " AFTER " after)
          settings := rfl

theorem FormatSQL_AlterTableDropColumn (p : Pos) (c : Expr) (ie : Bool) (f : Formatter) :
    Expr.FormatSQL (.AlterTableDropColumn p c ie) f
      = c.FormatSQL
          (if ie then (f.WriteString "DROP COLUMN ").WriteString "IF EXISTS "
           else f.WriteString "DROP COLUMN ") := rfl

theorem FormatSQL_PartitionClause (p : Pos) (e id : Option Expr) (all : Bool)
    (f : Formatter) :
    Expr.FormatSQL (.PartitionClause p e id all) f
      = if id.isSome then WriteExpr (f.WriteString "PARTITION ") id
        else if all then (f.WriteString "PARTITION ").WriteString "ALL"
        else WriteExpr (f.WriteString "PARTITION ") e := rfl

theorem FormatSQL_SettingExpr (p : Pos) (n : Ident) (e : Option Expr) (f : Formatter) :
    Expr.FormatSQL (.SettingExpr p n e) f = WriteExpr ((n.FormatSQL f).WriteByte '=') e := rfl

theorem FormatSQL_SettingsClause (p q : Pos) (items : List Expr) (f : Formatter) :
    Expr.FormatSQL (.SettingsClause p q items) f
      = (writeBreakSeparated (f.WriteString "SETTINGS").Indent 0 items).Dedent := rfl

theorem FormatSQL_DictionaryLifetimeClause (p : Pos) (mn mx v : Option Expr) (q : Pos)
    (f : Formatter) :
    Expr.FormatSQL (.DictionaryLifetimeClause p mn mx v q) f
      = (if v.isSome then WriteExpr (f.WriteString "LIFETIME(") v
         else if mn.isSome ∧ mx.isSome then
           WriteExpr
             ((WriteExpr ((f.WriteString "LIFETIME(").WriteString "MIN ") mn).WriteString
               " MAX ") mx
         else f.WriteString "LIFETIME(").WriteString ")" := rfl

theorem FormatSQL_DictionaryRangeClause (p : Pos) (mn mx : Option Ident) (q : Pos)
    (f : Formatter) :
    Expr.FormatSQL (.DictionaryRangeClause p mn mx q) f
      = (writeRangeBounds (f.WriteString "RANGE(") mn mx).WriteString ")" := rfl

theorem FormatSQL_DictionaryAttribute (p : Pos) (n : Ident) (ty dflt e : Option Expr)
    (h i o : Bool) (f : Formatter) :
    Expr.FormatSQL (.DictionaryAttribute p n ty dflt e h i o) f
      = (fun g : Formatter => if o then g.WriteString " IS_OBJECT_ID" else g)
          ((fun g : Formatter => if i then g.WriteString " INJECTIVE" else g)
            ((fun g : Formatter => if h then g.WriteString " HIERARCHICAL" else g)
              (writeIntroduced
                (writeIntroduced (WriteExpr ((n.FormatSQL f).WriteByte whitespace) ty)
                  " DEFAULT " dflt)
                " EXPRESSION " e))) := rfl

theorem FormatSQL_WhenClause (p q : Pos) (w th : Option Expr) (r : Pos) (e : Option Expr)
    (f : Formatter) :
    Expr.FormatSQL (.WhenClause p q w th r e) f
      = writeIntroduced
          (WriteExpr ((WriteExpr (f.WriteString "WHEN ") w).WriteString " THEN ") th)
          " ELSE " e := rfl

theorem FormatSQL_CaseExpr (p q : Pos) (e : Option Expr) (ws : List Expr) (r : Pos)
    (el : Option Expr) (f : Formatter) :
    Expr.FormatSQL (.CaseExpr p q e ws r el) f
      = ((fun g : Formatter =>
            if el.isSome then WriteExpr (g.Break.WriteString "ELSE ") el else g)
          (writeWhens (writeSpaced (f.WriteString "CASE") e).Indent ws)).Dedent.Break.WriteString
          "END" := rfl

theorem FormatSQL_GroupByClause (p q : Pos) (a : String) (e : Option Expr) (c r t : Bool)
    (f : Formatter) :
    Expr.FormatSQL (.GroupByClause p q a e c r t) f
      = ((fun g : Formatter => if t then g.Break.WriteString "WITH TOTALS" else g)
          ((fun g : Formatter => if r then g.Break.WriteString "WITH ROLLUP" else g)
            ((fun g : Formatter => if c then g.Break.WriteString "WITH CUBE" else g)
              ((fun g : Formatter =>
                  if e.isSome then WriteExpr (if a = "" then g.Break else g) e else g)
                ((fun g : Formatter => if a ≠ "" then g.Break.WriteString a else g)
                  (f.WriteString "GROUP BY").Indent))))).Dedent := rfl

theorem FormatSQL_ClusterClause (p : Pos) (e : Option Expr) (f : Formatter) :
    Expr.FormatSQL (.ClusterClause p e) f = WriteExpr (f.WriteString "ON CLUSTER ") e := rfl

theorem FormatSQL_PrivilegeClause (p q : Pos) (ks : List String) (ps : Option Expr)
    (f : Formatter) :
    Expr.FormatSQL (.PrivilegeClause p q ks ps) f = WriteExpr (writeKeywords f 0 ks) ps := rfl

theorem FormatSQL_GrantPrivilegeStmt (p q : Pos) (cluster : Option Expr) (ps : List Expr)
    (target : Expr) (roles : List Ident) (ws : List String) (f : Formatter) :
    Expr.FormatSQL (.GrantPrivilegeStmt p q cluster ps target roles ws) f
      = writeGrantOptions
          (writeRoles
            ((target.FormatSQL
              ((writeCommaSeparated (writeSpaced (f.WriteString "GRANT ") cluster) 0
                ps).WriteString " ON ")).WriteString " TO ")
            0 roles)
          ws := rfl

theorem FormatSQL_TableIndex (p : Pos) (n c : Expr) (ty : Option Expr) (g : Expr)
    (f : Formatter) :
    Expr.FormatSQL (.TableIndex p n c ty g) f
      = (let formatter := f.WriteString "INDEX"
         let formatter := formatter.WriteByte whitespace
         let formatter := Expr.FormatSQL n formatter
         let columnExprStr := (Expr.FormatSQL c NewFormatter).String
         let formatter :=
           if columnExprStr.length > 0 ∧ columnExprStr.data.head? ≠ some '(' then
             formatter.WriteByte whitespace
           else formatter
         let formatter := formatter.WriteString columnExprStr
         let formatter := formatter.WriteByte whitespace
         let formatter := formatter.WriteString "TYPE"
         let formatter := formatter.WriteByte whitespace
         let formatter := WriteExpr formatter ty
         let formatter := formatter.WriteByte whitespace
         let formatter := formatter.WriteString "GRANULARITY"
         let formatter := formatter.WriteByte whitespace
         Expr.FormatSQL g formatter) := rfl

theorem FormatSQL_AlterTableAddIndex (p q : Pos) (index : Expr) (ine : Bool)
    (after : Option Expr) (f : Formatter) :
    Expr.FormatSQL (.AlterTableAddIndex p q index ine after) f
      = writeIntroduced
          (if ine then (index.FormatSQL (f.WriteString "ADD ")).WriteString "IF NOT EXISTS "
           else index.FormatSQL (f.WriteString "ADD "))
          " AFTER " after := rfl

theorem FormatSQL_AlterTableAddProjection (p q : Pos) (ine : Bool) (proj : Expr)
    (after : Option Expr) (f : Formatter) :
    Expr.FormatSQL (.AlterTableAddProjection p q ine proj after) f
      = writeIntroduced
          (proj.FormatSQL
            (if ine then (f.WriteString "ADD PROJECTION ").WriteString "IF NOT EXISTS "
             else f.WriteString "ADD PROJECTION "))
          " AFTER " after := rfl

theorem FormatSQL_FormatClause (p : Pos) (n : Ident) (f : Formatter) :
    Expr.FormatSQL (.FormatClause p n) f = n.FormatSQL (f.WriteString "FORMAT ") := rfl

theorem FormatSQL_AssignmentValues (p q : Pos) (vs : List Expr) (f : Formatter) :
    Expr.FormatSQL (.AssignmentValues p q vs) f
      = (writeCommaSeparated (f.WriteByte '(') 0 vs).WriteByte ')' := rfl

theorem FormatSQL_InsertStmt (p : Pos) (fmt : Option Expr) (tk : Bool)
    (table names : Option Expr) (vs : List Expr) (sel : Option Expr) (f : Formatter) :
    Expr.FormatSQL (.InsertStmt p fmt tk table names vs sel) f
      = (fun g : Formatter =>
          if sel.isSome then writeClause g sel
          else if vs.length > 0 then
            (writeInsertValues (g.Break.WriteString "VALUES").Indent vs).Dedent
          else g)
        (writeSpaced
          ((fun g : Formatter =>
              if names.isSome then (WriteExpr g.Break.Indent names).Dedent else g)
            (WriteExpr
              (if tk then (f.WriteString "INSERT INTO ").WriteString "TABLE "
               else f.WriteString "INSERT INTO ")
              table))
          fmt) := rfl

theorem FormatSQL_Node (kind : NodeKind) (nodes : List Expr) (children : List (Option Expr))
    (lists : List (List Expr)) (f : Formatter) :
    Expr.FormatSQL (.Node kind nodes children lists) f
      = NodeKind.FormatSQL kind ⟨nodes, children, lists⟩
          ⟨⟨formatItems nodes, formatChildren children, formatLists lists⟩,
            formatPartsItems nodes, formatPartsChildren children, formatPartsLists lists⟩
          f := rfl

theorem writeWhens_nil (f : Formatter) : writeWhens f [] = f := rfl

theorem writeWhens_cons (f : Formatter) (x : Expr) (xs : List Expr) :
    writeWhens f (x :: xs) = writeWhens (x.FormatSQL f.Break) xs := rfl

theorem writeInsertValues_nil (f : Formatter) : writeInsertValues f [] = f := rfl

theorem writeInsertValues_cons (f : Formatter) (x : Expr) (xs : List Expr) :
    writeInsertValues f (x :: xs)
      = writeInsertValues
          (if xs.isEmpty then x.FormatSQL f.Break else (x.FormatSQL f.Break).WriteByte ',')
          xs := rfl

theorem writeCommaTerminated_nil (f : Formatter) : writeCommaTerminated f [] = f := rfl

theorem writeCommaTerminated_cons (f : Formatter) (x : Expr) (xs : List Expr) :
    writeCommaTerminated f (x :: xs)
      = writeCommaTerminated
          (if xs.isEmpty then x.FormatSQL f else (x.FormatSQL f).WriteString ", ") xs := rfl

theorem writeAssigned_eq (f : Formatter) (name : String) (e : Option Expr) :
    writeAssigned f name e
      = if e.isSome then WriteExpr ((f.WriteString name).WriteByte '=') e else f := by
  cases e <;> rfl

theorem writeJSONItems_nil (f : Formatter) (g : Nat) (w : Bool) :
    writeJSONItems f g w [] = f := rfl

theorem writeJSONItems_cons (f : Formatter) (g : Nat) (w : Bool) (item : JSONOption Expr)
    (rest : List (JSONOption Expr)) :
    writeJSONItems f g w (item :: rest)
      = if item.group = g then
          writeJSONItems
            (JSONOption.FormatSQL item (if w then f.WriteString ", " else f)) g true rest
        else writeJSONItems f g w rest := rfl

theorem writeJSONOptions_none (f : Formatter) : writeJSONOptions f none = f := rfl

theorem writeJSONOptions_some (f : Formatter) (o : JSONOptions Expr) :
    writeJSONOptions f (some o)
      = (writeJSONItems
          (writeJSONItems (writeJSONItems (f.WriteByte '(') 0 false o.Items) 1
            (o.Items.any fun item => item.group = 0) o.Items)
          2 (o.Items.any fun item => item.group = 0 ∨ item.group = 1) o.Items).WriteByte
          ')' := rfl

theorem writeModifiers_nil (f : Formatter) : writeModifiers f [] = f := rfl

theorem writeModifiers_cons (f : Formatter) (m : Expr) (ms : List Expr) :
    writeModifiers f (m :: ms) = writeModifiers (m.FormatSQL (f.WriteByte whitespace)) ms := rfl

theorem writeBreakSeparated_nil (f : Formatter) (i : Nat) : writeBreakSeparated f i [] = f := rfl

theorem writeBreakSeparated_cons (f : Formatter) (i : Nat) (x : Expr) (xs : List Expr) :
    writeBreakSeparated f i (x :: xs)
      = writeBreakSeparated
          (x.FormatSQL (if i = 0 then f.Break else (f.WriteByte ',').Break)) (i + 1) xs := rfl

theorem writeJoinSQL_none (f : Formatter) : writeJoinSQL f none = f := rfl

theorem writeJoinSQL_JoinExpr (f : Formatter) (p : Pos) (l r : Option Expr)
    (ms : List String) (c : Option Expr) :
    writeJoinSQL f (some (.JoinExpr p l r ms c))
      = writeJoinSQL
          (if ms.length = 0 then WriteExpr (f.WriteByte ',') l
           else
            (writeSpaced
              (WriteExpr (((f.Break.WriteString (" ".intercalate ms)).Indent).Break) l)
              c).Dedent)
          r := rfl

theorem FormatSQL_Ident (i : Ident) (f : Formatter) :
    Expr.FormatSQL (.Ident i) f = i.FormatSQL f := rfl

theorem FormatSQL_NumberLiteral (p q : Pos) (s : String) (b : Int) (f : Formatter) :
    Expr.FormatSQL (.NumberLiteral p q s b) f = f.WriteString s := rfl

theorem FormatSQL_StringLiteral (p q : Pos) (s : String) (f : Formatter) :
    Expr.FormatSQL (.StringLiteral p q s) f
      = ((f.WriteByte singleQuoteByte).WriteString s).WriteByte singleQuoteByte := rfl

theorem FormatSQL_BinaryOperation (l r : Option Expr) (op : TokenKind) (g n : Bool)
    (f : Formatter) :
    Expr.FormatSQL (.BinaryOperation l op r g n) f
      = if BinaryOperation.isLogicalOp op g n ∧ f.mode = FormatModeBeautify then
          writeLogicalOperand
            ((BinaryOperation.writeOperator (writeLogicalOperand f l).NewLine op g n).NewLine) r
        else
          WriteExpr
            (if op ≠ TokenKindDash then
              (BinaryOperation.writeOperator
                (if op ≠ TokenKindDash then (WriteExpr f l).WriteByte whitespace
                 else WriteExpr f l) op g n).WriteByte whitespace
             else
              BinaryOperation.writeOperator
                (if op ≠ TokenKindDash then (WriteExpr f l).WriteByte whitespace
                 else WriteExpr f l) op g n) r := rfl

theorem FormatSQL_NotExpr (p : Pos) (e : Option Expr) (f : Formatter) :
    Expr.FormatSQL (.NotExpr p e) f
      = WriteExpr ((f.WriteString "NOT").WriteByte whitespace) e := rfl

theorem FormatSQL_AliasExpr (e : Option Expr) (p : Pos) (a : Option Expr) (f : Formatter) :
    Expr.FormatSQL (.AliasExpr e p a) f
      = WriteExpr
          ((if isSelectQuery e then ((WriteExpr (f.WriteByte '(') e).WriteByte ')')
            else WriteExpr f e).WriteString " AS ") a := rfl

theorem FormatSQL_TableExpr (p q : Pos) (a e : Option Expr) (fin : Bool) (f : Formatter) :
    Expr.FormatSQL (.TableExpr p q a e fin) f
      = if fin then (writeSpaced (WriteExpr f e) a).WriteString " FINAL"
        else writeSpaced (WriteExpr f e) a := rfl

theorem FormatSQL_JoinTableExpr (t : Expr) (q : Pos) (s : Option Expr) (fin : Bool)
    (f : Formatter) :
    Expr.FormatSQL (.JoinTableExpr t q s fin) f
      = if fin then (writeSpaced (t.FormatSQL f) s).WriteString " FINAL"
        else writeSpaced (t.FormatSQL f) s := rfl

theorem FormatSQL_JoinExpr (p : Pos) (l r : Option Expr) (ms : List String)
    (c : Option Expr) (f : Formatter) :
    Expr.FormatSQL (.JoinExpr p l r ms c) f = writeJoinSQL (WriteExpr f l) r := rfl

theorem FormatSQL_FromClause (p : Pos) (e : Option Expr) (f : Formatter) :
    Expr.FormatSQL (.FromClause p e) f
      = (WriteExpr ((f.WriteString "FROM").Indent.Break) e).Dedent := rfl

theorem FormatSQL_PrewhereClause (p : Pos) (e : Option Expr) (f : Formatter) :
    Expr.FormatSQL (.PrewhereClause p e) f = WriteExpr (f.WriteString "PREWHERE ") e := rfl

theorem FormatSQL_HavingClause (p : Pos) (e : Option Expr) (f : Formatter) :
    Expr.FormatSQL (.HavingClause p e) f = WriteExpr (f.WriteString "HAVING ") e := rfl

theorem FormatSQL_SelectQuery (p q : Pos) (With : Option Expr) (Top : Option Expr)
    (HasDistinct : Bool) (DistinctOn : Option Expr) (SelectItems : List Expr)
    (From Window Prewhere Where GroupBy : Option Expr) (WithTotal : Bool)
    (Having OrderBy LimitBy Limit Settings Format UnionAll UnionDistinct Except : Option Expr)
    (f : Formatter) (body : Formatter)
    (hbody : body
      = writeClause (writeClause (writeClause (writeClause (writeClause (writeClause
          (writeClause (writeClause (writeClause (writeClause (writeClause
            ((writeBreakSeparated
              (writeSpaced
                (if HasDistinct then
                  writeSpaced (((writeWith f With).WriteString "SELECT").WriteString
                    " DISTINCT") DistinctOn
                 else (writeWith f With).WriteString "SELECT") Top).Indent 0
              SelectItems).Dedent)
            From) Window) Prewhere) Where) GroupBy) Having) OrderBy) LimitBy) Limit)
            Settings) Format) :
    Expr.FormatSQL (.SelectQuery p q With Top HasDistinct DistinctOn SelectItems From Window
        Prewhere Where GroupBy WithTotal Having OrderBy LimitBy Limit Settings Format UnionAll
        UnionDistinct Except) f
      = if UnionAll.isSome then writeSetOperation body "UNION ALL" UnionAll
        else if UnionDistinct.isSome then writeSetOperation body "UNION DISTINCT" UnionDistinct
        else writeSetOperation body "EXCEPT" Except := by
  subst hbody
  rfl

theorem ite_closed {P : (Formatter → Formatter) → Prop} (c : Prop) [Decidable c]
    {T₁ T₂ : Formatter → Formatter} (h₁ : P T₁) (h₂ : P T₂) :
    P (fun f => if c then T₁ f else T₂ f) := by
  by_cases h : c
  · simpa [h] using h₁
  · simpa [h] using h₂

/-! ## The methods of the generic constructor: closure -/

theorem getD_closed {α : Type} {Q : α → Prop} {d : α} (hd : Q d) :
    ∀ (l : List α) (i : Nat), (∀ x ∈ l, Q x) → Q (l.getD i d)
  | [], _, _ => by simpa using hd
  | x :: _, 0, h => by simpa using h x (List.mem_cons_self _ _)
  | _ :: xs, i + 1, h => by
      simpa using getD_closed hd xs i (fun y hy => h y (List.mem_cons_of_mem _ hy))

theorem optClosed_none {τ : Type} (P : τ → Prop) : OptClosed P none :=
  fun _ h => by cases h

theorem listClosed_nil {τ : Type} (P : τ → Prop) : ListClosed P [] :=
  fun _ h => by cases h

theorem partsClosed_empty {τ : Type} (P : τ → Prop) : PartsClosed P (Parts.empty : Parts τ) :=
  ⟨fun _ h => (by cases h), fun _ h => (by cases h), fun _ h => (by cases h)⟩

theorem partsClosed_child {τ : Type} {P : τ → Prop} {p : Parts τ} (h : PartsClosed P p)
    (i : Nat) : OptClosed P (p.child i) :=
  getD_closed (optClosed_none P) p.children i h.children

theorem partsClosed_list {τ : Type} {P : τ → Prop} {p : Parts τ} (h : PartsClosed P p)
    (i : Nat) : ListClosed P (p.list i) :=
  getD_closed (listClosed_nil P) p.lists i h.lists

theorem partsClosed_withNode {τ α : Type} {P : τ → Prop} {Q : α → Prop} {p : Parts τ}
    (h : PartsClosed P p) (i : Nat) {missing : α} {k : τ → α} (hm : Q missing)
    (hk : ∀ x, P x → Q (k x)) : Q (p.withNode i missing k) := by
  unfold Parts.withNode
  cases hx : p.nodes[i]? with
  | none => exact hm
  | some x => exact hk x (h.nodes x (List.getElem?_mem hx))

theorem viewClosed_child {τ : Type} {P : τ → Prop} {v : View τ} (h : ViewClosed P v)
    (i : Nat) : OptClosed P (v.parts.child i) :=
  partsClosed_child h.parts i

theorem viewClosed_list {τ : Type} {P : τ → Prop} {v : View τ} (h : ViewClosed P v)
    (i : Nat) : ListClosed P (v.parts.list i) :=
  partsClosed_list h.parts i

theorem viewClosed_withNode {τ α : Type} {P : τ → Prop} {Q : α → Prop} {v : View τ}
    (h : ViewClosed P v) (i : Nat) {missing : α} {k : τ → α} (hm : Q missing)
    (hk : ∀ x, P x → Q (k x)) : Q (v.parts.withNode i missing k) :=
  partsClosed_withNode h.parts i hm hk

theorem viewClosed_nodePart {τ : Type} {P : τ → Prop} {v : View τ} (h : ViewClosed P v)
    (i : Nat) : PartsClosed P (v.nodePart i) :=
  getD_closed (partsClosed_empty P) v.nodeParts i h.nodeParts

theorem viewClosed_childPart {τ : Type} {P : τ → Prop} {v : View τ} (h : ViewClosed P v)
    (i : Nat) : PartsClosed P (v.childPart i) :=
  getD_closed (partsClosed_empty P) v.childParts i h.childParts

theorem viewClosed_listPart {τ : Type} {P : τ → Prop} {v : View τ} (h : ViewClosed P v)
    (i : Nat) : ∀ p ∈ v.listPart i, PartsClosed P p :=
  getD_closed (Q := fun l => ∀ p ∈ l, PartsClosed P p) (fun _ h => by cases h)
    v.listParts i h.listParts

theorem renderClosed_base {P : Render → Prop} (hP : RenderClosed P) : BaseClosed P :=
  ⟨hP.skip, hP.seq, hP.writeByte, hP.writeString, hP.newLine, hP.brk, hP.indented⟩

theorem layoutClosed_base {P : Render → Prop} (hP : LayoutClosed P) : BaseClosed P :=
  ⟨hP.skip, hP.seq, hP.writeByte, hP.writeString, hP.newLine, hP.brk, hP.indented⟩

section
variable {P : Render → Prop} (hP : BaseClosed P)
include hP

theorem Render_WriteExpr_closed {c : Option Render} (h : OptClosed P c) :
    P (fun f => Render.WriteExpr f c) := by
  cases c with
  | none => exact hP.skip
  | some r => exact h r rfl

theorem Render_forEach_closed {α : Type} {body : Nat → α → Render} (items : List α)
    (h : ∀ (i : Nat) (item : α), item ∈ items → P (body i item)) :
    ∀ i : Nat, P (Render.forEach body i items) := by
  induction items with
  | nil => intro _; exact hP.skip
  | cons item rest ih =>
      intro i
      show P (fun f => Render.forEach body (i + 1) rest (body i item f))
      exact hP.seq (h i item (List.mem_cons_self _ _))
        (ih (fun j x hx => h j x (List.mem_cons_of_mem _ hx)) (i + 1))

theorem partsClosed_writeNode {p : Parts Render} (h : PartsClosed P p) (i : Nat) :
    P (fun formatter => p.writeNode i formatter) :=
  partsClosed_withNode (Q := P) h i hP.skip (fun _ hx => hx)

end

section
variable {P : Render → Prop}

theorem AlterRole_FormatSQL_closed (hP : BaseClosed P) (IfExists : Bool)
    {RoleRenamePairs : List Render} {Settings : List Render}
    (hRoleRenamePairs : ListClosed P RoleRenamePairs) (hSettings : ListClosed P Settings) :
    P (AlterRole.FormatSQL IfExists RoleRenamePairs Settings) :=
  (hP.seq (hP.seq (hP.seq (hP.writeString "ALTER ROLE ") (ite_closed (IfExists = true)
    (hP.writeString "IF EXISTS ") hP.skip) :) (Render_forEach_closed hP RoleRenamePairs (fun i
    roleRenamePair hmem_roleRenamePair => (hP.seq (ite_closed (i > 0) (hP.writeString ", ") hP.skip)
    (hRoleRenamePairs roleRenamePair hmem_roleRenamePair) :)) 0) :) (ite_closed (Settings.length >
    0) (hP.seq (hP.writeString " SETTINGS ") (Render_forEach_closed hP Settings (fun i setting
    hmem_setting => (hP.seq (ite_closed (i > 0) (hP.writeString ", ") hP.skip) (hSettings setting
    hmem_setting) :)) 0) :) hP.skip) :)

theorem AlterTableAttachPartition_FormatSQL_closed (hP : BaseClosed P) {Partition : Render}
    {From : Option Render} (hPartition : P Partition) (hFrom : OptClosed P From) :
    P (AlterTableAttachPartition.FormatSQL Partition From) :=
  (hP.seq (hP.seq (hP.writeString "ATTACH ") hPartition :) (ite_closed (From.isSome = true) (hP.seq
    (hP.writeString " FROM ") (Render_WriteExpr_closed hP hFrom) :) hP.skip) :)

theorem AlterTableClearColumn_FormatSQL_closed (hP : BaseClosed P) (IfExists : Bool)
    {ColumnName : Render} {PartitionExpr : Option Render} (hColumnName : P ColumnName)
    (hPartitionExpr : OptClosed P PartitionExpr) :
    P (AlterTableClearColumn.FormatSQL IfExists ColumnName PartitionExpr) :=
  (hP.seq (hP.seq (hP.seq (hP.writeString "CLEAR COLUMN ") (ite_closed (IfExists = true)
    (hP.writeString "IF EXISTS ") hP.skip) :) hColumnName :) (ite_closed (PartitionExpr.isSome =
    true) (hP.seq (hP.writeString " IN ") (Render_WriteExpr_closed hP hPartitionExpr) :) hP.skip) :)

theorem AlterTableClearIndex_FormatSQL_closed (hP : BaseClosed P) (IfExists : Bool)
    {IndexName : Render} {PartitionExpr : Option Render} (hIndexName : P IndexName)
    (hPartitionExpr : OptClosed P PartitionExpr) :
    P (AlterTableClearIndex.FormatSQL IfExists IndexName PartitionExpr) :=
  (hP.seq (hP.seq (hP.seq (hP.writeString "CLEAR INDEX ") (ite_closed (IfExists = true)
    (hP.writeString "IF EXISTS ") hP.skip) :) hIndexName :) (ite_closed (PartitionExpr.isSome =
    true) (hP.seq (hP.writeString " IN ") (Render_WriteExpr_closed hP hPartitionExpr) :) hP.skip) :)

theorem AlterTableClearProjection_FormatSQL_closed (hP : BaseClosed P) (IfExists : Bool)
    {ProjectionName : Render} {PartitionExpr : Option Render} (hProjectionName : P ProjectionName)
    (hPartitionExpr : OptClosed P PartitionExpr) :
    P (AlterTableClearProjection.FormatSQL IfExists ProjectionName PartitionExpr) :=
  (hP.seq (hP.seq (hP.seq (hP.writeString "CLEAR PROJECTION ") (ite_closed (IfExists = true)
    (hP.writeString "IF EXISTS ") hP.skip) :) hProjectionName :) (ite_closed (PartitionExpr.isSome =
    true) (hP.seq (hP.writeString " IN ") (Render_WriteExpr_closed hP hPartitionExpr) :) hP.skip) :)

theorem AlterTableDelete_FormatSQL_closed (hP : BaseClosed P) {WhereClause : Option Render}
    (hWhereClause : OptClosed P WhereClause) : P (AlterTableDelete.FormatSQL WhereClause) :=
  (hP.seq (hP.writeString "DELETE WHERE ") (Render_WriteExpr_closed hP hWhereClause) :)

theorem AlterTableDetachPartition_FormatSQL_closed (hP : BaseClosed P) {Partition : Render}
    {Settings : Option Render} (hPartition : P Partition) (hSettings : OptClosed P Settings) :
    P (AlterTableDetachPartition.FormatSQL Partition Settings) :=
  (hP.seq (hP.seq (hP.writeString "DETACH ") hPartition :) (ite_closed (Settings.isSome = true)
    (hP.seq hP.brk (Render_WriteExpr_closed hP hSettings) :) hP.skip) :)

theorem AlterTableDropIndex_FormatSQL_closed (hP : BaseClosed P) (IfExists : Bool)
    {IndexName : Render} (hIndexName : P IndexName) :
    P (AlterTableDropIndex.FormatSQL IndexName IfExists) :=
  (hP.seq (hP.seq (hP.writeString "DROP INDEX ") hIndexName :) (ite_closed (IfExists = true)
    (hP.writeString " IF EXISTS") hP.skip) :)

theorem AlterTableDropProjection_FormatSQL_closed (hP : BaseClosed P) (IfExists : Bool)
    {ProjectionName : Render} (hProjectionName : P ProjectionName) :
    P (AlterTableDropProjection.FormatSQL ProjectionName IfExists) :=
  (hP.seq (hP.seq (hP.writeString "DROP PROJECTION ") hProjectionName :) (ite_closed (IfExists =
    true) (hP.writeString " IF EXISTS") hP.skip) :)

theorem AlterTableFreezePartition_FormatSQL_closed (hP : BaseClosed P) {Partition : Option Render}
    (hPartition : OptClosed P Partition) : P (AlterTableFreezePartition.FormatSQL Partition) :=
  (hP.seq (hP.writeString "FREEZE") (ite_closed (Partition.isSome = true) (hP.seq (hP.writeByte
    whitespace) (Render_WriteExpr_closed hP hPartition) :) hP.skip) :)

theorem AlterTableMaterializeIndex_FormatSQL_closed (hP : BaseClosed P) (IfExists : Bool)
    {IndexName : Render} {Partition : Option Render} (hIndexName : P IndexName)
    (hPartition : OptClosed P Partition) :
    P (AlterTableMaterializeIndex.FormatSQL IfExists IndexName Partition) :=
  (hP.seq (hP.seq (hP.seq (hP.seq (hP.writeString "MATERIALIZE INDEX") (ite_closed (IfExists = true)
    (hP.writeString " IF EXISTS") hP.skip) :) (hP.writeByte whitespace) :) hIndexName :) (ite_closed
    (Partition.isSome = true) (hP.seq (hP.writeString " IN ") (Render_WriteExpr_closed hP
    hPartition) :) hP.skip) :)

theorem AlterTableMaterializeProjection_FormatSQL_closed (hP : BaseClosed P) (IfExists : Bool)
    {ProjectionName : Render} {Partition : Option Render} (hProjectionName : P ProjectionName)
    (hPartition : OptClosed P Partition) :
    P (AlterTableMaterializeProjection.FormatSQL IfExists ProjectionName Partition) :=
  (hP.seq (hP.seq (hP.seq (hP.seq (hP.writeString "MATERIALIZE PROJECTION") (ite_closed (IfExists =
    true) (hP.writeString " IF EXISTS") hP.skip) :) (hP.writeByte whitespace) :) hProjectionName :)
    (ite_closed (Partition.isSome = true) (hP.seq (hP.writeString " IN ") (Render_WriteExpr_closed
    hP hPartition) :) hP.skip) :)

theorem AlterTableModifyColumn_FormatSQL_closed (hP : BaseClosed P) (IfExists : Bool)
    {Column : Render} {RemovePropertyType : Option Render} (hColumn : P Column)
    (hRemovePropertyType : OptClosed P RemovePropertyType) :
    P (AlterTableModifyColumn.FormatSQL IfExists Column RemovePropertyType) :=
  (hP.seq (hP.seq (hP.seq (hP.writeString "MODIFY COLUMN ") (ite_closed (IfExists = true)
    (hP.writeString "IF EXISTS ") hP.skip) :) hColumn :) (ite_closed (RemovePropertyType.isSome =
    true) (Render_WriteExpr_closed hP hRemovePropertyType) hP.skip) :)

theorem AlterTableModifyQuery_FormatSQL_closed (hP : BaseClosed P) {SelectExpr : Render}
    (hSelectExpr : P SelectExpr) : P (AlterTableModifyQuery.FormatSQL SelectExpr) :=
  (hP.seq (hP.writeString "MODIFY QUERY ") hSelectExpr :)

theorem AlterTableModifySetting_FormatSQL_closed (hP : BaseClosed P) {Settings : List Render}
    (hSettings : ListClosed P Settings) : P (AlterTableModifySetting.FormatSQL Settings) :=
  (hP.seq (hP.writeString "MODIFY SETTING ") (Render_forEach_closed hP Settings (fun i setting
    hmem_setting => (hP.seq (ite_closed (i > 0) (hP.writeString ", ") hP.skip) (hSettings setting
    hmem_setting) :)) 0) :)

theorem AlterTableModifyTTL_FormatSQL_closed (hP : BaseClosed P) {TTL : Render} (hTTL : P TTL) :
    P (AlterTableModifyTTL.FormatSQL TTL) :=
  (hP.seq (hP.writeString "MODIFY ") hTTL :)

theorem AlterTableRemoveTTL_FormatSQL_closed (hP : BaseClosed P) :
    P (AlterTableRemoveTTL.FormatSQL) :=
  (hP.writeString "REMOVE TTL")

theorem AlterTableRenameColumn_FormatSQL_closed (hP : BaseClosed P) (IfExists : Bool)
    {OldColumnName : Render} {NewColumnName : Render} (hOldColumnName : P OldColumnName)
    (hNewColumnName : P NewColumnName) :
    P (AlterTableRenameColumn.FormatSQL IfExists OldColumnName NewColumnName) :=
  (hP.seq (hP.seq (hP.seq (hP.seq (hP.writeString "RENAME COLUMN ") (ite_closed (IfExists = true)
    (hP.writeString "IF EXISTS ") hP.skip) :) hOldColumnName :) (hP.writeString " TO ") :)
    hNewColumnName :)

theorem AlterTableReplacePartition_FormatSQL_closed (hP : BaseClosed P) {Partition : Render}
    {Table : Render} (hPartition : P Partition) (hTable : P Table) :
    P (AlterTableReplacePartition.FormatSQL Partition Table) :=
  (hP.seq (hP.seq (hP.seq (hP.writeString "REPLACE ") hPartition :) (hP.writeString " FROM ") :)
    hTable :)

theorem AlterTableResetSetting_FormatSQL_closed (hP : BaseClosed P) {Settings : List Render}
    (hSettings : ListClosed P Settings) : P (AlterTableResetSetting.FormatSQL Settings) :=
  (hP.seq (hP.writeString "RESET SETTING ") (Render_forEach_closed hP Settings (fun i setting
    hmem_setting => (hP.seq (ite_closed (i > 0) (hP.writeString ", ") hP.skip) (hSettings setting
    hmem_setting) :)) 0) :)

theorem AlterTableUpdate_FormatSQL_closed (hP : BaseClosed P) {Assignments : List Render}
    {InPartition : Option Render} {WhereClause : Option Render}
    (hAssignments : ListClosed P Assignments) (hInPartition : OptClosed P InPartition)
    (hWhereClause : OptClosed P WhereClause) :
    P (AlterTableUpdate.FormatSQL Assignments InPartition WhereClause) :=
  (hP.seq (hP.seq (hP.seq (hP.seq (hP.writeString "UPDATE ") (Render_forEach_closed hP Assignments
    (fun i assignment hmem_assignment => (hP.seq (ite_closed (i > 0) (hP.writeString ", ") hP.skip)
    (hAssignments assignment hmem_assignment) :)) 0) :) (ite_closed (InPartition.isSome = true)
    (hP.seq (hP.writeString " IN ") (Render_WriteExpr_closed hP hInPartition) :) hP.skip) :)
    (hP.writeString " WHERE ") :) (Render_WriteExpr_closed hP hWhereClause) :)

theorem ArrayParamList_FormatSQL_closed (hP : BaseClosed P) {ItemsItems : List Render}
    (hItemsItems : ListClosed P ItemsItems) : P (ArrayParamList.FormatSQL ItemsItems) :=
  (hP.seq (hP.seq (hP.writeString "[") (Render_forEach_closed hP ItemsItems (fun i item hmem_item =>
    (hP.seq (ite_closed (i > 0) (hP.writeString ", ") hP.skip) (hItemsItems item hmem_item) :)) 0)
    :) (hP.writeString "]") :)

theorem AuthenticationClause_FormatSQL_closed (hP : BaseClosed P) (NotIdentified : Bool)
    (AuthType KerberosRealmLiteral : String) (IsKerberos : Bool) {AuthValue : Option Render}
    {LdapServer : Option Render} {KerberosRealm : Option Render}
    (hAuthValue : OptClosed P AuthValue) (hLdapServer : OptClosed P LdapServer)
    (hKerberosRealm : OptClosed P KerberosRealm) :
    P (AuthenticationClause.FormatSQL NotIdentified AuthType AuthValue LdapServer KerberosRealm
      KerberosRealmLiteral IsKerberos) :=
  (ite_closed (NotIdentified = true) (hP.writeString "NOT IDENTIFIED") (hP.seq (hP.seq (hP.seq
    (hP.seq (hP.writeString "IDENTIFIED") (ite_closed (AuthType ≠ "") (hP.seq (hP.writeString
    " WITH ") (hP.writeString AuthType) :) hP.skip) :) (ite_closed (AuthValue.isSome = true) (hP.seq
    (hP.writeString " BY ") (Render_WriteExpr_closed hP hAuthValue) :) hP.skip) :) (ite_closed
    (LdapServer.isSome = true) (hP.seq (hP.writeString " WITH ldap SERVER ")
    (Render_WriteExpr_closed hP hLdapServer) :) hP.skip) :) (ite_closed (IsKerberos = true) (hP.seq
    (hP.writeString " WITH kerberos") (ite_closed (KerberosRealm.isSome = true ∧
    KerberosRealmLiteral ≠ "") (hP.seq (hP.writeString " REALM ") (Render_WriteExpr_closed hP
    hKerberosRealm) :) hP.skip) :) hP.skip) :))

theorem BetweenClause_FormatSQL_closed (hP : BaseClosed P) {expr : Option Render}
    {Between : Option Render} {And : Option Render} (hexpr : OptClosed P expr)
    (hBetween : OptClosed P Between) (hAnd : OptClosed P And) :
    P (BetweenClause.FormatSQL expr Between And) :=
  (hP.seq (hP.seq (hP.seq (ite_closed (expr.isSome = true) (hP.seq (Render_WriteExpr_closed hP
    hexpr) (hP.writeString " BETWEEN ") :) (hP.writeString "BETWEEN ")) (Render_WriteExpr_closed hP
    hBetween) :) (hP.writeString " AND ") :) (Render_WriteExpr_closed hP hAnd) :)

theorem BoolLiteral_FormatSQL_closed (hP : BaseClosed P) (Literal : String) :
    P (BoolLiteral.FormatSQL Literal) :=
  (hP.writeString Literal)

theorem CTEStmt_FormatSQL_closed (hP : BaseClosed P) (isSelect : Bool) {expr : Option Render}
    {Alias : Option Render} (hexpr : OptClosed P expr) (hAlias : OptClosed P Alias) :
    P (CTEStmt.FormatSQL expr Alias isSelect) :=
  (hP.seq (hP.seq (Render_WriteExpr_closed hP hexpr) (hP.writeString " AS ") :) (ite_closed
    (isSelect = true) (hP.seq (hP.seq (hP.writeByte '(') (Render_WriteExpr_closed hP hAlias) :)
    (hP.writeByte ')') :) (Render_WriteExpr_closed hP hAlias)) :)

theorem CastExpr_FormatSQL_closed (hP : BaseClosed P) (Separator : String) {expr : Option Render}
    {AsType : Option Render} (hexpr : OptClosed P expr) (hAsType : OptClosed P AsType) :
    P (CastExpr.FormatSQL expr Separator AsType) :=
  (hP.seq (hP.seq (hP.seq (hP.seq (hP.writeString "CAST(") (Render_WriteExpr_closed hP hexpr) :)
    (ite_closed (Separator = ",") (hP.writeString ", ") (hP.writeString " AS ")) :)
    (Render_WriteExpr_closed hP hAsType) :) (hP.writeByte ')') :)

theorem CheckStmt_FormatSQL_closed (hP : BaseClosed P) {Table : Render} {Partition : Option Render}
    (hTable : P Table) (hPartition : OptClosed P Partition) :
    P (CheckStmt.FormatSQL Table Partition) :=
  (hP.seq (hP.seq (hP.writeString "CHECK TABLE ") hTable :) (ite_closed (Partition.isSome = true)
    (hP.seq (hP.writeByte whitespace) (Render_WriteExpr_closed hP hPartition) :) hP.skip) :)

theorem ColumnArgList_FormatSQL_closed (hP : BaseClosed P) {Items : List Render}
    (hItems : ListClosed P Items) : P (ColumnArgList.FormatSQL Items) :=
  (hP.seq (hP.seq (hP.writeByte '(') (Render_forEach_closed hP Items (fun i item hmem_item =>
    (hP.seq (ite_closed (i > 0) (hP.writeString ", ") hP.skip) (hItems item hmem_item) :)) 0) :)
    (hP.writeByte ')') :)

theorem ColumnExprList_FormatSQL_closed (hP : BaseClosed P) (HasDistinct : Bool)
    {Items : List Render} (hItems : ListClosed P Items) :
    P (ColumnExprList.FormatSQL HasDistinct Items) :=
  (hP.seq (ite_closed (HasDistinct = true) (hP.writeString "DISTINCT ") hP.skip)
    (Render_forEach_closed hP Items (fun i item hmem_item => (hP.seq (hItems item hmem_item)
    (ite_closed (i ≠ Items.length - 1) (hP.writeString ", ") hP.skip) :)) 0) :)

theorem ColumnNamesExpr_FormatSQL_closed (hP : BaseClosed P) {ColumnNames : List Render}
    (hColumnNames : ListClosed P ColumnNames) : P (ColumnNamesExpr.FormatSQL ColumnNames) :=
  (hP.seq (hP.seq (hP.writeByte '(') (Render_forEach_closed hP ColumnNames (fun i column hmem_column
    => (hP.seq (ite_closed (i > 0) (hP.writeString ", ") hP.skip) (hColumnNames column hmem_column)
    :)) 0) :) (hP.writeByte ')') :)

theorem ColumnTypeExpr_FormatSQL_closed {Name : Render} (hName : P Name) :
    P (ColumnTypeExpr.FormatSQL Name) :=
  hName

theorem CompressionCodec_FormatSQL_closed (hP : BaseClosed P) {type : Option Render}
    {TypeLevel : Option Render} {Name : Option Render} {Level : Option Render}
    (htype : OptClosed P type) (hTypeLevel : OptClosed P TypeLevel) (hName : OptClosed P Name)
    (hLevel : OptClosed P Level) : P (CompressionCodec.FormatSQL type TypeLevel Name Level) :=
  (hP.seq (hP.seq (hP.seq (hP.writeString "CODEC(") (ite_closed (type.isSome = true) (hP.seq (hP.seq
    (hP.seq (Render_WriteExpr_closed hP htype) (ite_closed (TypeLevel.isSome = true) (hP.seq (hP.seq
    (hP.writeByte '(') (Render_WriteExpr_closed hP hTypeLevel) :) (hP.writeByte ')') :) hP.skip) :)
    (hP.writeByte ',') :) (hP.writeByte whitespace) :) hP.skip) :) (ite_closed (Name.isSome = true)
    (hP.seq (Render_WriteExpr_closed hP hName) (ite_closed (Level.isSome = true) (hP.seq (hP.seq
    (hP.writeByte '(') (Render_WriteExpr_closed hP hLevel) :) (hP.writeByte ')') :) hP.skip) :)
    hP.skip) :) (hP.writeByte ')') :)

theorem ConstraintClause_FormatSQL_closed (hP : BaseClosed P) {Constraint : Render}
    {expr : Option Render} (hConstraint : P Constraint) (hexpr : OptClosed P expr) :
    P (ConstraintClause.FormatSQL Constraint expr) :=
  (hP.seq (hP.seq hConstraint (hP.writeByte whitespace) :) (Render_WriteExpr_closed hP hexpr) :)

theorem CreateDictionary_FormatSQL_closed (hP : BaseClosed P) (OrReplace IfNotExists : Bool)
    {Name : Render} {UUID : Option Render} {OnCluster : Option Render} {Schema : Option Render}
    {Engine : Option Render} {Comment : Option Render} (hName : P Name) (hUUID : OptClosed P UUID)
    (hOnCluster : OptClosed P OnCluster) (hSchema : OptClosed P Schema)
    (hEngine : OptClosed P Engine) (hComment : OptClosed P Comment) :
    P (CreateDictionary.FormatSQL OrReplace Name IfNotExists UUID OnCluster Schema Engine Comment)
      :=
  (hP.seq (hP.seq (hP.seq (hP.seq (hP.seq (hP.seq (hP.seq (hP.seq (hP.seq (hP.writeString "CREATE ")
    (ite_closed (OrReplace = true) (hP.writeString "OR REPLACE ") hP.skip) :) (hP.writeString
    "DICTIONARY ") :) (ite_closed (IfNotExists = true) (hP.writeString "IF NOT EXISTS ") hP.skip) :)
    hName :) (ite_closed (UUID.isSome = true) (hP.seq hP.brk (Render_WriteExpr_closed hP hUUID) :)
    hP.skip) :) (ite_closed (OnCluster.isSome = true) (hP.seq hP.brk (Render_WriteExpr_closed hP
    hOnCluster) :) hP.skip) :) (ite_closed (Schema.isSome = true) (hP.seq hP.brk
    (Render_WriteExpr_closed hP hSchema) :) hP.skip) :) (ite_closed (Engine.isSome = true) (hP.seq
    hP.brk (Render_WriteExpr_closed hP hEngine) :) hP.skip) :) (ite_closed (Comment.isSome = true)
    (hP.seq (hP.seq hP.brk (hP.writeString "COMMENT ") :) (Render_WriteExpr_closed hP hComment) :)
    hP.skip) :)

theorem CreateFunction_FormatSQL_closed (hP : BaseClosed P) (OrReplace IfNotExists : Bool)
    {FunctionName : Render} {OnCluster : Option Render} {Params : Render} {expr : Option Render}
    (hFunctionName : P FunctionName) (hOnCluster : OptClosed P OnCluster) (hParams : P Params)
    (hexpr : OptClosed P expr) :
    P (CreateFunction.FormatSQL OrReplace IfNotExists FunctionName OnCluster Params expr) :=
  (hP.seq (hP.seq (hP.seq (hP.seq (hP.seq (hP.seq (hP.seq (hP.seq (hP.seq (hP.writeString "CREATE")
    (ite_closed (OrReplace = true) (hP.writeString " OR REPLACE") hP.skip) :) (hP.writeString
    " FUNCTION ") :) (ite_closed (IfNotExists = true) (hP.writeString "IF NOT EXISTS ") hP.skip) :)
    hFunctionName :) (ite_closed (OnCluster.isSome = true) (hP.seq (hP.writeByte whitespace)
    (Render_WriteExpr_closed hP hOnCluster) :) hP.skip) :) (hP.writeString " AS ") :) hParams :)
    (hP.writeString " -> ") :) (Render_WriteExpr_closed hP hexpr) :)

theorem CreateLiveView_FormatSQL_closed (hP : BaseClosed P) (IfNotExists : Bool) {Name : Render}
    {OnCluster : Option Render} {Destination : Option Render} {TableSchema : Option Render}
    {WithTimeout : Option Render} {SubQuery : Option Render} (hName : P Name)
    (hOnCluster : OptClosed P OnCluster) (hDestination : OptClosed P Destination)
    (hTableSchema : OptClosed P TableSchema) (hWithTimeout : OptClosed P WithTimeout)
    (hSubQuery : OptClosed P SubQuery) :
    P (CreateLiveView.FormatSQL Name IfNotExists OnCluster Destination TableSchema WithTimeout
      SubQuery) :=
  (hP.seq (hP.seq (hP.seq (hP.seq (hP.seq (hP.seq (hP.seq (hP.writeString "CREATE LIVE VIEW ")
    (ite_closed (IfNotExists = true) (hP.writeString "IF NOT EXISTS ") hP.skip) :) hName :)
    (ite_closed (OnCluster.isSome = true) (hP.seq (hP.writeByte whitespace) (Render_WriteExpr_closed
    hP hOnCluster) :) hP.skip) :) (ite_closed (WithTimeout.isSome = true) (hP.seq (hP.writeByte
    whitespace) (Render_WriteExpr_closed hP hWithTimeout) :) hP.skip) :) (ite_closed
    (Destination.isSome = true) (hP.seq (hP.writeByte whitespace) (Render_WriteExpr_closed hP
    hDestination) :) hP.skip) :) (ite_closed (TableSchema.isSome = true) (hP.seq (hP.writeByte
    whitespace) (Render_WriteExpr_closed hP hTableSchema) :) hP.skip) :) (ite_closed
    (SubQuery.isSome = true) (hP.seq (hP.writeString " AS ") (Render_WriteExpr_closed hP hSubQuery)
    :) hP.skip) :)

theorem CreateMaterializedView_FormatSQL_closed (hP : BaseClosed P)
    (IfNotExists DependsOnSet HasAppend HasEmpty Populate : Bool) (SQLSecurity : String)
    {Name : Render} {OnCluster : Option Render} {Refresh : Option Render}
    {RandomizeFor : Option Render} {DependsOn : List Render} {Settings : Option Render}
    {Engine : Option Render} {Destination : Option Render} {DestinationTableSchema : Option Render}
    {SubQuery : Option Render} {Comment : Option Render} {Definer : Option Render} (hName : P Name)
    (hOnCluster : OptClosed P OnCluster) (hRefresh : OptClosed P Refresh)
    (hRandomizeFor : OptClosed P RandomizeFor) (hDependsOn : ListClosed P DependsOn)
    (hSettings : OptClosed P Settings) (hEngine : OptClosed P Engine)
    (hDestination : OptClosed P Destination)
    (hDestinationTableSchema : OptClosed P DestinationTableSchema)
    (hSubQuery : OptClosed P SubQuery) (hComment : OptClosed P Comment)
    (hDefiner : OptClosed P Definer) :
    P (CreateMaterializedView.FormatSQL Name IfNotExists OnCluster Refresh RandomizeFor DependsOnSet
      DependsOn Settings HasAppend Engine HasEmpty Destination DestinationTableSchema SubQuery
      Populate Comment Definer SQLSecurity) :=
  (hP.seq (hP.seq (hP.seq (hP.seq (hP.seq (hP.seq (hP.seq (hP.seq (hP.seq (hP.seq (hP.seq (hP.seq
    (hP.seq (hP.seq (hP.seq (hP.seq (hP.writeString "CREATE MATERIALIZED VIEW ") (ite_closed
    (IfNotExists = true) (hP.writeString "IF NOT EXISTS ") hP.skip) :) hName :) (ite_closed
    (OnCluster.isSome = true) (hP.seq hP.brk (Render_WriteExpr_closed hP hOnCluster) :) hP.skip) :)
    (ite_closed (Refresh.isSome = true) (hP.seq hP.brk (Render_WriteExpr_closed hP hRefresh) :)
    hP.skip) :) (ite_closed (RandomizeFor.isSome = true) (hP.seq (hP.seq hP.brk (hP.writeString
    "RANDOMIZE FOR ") :) (Render_WriteExpr_closed hP hRandomizeFor) :) hP.skip) :) (ite_closed
    (DependsOnSet = true) (hP.seq (hP.seq hP.brk (hP.writeString "DEPENDS ON ") :)
    (Render_forEach_closed hP DependsOn (fun i dep hmem_dep => (hP.seq (ite_closed (i > 0)
    (hP.writeString ", ") hP.skip) (hDependsOn dep hmem_dep) :)) 0) :) hP.skip) :) (ite_closed
    (Settings.isSome = true) (hP.seq hP.brk (Render_WriteExpr_closed hP hSettings) :) hP.skip) :)
    (ite_closed (HasAppend = true) (hP.seq hP.brk (hP.writeString "APPEND") :) hP.skip) :)
    (ite_closed (Engine.isSome = true) (hP.seq hP.brk (Render_WriteExpr_closed hP hEngine) :)
    hP.skip) :) (ite_closed (Destination.isSome = true) (hP.seq (hP.seq hP.brk
    (Render_WriteExpr_closed hP hDestination) :) (ite_closed (DestinationTableSchema.isSome = true)
    (hP.seq hP.brk (Render_WriteExpr_closed hP hDestinationTableSchema) :) hP.skip) :) hP.skip) :)
    (ite_closed (HasEmpty = true) (hP.seq hP.brk (hP.writeString "EMPTY") :) hP.skip) :) (ite_closed
    (Definer.isSome = true) (hP.seq (hP.seq hP.brk (hP.writeString "DEFINER = ") :)
    (Render_WriteExpr_closed hP hDefiner) :) hP.skip) :) (ite_closed (SQLSecurity ≠ "") (hP.seq
    (hP.seq hP.brk (hP.writeString "SQL SECURITY ") :) (hP.writeString SQLSecurity) :) hP.skip) :)
    (ite_closed (Populate = true) (hP.seq hP.brk (hP.writeString "POPULATE") :) hP.skip) :)
    (ite_closed (SubQuery.isSome = true) (hP.seq (hP.seq hP.brk (hP.writeString "AS") :)
    (hP.indented (hP.seq hP.brk (Render_WriteExpr_closed hP hSubQuery) :)) :) hP.skip) :)
    (ite_closed (Comment.isSome = true) (hP.seq (hP.seq hP.brk (hP.writeString "COMMENT ") :)
    (Render_WriteExpr_closed hP hComment) :) hP.skip) :)

theorem CreateNamedCollection_FormatSQL_closed (hP : BaseClosed P) (IfNotExists : Bool)
    {Name : Render} {OnCluster : Option Render} {Params : List Render} (hName : P Name)
    (hOnCluster : OptClosed P OnCluster) (hParams : ListClosed P Params) :
    P (CreateNamedCollection.FormatSQL Name IfNotExists OnCluster Params) :=
  (hP.seq (hP.seq (hP.seq (hP.seq (hP.seq (hP.writeString "CREATE NAMED COLLECTION ") (ite_closed
    (IfNotExists = true) (hP.writeString "IF NOT EXISTS ") hP.skip) :) hName :) (ite_closed
    (OnCluster.isSome = true) (hP.seq (hP.writeByte whitespace) (Render_WriteExpr_closed hP
    hOnCluster) :) hP.skip) :) (hP.writeString " AS ") :) (Render_forEach_closed hP Params (fun i
    param hmem_param => (hP.seq (ite_closed (i > 0) (hP.writeString ", ") hP.skip) (hParams param
    hmem_param) :)) 0) :)

theorem CreateRole_FormatSQL_closed (hP : BaseClosed P) (IfNotExists OrReplace : Bool)
    {RoleNames : List Render} {AccessStorageType : Option Render} {Settings : List Render}
    (hRoleNames : ListClosed P RoleNames) (hAccessStorageType : OptClosed P AccessStorageType)
    (hSettings : ListClosed P Settings) :
    P (CreateRole.FormatSQL IfNotExists OrReplace RoleNames AccessStorageType Settings) :=
  (hP.seq (hP.seq (hP.seq (hP.seq (hP.seq (hP.writeString "CREATE ROLE ") (ite_closed (IfNotExists =
    true) (hP.writeString "IF NOT EXISTS ") hP.skip) :) (ite_closed (OrReplace = true)
    (hP.writeString "OR REPLACE ") hP.skip) :) (Render_forEach_closed hP RoleNames (fun i roleName
    hmem_roleName => (hP.seq (ite_closed (i > 0) (hP.writeString ", ") hP.skip) (hRoleNames roleName
    hmem_roleName) :)) 0) :) (ite_closed (AccessStorageType.isSome = true) (hP.seq (hP.writeString
    " IN ") (Render_WriteExpr_closed hP hAccessStorageType) :) hP.skip) :) (ite_closed
    (Settings.length > 0) (hP.seq (hP.writeString " SETTINGS ") (Render_forEach_closed hP Settings
    (fun i setting hmem_setting => (hP.seq (ite_closed (i > 0) (hP.writeString ", ") hP.skip)
    (hSettings setting hmem_setting) :)) 0) :) hP.skip) :)

theorem CreateTable_FormatSQL_closed (hP : BaseClosed P) (OrReplace IfNotExists HasTemporary : Bool)
    {Name : Render} {UUID : Option Render} {OnCluster : Option Render} {TableSchema : Option Render}
    {Engine : Option Render} {SubQuery : Option Render} {TableFunction : Option Render}
    {Comment : Option Render} (hName : P Name) (hUUID : OptClosed P UUID)
    (hOnCluster : OptClosed P OnCluster) (hTableSchema : OptClosed P TableSchema)
    (hEngine : OptClosed P Engine) (hSubQuery : OptClosed P SubQuery)
    (hTableFunction : OptClosed P TableFunction) (hComment : OptClosed P Comment) :
    P (CreateTable.FormatSQL OrReplace Name IfNotExists UUID OnCluster TableSchema Engine SubQuery
      TableFunction HasTemporary Comment) :=
  (hP.seq (hP.seq (hP.seq (hP.seq (hP.seq (hP.seq (hP.seq (hP.seq (hP.seq (hP.seq (hP.seq (hP.seq
    (hP.writeString "CREATE") (ite_closed (OrReplace = true) (hP.writeString " OR REPLACE") hP.skip)
    :) (ite_closed (HasTemporary = true) (hP.writeString " TEMPORARY") hP.skip) :) (hP.writeString
    " TABLE ") :) (ite_closed (IfNotExists = true) (hP.writeString "IF NOT EXISTS ") hP.skip) :)
    hName :) (ite_closed (UUID.isSome = true) (hP.seq (hP.writeByte whitespace)
    (Render_WriteExpr_closed hP hUUID) :) hP.skip) :) (ite_closed (OnCluster.isSome = true) (hP.seq
    (hP.writeByte whitespace) (Render_WriteExpr_closed hP hOnCluster) :) hP.skip) :) (ite_closed
    (TableSchema.isSome = true) (hP.seq hP.brk (Render_WriteExpr_closed hP hTableSchema) :) hP.skip)
    :) (ite_closed (Engine.isSome = true) (hP.seq hP.brk (Render_WriteExpr_closed hP hEngine) :)
    hP.skip) :) (ite_closed (SubQuery.isSome = true) (hP.seq (hP.seq hP.brk (hP.writeString "AS ")
    :) (Render_WriteExpr_closed hP hSubQuery) :) hP.skip) :) (ite_closed (TableFunction.isSome =
    true) (hP.seq (hP.seq hP.brk (hP.writeString "AS ") :) (Render_WriteExpr_closed hP
    hTableFunction) :) hP.skip) :) (ite_closed (Comment.isSome = true) (hP.seq (hP.seq hP.brk
    (hP.writeString "COMMENT ") :) (Render_WriteExpr_closed hP hComment) :) hP.skip) :)

theorem CreateUser_FormatSQL_closed (hP : BaseClosed P) (IfNotExists OrReplace DefaultDbNone : Bool)
    {UserNames : List Render} {Authentication : Option Render} {Hosts : List Render}
    {DefaultRole : Option Render} {DefaultDatabase : Option Render} {Grantees : Option Render}
    {Settings : List Render} (hUserNames : ListClosed P UserNames)
    (hAuthentication : OptClosed P Authentication) (hHosts : ListClosed P Hosts)
    (hDefaultRole : OptClosed P DefaultRole) (hDefaultDatabase : OptClosed P DefaultDatabase)
    (hGrantees : OptClosed P Grantees) (hSettings : ListClosed P Settings) :
    P (CreateUser.FormatSQL IfNotExists OrReplace UserNames Authentication Hosts DefaultRole
      DefaultDatabase DefaultDbNone Grantees Settings) :=
  (hP.seq (hP.seq (hP.seq (hP.seq (hP.seq (hP.seq (hP.seq (hP.seq (hP.seq (hP.writeString
    "CREATE USER ") (ite_closed (IfNotExists = true) (hP.writeString "IF NOT EXISTS ") hP.skip) :)
    (ite_closed (OrReplace = true) (hP.writeString "OR REPLACE ") hP.skip) :) (Render_forEach_closed
    hP UserNames (fun i userName hmem_userName => (hP.seq (ite_closed (i > 0) (hP.writeString ", ")
    hP.skip) (hUserNames userName hmem_userName) :)) 0) :) (ite_closed (Authentication.isSome =
    true) (hP.seq hP.brk (Render_WriteExpr_closed hP hAuthentication) :) hP.skip) :) (ite_closed
    (Hosts.length > 0) (hP.seq hP.brk (Render_forEach_closed hP Hosts (fun i host hmem_host =>
    (hP.seq (ite_closed (i > 0) (hP.writeString ", ") hP.skip) (hHosts host hmem_host) :)) 0) :)
    hP.skip) :) (ite_closed (DefaultRole.isSome = true) (hP.seq hP.brk (Render_WriteExpr_closed hP
    hDefaultRole) :) hP.skip) :) (ite_closed (DefaultDatabase.isSome = true) (hP.seq (hP.seq hP.brk
    (hP.writeString "DEFAULT DATABASE ") :) (Render_WriteExpr_closed hP hDefaultDatabase) :)
    (ite_closed (DefaultDbNone = true) (hP.seq hP.brk (hP.writeString "DEFAULT DATABASE NONE") :)
    hP.skip)) :) (ite_closed (Grantees.isSome = true) (hP.seq hP.brk (Render_WriteExpr_closed hP
    hGrantees) :) hP.skip) :) (ite_closed (Settings.length > 0) (hP.seq (hP.seq hP.brk
    (hP.writeString "SETTINGS") :) (hP.indented (Render_forEach_closed hP Settings (fun i setting
    hmem_setting => (hP.seq (hP.seq hP.brk (hSettings setting hmem_setting) :) (ite_closed (i <
    Settings.length - 1) (hP.writeString ",") hP.skip) :)) 0)) :) hP.skip) :)

theorem CreateView_FormatSQL_closed (hP : BaseClosed P) (OrReplace IfNotExists : Bool)
    {Name : Render} {UUID : Option Render} {OnCluster : Option Render} {TableSchema : Option Render}
    {SubQuery : Option Render} (hName : P Name) (hUUID : OptClosed P UUID)
    (hOnCluster : OptClosed P OnCluster) (hTableSchema : OptClosed P TableSchema)
    (hSubQuery : OptClosed P SubQuery) :
    P (CreateView.FormatSQL OrReplace Name IfNotExists UUID OnCluster TableSchema SubQuery) :=
  (hP.seq (hP.seq (hP.seq (hP.seq (hP.seq (hP.seq (hP.seq (hP.seq (hP.writeString "CREATE")
    (ite_closed (OrReplace = true) (hP.writeString " OR REPLACE") hP.skip) :) (hP.writeString
    " VIEW ") :) (ite_closed (IfNotExists = true) (hP.writeString "IF NOT EXISTS ") hP.skip) :)
    hName :) (ite_closed (UUID.isSome = true) (hP.seq (hP.writeByte whitespace)
    (Render_WriteExpr_closed hP hUUID) :) hP.skip) :) (ite_closed (OnCluster.isSome = true) (hP.seq
    (hP.writeByte whitespace) (Render_WriteExpr_closed hP hOnCluster) :) hP.skip) :) (ite_closed
    (TableSchema.isSome = true) (hP.seq (hP.writeByte whitespace) (Render_WriteExpr_closed hP
    hTableSchema) :) hP.skip) :) (ite_closed (SubQuery.isSome = true) (hP.seq (hP.writeString
    " AS ") (Render_WriteExpr_closed hP hSubQuery) :) hP.skip) :)

theorem DeduplicateClause_FormatSQL_closed (hP : BaseClosed P) {By : Option Render}
    {Except : Option Render} (hBy : OptClosed P By) (hExcept : OptClosed P Except) :
    P (DeduplicateClause.FormatSQL By Except) :=
  (hP.seq (hP.seq (hP.writeString " DEDUPLICATE") (ite_closed (By.isSome = true) (hP.seq
    (hP.writeString " BY ") (Render_WriteExpr_closed hP hBy) :) hP.skip) :) (ite_closed
    (Except.isSome = true) (hP.seq (hP.writeString " EXCEPT ") (Render_WriteExpr_closed hP hExcept)
    :) hP.skip) :)

theorem DefaultRoleClause_FormatSQL_closed (hP : BaseClosed P) (None : Bool) {Roles : List Render}
    (hRoles : ListClosed P Roles) : P (DefaultRoleClause.FormatSQL Roles None) :=
  (hP.seq (hP.writeString "DEFAULT ROLE ") (ite_closed (None = true) (hP.writeString "NONE")
    (Render_forEach_closed hP Roles (fun i role hmem_role => (hP.seq (ite_closed (i > 0)
    (hP.writeString ", ") hP.skip) (hRoles role hmem_role) :)) 0)) :)

theorem DeleteClause_FormatSQL_closed (hP : BaseClosed P) {Table : Render}
    {OnCluster : Option Render} {WhereExpr : Option Render} (hTable : P Table)
    (hOnCluster : OptClosed P OnCluster) (hWhereExpr : OptClosed P WhereExpr) :
    P (DeleteClause.FormatSQL Table OnCluster WhereExpr) :=
  (hP.seq (hP.seq (hP.seq (hP.writeString "DELETE FROM ") hTable :) (ite_closed (OnCluster.isSome =
    true) (hP.seq (hP.writeByte whitespace) (Render_WriteExpr_closed hP hOnCluster) :) hP.skip) :)
    (ite_closed (WhereExpr.isSome = true) (hP.seq (hP.writeString " WHERE ")
    (Render_WriteExpr_closed hP hWhereExpr) :) hP.skip) :)

theorem DescribeStmt_FormatSQL_closed (hP : BaseClosed P) (DescribeType : String) {Target : Render}
    (hTarget : P Target) : P (DescribeStmt.FormatSQL DescribeType Target) :=
  (hP.seq (hP.seq (hP.writeString "DESCRIBE ") (ite_closed (DescribeType ≠ "") (hP.seq
    (hP.writeString DescribeType) (hP.writeByte whitespace) :) hP.skip) :) hTarget :)

theorem DestinationClause_FormatSQL_closed (hP : BaseClosed P) {TableIdentifier : Render}
    (hTableIdentifier : P TableIdentifier) : P (DestinationClause.FormatSQL TableIdentifier) :=
  (hP.seq (hP.writeString "TO ") hTableIdentifier :)

theorem DictionaryArgExpr_FormatSQL_closed (hP : BaseClosed P) {Name : Render}
    {Value : Option Render} (hName : P Name) (hValue : OptClosed P Value) :
    P (DictionaryArgExpr.FormatSQL Name Value) :=
  (hP.seq (hP.seq hName (hP.writeByte whitespace) :) (Render_WriteExpr_closed hP hValue) :)

theorem DictionaryEngineClause_FormatSQL_closed (hP : BaseClosed P) {PrimaryKey : Option Render}
    {Source : Option Render} {Lifetime : Option Render} {Layout : Option Render}
    {Range : Option Render} {Settings : Option Render} {SettingsItems : List Render}
    (hPrimaryKey : OptClosed P PrimaryKey) (hSource : OptClosed P Source)
    (hLifetime : OptClosed P Lifetime) (hLayout : OptClosed P Layout) (hRange : OptClosed P Range)
    (hSettingsItems : ListClosed P SettingsItems) :
    P (DictionaryEngineClause.FormatSQL PrimaryKey Source Lifetime Layout Range Settings
      SettingsItems) :=
  (hP.seq (hP.seq (hP.seq (hP.seq (hP.seq (ite_closed (PrimaryKey.isSome = true)
    (Render_WriteExpr_closed hP hPrimaryKey) hP.skip) (ite_closed (Source.isSome = true) (hP.seq
    (ite_closed (PrimaryKey.isSome = true) hP.brk hP.skip) (Render_WriteExpr_closed hP hSource) :)
    hP.skip) :) (ite_closed (Lifetime.isSome = true) (hP.seq (ite_closed (PrimaryKey.isSome = true ∨
    Source.isSome = true) hP.brk hP.skip) (Render_WriteExpr_closed hP hLifetime) :) hP.skip) :)
    (ite_closed (Layout.isSome = true) (hP.seq (ite_closed (PrimaryKey.isSome = true ∨ Source.isSome
    = true ∨ Lifetime.isSome = true) hP.brk hP.skip) (Render_WriteExpr_closed hP hLayout) :)
    hP.skip) :) (ite_closed (Range.isSome = true) (hP.seq (ite_closed (PrimaryKey.isSome = true ∨
    Source.isSome = true ∨ Lifetime.isSome = true ∨ Layout.isSome = true) hP.brk hP.skip)
    (Render_WriteExpr_closed hP hRange) :) hP.skip) :) (ite_closed (Settings.isSome = true) (hP.seq
    (hP.seq (hP.seq (ite_closed (PrimaryKey.isSome = true ∨ Source.isSome = true ∨ Lifetime.isSome =
    true ∨ Layout.isSome = true ∨ Range.isSome = true) hP.brk hP.skip) (hP.writeString "SETTINGS(")
    :) (Render_forEach_closed hP SettingsItems (fun i item hmem_item => (hP.seq (ite_closed (i > 0)
    (hP.writeString ", ") hP.skip) (hSettingsItems item hmem_item) :)) 0) :) (hP.writeString ")") :)
    hP.skip) :)

theorem DictionaryLayoutClause_FormatSQL_closed (hP : BaseClosed P) {Layout : Render}
    {Args : List Render} (hLayout : P Layout) (hArgs : ListClosed P Args) :
    P (DictionaryLayoutClause.FormatSQL Layout Args) :=
  (hP.seq (hP.seq (hP.seq (hP.seq (hP.writeString "LAYOUT(") hLayout :) (hP.writeString "(") :)
    (Render_forEach_closed hP Args (fun i arg hmem_arg => (hP.seq (ite_closed (i > 0) (hP.writeByte
    whitespace) hP.skip) (hArgs arg hmem_arg) :)) 0) :) (hP.writeString "))") :)

theorem DictionaryPrimaryKeyClause_FormatSQL_closed (hP : BaseClosed P) {Keys : Render}
    (hKeys : P Keys) : P (DictionaryPrimaryKeyClause.FormatSQL Keys) :=
  (hP.seq (hP.writeString "PRIMARY KEY ") hKeys :)

theorem DictionarySchemaClause_FormatSQL_closed (hP : BaseClosed P) {Attributes : List Render}
    (hAttributes : ListClosed P Attributes) : P (DictionarySchemaClause.FormatSQL Attributes) :=
  (hP.seq (hP.seq (hP.seq (hP.writeByte '(') (hP.indented (Render_forEach_closed hP Attributes (fun
    i attr hmem_attr => (hP.seq (ite_closed (i = 0) hP.newLine (hP.seq (hP.writeByte ',') hP.brk :))
    (hAttributes attr hmem_attr) :)) 0)) :) hP.newLine :) (hP.writeByte ')') :)

theorem DictionarySourceClause_FormatSQL_closed (hP : BaseClosed P) {Source : Render}
    {Args : List Render} (hSource : P Source) (hArgs : ListClosed P Args) :
    P (DictionarySourceClause.FormatSQL Source Args) :=
  (hP.seq (hP.seq (hP.seq (hP.seq (hP.writeString "SOURCE(") hSource :) (hP.writeString "(") :)
    (Render_forEach_closed hP Args (fun i arg hmem_arg => (hP.seq (ite_closed (i > 0) (hP.writeByte
    whitespace) hP.skip) (hArgs arg hmem_arg) :)) 0) :) (hP.writeString "))") :)

theorem DistinctOn_FormatSQL_closed (hP : BaseClosed P) {Idents : List Render}
    (hIdents : ListClosed P Idents) : P (DistinctOn.FormatSQL Idents) :=
  (hP.seq (hP.seq (hP.writeString "ON (") (Render_forEach_closed hP Idents (fun i ident hmem_ident
    => (hP.seq (ite_closed (i > 0) (hP.writeString ", ") hP.skip) (hIdents ident hmem_ident) :)) 0)
    :) (hP.writeByte ')') :)

theorem DropDatabase_FormatSQL_closed (hP : BaseClosed P) (IfExists : Bool) {Name : Render}
    {OnCluster : Option Render} (hName : P Name) (hOnCluster : OptClosed P OnCluster) :
    P (DropDatabase.FormatSQL Name IfExists OnCluster) :=
  (hP.seq (hP.seq (hP.seq (hP.writeString "DROP DATABASE ") (ite_closed (IfExists = true)
    (hP.writeString "IF EXISTS ") hP.skip) :) hName :) (ite_closed (OnCluster.isSome = true) (hP.seq
    (hP.writeByte whitespace) (Render_WriteExpr_closed hP hOnCluster) :) hP.skip) :)

theorem DropStmt_FormatSQL_closed (hP : BaseClosed P) (DropTarget : String)
    (IfExists IsTemporary : Bool) (Modifier : String) {Name : Render} {OnCluster : Option Render}
    (hName : P Name) (hOnCluster : OptClosed P OnCluster) :
    P (DropStmt.FormatSQL DropTarget Name IfExists OnCluster IsTemporary Modifier) :=
  (hP.seq (hP.seq (hP.seq (hP.seq (hP.seq (hP.seq (hP.writeString "DROP ") (ite_closed (IsTemporary
    = true) (hP.writeString "TEMPORARY ") hP.skip) :) (hP.writeString (DropTarget ++ " ")) :)
    (ite_closed (IfExists = true) (hP.writeString "IF EXISTS ") hP.skip) :) hName :) (ite_closed
    (OnCluster.isSome = true) (hP.seq (hP.writeByte whitespace) (Render_WriteExpr_closed hP
    hOnCluster) :) hP.skip) :) (ite_closed (Modifier.length ≠ 0) (hP.writeString (" " ++ Modifier))
    hP.skip) :)

theorem DropUserOrRole_FormatSQL_closed (hP : BaseClosed P) (Target : String) (IfExists : Bool)
    (Modifier : String) {Names : List Render} {From : Option Render} (hNames : ListClosed P Names)
    (hFrom : OptClosed P From) : P (DropUserOrRole.FormatSQL Target Names IfExists Modifier From) :=
  (hP.seq (hP.seq (hP.seq (hP.seq (hP.writeString ("DROP " ++ Target ++ " ")) (ite_closed (IfExists
    = true) (hP.writeString "IF EXISTS ") hP.skip) :) (Render_forEach_closed hP Names (fun i name
    hmem_name => (hP.seq (ite_closed (i > 0) (hP.writeString ", ") hP.skip) (hNames name hmem_name)
    :)) 0) :) (ite_closed (Modifier.length ≠ 0) (hP.writeString (" " ++ Modifier)) hP.skip) :)
    (ite_closed (From.isSome = true) (hP.seq (hP.writeString " FROM ") (Render_WriteExpr_closed hP
    hFrom) :) hP.skip) :)

theorem EngineExpr_FormatSQL_closed (hP : BaseClosed P) (Name : String) {Params : Option Render}
    {PrimaryKey : Option Render} {PartitionBy : Option Render} {SampleBy : Option Render}
    {TTL : Option Render} {Settings : Option Render} {OrderBy : Option Render}
    (hParams : OptClosed P Params) (hPrimaryKey : OptClosed P PrimaryKey)
    (hPartitionBy : OptClosed P PartitionBy) (hSampleBy : OptClosed P SampleBy)
    (hTTL : OptClosed P TTL) (hSettings : OptClosed P Settings) (hOrderBy : OptClosed P OrderBy) :
    P (EngineExpr.FormatSQL Name Params PrimaryKey PartitionBy SampleBy TTL Settings OrderBy) :=
  (hP.seq (hP.seq (hP.seq (hP.seq (hP.seq (hP.seq (hP.seq (hP.seq (hP.writeString "ENGINE = ")
    (hP.writeString Name) :) (ite_closed (Params.isSome = true) (Render_WriteExpr_closed hP hParams)
    hP.skip) :) (ite_closed (OrderBy.isSome = true) (hP.seq hP.brk (Render_WriteExpr_closed hP
    hOrderBy) :) hP.skip) :) (ite_closed (PartitionBy.isSome = true) (hP.seq hP.brk
    (Render_WriteExpr_closed hP hPartitionBy) :) hP.skip) :) (ite_closed (PrimaryKey.isSome = true)
    (hP.seq hP.brk (Render_WriteExpr_closed hP hPrimaryKey) :) hP.skip) :) (ite_closed
    (SampleBy.isSome = true) (hP.seq hP.brk (Render_WriteExpr_closed hP hSampleBy) :) hP.skip) :)
    (ite_closed (TTL.isSome = true) (hP.seq hP.brk (Render_WriteExpr_closed hP hTTL) :) hP.skip) :)
    (ite_closed (Settings.isSome = true) (hP.seq hP.brk (Render_WriteExpr_closed hP hSettings) :)
    hP.skip) :)

theorem ExplainStmt_FormatSQL_closed (hP : BaseClosed P) (type : String) {Statement : Option Render}
    (hStatement : OptClosed P Statement) : P (ExplainStmt.FormatSQL type Statement) :=
  (hP.seq (hP.seq (hP.seq (hP.writeString "EXPLAIN ") (hP.writeString type) :) (hP.writeByte
    whitespace) :) (Render_WriteExpr_closed hP hStatement) :)

theorem ExtractExpr_FormatSQL_closed (hP : BaseClosed P) {Parameters : List Render}
    (hParameters : ListClosed P Parameters) : P (ExtractExpr.FormatSQL Parameters) :=
  (hP.seq (hP.seq (hP.writeString "EXTRACT(") (Render_forEach_closed hP Parameters (fun i param
    hmem_param => (hP.seq (ite_closed (i > 0) (hP.writeString ", ") hP.skip) (hParameters param
    hmem_param) :)) 0) :) (hP.writeByte ')') :)

theorem Fill_FormatSQL_closed (hP : BaseClosed P) {From : Option Render} {To : Option Render}
    {Step : Option Render} {Staleness : Option Render} (hFrom : OptClosed P From)
    (hTo : OptClosed P To) (hStep : OptClosed P Step) (hStaleness : OptClosed P Staleness) :
    P (Fill.FormatSQL From To Step Staleness) :=
  (hP.seq (hP.seq (hP.seq (hP.seq (hP.writeString "WITH FILL") (ite_closed (From.isSome = true)
    (hP.seq (hP.writeString " FROM ") (Render_WriteExpr_closed hP hFrom) :) hP.skip) :) (ite_closed
    (To.isSome = true) (hP.seq (hP.writeString " TO ") (Render_WriteExpr_closed hP hTo) :) hP.skip)
    :) (ite_closed (Step.isSome = true) (hP.seq (hP.writeString " STEP ") (Render_WriteExpr_closed
    hP hStep) :) hP.skip) :) (ite_closed (Staleness.isSome = true) (hP.seq (hP.writeString
    " STALENESS ") (Render_WriteExpr_closed hP hStaleness) :) hP.skip) :)

theorem FunctionExpr_FormatSQL_closed (hP : BaseClosed P) {Name : Render} {Params : Render}
    (hName : P Name) (hParams : P Params) : P (FunctionExpr.FormatSQL Name Params) :=
  (hP.seq hName hParams :)

theorem GlobalInOperation_FormatSQL_closed (hP : BaseClosed P) {expr : Option Render}
    (hexpr : OptClosed P expr) : P (GlobalInOperation.FormatSQL expr) :=
  (hP.seq (hP.writeString "GLOBAL ") (Render_WriteExpr_closed hP hexpr) :)

theorem GranteesClause_FormatSQL_closed (hP : BaseClosed P) (Any None : Bool)
    {Grantees : List Render} {ExceptUsers : List Render} (hGrantees : ListClosed P Grantees)
    (hExceptUsers : ListClosed P ExceptUsers) :
    P (GranteesClause.FormatSQL Grantees ExceptUsers Any None) :=
  (hP.seq (hP.seq (hP.writeString "GRANTEES ") (ite_closed (Any = true) (hP.writeString "ANY")
    (ite_closed (None = true) (hP.writeString "NONE") (Render_forEach_closed hP Grantees (fun i
    grantee hmem_grantee => (hP.seq (ite_closed (i > 0) (hP.writeString ", ") hP.skip) (hGrantees
    grantee hmem_grantee) :)) 0))) :) (ite_closed (ExceptUsers.length > 0) (hP.seq (hP.seq hP.brk
    (hP.writeString "EXCEPT ") :) (Render_forEach_closed hP ExceptUsers (fun i except hmem_except =>
    (hP.seq (ite_closed (i > 0) (hP.writeString ", ") hP.skip) (hExceptUsers except hmem_except) :))
    0) :) hP.skip) :)

theorem HostClause_FormatSQL_closed (hP : BaseClosed P) (HostType : String)
    {HostValue : Option Render} (hHostValue : OptClosed P HostValue) :
    P (HostClause.FormatSQL HostType HostValue) :=
  (hP.seq (hP.seq (hP.writeString "HOST ") (hP.writeString HostType) :) (ite_closed
    (HostValue.isSome = true) (hP.seq (hP.writeByte whitespace) (Render_WriteExpr_closed hP
    hHostValue) :) hP.skip) :)

theorem IndexOperation_FormatSQL_closed (hP : BaseClosed P) (Operation : TokenKind)
    {Object : Option Render} {Index : Option Render} (hObject : OptClosed P Object)
    (hIndex : OptClosed P Index) : P (IndexOperation.FormatSQL Object Operation Index) :=
  (hP.seq (hP.seq (Render_WriteExpr_closed hP hObject) (hP.writeString Operation) :)
    (Render_WriteExpr_closed hP hIndex) :)

theorem InterpolateClause_FormatSQL_closed (hP : BaseClosed P) {Items : List Render}
    (hItems : ListClosed P Items) : P (InterpolateClause.FormatSQL Items) :=
  (hP.seq (hP.writeString "INTERPOLATE") (ite_closed (Items.length > 0) (hP.seq (hP.seq
    (hP.writeString " (") (Render_forEach_closed hP Items (fun idx item hmem_item => (hP.seq (hItems
    item hmem_item) (ite_closed (idx ≠ Items.length - 1) (hP.writeString ", ") hP.skip) :)) 0) :)
    (hP.writeByte ')') :) hP.skip) :)

theorem InterpolateItem_FormatSQL_closed (hP : BaseClosed P) {Column : Render}
    {expr : Option Render} (hColumn : P Column) (hexpr : OptClosed P expr) :
    P (InterpolateItem.FormatSQL Column expr) :=
  (hP.seq hColumn (ite_closed (expr.isSome = true) (hP.seq (hP.writeString " AS ")
    (Render_WriteExpr_closed hP hexpr) :) hP.skip) :)

theorem IntervalExpr_FormatSQL_closed (hP : BaseClosed P) (IntervalPos : Pos) {expr : Option Render}
    {Unit : Render} (hexpr : OptClosed P expr) (hUnit : P Unit) :
    P (IntervalExpr.FormatSQL IntervalPos expr Unit) :=
  (hP.seq (hP.seq (hP.seq (ite_closed (IntervalPos ≠ 0) (hP.writeString "INTERVAL ") hP.skip)
    (Render_WriteExpr_closed hP hexpr) :) (hP.writeByte whitespace) :) hUnit :)

theorem IntervalFrom_FormatSQL_closed (hP : BaseClosed P) {Interval : Render}
    {FromExpr : Option Render} (hInterval : P Interval) (hFromExpr : OptClosed P FromExpr) :
    P (IntervalFrom.FormatSQL Interval FromExpr) :=
  (hP.seq (hP.seq hInterval (hP.writeString " FROM ") :) (Render_WriteExpr_closed hP hFromExpr) :)

theorem IsNotNullExpr_FormatSQL_closed (hP : BaseClosed P) {expr : Option Render}
    (hexpr : OptClosed P expr) : P (IsNotNullExpr.FormatSQL expr) :=
  (hP.seq (Render_WriteExpr_closed hP hexpr) (hP.writeString " IS NOT NULL") :)

theorem IsNullExpr_FormatSQL_closed (hP : BaseClosed P) {expr : Option Render}
    (hexpr : OptClosed P expr) : P (IsNullExpr.FormatSQL expr) :=
  (hP.seq (Render_WriteExpr_closed hP hexpr) (hP.writeString " IS NULL") :)

theorem JoinConstraintClause_FormatSQL_closed (hP : BaseClosed P) {On : Option Render}
    {Using : Option Render} (hOn : OptClosed P On) (hUsing : OptClosed P Using) :
    P (JoinConstraintClause.FormatSQL On Using) :=
  (ite_closed (On.isSome = true) (hP.seq (hP.writeString "ON ") (Render_WriteExpr_closed hP hOn) :)
    (hP.seq (hP.writeString "USING ") (Render_WriteExpr_closed hP hUsing) :))

theorem LimitByClause_FormatSQL_closed (hP : BaseClosed P) {Limit : Option Render}
    {ByExpr : Option Render} (hLimit : OptClosed P Limit) (hByExpr : OptClosed P ByExpr) :
    P (LimitByClause.FormatSQL Limit ByExpr) :=
  (hP.seq (ite_closed (Limit.isSome = true) (Render_WriteExpr_closed hP hLimit) hP.skip) (ite_closed
    (ByExpr.isSome = true) (hP.seq (hP.writeString " BY ") (Render_WriteExpr_closed hP hByExpr) :)
    hP.skip) :)

theorem LimitClause_FormatSQL_closed (hP : BaseClosed P) {Limit : Option Render}
    {Offset : Option Render} (hLimit : OptClosed P Limit) (hOffset : OptClosed P Offset) :
    P (LimitClause.FormatSQL Limit Offset) :=
  (hP.seq (ite_closed (Limit.isSome = true) (hP.seq (hP.seq (hP.writeString "LIMIT ")
    (Render_WriteExpr_closed hP hLimit) :) (ite_closed (Offset.isSome = true) (hP.writeByte
    whitespace) hP.skip) :) hP.skip) (ite_closed (Offset.isSome = true) (hP.seq (hP.writeString
    "OFFSET ") (Render_WriteExpr_closed hP hOffset) :) hP.skip) :)

theorem MapLiteral_FormatSQL_closed (hP : BaseClosed P) {Keys : List Render} {Values : List Render}
    (hKeys : ListClosed P Keys) (hValues : ListClosed P Values) :
    P (MapLiteral.FormatSQL Keys Values) :=
  (hP.seq (hP.seq (hP.writeString "\x7b") (Render_forEach_closed hP (Keys.zip Values) (fun i value
    hmem_value => (hP.seq (hP.seq (hP.seq (ite_closed (i > 0) (hP.writeString ", ") hP.skip) (hKeys
    value.1 (List.of_mem_zip (a := value.1) (b := value.2) hmem_value).1) :) (hP.writeString ": ")
    :) (hValues value.2 (List.of_mem_zip (a := value.1) (b := value.2) hmem_value).2) :)) 0) :)
    (hP.writeString "\x7d") :)

theorem NamedCollectionParam_FormatSQL_closed (hP : BaseClosed P)
    (Overridable NotOverridable : Bool) {Name : Render} {Value : Option Render} (hName : P Name)
    (hValue : OptClosed P Value) :
    P (NamedCollectionParam.FormatSQL Name Value Overridable NotOverridable) :=
  (hP.seq (hP.seq (hP.seq hName (hP.writeString " = ") :) (Render_WriteExpr_closed hP hValue) :)
    (ite_closed (NotOverridable = true) (hP.writeString " NOT OVERRIDABLE") (ite_closed (Overridable
    = true) (hP.writeString " OVERRIDABLE") hP.skip)) :)

theorem NamedParameterExpr_FormatSQL_closed (hP : BaseClosed P) {Name : Render}
    {Value : Option Render} (hName : P Name) (hValue : OptClosed P Value) :
    P (NamedParameterExpr.FormatSQL Name Value) :=
  (hP.seq (hP.seq hName (hP.writeByte '=') :) (Render_WriteExpr_closed hP hValue) :)

theorem NegateExpr_FormatSQL_closed (hP : BaseClosed P) {expr : Option Render}
    (hexpr : OptClosed P expr) : P (NegateExpr.FormatSQL expr) :=
  (hP.seq (hP.writeByte '-') (Render_WriteExpr_closed hP hexpr) :)

theorem ObjectParams_FormatSQL_closed (hP : BaseClosed P) {Object : Option Render} {Params : Render}
    (hObject : OptClosed P Object) (hParams : P Params) :
    P (ObjectParams.FormatSQL Object Params) :=
  (hP.seq (Render_WriteExpr_closed hP hObject) hParams :)

theorem OnClause_FormatSQL_closed (hP : BaseClosed P) {On : Render} (hOn : P On) :
    P (OnClause.FormatSQL On) :=
  (hP.seq (hP.writeString "ON ") hOn :)

theorem OperationExpr_FormatSQL_closed (hP : BaseClosed P) (Kind : TokenKind) :
    P (OperationExpr.FormatSQL Kind) :=
  (hP.writeString ((toUpper Kind)))

theorem OptimizeStmt_FormatSQL_closed (hP : BaseClosed P) (HasFinal : Bool) {Table : Render}
    {OnCluster : Option Render} {Partition : Option Render} {Deduplicate : Option Render}
    (hTable : P Table) (hOnCluster : OptClosed P OnCluster) (hPartition : OptClosed P Partition)
    (hDeduplicate : OptClosed P Deduplicate) :
    P (OptimizeStmt.FormatSQL Table OnCluster Partition HasFinal Deduplicate) :=
  (hP.seq (hP.seq (hP.seq (hP.seq (hP.seq (hP.writeString "OPTIMIZE TABLE ") hTable :) (ite_closed
    (OnCluster.isSome = true) (hP.seq (hP.writeByte whitespace) (Render_WriteExpr_closed hP
    hOnCluster) :) hP.skip) :) (ite_closed (Partition.isSome = true) (hP.seq (hP.writeByte
    whitespace) (Render_WriteExpr_closed hP hPartition) :) hP.skip) :) (ite_closed (HasFinal = true)
    (hP.writeString " FINAL") hP.skip) :) (ite_closed (Deduplicate.isSome = true)
    (Render_WriteExpr_closed hP hDeduplicate) hP.skip) :)

theorem OrderByClause_FormatSQL_closed (hP : BaseClosed P) {Items : List Render}
    {Interpolate : Option Render} (hItems : ListClosed P Items)
    (hInterpolate : OptClosed P Interpolate) : P (OrderByClause.FormatSQL Items Interpolate) :=
  (hP.seq (hP.writeString "ORDER BY") (hP.indented (hP.seq (Render_forEach_closed hP Items (fun i
    item hmem_item => (hP.seq (ite_closed (i = 0) hP.brk (hP.seq (hP.writeByte ',') hP.brk :))
    (hItems item hmem_item) :)) 0) (ite_closed (Interpolate.isSome = true) (hP.seq hP.brk
    (Render_WriteExpr_closed hP hInterpolate) :) hP.skip) :)) :)

theorem OrderExpr_FormatSQL_closed (hP : BaseClosed P) (Direction : OrderDirection)
    {expr : Option Render} {Alias : Option Render} {Fill : Option Render} (hexpr : OptClosed P expr)
    (hAlias : OptClosed P Alias) (hFill : OptClosed P Fill) :
    P (OrderExpr.FormatSQL expr Alias Direction Fill) :=
  (hP.seq (hP.seq (hP.seq (Render_WriteExpr_closed hP hexpr) (ite_closed (Alias.isSome = true)
    (hP.seq (hP.writeString " AS ") (Render_WriteExpr_closed hP hAlias) :) hP.skip) :) (ite_closed
    (Direction ≠ OrderDirectionNone) (hP.seq (hP.writeByte whitespace) (hP.writeString Direction) :)
    hP.skip) :) (ite_closed (Fill.isSome = true) (hP.seq (hP.writeByte whitespace)
    (Render_WriteExpr_closed hP hFill) :) hP.skip) :)

theorem ParamExprList_FormatSQL_closed (hP : BaseClosed P) {Items : Render}
    {ColumnArgList : Option Render} (hItems : P Items)
    (hColumnArgList : OptClosed P ColumnArgList) :
    P (ParamExprList.FormatSQL Items ColumnArgList) :=
  (hP.seq (hP.seq (hP.seq (hP.writeString "(") hItems :) (hP.writeString ")") :) (ite_closed
    (ColumnArgList.isSome = true) (Render_WriteExpr_closed hP hColumnArgList) hP.skip) :)

theorem PartitionByClause_FormatSQL_closed (hP : BaseClosed P) {expr : Option Render}
    (hexpr : OptClosed P expr) : P (PartitionByClause.FormatSQL expr) :=
  (hP.seq (hP.writeString "PARTITION BY ") (Render_WriteExpr_closed hP hexpr) :)

theorem Path_FormatSQL_closed (hP : BaseClosed P) {Fields : List Render}
    (hFields : ListClosed P Fields) : P (Path.FormatSQL Fields) :=
  (Render_forEach_closed hP Fields (fun i ident hmem_ident => (hP.seq (ite_closed (i > 0)
    (hP.writeByte '.') hP.skip) (hFields ident hmem_ident) :)) 0)

theorem PlaceHolder_FormatSQL_closed (hP : BaseClosed P) (type : String) :
    P (PlaceHolder.FormatSQL type) :=
  (hP.writeString type)

theorem PrimaryKeyClause_FormatSQL_closed (hP : BaseClosed P) {expr : Option Render}
    (hexpr : OptClosed P expr) : P (PrimaryKeyClause.FormatSQL expr) :=
  (hP.seq (hP.writeString "PRIMARY KEY ") (Render_WriteExpr_closed hP hexpr) :)

theorem ProjectionOrderByClause_FormatSQL_closed (hP : BaseClosed P) {Columns : Render}
    (hColumns : P Columns) : P (ProjectionOrderByClause.FormatSQL Columns) :=
  (hP.seq (hP.writeString "ORDER BY ") hColumns :)

theorem ProjectionSelectStmt_FormatSQL_closed (hP : BaseClosed P) {With : Option Render}
    {SelectColumns : Render} {GroupBy : Option Render} {OrderBy : Option Render}
    (hWith : OptClosed P With) (hSelectColumns : P SelectColumns) (hGroupBy : OptClosed P GroupBy)
    (hOrderBy : OptClosed P OrderBy) :
    P (ProjectionSelectStmt.FormatSQL With SelectColumns GroupBy OrderBy) :=
  (hP.seq (hP.seq (hP.seq (hP.seq (hP.seq (hP.seq (hP.writeString "(") (ite_closed (With.isSome =
    true) (hP.seq (Render_WriteExpr_closed hP hWith) (hP.writeByte whitespace) :) hP.skip) :)
    (hP.writeString "SELECT ") :) hSelectColumns :) (ite_closed (GroupBy.isSome = true) (hP.seq
    (hP.writeByte whitespace) (Render_WriteExpr_closed hP hGroupBy) :) hP.skip) :) (ite_closed
    (OrderBy.isSome = true) (hP.seq (hP.writeByte whitespace) (Render_WriteExpr_closed hP hOrderBy)
    :) hP.skip) :) (hP.writeString ")") :)

theorem QueryParam_FormatSQL_closed (hP : BaseClosed P) {Name : Render} {type : Option Render}
    (hName : P Name) (htype : OptClosed P type) : P (QueryParam.FormatSQL Name type) :=
  (hP.seq (hP.seq (hP.seq (hP.seq (hP.writeString "\x7b") hName :) (hP.writeString ": ") :)
    (Render_WriteExpr_closed hP htype) :) (hP.writeString "\x7d") :)

theorem RefreshExpr_FormatSQL_closed (hP : BaseClosed P) (Frequency : String)
    {Interval : Option Render} {Offset : Option Render} (hInterval : OptClosed P Interval)
    (hOffset : OptClosed P Offset) : P (RefreshExpr.FormatSQL Frequency Interval Offset) :=
  (hP.seq (hP.seq (hP.seq (hP.writeString "REFRESH ") (hP.writeString Frequency) :) (ite_closed
    (Interval.isSome = true) (hP.seq (hP.writeByte whitespace) (Render_WriteExpr_closed hP
    hInterval) :) hP.skip) :) (ite_closed (Offset.isSome = true) (hP.seq (hP.writeString " OFFSET ")
    (Render_WriteExpr_closed hP hOffset) :) hP.skip) :)

theorem RemovePropertyType_FormatSQL_closed (hP : BaseClosed P) {PropertyType : Option Render}
    (hPropertyType : OptClosed P PropertyType) : P (RemovePropertyType.FormatSQL PropertyType) :=
  (hP.seq (hP.writeString " REMOVE ") (Render_WriteExpr_closed hP hPropertyType) :)

theorem RenameStmt_FormatSQL_closed (hP : BaseClosed P) (RenameTarget : String)
    {TargetPairList : List (Parts Render)} {OnCluster : Option Render}
    (hTargetPairList : ∀ p ∈ TargetPairList, PartsClosed P p) (hOnCluster : OptClosed P OnCluster) :
    P (RenameStmt.FormatSQL RenameTarget TargetPairList OnCluster) :=
  (hP.seq (hP.seq (hP.writeString (("RENAME " ++ RenameTarget ++ " "))) (Render_forEach_closed hP
    TargetPairList (fun i pair hmem_pair => (hP.seq (hP.seq (hP.seq (ite_closed (i > 0)
    (hP.writeString ", ") hP.skip) (partsClosed_writeNode hP (hTargetPairList pair hmem_pair) 0) :)
    (hP.writeString " TO ") :) (partsClosed_writeNode hP (hTargetPairList pair hmem_pair) 1) :)) 0)
    :) (ite_closed (OnCluster.isSome = true) (hP.seq (hP.writeByte whitespace)
    (Render_WriteExpr_closed hP hOnCluster) :) hP.skip) :)

theorem RoleName_FormatSQL_closed (hP : BaseClosed P) {Name : Option Render} {Scope : Option Render}
    {OnCluster : Option Render} (hName : OptClosed P Name) (hScope : OptClosed P Scope)
    (hOnCluster : OptClosed P OnCluster) : P (RoleName.FormatSQL Name Scope OnCluster) :=
  (hP.seq (hP.seq (Render_WriteExpr_closed hP hName) (ite_closed (Scope.isSome = true) (hP.seq
    (hP.writeString "@") (Render_WriteExpr_closed hP hScope) :) hP.skip) :) (ite_closed
    (OnCluster.isSome = true) (hP.seq (hP.writeByte whitespace) (Render_WriteExpr_closed hP
    hOnCluster) :) hP.skip) :)

theorem RoleRenamePair_FormatSQL_closed (hP : BaseClosed P) {RoleName : Render}
    {NewName : Option Render} (hRoleName : P RoleName) (hNewName : OptClosed P NewName) :
    P (RoleRenamePair.FormatSQL RoleName NewName) :=
  (hP.seq hRoleName (ite_closed (NewName.isSome = true) (hP.seq (hP.writeString " RENAME TO ")
    (Render_WriteExpr_closed hP hNewName) :) hP.skip) :)

theorem RoleSetting_FormatSQL_closed (hP : BaseClosed P) {SettingPairs : List Render}
    {Modifier : Option Render} (hSettingPairs : ListClosed P SettingPairs)
    (hModifier : OptClosed P Modifier) : P (RoleSetting.FormatSQL SettingPairs Modifier) :=
  (hP.seq (Render_forEach_closed hP SettingPairs (fun i settingPair hmem_settingPair => (hP.seq
    (ite_closed (i > 0) (hP.writeByte whitespace) hP.skip) (hSettingPairs settingPair
    hmem_settingPair) :)) 0) (ite_closed (Modifier.isSome = true) (hP.seq (ite_closed
    (SettingPairs.length > 0) (hP.writeByte whitespace) hP.skip) (Render_WriteExpr_closed hP
    hModifier) :) hP.skip) :)

theorem SampleByClause_FormatSQL_closed (hP : BaseClosed P) {expr : Option Render}
    (hexpr : OptClosed P expr) : P (SampleByClause.FormatSQL expr) :=
  (hP.seq (hP.writeString "SAMPLE BY ") (Render_WriteExpr_closed hP hexpr) :)

theorem SetStmt_FormatSQL_closed (hP : BaseClosed P) {SettingsItems : List Render}
    (hSettingsItems : ListClosed P SettingsItems) : P (SetStmt.FormatSQL SettingsItems) :=
  (hP.seq (hP.writeString "SET ") (Render_forEach_closed hP SettingsItems (fun i item hmem_item =>
    (hP.seq (ite_closed (i > 0) (hP.writeString ", ") hP.skip) (hSettingsItems item hmem_item) :))
    0) :)

theorem SettingPair_FormatSQL_closed (hP : BaseClosed P) (Operation : TokenKind) {Name : Render}
    {Value : Option Render} (hName : P Name) (hValue : OptClosed P Value) :
    P (SettingPair.FormatSQL Name Operation Value) :=
  (hP.seq hName (ite_closed (Value.isSome = true) (hP.seq (ite_closed (Operation =
    TokenKindSingleEQ) (hP.writeString Operation) (hP.writeByte whitespace))
    (Render_WriteExpr_closed hP hValue) :) hP.skip) :)

theorem ShowStmt_FormatSQL_closed (hP : BaseClosed P) (ShowType : String) (NotLike : Bool)
    (LikeType : String) {Target : Option Render} {LikePattern : Option Render}
    {Limit : Option Render} {OutFile : Option Render} {Format : Option Render}
    (hTarget : OptClosed P Target) (hLikePattern : OptClosed P LikePattern)
    (hLimit : OptClosed P Limit) (hOutFile : OptClosed P OutFile) (hFormat : OptClosed P Format) :
    P (ShowStmt.FormatSQL ShowType Target NotLike LikeType LikePattern Limit OutFile Format) :=
  (hP.seq (hP.seq (hP.seq (hP.seq (hP.seq (hP.seq (hP.writeString "SHOW ") (hP.writeString ShowType)
    :) (ite_closed (Target.isSome = true) (hP.seq (hP.writeByte whitespace) (Render_WriteExpr_closed
    hP hTarget) :) hP.skip) :) (ite_closed (LikeType ≠ "" ∧ LikePattern.isSome = true) (hP.seq
    (hP.seq (hP.seq (ite_closed (NotLike = true) (hP.writeString " NOT ") (hP.writeByte whitespace))
    (hP.writeString LikeType) :) (hP.writeByte whitespace) :) (Render_WriteExpr_closed hP
    hLikePattern) :) hP.skip) :) (ite_closed (Limit.isSome = true) (hP.seq (hP.writeString
    " LIMIT ") (Render_WriteExpr_closed hP hLimit) :) hP.skip) :) (ite_closed (OutFile.isSome =
    true) (hP.seq (hP.writeString " INTO OUTFILE ") (Render_WriteExpr_closed hP hOutFile) :)
    hP.skip) :) (ite_closed (Format.isSome = true) (hP.seq (hP.writeString " FORMAT ")
    (Render_WriteExpr_closed hP hFormat) :) hP.skip) :)

theorem SubQuery_FormatSQL_closed (hP : BaseClosed P) (HasParen : Bool) {Select : Option Render}
    (hSelect : OptClosed P Select) : P (SubQuery.FormatSQL HasParen Select) :=
  (hP.seq (hP.seq (ite_closed (HasParen = true) (hP.writeByte '(') hP.skip) (Render_WriteExpr_closed
    hP hSelect) :) (ite_closed (HasParen = true) (hP.writeByte ')') hP.skip) :)

theorem SystemCtrlExpr_FormatSQL_closed (hP : BaseClosed P) (Command type : String)
    {Cluster : Option Render} (hCluster : OptClosed P Cluster) :
    P (SystemCtrlExpr.FormatSQL Command type Cluster) :=
  (hP.seq (hP.seq (hP.seq (hP.writeString Command) (hP.writeByte whitespace) :) (hP.writeString
    type) :) (ite_closed (Cluster.isSome = true) (hP.seq (hP.writeByte whitespace)
    (Render_WriteExpr_closed hP hCluster) :) hP.skip) :)

theorem SystemDropExpr_FormatSQL_closed (hP : BaseClosed P) (type : String) :
    P (SystemDropExpr.FormatSQL type) :=
  (hP.seq (hP.writeString "DROP ") (hP.writeString type) :)

theorem SystemFlushExpr_FormatSQL_closed (hP : BaseClosed P) (Logs : Bool)
    {Distributed : Option Render} (hDistributed : OptClosed P Distributed) :
    P (SystemFlushExpr.FormatSQL Logs Distributed) :=
  (hP.seq (hP.writeString "FLUSH ") (ite_closed (Logs = true) (hP.writeString "LOGS")
    (Render_WriteExpr_closed hP hDistributed)) :)

theorem SystemReloadExpr_FormatSQL_closed (hP : BaseClosed P) (type : String)
    {Dictionary : Option Render} (hDictionary : OptClosed P Dictionary) :
    P (SystemReloadExpr.FormatSQL Dictionary type) :=
  (hP.seq (hP.seq (hP.writeString "RELOAD ") (hP.writeString type) :) (ite_closed (Dictionary.isSome
    = true) (hP.seq (hP.writeByte whitespace) (Render_WriteExpr_closed hP hDictionary) :) hP.skip)
    :)

theorem SystemStmt_FormatSQL_closed (hP : BaseClosed P) {expr : Option Render}
    (hexpr : OptClosed P expr) : P (SystemStmt.FormatSQL expr) :=
  (hP.seq (hP.seq (hP.writeString "SYSTEM") (hP.writeByte whitespace) :) (Render_WriteExpr_closed hP
    hexpr) :)

theorem SystemSyncExpr_FormatSQL_closed (hP : BaseClosed P) {Cluster : Render}
    (hCluster : P Cluster) : P (SystemSyncExpr.FormatSQL Cluster) :=
  (hP.seq (hP.writeString "SYNC ") hCluster :)

theorem TTLClause_FormatSQL_closed (hP : BaseClosed P) {Items : List Render}
    (hItems : ListClosed P Items) : P (TTLClause.FormatSQL Items) :=
  (hP.seq (hP.writeString "TTL ") (Render_forEach_closed hP Items (fun i item hmem_item => (hP.seq
    (ite_closed (i > 0) (hP.writeString ", ") hP.skip) (hItems item hmem_item) :)) 0) :)

theorem TableArgListExpr_FormatSQL_closed (hP : BaseClosed P) {Args : List Render}
    (hArgs : ListClosed P Args) : P (TableArgListExpr.FormatSQL Args) :=
  (hP.seq (hP.seq (hP.writeByte '(') (Render_forEach_closed hP Args (fun i arg hmem_arg => (hP.seq
    (ite_closed (i > 0) (hP.writeString ", ") hP.skip) (hArgs arg hmem_arg) :)) 0) :) (hP.writeByte
    ')') :)

theorem TableFunctionExpr_FormatSQL_closed (hP : BaseClosed P) {Name : Option Render}
    {Args : Render} (hName : OptClosed P Name) (hArgs : P Args) :
    P (TableFunctionExpr.FormatSQL Name Args) :=
  (hP.seq (Render_WriteExpr_closed hP hName) hArgs :)

theorem TableProjection_FormatSQL_closed (hP : BaseClosed P) (IncludeProjectionKeyword : Bool)
    {Identifier : Render} {Select : Render} (hIdentifier : P Identifier) (hSelect : P Select) :
    P (TableProjection.FormatSQL IncludeProjectionKeyword Identifier Select) :=
  (hP.seq (hP.seq (hP.seq (ite_closed (IncludeProjectionKeyword = true) (hP.writeString
    "PROJECTION ") hP.skip) hIdentifier :) (hP.writeByte whitespace) :) hSelect :)

theorem TableSchemaClause_FormatSQL_closed (hP : BaseClosed P) {Columns : List Render}
    {AliasTable : Option Render} {TableFunction : Option Render} (hColumns : ListClosed P Columns)
    (hAliasTable : OptClosed P AliasTable) (hTableFunction : OptClosed P TableFunction) :
    P (TableSchemaClause.FormatSQL Columns AliasTable TableFunction) :=
  (hP.seq (hP.seq (ite_closed (Columns.length > 0) (hP.seq (hP.seq (hP.seq (hP.writeByte '(')
    (hP.indented (Render_forEach_closed hP Columns (fun i column hmem_column => (hP.seq (ite_closed
    (i = 0) hP.newLine (hP.seq (hP.writeByte ',') hP.brk :)) (hColumns column hmem_column) :)) 0))
    :) hP.newLine :) (hP.writeByte ')') :) hP.skip) (ite_closed (AliasTable.isSome = true) (hP.seq
    (hP.writeString " AS ") (Render_WriteExpr_closed hP hAliasTable) :) hP.skip) :) (ite_closed
    (TableFunction.isSome = true) (hP.seq (hP.writeString " AS ") (Render_WriteExpr_closed hP
    hTableFunction) :) hP.skip) :)

theorem TargetPair_FormatSQL_closed (hP : BaseClosed P) {Old : Render} {New : Render} (hOld : P Old)
    (hNew : P New) : P (TargetPair.FormatSQL Old New) :=
  (hP.seq (hP.seq hOld (hP.writeString " TO ") :) hNew :)

theorem TopClause_FormatSQL_closed (hP : BaseClosed P) (NumberLiteral : String) (WithTies : Bool) :
    P (TopClause.FormatSQL NumberLiteral WithTies) :=
  (hP.seq (hP.seq (hP.writeString "TOP ") (hP.writeString NumberLiteral) :) (ite_closed (WithTies =
    true) (hP.writeString " WITH TIES") hP.skip) :)

theorem TruncateTable_FormatSQL_closed (hP : BaseClosed P) (IsTemporary IfExists : Bool)
    {Name : Render} {OnCluster : Option Render} (hName : P Name)
    (hOnCluster : OptClosed P OnCluster) :
    P (TruncateTable.FormatSQL IsTemporary IfExists Name OnCluster) :=
  (hP.seq (hP.seq (hP.seq (hP.seq (hP.seq (hP.writeString "TRUNCATE ") (ite_closed (IsTemporary =
    true) (hP.writeString "TEMPORARY ") hP.skip) :) (hP.writeString "TABLE ") :) (ite_closed
    (IfExists = true) (hP.writeString "IF EXISTS ") hP.skip) :) hName :) (ite_closed
    (OnCluster.isSome = true) (hP.seq (hP.writeByte whitespace) (Render_WriteExpr_closed hP
    hOnCluster) :) hP.skip) :)

theorem TypedPlaceholder_FormatSQL_closed (hP : BaseClosed P) {Name : Render} {type : Option Render}
    (hName : P Name) (htype : OptClosed P type) : P (TypedPlaceholder.FormatSQL Name type) :=
  (hP.seq (hP.seq (hP.seq (hP.seq (hP.writeString "\x7b") hName :) (hP.writeByte ':') :)
    (Render_WriteExpr_closed hP htype) :) (hP.writeString "\x7d") :)

theorem UUID_FormatSQL_closed (hP : BaseClosed P) {Value : Render} (hValue : P Value) :
    P (UUID.FormatSQL Value) :=
  (hP.seq (hP.writeString "UUID ") hValue :)

theorem UnaryExpr_FormatSQL_closed (hP : BaseClosed P) (Kind : TokenKind) {expr : Option Render}
    (hexpr : OptClosed P expr) : P (UnaryExpr.FormatSQL Kind expr) :=
  (hP.seq (hP.seq (hP.writeString Kind) (hP.writeByte whitespace) :) (Render_WriteExpr_closed hP
    hexpr) :)

theorem UpdateAssignment_FormatSQL_closed (hP : BaseClosed P) {Column : Render}
    {expr : Option Render} (hColumn : P Column) (hexpr : OptClosed P expr) :
    P (UpdateAssignment.FormatSQL Column expr) :=
  (hP.seq (hP.seq hColumn (hP.writeString " = ") :) (Render_WriteExpr_closed hP hexpr) :)

theorem UseStmt_FormatSQL_closed (hP : BaseClosed P) {Database : Render} (hDatabase : P Database) :
    P (UseStmt.FormatSQL Database) :=
  (hP.seq (hP.writeString "USE ") hDatabase :)

theorem UsingClause_FormatSQL_closed (hP : BaseClosed P) {Using : Render} (hUsing : P Using) :
    P (UsingClause.FormatSQL Using) :=
  (hP.seq (hP.writeString "USING ") hUsing :)

theorem WindowClause_FormatSQL_closed (hP : BaseClosed P) {Windows : List Render}
    (hWindows : ListClosed P Windows) : P (WindowClause.FormatSQL Windows) :=
  (hP.seq (hP.writeString "WINDOW ") (Render_forEach_closed hP Windows (fun i window hmem_window =>
    (hP.seq (hWindows window hmem_window) (ite_closed (i ≠ Windows.length - 1) (hP.writeString ", ")
    hP.skip) :)) 0) :)

theorem WindowDefinition_FormatSQL_closed (hP : BaseClosed P) {Name : Option Render}
    {expr : Option Render} (hName : OptClosed P Name) (hexpr : OptClosed P expr) :
    P (WindowDefinition.FormatSQL Name expr) :=
  (hP.seq (hP.seq (Render_WriteExpr_closed hP hName) (hP.writeString " AS ") :)
    (Render_WriteExpr_closed hP hexpr) :)

theorem WindowExpr_FormatSQL_closed (hP : BaseClosed P) {PartitionBy : Option Render}
    {OrderBy : Option Render} {Frame : Option Render} (hPartitionBy : OptClosed P PartitionBy)
    (hOrderBy : OptClosed P OrderBy) (hFrame : OptClosed P Frame) :
    P (WindowExpr.FormatSQL PartitionBy OrderBy Frame) :=
  (hP.seq (hP.seq (hP.seq (hP.seq (hP.writeByte '(') (ite_closed (PartitionBy.isSome = true)
    (Render_WriteExpr_closed hP hPartitionBy) hP.skip) :) (ite_closed (OrderBy.isSome = true)
    (hP.seq (ite_closed (PartitionBy.isSome = true) (hP.writeByte whitespace) hP.skip)
    (Render_WriteExpr_closed hP hOrderBy) :) hP.skip) :) (ite_closed (Frame.isSome = true) (hP.seq
    (ite_closed (PartitionBy.isSome = true ∨ OrderBy.isSome = true) (hP.writeByte whitespace)
    hP.skip) (Render_WriteExpr_closed hP hFrame) :) hP.skip) :) (hP.writeByte ')') :)

theorem WindowFrameClause_FormatSQL_closed (hP : BaseClosed P) (type : String)
    {Extend : Option Render} (hExtend : OptClosed P Extend) :
    P (WindowFrameClause.FormatSQL type Extend) :=
  (hP.seq (hP.seq (hP.writeString type) (hP.writeByte whitespace) :) (Render_WriteExpr_closed hP
    hExtend) :)

theorem WindowFrameCurrentRow_FormatSQL_closed (hP : BaseClosed P) :
    P (WindowFrameCurrentRow.FormatSQL) :=
  (hP.writeString "CURRENT ROW")

theorem WindowFrameExtendExpr_FormatSQL_closed (hP : BaseClosed P) (Direction : String)
    {expr : Option Render} (hexpr : OptClosed P expr) :
    P (WindowFrameExtendExpr.FormatSQL expr Direction) :=
  (hP.seq (Render_WriteExpr_closed hP hexpr) (ite_closed (Direction ≠ "") (hP.seq (hP.writeByte
    whitespace) (hP.writeString Direction) :) hP.skip) :)

theorem WindowFrameNumber_FormatSQL_closed (hP : BaseClosed P) (Direction : String)
    {Number : Render} (hNumber : P Number) : P (WindowFrameNumber.FormatSQL Number Direction) :=
  (hP.seq (hP.seq hNumber (hP.writeByte whitespace) :) (hP.writeString Direction) :)

theorem WindowFrameParam_FormatSQL_closed (hP : BaseClosed P) (Direction : String) {Param : Render}
    (hParam : P Param) : P (WindowFrameParam.FormatSQL Param Direction) :=
  (hP.seq (hP.seq hParam (hP.writeByte whitespace) :) (hP.writeString Direction) :)

theorem WindowFrameUnbounded_FormatSQL_closed (hP : BaseClosed P) (Direction : String) :
    P (WindowFrameUnbounded.FormatSQL Direction) :=
  (hP.seq (hP.writeString "UNBOUNDED ") (hP.writeString Direction) :)

theorem WindowFunctionExpr_FormatSQL_closed (hP : BaseClosed P) {Function : Render}
    {OverExpr : Option Render} (hFunction : P Function) (hOverExpr : OptClosed P OverExpr) :
    P (WindowFunctionExpr.FormatSQL Function OverExpr) :=
  (hP.seq (hP.seq hFunction (hP.writeString " OVER ") :) (Render_WriteExpr_closed hP hOverExpr) :)

theorem WithTimeoutClause_FormatSQL_closed (hP : BaseClosed P) {Number : Render}
    (hNumber : P Number) : P (WithTimeoutClause.FormatSQL Number) :=
  (hP.seq (hP.writeString "WITH TIMEOUT ") hNumber :)

theorem NodeKind_FormatSQL_closed (hP : BaseClosed P) (kind : NodeKind) (raw : Parts Expr)
    {v : View Render} (hv : ViewClosed P v) : P (NodeKind.FormatSQL kind raw v) := by
  cases kind with
  | AlterRole _ _ IfExists =>
      exact AlterRole_FormatSQL_closed hP IfExists (viewClosed_list hv 0) (viewClosed_list hv 1)
  | AlterTableAttachPartition _ =>
      exact (viewClosed_withNode hv 0 hP.skip fun Partition hPartition =>
        AlterTableAttachPartition_FormatSQL_closed hP hPartition (viewClosed_child hv 0))
  | AlterTableClearColumn _ _ IfExists =>
      exact (viewClosed_withNode hv 0 hP.skip fun ColumnName hColumnName =>
        AlterTableClearColumn_FormatSQL_closed hP IfExists hColumnName (viewClosed_child hv 0))
  | AlterTableClearIndex _ _ IfExists =>
      exact (viewClosed_withNode hv 0 hP.skip fun IndexName hIndexName =>
        AlterTableClearIndex_FormatSQL_closed hP IfExists hIndexName (viewClosed_child hv 0))
  | AlterTableClearProjection _ _ IfExists =>
      exact (viewClosed_withNode hv 0 hP.skip fun ProjectionName hProjectionName =>
        AlterTableClearProjection_FormatSQL_closed hP IfExists hProjectionName (viewClosed_child hv
        0))
  | AlterTableDelete _ _ =>
      exact AlterTableDelete_FormatSQL_closed hP (viewClosed_child hv 0)
  | AlterTableDetachPartition _ =>
      exact (viewClosed_withNode hv 0 hP.skip fun Partition hPartition =>
        AlterTableDetachPartition_FormatSQL_closed hP hPartition (viewClosed_child hv 0))
  | AlterTableDropIndex _ IfExists =>
      exact (viewClosed_withNode hv 0 hP.skip fun IndexName hIndexName =>
        AlterTableDropIndex_FormatSQL_closed hP IfExists hIndexName)
  | AlterTableDropProjection _ IfExists =>
      exact (viewClosed_withNode hv 0 hP.skip fun ProjectionName hProjectionName =>
        AlterTableDropProjection_FormatSQL_closed hP IfExists hProjectionName)
  | AlterTableFreezePartition _ _ =>
      exact AlterTableFreezePartition_FormatSQL_closed hP (viewClosed_child hv 0)
  | AlterTableMaterializeIndex _ _ IfExists =>
      exact (viewClosed_withNode hv 0 hP.skip fun IndexName hIndexName =>
        AlterTableMaterializeIndex_FormatSQL_closed hP IfExists hIndexName (viewClosed_child hv 0))
  | AlterTableMaterializeProjection _ _ IfExists =>
      exact (viewClosed_withNode hv 0 hP.skip fun ProjectionName hProjectionName =>
        AlterTableMaterializeProjection_FormatSQL_closed hP IfExists hProjectionName
        (viewClosed_child hv 0))
  | AlterTableModifyColumn _ _ IfExists =>
      exact (viewClosed_withNode hv 0 hP.skip fun Column hColumn =>
        AlterTableModifyColumn_FormatSQL_closed hP IfExists hColumn (viewClosed_child hv 0))
  | AlterTableModifyQuery _ _ =>
      exact (viewClosed_withNode hv 0 hP.skip fun SelectExpr hSelectExpr =>
        AlterTableModifyQuery_FormatSQL_closed hP hSelectExpr)
  | AlterTableModifySetting _ _ =>
      exact AlterTableModifySetting_FormatSQL_closed hP (viewClosed_list hv 0)
  | AlterTableModifyTTL _ _ =>
      exact (viewClosed_withNode hv 0 hP.skip fun TTL hTTL => AlterTableModifyTTL_FormatSQL_closed
        hP hTTL)
  | AlterTableRemoveTTL _ _ =>
      exact AlterTableRemoveTTL_FormatSQL_closed hP
  | AlterTableRenameColumn _ IfExists =>
      exact (viewClosed_withNode hv 0 hP.skip fun OldColumnName hOldColumnName =>
        (viewClosed_withNode hv 1 hP.skip fun NewColumnName hNewColumnName =>
        AlterTableRenameColumn_FormatSQL_closed hP IfExists hOldColumnName hNewColumnName))
  | AlterTableReplacePartition _ =>
      exact (viewClosed_withNode hv 0 hP.skip fun Partition hPartition => (viewClosed_withNode hv 1
        hP.skip fun Table hTable => AlterTableReplacePartition_FormatSQL_closed hP hPartition
        hTable))
  | AlterTableResetSetting _ _ =>
      exact AlterTableResetSetting_FormatSQL_closed hP (viewClosed_list hv 0)
  | AlterTableUpdate _ _ =>
      exact AlterTableUpdate_FormatSQL_closed hP (viewClosed_list hv 0) (viewClosed_child hv 0)
        (viewClosed_child hv 1)
  | ArrayParamList _ _ =>
      exact ArrayParamList_FormatSQL_closed hP (partsClosed_list (viewClosed_nodePart hv 0) 0)
  | AuthenticationClause _ _ NotIdentified AuthType IsKerberos =>
      exact AuthenticationClause_FormatSQL_closed hP NotIdentified AuthType _ IsKerberos
        (viewClosed_child hv 0) (viewClosed_child hv 1) (viewClosed_child hv 2)
  | BetweenClause _ =>
      exact BetweenClause_FormatSQL_closed hP (viewClosed_child hv 0) (viewClosed_child hv 1)
        (viewClosed_child hv 2)
  | BoolLiteral _ _ Literal =>
      exact BoolLiteral_FormatSQL_closed hP Literal
  | CTEStmt _ =>
      exact CTEStmt_FormatSQL_closed hP _ (viewClosed_child hv 0) (viewClosed_child hv 1)
  | CastExpr _ Separator _ =>
      exact CastExpr_FormatSQL_closed hP Separator (viewClosed_child hv 0) (viewClosed_child hv 1)
  | CheckStmt _ =>
      exact (viewClosed_withNode hv 0 hP.skip fun Table hTable => CheckStmt_FormatSQL_closed hP
        hTable (viewClosed_child hv 0))
  | ColumnArgList _ _ _ =>
      exact ColumnArgList_FormatSQL_closed hP (viewClosed_list hv 0)
  | ColumnExprList _ _ HasDistinct =>
      exact ColumnExprList_FormatSQL_closed hP HasDistinct (viewClosed_list hv 0)
  | ColumnNamesExpr _ _ =>
      exact ColumnNamesExpr_FormatSQL_closed hP (viewClosed_list hv 0)
  | ColumnTypeExpr =>
      exact (viewClosed_withNode hv 0 hP.skip fun Name hName => ColumnTypeExpr_FormatSQL_closed
        hName)
  | CompressionCodec _ _ =>
      exact CompressionCodec_FormatSQL_closed hP (viewClosed_child hv 0) (viewClosed_child hv 1)
        (viewClosed_child hv 2) (viewClosed_child hv 3)
  | ConstraintClause _ =>
      exact (viewClosed_withNode hv 0 hP.skip fun Constraint hConstraint =>
        ConstraintClause_FormatSQL_closed hP hConstraint (viewClosed_child hv 0))
  | CreateDictionary _ _ OrReplace IfNotExists =>
      exact (viewClosed_withNode hv 0 hP.skip fun Name hName => CreateDictionary_FormatSQL_closed hP
        OrReplace IfNotExists hName (viewClosed_child hv 0) (viewClosed_child hv 1)
        (viewClosed_child hv 2) (viewClosed_child hv 3) (viewClosed_child hv 4))
  | CreateFunction _ OrReplace IfNotExists =>
      exact (viewClosed_withNode hv 0 hP.skip fun FunctionName hFunctionName => (viewClosed_withNode
        hv 1 hP.skip fun Params hParams => CreateFunction_FormatSQL_closed hP OrReplace IfNotExists
        hFunctionName (viewClosed_child hv 0) hParams (viewClosed_child hv 1)))
  | CreateLiveView _ _ IfNotExists =>
      exact (viewClosed_withNode hv 0 hP.skip fun Name hName => CreateLiveView_FormatSQL_closed hP
        IfNotExists hName (viewClosed_child hv 1) (viewClosed_child hv 2) (viewClosed_child hv 3)
        (viewClosed_child hv 4) (viewClosed_child hv 5))
  | CreateMaterializedView _ _ IfNotExists DependsOnSet HasAppend HasEmpty Populate SQLSecurity =>
      exact (viewClosed_withNode hv 0 hP.skip fun Name hName =>
        CreateMaterializedView_FormatSQL_closed hP IfNotExists DependsOnSet HasAppend HasEmpty
        Populate SQLSecurity hName (viewClosed_child hv 0) (viewClosed_child hv 1) (viewClosed_child
        hv 2) (viewClosed_list hv 0) (viewClosed_child hv 3) (viewClosed_child hv 4)
        (viewClosed_child hv 5) (partsClosed_child (viewClosed_childPart hv 5) 0) (viewClosed_child
        hv 6) (viewClosed_child hv 7) (viewClosed_child hv 8))
  | CreateNamedCollection _ _ IfNotExists =>
      exact (viewClosed_withNode hv 0 hP.skip fun Name hName =>
        CreateNamedCollection_FormatSQL_closed hP IfNotExists hName (viewClosed_child hv 0)
        (viewClosed_list hv 0))
  | CreateRole _ _ IfNotExists OrReplace =>
      exact CreateRole_FormatSQL_closed hP IfNotExists OrReplace (viewClosed_list hv 0)
        (viewClosed_child hv 0) (viewClosed_list hv 1)
  | CreateTable _ _ OrReplace IfNotExists HasTemporary =>
      exact (viewClosed_withNode hv 0 hP.skip fun Name hName => CreateTable_FormatSQL_closed hP
        OrReplace IfNotExists HasTemporary hName (viewClosed_child hv 0) (viewClosed_child hv 1)
        (viewClosed_child hv 2) (viewClosed_child hv 3) (viewClosed_child hv 4) (viewClosed_child hv
        5) (viewClosed_child hv 6))
  | CreateUser _ _ IfNotExists OrReplace DefaultDbNone =>
      exact CreateUser_FormatSQL_closed hP IfNotExists OrReplace DefaultDbNone (viewClosed_list hv
        0) (viewClosed_child hv 0) (viewClosed_list hv 1) (viewClosed_child hv 1) (viewClosed_child
        hv 2) (viewClosed_child hv 3) (viewClosed_list hv 2)
  | CreateView _ _ OrReplace IfNotExists =>
      exact (viewClosed_withNode hv 0 hP.skip fun Name hName => CreateView_FormatSQL_closed hP
        OrReplace IfNotExists hName (viewClosed_child hv 0) (viewClosed_child hv 1)
        (viewClosed_child hv 2) (viewClosed_child hv 3))
  | DeduplicateClause _ =>
      exact DeduplicateClause_FormatSQL_closed hP (viewClosed_child hv 0) (viewClosed_child hv 1)
  | DefaultRoleClause _ _ None =>
      exact DefaultRoleClause_FormatSQL_closed hP None (viewClosed_list hv 0)
  | DeleteClause _ =>
      exact (viewClosed_withNode hv 0 hP.skip fun Table hTable => DeleteClause_FormatSQL_closed hP
        hTable (viewClosed_child hv 0) (viewClosed_child hv 1))
  | DescribeStmt _ _ DescribeType =>
      exact (viewClosed_withNode hv 0 hP.skip fun Target hTarget => DescribeStmt_FormatSQL_closed hP
        DescribeType hTarget)
  | DestinationClause _ =>
      exact (viewClosed_withNode hv 0 hP.skip fun TableIdentifier hTableIdentifier =>
        DestinationClause_FormatSQL_closed hP hTableIdentifier)
  | DictionaryArgExpr _ =>
      exact (viewClosed_withNode hv 0 hP.skip fun Name hName => DictionaryArgExpr_FormatSQL_closed
        hP hName (viewClosed_child hv 0))
  | DictionaryEngineClause _ =>
      exact DictionaryEngineClause_FormatSQL_closed hP (viewClosed_child hv 0) (viewClosed_child hv
        1) (viewClosed_child hv 2) (viewClosed_child hv 3) (viewClosed_child hv 4) (partsClosed_list
        (viewClosed_childPart hv 5) 0)
  | DictionaryLayoutClause _ _ =>
      exact (viewClosed_withNode hv 0 hP.skip fun Layout hLayout =>
        DictionaryLayoutClause_FormatSQL_closed hP hLayout (viewClosed_list hv 0))
  | DictionaryPrimaryKeyClause _ _ =>
      exact (viewClosed_withNode hv 0 hP.skip fun Keys hKeys =>
        DictionaryPrimaryKeyClause_FormatSQL_closed hP hKeys)
  | DictionarySchemaClause _ _ =>
      exact DictionarySchemaClause_FormatSQL_closed hP (viewClosed_list hv 0)
  | DictionarySourceClause _ _ =>
      exact (viewClosed_withNode hv 0 hP.skip fun Source hSource =>
        DictionarySourceClause_FormatSQL_closed hP hSource (viewClosed_list hv 0))
  | DistinctOn _ _ =>
      exact DistinctOn_FormatSQL_closed hP (viewClosed_list hv 0)
  | DropDatabase _ _ IfExists =>
      exact (viewClosed_withNode hv 0 hP.skip fun Name hName => DropDatabase_FormatSQL_closed hP
        IfExists hName (viewClosed_child hv 0))
  | DropStmt _ _ DropTarget IfExists IsTemporary Modifier =>
      exact (viewClosed_withNode hv 0 hP.skip fun Name hName => DropStmt_FormatSQL_closed hP
        DropTarget IfExists IsTemporary Modifier hName (viewClosed_child hv 0))
  | DropUserOrRole _ Target _ IfExists Modifier =>
      exact DropUserOrRole_FormatSQL_closed hP Target IfExists Modifier (viewClosed_list hv 0)
        (viewClosed_child hv 0)
  | EngineExpr _ _ Name =>
      exact EngineExpr_FormatSQL_closed hP Name (viewClosed_child hv 0) (viewClosed_child hv 1)
        (viewClosed_child hv 2) (viewClosed_child hv 3) (viewClosed_child hv 4) (viewClosed_child hv
        5) (viewClosed_child hv 6)
  | ExplainStmt _ type =>
      exact ExplainStmt_FormatSQL_closed hP type (viewClosed_child hv 0)
  | ExtractExpr _ _ =>
      exact ExtractExpr_FormatSQL_closed hP (viewClosed_list hv 0)
  | Fill _ =>
      exact Fill_FormatSQL_closed hP (viewClosed_child hv 0) (viewClosed_child hv 1)
        (viewClosed_child hv 2) (viewClosed_child hv 3)
  | FunctionExpr =>
      exact (viewClosed_withNode hv 0 hP.skip fun Name hName => (viewClosed_withNode hv 1 hP.skip
        fun Params hParams => FunctionExpr_FormatSQL_closed hP hName hParams))
  | GlobalInOperation _ =>
      exact GlobalInOperation_FormatSQL_closed hP (viewClosed_child hv 0)
  | GranteesClause _ _ Any None =>
      exact GranteesClause_FormatSQL_closed hP Any None (viewClosed_list hv 0) (viewClosed_list hv
        1)
  | HostClause _ _ HostType =>
      exact HostClause_FormatSQL_closed hP HostType (viewClosed_child hv 0)
  | IndexOperation Operation =>
      exact IndexOperation_FormatSQL_closed hP Operation (viewClosed_child hv 0) (viewClosed_child
        hv 1)
  | InterpolateClause _ _ =>
      exact InterpolateClause_FormatSQL_closed hP (viewClosed_list hv 0)
  | InterpolateItem =>
      exact (viewClosed_withNode hv 0 hP.skip fun Column hColumn => InterpolateItem_FormatSQL_closed
        hP hColumn (viewClosed_child hv 0))
  | IntervalExpr IntervalPos =>
      exact (viewClosed_withNode hv 0 hP.skip fun Unit hUnit => IntervalExpr_FormatSQL_closed hP
        IntervalPos (viewClosed_child hv 0) hUnit)
  | IntervalFrom _ =>
      exact (viewClosed_withNode hv 0 hP.skip fun Interval hInterval =>
        IntervalFrom_FormatSQL_closed hP hInterval (viewClosed_child hv 0))
  | IsNotNullExpr _ =>
      exact IsNotNullExpr_FormatSQL_closed hP (viewClosed_child hv 0)
  | IsNullExpr _ =>
      exact IsNullExpr_FormatSQL_closed hP (viewClosed_child hv 0)
  | JoinConstraintClause _ =>
      exact JoinConstraintClause_FormatSQL_closed hP (viewClosed_child hv 0) (viewClosed_child hv 1)
  | LimitByClause =>
      exact LimitByClause_FormatSQL_closed hP (viewClosed_child hv 0) (viewClosed_child hv 1)
  | LimitClause _ =>
      exact LimitClause_FormatSQL_closed hP (viewClosed_child hv 0) (viewClosed_child hv 1)
  | MapLiteral _ _ =>
      exact MapLiteral_FormatSQL_closed hP (viewClosed_list hv 0) (viewClosed_list hv 1)
  | NamedCollectionParam _ Overridable NotOverridable =>
      exact (viewClosed_withNode hv 0 hP.skip fun Name hName =>
        NamedCollectionParam_FormatSQL_closed hP Overridable NotOverridable hName (viewClosed_child
        hv 0))
  | NamedParameterExpr _ =>
      exact (viewClosed_withNode hv 0 hP.skip fun Name hName => NamedParameterExpr_FormatSQL_closed
        hP hName (viewClosed_child hv 0))
  | NegateExpr _ =>
      exact NegateExpr_FormatSQL_closed hP (viewClosed_child hv 0)
  | ObjectParams =>
      exact (viewClosed_withNode hv 0 hP.skip fun Params hParams => ObjectParams_FormatSQL_closed hP
        (viewClosed_child hv 0) hParams)
  | OnClause _ =>
      exact (viewClosed_withNode hv 0 hP.skip fun On hOn => OnClause_FormatSQL_closed hP hOn)
  | OperationExpr _ Kind =>
      exact OperationExpr_FormatSQL_closed hP Kind
  | OptimizeStmt _ _ HasFinal =>
      exact (viewClosed_withNode hv 0 hP.skip fun Table hTable => OptimizeStmt_FormatSQL_closed hP
        HasFinal hTable (viewClosed_child hv 0) (viewClosed_child hv 1) (viewClosed_child hv 2))
  | OrderByClause _ _ =>
      exact OrderByClause_FormatSQL_closed hP (viewClosed_list hv 0) (viewClosed_child hv 0)
  | OrderExpr _ Direction =>
      exact OrderExpr_FormatSQL_closed hP Direction (viewClosed_child hv 0) (viewClosed_child hv 1)
        (viewClosed_child hv 2)
  | ParamExprList _ _ =>
      exact (viewClosed_withNode hv 0 hP.skip fun Items hItems => ParamExprList_FormatSQL_closed hP
        hItems (viewClosed_child hv 0))
  | PartitionByClause _ =>
      exact PartitionByClause_FormatSQL_closed hP (viewClosed_child hv 0)
  | Path =>
      exact Path_FormatSQL_closed hP (viewClosed_list hv 0)
  | PlaceHolder _ _ type =>
      exact PlaceHolder_FormatSQL_closed hP type
  | PrimaryKeyClause _ =>
      exact PrimaryKeyClause_FormatSQL_closed hP (viewClosed_child hv 0)
  | ProjectionOrderByClause _ =>
      exact (viewClosed_withNode hv 0 hP.skip fun Columns hColumns =>
        ProjectionOrderByClause_FormatSQL_closed hP hColumns)
  | ProjectionSelectStmt _ _ =>
      exact (viewClosed_withNode hv 0 hP.skip fun SelectColumns hSelectColumns =>
        ProjectionSelectStmt_FormatSQL_closed hP (viewClosed_child hv 0) hSelectColumns
        (viewClosed_child hv 1) (viewClosed_child hv 2))
  | QueryParam _ _ =>
      exact (viewClosed_withNode hv 0 hP.skip fun Name hName => QueryParam_FormatSQL_closed hP hName
        (viewClosed_child hv 0))
  | RefreshExpr _ Frequency =>
      exact RefreshExpr_FormatSQL_closed hP Frequency (viewClosed_child hv 0) (viewClosed_child hv
        1)
  | RemovePropertyType _ =>
      exact RemovePropertyType_FormatSQL_closed hP (viewClosed_child hv 0)
  | RenameStmt _ _ RenameTarget =>
      exact RenameStmt_FormatSQL_closed hP RenameTarget (viewClosed_listPart hv 0) (viewClosed_child
        hv 0)
  | RoleName =>
      exact RoleName_FormatSQL_closed hP (viewClosed_child hv 0) (viewClosed_child hv 1)
        (viewClosed_child hv 2)
  | RoleRenamePair _ =>
      exact (viewClosed_withNode hv 0 hP.skip fun RoleName hRoleName =>
        RoleRenamePair_FormatSQL_closed hP hRoleName (viewClosed_child hv 0))
  | RoleSetting =>
      exact RoleSetting_FormatSQL_closed hP (viewClosed_list hv 0) (viewClosed_child hv 0)
  | SampleByClause _ =>
      exact SampleByClause_FormatSQL_closed hP (viewClosed_child hv 0)
  | SetStmt _ =>
      exact SetStmt_FormatSQL_closed hP (partsClosed_list (viewClosed_nodePart hv 0) 0)
  | SettingPair Operation =>
      exact (viewClosed_withNode hv 0 hP.skip fun Name hName => SettingPair_FormatSQL_closed hP
        Operation hName (viewClosed_child hv 0))
  | ShowStmt _ _ ShowType NotLike LikeType =>
      exact ShowStmt_FormatSQL_closed hP ShowType NotLike LikeType (viewClosed_child hv 0)
        (viewClosed_child hv 1) (viewClosed_child hv 2) (viewClosed_child hv 3) (viewClosed_child hv
        4)
  | SubQuery HasParen =>
      exact SubQuery_FormatSQL_closed hP HasParen (viewClosed_child hv 0)
  | SystemCtrlExpr _ _ Command type =>
      exact SystemCtrlExpr_FormatSQL_closed hP Command type (viewClosed_child hv 0)
  | SystemDropExpr _ _ type =>
      exact SystemDropExpr_FormatSQL_closed hP type
  | SystemFlushExpr _ _ Logs =>
      exact SystemFlushExpr_FormatSQL_closed hP Logs (viewClosed_child hv 0)
  | SystemReloadExpr _ _ type =>
      exact SystemReloadExpr_FormatSQL_closed hP type (viewClosed_child hv 0)
  | SystemStmt _ =>
      exact SystemStmt_FormatSQL_closed hP (viewClosed_child hv 0)
  | SystemSyncExpr _ =>
      exact (viewClosed_withNode hv 0 hP.skip fun Cluster hCluster =>
        SystemSyncExpr_FormatSQL_closed hP hCluster)
  | TTLClause _ _ =>
      exact TTLClause_FormatSQL_closed hP (viewClosed_list hv 0)
  | TableArgListExpr _ _ =>
      exact TableArgListExpr_FormatSQL_closed hP (viewClosed_list hv 0)
  | TableFunctionExpr =>
      exact (viewClosed_withNode hv 0 hP.skip fun Args hArgs => TableFunctionExpr_FormatSQL_closed
        hP (viewClosed_child hv 0) hArgs)
  | TableProjection IncludeProjectionKeyword _ =>
      exact (viewClosed_withNode hv 0 hP.skip fun Identifier hIdentifier => (viewClosed_withNode hv
        1 hP.skip fun Select hSelect => TableProjection_FormatSQL_closed hP IncludeProjectionKeyword
        hIdentifier hSelect))
  | TableSchemaClause _ _ =>
      exact TableSchemaClause_FormatSQL_closed hP (viewClosed_list hv 0) (viewClosed_child hv 0)
        (viewClosed_child hv 1)
  | TargetPair =>
      exact (viewClosed_withNode hv 0 hP.skip fun Old hOld => (viewClosed_withNode hv 1 hP.skip fun
        New hNew => TargetPair_FormatSQL_closed hP hOld hNew))
  | TopClause _ _ WithTies =>
      exact TopClause_FormatSQL_closed hP _ WithTies
  | TruncateTable _ _ IsTemporary IfExists =>
      exact (viewClosed_withNode hv 0 hP.skip fun Name hName => TruncateTable_FormatSQL_closed hP
        IsTemporary IfExists hName (viewClosed_child hv 0))
  | TypedPlaceholder _ _ =>
      exact (viewClosed_withNode hv 0 hP.skip fun Name hName => TypedPlaceholder_FormatSQL_closed hP
        hName (viewClosed_child hv 0))
  | UUID =>
      exact (viewClosed_withNode hv 0 hP.skip fun Value hValue => UUID_FormatSQL_closed hP hValue)
  | UnaryExpr _ Kind =>
      exact UnaryExpr_FormatSQL_closed hP Kind (viewClosed_child hv 0)
  | UpdateAssignment _ =>
      exact (viewClosed_withNode hv 0 hP.skip fun Column hColumn =>
        UpdateAssignment_FormatSQL_closed hP hColumn (viewClosed_child hv 0))
  | UseStmt _ _ =>
      exact (viewClosed_withNode hv 0 hP.skip fun Database hDatabase => UseStmt_FormatSQL_closed hP
        hDatabase)
  | UsingClause _ =>
      exact (viewClosed_withNode hv 0 hP.skip fun Using hUsing => UsingClause_FormatSQL_closed hP
        hUsing)
  | WindowClause _ _ =>
      exact WindowClause_FormatSQL_closed hP (viewClosed_list hv 0)
  | WindowDefinition _ =>
      exact WindowDefinition_FormatSQL_closed hP (viewClosed_child hv 0) (viewClosed_child hv 1)
  | WindowExpr _ _ =>
      exact WindowExpr_FormatSQL_closed hP (viewClosed_child hv 0) (viewClosed_child hv 1)
        (viewClosed_child hv 2)
  | WindowFrameClause _ type =>
      exact WindowFrameClause_FormatSQL_closed hP type (viewClosed_child hv 0)
  | WindowFrameCurrentRow _ _ =>
      exact WindowFrameCurrentRow_FormatSQL_closed hP
  | WindowFrameExtendExpr Direction _ =>
      exact WindowFrameExtendExpr_FormatSQL_closed hP Direction (viewClosed_child hv 0)
  | WindowFrameNumber _ Direction =>
      exact (viewClosed_withNode hv 0 hP.skip fun Number hNumber =>
        WindowFrameNumber_FormatSQL_closed hP Direction hNumber)
  | WindowFrameParam _ Direction =>
      exact (viewClosed_withNode hv 0 hP.skip fun Param hParam => WindowFrameParam_FormatSQL_closed
        hP Direction hParam)
  | WindowFrameUnbounded _ _ Direction =>
      exact WindowFrameUnbounded_FormatSQL_closed hP Direction
  | WindowFunctionExpr _ =>
      exact (viewClosed_withNode hv 0 hP.skip fun Function hFunction =>
        WindowFunctionExpr_FormatSQL_closed hP hFunction (viewClosed_child hv 0))
  | WithTimeoutClause _ =>
      exact (viewClosed_withNode hv 0 hP.skip fun Number hNumber =>
        WithTimeoutClause_FormatSQL_closed hP hNumber)

end

section
variable {P : (Formatter → Formatter) → Prop} (hP : RenderClosed P)
include hP

theorem Ident_FormatSQL_closed (i : Ident) : P (fun f => i.FormatSQL f) := by
  unfold Ident.FormatSQL
  split
  · exact hP.seq (hP.seq (hP.writeByte _) (hP.writeString _)) (hP.writeByte _)
  · split
    · exact hP.seq (hP.seq (hP.writeByte _) (hP.writeString _)) (hP.writeByte _)
    · split
      · exact hP.seq (hP.seq (hP.writeByte _) (hP.writeString _)) (hP.writeByte _)
      · exact hP.writeString _

theorem writeOperator_closed (op : TokenKind) (g n : Bool) :
    P (fun f => BinaryOperation.writeOperator f op g n) := by
  cases n <;> cases g
  · exact hP.seq hP.skip (hP.writeString op)
  · exact hP.seq (hP.writeString "GLOBAL ") (hP.writeString op)
  · exact hP.seq (hP.writeString "NOT ") (hP.writeString op)
  · exact hP.seq (hP.writeString "NOT ") (hP.writeString op)

theorem writeJSONPathIdents_closed :
    ∀ (xs : List Ident) (i : Nat), P (fun f => writeJSONPathIdents f i xs)
  | [], _ => hP.skip
  | x :: xs, i =>
      (hP.seq (hP.seq (ite_closed (i > 0) (hP.writeByte '.') hP.skip)
        (Ident_FormatSQL_closed hP x)) (writeJSONPathIdents_closed xs (i + 1)) :)

theorem JSONPath_FormatSQL_closed (j : JSONPath) : P (fun f => j.FormatSQL f) :=
  writeJSONPathIdents_closed hP j.Idents 0

theorem writeKeywords_closed :
    ∀ (ks : List String) (i : Nat), P (fun f => writeKeywords f i ks)
  | [], _ => hP.skip
  | k :: ks, i =>
      (hP.seq (hP.seq (ite_closed (i > 0) (hP.writeByte whitespace) hP.skip)
        (hP.writeString k)) (writeKeywords_closed ks (i + 1)) :)

theorem writeRoles_closed : ∀ (rs : List Ident) (i : Nat), P (fun f => writeRoles f i rs)
  | [], _ => hP.skip
  | r :: rs, i =>
      (hP.seq (hP.seq (ite_closed (i > 0) (hP.writeString ", ") hP.skip)
        (Ident_FormatSQL_closed hP r)) (writeRoles_closed rs (i + 1)) :)

theorem writeGrantOptions_closed : ∀ os : List String, P (fun f => writeGrantOptions f os)
  | [] => hP.skip
  | o :: os => (hP.seq (hP.writeString (" WITH " ++ o ++ " OPTION")) (writeGrantOptions_closed os) :)

theorem writeRangeBounds_closed :
    ∀ mn mx : Option Ident, P (fun f => writeRangeBounds f mn mx)
  | none, none => (hP.seq (hP.writeString "MIN ") hP.skip :)
  | some m, none => (hP.seq (hP.writeString "MIN ") (Ident_FormatSQL_closed hP m) :)
  | none, some x =>
      (hP.seq (hP.seq (hP.writeString "MIN ") (hP.writeString " MAX "))
        (Ident_FormatSQL_closed hP x) :)
  | some m, some x =>
      (hP.seq (hP.seq (hP.seq (hP.writeString "MIN ") (Ident_FormatSQL_closed hP m))
        (hP.writeString " MAX ")) (Ident_FormatSQL_closed hP x) :)

set_option linter.unusedSectionVars false in
set_option maxHeartbeats 8000000 in
mutual

theorem FormatSQL_closed : ∀ e : Expr, P (fun f => e.FormatSQL f)
  | .Ident i => Ident_FormatSQL_closed hP i
  | .NumberLiteral _ _ s _ => hP.writeString s
  | .StringLiteral _ _ s =>
      (hP.seq (hP.seq (hP.writeByte singleQuoteByte) (hP.writeString s))
        (hP.writeByte singleQuoteByte) :)
  | .NestedIdentifier i none => Ident_FormatSQL_closed hP i
  | .NestedIdentifier i (some d) =>
      (hP.seq (hP.seq (Ident_FormatSQL_closed hP i) (hP.writeByte '.'))
        (Ident_FormatSQL_closed hP d) :)
  | .TableIdentifier none t => Ident_FormatSQL_closed hP t
  | .TableIdentifier (some d) t =>
      (hP.seq (hP.seq (Ident_FormatSQL_closed hP d) (hP.writeByte '.'))
        (Ident_FormatSQL_closed hP t) :)
  | .BinaryOperation l op r g n =>
      (hP.onMode (BinaryOperation.isLogicalOp op g n)
        (hP.seq (hP.seq (hP.seq (hP.seq (writeLogicalOperand_closed l) hP.newLine)
          (writeOperator_closed hP op g n)) hP.newLine) (writeLogicalOperand_closed r))
        (hP.seq (hP.seq (hP.seq (hP.seq (WriteExpr_closed l)
          (ite_closed (op ≠ TokenKindDash) (hP.writeByte whitespace) hP.skip))
          (writeOperator_closed hP op g n))
          (ite_closed (op ≠ TokenKindDash) (hP.writeByte whitespace) hP.skip))
          (WriteExpr_closed r)) :)
  | .NotExpr _ e =>
      (hP.seq (hP.seq (hP.writeString "NOT") (hP.writeByte whitespace)) (WriteExpr_closed e) :)
  | .AliasExpr e _ a =>
      (hP.seq (hP.seq
        (ite_closed (isSelectQuery e = true)
          (hP.seq (hP.seq (hP.writeByte '(') (WriteExpr_closed e)) (hP.writeByte ')'))
          (WriteExpr_closed e))
        (hP.writeString " AS ")) (WriteExpr_closed a) :)
  | .ColumnExpr e none => WriteExpr_closed e
  | .ColumnExpr e (some a) =>
      (hP.seq (hP.seq (WriteExpr_closed e) (hP.writeString " AS "))
        (Ident_FormatSQL_closed hP a) :)
  | .SelectItem e ms none => (hP.seq (WriteExpr_closed e) (writeModifiers_closed ms) :)
  | .SelectItem e ms (some a) =>
      (hP.seq (hP.seq (hP.seq (WriteExpr_closed e) (writeModifiers_closed ms))
        (hP.writeString " AS ")) (Ident_FormatSQL_closed hP a) :)
  | .TableExpr _ _ a e fin =>
      (hP.seq (hP.seq (WriteExpr_closed e) (writeSpaced_closed a))
        (ite_closed (fin = true) (hP.writeString " FINAL") hP.skip) :)
  | .JoinTableExpr t _ s fin =>
      (hP.seq (hP.seq (FormatSQL_closed t) (writeSpaced_closed s))
        (ite_closed (fin = true) (hP.writeString " FINAL") hP.skip) :)
  | .JoinExpr _ l r _ _ => (hP.seq (WriteExpr_closed l) (writeJoinSQL_closed r) :)
  | .FromClause _ e =>
      (hP.seq (hP.writeString "FROM") (hP.indented (hP.seq hP.brk (WriteExpr_closed e))) :)
  | .WhereClause _ e =>
      (hP.seq (hP.writeString "WHERE")
        (ite_closed (isLogicalBinaryOp e = true) (hP.seq hP.brk (WriteExpr_closed e))
          (hP.indented (hP.seq hP.brk (WriteExpr_closed e)))) :)
  | .PrewhereClause _ e => (hP.seq (hP.writeString "PREWHERE ") (WriteExpr_closed e) :)
  | .HavingClause _ e => (hP.seq (hP.writeString "HAVING ") (WriteExpr_closed e) :)
  | .SelectQuery _ _ w t hd d si fr wi pw wh gb _ hv ob lb li se fo ua ud ex =>
      (hP.seq (hP.seq (hP.seq (hP.seq (hP.seq (hP.seq (hP.seq (hP.seq (hP.seq (hP.seq (hP.seq
        (hP.seq (hP.seq (hP.seq (hP.seq (hP.seq
          (writeWith_closed w)
          (hP.writeString "SELECT"))
          (ite_closed (hd = true)
            (hP.seq (hP.writeString " DISTINCT") (writeSpaced_closed d)) hP.skip))
          (writeSpaced_closed t))
          (hP.indented (writeBreakSeparated_closed si 0)))
          (writeClause_closed fr)) (writeClause_closed wi)) (writeClause_closed pw))
          (writeClause_closed wh)) (writeClause_closed gb)) (writeClause_closed hv))
          (writeClause_closed ob)) (writeClause_closed lb)) (writeClause_closed li))
          (writeClause_closed se)) (writeClause_closed fo))
          (ite_closed (ua.isSome = true) (writeSetOperation_closed "UNION ALL" ua)
            (ite_closed (ud.isSome = true) (writeSetOperation_closed "UNION DISTINCT" ud)
              (writeSetOperation_closed "EXCEPT" ex))) :)
  | .WithClause _ _ CTEs =>
      (hP.seq (hP.writeString "WITH ") (writeCommaSeparated_closed CTEs 0) :)
  | .TernaryOperation c t e =>
      (hP.seq (hP.seq (hP.seq (hP.seq (WriteExpr_closed c) (hP.writeString " ? "))
        (WriteExpr_closed t)) (hP.writeString " : ")) (WriteExpr_closed e) :)
  | .NullLiteral _ => hP.writeString "NULL"
  | .NotNullLiteral _ _ => hP.writeString "NOT NULL"
  | .ColumnDef _ _ name ty notNull nullable dflt mat als codec ttl comment _ =>
      (hP.seq (hP.seq (hP.seq (hP.seq (hP.seq (hP.seq (hP.seq (hP.seq
        (FormatSQL_closed name) (writeSpaced_closed ty))
        (ite_closed (notNull.isSome = true) (hP.writeString " NOT NULL")
          (ite_closed (nullable.isSome = true) (hP.writeString " NULL") hP.skip)))
        (writeIntroduced_closed " DEFAULT " dflt))
        (writeIntroduced_closed " MATERIALIZED " mat))
        (writeIntroduced_closed " ALIAS " als))
        (writeSpaced_closed codec)) (writeSpaced_closed ttl))
        (writeIntroduced_closed " COMMENT " comment) :)
  | .CreateDatabase _ _ name ine cluster engine comment =>
      (hP.seq (hP.seq (hP.seq (hP.seq (hP.seq
        (hP.writeString "CREATE DATABASE ")
        (ite_closed (ine = true) (hP.writeString "IF NOT EXISTS ") hP.skip))
        (WriteExpr_closed name)) (writeSpaced_closed cluster)) (writeClause_closed engine))
        (writeIntroduced_closed " COMMENT " comment) :)
  | .AlterTable _ _ t cluster clauses =>
      (hP.seq (hP.seq (hP.seq (hP.writeString "ALTER TABLE ") (FormatSQL_closed t))
        (writeClause_closed cluster)) (writeAlterExprs_closed clauses) :)
  | .AlterTableDropPartition _ detached partition settings =>
      (hP.seq (hP.seq (hP.seq (hP.writeString "DROP ")
        (ite_closed (detached = true) (hP.writeString "DETACHED ") hP.skip))
        (FormatSQL_closed partition)) (writeClause_closed settings) :)
  | .TTLPolicyRuleAction _ _ action codec =>
      (hP.seq (hP.writeString action) (writeSpaced_closed codec) :)
  | .TTLPolicyRule _ vol disk action =>
      ite_closed (vol.isSome = true) (writeIntroduced_closed "TO VOLUME " vol)
        (ite_closed (disk.isSome = true) (writeIntroduced_closed "TO DISK " disk)
          (WriteExpr_closed action))
  | .TTLPolicy item wh gb =>
      (hP.seq (hP.seq (WriteExpr_closed item) (writeSpaced_closed wh))
        (writeSpaced_closed gb) :)
  | .TTLExpr _ e pol => (hP.seq (WriteExpr_closed e) (writeSpaced_closed pol) :)
  | .RatioExpr n d => (hP.seq (FormatSQL_closed n) (writeIntroduced_closed "/" d) :)
  | .SampleClause _ r o =>
      (hP.seq (hP.seq (hP.writeString "SAMPLE ") (FormatSQL_closed r))
        (writeIntroduced_closed " OFFSET " o) :)
  | .ScalarType n => Ident_FormatSQL_closed hP n
  | .PropertyType n => Ident_FormatSQL_closed hP n
  | .TypeWithParams _ _ n ps =>
      (hP.seq (hP.seq (hP.seq (Ident_FormatSQL_closed hP n) (hP.writeByte '('))
        (writeCommaSeparated_closed ps 0)) (hP.writeByte ')') :)
  | .ComplexType _ _ n ps =>
      (hP.seq (hP.seq (hP.seq (Ident_FormatSQL_closed hP n) (hP.writeByte '('))
        (writeCommaSeparated_closed ps 0)) (hP.writeByte ')') :)
  | .NestedType _ _ n cs =>
      (hP.seq (hP.seq (hP.seq (Ident_FormatSQL_closed hP n) (hP.writeByte '('))
        (writeCommaTerminated_closed cs)) (hP.writeByte ')') :)
  | .EnumValue n v =>
      (hP.seq (hP.seq (FormatSQL_closed n) (hP.writeByte '=')) (FormatSQL_closed v) :)
  | .EnumType n _ _ vs =>
      (hP.seq (hP.seq (hP.seq (Ident_FormatSQL_closed hP n) (hP.writeByte '('))
        (writeCommaSeparated_closed vs 0)) (hP.writeByte ')') :)
  | .JSONType n o => (hP.seq (Ident_FormatSQL_closed hP n) (writeJSONOptions_closed o) :)
  | .AlterTableAddColumn _ _ c ine after settings =>
      (hP.seq (hP.seq (hP.seq (hP.seq (hP.writeString "ADD COLUMN ")
        (ite_closed (ine = true) (hP.writeString "IF NOT EXISTS ") hP.skip))
        (FormatSQL_closed c)) (writeIntroduced_closed " AFTER " after))
        (writeClause_closed settings) :)
  | .AlterTableDropColumn _ c ie =>
      (hP.seq (hP.seq (hP.writeString "DROP COLUMN ")
        (ite_closed (ie = true) (hP.writeString "IF EXISTS ") hP.skip))
        (FormatSQL_closed c) :)
  | .PartitionClause _ e id all =>
      (hP.seq (hP.writeString "PARTITION ")
        (ite_closed (id.isSome = true) (WriteExpr_closed id)
          (ite_closed (all = true) (hP.writeString "ALL") (WriteExpr_closed e))) :)
  | .SettingExpr _ n e =>
      (hP.seq (hP.seq (Ident_FormatSQL_closed hP n) (hP.writeByte '=')) (WriteExpr_closed e) :)
  | .SettingsClause _ _ items =>
      (hP.seq (hP.writeString "SETTINGS") (hP.indented (writeBreakSeparated_closed items 0)) :)
  | .DictionaryLifetimeClause _ mn mx v _ =>
      (hP.seq (hP.seq (hP.writeString "LIFETIME(")
        (ite_closed (v.isSome = true) (WriteExpr_closed v)
          (ite_closed (mn.isSome = true ∧ mx.isSome = true)
            (hP.seq (hP.seq (hP.seq (hP.writeString "MIN ") (WriteExpr_closed mn))
              (hP.writeString " MAX ")) (WriteExpr_closed mx))
            hP.skip)))
        (hP.writeString ")") :)
  | .DictionaryRangeClause _ mn mx _ =>
      (hP.seq (hP.seq (hP.writeString "RANGE(") (writeRangeBounds_closed hP mn mx))
        (hP.writeString ")") :)
  | .DictionaryAttribute _ n ty dflt e h i o =>
      (hP.seq (hP.seq (hP.seq (hP.seq (hP.seq (hP.seq (hP.seq
        (Ident_FormatSQL_closed hP n) (hP.writeByte whitespace)) (WriteExpr_closed ty))
        (writeIntroduced_closed " DEFAULT " dflt)) (writeIntroduced_closed " EXPRESSION " e))
        (ite_closed (h = true) (hP.writeString " HIERARCHICAL") hP.skip))
        (ite_closed (i = true) (hP.writeString " INJECTIVE") hP.skip))
        (ite_closed (o = true) (hP.writeString " IS_OBJECT_ID") hP.skip) :)
  | .WhenClause _ _ w th _ e =>
      (hP.seq (hP.seq (hP.seq (hP.seq (hP.writeString "WHEN ") (WriteExpr_closed w))
        (hP.writeString " THEN ")) (WriteExpr_closed th)) (writeIntroduced_closed " ELSE " e) :)
  | .CaseExpr _ _ e ws _ el =>
      (hP.seq (hP.seq (hP.seq (hP.seq (hP.writeString "CASE") (writeSpaced_closed e))
        (hP.indented (hP.seq (writeWhens_closed ws)
          (ite_closed (el.isSome = true)
            (hP.seq (hP.seq hP.brk (hP.writeString "ELSE ")) (WriteExpr_closed el)) hP.skip))))
        hP.brk) (hP.writeString "END") :)
  | .GroupByClause _ _ a e c r t =>
      (hP.seq (hP.writeString "GROUP BY")
        (hP.indented (hP.seq (hP.seq (hP.seq (hP.seq
          (ite_closed (a ≠ "") (hP.seq hP.brk (hP.writeString a)) hP.skip)
          (ite_closed (e.isSome = true)
            (hP.seq (ite_closed (a = "") hP.brk hP.skip) (WriteExpr_closed e)) hP.skip))
          (ite_closed (c = true) (hP.seq hP.brk (hP.writeString "WITH CUBE")) hP.skip))
          (ite_closed (r = true) (hP.seq hP.brk (hP.writeString "WITH ROLLUP")) hP.skip))
          (ite_closed (t = true) (hP.seq hP.brk (hP.writeString "WITH TOTALS")) hP.skip))) :)
  | .ClusterClause _ e => (hP.seq (hP.writeString "ON CLUSTER ") (WriteExpr_closed e) :)
  | .PrivilegeClause _ _ ks ps => (hP.seq (writeKeywords_closed hP ks 0) (WriteExpr_closed ps) :)
  | .GrantPrivilegeStmt _ _ cluster ps target roles ws =>
      (hP.seq (hP.seq (hP.seq (hP.seq (hP.seq (hP.seq (hP.seq
        (hP.writeString "GRANT ") (writeSpaced_closed cluster))
        (writeCommaSeparated_closed ps 0)) (hP.writeString " ON ")) (FormatSQL_closed target))
        (hP.writeString " TO ")) (writeRoles_closed hP roles 0)) (writeGrantOptions_closed hP ws) :)
  | .TableIndex _ n c ty g =>
      (hP.seq (hP.seq (hP.seq (hP.seq (hP.seq (hP.seq (hP.seq (hP.seq (hP.seq (hP.seq
        (hP.seq (hP.seq (hP.writeString "INDEX") (hP.writeByte whitespace))
        (FormatSQL_closed n))
        (ite_closed ((c.FormatSQL NewFormatter).String.length > 0
            ∧ (c.FormatSQL NewFormatter).String.data.head? ≠ some '(')
          (hP.writeByte whitespace) hP.skip))
        (hP.writeString (c.FormatSQL NewFormatter).String))
        (hP.writeByte whitespace)) (hP.writeString "TYPE")) (hP.writeByte whitespace))
        (WriteExpr_closed ty)) (hP.writeByte whitespace)) (hP.writeString "GRANULARITY"))
        (hP.writeByte whitespace)) (FormatSQL_closed g) :)
  | .AlterTableAddIndex _ _ index ine after =>
      (hP.seq (hP.seq (hP.seq (hP.writeString "ADD ") (FormatSQL_closed index))
        (ite_closed (ine = true) (hP.writeString "IF NOT EXISTS ") hP.skip))
        (writeIntroduced_closed " AFTER " after) :)
  | .AlterTableAddProjection _ _ ine proj after =>
      (hP.seq (hP.seq (hP.seq (hP.writeString "ADD PROJECTION ")
        (ite_closed (ine = true) (hP.writeString "IF NOT EXISTS ") hP.skip))
        (FormatSQL_closed proj)) (writeIntroduced_closed " AFTER " after) :)
  | .FormatClause _ n => (hP.seq (hP.writeString "FORMAT ") (Ident_FormatSQL_closed hP n) :)
  | .AssignmentValues _ _ vs =>
      (hP.seq (hP.seq (hP.writeByte '(') (writeCommaSeparated_closed vs 0)) (hP.writeByte ')') :)
  | .InsertStmt _ fmt tk table names vs sel =>
      (hP.seq (hP.seq (hP.seq (hP.seq (hP.seq
        (hP.writeString "INSERT INTO ")
        (ite_closed (tk = true) (hP.writeString "TABLE ") hP.skip))
        (WriteExpr_closed table))
        (ite_closed (names.isSome = true)
          (hP.seq hP.brk (hP.indented (WriteExpr_closed names))) hP.skip))
        (writeSpaced_closed fmt))
        (ite_closed (sel.isSome = true) (writeClause_closed sel)
          (ite_closed (vs.length > 0)
            (hP.seq (hP.seq hP.brk (hP.writeString "VALUES"))
              (hP.indented (writeInsertValues_closed vs)))
            hP.skip)) :)
  | .Node kind nodes children lists =>
      NodeKind_FormatSQL_closed (renderClosed_base hP) kind ⟨nodes, children, lists⟩
        ⟨⟨formatItems_closed nodes, formatChildren_closed children,
            formatLists_closed lists⟩,
          formatPartsItems_closed nodes, formatPartsChildren_closed children,
          formatPartsLists_closed lists⟩
termination_by e => sizeOf e

theorem writeWhens_closed : ∀ xs : List Expr, P (fun f => writeWhens f xs)
  | [] => hP.skip
  | x :: xs => (hP.seq (hP.seq hP.brk (FormatSQL_closed x)) (writeWhens_closed xs) :)
termination_by xs => sizeOf xs

theorem writeInsertValues_closed : ∀ xs : List Expr, P (fun f => writeInsertValues f xs)
  | [] => hP.skip
  | x :: xs =>
      (hP.seq (hP.seq (hP.seq hP.brk (FormatSQL_closed x))
        (ite_closed (xs.isEmpty = true) hP.skip (hP.writeByte ',')))
        (writeInsertValues_closed xs) :)
termination_by xs => sizeOf xs

theorem writeCommaTerminated_closed :
    ∀ xs : List Expr, P (fun f => writeCommaTerminated f xs)
  | [] => hP.skip
  | x :: xs =>
      (hP.seq (hP.seq (FormatSQL_closed x)
        (ite_closed (xs.isEmpty = true) hP.skip (hP.writeString ", ")))
        (writeCommaTerminated_closed xs) :)
termination_by xs => sizeOf xs

theorem writeAssigned_closed (name : String) :
    ∀ e : Option Expr, P (fun f => writeAssigned f name e)
  | none => hP.skip
  | some x => (hP.seq (hP.seq (hP.writeString name) (hP.writeByte '=')) (FormatSQL_closed x) :)
termination_by e => sizeOf e

theorem writeJSONColumn_closed (wroteAny : Bool) :
    ∀ c : Option (JSONTypeHint Expr), P (fun f => writeJSONColumn f wroteAny c)
  | none => hP.skip
  | some ⟨none, _⟩ => hP.skip
  | some ⟨some _, none⟩ => hP.skip
  | some ⟨some path, some ty⟩ =>
      (hP.seq (hP.seq (hP.seq (ite_closed (wroteAny = true) (hP.writeByte whitespace) hP.skip)
        (JSONPath_FormatSQL_closed hP path)) (hP.writeByte whitespace))
        (FormatSQL_closed ty) :)
termination_by c => sizeOf c

theorem JSONOption_FormatSQL_closed :
    ∀ item : JSONOption Expr, P (fun f => JSONOption.FormatSQL item f)
  | ⟨none, sr, mp, mt, c⟩ =>
      (hP.seq (hP.seq (hP.seq (hP.seq hP.skip
        (writeIntroduced_closed " SKIP REGEXP " sr))
        (writeAssigned_closed "max_dynamic_paths" mp))
        (writeAssigned_closed "max_dynamic_types" mt))
        (writeJSONColumn_closed _ c) :)
  | ⟨some path, sr, mp, mt, c⟩ =>
      (hP.seq (hP.seq (hP.seq (hP.seq
        (hP.seq (hP.writeString "SKIP ") (JSONPath_FormatSQL_closed hP path))
        (writeIntroduced_closed " SKIP REGEXP " sr))
        (writeAssigned_closed "max_dynamic_paths" mp))
        (writeAssigned_closed "max_dynamic_types" mt))
        (writeJSONColumn_closed _ c) :)
termination_by item => sizeOf item

theorem writeJSONItems_closed :
    ∀ (items : List (JSONOption Expr)) (g : Nat) (w : Bool),
      P (fun f => writeJSONItems f g w items)
  | [], _, _ => hP.skip
  | item :: rest, g, w =>
      ite_closed (item.group = g)
        (hP.seq (hP.seq (ite_closed (w = true) (hP.writeString ", ") hP.skip)
          (JSONOption_FormatSQL_closed item)) (writeJSONItems_closed rest g true))
        (writeJSONItems_closed rest g w)
termination_by items _ _ => sizeOf items

theorem writeJSONOptions_closed :
    ∀ o : Option (JSONOptions Expr), P (fun f => writeJSONOptions f o)
  | none => hP.skip
  | some ⟨_, _, items⟩ =>
      (hP.seq (hP.seq (hP.seq (hP.seq (hP.writeByte '(')
        (writeJSONItems_closed items 0 false))
        (writeJSONItems_closed items 1 _))
        (writeJSONItems_closed items 2 _))
        (hP.writeByte ')') :)
termination_by o => sizeOf o

theorem writeWith_closed : ∀ w : Option Expr, P (fun f => writeWith f w)
  | none => hP.skip
  | some e => by
      cases e
      case WithClause p q CTEs =>
        exact (hP.seq (hP.seq (hP.writeString "WITH")
          (hP.indented (writeBreakSeparated_closed CTEs 0))) hP.brk :)
      all_goals exact hP.skip
termination_by w => sizeOf w

theorem writeCommaSeparated_closed :
    ∀ (xs : List Expr) (i : Nat), P (fun f => writeCommaSeparated f i xs)
  | [], _ => hP.skip
  | x :: xs, i =>
      (hP.seq (hP.seq (ite_closed (i > 0) (hP.writeString ", ") hP.skip)
        (FormatSQL_closed x)) (writeCommaSeparated_closed xs (i + 1)) :)
termination_by xs _ => sizeOf xs

theorem writeAlterExprs_closed : ∀ xs : List Expr, P (fun f => writeAlterExprs f xs)
  | [] => hP.skip
  | x :: xs =>
      (hP.seq (hP.seq (hP.seq hP.brk (FormatSQL_closed x))
        (ite_closed (xs.isEmpty = true) hP.skip (hP.writeString ",")))
        (writeAlterExprs_closed xs) :)
termination_by xs => sizeOf xs

theorem writeIntroduced_closed (keyword : String) :
    ∀ e : Option Expr, P (fun f => writeIntroduced f keyword e)
  | none => hP.skip
  | some x => (hP.seq (hP.writeString keyword) (FormatSQL_closed x) :)
termination_by e => sizeOf e

theorem writeSetOperation_closed (keyword : String) :
    ∀ e : Option Expr, P (fun f => writeSetOperation f keyword e)
  | none => hP.skip
  | some u =>
      (hP.seq (hP.seq (hP.seq hP.brk (hP.writeString keyword)) hP.brk) (FormatSQL_closed u) :)
termination_by e => sizeOf e

theorem WriteExpr_closed : ∀ e : Option Expr, P (fun f => WriteExpr f e)
  | none => hP.skip
  | some e => FormatSQL_closed e
termination_by e => sizeOf e

theorem writeLogicalOperand_closed : ∀ e : Option Expr, P (fun f => writeLogicalOperand f e)
  | none => hP.indented hP.skip
  | some e =>
      ite_closed (isLogicalBinaryOp (some e) = true) (FormatSQL_closed e)
        (hP.indented (FormatSQL_closed e))
termination_by e => sizeOf e

theorem writeModifiers_closed : ∀ ms : List Expr, P (fun f => writeModifiers f ms)
  | [] => hP.skip
  | m :: ms =>
      (hP.seq (hP.seq (hP.writeByte whitespace) (FormatSQL_closed m))
        (writeModifiers_closed ms) :)
termination_by ms => sizeOf ms

theorem writeBreakSeparated_closed :
    ∀ (xs : List Expr) (i : Nat), P (fun f => writeBreakSeparated f i xs)
  | [], _ => hP.skip
  | x :: xs, i =>
      (hP.seq (hP.seq (ite_closed (i = 0) hP.brk (hP.seq (hP.writeByte ',') hP.brk))
        (FormatSQL_closed x)) (writeBreakSeparated_closed xs (i + 1)) :)
termination_by xs _ => sizeOf xs

theorem writeSpaced_closed : ∀ e : Option Expr, P (fun f => writeSpaced f e)
  | none => hP.skip
  | some e => (hP.seq (hP.writeByte whitespace) (FormatSQL_closed e) :)
termination_by e => sizeOf e

theorem writeClause_closed : ∀ e : Option Expr, P (fun f => writeClause f e)
  | none => hP.skip
  | some e => (hP.seq hP.brk (FormatSQL_closed e) :)
termination_by e => sizeOf e

theorem writeJoinSQL_closed : ∀ e : Option Expr, P (fun f => writeJoinSQL f e)
  | none => hP.skip
  | some (.JoinExpr _ l r ms c) =>
      (hP.seq
        (ite_closed (ms.length = 0) (hP.seq (hP.writeByte ',') (WriteExpr_closed l))
          (hP.seq (hP.seq hP.brk (hP.writeString (" ".intercalate ms)))
            (hP.indented (hP.seq (hP.seq hP.brk (WriteExpr_closed l)) (writeSpaced_closed c)))))
        (writeJoinSQL_closed r) :)
  | some e => by
      cases e
      case JoinExpr p l r ms c =>
        exact (hP.seq
          (ite_closed (ms.length = 0) (hP.seq (hP.writeByte ',') (WriteExpr_closed l))
            (hP.seq (hP.seq hP.brk (hP.writeString (" ".intercalate ms)))
              (hP.indented
                (hP.seq (hP.seq hP.brk (WriteExpr_closed l)) (writeSpaced_closed c)))))
          (writeJoinSQL_closed r) :)
      all_goals exact (hP.seq (hP.writeByte ',') (FormatSQL_closed _) :)
termination_by e => sizeOf e

theorem formatItems_closed : ∀ xs : List Expr, ListClosed P (formatItems xs)
  | [] => fun _ h => by cases h
  | x :: rest => fun r h => by
      rcases List.mem_cons.mp h with h | h
      · rw [h]
        exact FormatSQL_closed x
      · exact formatItems_closed rest r h
termination_by xs => sizeOf xs

theorem formatChildren_closed :
    ∀ cs : List (Option Expr), ∀ c ∈ formatChildren cs, OptClosed P c
  | [] => fun _ h => by cases h
  | none :: rest => fun c h => by
      rcases List.mem_cons.mp h with h | h
      · rw [h]
        exact optClosed_none P
      · exact formatChildren_closed rest c h
  | some x :: rest => fun c h => by
      rcases List.mem_cons.mp h with h | h
      · rw [h]
        intro r hr
        cases hr
        exact FormatSQL_closed x
      · exact formatChildren_closed rest c h
termination_by cs => sizeOf cs

theorem formatLists_closed :
    ∀ ls : List (List Expr), ∀ l ∈ formatLists ls, ListClosed P l
  | [] => fun _ h => by cases h
  | xs :: rest => fun l h => by
      rcases List.mem_cons.mp h with h | h
      · rw [h]
        exact formatItems_closed xs
      · exact formatLists_closed rest l h
termination_by ls => sizeOf ls

theorem formatParts_closed (e : Expr) : PartsClosed P (formatParts e) := by
  cases e
  case Node kind nodes children lists =>
    exact ⟨formatItems_closed nodes, formatChildren_closed children,
      formatLists_closed lists⟩
  case SettingsClause p q Items =>
    exact ⟨listClosed_nil P, fun _ h => (by cases h), fun l hl => by
      rcases List.mem_cons.mp hl with hl | hl
      · rw [hl]
        exact formatItems_closed Items
      · cases hl⟩
  all_goals exact partsClosed_empty P
termination_by sizeOf e

theorem formatPartsItems_closed :
    ∀ xs : List Expr, ∀ p ∈ formatPartsItems xs, PartsClosed P p
  | [] => fun _ h => by cases h
  | x :: rest => fun p h => by
      rcases List.mem_cons.mp h with h | h
      · rw [h]
        exact formatParts_closed x
      · exact formatPartsItems_closed rest p h
termination_by xs => sizeOf xs

theorem formatPartsChildren_closed :
    ∀ cs : List (Option Expr), ∀ p ∈ formatPartsChildren cs, PartsClosed P p
  | [] => fun _ h => by cases h
  | none :: rest => fun p h => by
      rcases List.mem_cons.mp h with h | h
      · rw [h]
        exact partsClosed_empty P
      · exact formatPartsChildren_closed rest p h
  | some x :: rest => fun p h => by
      rcases List.mem_cons.mp h with h | h
      · rw [h]
        exact formatParts_closed x
      · exact formatPartsChildren_closed rest p h
termination_by cs => sizeOf cs

theorem formatPartsLists_closed :
    ∀ ls : List (List Expr), ∀ l ∈ formatPartsLists ls, ∀ p ∈ l, PartsClosed P p
  | [] => fun _ h => by cases h
  | xs :: rest => fun l h => by
      rcases List.mem_cons.mp h with h | h
      · rw [h]
        exact formatPartsItems_closed xs
      · exact formatPartsLists_closed rest l h
termination_by ls => sizeOf ls

end

end

/-! ## Rendering keeps the mode, the indent unit and the indent level -/

theorem Framed_closed : RenderClosed Framed where
  skip := fun f => ⟨rfl, rfl, fun _ => rfl⟩
  seq := by
    intro T₁ T₂ h₁ h₂ f
    obtain ⟨a₁, b₁, c₁⟩ := h₁ f
    obtain ⟨a₂, b₂, c₂⟩ := h₂ (T₁ f)
    refine ⟨a₂.trans a₁, b₂.trans b₁, fun h => ?_⟩
    have e₁ := c₁ h
    exact (c₂ (by rw [e₁]; exact h)).trans e₁
  writeByte := fun b f => ⟨by simp, by simp, fun _ => by simp⟩
  writeString := fun s f => ⟨by simp, by simp, fun _ => by simp⟩
  newLine := fun f => ⟨by simp, by simp, fun _ => by simp⟩
  brk := fun f => ⟨by simp, by simp, fun _ => by simp⟩
  indented := by
    intro T h f
    obtain ⟨a, b, c⟩ := h f.Indent
    refine ⟨by simp [a], by simp [b], fun h0 => ?_⟩
    have e : (T f.Indent).indentLevel = f.indentLevel + 1 := c (by simp; omega)
    rw [Dedent_indentLevel _ (by rw [e]; omega), e]
    omega
  onMode := by
    intro c T₁ T₂ h₁ h₂ f
    by_cases h : c = true ∧ f.mode = FormatModeBeautify
    · simpa [h] using h₁ f
    · simpa only [h, if_false] using h₂ f

theorem FormatSQL_mode (e : Expr) (f : Formatter) : (e.FormatSQL f).mode = f.mode :=
  (FormatSQL_closed Framed_closed e f).1

theorem FormatSQL_indent (e : Expr) (f : Formatter) : (e.FormatSQL f).indent = f.indent :=
  (FormatSQL_closed Framed_closed e f).2.1

theorem FormatSQL_indentLevel (e : Expr) (f : Formatter) (h : 0 ≤ f.indentLevel) :
    (e.FormatSQL f).indentLevel = f.indentLevel :=
  (FormatSQL_closed Framed_closed e f).2.2 h

theorem WriteExpr_mode (e : Option Expr) (f : Formatter) : (WriteExpr f e).mode = f.mode :=
  (WriteExpr_closed Framed_closed e f).1

theorem WriteExpr_indent (e : Option Expr) (f : Formatter) :
    (WriteExpr f e).indent = f.indent :=
  (WriteExpr_closed Framed_closed e f).2.1

theorem WriteExpr_indentLevel (e : Option Expr) (f : Formatter) (h : 0 ≤ f.indentLevel) :
    (WriteExpr f e).indentLevel = f.indentLevel :=
  (WriteExpr_closed Framed_closed e f).2.2 h

/-! ## Compact rendering appends a text that depends on the tree alone -/

theorem WriteByte_compact (f : Formatter) (b : Char) (h : f.mode ≠ FormatModeBeautify) :
    (f.WriteByte b).builder = f.builder ++ [b] := by
  simp [Formatter.WriteByte, h]

theorem writeBytes_compact (bs : List Char) (f : Formatter)
    (h : f.mode ≠ FormatModeBeautify) : (f.writeBytes bs).builder = f.builder ++ bs := by
  induction bs generalizing f with
  | nil => simp [Formatter.writeBytes]
  | cons b bs ih =>
      simp only [Formatter.writeBytes]
      rw [ih _ (by simpa using h), WriteByte_compact _ _ h]
      simp

theorem WriteString_compact (f : Formatter) (s : String) (h : f.mode ≠ FormatModeBeautify) :
    (f.WriteString s).builder = f.builder ++ s.data :=
  writeBytes_compact s.data f h

theorem CompactUniform_closed : RenderClosed CompactUniform where
  skip := fun f g _ _ => ⟨rfl, rfl, [], by simp, by simp⟩
  seq := by
    intro T₁ T₂ h₁ h₂ f g hf hg
    obtain ⟨a₁, b₁, t₁, c₁, d₁⟩ := h₁ f g hf hg
    obtain ⟨a₂, b₂, t₂, c₂, d₂⟩ := h₂ (T₁ f) (T₁ g) (by rw [a₁]; exact hf) (by rw [b₁]; exact hg)
    exact ⟨a₂.trans a₁, b₂.trans b₁, t₁ ++ t₂, by rw [c₂, c₁, List.append_assoc],
      by rw [d₂, d₁, List.append_assoc]⟩
  writeByte := fun b f g hf hg =>
    ⟨by simp, by simp, [b], WriteByte_compact f b hf, WriteByte_compact g b hg⟩
  writeString := fun s f g hf hg =>
    ⟨by simp, by simp, s.data, WriteString_compact f s hf, WriteString_compact g s hg⟩
  newLine := fun f g hf hg =>
    ⟨by simp, by simp, [], by simp [Formatter.NewLine, hf], by simp [Formatter.NewLine, hg]⟩
  brk := fun f g hf hg =>
    ⟨by simp, by simp, [whitespace], by simp [Formatter.Break, hf, WriteByte_compact],
      by simp [Formatter.Break, hg, WriteByte_compact]⟩
  indented := by
    intro T h f g hf hg
    obtain ⟨a, b, t, c, d⟩ := h f.Indent g.Indent hf hg
    have hD : ∀ x : Formatter, x.Dedent.builder = x.builder := by
      intro x; unfold Formatter.Dedent; split <;> rfl
    exact ⟨by simp [a], by simp [b], t, by rw [hD, c]; rfl, by rw [hD, d]; rfl⟩
  onMode := by
    intro c T₁ T₂ _ h₂ f g hf hg
    simpa [hf, hg] using h₂ f g hf hg

/-- The text of a node in Compact mode: what `FormatSQL` writes on a new formatter. -/
theorem FormatSQL_compact (e : Expr) (f : Formatter) (h : f.mode ≠ FormatModeBeautify) :
    (e.FormatSQL f).builder = f.builder ++ (e.FormatSQL NewFormatter).builder := by
  obtain ⟨_, _, t, ht, hn⟩ :=
    FormatSQL_closed CompactUniform_closed e f NewFormatter h compact_ne_beautify
  have : (e.FormatSQL NewFormatter).builder = t := by simpa [NewFormatter] using hn
  rw [ht, this]

theorem WriteExpr_compact (e : Option Expr) (f : Formatter) (h : f.mode ≠ FormatModeBeautify) :
    (WriteExpr f e).builder = f.builder ++ (WriteExpr NewFormatter e).builder := by
  cases e with
  | none => simp [WriteExpr, NewFormatter]
  | some e => exact FormatSQL_compact e f h

/-! ## Logical-operator chains in Beautify mode -/

theorem writeBytes_append (as bs : List Char) (f : Formatter) :
    f.writeBytes (as ++ bs) = (f.writeBytes as).writeBytes bs := by
  induction as generalizing f with
  | nil => rfl
  | cons a as ih => simp [Formatter.writeBytes, ih]

theorem writeBytes_midline (bs : List Char) (f : Formatter)
    (hm : f.mode = FormatModeBeautify) (hc : newline ∉ bs) (hs : f.lineStart = false) :
    f.writeBytes bs = { f with builder := f.builder ++ bs } := by
  induction bs generalizing f with
  | nil => simp [Formatter.writeBytes]
  | cons b bs ih =>
      have hb : b ≠ newline := fun h => hc (by simp [h])
      have hbs : newline ∉ bs := fun h => hc (by simp [h])
      have h1 : f.WriteByte b = { f with builder := f.builder ++ [b] } := by
        simp [Formatter.WriteByte, Formatter.writeIndentIfNeeded, hm, hb, hs]
      have h2 := ih (f.WriteByte b) (by simpa using hm) hbs (by rw [h1]; exact hs)
      show (f.WriteByte b).writeBytes bs = _
      rw [h2, h1]
      simp

theorem writeBytes_lineStart (bs : List Char) (f : Formatter)
    (hm : f.mode = FormatModeBeautify) (hc : newline ∉ bs) (hne : bs ≠ [])
    (hs : f.lineStart = true) :
    f.writeBytes bs
      = { f with
          builder := f.builder ++ indentation f.indent f.indentLevel.toNat ++ bs
          lineStart := false } := by
  cases bs with
  | nil => exact absurd rfl hne
  | cons b bs =>
      have hb : b ≠ newline := fun h => hc (by simp [h])
      have hbs : newline ∉ bs := fun h => hc (by simp [h])
      have h1 : f.WriteByte b
          = { f with
              builder := f.builder ++ indentation f.indent f.indentLevel.toNat ++ [b]
              lineStart := false } := by
        simp [Formatter.WriteByte, Formatter.writeIndentIfNeeded, hm, hb, hs,
          writeIndentLoop_eq]
      have h2 := writeBytes_midline bs (f.WriteByte b) (by simpa using hm) hbs (by rw [h1])
      show (f.WriteByte b).writeBytes bs = _
      rw [h2, h1]
      simp

theorem writeOperator_eq (f : Formatter) (op : TokenKind) (g n : Bool) :
    BinaryOperation.writeOperator f op g n
      = f.WriteString (BinaryOperation.keyword op g n) := by
  cases n <;> cases g <;>
    simp [BinaryOperation.writeOperator, BinaryOperation.keyword, Formatter.WriteString,
      writeBytes_append, Formatter.writeBytes]

theorem keyword_ne_nil (op : TokenKind) (g n : Bool)
    (h : BinaryOperation.isLogicalOp op g n = true) :
    (BinaryOperation.keyword op g n).data ≠ [] := by
  cases n <;> cases g <;> simp [BinaryOperation.keyword]
  intro h0
  have : op = "" := by
    cases op; simp_all
  subst this
  revert h
  decide

theorem keyword_newlineFree (op : TokenKind) (g n : Bool) (h : newline ∉ op.data) :
    newline ∉ (BinaryOperation.keyword op g n).data := by
  have h' : '\n' ∉ op.data := h
  cases n <;> cases g <;> simp [BinaryOperation.keyword, h', newline]

theorem keywordLine_eq (s : Formatter) (kw : String) (hm : s.mode = FormatModeBeautify)
    (hne : kw.data ≠ []) (hc : newline ∉ kw.data) :
    ((s.NewLine).WriteString kw).NewLine = keywordLine s kw := by
  have h1 : s.NewLine = { s with builder := s.builder ++ [newline], lineStart := true } := by
    simp [Formatter.NewLine, Formatter.WriteByte, hm]
  have h2 : (s.NewLine).WriteString kw
      = { s with
          builder := s.builder ++ [newline] ++ indentation s.indent s.indentLevel.toNat
            ++ kw.data
          lineStart := false } := by
    rw [h1]
    unfold Formatter.WriteString
    exact writeBytes_lineStart kw.data
      { s with builder := s.builder ++ [newline], lineStart := true } hm hc hne rfl
  rw [h2]
  simp [Formatter.NewLine, Formatter.WriteByte, hm, keywordLine]

theorem leafAtNextLevel_eq (s : Formatter) (e : Option Expr) (h : 0 ≤ s.indentLevel) :
    (WriteExpr s.Indent e).Dedent = leafAtNextLevel s e := by
  have hl : (WriteExpr s.Indent e).indentLevel = s.indentLevel + 1 :=
    WriteExpr_indentLevel e s.Indent (by simp; omega)
  have hpos : (WriteExpr s.Indent e).indentLevel > 0 := by rw [hl]; omega
  have e : s.indentLevel + 1 - 1 = s.indentLevel := by omega
  have hpos' : s.indentLevel + 1 > 0 := by omega
  simp only [Formatter.Dedent, hpos, if_true, hl, leafAtNextLevel, e, hpos']
  rfl

theorem writeLogicalOperand_framed (e : Option Expr) (f : Formatter) :
    (writeLogicalOperand f e).mode = f.mode ∧ (writeLogicalOperand f e).indent = f.indent ∧
      (0 ≤ f.indentLevel → (writeLogicalOperand f e).indentLevel = f.indentLevel) :=
  writeLogicalOperand_closed Framed_closed e f

theorem layoutChain_none (s : Formatter) : layoutChain s none = leafAtNextLevel s none := rfl

theorem layoutChain_BinaryOperation (s : Formatter) (l r : Option Expr) (op : TokenKind)
    (g n : Bool) :
    layoutChain s (some (.BinaryOperation l op r g n))
      = if BinaryOperation.isLogicalOp op g n then
          layoutChain (keywordLine (layoutChain s l) (BinaryOperation.keyword op g n)) r
        else leafAtNextLevel s (some (.BinaryOperation l op r g n)) := rfl

theorem layoutChain_leaf (s : Formatter) (e : Expr) (h : isLogicalBinaryOp (some e) = false) :
    layoutChain s (some e) = leafAtNextLevel s (some e) := by
  cases e
  case BinaryOperation l op r g n =>
    have h' : BinaryOperation.isLogicalOp op g n = false := h
    rw [layoutChain_BinaryOperation, h']
    rfl
  all_goals rfl

theorem operatorsNewlineFree_BinaryOperation (l r : Option Expr) (op : TokenKind) (g n : Bool) :
    operatorsNewlineFree (some (.BinaryOperation l op r g n))
      = if BinaryOperation.isLogicalOp op g n then
          decide (newline ∉ op.data) && operatorsNewlineFree l && operatorsNewlineFree r
        else true := rfl

theorem operatorsNewlineFree_logical {l r : Option Expr} {op : TokenKind} {g n : Bool}
    (hlog : BinaryOperation.isLogicalOp op g n = true)
    (hc : operatorsNewlineFree (some (.BinaryOperation l op r g n)) = true) :
    newline ∉ op.data ∧ operatorsNewlineFree l = true ∧ operatorsNewlineFree r = true := by
  rw [operatorsNewlineFree_BinaryOperation, hlog] at hc
  simpa [and_assoc] using hc

theorem isLogicalBinaryOp_some_BinaryOperation (l r : Option Expr) (op : TokenKind)
    (g n : Bool) :
    isLogicalBinaryOp (some (.BinaryOperation l op r g n))
      = BinaryOperation.isLogicalOp op g n := rfl

theorem writeLogicalOperand_layout :
    ∀ (e : Option Expr) (f : Formatter), f.mode = FormatModeBeautify → 0 ≤ f.indentLevel →
      operatorsNewlineFree e = true → writeLogicalOperand f e = layoutChain f e
  | none, f, _, h0, _ => by
      rw [writeLogicalOperand_eq, layoutChain_none]
      simpa [isLogicalBinaryOp] using leafAtNextLevel_eq f none h0
  | some e, f, hm, h0, hc => by
      cases e
      case BinaryOperation l op r g n =>
        by_cases hlog : BinaryOperation.isLogicalOp op g n = true
        · obtain ⟨hop, hcl, hcr⟩ := operatorsNewlineFree_logical hlog hc
          have ihl := writeLogicalOperand_layout l f hm h0 hcl
          obtain ⟨m1, _, l1⟩ := writeLogicalOperand_framed l f
          have hm1 : (writeLogicalOperand f l).mode = FormatModeBeautify := by rw [m1, hm]
          have hkw := keywordLine_eq (writeLogicalOperand f l) (BinaryOperation.keyword op g n)
            hm1 (keyword_ne_nil op g n hlog) (keyword_newlineFree op g n hop)
          have hm2 : (keywordLine (layoutChain f l) (BinaryOperation.keyword op g n)).mode
              = FormatModeBeautify := by
            rw [← ihl]; exact hm1
          have h2 : 0 ≤ (keywordLine (layoutChain f l)
              (BinaryOperation.keyword op g n)).indentLevel := by
            rw [← ihl]
            show 0 ≤ (writeLogicalOperand f l).indentLevel
            rw [l1 h0]; exact h0
          have ihr := writeLogicalOperand_layout r _ hm2 h2 hcr
          rw [writeLogicalOperand_eq, isLogicalBinaryOp_some_BinaryOperation, hlog, if_pos rfl,
            WriteExpr_some, FormatSQL_BinaryOperation, if_pos ⟨hlog, hm⟩, writeOperator_eq, hkw,
            ihl, ihr, layoutChain_BinaryOperation, if_pos hlog]
        · have hlog' : isLogicalBinaryOp (some (Expr.BinaryOperation l op r g n)) = false := by
            rw [isLogicalBinaryOp_some_BinaryOperation]; simpa using hlog
          rw [writeLogicalOperand_eq, hlog', layoutChain_leaf _ _ hlog']
          simpa using leafAtNextLevel_eq f _ h0
      all_goals
        rw [writeLogicalOperand_eq]
        simpa [isLogicalBinaryOp] using leafAtNextLevel_eq f _ h0

/-! ## Scenario 1 -/

/-- C5. Scenario 1, Compact: `Format` renders the tree of
`SELECT a, b FROM t WHERE a > 1 AND b < 2` as exactly that text. -/
theorem scenario1_compact :
    Format (some scenario1Tree) = "SELECT a, b FROM t WHERE a > 1 AND b < 2" := by
  decide

/-- C6. Scenario 1, Beautify: a new formatter in Beautify mode with the default indent unit
renders the tree of `SELECT a, b FROM t WHERE a > 1 AND b < 2` with `WHERE` alone on its
line, `a > 1` and `b < 2` each indented one level, and `AND` alone on an unindented line
between them. -/
theorem scenario1_beautify :
    (WriteExpr NewFormatter.WithBeautify (some scenario1Tree)).String
      = "SELECT\n  a,\n  b\nFROM\n  t\nWHERE\n  a > 1\nAND\n  b < 2" := by
  decide

/-- C7. Logical-chain layout.  In Beautify mode, at an indent level `k` that is not
negative, a logical `BinaryOperation` whose chain has no newline inside an operator is
rendered as the chain layout: the left operand, then the operator keyword (after `NOT ` or
`GLOBAL ` when flagged) alone on a line at level `k`, then the right operand, where an
operand that is not a logical `BinaryOperation` is rendered at level `k + 1` and a logical
one at level `k`, by the same layout; so every leaf of a tree of nested logical operators
is rendered at level `k + 1` and every keyword at level `k`. -/
theorem logical_chain_layout (f : Formatter) (l r : Option Expr) (op : TokenKind)
    (g n : Bool) (hm : f.mode = FormatModeBeautify) (h0 : 0 ≤ f.indentLevel)
    (hlog : BinaryOperation.isLogicalOp op g n = true)
    (hc : operatorsNewlineFree (some (.BinaryOperation l op r g n)) = true) :
    Expr.FormatSQL (.BinaryOperation l op r g n) f
        = layoutChain f (some (.BinaryOperation l op r g n)) ∧
    layoutChain f (some (.BinaryOperation l op r g n))
        = layoutChain (keywordLine (layoutChain f l) (BinaryOperation.keyword op g n)) r ∧
    (layoutChain f l).indentLevel = f.indentLevel ∧
    (layoutChain f l).indent = f.indent ∧
    (layoutChain f l = if isLogicalBinaryOp l then WriteExpr f l else leafAtNextLevel f l) ∧
    (layoutChain (keywordLine (layoutChain f l) (BinaryOperation.keyword op g n)) r
        = if isLogicalBinaryOp r then
            WriteExpr (keywordLine (layoutChain f l) (BinaryOperation.keyword op g n)) r
          else
            leafAtNextLevel (keywordLine (layoutChain f l) (BinaryOperation.keyword op g n)) r) ∧
    (Expr.FormatSQL (.BinaryOperation l op r g n) f).indentLevel = f.indentLevel := by
  obtain ⟨_, hcl, hcr⟩ := operatorsNewlineFree_logical hlog hc
  have key : ∀ (s : Formatter) (e : Option Expr), s.mode = FormatModeBeautify →
      0 ≤ s.indentLevel → operatorsNewlineFree e = true →
      layoutChain s e = if isLogicalBinaryOp e then WriteExpr s e else leafAtNextLevel s e := by
    intro s e hs h hce
    rw [← writeLogicalOperand_layout e s hs h hce, writeLogicalOperand_eq]
    split
    · rfl
    · exact leafAtNextLevel_eq s e h
  have hl := writeLogicalOperand_layout l f hm h0 hcl
  obtain ⟨m1, i1, l1⟩ := writeLogicalOperand_framed l f
  have hwhole := writeLogicalOperand_layout (some (.BinaryOperation l op r g n)) f hm h0 hc
  have hself : writeLogicalOperand f (some (.BinaryOperation l op r g n))
      = Expr.FormatSQL (.BinaryOperation l op r g n) f := by
    rw [writeLogicalOperand_eq]
    rw [isLogicalBinaryOp_some_BinaryOperation, hlog, if_pos rfl, WriteExpr_some]
  have hs2m : (keywordLine (layoutChain f l) (BinaryOperation.keyword op g n)).mode
      = FormatModeBeautify := by
    rw [← hl]; show (writeLogicalOperand f l).mode = _; rw [m1, hm]
  have hs2l : 0 ≤ (keywordLine (layoutChain f l) (BinaryOperation.keyword op g n)).indentLevel := by
    rw [← hl]; show 0 ≤ (writeLogicalOperand f l).indentLevel; rw [l1 h0]; exact h0
  refine ⟨hself ▸ hwhole, ?_, ?_, ?_, key f l hm h0 hcl, key _ r hs2m hs2l hcr, ?_⟩
  · rw [layoutChain_BinaryOperation, if_pos hlog]
  · rw [← hl]; exact l1 h0
  · rw [← hl]; exact i1
  · exact FormatSQL_indentLevel _ f h0

theorem logical_chain_layout_witness :
    Expr.FormatSQL scenario1Where NewFormatter.WithBeautify
        = layoutChain NewFormatter.WithBeautify (some scenario1Where) ∧
    (layoutChain NewFormatter.WithBeautify (some scenario1Where)).String
        = "  a > 1\nAND\n  b < 2" :=
  ⟨(logical_chain_layout NewFormatter.WithBeautify (some (comparison "a" 25 ">" "1" 29))
      (some (comparison "b" 35 "<" "2" 39)) KeywordAnd false false rfl (by decide) (by decide)
      (by decide)).1, by decide⟩

/-! ## Binary operations outside the logical family, Compact rendering, identifiers -/

theorem String_mk_append (a b : List Char) : String.mk (a ++ b) = String.mk a ++ String.mk b := by
  apply String.ext
  simp

theorem Flat_WriteByte (f : Formatter) (b : Char) (h : Flat f) :
    (f.WriteByte b).builder = f.builder ++ [b] ∧ Flat (f.WriteByte b) := by
  refine ⟨?_, ?_⟩
  · rcases h with h | h
    · exact WriteByte_compact f b h
    · by_cases hm : f.mode = FormatModeBeautify
      · by_cases hb : b = newline
        · simp [Formatter.WriteByte, hm, hb]
        · cases hs : f.lineStart <;>
            simp [Formatter.WriteByte, Formatter.writeIndentIfNeeded, hm, hb, hs, h,
              writeIndentLoop]
      · exact WriteByte_compact f b hm
  · rcases h with h | h
    · exact Or.inl (by simpa using h)
    · exact Or.inr (by simpa using h)

theorem Flat_writeBytes (bs : List Char) (f : Formatter) (h : Flat f) :
    (f.writeBytes bs).builder = f.builder ++ bs ∧ Flat (f.writeBytes bs) := by
  induction bs generalizing f with
  | nil => exact ⟨by simp [Formatter.writeBytes], h⟩
  | cons b bs ih =>
      obtain ⟨h1, h2⟩ := Flat_WriteByte f b h
      obtain ⟨h3, h4⟩ := ih _ h2
      exact ⟨by simp only [Formatter.writeBytes, h3, h1]; simp, h4⟩

theorem Flat_WriteString (f : Formatter) (s : String) (h : Flat f) :
    (f.WriteString s).builder = f.builder ++ s.data ∧ Flat (f.WriteString s) :=
  Flat_writeBytes s.data f h

theorem Flat_Ident_FormatSQL (i : Ident) (f : Formatter) (h : Flat f) :
    (i.FormatSQL f).builder = f.builder ++ i.text ∧ Flat (i.FormatSQL f) := by
  have three : ∀ q : Char,
      (((f.WriteByte q).WriteString i.Name).WriteByte q).builder
          = f.builder ++ ([q] ++ i.Name.data ++ [q]) ∧
        Flat (((f.WriteByte q).WriteString i.Name).WriteByte q) := by
    intro q
    obtain ⟨a1, a2⟩ := Flat_WriteByte f q h
    obtain ⟨b1, b2⟩ := Flat_WriteString _ i.Name a2
    obtain ⟨c1, c2⟩ := Flat_WriteByte _ q b2
    exact ⟨by rw [c1, b1, a1]; simp, c2⟩
  unfold Ident.FormatSQL Ident.text
  split
  · exact three _
  · split
    · exact three _
    · split
      · exact three _
      · exact Flat_WriteString f i.Name h

/-- The text of a binary operation without flags over two identifiers, on a state that
inserts no indentation. -/
theorem Flat_identOperation (a b : Ident) (op : TokenKind) (f : Formatter) (h : Flat f)
    (hn : BinaryOperation.isLogicalOp op false false = false) :
    (Expr.FormatSQL (.BinaryOperation (some (.Ident a)) op (some (.Ident b)) false false)
        f).builder
      = f.builder ++ (a.text ++ (if op ≠ TokenKindDash then [whitespace] else []) ++ op.data
          ++ (if op ≠ TokenKindDash then [whitespace] else []) ++ b.text) := by
  rw [FormatSQL_BinaryOperation]
  have hc : ¬ (BinaryOperation.isLogicalOp op false false = true
      ∧ f.mode = FormatModeBeautify) := by simp [hn]
  rw [if_neg hc]
  simp only [WriteExpr_some, FormatSQL_Ident]
  obtain ⟨a1, a2⟩ := Flat_Ident_FormatSQL a f h
  by_cases hd : op ≠ TokenKindDash
  · simp only [if_pos hd]
    obtain ⟨b1, b2⟩ := Flat_WriteByte _ whitespace a2
    have hw : BinaryOperation.writeOperator ((a.FormatSQL f).WriteByte whitespace) op false false
        = ((a.FormatSQL f).WriteByte whitespace).WriteString op := rfl
    obtain ⟨c1, c2⟩ := Flat_WriteString _ op b2
    obtain ⟨d1, d2⟩ := Flat_WriteByte _ whitespace c2
    obtain ⟨e1, _⟩ := Flat_Ident_FormatSQL b _ d2
    rw [hw, e1, d1, c1, b1, a1]
    simp
  · simp only [if_neg hd]
    have hw : BinaryOperation.writeOperator (a.FormatSQL f) op false false
        = (a.FormatSQL f).WriteString op := rfl
    obtain ⟨c1, c2⟩ := Flat_WriteString _ op a2
    obtain ⟨e1, _⟩ := Flat_Ident_FormatSQL b _ c2
    rw [hw, e1, c1, a1]
    simp

/-- C9. Compact binary expressions: in Compact mode a `BinaryOperation` without `NOT` and
`GLOBAL` flags is rendered as the left operand, a space, the operator, a space and the
right operand, and without the two spaces when the operator is `TokenKindDash`; the
operator `AND` or `OR` is rendered like any other. -/
theorem compact_binary_operation (f : Formatter) (l r : Option Expr) (op : TokenKind)
    (hm : f.mode = FormatModeCompact) :
    (Expr.FormatSQL (.BinaryOperation l op r false false) f).String
      = (if op = TokenKindDash then f.String ++ Format l ++ op ++ Format r
         else f.String ++ Format l ++ " " ++ op ++ " " ++ Format r) ∧
    Format (some (.BinaryOperation l op r false false))
      = (if op = TokenKindDash then Format l ++ op ++ Format r
         else Format l ++ " " ++ op ++ " " ++ Format r) := by
  have main : ∀ x : Formatter, x.mode ≠ FormatModeBeautify →
      (Expr.FormatSQL (.BinaryOperation l op r false false) x).builder
        = if op = TokenKindDash then
            x.builder ++ (WriteExpr NewFormatter l).builder ++ op.data
              ++ (WriteExpr NewFormatter r).builder
          else
            x.builder ++ (WriteExpr NewFormatter l).builder ++ [' '] ++ op.data ++ [' ']
              ++ (WriteExpr NewFormatter r).builder := by
    intro x hx
    rw [FormatSQL_BinaryOperation]
    have hc : ¬ (BinaryOperation.isLogicalOp op false false = true
        ∧ x.mode = FormatModeBeautify) := fun h => hx h.2
    rw [if_neg hc]
    have hl : (WriteExpr x l).mode ≠ FormatModeBeautify := by rw [WriteExpr_mode]; exact hx
    by_cases hd : op = TokenKindDash
    · have hd' : ¬ (op ≠ TokenKindDash) := fun h => h hd
      simp only [if_neg hd', if_pos hd]
      have hw : BinaryOperation.writeOperator (WriteExpr x l) op false false
          = (WriteExpr x l).WriteString op := rfl
      rw [hw, WriteExpr_compact r _ (by rw [WriteString_mode]; exact hl),
        WriteString_compact _ _ hl, WriteExpr_compact l x hx]
    · have hd' : op ≠ TokenKindDash := hd
      simp only [if_pos hd', if_neg hd]
      have hw : BinaryOperation.writeOperator ((WriteExpr x l).WriteByte whitespace) op
          false false = ((WriteExpr x l).WriteByte whitespace).WriteString op := rfl
      have h1 : ((WriteExpr x l).WriteByte whitespace).mode ≠ FormatModeBeautify := by
        rw [WriteByte_mode]; exact hl
      have h2 : (((WriteExpr x l).WriteByte whitespace).WriteString op).mode
          ≠ FormatModeBeautify := by rw [WriteString_mode]; exact h1
      have h3 : ((((WriteExpr x l).WriteByte whitespace).WriteString op).WriteByte
          whitespace).mode ≠ FormatModeBeautify := by rw [WriteByte_mode]; exact h2
      rw [hw, WriteExpr_compact r _ h3, WriteByte_compact _ _ h2, WriteString_compact _ _ h1,
        WriteByte_compact _ _ hl, WriteExpr_compact l x hx]
      rfl
  have hf : f.mode ≠ FormatModeBeautify := by rw [hm]; exact compact_ne_beautify
  have toS : ∀ x : Formatter, x.mode ≠ FormatModeBeautify →
      (Expr.FormatSQL (.BinaryOperation l op r false false) x).String
        = if op = TokenKindDash then x.String ++ Format l ++ op ++ Format r
          else x.String ++ Format l ++ " " ++ op ++ " " ++ Format r := by
    intro x hx
    unfold Formatter.String Format Formatter.String
    rw [main x hx]
    split
    · simp only [String_mk_append]
    · simp only [String_mk_append]
  refine ⟨toS f hf, ?_⟩
  have h := toS NewFormatter compact_ne_beautify
  have e : NewFormatter.String = "" := rfl
  rw [e] at h
  simpa [Format, WriteExpr_some] using h

theorem compact_binary_operation_witness :
    (Expr.FormatSQL (comparison "a" 25 ">" "1" 29) NewFormatter).String
      = (if ">" = TokenKindDash then NewFormatter.String
            ++ Format (some (.Ident (unquotedIdent "a" 25))) ++ ">"
            ++ Format (some (.NumberLiteral 29 (29 + ("1" : String).length) "1" 10))
         else NewFormatter.String ++ Format (some (.Ident (unquotedIdent "a" 25))) ++ " "
            ++ ">" ++ " "
            ++ Format (some (.NumberLiteral 29 (29 + ("1" : String).length) "1" 10))) :=
  (compact_binary_operation NewFormatter (some (.Ident (unquotedIdent "a" 25)))
    (some (.NumberLiteral 29 (29 + ("1" : String).length) "1" 10)) ">" rfl).1

/-- C10. Quote preservation: `Format` renders an identifier as its name between backticks
when the quote-type tag is `BackTicks`, between double quotes when it is `DoubleQuote`,
between single quotes when it is `SingleQuote`, and as the name alone for every other tag,
whatever the characters of the name. -/
theorem quote_preservation (name : String) (q : Int) (p e : Pos)
    (h1 : q ≠ BackTicks) (h2 : q ≠ DoubleQuote) (h3 : q ≠ SingleQuote) :
    Format (some (.Ident ⟨name, BackTicks, p, e⟩))
      = String.singleton backtickByte ++ name ++ String.singleton backtickByte ∧
    Format (some (.Ident ⟨name, DoubleQuote, p, e⟩))
      = String.singleton doubleQuoteByte ++ name ++ String.singleton doubleQuoteByte ∧
    Format (some (.Ident ⟨name, SingleQuote, p, e⟩))
      = String.singleton singleQuoteByte ++ name ++ String.singleton singleQuoteByte ∧
    Format (some (.Ident ⟨name, q, p, e⟩)) = name := by
  have key : ∀ i : Ident, Format (some (.Ident i)) = String.mk i.text := by
    intro i
    unfold Format Formatter.String
    rw [WriteExpr_some, FormatSQL_Ident, (Flat_Ident_FormatSQL i NewFormatter (Or.inr rfl)).1]
    rfl
  refine ⟨?_, ?_, ?_, ?_⟩
  · rw [key]; apply String.ext; simp [Ident.text, String.singleton]
  · rw [key]; apply String.ext
    simp [Ident.text, String.singleton, show DoubleQuote ≠ BackTicks by decide]
  · rw [key]; apply String.ext
    simp [Ident.text, String.singleton, show SingleQuote ≠ BackTicks by decide,
      show SingleQuote ≠ DoubleQuote by decide]
  · rw [key]; apply String.ext; simp [Ident.text, h1, h2, h3]

theorem quote_preservation_witness :
    Format (some (.Ident ⟨"my col", BackTicks, 0, 8⟩))
      = String.singleton backtickByte ++ "my col" ++ String.singleton backtickByte ∧
    Format (some (.Ident ⟨"my col", DoubleQuote, 0, 8⟩))
      = String.singleton doubleQuoteByte ++ "my col" ++ String.singleton doubleQuoteByte ∧
    Format (some (.Ident ⟨"my col", SingleQuote, 0, 8⟩))
      = String.singleton singleQuoteByte ++ "my col" ++ String.singleton singleQuoteByte ∧
    Format (some (.Ident ⟨"my col", Unquoted, 0, 8⟩)) = "my col" :=
  quote_preservation "my col" Unquoted 0 8 (by decide) (by decide) (by decide)

/-! ## The visitor protocol -/

section
variable {σ ε : Type}

theorem andThen_of_ok {first next : σ → Traversal σ ε} {s : σ}
    (h : (first s).result = Outcome.ok) :
    andThen first next s =
      { state := (next (first s).state).state
        events := (first s).events ++ (next (first s).state).events
        result := (next (first s).state).result } := by
  unfold andThen
  rw [h]

theorem andThen_of_not_ok {first next : σ → Traversal σ ε} {s : σ}
    (h : (first s).result ≠ Outcome.ok) : andThen first next s = first s := by
  unfold andThen
  cases hr : (first s).result with
  | ok => exact absurd hr h
  | error e => rfl
  | nilDereference => rfl

theorem andThen_skipCall_left (next : σ → Traversal σ ε) : andThen skipCall next = next := rfl

theorem andThen_skipCall_right (first : σ → Traversal σ ε) :
    andThen first skipCall = first := by
  funext s
  cases hr : (first s).result with
  | ok =>
      rw [andThen_of_ok hr]
      cases hf : first s with
      | mk st ev r =>
          rw [hf] at hr
          simp [skipCall] at hr ⊢
          exact hr.symm
  | error e => exact andThen_of_not_ok (by rw [hr]; simp)
  | nilDereference => exact andThen_of_not_ok (by rw [hr]; simp)

theorem andThen_assoc (a b c : σ → Traversal σ ε) :
    andThen (andThen a b) c = andThen a (andThen b c) := by
  funext s
  cases ha : (a s).result with
  | ok =>
      cases hb : (b (a s).state).result with
      | ok =>
          have hab : (andThen a b s).result = Outcome.ok := by rw [andThen_of_ok ha]; exact hb
          rw [andThen_of_ok hab, andThen_of_ok ha, andThen_of_ok ha, andThen_of_ok hb]
          simp
      | error e =>
          have hab : (andThen a b s).result ≠ Outcome.ok := by
            rw [andThen_of_ok ha]; simp [hb]
          rw [andThen_of_not_ok hab, andThen_of_ok ha, andThen_of_ok ha,
            andThen_of_not_ok (by rw [hb]; simp)]
      | nilDereference =>
          have hab : (andThen a b s).result ≠ Outcome.ok := by
            rw [andThen_of_ok ha]; simp [hb]
          rw [andThen_of_ok ha, andThen_of_not_ok hab, andThen_of_ok ha,
            andThen_of_not_ok (by rw [hb]; simp)]
  | error e =>
      have h1 : (a s).result ≠ Outcome.ok := by rw [ha]; simp
      have h2 : (andThen a b s).result ≠ Outcome.ok := by rw [andThen_of_not_ok h1]; exact h1
      rw [andThen_of_not_ok h2, andThen_of_not_ok h1, andThen_of_not_ok h1]
  | nilDereference =>
      have h1 : (a s).result ≠ Outcome.ok := by rw [ha]; simp
      have h2 : (andThen a b s).result ≠ Outcome.ok := by rw [andThen_of_not_ok h1]; exact h1
      rw [andThen_of_not_ok h2, andThen_of_not_ok h1, andThen_of_not_ok h1]

end

section
variable {σ ε : Type}

theorem runSteps_append (a b : List (AcceptStep (σ → Traversal σ ε))) :
    runSteps (a ++ b) = andThen (runSteps a) (runSteps b) := by
  induction a with
  | nil => rfl
  | cons step rest ih =>
      show andThen step.run (runSteps (rest ++ b)) = andThen (andThen step.run (runSteps rest)) _
      rw [ih, andThen_assoc]

end

section
variable {σ ε : Type} {visitor : ASTVisitor σ ε} {P : (σ → Traversal σ ε) → Prop}
  (hP : AcceptClosed visitor P)
include hP

theorem runEach_closed : ∀ {children : List (σ → Traversal σ ε)},
    ListClosed P children → P (runEach children)
  | [], _ => hP.skip
  | child :: _, h =>
      hP.seq (h child (List.mem_cons_self _ _))
        (runEach_closed (fun x hx => h x (List.mem_cons_of_mem _ hx)))

theorem acceptStep_field_closed {c : Option (σ → Traversal σ ε)} (h : OptClosed P c) :
    P (AcceptStep.run (.field c)) := by
  cases c with
  | none => exact hP.missing
  | some t => exact h t rfl

theorem acceptStep_ifPresent_closed {c : Option (σ → Traversal σ ε)} (h : OptClosed P c) :
    P (AcceptStep.run (.ifPresent c)) := by
  cases c with
  | none => exact hP.skip
  | some t => exact h t rfl

theorem acceptStep_each_closed {l : List (σ → Traversal σ ε)} (h : ListClosed P l) :
    P (AcceptStep.run (.each l)) :=
  runEach_closed hP h

theorem acceptStep_run_closed : ∀ {step : AcceptStep (σ → Traversal σ ε)},
    StepClosed P step → P step.run
  | .node _, h => h
  | .field _, h => acceptStep_field_closed hP h
  | .ifPresent _, h => acceptStep_ifPresent_closed hP h
  | .each _, h => acceptStep_each_closed hP h

theorem runSteps_closed : ∀ {steps : List (AcceptStep (σ → Traversal σ ε))},
    (∀ step ∈ steps, StepClosed P step) → P (runSteps steps)
  | [], _ => hP.skip
  | step :: _, h =>
      hP.seq (acceptStep_run_closed hP (h step (List.mem_cons_self _ _)))
        (runSteps_closed (fun x hx => h x (List.mem_cons_of_mem _ hx)))

theorem CreateMaterializedView_Accept_closed {Name : σ → Traversal σ ε}
    {OnCluster Refresh RandomizeFor : Option (σ → Traversal σ ε)} (DependsOnSet : Bool)
    {DependsOn : List (σ → Traversal σ ε)}
    {Settings Engine Destination DestinationTableSchema SubQuery Comment Definer :
      Option (σ → Traversal σ ε)}
    (hName : P Name) (hOnCluster : OptClosed P OnCluster) (hRefresh : OptClosed P Refresh)
    (hRandomizeFor : OptClosed P RandomizeFor) (hDependsOn : ListClosed P DependsOn)
    (hSettings : OptClosed P Settings) (hEngine : OptClosed P Engine)
    (hDestination : OptClosed P Destination)
    (hDestinationTableSchema : OptClosed P DestinationTableSchema)
    (hSubQuery : OptClosed P SubQuery) (hComment : OptClosed P Comment)
    (hDefiner : OptClosed P Definer) :
    P (runSteps (CreateMaterializedView.Accept Name OnCluster Refresh RandomizeFor DependsOnSet
      DependsOn Settings Engine Destination DestinationTableSchema SubQuery Comment Definer)) := by
  apply runSteps_closed hP
  intro step hstep
  simp only [CreateMaterializedView.Accept, List.mem_append, List.mem_cons, List.mem_ite_nil_right,
    List.not_mem_nil, or_false] at hstep
  rcases hstep with (h | h | h | h) | (⟨_, h⟩ | (h | h) | (⟨_, h | h⟩ | h | h | h))
  all_goals subst h
  all_goals first
    | exact hName | exact hOnCluster | exact hRefresh | exact hRandomizeFor | exact hDependsOn
    | exact hSettings | exact hEngine | exact hDestination | exact hDestinationTableSchema
    | exact hSubQuery | exact hComment | exact hDefiner

theorem MapLiteral_Accept_closed {Keys Values : List (σ → Traversal σ ε)}
    (hKeys : ListClosed P Keys) (hValues : ListClosed P Values) :
    P (runSteps (MapLiteral.Accept Keys Values)) := by
  apply runSteps_closed hP
  intro step hstep
  simp only [MapLiteral.Accept, List.mem_flatten, List.mem_map] at hstep
  obtain ⟨_, ⟨kv, hkv, rfl⟩, hmem⟩ := hstep
  have h := List.of_mem_zip (a := kv.1) (b := kv.2) hkv
  simp only [List.mem_cons, List.not_mem_nil, or_false] at hmem
  rcases hmem with h' | h'
  · subst h'
    exact hKeys _ h.1
  · subst h'
    exact hValues _ h.2

theorem RenameStmt_Accept_closed {TargetPairList : List (Parts (σ → Traversal σ ε))}
    {OnCluster : Option (σ → Traversal σ ε)}
    (hTargetPairList : ∀ p ∈ TargetPairList, PartsClosed P p)
    (hOnCluster : OptClosed P OnCluster) :
    P (runSteps (RenameStmt.Accept TargetPairList OnCluster)) := by
  apply runSteps_closed hP
  intro step hstep
  have hnode : ∀ (p : Parts (σ → Traversal σ ε)) (i : Nat), PartsClosed P p →
      ∀ step ∈ p.acceptNode i, StepClosed P step := by
    intro p i hp
    exact partsClosed_withNode (Q := fun steps => ∀ step ∈ steps, StepClosed P step) hp i
      (fun _ h => by cases h)
      (fun x hx step hstep => by
        simp only [List.mem_cons, List.not_mem_nil, or_false] at hstep
        subst hstep
        exact hx)
  simp only [RenameStmt.Accept, List.mem_append, List.mem_flatten, List.mem_map, List.mem_cons,
    List.not_mem_nil, or_false] at hstep
  rcases hstep with ⟨_, ⟨pair, hpair, rfl⟩, hmem⟩ | h
  · rcases List.mem_append.mp hmem with h | h
    · exact hnode pair 0 (hTargetPairList pair hpair) step h
    · exact hnode pair 1 (hTargetPairList pair hpair) step h
  · subst h
    exact hOnCluster

theorem WindowClause_Accept_closed {Windows : List (Parts (σ → Traversal σ ε))}
    (hWindows : ∀ p ∈ Windows, PartsClosed P p) :
    P (runSteps (WindowClause.Accept Windows)) := by
  apply runSteps_closed hP
  intro step hstep
  simp only [WindowClause.Accept, List.mem_flatten, List.mem_map] at hstep
  obtain ⟨_, ⟨window, hwindow, rfl⟩, hmem⟩ := hstep
  simp only [List.mem_cons, List.not_mem_nil, or_false] at hmem
  rcases hmem with h | h
  · subst h
    exact partsClosed_child (hWindows window hwindow) 0
  · subst h
    exact partsClosed_child (hWindows window hwindow) 1

theorem AlterRole_Accept_closed {RoleRenamePairs : List (σ → Traversal σ ε)}
    {Settings : List (σ → Traversal σ ε)} (hRoleRenamePairs : ListClosed P RoleRenamePairs)
    (hSettings : ListClosed P Settings) :
    P (runSteps (AlterRole.Accept RoleRenamePairs Settings)) :=
  (hP.seq (acceptStep_each_closed hP hRoleRenamePairs) (hP.seq (acceptStep_each_closed hP hSettings)
    hP.skip))

theorem AlterTableAttachPartition_Accept_closed {Partition : (σ → Traversal σ ε)}
    {From : Option (σ → Traversal σ ε)} (hPartition : P Partition) (hFrom : OptClosed P From) :
    P (runSteps (AlterTableAttachPartition.Accept Partition From)) :=
  (hP.seq hPartition (hP.seq (acceptStep_ifPresent_closed hP hFrom) hP.skip))

theorem AlterTableClearColumn_Accept_closed {ColumnName : (σ → Traversal σ ε)}
    {PartitionExpr : Option (σ → Traversal σ ε)} (hColumnName : P ColumnName)
    (hPartitionExpr : OptClosed P PartitionExpr) :
    P (runSteps (AlterTableClearColumn.Accept ColumnName PartitionExpr)) :=
  (hP.seq hColumnName (hP.seq (acceptStep_ifPresent_closed hP hPartitionExpr) hP.skip))

theorem AlterTableClearIndex_Accept_closed {IndexName : (σ → Traversal σ ε)}
    {PartitionExpr : Option (σ → Traversal σ ε)} (hIndexName : P IndexName)
    (hPartitionExpr : OptClosed P PartitionExpr) :
    P (runSteps (AlterTableClearIndex.Accept IndexName PartitionExpr)) :=
  (hP.seq hIndexName (hP.seq (acceptStep_ifPresent_closed hP hPartitionExpr) hP.skip))

theorem AlterTableClearProjection_Accept_closed {ProjectionName : (σ → Traversal σ ε)}
    {PartitionExpr : Option (σ → Traversal σ ε)} (hProjectionName : P ProjectionName)
    (hPartitionExpr : OptClosed P PartitionExpr) :
    P (runSteps (AlterTableClearProjection.Accept ProjectionName PartitionExpr)) :=
  (hP.seq hProjectionName (hP.seq (acceptStep_ifPresent_closed hP hPartitionExpr) hP.skip))

theorem AlterTableDelete_Accept_closed {WhereClause : Option (σ → Traversal σ ε)}
    (hWhereClause : OptClosed P WhereClause) : P (runSteps (AlterTableDelete.Accept WhereClause)) :=
  (hP.seq (acceptStep_field_closed hP hWhereClause) hP.skip)

theorem AlterTableDetachPartition_Accept_closed {Partition : (σ → Traversal σ ε)}
    {Settings : Option (σ → Traversal σ ε)} (hPartition : P Partition)
    (hSettings : OptClosed P Settings) :
    P (runSteps (AlterTableDetachPartition.Accept Partition Settings)) :=
  (hP.seq hPartition (hP.seq (acceptStep_ifPresent_closed hP hSettings) hP.skip))

theorem AlterTableDropIndex_Accept_closed {IndexName : (σ → Traversal σ ε)}
    (hIndexName : P IndexName) : P (runSteps (AlterTableDropIndex.Accept IndexName)) :=
  (hP.seq hIndexName hP.skip)

theorem AlterTableDropProjection_Accept_closed {ProjectionName : (σ → Traversal σ ε)}
    (hProjectionName : P ProjectionName) :
    P (runSteps (AlterTableDropProjection.Accept ProjectionName)) :=
  (hP.seq hProjectionName hP.skip)

theorem AlterTableFreezePartition_Accept_closed {Partition : Option (σ → Traversal σ ε)}
    (hPartition : OptClosed P Partition) :
    P (runSteps (AlterTableFreezePartition.Accept Partition)) :=
  (hP.seq (acceptStep_ifPresent_closed hP hPartition) hP.skip)

theorem AlterTableMaterializeIndex_Accept_closed {IndexName : (σ → Traversal σ ε)}
    {Partition : Option (σ → Traversal σ ε)} (hIndexName : P IndexName)
    (hPartition : OptClosed P Partition) :
    P (runSteps (AlterTableMaterializeIndex.Accept IndexName Partition)) :=
  (hP.seq hIndexName (hP.seq (acceptStep_ifPresent_closed hP hPartition) hP.skip))

theorem AlterTableMaterializeProjection_Accept_closed {ProjectionName : (σ → Traversal σ ε)}
    {Partition : Option (σ → Traversal σ ε)} (hProjectionName : P ProjectionName)
    (hPartition : OptClosed P Partition) :
    P (runSteps (AlterTableMaterializeProjection.Accept ProjectionName Partition)) :=
  (hP.seq hProjectionName (hP.seq (acceptStep_ifPresent_closed hP hPartition) hP.skip))

theorem AlterTableModifyColumn_Accept_closed {Column : (σ → Traversal σ ε)}
    {RemovePropertyType : Option (σ → Traversal σ ε)} (hColumn : P Column)
    (hRemovePropertyType : OptClosed P RemovePropertyType) :
    P (runSteps (AlterTableModifyColumn.Accept Column RemovePropertyType)) :=
  (hP.seq hColumn (hP.seq (acceptStep_ifPresent_closed hP hRemovePropertyType) hP.skip))

theorem AlterTableModifyQuery_Accept_closed {SelectExpr : (σ → Traversal σ ε)}
    (hSelectExpr : P SelectExpr) : P (runSteps (AlterTableModifyQuery.Accept SelectExpr)) :=
  (hP.seq hSelectExpr hP.skip)

theorem AlterTableModifySetting_Accept_closed {Settings : List (σ → Traversal σ ε)}
    (hSettings : ListClosed P Settings) : P (runSteps (AlterTableModifySetting.Accept Settings)) :=
  (hP.seq (acceptStep_each_closed hP hSettings) hP.skip)

theorem AlterTableModifyTTL_Accept_closed {TTL : (σ → Traversal σ ε)} (hTTL : P TTL) :
    P (runSteps (AlterTableModifyTTL.Accept TTL)) :=
  (hP.seq hTTL hP.skip)

theorem AlterTableRemoveTTL_Accept_closed : P (runSteps (AlterTableRemoveTTL.Accept)) :=
  hP.skip

theorem AlterTableRenameColumn_Accept_closed {OldColumnName : (σ → Traversal σ ε)}
    {NewColumnName : (σ → Traversal σ ε)} (hOldColumnName : P OldColumnName)
    (hNewColumnName : P NewColumnName) :
    P (runSteps (AlterTableRenameColumn.Accept OldColumnName NewColumnName)) :=
  (hP.seq hOldColumnName (hP.seq hNewColumnName hP.skip))

theorem AlterTableReplacePartition_Accept_closed {Partition : (σ → Traversal σ ε)}
    {Table : (σ → Traversal σ ε)} (hPartition : P Partition) (hTable : P Table) :
    P (runSteps (AlterTableReplacePartition.Accept Partition Table)) :=
  (hP.seq hPartition (hP.seq hTable hP.skip))

theorem AlterTableResetSetting_Accept_closed {Settings : List (σ → Traversal σ ε)}
    (hSettings : ListClosed P Settings) : P (runSteps (AlterTableResetSetting.Accept Settings)) :=
  (hP.seq (acceptStep_each_closed hP hSettings) hP.skip)

theorem AlterTableUpdate_Accept_closed {Assignments : List (σ → Traversal σ ε)}
    {InPartition : Option (σ → Traversal σ ε)} {WhereClause : Option (σ → Traversal σ ε)}
    (hAssignments : ListClosed P Assignments) (hInPartition : OptClosed P InPartition)
    (hWhereClause : OptClosed P WhereClause) :
    P (runSteps (AlterTableUpdate.Accept Assignments InPartition WhereClause)) :=
  (hP.seq (acceptStep_each_closed hP hAssignments) (hP.seq (acceptStep_ifPresent_closed hP
    hInPartition) (hP.seq (acceptStep_field_closed hP hWhereClause) hP.skip)))

theorem ArrayParamList_Accept_closed {Items : (σ → Traversal σ ε)} (hItems : P Items) :
    P (runSteps (ArrayParamList.Accept Items)) :=
  (hP.seq hItems hP.skip)

theorem AuthenticationClause_Accept_closed {AuthValue : Option (σ → Traversal σ ε)}
    {LdapServer : Option (σ → Traversal σ ε)} {KerberosRealm : Option (σ → Traversal σ ε)}
    (hAuthValue : OptClosed P AuthValue) (hLdapServer : OptClosed P LdapServer)
    (hKerberosRealm : OptClosed P KerberosRealm) :
    P (runSteps (AuthenticationClause.Accept AuthValue LdapServer KerberosRealm)) :=
  (hP.seq (acceptStep_ifPresent_closed hP hAuthValue) (hP.seq (acceptStep_ifPresent_closed hP
    hLdapServer) (hP.seq (acceptStep_ifPresent_closed hP hKerberosRealm) hP.skip)))

theorem BetweenClause_Accept_closed {expr : Option (σ → Traversal σ ε)}
    {Between : Option (σ → Traversal σ ε)} {And : Option (σ → Traversal σ ε)}
    (hexpr : OptClosed P expr) (hBetween : OptClosed P Between) (hAnd : OptClosed P And) :
    P (runSteps (BetweenClause.Accept expr Between And)) :=
  (hP.seq (acceptStep_ifPresent_closed hP hexpr) (hP.seq (acceptStep_field_closed hP hBetween)
    (hP.seq (acceptStep_field_closed hP hAnd) hP.skip)))

theorem BoolLiteral_Accept_closed : P (runSteps (BoolLiteral.Accept)) :=
  hP.skip

theorem CTEStmt_Accept_closed {expr : Option (σ → Traversal σ ε)}
    {Alias : Option (σ → Traversal σ ε)} (hexpr : OptClosed P expr) (hAlias : OptClosed P Alias) :
    P (runSteps (CTEStmt.Accept expr Alias)) :=
  (hP.seq (acceptStep_field_closed hP hexpr) (hP.seq (acceptStep_field_closed hP hAlias) hP.skip))

theorem CastExpr_Accept_closed {expr : Option (σ → Traversal σ ε)}
    {AsType : Option (σ → Traversal σ ε)} (hexpr : OptClosed P expr)
    (hAsType : OptClosed P AsType) : P (runSteps (CastExpr.Accept expr AsType)) :=
  (hP.seq (acceptStep_field_closed hP hexpr) (hP.seq (acceptStep_field_closed hP hAsType) hP.skip))

theorem CheckStmt_Accept_closed {Table : (σ → Traversal σ ε)}
    {Partition : Option (σ → Traversal σ ε)} (hTable : P Table)
    (hPartition : OptClosed P Partition) : P (runSteps (CheckStmt.Accept Table Partition)) :=
  (hP.seq hTable (hP.seq (acceptStep_ifPresent_closed hP hPartition) hP.skip))

theorem ColumnArgList_Accept_closed {Items : List (σ → Traversal σ ε)}
    (hItems : ListClosed P Items) : P (runSteps (ColumnArgList.Accept Items)) :=
  (hP.seq (acceptStep_each_closed hP hItems) hP.skip)

theorem ColumnExprList_Accept_closed {Items : List (σ → Traversal σ ε)}
    (hItems : ListClosed P Items) : P (runSteps (ColumnExprList.Accept Items)) :=
  (hP.seq (acceptStep_each_closed hP hItems) hP.skip)

theorem ColumnNamesExpr_Accept_closed {ColumnNames : List (σ → Traversal σ ε)}
    (hColumnNames : ListClosed P ColumnNames) : P (runSteps (ColumnNamesExpr.Accept ColumnNames)) :=
  (hP.seq (acceptStep_each_closed hP hColumnNames) hP.skip)

theorem ColumnTypeExpr_Accept_closed {Name : (σ → Traversal σ ε)} (hName : P Name) :
    P (runSteps (ColumnTypeExpr.Accept Name)) :=
  (hP.seq hName hP.skip)

theorem CompressionCodec_Accept_closed {type : Option (σ → Traversal σ ε)}
    {TypeLevel : Option (σ → Traversal σ ε)} {Name : Option (σ → Traversal σ ε)}
    {Level : Option (σ → Traversal σ ε)} (htype : OptClosed P type)
    (hTypeLevel : OptClosed P TypeLevel) (hName : OptClosed P Name) (hLevel : OptClosed P Level) :
    P (runSteps (CompressionCodec.Accept type TypeLevel Name Level)) :=
  (hP.seq (acceptStep_ifPresent_closed hP htype) (hP.seq (acceptStep_ifPresent_closed hP hTypeLevel)
    (hP.seq (acceptStep_ifPresent_closed hP hName) (hP.seq (acceptStep_ifPresent_closed hP hLevel)
    hP.skip))))

theorem ConstraintClause_Accept_closed {Constraint : (σ → Traversal σ ε)}
    {expr : Option (σ → Traversal σ ε)} (hConstraint : P Constraint) (hexpr : OptClosed P expr) :
    P (runSteps (ConstraintClause.Accept Constraint expr)) :=
  (hP.seq hConstraint (hP.seq (acceptStep_field_closed hP hexpr) hP.skip))

theorem CreateDictionary_Accept_closed {Name : (σ → Traversal σ ε)}
    {UUID : Option (σ → Traversal σ ε)} {OnCluster : Option (σ → Traversal σ ε)}
    {Schema : Option (σ → Traversal σ ε)} {Engine : Option (σ → Traversal σ ε)}
    {Comment : Option (σ → Traversal σ ε)} (hName : P Name) (hUUID : OptClosed P UUID)
    (hOnCluster : OptClosed P OnCluster) (hSchema : OptClosed P Schema)
    (hEngine : OptClosed P Engine) (hComment : OptClosed P Comment) :
    P (runSteps (CreateDictionary.Accept Name UUID OnCluster Schema Engine Comment)) :=
  (hP.seq hName (hP.seq (acceptStep_ifPresent_closed hP hUUID) (hP.seq (acceptStep_ifPresent_closed
    hP hOnCluster) (hP.seq (acceptStep_ifPresent_closed hP hSchema) (hP.seq
    (acceptStep_ifPresent_closed hP hEngine) (hP.seq (acceptStep_ifPresent_closed hP hComment)
    hP.skip))))))

theorem CreateFunction_Accept_closed {FunctionName : (σ → Traversal σ ε)}
    {OnCluster : Option (σ → Traversal σ ε)} {Params : (σ → Traversal σ ε)}
    {expr : Option (σ → Traversal σ ε)} (hFunctionName : P FunctionName)
    (hOnCluster : OptClosed P OnCluster) (hParams : P Params) (hexpr : OptClosed P expr) :
    P (runSteps (CreateFunction.Accept FunctionName OnCluster Params expr)) :=
  (hP.seq hFunctionName (hP.seq (acceptStep_ifPresent_closed hP hOnCluster) (hP.seq hParams (hP.seq
    (acceptStep_field_closed hP hexpr) hP.skip))))

theorem CreateLiveView_Accept_closed {Name : (σ → Traversal σ ε)}
    {UUID : Option (σ → Traversal σ ε)} {OnCluster : Option (σ → Traversal σ ε)}
    {Destination : Option (σ → Traversal σ ε)} {TableSchema : Option (σ → Traversal σ ε)}
    {WithTimeout : Option (σ → Traversal σ ε)} {SubQuery : Option (σ → Traversal σ ε)}
    (hName : P Name) (hUUID : OptClosed P UUID) (hOnCluster : OptClosed P OnCluster)
    (hDestination : OptClosed P Destination) (hTableSchema : OptClosed P TableSchema)
    (hWithTimeout : OptClosed P WithTimeout) (hSubQuery : OptClosed P SubQuery) :
    P (runSteps (CreateLiveView.Accept Name UUID OnCluster Destination TableSchema WithTimeout
      SubQuery)) :=
  (hP.seq hName (hP.seq (acceptStep_ifPresent_closed hP hUUID) (hP.seq (acceptStep_ifPresent_closed
    hP hOnCluster) (hP.seq (acceptStep_ifPresent_closed hP hDestination) (hP.seq
    (acceptStep_ifPresent_closed hP hTableSchema) (hP.seq (acceptStep_ifPresent_closed hP
    hWithTimeout) (hP.seq (acceptStep_ifPresent_closed hP hSubQuery) hP.skip)))))))

theorem CreateNamedCollection_Accept_closed {Name : (σ → Traversal σ ε)}
    {OnCluster : Option (σ → Traversal σ ε)} {Params : List (σ → Traversal σ ε)} (hName : P Name)
    (hOnCluster : OptClosed P OnCluster) (hParams : ListClosed P Params) :
    P (runSteps (CreateNamedCollection.Accept Name OnCluster Params)) :=
  (hP.seq hName (hP.seq (acceptStep_ifPresent_closed hP hOnCluster) (hP.seq (acceptStep_each_closed
    hP hParams) hP.skip)))

theorem CreateRole_Accept_closed {RoleNames : List (σ → Traversal σ ε)}
    {AccessStorageType : Option (σ → Traversal σ ε)} {Settings : List (σ → Traversal σ ε)}
    (hRoleNames : ListClosed P RoleNames) (hAccessStorageType : OptClosed P AccessStorageType)
    (hSettings : ListClosed P Settings) :
    P (runSteps (CreateRole.Accept RoleNames AccessStorageType Settings)) :=
  (hP.seq (acceptStep_each_closed hP hRoleNames) (hP.seq (acceptStep_ifPresent_closed hP
    hAccessStorageType) (hP.seq (acceptStep_each_closed hP hSettings) hP.skip)))

theorem CreateTable_Accept_closed {Name : (σ → Traversal σ ε)} {UUID : Option (σ → Traversal σ ε)}
    {OnCluster : Option (σ → Traversal σ ε)} {TableSchema : Option (σ → Traversal σ ε)}
    {Engine : Option (σ → Traversal σ ε)} {SubQuery : Option (σ → Traversal σ ε)}
    {TableFunction : Option (σ → Traversal σ ε)} (hName : P Name) (hUUID : OptClosed P UUID)
    (hOnCluster : OptClosed P OnCluster) (hTableSchema : OptClosed P TableSchema)
    (hEngine : OptClosed P Engine) (hSubQuery : OptClosed P SubQuery)
    (hTableFunction : OptClosed P TableFunction) :
    P (runSteps (CreateTable.Accept Name UUID OnCluster TableSchema Engine SubQuery TableFunction))
      :=
  (hP.seq hName (hP.seq (acceptStep_ifPresent_closed hP hUUID) (hP.seq (acceptStep_ifPresent_closed
    hP hOnCluster) (hP.seq (acceptStep_ifPresent_closed hP hTableSchema) (hP.seq
    (acceptStep_ifPresent_closed hP hEngine) (hP.seq (acceptStep_ifPresent_closed hP hSubQuery)
    (hP.seq (acceptStep_ifPresent_closed hP hTableFunction) hP.skip)))))))

theorem CreateUser_Accept_closed {UserNames : List (σ → Traversal σ ε)}
    {Authentication : Option (σ → Traversal σ ε)} {Hosts : List (σ → Traversal σ ε)}
    {DefaultRole : Option (σ → Traversal σ ε)} {DefaultDatabase : Option (σ → Traversal σ ε)}
    {Grantees : Option (σ → Traversal σ ε)} {Settings : List (σ → Traversal σ ε)}
    (hUserNames : ListClosed P UserNames) (hAuthentication : OptClosed P Authentication)
    (hHosts : ListClosed P Hosts) (hDefaultRole : OptClosed P DefaultRole)
    (hDefaultDatabase : OptClosed P DefaultDatabase) (hGrantees : OptClosed P Grantees)
    (hSettings : ListClosed P Settings) :
    P (runSteps (CreateUser.Accept UserNames Authentication Hosts DefaultRole DefaultDatabase
      Grantees Settings)) :=
  (hP.seq (acceptStep_each_closed hP hUserNames) (hP.seq (acceptStep_ifPresent_closed hP
    hAuthentication) (hP.seq (acceptStep_each_closed hP hHosts) (hP.seq (acceptStep_ifPresent_closed
    hP hDefaultRole) (hP.seq (acceptStep_ifPresent_closed hP hDefaultDatabase) (hP.seq
    (acceptStep_ifPresent_closed hP hGrantees) (hP.seq (acceptStep_each_closed hP hSettings)
    hP.skip)))))))

theorem CreateView_Accept_closed {Name : (σ → Traversal σ ε)} {UUID : Option (σ → Traversal σ ε)}
    {OnCluster : Option (σ → Traversal σ ε)} {TableSchema : Option (σ → Traversal σ ε)}
    {SubQuery : Option (σ → Traversal σ ε)} (hName : P Name) (hUUID : OptClosed P UUID)
    (hOnCluster : OptClosed P OnCluster) (hTableSchema : OptClosed P TableSchema)
    (hSubQuery : OptClosed P SubQuery) :
    P (runSteps (CreateView.Accept Name UUID OnCluster TableSchema SubQuery)) :=
  (hP.seq hName (hP.seq (acceptStep_ifPresent_closed hP hUUID) (hP.seq (acceptStep_ifPresent_closed
    hP hOnCluster) (hP.seq (acceptStep_ifPresent_closed hP hTableSchema) (hP.seq
    (acceptStep_ifPresent_closed hP hSubQuery) hP.skip)))))

theorem DeduplicateClause_Accept_closed {By : Option (σ → Traversal σ ε)}
    {Except : Option (σ → Traversal σ ε)} (hBy : OptClosed P By) (hExcept : OptClosed P Except) :
    P (runSteps (DeduplicateClause.Accept By Except)) :=
  (hP.seq (acceptStep_ifPresent_closed hP hBy) (hP.seq (acceptStep_ifPresent_closed hP hExcept)
    hP.skip))

theorem DefaultRoleClause_Accept_closed {Roles : List (σ → Traversal σ ε)}
    (hRoles : ListClosed P Roles) : P (runSteps (DefaultRoleClause.Accept Roles)) :=
  (hP.seq (acceptStep_each_closed hP hRoles) hP.skip)

theorem DeleteClause_Accept_closed {Table : (σ → Traversal σ ε)}
    {OnCluster : Option (σ → Traversal σ ε)} {WhereExpr : Option (σ → Traversal σ ε)}
    (hTable : P Table) (hOnCluster : OptClosed P OnCluster) (hWhereExpr : OptClosed P WhereExpr) :
    P (runSteps (DeleteClause.Accept Table OnCluster WhereExpr)) :=
  (hP.seq hTable (hP.seq (acceptStep_ifPresent_closed hP hOnCluster) (hP.seq
    (acceptStep_ifPresent_closed hP hWhereExpr) hP.skip)))

theorem DescribeStmt_Accept_closed {Target : (σ → Traversal σ ε)} (hTarget : P Target) :
    P (runSteps (DescribeStmt.Accept Target)) :=
  (hP.seq hTarget hP.skip)

theorem DestinationClause_Accept_closed {TableIdentifier : (σ → Traversal σ ε)}
    (hTableIdentifier : P TableIdentifier) :
    P (runSteps (DestinationClause.Accept TableIdentifier)) :=
  (hP.seq hTableIdentifier hP.skip)

theorem DictionaryArgExpr_Accept_closed {Name : (σ → Traversal σ ε)}
    {Value : Option (σ → Traversal σ ε)} (hName : P Name) (hValue : OptClosed P Value) :
    P (runSteps (DictionaryArgExpr.Accept Name Value)) :=
  (hP.seq hName (hP.seq (acceptStep_field_closed hP hValue) hP.skip))

theorem DictionaryEngineClause_Accept_closed {PrimaryKey : Option (σ → Traversal σ ε)}
    {Source : Option (σ → Traversal σ ε)} {Lifetime : Option (σ → Traversal σ ε)}
    {Layout : Option (σ → Traversal σ ε)} {Range : Option (σ → Traversal σ ε)}
    {Settings : Option (σ → Traversal σ ε)} (hPrimaryKey : OptClosed P PrimaryKey)
    (hSource : OptClosed P Source) (hLifetime : OptClosed P Lifetime) (hLayout : OptClosed P Layout)
    (hRange : OptClosed P Range) (hSettings : OptClosed P Settings) :
    P (runSteps (DictionaryEngineClause.Accept PrimaryKey Source Lifetime Layout Range Settings)) :=
  (hP.seq (acceptStep_ifPresent_closed hP hPrimaryKey) (hP.seq (acceptStep_ifPresent_closed hP
    hSource) (hP.seq (acceptStep_ifPresent_closed hP hLifetime) (hP.seq (acceptStep_ifPresent_closed
    hP hLayout) (hP.seq (acceptStep_ifPresent_closed hP hRange) (hP.seq (acceptStep_ifPresent_closed
    hP hSettings) hP.skip))))))

theorem DictionaryLayoutClause_Accept_closed {Layout : (σ → Traversal σ ε)}
    {Args : List (σ → Traversal σ ε)} (hLayout : P Layout) (hArgs : ListClosed P Args) :
    P (runSteps (DictionaryLayoutClause.Accept Layout Args)) :=
  (hP.seq hLayout (hP.seq (acceptStep_each_closed hP hArgs) hP.skip))

theorem DictionaryPrimaryKeyClause_Accept_closed {Keys : (σ → Traversal σ ε)} (hKeys : P Keys) :
    P (runSteps (DictionaryPrimaryKeyClause.Accept Keys)) :=
  (hP.seq hKeys hP.skip)

theorem DictionarySchemaClause_Accept_closed {Attributes : List (σ → Traversal σ ε)}
    (hAttributes : ListClosed P Attributes) :
    P (runSteps (DictionarySchemaClause.Accept Attributes)) :=
  (hP.seq (acceptStep_each_closed hP hAttributes) hP.skip)

theorem DictionarySourceClause_Accept_closed {Source : (σ → Traversal σ ε)}
    {Args : List (σ → Traversal σ ε)} (hSource : P Source) (hArgs : ListClosed P Args) :
    P (runSteps (DictionarySourceClause.Accept Source Args)) :=
  (hP.seq hSource (hP.seq (acceptStep_each_closed hP hArgs) hP.skip))

theorem DistinctOn_Accept_closed {Idents : List (σ → Traversal σ ε)}
    (hIdents : ListClosed P Idents) : P (runSteps (DistinctOn.Accept Idents)) :=
  (hP.seq (acceptStep_each_closed hP hIdents) hP.skip)

theorem DropDatabase_Accept_closed {Name : (σ → Traversal σ ε)}
    {OnCluster : Option (σ → Traversal σ ε)} (hName : P Name) (hOnCluster : OptClosed P OnCluster) :
    P (runSteps (DropDatabase.Accept Name OnCluster)) :=
  (hP.seq hName (hP.seq (acceptStep_ifPresent_closed hP hOnCluster) hP.skip))

theorem DropStmt_Accept_closed {Name : (σ → Traversal σ ε)} {OnCluster : Option (σ → Traversal σ ε)}
    (hName : P Name) (hOnCluster : OptClosed P OnCluster) :
    P (runSteps (DropStmt.Accept Name OnCluster)) :=
  (hP.seq hName (hP.seq (acceptStep_ifPresent_closed hP hOnCluster) hP.skip))

theorem DropUserOrRole_Accept_closed {Names : List (σ → Traversal σ ε)}
    {From : Option (σ → Traversal σ ε)} (hNames : ListClosed P Names) (hFrom : OptClosed P From) :
    P (runSteps (DropUserOrRole.Accept Names From)) :=
  (hP.seq (acceptStep_each_closed hP hNames) (hP.seq (acceptStep_ifPresent_closed hP hFrom)
    hP.skip))

theorem EngineExpr_Accept_closed {Params : Option (σ → Traversal σ ε)}
    {PrimaryKey : Option (σ → Traversal σ ε)} {PartitionBy : Option (σ → Traversal σ ε)}
    {SampleBy : Option (σ → Traversal σ ε)} {TTL : Option (σ → Traversal σ ε)}
    {Settings : Option (σ → Traversal σ ε)} {OrderBy : Option (σ → Traversal σ ε)}
    (hParams : OptClosed P Params) (hPrimaryKey : OptClosed P PrimaryKey)
    (hPartitionBy : OptClosed P PartitionBy) (hSampleBy : OptClosed P SampleBy)
    (hTTL : OptClosed P TTL) (hSettings : OptClosed P Settings) (hOrderBy : OptClosed P OrderBy) :
    P (runSteps (EngineExpr.Accept Params PrimaryKey PartitionBy SampleBy TTL Settings OrderBy)) :=
  (hP.seq (acceptStep_ifPresent_closed hP hParams) (hP.seq (acceptStep_ifPresent_closed hP
    hPrimaryKey) (hP.seq (acceptStep_ifPresent_closed hP hPartitionBy) (hP.seq
    (acceptStep_ifPresent_closed hP hSampleBy) (hP.seq (acceptStep_ifPresent_closed hP hTTL) (hP.seq
    (acceptStep_ifPresent_closed hP hSettings) (hP.seq (acceptStep_ifPresent_closed hP hOrderBy)
    hP.skip)))))))

theorem ExplainStmt_Accept_closed {Statement : Option (σ → Traversal σ ε)}
    (hStatement : OptClosed P Statement) : P (runSteps (ExplainStmt.Accept Statement)) :=
  (hP.seq (acceptStep_field_closed hP hStatement) hP.skip)

theorem ExtractExpr_Accept_closed {Parameters : List (σ → Traversal σ ε)}
    (hParameters : ListClosed P Parameters) : P (runSteps (ExtractExpr.Accept Parameters)) :=
  (hP.seq (acceptStep_each_closed hP hParameters) hP.skip)

theorem Fill_Accept_closed {From : Option (σ → Traversal σ ε)} {To : Option (σ → Traversal σ ε)}
    {Step : Option (σ → Traversal σ ε)} {Staleness : Option (σ → Traversal σ ε)}
    (hFrom : OptClosed P From) (hTo : OptClosed P To) (hStep : OptClosed P Step)
    (hStaleness : OptClosed P Staleness) : P (runSteps (Fill.Accept From To Step Staleness)) :=
  (hP.seq (acceptStep_ifPresent_closed hP hFrom) (hP.seq (acceptStep_ifPresent_closed hP hTo)
    (hP.seq (acceptStep_ifPresent_closed hP hStep) (hP.seq (acceptStep_ifPresent_closed hP
    hStaleness) hP.skip))))

theorem FunctionExpr_Accept_closed {Name : (σ → Traversal σ ε)} {Params : (σ → Traversal σ ε)}
    (hName : P Name) (hParams : P Params) : P (runSteps (FunctionExpr.Accept Name Params)) :=
  (hP.seq hName (hP.seq hParams hP.skip))

theorem GlobalInOperation_Accept_closed {expr : Option (σ → Traversal σ ε)}
    (hexpr : OptClosed P expr) : P (runSteps (GlobalInOperation.Accept expr)) :=
  (hP.seq (acceptStep_field_closed hP hexpr) hP.skip)

theorem GranteesClause_Accept_closed {Grantees : List (σ → Traversal σ ε)}
    {ExceptUsers : List (σ → Traversal σ ε)} (hGrantees : ListClosed P Grantees)
    (hExceptUsers : ListClosed P ExceptUsers) :
    P (runSteps (GranteesClause.Accept Grantees ExceptUsers)) :=
  (hP.seq (acceptStep_each_closed hP hGrantees) (hP.seq (acceptStep_each_closed hP hExceptUsers)
    hP.skip))

theorem HostClause_Accept_closed {HostValue : Option (σ → Traversal σ ε)}
    (hHostValue : OptClosed P HostValue) : P (runSteps (HostClause.Accept HostValue)) :=
  (hP.seq (acceptStep_ifPresent_closed hP hHostValue) hP.skip)

theorem IndexOperation_Accept_closed {Object : Option (σ → Traversal σ ε)}
    {Index : Option (σ → Traversal σ ε)} (hObject : OptClosed P Object)
    (hIndex : OptClosed P Index) : P (runSteps (IndexOperation.Accept Object Index)) :=
  (hP.seq (acceptStep_field_closed hP hObject) (hP.seq (acceptStep_field_closed hP hIndex) hP.skip))

theorem InterpolateClause_Accept_closed {Items : List (σ → Traversal σ ε)}
    (hItems : ListClosed P Items) : P (runSteps (InterpolateClause.Accept Items)) :=
  (hP.seq (acceptStep_each_closed hP hItems) hP.skip)

theorem InterpolateItem_Accept_closed {Column : (σ → Traversal σ ε)}
    {expr : Option (σ → Traversal σ ε)} (hColumn : P Column) (hexpr : OptClosed P expr) :
    P (runSteps (InterpolateItem.Accept Column expr)) :=
  (hP.seq hColumn (hP.seq (acceptStep_ifPresent_closed hP hexpr) hP.skip))

theorem IntervalExpr_Accept_closed {expr : Option (σ → Traversal σ ε)} {Unit : (σ → Traversal σ ε)}
    (hexpr : OptClosed P expr) (hUnit : P Unit) : P (runSteps (IntervalExpr.Accept expr Unit)) :=
  (hP.seq (acceptStep_field_closed hP hexpr) (hP.seq hUnit hP.skip))

theorem IntervalFrom_Accept_closed {FromExpr : Option (σ → Traversal σ ε)}
    (hFromExpr : OptClosed P FromExpr) : P (runSteps (IntervalFrom.Accept FromExpr)) :=
  (hP.seq (acceptStep_field_closed hP hFromExpr) hP.skip)

theorem IsNotNullExpr_Accept_closed {expr : Option (σ → Traversal σ ε)} (hexpr : OptClosed P expr) :
    P (runSteps (IsNotNullExpr.Accept expr)) :=
  (hP.seq (acceptStep_field_closed hP hexpr) hP.skip)

theorem IsNullExpr_Accept_closed {expr : Option (σ → Traversal σ ε)} (hexpr : OptClosed P expr) :
    P (runSteps (IsNullExpr.Accept expr)) :=
  (hP.seq (acceptStep_field_closed hP hexpr) hP.skip)

theorem JoinConstraintClause_Accept_closed {On : Option (σ → Traversal σ ε)}
    {Using : Option (σ → Traversal σ ε)} (hOn : OptClosed P On) (hUsing : OptClosed P Using) :
    P (runSteps (JoinConstraintClause.Accept On Using)) :=
  (hP.seq (acceptStep_ifPresent_closed hP hOn) (hP.seq (acceptStep_ifPresent_closed hP hUsing)
    hP.skip))

theorem LimitByClause_Accept_closed {Limit : Option (σ → Traversal σ ε)}
    {ByExpr : Option (σ → Traversal σ ε)} (hLimit : OptClosed P Limit)
    (hByExpr : OptClosed P ByExpr) : P (runSteps (LimitByClause.Accept Limit ByExpr)) :=
  (hP.seq (acceptStep_ifPresent_closed hP hLimit) (hP.seq (acceptStep_ifPresent_closed hP hByExpr)
    hP.skip))

theorem LimitClause_Accept_closed {Limit : Option (σ → Traversal σ ε)}
    {Offset : Option (σ → Traversal σ ε)} (hLimit : OptClosed P Limit)
    (hOffset : OptClosed P Offset) : P (runSteps (LimitClause.Accept Limit Offset)) :=
  (hP.seq (acceptStep_ifPresent_closed hP hLimit) (hP.seq (acceptStep_ifPresent_closed hP hOffset)
    hP.skip))

theorem NamedCollectionParam_Accept_closed {Name : (σ → Traversal σ ε)}
    {Value : Option (σ → Traversal σ ε)} (hName : P Name) (hValue : OptClosed P Value) :
    P (runSteps (NamedCollectionParam.Accept Name Value)) :=
  (hP.seq hName (hP.seq (acceptStep_field_closed hP hValue) hP.skip))

theorem NamedParameterExpr_Accept_closed {Name : (σ → Traversal σ ε)}
    {Value : Option (σ → Traversal σ ε)} (hName : P Name) (hValue : OptClosed P Value) :
    P (runSteps (NamedParameterExpr.Accept Name Value)) :=
  (hP.seq hName (hP.seq (acceptStep_field_closed hP hValue) hP.skip))

theorem NegateExpr_Accept_closed {expr : Option (σ → Traversal σ ε)} (hexpr : OptClosed P expr) :
    P (runSteps (NegateExpr.Accept expr)) :=
  (hP.seq (acceptStep_field_closed hP hexpr) hP.skip)

theorem ObjectParams_Accept_closed {Object : Option (σ → Traversal σ ε)}
    {Params : (σ → Traversal σ ε)} (hObject : OptClosed P Object) (hParams : P Params) :
    P (runSteps (ObjectParams.Accept Object Params)) :=
  (hP.seq (acceptStep_field_closed hP hObject) (hP.seq hParams hP.skip))

theorem OnClause_Accept_closed {On : (σ → Traversal σ ε)} (hOn : P On) :
    P (runSteps (OnClause.Accept On)) :=
  (hP.seq hOn hP.skip)

theorem OperationExpr_Accept_closed : P (runSteps (OperationExpr.Accept)) :=
  hP.skip

theorem OptimizeStmt_Accept_closed {Table : (σ → Traversal σ ε)}
    {OnCluster : Option (σ → Traversal σ ε)} {Partition : Option (σ → Traversal σ ε)}
    {Deduplicate : Option (σ → Traversal σ ε)} (hTable : P Table)
    (hOnCluster : OptClosed P OnCluster) (hPartition : OptClosed P Partition)
    (hDeduplicate : OptClosed P Deduplicate) :
    P (runSteps (OptimizeStmt.Accept Table OnCluster Partition Deduplicate)) :=
  (hP.seq hTable (hP.seq (acceptStep_ifPresent_closed hP hOnCluster) (hP.seq
    (acceptStep_ifPresent_closed hP hPartition) (hP.seq (acceptStep_ifPresent_closed hP
    hDeduplicate) hP.skip))))

theorem OrderByClause_Accept_closed {Items : List (σ → Traversal σ ε)}
    {Interpolate : Option (σ → Traversal σ ε)} (hItems : ListClosed P Items)
    (hInterpolate : OptClosed P Interpolate) :
    P (runSteps (OrderByClause.Accept Items Interpolate)) :=
  (hP.seq (acceptStep_each_closed hP hItems) (hP.seq (acceptStep_ifPresent_closed hP hInterpolate)
    hP.skip))

theorem OrderExpr_Accept_closed {expr : Option (σ → Traversal σ ε)}
    {Alias : Option (σ → Traversal σ ε)} {Fill : Option (σ → Traversal σ ε)}
    (hexpr : OptClosed P expr) (hAlias : OptClosed P Alias) (hFill : OptClosed P Fill) :
    P (runSteps (OrderExpr.Accept expr Alias Fill)) :=
  (hP.seq (acceptStep_field_closed hP hexpr) (hP.seq (acceptStep_ifPresent_closed hP hAlias) (hP.seq
    (acceptStep_ifPresent_closed hP hFill) hP.skip)))

theorem ParamExprList_Accept_closed {Items : (σ → Traversal σ ε)}
    {ColumnArgList : Option (σ → Traversal σ ε)} (hItems : P Items)
    (hColumnArgList : OptClosed P ColumnArgList) :
    P (runSteps (ParamExprList.Accept Items ColumnArgList)) :=
  (hP.seq hItems (hP.seq (acceptStep_ifPresent_closed hP hColumnArgList) hP.skip))

theorem PartitionByClause_Accept_closed {expr : Option (σ → Traversal σ ε)}
    (hexpr : OptClosed P expr) : P (runSteps (PartitionByClause.Accept expr)) :=
  (hP.seq (acceptStep_field_closed hP hexpr) hP.skip)

theorem Path_Accept_closed {Fields : List (σ → Traversal σ ε)} (hFields : ListClosed P Fields) :
    P (runSteps (Path.Accept Fields)) :=
  (hP.seq (acceptStep_each_closed hP hFields) hP.skip)

theorem PlaceHolder_Accept_closed : P (runSteps (PlaceHolder.Accept)) :=
  hP.skip

theorem PrimaryKeyClause_Accept_closed {expr : Option (σ → Traversal σ ε)}
    (hexpr : OptClosed P expr) : P (runSteps (PrimaryKeyClause.Accept expr)) :=
  (hP.seq (acceptStep_field_closed hP hexpr) hP.skip)

theorem ProjectionOrderByClause_Accept_closed : P (runSteps (ProjectionOrderByClause.Accept)) :=
  hP.skip

theorem ProjectionSelectStmt_Accept_closed {With : Option (σ → Traversal σ ε)}
    {SelectColumns : (σ → Traversal σ ε)} {GroupBy : Option (σ → Traversal σ ε)}
    {OrderBy : Option (σ → Traversal σ ε)} (hWith : OptClosed P With)
    (hSelectColumns : P SelectColumns) (hGroupBy : OptClosed P GroupBy)
    (hOrderBy : OptClosed P OrderBy) :
    P (runSteps (ProjectionSelectStmt.Accept With SelectColumns GroupBy OrderBy)) :=
  (hP.seq (acceptStep_ifPresent_closed hP hWith) (hP.seq hSelectColumns (hP.seq
    (acceptStep_ifPresent_closed hP hGroupBy) (hP.seq (acceptStep_ifPresent_closed hP hOrderBy)
    hP.skip))))

theorem QueryParam_Accept_closed {Name : (σ → Traversal σ ε)} {type : Option (σ → Traversal σ ε)}
    (hName : P Name) (htype : OptClosed P type) : P (runSteps (QueryParam.Accept Name type)) :=
  (hP.seq hName (hP.seq (acceptStep_field_closed hP htype) hP.skip))

theorem RefreshExpr_Accept_closed {Interval : Option (σ → Traversal σ ε)}
    {Offset : Option (σ → Traversal σ ε)} (hInterval : OptClosed P Interval)
    (hOffset : OptClosed P Offset) : P (runSteps (RefreshExpr.Accept Interval Offset)) :=
  (hP.seq (acceptStep_ifPresent_closed hP hInterval) (hP.seq (acceptStep_ifPresent_closed hP
    hOffset) hP.skip))

theorem RemovePropertyType_Accept_closed {PropertyType : Option (σ → Traversal σ ε)}
    (hPropertyType : OptClosed P PropertyType) :
    P (runSteps (RemovePropertyType.Accept PropertyType)) :=
  (hP.seq (acceptStep_field_closed hP hPropertyType) hP.skip)

theorem RoleName_Accept_closed {Name : Option (σ → Traversal σ ε)}
    {Scope : Option (σ → Traversal σ ε)} {OnCluster : Option (σ → Traversal σ ε)}
    (hName : OptClosed P Name) (hScope : OptClosed P Scope) (hOnCluster : OptClosed P OnCluster) :
    P (runSteps (RoleName.Accept Name Scope OnCluster)) :=
  (hP.seq (acceptStep_field_closed hP hName) (hP.seq (acceptStep_ifPresent_closed hP hScope) (hP.seq
    (acceptStep_ifPresent_closed hP hOnCluster) hP.skip)))

theorem RoleRenamePair_Accept_closed {RoleName : (σ → Traversal σ ε)}
    {NewName : Option (σ → Traversal σ ε)} (hRoleName : P RoleName)
    (hNewName : OptClosed P NewName) : P (runSteps (RoleRenamePair.Accept RoleName NewName)) :=
  (hP.seq hRoleName (hP.seq (acceptStep_ifPresent_closed hP hNewName) hP.skip))

theorem RoleSetting_Accept_closed {SettingPairs : List (σ → Traversal σ ε)}
    {Modifier : Option (σ → Traversal σ ε)} (hSettingPairs : ListClosed P SettingPairs)
    (hModifier : OptClosed P Modifier) : P (runSteps (RoleSetting.Accept SettingPairs Modifier)) :=
  (hP.seq (acceptStep_each_closed hP hSettingPairs) (hP.seq (acceptStep_ifPresent_closed hP
    hModifier) hP.skip))

theorem SampleByClause_Accept_closed {expr : Option (σ → Traversal σ ε)}
    (hexpr : OptClosed P expr) : P (runSteps (SampleByClause.Accept expr)) :=
  (hP.seq (acceptStep_field_closed hP hexpr) hP.skip)

theorem SetStmt_Accept_closed {Settings : (σ → Traversal σ ε)} (hSettings : P Settings) :
    P (runSteps (SetStmt.Accept Settings)) :=
  (hP.seq hSettings hP.skip)

theorem SettingPair_Accept_closed {Name : (σ → Traversal σ ε)} {Value : Option (σ → Traversal σ ε)}
    (hName : P Name) (hValue : OptClosed P Value) : P (runSteps (SettingPair.Accept Name Value)) :=
  (hP.seq hName (hP.seq (acceptStep_ifPresent_closed hP hValue) hP.skip))

theorem ShowStmt_Accept_closed {Target : Option (σ → Traversal σ ε)}
    {LikePattern : Option (σ → Traversal σ ε)} {Limit : Option (σ → Traversal σ ε)}
    {OutFile : Option (σ → Traversal σ ε)} {Format : Option (σ → Traversal σ ε)}
    (hTarget : OptClosed P Target) (hLikePattern : OptClosed P LikePattern)
    (hLimit : OptClosed P Limit) (hOutFile : OptClosed P OutFile) (hFormat : OptClosed P Format) :
    P (runSteps (ShowStmt.Accept Target LikePattern Limit OutFile Format)) :=
  (hP.seq (acceptStep_ifPresent_closed hP hTarget) (hP.seq (acceptStep_ifPresent_closed hP
    hLikePattern) (hP.seq (acceptStep_ifPresent_closed hP hLimit) (hP.seq
    (acceptStep_ifPresent_closed hP hOutFile) (hP.seq (acceptStep_ifPresent_closed hP hFormat)
    hP.skip)))))

theorem SubQuery_Accept_closed {Select : Option (σ → Traversal σ ε)}
    (hSelect : OptClosed P Select) : P (runSteps (SubQuery.Accept Select)) :=
  (hP.seq (acceptStep_ifPresent_closed hP hSelect) hP.skip)

theorem SystemCtrlExpr_Accept_closed {Cluster : Option (σ → Traversal σ ε)}
    (hCluster : OptClosed P Cluster) : P (runSteps (SystemCtrlExpr.Accept Cluster)) :=
  (hP.seq (acceptStep_ifPresent_closed hP hCluster) hP.skip)

theorem SystemDropExpr_Accept_closed : P (runSteps (SystemDropExpr.Accept)) :=
  hP.skip

theorem SystemFlushExpr_Accept_closed {Distributed : Option (σ → Traversal σ ε)}
    (hDistributed : OptClosed P Distributed) : P (runSteps (SystemFlushExpr.Accept Distributed)) :=
  (hP.seq (acceptStep_ifPresent_closed hP hDistributed) hP.skip)

theorem SystemReloadExpr_Accept_closed {Dictionary : Option (σ → Traversal σ ε)}
    (hDictionary : OptClosed P Dictionary) : P (runSteps (SystemReloadExpr.Accept Dictionary)) :=
  (hP.seq (acceptStep_ifPresent_closed hP hDictionary) hP.skip)

theorem SystemStmt_Accept_closed {expr : Option (σ → Traversal σ ε)} (hexpr : OptClosed P expr) :
    P (runSteps (SystemStmt.Accept expr)) :=
  (hP.seq (acceptStep_field_closed hP hexpr) hP.skip)

theorem SystemSyncExpr_Accept_closed {Cluster : (σ → Traversal σ ε)} (hCluster : P Cluster) :
    P (runSteps (SystemSyncExpr.Accept Cluster)) :=
  (hP.seq hCluster hP.skip)

theorem TTLClause_Accept_closed {Items : List (σ → Traversal σ ε)} (hItems : ListClosed P Items) :
    P (runSteps (TTLClause.Accept Items)) :=
  (hP.seq (acceptStep_each_closed hP hItems) hP.skip)

theorem TableArgListExpr_Accept_closed {Args : List (σ → Traversal σ ε)}
    (hArgs : ListClosed P Args) : P (runSteps (TableArgListExpr.Accept Args)) :=
  (hP.seq (acceptStep_each_closed hP hArgs) hP.skip)

theorem TableFunctionExpr_Accept_closed {Name : Option (σ → Traversal σ ε)}
    {Args : (σ → Traversal σ ε)} (hName : OptClosed P Name) (hArgs : P Args) :
    P (runSteps (TableFunctionExpr.Accept Name Args)) :=
  (hP.seq (acceptStep_field_closed hP hName) (hP.seq hArgs hP.skip))

theorem TableProjection_Accept_closed {Identifier : (σ → Traversal σ ε)}
    {Select : (σ → Traversal σ ε)} (hIdentifier : P Identifier) (hSelect : P Select) :
    P (runSteps (TableProjection.Accept Identifier Select)) :=
  (hP.seq hIdentifier (hP.seq hSelect hP.skip))

theorem TableSchemaClause_Accept_closed {Columns : List (σ → Traversal σ ε)}
    {AliasTable : Option (σ → Traversal σ ε)} {TableFunction : Option (σ → Traversal σ ε)}
    (hColumns : ListClosed P Columns) (hAliasTable : OptClosed P AliasTable)
    (hTableFunction : OptClosed P TableFunction) :
    P (runSteps (TableSchemaClause.Accept Columns AliasTable TableFunction)) :=
  (hP.seq (acceptStep_each_closed hP hColumns) (hP.seq (acceptStep_ifPresent_closed hP hAliasTable)
    (hP.seq (acceptStep_ifPresent_closed hP hTableFunction) hP.skip)))

theorem TargetPair_Accept_closed {Old : (σ → Traversal σ ε)} {New : (σ → Traversal σ ε)}
    (hOld : P Old) (hNew : P New) : P (runSteps (TargetPair.Accept Old New)) :=
  (hP.seq hOld (hP.seq hNew hP.skip))

theorem TopClause_Accept_closed {Number : (σ → Traversal σ ε)} (hNumber : P Number) :
    P (runSteps (TopClause.Accept Number)) :=
  (hP.seq hNumber hP.skip)

theorem TruncateTable_Accept_closed {Name : (σ → Traversal σ ε)}
    {OnCluster : Option (σ → Traversal σ ε)} (hName : P Name) (hOnCluster : OptClosed P OnCluster) :
    P (runSteps (TruncateTable.Accept Name OnCluster)) :=
  (hP.seq hName (hP.seq (acceptStep_ifPresent_closed hP hOnCluster) hP.skip))

theorem TypedPlaceholder_Accept_closed {Name : (σ → Traversal σ ε)}
    {type : Option (σ → Traversal σ ε)} (hName : P Name) (htype : OptClosed P type) :
    P (runSteps (TypedPlaceholder.Accept Name type)) :=
  (hP.seq hName (hP.seq (acceptStep_field_closed hP htype) hP.skip))

theorem UUID_Accept_closed : P (runSteps (UUID.Accept)) :=
  hP.skip

theorem UnaryExpr_Accept_closed {expr : Option (σ → Traversal σ ε)} (hexpr : OptClosed P expr) :
    P (runSteps (UnaryExpr.Accept expr)) :=
  (hP.seq (acceptStep_field_closed hP hexpr) hP.skip)

theorem UpdateAssignment_Accept_closed {Column : (σ → Traversal σ ε)}
    {expr : Option (σ → Traversal σ ε)} (hColumn : P Column) (hexpr : OptClosed P expr) :
    P (runSteps (UpdateAssignment.Accept Column expr)) :=
  (hP.seq hColumn (hP.seq (acceptStep_field_closed hP hexpr) hP.skip))

theorem UseStmt_Accept_closed {Database : (σ → Traversal σ ε)} (hDatabase : P Database) :
    P (runSteps (UseStmt.Accept Database)) :=
  (hP.seq hDatabase hP.skip)

theorem UsingClause_Accept_closed {Using : (σ → Traversal σ ε)} (hUsing : P Using) :
    P (runSteps (UsingClause.Accept Using)) :=
  (hP.seq hUsing hP.skip)

theorem WindowExpr_Accept_closed {PartitionBy : Option (σ → Traversal σ ε)}
    {OrderBy : Option (σ → Traversal σ ε)} {Frame : Option (σ → Traversal σ ε)}
    (hPartitionBy : OptClosed P PartitionBy) (hOrderBy : OptClosed P OrderBy)
    (hFrame : OptClosed P Frame) : P (runSteps (WindowExpr.Accept PartitionBy OrderBy Frame)) :=
  (hP.seq (acceptStep_ifPresent_closed hP hPartitionBy) (hP.seq (acceptStep_ifPresent_closed hP
    hOrderBy) (hP.seq (acceptStep_ifPresent_closed hP hFrame) hP.skip)))

theorem WindowFrameClause_Accept_closed {Extend : Option (σ → Traversal σ ε)}
    (hExtend : OptClosed P Extend) : P (runSteps (WindowFrameClause.Accept Extend)) :=
  (hP.seq (acceptStep_field_closed hP hExtend) hP.skip)

theorem WindowFrameCurrentRow_Accept_closed : P (runSteps (WindowFrameCurrentRow.Accept)) :=
  hP.skip

theorem WindowFrameExtendExpr_Accept_closed {expr : Option (σ → Traversal σ ε)}
    (hexpr : OptClosed P expr) : P (runSteps (WindowFrameExtendExpr.Accept expr)) :=
  (hP.seq (acceptStep_field_closed hP hexpr) hP.skip)

theorem WindowFrameNumber_Accept_closed {Number : (σ → Traversal σ ε)} (hNumber : P Number) :
    P (runSteps (WindowFrameNumber.Accept Number)) :=
  (hP.seq hNumber hP.skip)

theorem WindowFrameParam_Accept_closed {Param : (σ → Traversal σ ε)} (hParam : P Param) :
    P (runSteps (WindowFrameParam.Accept Param)) :=
  (hP.seq hParam hP.skip)

theorem WindowFrameUnbounded_Accept_closed : P (runSteps (WindowFrameUnbounded.Accept)) :=
  hP.skip

theorem WindowFunctionExpr_Accept_closed {Function : (σ → Traversal σ ε)}
    {OverExpr : Option (σ → Traversal σ ε)} (hFunction : P Function)
    (hOverExpr : OptClosed P OverExpr) :
    P (runSteps (WindowFunctionExpr.Accept Function OverExpr)) :=
  (hP.seq hFunction (hP.seq (acceptStep_field_closed hP hOverExpr) hP.skip))

theorem WithTimeoutClause_Accept_closed {Number : (σ → Traversal σ ε)} (hNumber : P Number) :
    P (runSteps (WithTimeoutClause.Accept Number)) :=
  (hP.seq hNumber hP.skip)


theorem NodeKind_Accept_closed (kind : NodeKind) {v : View (σ → Traversal σ ε)}
    (hv : ViewClosed P v) : P (runSteps (NodeKind.Accept kind v)) := by
  cases kind with
  | AlterRole _ _ _ =>
      exact AlterRole_Accept_closed hP (viewClosed_list hv 0) (viewClosed_list hv 1)
  | AlterTableAttachPartition _ =>
      exact (viewClosed_withNode (Q := fun steps => P (runSteps steps)) hv 0 hP.skip fun Partition
        hPartition => AlterTableAttachPartition_Accept_closed hP hPartition (viewClosed_child hv 0))
  | AlterTableClearColumn _ _ _ =>
      exact (viewClosed_withNode (Q := fun steps => P (runSteps steps)) hv 0 hP.skip fun ColumnName
        hColumnName => AlterTableClearColumn_Accept_closed hP hColumnName (viewClosed_child hv 0))
  | AlterTableClearIndex _ _ _ =>
      exact (viewClosed_withNode (Q := fun steps => P (runSteps steps)) hv 0 hP.skip fun IndexName
        hIndexName => AlterTableClearIndex_Accept_closed hP hIndexName (viewClosed_child hv 0))
  | AlterTableClearProjection _ _ _ =>
      exact (viewClosed_withNode (Q := fun steps => P (runSteps steps)) hv 0 hP.skip fun
        ProjectionName hProjectionName => AlterTableClearProjection_Accept_closed hP hProjectionName
        (viewClosed_child hv 0))
  | AlterTableDelete _ _ =>
      exact AlterTableDelete_Accept_closed hP (viewClosed_child hv 0)
  | AlterTableDetachPartition _ =>
      exact (viewClosed_withNode (Q := fun steps => P (runSteps steps)) hv 0 hP.skip fun Partition
        hPartition => AlterTableDetachPartition_Accept_closed hP hPartition (viewClosed_child hv 0))
  | AlterTableDropIndex _ _ =>
      exact (viewClosed_withNode (Q := fun steps => P (runSteps steps)) hv 0 hP.skip fun IndexName
        hIndexName => AlterTableDropIndex_Accept_closed hP hIndexName)
  | AlterTableDropProjection _ _ =>
      exact (viewClosed_withNode (Q := fun steps => P (runSteps steps)) hv 0 hP.skip fun
        ProjectionName hProjectionName => AlterTableDropProjection_Accept_closed hP hProjectionName)
  | AlterTableFreezePartition _ _ =>
      exact AlterTableFreezePartition_Accept_closed hP (viewClosed_child hv 0)
  | AlterTableMaterializeIndex _ _ _ =>
      exact (viewClosed_withNode (Q := fun steps => P (runSteps steps)) hv 0 hP.skip fun IndexName
        hIndexName => AlterTableMaterializeIndex_Accept_closed hP hIndexName (viewClosed_child hv
        0))
  | AlterTableMaterializeProjection _ _ _ =>
      exact (viewClosed_withNode (Q := fun steps => P (runSteps steps)) hv 0 hP.skip fun
        ProjectionName hProjectionName => AlterTableMaterializeProjection_Accept_closed hP
        hProjectionName (viewClosed_child hv 0))
  | AlterTableModifyColumn _ _ _ =>
      exact (viewClosed_withNode (Q := fun steps => P (runSteps steps)) hv 0 hP.skip fun Column
        hColumn => AlterTableModifyColumn_Accept_closed hP hColumn (viewClosed_child hv 0))
  | AlterTableModifyQuery _ _ =>
      exact (viewClosed_withNode (Q := fun steps => P (runSteps steps)) hv 0 hP.skip fun SelectExpr
        hSelectExpr => AlterTableModifyQuery_Accept_closed hP hSelectExpr)
  | AlterTableModifySetting _ _ =>
      exact AlterTableModifySetting_Accept_closed hP (viewClosed_list hv 0)
  | AlterTableModifyTTL _ _ =>
      exact (viewClosed_withNode (Q := fun steps => P (runSteps steps)) hv 0 hP.skip fun TTL hTTL =>
        AlterTableModifyTTL_Accept_closed hP hTTL)
  | AlterTableRemoveTTL _ _ =>
      exact AlterTableRemoveTTL_Accept_closed hP
  | AlterTableRenameColumn _ _ =>
      exact (viewClosed_withNode (Q := fun steps => P (runSteps steps)) hv 0 hP.skip fun
        OldColumnName hOldColumnName => (viewClosed_withNode (Q := fun steps => P (runSteps steps))
        hv 1 hP.skip fun NewColumnName hNewColumnName => AlterTableRenameColumn_Accept_closed hP
        hOldColumnName hNewColumnName))
  | AlterTableReplacePartition _ =>
      exact (viewClosed_withNode (Q := fun steps => P (runSteps steps)) hv 0 hP.skip fun Partition
        hPartition => (viewClosed_withNode (Q := fun steps => P (runSteps steps)) hv 1 hP.skip fun
        Table hTable => AlterTableReplacePartition_Accept_closed hP hPartition hTable))
  | AlterTableResetSetting _ _ =>
      exact AlterTableResetSetting_Accept_closed hP (viewClosed_list hv 0)
  | AlterTableUpdate _ _ =>
      exact AlterTableUpdate_Accept_closed hP (viewClosed_list hv 0) (viewClosed_child hv 0)
        (viewClosed_child hv 1)
  | ArrayParamList _ _ =>
      exact (viewClosed_withNode (Q := fun steps => P (runSteps steps)) hv 0 hP.skip fun Items
        hItems => ArrayParamList_Accept_closed hP hItems)
  | AuthenticationClause _ _ _ _ _ =>
      exact AuthenticationClause_Accept_closed hP (viewClosed_child hv 0) (viewClosed_child hv 1)
        (viewClosed_child hv 2)
  | BetweenClause _ =>
      exact BetweenClause_Accept_closed hP (viewClosed_child hv 0) (viewClosed_child hv 1)
        (viewClosed_child hv 2)
  | BoolLiteral _ _ _ =>
      exact BoolLiteral_Accept_closed hP
  | CTEStmt _ =>
      exact CTEStmt_Accept_closed hP (viewClosed_child hv 0) (viewClosed_child hv 1)
  | CastExpr _ _ _ =>
      exact CastExpr_Accept_closed hP (viewClosed_child hv 0) (viewClosed_child hv 1)
  | CheckStmt _ =>
      exact (viewClosed_withNode (Q := fun steps => P (runSteps steps)) hv 0 hP.skip fun Table
        hTable => CheckStmt_Accept_closed hP hTable (viewClosed_child hv 0))
  | ColumnArgList _ _ _ =>
      exact ColumnArgList_Accept_closed hP (viewClosed_list hv 0)
  | ColumnExprList _ _ _ =>
      exact ColumnExprList_Accept_closed hP (viewClosed_list hv 0)
  | ColumnNamesExpr _ _ =>
      exact ColumnNamesExpr_Accept_closed hP (viewClosed_list hv 0)
  | ColumnTypeExpr =>
      exact (viewClosed_withNode (Q := fun steps => P (runSteps steps)) hv 0 hP.skip fun Name hName
        => ColumnTypeExpr_Accept_closed hP hName)
  | CompressionCodec _ _ =>
      exact CompressionCodec_Accept_closed hP (viewClosed_child hv 0) (viewClosed_child hv 1)
        (viewClosed_child hv 2) (viewClosed_child hv 3)
  | ConstraintClause _ =>
      exact (viewClosed_withNode (Q := fun steps => P (runSteps steps)) hv 0 hP.skip fun Constraint
        hConstraint => ConstraintClause_Accept_closed hP hConstraint (viewClosed_child hv 0))
  | CreateDictionary _ _ _ _ =>
      exact (viewClosed_withNode (Q := fun steps => P (runSteps steps)) hv 0 hP.skip fun Name hName
        => CreateDictionary_Accept_closed hP hName (viewClosed_child hv 0) (viewClosed_child hv 1)
        (viewClosed_child hv 2) (viewClosed_child hv 3) (viewClosed_child hv 4))
  | CreateFunction _ _ _ =>
      exact (viewClosed_withNode (Q := fun steps => P (runSteps steps)) hv 0 hP.skip fun
        FunctionName hFunctionName => (viewClosed_withNode (Q := fun steps => P (runSteps steps)) hv
        1 hP.skip fun Params hParams => CreateFunction_Accept_closed hP hFunctionName
        (viewClosed_child hv 0) hParams (viewClosed_child hv 1)))
  | CreateLiveView _ _ _ =>
      exact (viewClosed_withNode (Q := fun steps => P (runSteps steps)) hv 0 hP.skip fun Name hName
        => CreateLiveView_Accept_closed hP hName (viewClosed_child hv 0) (viewClosed_child hv 1)
        (viewClosed_child hv 2) (viewClosed_child hv 3) (viewClosed_child hv 4) (viewClosed_child hv
        5))
  | CreateMaterializedView _ _ _ DependsOnSet _ _ _ _ =>
      exact (viewClosed_withNode (Q := fun steps => P (runSteps steps)) hv 0 hP.skip fun Name hName
        => CreateMaterializedView_Accept_closed hP DependsOnSet hName (viewClosed_child hv 0)
        (viewClosed_child hv 1) (viewClosed_child hv 2) (viewClosed_list hv 0) (viewClosed_child hv
        3) (viewClosed_child hv 4) (viewClosed_child hv 5) (partsClosed_child (viewClosed_childPart
        hv 5) 0) (viewClosed_child hv 6) (viewClosed_child hv 7) (viewClosed_child hv 8))
  | CreateNamedCollection _ _ _ =>
      exact (viewClosed_withNode (Q := fun steps => P (runSteps steps)) hv 0 hP.skip fun Name hName
        => CreateNamedCollection_Accept_closed hP hName (viewClosed_child hv 0) (viewClosed_list hv
        0))
  | CreateRole _ _ _ _ =>
      exact CreateRole_Accept_closed hP (viewClosed_list hv 0) (viewClosed_child hv 0)
        (viewClosed_list hv 1)
  | CreateTable _ _ _ _ _ =>
      exact (viewClosed_withNode (Q := fun steps => P (runSteps steps)) hv 0 hP.skip fun Name hName
        => CreateTable_Accept_closed hP hName (viewClosed_child hv 0) (viewClosed_child hv 1)
        (viewClosed_child hv 2) (viewClosed_child hv 3) (viewClosed_child hv 4) (viewClosed_child hv
        5))
  | CreateUser _ _ _ _ _ =>
      exact CreateUser_Accept_closed hP (viewClosed_list hv 0) (viewClosed_child hv 0)
        (viewClosed_list hv 1) (viewClosed_child hv 1) (viewClosed_child hv 2) (viewClosed_child hv
        3) (viewClosed_list hv 2)
  | CreateView _ _ _ _ =>
      exact (viewClosed_withNode (Q := fun steps => P (runSteps steps)) hv 0 hP.skip fun Name hName
        => CreateView_Accept_closed hP hName (viewClosed_child hv 0) (viewClosed_child hv 1)
        (viewClosed_child hv 2) (viewClosed_child hv 3))
  | DeduplicateClause _ =>
      exact DeduplicateClause_Accept_closed hP (viewClosed_child hv 0) (viewClosed_child hv 1)
  | DefaultRoleClause _ _ _ =>
      exact DefaultRoleClause_Accept_closed hP (viewClosed_list hv 0)
  | DeleteClause _ =>
      exact (viewClosed_withNode (Q := fun steps => P (runSteps steps)) hv 0 hP.skip fun Table
        hTable => DeleteClause_Accept_closed hP hTable (viewClosed_child hv 0) (viewClosed_child hv
        1))
  | DescribeStmt _ _ _ =>
      exact (viewClosed_withNode (Q := fun steps => P (runSteps steps)) hv 0 hP.skip fun Target
        hTarget => DescribeStmt_Accept_closed hP hTarget)
  | DestinationClause _ =>
      exact (viewClosed_withNode (Q := fun steps => P (runSteps steps)) hv 0 hP.skip fun
        TableIdentifier hTableIdentifier => DestinationClause_Accept_closed hP hTableIdentifier)
  | DictionaryArgExpr _ =>
      exact (viewClosed_withNode (Q := fun steps => P (runSteps steps)) hv 0 hP.skip fun Name hName
        => DictionaryArgExpr_Accept_closed hP hName (viewClosed_child hv 0))
  | DictionaryEngineClause _ =>
      exact DictionaryEngineClause_Accept_closed hP (viewClosed_child hv 0) (viewClosed_child hv 1)
        (viewClosed_child hv 2) (viewClosed_child hv 3) (viewClosed_child hv 4) (viewClosed_child hv
        5)
  | DictionaryLayoutClause _ _ =>
      exact (viewClosed_withNode (Q := fun steps => P (runSteps steps)) hv 0 hP.skip fun Layout
        hLayout => DictionaryLayoutClause_Accept_closed hP hLayout (viewClosed_list hv 0))
  | DictionaryPrimaryKeyClause _ _ =>
      exact (viewClosed_withNode (Q := fun steps => P (runSteps steps)) hv 0 hP.skip fun Keys hKeys
        => DictionaryPrimaryKeyClause_Accept_closed hP hKeys)
  | DictionarySchemaClause _ _ =>
      exact DictionarySchemaClause_Accept_closed hP (viewClosed_list hv 0)
  | DictionarySourceClause _ _ =>
      exact (viewClosed_withNode (Q := fun steps => P (runSteps steps)) hv 0 hP.skip fun Source
        hSource => DictionarySourceClause_Accept_closed hP hSource (viewClosed_list hv 0))
  | DistinctOn _ _ =>
      exact DistinctOn_Accept_closed hP (viewClosed_list hv 0)
  | DropDatabase _ _ _ =>
      exact (viewClosed_withNode (Q := fun steps => P (runSteps steps)) hv 0 hP.skip fun Name hName
        => DropDatabase_Accept_closed hP hName (viewClosed_child hv 0))
  | DropStmt _ _ _ _ _ _ =>
      exact (viewClosed_withNode (Q := fun steps => P (runSteps steps)) hv 0 hP.skip fun Name hName
        => DropStmt_Accept_closed hP hName (viewClosed_child hv 0))
  | DropUserOrRole _ _ _ _ _ =>
      exact DropUserOrRole_Accept_closed hP (viewClosed_list hv 0) (viewClosed_child hv 0)
  | EngineExpr _ _ _ =>
      exact EngineExpr_Accept_closed hP (viewClosed_child hv 0) (viewClosed_child hv 1)
        (viewClosed_child hv 2) (viewClosed_child hv 3) (viewClosed_child hv 4) (viewClosed_child hv
        5) (viewClosed_child hv 6)
  | ExplainStmt _ _ =>
      exact ExplainStmt_Accept_closed hP (viewClosed_child hv 0)
  | ExtractExpr _ _ =>
      exact ExtractExpr_Accept_closed hP (viewClosed_list hv 0)
  | Fill _ =>
      exact Fill_Accept_closed hP (viewClosed_child hv 0) (viewClosed_child hv 1) (viewClosed_child
        hv 2) (viewClosed_child hv 3)
  | FunctionExpr =>
      exact (viewClosed_withNode (Q := fun steps => P (runSteps steps)) hv 0 hP.skip fun Name hName
        => (viewClosed_withNode (Q := fun steps => P (runSteps steps)) hv 1 hP.skip fun Params
        hParams => FunctionExpr_Accept_closed hP hName hParams))
  | GlobalInOperation _ =>
      exact GlobalInOperation_Accept_closed hP (viewClosed_child hv 0)
  | GranteesClause _ _ _ _ =>
      exact GranteesClause_Accept_closed hP (viewClosed_list hv 0) (viewClosed_list hv 1)
  | HostClause _ _ _ =>
      exact HostClause_Accept_closed hP (viewClosed_child hv 0)
  | IndexOperation _ =>
      exact IndexOperation_Accept_closed hP (viewClosed_child hv 0) (viewClosed_child hv 1)
  | InterpolateClause _ _ =>
      exact InterpolateClause_Accept_closed hP (viewClosed_list hv 0)
  | InterpolateItem =>
      exact (viewClosed_withNode (Q := fun steps => P (runSteps steps)) hv 0 hP.skip fun Column
        hColumn => InterpolateItem_Accept_closed hP hColumn (viewClosed_child hv 0))
  | IntervalExpr _ =>
      exact (viewClosed_withNode (Q := fun steps => P (runSteps steps)) hv 0 hP.skip fun Unit hUnit
        => IntervalExpr_Accept_closed hP (viewClosed_child hv 0) hUnit)
  | IntervalFrom _ =>
      exact IntervalFrom_Accept_closed hP (viewClosed_child hv 0)
  | IsNotNullExpr _ =>
      exact IsNotNullExpr_Accept_closed hP (viewClosed_child hv 0)
  | IsNullExpr _ =>
      exact IsNullExpr_Accept_closed hP (viewClosed_child hv 0)
  | JoinConstraintClause _ =>
      exact JoinConstraintClause_Accept_closed hP (viewClosed_child hv 0) (viewClosed_child hv 1)
  | LimitByClause =>
      exact LimitByClause_Accept_closed hP (viewClosed_child hv 0) (viewClosed_child hv 1)
  | LimitClause _ =>
      exact LimitClause_Accept_closed hP (viewClosed_child hv 0) (viewClosed_child hv 1)
  | MapLiteral _ _ =>
      exact MapLiteral_Accept_closed hP (viewClosed_list hv 0) (viewClosed_list hv 1)
  | NamedCollectionParam _ _ _ =>
      exact (viewClosed_withNode (Q := fun steps => P (runSteps steps)) hv 0 hP.skip fun Name hName
        => NamedCollectionParam_Accept_closed hP hName (viewClosed_child hv 0))
  | NamedParameterExpr _ =>
      exact (viewClosed_withNode (Q := fun steps => P (runSteps steps)) hv 0 hP.skip fun Name hName
        => NamedParameterExpr_Accept_closed hP hName (viewClosed_child hv 0))
  | NegateExpr _ =>
      exact NegateExpr_Accept_closed hP (viewClosed_child hv 0)
  | ObjectParams =>
      exact (viewClosed_withNode (Q := fun steps => P (runSteps steps)) hv 0 hP.skip fun Params
        hParams => ObjectParams_Accept_closed hP (viewClosed_child hv 0) hParams)
  | OnClause _ =>
      exact (viewClosed_withNode (Q := fun steps => P (runSteps steps)) hv 0 hP.skip fun On hOn =>
        OnClause_Accept_closed hP hOn)
  | OperationExpr _ _ =>
      exact OperationExpr_Accept_closed hP
  | OptimizeStmt _ _ _ =>
      exact (viewClosed_withNode (Q := fun steps => P (runSteps steps)) hv 0 hP.skip fun Table
        hTable => OptimizeStmt_Accept_closed hP hTable (viewClosed_child hv 0) (viewClosed_child hv
        1) (viewClosed_child hv 2))
  | OrderByClause _ _ =>
      exact OrderByClause_Accept_closed hP (viewClosed_list hv 0) (viewClosed_child hv 0)
  | OrderExpr _ _ =>
      exact OrderExpr_Accept_closed hP (viewClosed_child hv 0) (viewClosed_child hv 1)
        (viewClosed_child hv 2)
  | ParamExprList _ _ =>
      exact (viewClosed_withNode (Q := fun steps => P (runSteps steps)) hv 0 hP.skip fun Items
        hItems => ParamExprList_Accept_closed hP hItems (viewClosed_child hv 0))
  | PartitionByClause _ =>
      exact PartitionByClause_Accept_closed hP (viewClosed_child hv 0)
  | Path =>
      exact Path_Accept_closed hP (viewClosed_list hv 0)
  | PlaceHolder _ _ _ =>
      exact PlaceHolder_Accept_closed hP
  | PrimaryKeyClause _ =>
      exact PrimaryKeyClause_Accept_closed hP (viewClosed_child hv 0)
  | ProjectionOrderByClause _ =>
      exact ProjectionOrderByClause_Accept_closed hP
  | ProjectionSelectStmt _ _ =>
      exact (viewClosed_withNode (Q := fun steps => P (runSteps steps)) hv 0 hP.skip fun
        SelectColumns hSelectColumns => ProjectionSelectStmt_Accept_closed hP (viewClosed_child hv
        0) hSelectColumns (viewClosed_child hv 1) (viewClosed_child hv 2))
  | QueryParam _ _ =>
      exact (viewClosed_withNode (Q := fun steps => P (runSteps steps)) hv 0 hP.skip fun Name hName
        => QueryParam_Accept_closed hP hName (viewClosed_child hv 0))
  | RefreshExpr _ _ =>
      exact RefreshExpr_Accept_closed hP (viewClosed_child hv 0) (viewClosed_child hv 1)
  | RemovePropertyType _ =>
      exact RemovePropertyType_Accept_closed hP (viewClosed_child hv 0)
  | RenameStmt _ _ _ =>
      exact RenameStmt_Accept_closed hP (viewClosed_listPart hv 0) (viewClosed_child hv 0)
  | RoleName =>
      exact RoleName_Accept_closed hP (viewClosed_child hv 0) (viewClosed_child hv 1)
        (viewClosed_child hv 2)
  | RoleRenamePair _ =>
      exact (viewClosed_withNode (Q := fun steps => P (runSteps steps)) hv 0 hP.skip fun RoleName
        hRoleName => RoleRenamePair_Accept_closed hP hRoleName (viewClosed_child hv 0))
  | RoleSetting =>
      exact RoleSetting_Accept_closed hP (viewClosed_list hv 0) (viewClosed_child hv 0)
  | SampleByClause _ =>
      exact SampleByClause_Accept_closed hP (viewClosed_child hv 0)
  | SetStmt _ =>
      exact (viewClosed_withNode (Q := fun steps => P (runSteps steps)) hv 0 hP.skip fun Settings
        hSettings => SetStmt_Accept_closed hP hSettings)
  | SettingPair _ =>
      exact (viewClosed_withNode (Q := fun steps => P (runSteps steps)) hv 0 hP.skip fun Name hName
        => SettingPair_Accept_closed hP hName (viewClosed_child hv 0))
  | ShowStmt _ _ _ _ _ =>
      exact ShowStmt_Accept_closed hP (viewClosed_child hv 0) (viewClosed_child hv 1)
        (viewClosed_child hv 2) (viewClosed_child hv 3) (viewClosed_child hv 4)
  | SubQuery _ =>
      exact SubQuery_Accept_closed hP (viewClosed_child hv 0)
  | SystemCtrlExpr _ _ _ _ =>
      exact SystemCtrlExpr_Accept_closed hP (viewClosed_child hv 0)
  | SystemDropExpr _ _ _ =>
      exact SystemDropExpr_Accept_closed hP
  | SystemFlushExpr _ _ _ =>
      exact SystemFlushExpr_Accept_closed hP (viewClosed_child hv 0)
  | SystemReloadExpr _ _ _ =>
      exact SystemReloadExpr_Accept_closed hP (viewClosed_child hv 0)
  | SystemStmt _ =>
      exact SystemStmt_Accept_closed hP (viewClosed_child hv 0)
  | SystemSyncExpr _ =>
      exact (viewClosed_withNode (Q := fun steps => P (runSteps steps)) hv 0 hP.skip fun Cluster
        hCluster => SystemSyncExpr_Accept_closed hP hCluster)
  | TTLClause _ _ =>
      exact TTLClause_Accept_closed hP (viewClosed_list hv 0)
  | TableArgListExpr _ _ =>
      exact TableArgListExpr_Accept_closed hP (viewClosed_list hv 0)
  | TableFunctionExpr =>
      exact (viewClosed_withNode (Q := fun steps => P (runSteps steps)) hv 0 hP.skip fun Args hArgs
        => TableFunctionExpr_Accept_closed hP (viewClosed_child hv 0) hArgs)
  | TableProjection _ _ =>
      exact (viewClosed_withNode (Q := fun steps => P (runSteps steps)) hv 0 hP.skip fun Identifier
        hIdentifier => (viewClosed_withNode (Q := fun steps => P (runSteps steps)) hv 1 hP.skip fun
        Select hSelect => TableProjection_Accept_closed hP hIdentifier hSelect))
  | TableSchemaClause _ _ =>
      exact TableSchemaClause_Accept_closed hP (viewClosed_list hv 0) (viewClosed_child hv 0)
        (viewClosed_child hv 1)
  | TargetPair =>
      exact (viewClosed_withNode (Q := fun steps => P (runSteps steps)) hv 0 hP.skip fun Old hOld =>
        (viewClosed_withNode (Q := fun steps => P (runSteps steps)) hv 1 hP.skip fun New hNew =>
        TargetPair_Accept_closed hP hOld hNew))
  | TopClause _ _ _ =>
      exact (viewClosed_withNode (Q := fun steps => P (runSteps steps)) hv 0 hP.skip fun Number
        hNumber => TopClause_Accept_closed hP hNumber)
  | TruncateTable _ _ _ _ =>
      exact (viewClosed_withNode (Q := fun steps => P (runSteps steps)) hv 0 hP.skip fun Name hName
        => TruncateTable_Accept_closed hP hName (viewClosed_child hv 0))
  | TypedPlaceholder _ _ =>
      exact (viewClosed_withNode (Q := fun steps => P (runSteps steps)) hv 0 hP.skip fun Name hName
        => TypedPlaceholder_Accept_closed hP hName (viewClosed_child hv 0))
  | UUID =>
      exact UUID_Accept_closed hP
  | UnaryExpr _ _ =>
      exact UnaryExpr_Accept_closed hP (viewClosed_child hv 0)
  | UpdateAssignment _ =>
      exact (viewClosed_withNode (Q := fun steps => P (runSteps steps)) hv 0 hP.skip fun Column
        hColumn => UpdateAssignment_Accept_closed hP hColumn (viewClosed_child hv 0))
  | UseStmt _ _ =>
      exact (viewClosed_withNode (Q := fun steps => P (runSteps steps)) hv 0 hP.skip fun Database
        hDatabase => UseStmt_Accept_closed hP hDatabase)
  | UsingClause _ =>
      exact (viewClosed_withNode (Q := fun steps => P (runSteps steps)) hv 0 hP.skip fun Using
        hUsing => UsingClause_Accept_closed hP hUsing)
  | WindowClause _ _ =>
      exact WindowClause_Accept_closed hP (viewClosed_listPart hv 0)
  | WindowDefinition _ =>
      exact hP.skip
  | WindowExpr _ _ =>
      exact WindowExpr_Accept_closed hP (viewClosed_child hv 0) (viewClosed_child hv 1)
        (viewClosed_child hv 2)
  | WindowFrameClause _ _ =>
      exact WindowFrameClause_Accept_closed hP (viewClosed_child hv 0)
  | WindowFrameCurrentRow _ _ =>
      exact WindowFrameCurrentRow_Accept_closed hP
  | WindowFrameExtendExpr _ _ =>
      exact WindowFrameExtendExpr_Accept_closed hP (viewClosed_child hv 0)
  | WindowFrameNumber _ _ =>
      exact (viewClosed_withNode (Q := fun steps => P (runSteps steps)) hv 0 hP.skip fun Number
        hNumber => WindowFrameNumber_Accept_closed hP hNumber)
  | WindowFrameParam _ _ =>
      exact (viewClosed_withNode (Q := fun steps => P (runSteps steps)) hv 0 hP.skip fun Param
        hParam => WindowFrameParam_Accept_closed hP hParam)
  | WindowFrameUnbounded _ _ _ =>
      exact WindowFrameUnbounded_Accept_closed hP
  | WindowFunctionExpr _ =>
      exact (viewClosed_withNode (Q := fun steps => P (runSteps steps)) hv 0 hP.skip fun Function
        hFunction => WindowFunctionExpr_Accept_closed hP hFunction (viewClosed_child hv 0))
  | WithTimeoutClause _ =>
      exact (viewClosed_withNode (Q := fun steps => P (runSteps steps)) hv 0 hP.skip fun Number
        hNumber => WithTimeoutClause_Accept_closed hP hNumber)

end

section
variable {σ ε : Type} {visitor : ASTVisitor σ ε} {P : (σ → Traversal σ ε) → Prop}
  (hP : AcceptClosed visitor P)
include hP

theorem Ident_Accept_closed (i : Ident) : P (i.Accept visitor) :=
  hP.node _ (hP.visit _)

theorem acceptIdentIfPresent_closed : ∀ i : Option Ident, P (acceptIdentIfPresent visitor i)
  | none => hP.skip
  | some i => Ident_Accept_closed hP i

theorem acceptIdentField_closed : ∀ i : Option Ident, P (acceptIdentField visitor i)
  | none => hP.missing
  | some i => Ident_Accept_closed hP i

theorem acceptIdents_closed : ∀ is : List Ident, P (acceptIdents visitor is)
  | [] => hP.skip
  | i :: is => hP.seq (Ident_Accept_closed hP i) (acceptIdents_closed is)

set_option linter.unusedSectionVars false in
set_option maxHeartbeats 8000000 in
mutual

theorem acceptBody_closed : ∀ e : Expr, P (Expr.acceptBody visitor e)
  | .Ident _ => hP.visit _
  | .NumberLiteral _ _ _ _ => hP.visit _
  | .StringLiteral _ _ _ => hP.visit _
  | .NestedIdentifier i d =>
      hP.seq (Ident_Accept_closed hP i) (hP.seq (acceptIdentIfPresent_closed hP d) (hP.visit _))
  | .TableIdentifier d t =>
      hP.seq (acceptIdentIfPresent_closed hP d) (hP.seq (Ident_Accept_closed hP t) (hP.visit _))
  | .BinaryOperation l _ r _ _ =>
      hP.seq (acceptField_closed l) (hP.seq (acceptField_closed r) (hP.visit _))
  | .NotExpr _ e => hP.seq (acceptField_closed e) (hP.visit _)
  | .AliasExpr e _ a =>
      hP.seq (acceptField_closed e) (hP.seq (acceptField_closed a) (hP.visit _))
  | .ColumnExpr e a =>
      hP.seq (acceptField_closed e) (hP.seq (acceptIdentIfPresent_closed hP a) (hP.visit _))
  | .SelectItem e ms a =>
      hP.seq (acceptField_closed e)
        (hP.seq (acceptEach_closed ms) (hP.seq (acceptIdentIfPresent_closed hP a) (hP.visit _)))
  | .TableExpr _ _ a e _ =>
      hP.seq (acceptField_closed e) (hP.seq (acceptIfPresent_closed a) (hP.visit _))
  | .JoinTableExpr t _ none _ =>
      hP.seq (hP.node t (acceptBody_closed t)) (hP.visit _)
  | .JoinTableExpr t _ (some s) _ =>
      hP.seq (hP.node t (acceptBody_closed t)) (hP.node s (acceptBody_closed s))
  | .JoinExpr _ l r _ c =>
      hP.seq (acceptField_closed l)
        (hP.seq (acceptIfPresent_closed r) (hP.seq (acceptIfPresent_closed c) (hP.visit _)))
  | .FromClause _ e => hP.seq (acceptField_closed e) (hP.visit _)
  | .WhereClause _ e => hP.seq (acceptField_closed e) (hP.visit _)
  | .PrewhereClause _ e => hP.seq (acceptField_closed e) (hP.visit _)
  | .HavingClause _ e => hP.seq (acceptField_closed e) (hP.visit _)
  | .SelectQuery _ _ w t _ _ si fr wi pw wh gb _ hv ob lb li se fo ua ud ex =>
      hP.seq (acceptIfPresent_closed w) (hP.seq (acceptIfPresent_closed t)
        (hP.seq (acceptEach_closed si) (hP.seq (acceptIfPresent_closed fr)
        (hP.seq (acceptIfPresent_closed wi) (hP.seq (acceptIfPresent_closed pw)
        (hP.seq (acceptIfPresent_closed wh) (hP.seq (acceptIfPresent_closed gb)
        (hP.seq (acceptIfPresent_closed hv) (hP.seq (acceptIfPresent_closed ob)
        (hP.seq (acceptIfPresent_closed lb) (hP.seq (acceptIfPresent_closed li)
        (hP.seq (acceptIfPresent_closed se) (hP.seq (acceptIfPresent_closed fo)
        (hP.seq (acceptIfPresent_closed ua) (hP.seq (acceptIfPresent_closed ud)
        (hP.seq (acceptIfPresent_closed ex) (hP.visit _)))))))))))))))))
  | .WithClause _ _ ctes => hP.seq (acceptEach_closed ctes) (hP.visit _)
  | .TernaryOperation c t f =>
      hP.seq (acceptField_closed t)
        (hP.seq (acceptField_closed f) (hP.seq (acceptField_closed c) (hP.visit _)))
  | .NullLiteral _ => hP.visit _
  | .NotNullLiteral _ n => hP.seq (hP.node n (acceptBody_closed n)) (hP.visit _)
  | .ColumnDef _ _ name ty nn nl d m a codec ttl comment _ =>
      hP.seq (hP.node name (acceptBody_closed name))
        (hP.seq (acceptIfPresent_closed ty) (hP.seq (acceptIfPresent_closed nn)
        (hP.seq (acceptIfPresent_closed nl) (hP.seq (acceptIfPresent_closed d)
        (hP.seq (acceptIfPresent_closed m) (hP.seq (acceptIfPresent_closed a)
        (hP.seq (acceptIfPresent_closed codec) (hP.seq (acceptIfPresent_closed ttl)
        (hP.seq (acceptIfPresent_closed comment) (hP.visit _))))))))))
  | .CreateDatabase _ _ _ _ cluster engine _ =>
      hP.seq (acceptIfPresent_closed cluster)
        (hP.seq (acceptIfPresent_closed engine) (hP.visit _))
  | .AlterTable _ _ t cluster xs =>
      hP.seq (hP.node t (acceptBody_closed t))
        (hP.seq (acceptIfPresent_closed cluster) (hP.seq (acceptEach_closed xs) (hP.visit _)))
  | .AlterTableDropPartition _ _ p _ => hP.seq (hP.node p (acceptBody_closed p)) (hP.visit _)
  | .TTLPolicyRuleAction _ _ _ codec => hP.seq (acceptIfPresent_closed codec) (hP.visit _)
  | .TTLPolicyRule _ vol disk _ =>
      hP.seq (acceptIfPresent_closed vol) (hP.seq (acceptIfPresent_closed disk) (hP.visit _))
  | .TTLPolicy item wh gb =>
      hP.seq (acceptIfPresent_closed item)
        (hP.seq (acceptIfPresent_closed wh) (hP.seq (acceptIfPresent_closed gb) (hP.visit _)))
  | .TTLExpr _ e pol =>
      hP.seq (acceptField_closed e) (hP.seq (acceptIfPresent_closed pol) (hP.visit _))
  | .RatioExpr n d =>
      hP.seq (hP.node n (acceptBody_closed n))
        (hP.seq (acceptIfPresent_closed d) (hP.visit _))
  | .SampleClause _ r o =>
      hP.seq (hP.node r (acceptBody_closed r))
        (hP.seq (acceptIfPresent_closed o) (hP.visit _))
  | .ScalarType n => hP.seq (Ident_Accept_closed hP n) (hP.visit _)
  | .PropertyType n => hP.seq (Ident_Accept_closed hP n) (hP.visit _)
  | .TypeWithParams _ _ n ps =>
      hP.seq (Ident_Accept_closed hP n) (hP.seq (acceptEach_closed ps) (hP.visit _))
  | .ComplexType _ _ n ps =>
      hP.seq (Ident_Accept_closed hP n) (hP.seq (acceptEach_closed ps) (hP.visit _))
  | .NestedType _ _ n cs =>
      hP.seq (Ident_Accept_closed hP n) (hP.seq (acceptEach_closed cs) (hP.visit _))
  | .EnumValue n v =>
      hP.seq (hP.node n (acceptBody_closed n))
        (hP.seq (hP.node v (acceptBody_closed v)) (hP.visit _))
  | .EnumType n _ _ vs =>
      hP.seq (Ident_Accept_closed hP n) (hP.seq (acceptEach_closed vs) (hP.visit _))
  | .JSONType n _ => hP.seq (Ident_Accept_closed hP n) (hP.visit _)
  | .AlterTableAddColumn _ _ c _ after settings =>
      hP.seq (hP.node c (acceptBody_closed c))
        (hP.seq (acceptIfPresent_closed after)
          (hP.seq (acceptIfPresent_closed settings) (hP.visit _)))
  | .AlterTableDropColumn _ c _ => hP.seq (hP.node c (acceptBody_closed c)) (hP.visit _)
  | .PartitionClause _ e id _ =>
      hP.seq (acceptIfPresent_closed e) (hP.seq (acceptIfPresent_closed id) (hP.visit _))
  | .SettingExpr _ n e =>
      hP.seq (Ident_Accept_closed hP n) (hP.seq (acceptField_closed e) (hP.visit _))
  | .SettingsClause _ _ items => hP.seq (acceptEach_closed items) (hP.visit _)
  | .DictionaryLifetimeClause _ mn mx v _ =>
      hP.seq (acceptIfPresent_closed v)
        (hP.seq (acceptIfPresent_closed mn)
          (hP.seq (acceptIfPresent_closed mx) (hP.visit _)))
  | .DictionaryRangeClause _ mn mx _ =>
      hP.seq (acceptIdentField_closed hP mn)
        (hP.seq (acceptIdentField_closed hP mx) (hP.visit _))
  | .DictionaryAttribute _ n ty dflt e _ _ _ =>
      hP.seq (Ident_Accept_closed hP n)
        (hP.seq (acceptField_closed ty)
          (hP.seq (acceptIfPresent_closed dflt)
            (hP.seq (acceptIfPresent_closed e) (hP.visit _))))
  | .WhenClause _ _ w th _ e =>
      hP.seq (acceptField_closed w)
        (hP.seq (acceptField_closed th) (hP.seq (acceptIfPresent_closed e) (hP.visit _)))
  | .CaseExpr _ _ e ws _ el =>
      hP.seq (acceptIfPresent_closed e)
        (hP.seq (acceptEach_closed ws) (hP.seq (acceptIfPresent_closed el) (hP.visit _)))
  | .GroupByClause _ _ _ e _ _ _ => hP.seq (acceptIfPresent_closed e) (hP.visit _)
  | .ClusterClause _ e => hP.seq (acceptField_closed e) (hP.visit _)
  | .PrivilegeClause _ _ _ ps => hP.seq (acceptIfPresent_closed ps) (hP.visit _)
  | .GrantPrivilegeStmt _ _ cluster ps target roles _ =>
      hP.seq (acceptIfPresent_closed cluster)
        (hP.seq (acceptEach_closed ps)
          (hP.seq (hP.node target (acceptBody_closed target))
            (hP.seq (acceptIdents_closed hP roles) (hP.visit _))))
  | .TableIndex _ n c ty g =>
      hP.seq (hP.node n (acceptBody_closed n))
        (hP.seq (hP.node c (acceptBody_closed c))
          (hP.seq (acceptField_closed ty)
            (hP.seq (hP.node g (acceptBody_closed g)) (hP.visit _))))
  | .AlterTableAddIndex _ _ index _ after =>
      hP.seq (hP.node index (acceptBody_closed index))
        (hP.seq (acceptIfPresent_closed after) (hP.visit _))
  | .AlterTableAddProjection _ _ _ proj after =>
      hP.seq (hP.node proj (acceptBody_closed proj))
        (hP.seq (acceptIfPresent_closed after) (hP.visit _))
  | .FormatClause _ n => hP.seq (Ident_Accept_closed hP n) (hP.visit _)
  | .AssignmentValues _ _ vs => hP.seq (acceptEach_closed vs) (hP.visit _)
  | .InsertStmt _ fmt _ table names vs sel =>
      hP.seq (acceptIfPresent_closed fmt)
        (hP.seq (acceptField_closed table)
          (hP.seq (acceptIfPresent_closed names)
            (hP.seq (acceptEach_closed vs)
              (hP.seq (acceptIfPresent_closed sel) (hP.visit _)))))
  | .Node kind nodes children lists =>
      hP.seq
        (NodeKind_Accept_closed hP kind
          ⟨⟨acceptItems_closed nodes, acceptChildren_closed children,
              acceptLists_closed lists⟩,
            acceptPartsItems_closed nodes, acceptPartsChildren_closed children,
            acceptPartsLists_closed lists⟩)
        (by
          cases NodeKind.callsVisit kind
          · exact hP.skip
          · exact hP.visit _)
termination_by e => sizeOf e

theorem acceptField_closed : ∀ e : Option Expr, P (acceptField visitor e)
  | none => hP.missing
  | some x => hP.node x (acceptBody_closed x)
termination_by e => sizeOf e

theorem acceptIfPresent_closed : ∀ e : Option Expr, P (acceptIfPresent visitor e)
  | none => hP.skip
  | some x => hP.node x (acceptBody_closed x)
termination_by e => sizeOf e

theorem acceptEach_closed : ∀ xs : List Expr, P (acceptEach visitor xs)
  | [] => hP.skip
  | x :: xs => hP.seq (hP.node x (acceptBody_closed x)) (acceptEach_closed xs)
termination_by xs => sizeOf xs

theorem acceptItems_closed : ∀ xs : List Expr, ListClosed P (acceptItems visitor xs)
  | [] => fun _ h => by cases h
  | x :: rest => fun r h => by
      rcases List.mem_cons.mp h with h | h
      · rw [h]
        exact hP.node x (acceptBody_closed x)
      · exact acceptItems_closed rest r h
termination_by xs => sizeOf xs

theorem acceptChildren_closed :
    ∀ cs : List (Option Expr), ∀ c ∈ acceptChildren visitor cs, OptClosed P c
  | [] => fun _ h => by cases h
  | none :: rest => fun c h => by
      rcases List.mem_cons.mp h with h | h
      · rw [h]
        exact optClosed_none P
      · exact acceptChildren_closed rest c h
  | some x :: rest => fun c h => by
      rcases List.mem_cons.mp h with h | h
      · rw [h]
        intro r hr
        cases hr
        exact hP.node x (acceptBody_closed x)
      · exact acceptChildren_closed rest c h
termination_by cs => sizeOf cs

theorem acceptLists_closed :
    ∀ ls : List (List Expr), ∀ l ∈ acceptLists visitor ls, ListClosed P l
  | [] => fun _ h => by cases h
  | xs :: rest => fun l h => by
      rcases List.mem_cons.mp h with h | h
      · rw [h]
        exact acceptItems_closed xs
      · exact acceptLists_closed rest l h
termination_by ls => sizeOf ls

theorem acceptParts_closed (e : Expr) : PartsClosed P (acceptParts visitor e) := by
  cases e
  case Node kind nodes children lists =>
    exact ⟨acceptItems_closed nodes, acceptChildren_closed children,
      acceptLists_closed lists⟩
  case SettingsClause p q Items =>
    exact ⟨listClosed_nil P, fun _ h => (by cases h), fun l hl => by
      rcases List.mem_cons.mp hl with hl | hl
      · rw [hl]
        exact acceptItems_closed Items
      · cases hl⟩
  all_goals exact partsClosed_empty P
termination_by sizeOf e

theorem acceptPartsItems_closed :
    ∀ xs : List Expr, ∀ p ∈ acceptPartsItems visitor xs, PartsClosed P p
  | [] => fun _ h => by cases h
  | x :: rest => fun p h => by
      rcases List.mem_cons.mp h with h | h
      · rw [h]
        exact acceptParts_closed x
      · exact acceptPartsItems_closed rest p h
termination_by xs => sizeOf xs

theorem acceptPartsChildren_closed :
    ∀ cs : List (Option Expr), ∀ p ∈ acceptPartsChildren visitor cs, PartsClosed P p
  | [] => fun _ h => by cases h
  | none :: rest => fun p h => by
      rcases List.mem_cons.mp h with h | h
      · rw [h]
        exact partsClosed_empty P
      · exact acceptPartsChildren_closed rest p h
  | some x :: rest => fun p h => by
      rcases List.mem_cons.mp h with h | h
      · rw [h]
        exact acceptParts_closed x
      · exact acceptPartsChildren_closed rest p h
termination_by cs => sizeOf cs

theorem acceptPartsLists_closed :
    ∀ ls : List (List Expr), ∀ l ∈ acceptPartsLists visitor ls, ∀ p ∈ l, PartsClosed P p
  | [] => fun _ h => by cases h
  | xs :: rest => fun l h => by
      rcases List.mem_cons.mp h with h | h
      · rw [h]
        exact acceptPartsItems_closed xs
      · exact acceptPartsLists_closed rest l h
termination_by ls => sizeOf ls

end

theorem Accept_closed (e : Expr) : P (Expr.Accept visitor e) :=
  hP.node e (acceptBody_closed hP e)

end

section
variable {σ ε : Type}

theorem andThen_result_ok {first next : σ → Traversal σ ε} {s : σ}
    (h : (andThen first next s).result = Outcome.ok) :
    (first s).result = Outcome.ok ∧ (next (first s).state).result = Outcome.ok := by
  cases hr : (first s).result with
  | ok => rw [andThen_of_ok hr] at h; exact ⟨rfl, h⟩
  | error e =>
      rw [andThen_of_not_ok (by rw [hr]; simp), hr] at h
      exact absurd h (by simp)
  | nilDereference =>
      rw [andThen_of_not_ok (by rw [hr]; simp), hr] at h
      exact absurd h (by simp)

/-- With callbacks that all return `nil`, no traversal returns an error. -/
theorem noError_closed (visitor : ASTVisitor σ ε) (hV : VisitsSucceed visitor) :
    AcceptClosed visitor (fun T => ∀ s e, (T s).result ≠ Outcome.error e) where
  visit := by
    intro n s e
    simp [callVisit, hV n s]
  skip := by intro s e; simp [skipCall]
  missing := by intro s e; simp [nilCall]
  seq := by
    intro first next h1 h2 s e
    cases hr : (first s).result with
    | ok => rw [andThen_of_ok hr]; exact h2 _ e
    | error e' => exact absurd hr (h1 s e')
    | nilDereference => rw [andThen_of_not_ok (by rw [hr]; simp), hr]; simp
  node := by
    intro n body h s e
    exact h _ e

theorem result_ok_of_no_failure
    (T : σ → Traversal σ ε) (hT : ∀ s e, (T s).result ≠ Outcome.error e) (s : σ)
    (hnil : (T s).result ≠ Outcome.nilDereference) : (T s).result = Outcome.ok := by
  cases hr : (T s).result with
  | ok => rfl
  | error e => exact absurd hr (hT s e)
  | nilDereference => exact absurd hr hnil

theorem entered_events (visitor : ASTVisitor σ ε) (n : Expr) (body : σ → Traversal σ ε)
    (s : σ) :
    (entered visitor n body s).events
      = Event.Enter n :: (body (visitor.Enter n s)).events ++ [Event.Leave n] := rfl

theorem entered_result (visitor : ASTVisitor σ ε) (n : Expr) (body : σ → Traversal σ ε)
    (s : σ) : (entered visitor n body s).result = (body (visitor.Enter n s)).result := rfl

theorem acceptField_some (visitor : ASTVisitor σ ε) (x : Expr) :
    acceptField visitor (some x) = Expr.Accept visitor x := rfl

theorem acceptIfPresent_some (visitor : ASTVisitor σ ε) (x : Expr) :
    acceptIfPresent visitor (some x) = Expr.Accept visitor x := rfl

theorem acceptIfPresent_none (visitor : ASTVisitor σ ε) :
    acceptIfPresent visitor none = skipCall := rfl

theorem acceptAll_nil (visitor : ASTVisitor σ ε) : acceptAll visitor [] = skipCall := rfl

theorem acceptAll_cons (visitor : ASTVisitor σ ε) (c : Option Expr)
    (cs : List (Option Expr)) :
    acceptAll visitor (c :: cs) = andThen (acceptField visitor c) (acceptAll visitor cs) := rfl

theorem acceptAll_append (visitor : ASTVisitor σ ε) (xs ys : List (Option Expr)) :
    acceptAll visitor (xs ++ ys) = andThen (acceptAll visitor xs) (acceptAll visitor ys) := by
  induction xs with
  | nil => rfl
  | cons x xs ih =>
      rw [List.cons_append, acceptAll_cons, ih, acceptAll_cons, andThen_assoc]

theorem acceptAll_present (visitor : ASTVisitor σ ε) (x : Option Expr) :
    acceptAll visitor (present x) = acceptIfPresent visitor x := by
  cases x with
  | none => rfl
  | some x => exact andThen_skipCall_right _

theorem acceptAll_presentIdent (visitor : ASTVisitor σ ε) (i : Option Ident) :
    acceptAll visitor (presentIdent i) = acceptIdentIfPresent visitor i := by
  cases i with
  | none => rfl
  | some i => exact andThen_skipCall_right _

theorem acceptAll_map_some (visitor : ASTVisitor σ ε) (xs : List Expr) :
    acceptAll visitor (xs.map some) = acceptEach visitor xs := by
  induction xs with
  | nil => rfl
  | cons x xs ih =>
      rw [List.map_cons, acceptAll_cons, ih]
      rfl

theorem acceptAll_identChildren (visitor : ASTVisitor σ ε) (is : List Ident) :
    acceptAll visitor (identChildren is) = acceptIdents visitor is := by
  induction is with
  | nil => rfl
  | cons i is ih =>
      show andThen (acceptField visitor (some (.Ident i))) (acceptAll visitor (identChildren is))
        = andThen (i.Accept visitor) (acceptIdents visitor is)
      rw [ih]
      rfl

theorem acceptField_map_Ident (visitor : ASTVisitor σ ε) (i : Option Ident) :
    acceptField visitor (i.map Expr.Ident) = acceptIdentField visitor i := by
  cases i <;> rfl

end

/-! ## The generic constructor: `Accept` and the children it traverses -/

theorem getD_map {α β : Type} (g : α → β) (d : α) :
    ∀ (l : List α) (i : Nat), (l.map g).getD i (g d) = g (l.getD i d)
  | [], _ => rfl
  | _ :: _, 0 => rfl
  | _ :: xs, i + 1 => by simp [getD_map g d xs i]

theorem parts_map_empty {τ υ : Type} (g : τ → υ) :
    Parts.map g (Parts.empty : Parts τ) = Parts.empty := rfl

theorem parts_map_child {τ υ : Type} (g : τ → υ) (p : Parts τ) (i : Nat) :
    (p.map g).child i = (p.child i).map g :=
  getD_map (Option.map g) none p.children i

theorem parts_map_list {τ υ : Type} (g : τ → υ) (p : Parts τ) (i : Nat) :
    (p.map g).list i = (p.list i).map g :=
  getD_map (List.map g) [] p.lists i

theorem parts_map_withNode {τ υ α : Type} (g : τ → υ) (p : Parts τ) (i : Nat) (missing : α)
    (k : υ → α) : (p.map g).withNode i missing k = p.withNode i missing (fun x => k (g x)) := by
  unfold Parts.withNode Parts.map
  rw [List.getElem?_map]
  cases p.nodes[i]? <;> rfl

theorem parts_withNode_map {τ α β : Type} (f : α → β) (p : Parts τ) (i : Nat) (missing : α)
    (k : τ → α) : f (p.withNode i missing k) = p.withNode i (f missing) (fun x => f (k x)) := by
  unfold Parts.withNode
  cases p.nodes[i]? <;> rfl

theorem parts_map_acceptNode {τ υ : Type} (g : τ → υ) (p : Parts τ) (i : Nat) :
    (p.map g).acceptNode i = (p.acceptNode i).map (AcceptStep.map g) := by
  unfold Parts.acceptNode
  rw [parts_map_withNode, parts_withNode_map (List.map (AcceptStep.map g))]
  rfl

theorem view_map_child {τ υ : Type} (g : τ → υ) (v : View τ) (i : Nat) :
    (v.map g).parts.child i = (v.parts.child i).map g :=
  parts_map_child g v.parts i

theorem view_map_list {τ υ : Type} (g : τ → υ) (v : View τ) (i : Nat) :
    (v.map g).parts.list i = (v.parts.list i).map g :=
  parts_map_list g v.parts i

theorem view_map_withNode {τ υ α : Type} (g : τ → υ) (v : View τ) (i : Nat) (missing : α)
    (k : υ → α) :
    (v.map g).parts.withNode i missing k = v.parts.withNode i missing (fun x => k (g x)) :=
  parts_map_withNode g v.parts i missing k

theorem view_map_nodePart {τ υ : Type} (g : τ → υ) (v : View τ) (i : Nat) :
    (v.map g).nodePart i = (v.nodePart i).map g :=
  getD_map (Parts.map g) Parts.empty v.nodeParts i

theorem view_map_childPart {τ υ : Type} (g : τ → υ) (v : View τ) (i : Nat) :
    (v.map g).childPart i = (v.childPart i).map g :=
  getD_map (Parts.map g) Parts.empty v.childParts i

theorem view_map_listPart {τ υ : Type} (g : τ → υ) (v : View τ) (i : Nat) :
    (v.map g).listPart i = (v.listPart i).map (Parts.map g) :=
  getD_map (List.map (Parts.map g)) [] v.listParts i

theorem NodeKind_Accept_map {τ υ : Type} (g : τ → υ) (kind : NodeKind) (v : View τ) :
    NodeKind.Accept kind (v.map g) = (NodeKind.Accept kind v).map (AcceptStep.map g) := by
  cases kind
  case CreateMaterializedView p q ine dependsOnSet ha he pop sec =>
    simp only [NodeKind.Accept, view_map_withNode, view_map_child, view_map_list,
      view_map_childPart, parts_map_child,
      parts_withNode_map (List.map (AcceptStep.map g))]
    congr 1
    funext Name
    cases dependsOnSet <;> cases (v.parts.child 5) <;> rfl
  case MapLiteral p q =>
    simp only [NodeKind.Accept, MapLiteral.Accept, view_map_list, List.zip_map, List.map_map,
      List.map_flatten]
    rfl
  case RenameStmt p q t =>
    simp only [NodeKind.Accept, RenameStmt.Accept, view_map_child, view_map_listPart,
      List.map_append, List.map_map, List.map_flatten]
    congr 2
    apply List.map_congr_left
    intro pair _
    simp only [Function.comp, parts_map_acceptNode, List.map_append]
  case WindowClause p q =>
    simp only [NodeKind.Accept, WindowClause.Accept, view_map_listPart, List.map_map,
      List.map_flatten]
    congr 1
    apply List.map_congr_left
    intro window _
    simp only [Function.comp, parts_map_child]
    rfl
  all_goals
    simp only [NodeKind.Accept, view_map_withNode, view_map_child, view_map_list,
      parts_withNode_map (List.map (AcceptStep.map g))]
    rfl

section
variable {σ ε : Type}

theorem runEach_map (visitor : ASTVisitor σ ε) (xs : List Expr) :
    runEach (xs.map (Expr.Accept visitor)) = acceptEach visitor xs := by
  induction xs with
  | nil => rfl
  | cons x xs ih =>
      show andThen (Expr.Accept visitor x) (runEach (xs.map (Expr.Accept visitor))) = _
      rw [ih]
      rfl

theorem acceptStep_run_map (visitor : ASTVisitor σ ε) (step : AcceptStep Expr) :
    (step.map (Expr.Accept visitor)).run = acceptAll visitor step.children := by
  cases step with
  | node child => exact (andThen_skipCall_right _).symm
  | field child =>
      cases child with
      | none => rfl
      | some x => exact (andThen_skipCall_right _).symm
  | ifPresent child =>
      cases child with
      | none => rfl
      | some x => exact (andThen_skipCall_right _).symm
  | each children =>
      show runEach (children.map (Expr.Accept visitor)) = acceptAll visitor (children.map some)
      rw [runEach_map, acceptAll_map_some]

theorem runSteps_map (visitor : ASTVisitor σ ε) (steps : List (AcceptStep Expr)) :
    runSteps (steps.map (AcceptStep.map (Expr.Accept visitor)))
      = acceptAll visitor (stepsChildren steps) := by
  induction steps with
  | nil => rfl
  | cons step rest ih =>
      show andThen (step.map (Expr.Accept visitor)).run
          (runSteps (rest.map (AcceptStep.map (Expr.Accept visitor))))
        = acceptAll visitor (step.children ++ stepsChildren rest)
      rw [ih, acceptStep_run_map, acceptAll_append]

theorem acceptItems_eq (visitor : ASTVisitor σ ε) :
    ∀ xs : List Expr, acceptItems visitor xs = xs.map (Expr.Accept visitor)
  | [] => rfl
  | x :: rest => by
      show Expr.Accept visitor x :: acceptItems visitor rest = _
      rw [acceptItems_eq visitor rest]
      rfl

theorem acceptChildren_eq (visitor : ASTVisitor σ ε) :
    ∀ cs : List (Option Expr),
      acceptChildren visitor cs = cs.map (Option.map (Expr.Accept visitor))
  | [] => rfl
  | none :: rest => by
      show none :: acceptChildren visitor rest = _
      rw [acceptChildren_eq visitor rest]
      rfl
  | some x :: rest => by
      show some (Expr.Accept visitor x) :: acceptChildren visitor rest = _
      rw [acceptChildren_eq visitor rest]
      rfl

theorem acceptLists_eq (visitor : ASTVisitor σ ε) :
    ∀ ls : List (List Expr),
      acceptLists visitor ls = ls.map (List.map (Expr.Accept visitor))
  | [] => rfl
  | xs :: rest => by
      show acceptItems visitor xs :: acceptLists visitor rest = _
      rw [acceptLists_eq visitor rest, acceptItems_eq]
      rfl

theorem acceptParts_eq (visitor : ASTVisitor σ ε) (e : Expr) :
    acceptParts visitor e = (Expr.parts e).map (Expr.Accept visitor) := by
  cases e
  case Node kind nodes children lists =>
    show (⟨acceptItems visitor nodes, acceptChildren visitor children,
      acceptLists visitor lists⟩ : Parts (σ → Traversal σ ε)) = _
    rw [acceptItems_eq, acceptChildren_eq, acceptLists_eq]
    rfl
  case SettingsClause p q Items =>
    show (⟨[], [], [acceptItems visitor Items]⟩ : Parts (σ → Traversal σ ε)) = _
    rw [acceptItems_eq]
    rfl
  all_goals rfl

theorem acceptPartsItems_eq (visitor : ASTVisitor σ ε) :
    ∀ xs : List Expr,
      acceptPartsItems visitor xs = (xs.map Expr.parts).map (Parts.map (Expr.Accept visitor))
  | [] => rfl
  | x :: rest => by
      show acceptParts visitor x :: acceptPartsItems visitor rest = _
      rw [acceptPartsItems_eq visitor rest, acceptParts_eq]
      rfl

theorem acceptPartsChildren_eq (visitor : ASTVisitor σ ε) :
    ∀ cs : List (Option Expr),
      acceptPartsChildren visitor cs
        = (cs.map Expr.childParts).map (Parts.map (Expr.Accept visitor))
  | [] => rfl
  | none :: rest => by
      show Parts.empty :: acceptPartsChildren visitor rest = _
      rw [acceptPartsChildren_eq visitor rest]
      rfl
  | some x :: rest => by
      show acceptParts visitor x :: acceptPartsChildren visitor rest = _
      rw [acceptPartsChildren_eq visitor rest, acceptParts_eq]
      rfl

theorem acceptPartsLists_eq (visitor : ASTVisitor σ ε) :
    ∀ ls : List (List Expr),
      acceptPartsLists visitor ls
        = (ls.map (List.map Expr.parts)).map (List.map (Parts.map (Expr.Accept visitor)))
  | [] => rfl
  | xs :: rest => by
      show acceptPartsItems visitor xs :: acceptPartsLists visitor rest = _
      rw [acceptPartsLists_eq visitor rest, acceptPartsItems_eq]
      rfl

/-- The body of `Accept` of a node of the generic constructor: the calls on the children
that the statements of the method name, then the callback. -/
theorem acceptBody_Node (visitor : ASTVisitor σ ε) (kind : NodeKind) (nodes : List Expr)
    (children : List (Option Expr)) (lists : List (List Expr)) :
    Expr.acceptBody visitor (.Node kind nodes children lists)
      = andThen
          (acceptAll visitor (stepsChildren (NodeKind.Accept kind
            (Expr.view nodes children lists))))
          (if NodeKind.callsVisit kind then callVisit visitor (.Node kind nodes children lists)
            else skipCall) := by
  have hview : (⟨⟨acceptItems visitor nodes, acceptChildren visitor children,
        acceptLists visitor lists⟩, acceptPartsItems visitor nodes,
        acceptPartsChildren visitor children, acceptPartsLists visitor lists⟩ :
        View (σ → Traversal σ ε))
      = (Expr.view nodes children lists).map (Expr.Accept visitor) := by
    rw [acceptItems_eq, acceptChildren_eq, acceptLists_eq, acceptPartsItems_eq,
      acceptPartsChildren_eq, acceptPartsLists_eq]
    rfl
  show andThen (runSteps (NodeKind.Accept kind _)) _ = _
  rw [hview, NodeKind_Accept_map, runSteps_map]

end

section
variable {σ ε : Type}

/-- The last step of `Accept`: the `VisitX` callback of the node, when the method calls
it. -/
theorem acceptBody_scheme (visitor : ASTVisitor σ ε) (n : Expr) :
    Expr.acceptBody visitor n
      = andThen (acceptAll visitor n.traversal)
          (if n.callsVisit then callVisit visitor n else skipCall) := by
  cases n
  case Node kind nodes children lists => exact acceptBody_Node visitor kind nodes children lists
  case JoinTableExpr t q sample fin =>
    cases sample with
    | none =>
        simp only [Expr.traversal, Expr.callsVisit, acceptAll_cons, acceptAll_present,
          acceptIfPresent_none, andThen_assoc, andThen_skipCall_left, if_true]
        rfl
    | some x =>
        simp only [Expr.traversal, Expr.callsVisit, acceptAll_cons, acceptAll_present,
          andThen_assoc, andThen_skipCall_right, Bool.false_eq_true, if_false]
        rfl
  all_goals
    simp only [Expr.traversal, Expr.callsVisit, acceptAll_cons, acceptAll_nil,
      acceptAll_append, acceptAll_present, acceptAll_presentIdent, acceptAll_map_some,
      acceptField_map_Ident, acceptAll_identChildren, andThen_assoc, andThen_skipCall_left,
      if_true]
    rfl

end

section
variable {σ ε : Type}

theorem andThen_events {first next : σ → Traversal σ ε} {s : σ}
    (h : (first s).result = Outcome.ok) :
    (andThen first next s).events = (first s).events ++ (next (first s).state).events := by
  rw [andThen_of_ok h]

theorem andThen_result {first next : σ → Traversal σ ε} {s : σ}
    (h : (first s).result = Outcome.ok) :
    (andThen first next s).result = (next (first s).state).result := by
  rw [andThen_of_ok h]

theorem andThen_state {first next : σ → Traversal σ ε} {s : σ}
    (h : (first s).result = Outcome.ok) :
    (andThen first next s).state = (next (first s).state).state := by
  rw [andThen_of_ok h]

theorem callVisit_events (visitor : ASTVisitor σ ε) (n : Expr) (s : σ) :
    (callVisit visitor n s).events = [Event.Visit n] := rfl

theorem quietVisitor_succeeds : VisitsSucceed quietVisitor := fun _ _ => rfl

/-- With callbacks that all return `nil`, a traversal that dereferences no `nil` field
returns `nil`. -/
theorem Accept_ok (visitor : ASTVisitor σ ε) (hV : VisitsSucceed visitor) (n : Expr) (s : σ)
    (hnil : (Expr.Accept visitor n s).result ≠ Outcome.nilDereference) :
    (Expr.Accept visitor n s).result = Outcome.ok :=
  result_ok_of_no_failure _ (Accept_closed (noError_closed visitor hV) n) s hnil

/-- The trace of a traversal that returns `nil`, for a node whose `Accept` ends with the
callback: the children, then the callback. -/
theorem Accept_events_of_ok (visitor : ASTVisitor σ ε) (n : Expr) (s : σ)
    (hcalls : n.callsVisit = true)
    (hok : (Expr.Accept visitor n s).result = Outcome.ok) :
    (acceptAll visitor n.traversal (visitor.Enter n s)).result = Outcome.ok ∧
    (Expr.Accept visitor n s).events =
      Event.Enter n :: (acceptAll visitor n.traversal (visitor.Enter n s)).events
        ++ [Event.Visit n, Event.Leave n] := by
  have hbody : (Expr.acceptBody visitor n (visitor.Enter n s)).result = Outcome.ok := hok
  have hev : (Expr.Accept visitor n s).events
      = Event.Enter n :: (Expr.acceptBody visitor n (visitor.Enter n s)).events
          ++ [Event.Leave n] := rfl
  rw [acceptBody_scheme, hcalls, if_pos rfl] at hbody
  have h1 := (andThen_result_ok hbody).1
  refine ⟨h1, ?_⟩
  rw [hev, acceptBody_scheme, hcalls, if_pos rfl, andThen_events h1, callVisit_events]
  simp

end

/-- C13. Failure propagation: when the children before `c` in the traversal order of `n`
returned `nil` and `c.Accept` returns the error `e`, `n.Accept` returns `e` and its trace
is `Enter(n)`, the traces of those children, the trace of `c`, `Leave(n)`: no later child
is entered and the callback of `n` is not invoked.  When all children returned `nil` and
the callback of `n` returns `e`, `n.Accept` returns `e`. -/
theorem failure_propagation {σ ε : Type} (visitor : ASTVisitor σ ε) (n : Expr) (s : σ)
    (e : ε) :
    (∀ (pre post : List (Option Expr)) (c : Expr),
      n.traversal = pre ++ some c :: post →
      (acceptAll visitor pre (visitor.Enter n s)).result = Outcome.ok →
      (Expr.Accept visitor c (acceptAll visitor pre (visitor.Enter n s)).state).result
        = Outcome.error e →
      (Expr.Accept visitor n s).result = Outcome.error e ∧
      (Expr.Accept visitor n s).events =
        Event.Enter n :: ((acceptAll visitor pre (visitor.Enter n s)).events ++
          (Expr.Accept visitor c (acceptAll visitor pre (visitor.Enter n s)).state).events)
          ++ [Event.Leave n]) ∧
    (n.callsVisit = true →
      (acceptAll visitor n.traversal (visitor.Enter n s)).result = Outcome.ok →
      (visitor.Visit n (acceptAll visitor n.traversal (visitor.Enter n s)).state).2 = some e →
      (Expr.Accept visitor n s).result = Outcome.error e ∧
      (Expr.Accept visitor n s).events =
        Event.Enter n :: (acceptAll visitor n.traversal (visitor.Enter n s)).events
          ++ [Event.Visit n, Event.Leave n]) := by
  have hev : (Expr.Accept visitor n s).events
      = Event.Enter n :: (Expr.acceptBody visitor n (visitor.Enter n s)).events
          ++ [Event.Leave n] := rfl
  have hres : (Expr.Accept visitor n s).result
      = (Expr.acceptBody visitor n (visitor.Enter n s)).result := rfl
  constructor
  · intro pre post c hsplit hpre hc
    have hc2 : (andThen (acceptField visitor (some c)) (acceptAll visitor post)
        (acceptAll visitor pre (visitor.Enter n s)).state)
        = Expr.Accept visitor c (acceptAll visitor pre (visitor.Enter n s)).state :=
      andThen_of_not_ok (by rw [acceptField_some, hc]; simp)
    have hchildren : (acceptAll visitor n.traversal (visitor.Enter n s)).result
        = Outcome.error e := by
      rw [hsplit, acceptAll_append, acceptAll_cons, andThen_result hpre, hc2, hc]
    have hbody : Expr.acceptBody visitor n (visitor.Enter n s)
        = acceptAll visitor n.traversal (visitor.Enter n s) := by
      rw [acceptBody_scheme]
      exact andThen_of_not_ok (by rw [hchildren]; simp)
    rw [hev, hres, hbody, hchildren]
    refine ⟨rfl, ?_⟩
    rw [hsplit, acceptAll_append, acceptAll_cons, andThen_events hpre, hc2]
  · intro hcalls hchildren hvisit
    rw [hev, hres, acceptBody_scheme, hcalls, if_pos rfl, andThen_result hchildren,
      andThen_events hchildren, callVisit_events]
    constructor
    · simp [callVisit, hvisit]
    · simp

/-- Witness of C13: in `SELECT a, b FROM t WHERE a > 1 AND b < 2`, a visitor failing at
the identifier `b` stops the traversal in the second select item; and the identifier `b`
itself returns the error of its own callback. -/
theorem failure_propagation_witness :
    ((Expr.Accept (failingAt "b") scenario1Tree 0).result = Outcome.error "no b" ∧
      (Expr.Accept (failingAt "b") scenario1Tree 0).events =
        Event.Enter scenario1Tree ::
          ((acceptAll (failingAt "b")
              [some (.SelectItem (some (.Ident (unquotedIdent "a" 7))) [] none)]
              ((failingAt "b").Enter scenario1Tree 0)).events ++
            (Expr.Accept (failingAt "b")
              (.SelectItem (some (.Ident (unquotedIdent "b" 10))) [] none)
              (acceptAll (failingAt "b")
                [some (.SelectItem (some (.Ident (unquotedIdent "a" 7))) [] none)]
                ((failingAt "b").Enter scenario1Tree 0)).state).events)
          ++ [Event.Leave scenario1Tree]) ∧
    ((Expr.Accept (failingAt "b") (.Ident (unquotedIdent "b" 10)) 0).result
        = Outcome.error "no b" ∧
      (Expr.Accept (failingAt "b") (.Ident (unquotedIdent "b" 10)) 0).events =
        Event.Enter (.Ident (unquotedIdent "b" 10)) ::
          (acceptAll (failingAt "b") (Expr.traversal (.Ident (unquotedIdent "b" 10)))
            ((failingAt "b").Enter (.Ident (unquotedIdent "b" 10)) 0)).events
          ++ [Event.Visit (.Ident (unquotedIdent "b" 10)),
              Event.Leave (.Ident (unquotedIdent "b" 10))]) :=
  ⟨(failure_propagation (failingAt "b") scenario1Tree 0 "no b").1
      [some (.SelectItem (some (.Ident (unquotedIdent "a" 7))) [] none)]
      [some (.FromClause 12
        (some (.JoinTableExpr
          (.TableExpr 17 18 none (some (.TableIdentifier none (unquotedIdent "t" 17))) false)
          18 none false))),
       some (.WhereClause 19 (some scenario1Where))]
      (.SelectItem (some (.Ident (unquotedIdent "b" 10))) [] none)
      rfl rfl rfl,
   (failure_propagation (failingAt "b") (.Ident (unquotedIdent "b" 10)) 0 "no b").2
      rfl rfl rfl⟩

/-- C15. Post-order visiting: with callbacks that all return `nil`, the trace of
`p.Accept(v)` for a binary operation `p` with operands `l` and `r` (no `nil` field being
dereferenced below) is `Enter(p)`, the whole trace of `l.Accept(v)`, the whole trace of
`r.Accept(v)`, `Visit(p)`, `Leave(p)`; and for every node whose `Accept` ends with its
callback, the trace is `Enter`, the events of the children, `Visit`, `Leave`. -/
theorem post_order_visiting {σ ε : Type} (visitor : ASTVisitor σ ε)
    (hV : VisitsSucceed visitor) (l r : Expr) (op : TokenKind) (g nt : Bool) (s : σ)
    (hnil : (Expr.Accept visitor (.BinaryOperation (some l) op (some r) g nt) s).result
      ≠ Outcome.nilDereference) :
    (Expr.Accept visitor (.BinaryOperation (some l) op (some r) g nt) s).events =
      Event.Enter (.BinaryOperation (some l) op (some r) g nt) ::
        (Expr.Accept visitor l
          (visitor.Enter (.BinaryOperation (some l) op (some r) g nt) s)).events ++
        (Expr.Accept visitor r
          (Expr.Accept visitor l
            (visitor.Enter (.BinaryOperation (some l) op (some r) g nt) s)).state).events ++
        [Event.Visit (.BinaryOperation (some l) op (some r) g nt),
         Event.Leave (.BinaryOperation (some l) op (some r) g nt)] ∧
    ∀ (n : Expr) (t : σ), n.callsVisit = true →
      (Expr.Accept visitor n t).result ≠ Outcome.nilDereference →
      (Expr.Accept visitor n t).events =
        Event.Enter n :: (acceptAll visitor n.traversal (visitor.Enter n t)).events
          ++ [Event.Visit n, Event.Leave n] := by
  constructor
  · have hok := Accept_ok visitor hV _ s hnil
    obtain ⟨hch, hev⟩ := Accept_events_of_ok visitor
      (.BinaryOperation (some l) op (some r) g nt) s rfl hok
    rw [hev]
    have htr : Expr.traversal (.BinaryOperation (some l) op (some r) g nt)
        = [some l, some r] := rfl
    rw [htr] at hch ⊢
    rw [acceptAll_cons, acceptAll_cons, acceptAll_nil, andThen_skipCall_right] at hch ⊢
    have hl := (andThen_result_ok hch).1
    rw [andThen_events hl]
    simp [acceptField_some]
  · intro n t hcalls hn
    exact (Accept_events_of_ok visitor n t hcalls (Accept_ok visitor hV n t hn)).2

/-- Witness of C15: the quiet visitor on `a > 1 AND b < 2`. -/
theorem post_order_visiting_witness :
    (Expr.Accept quietVisitor scenario1Where ()).events =
      Event.Enter scenario1Where ::
        (Expr.Accept quietVisitor (comparison "a" 25 ">" "1" 29) ()).events ++
        (Expr.Accept quietVisitor (comparison "b" 35 "<" "2" 39) ()).events ++
        [Event.Visit scenario1Where, Event.Leave scenario1Where] :=
  (post_order_visiting quietVisitor quietVisitor_succeeds (comparison "a" 25 ">" "1" 29)
    (comparison "b" 35 "<" "2" 39) KeywordAnd false false ()
    (by intro h; cases h)).1

/-- C17. JOIN traversal order: with callbacks that all return `nil`, the trace of
`j.Accept(v)` for a join `j` (no `nil` field being dereferenced) is `Enter(j)`, the trace
of `Accept` on `Left`, the trace of `Accept` on `Right` if it is present, the trace of
`Accept` on `Constraints` if it is present, each from the state the one before left,
then `VisitJoinExpr(j)` and `Leave(j)`. -/
theorem join_traversal_order {σ ε : Type} (visitor : ASTVisitor σ ε)
    (hV : VisitsSucceed visitor) (pos : Pos) (left : Expr) (right constraints : Option Expr)
    (modifiers : List String) (s : σ)
    (hnil : (Expr.Accept visitor
        (.JoinExpr pos (some left) right modifiers constraints) s).result
      ≠ Outcome.nilDereference) :
    (Expr.Accept visitor (.JoinExpr pos (some left) right modifiers constraints) s).events =
      Event.Enter (.JoinExpr pos (some left) right modifiers constraints) ::
        (Expr.Accept visitor left
          (visitor.Enter (.JoinExpr pos (some left) right modifiers constraints) s)).events ++
        traceIfPresent visitor right
          (Expr.Accept visitor left
            (visitor.Enter (.JoinExpr pos (some left) right modifiers constraints)
              s)).state ++
        traceIfPresent visitor constraints
          (stateIfPresent visitor right
            (Expr.Accept visitor left
              (visitor.Enter (.JoinExpr pos (some left) right modifiers constraints)
                s)).state) ++
        [Event.Visit (.JoinExpr pos (some left) right modifiers constraints),
         Event.Leave (.JoinExpr pos (some left) right modifiers constraints)] := by
  have hok := Accept_ok visitor hV _ s hnil
  have hbody : (andThen (acceptField visitor (some left))
      (andThen (acceptIfPresent visitor right)
        (andThen (acceptIfPresent visitor constraints)
          (callVisit visitor (.JoinExpr pos (some left) right modifiers constraints))))
      (visitor.Enter (.JoinExpr pos (some left) right modifiers constraints) s)).result
      = Outcome.ok := hok
  have h1 := andThen_result_ok hbody
  have h2 := andThen_result_ok h1.2
  have h3 := andThen_result_ok h2.2
  have hev : (Expr.Accept visitor
      (.JoinExpr pos (some left) right modifiers constraints) s).events
      = Event.Enter (.JoinExpr pos (some left) right modifiers constraints) ::
        (andThen (acceptField visitor (some left))
          (andThen (acceptIfPresent visitor right)
            (andThen (acceptIfPresent visitor constraints)
              (callVisit visitor (.JoinExpr pos (some left) right modifiers constraints))))
          (visitor.Enter (.JoinExpr pos (some left) right modifiers constraints) s)).events
        ++ [Event.Leave (.JoinExpr pos (some left) right modifiers constraints)] := rfl
  have hr : ∀ (c : Option Expr) (t : σ),
      (acceptIfPresent visitor c t).events = traceIfPresent visitor c t ∧
      (acceptIfPresent visitor c t).state = stateIfPresent visitor c t := by
    intro c t
    cases c <;> exact ⟨rfl, rfl⟩
  rw [hev, andThen_events h1.1, andThen_events h2.1, andThen_events h3.1, callVisit_events,
    (hr constraints _).1, (hr right _).2, (hr right _).1]
  simp [acceptField_some]

/-! ## Column definitions -/

theorem writeSpaced_compact (f : Formatter) (x : Option Expr)
    (h : f.mode ≠ FormatModeBeautify) :
    (writeSpaced f x).mode = f.mode ∧
      (writeSpaced f x).builder = f.builder ++ (optionalPart " " x).data := by
  cases x with
  | none => exact ⟨rfl, by simp [writeSpaced, optionalPart]⟩
  | some x =>
      have hw : (f.WriteByte whitespace).mode ≠ FormatModeBeautify := by simpa using h
      refine ⟨by simp [writeSpaced, FormatSQL_mode], ?_⟩
      show (x.FormatSQL (f.WriteByte whitespace)).builder = _
      rw [FormatSQL_compact x _ hw, WriteByte_compact f _ h]
      simp [optionalPart, Format, WriteExpr, Formatter.String, whitespace]

theorem writeIntroduced_compact (f : Formatter) (keyword : String) (x : Option Expr)
    (h : f.mode ≠ FormatModeBeautify) :
    (writeIntroduced f keyword x).mode = f.mode ∧
      (writeIntroduced f keyword x).builder = f.builder ++ (optionalPart keyword x).data := by
  cases x with
  | none => exact ⟨rfl, by simp [writeIntroduced, optionalPart]⟩
  | some x =>
      have hw : (f.WriteString keyword).mode ≠ FormatModeBeautify := by simpa using h
      refine ⟨by simp [writeIntroduced, FormatSQL_mode], ?_⟩
      show (x.FormatSQL (f.WriteString keyword)).builder = _
      rw [FormatSQL_compact x _ hw, WriteString_compact f _ h]
      simp [optionalPart, Format, WriteExpr, Formatter.String]

/-- C11. Column definition rendering: the Compact rendering of every `ColumnDef` is the
concatenation of the name; `" "` and the type if present; `" NOT NULL"` if `NotNull` is
present, otherwise `" NULL"` if `Nullable` is present; `" DEFAULT "`, `" MATERIALIZED "`,
`" ALIAS "` and their expression if present; `" "` and the codec if present; `" "` and
the TTL clause if present; `" COMMENT "` and the comment if present.  An absent part
contributes no bytes. -/
theorem column_definition_rendering (p q : Pos) (name : Expr)
    (ty notNull nullable dflt mat als codec ttl comment : Option Expr) (cc : Option Ident) :
    Format (some (.ColumnDef p q name ty notNull nullable dflt mat als codec ttl comment cc))
      = Format (some name) ++ optionalPart " " ty
        ++ (if notNull.isSome then " NOT NULL" else if nullable.isSome then " NULL" else "")
        ++ optionalPart " DEFAULT " dflt ++ optionalPart " MATERIALIZED " mat
        ++ optionalPart " ALIAS " als ++ optionalPart " " codec ++ optionalPart " " ttl
        ++ optionalPart " COMMENT " comment := by
  have h0 : (name.FormatSQL NewFormatter).mode ≠ FormatModeBeautify := by
    rw [FormatSQL_mode]; exact compact_ne_beautify
  obtain ⟨m1, b1⟩ := writeSpaced_compact (name.FormatSQL NewFormatter) ty h0
  have h1 : (writeSpaced (name.FormatSQL NewFormatter) ty).mode ≠ FormatModeBeautify := by
    rw [m1]; exact h0
  have hnull : ∃ g : Formatter, g.mode ≠ FormatModeBeautify ∧
      g = (if notNull.isSome then
              (writeSpaced (name.FormatSQL NewFormatter) ty).WriteString " NOT NULL"
            else if nullable.isSome then
              (writeSpaced (name.FormatSQL NewFormatter) ty).WriteString " NULL"
            else writeSpaced (name.FormatSQL NewFormatter) ty) ∧
      g.builder = (name.FormatSQL NewFormatter).builder ++ (optionalPart " " ty).data
        ++ (if notNull.isSome then " NOT NULL" else if nullable.isSome then " NULL"
            else "").data := by
    refine ⟨_, ?_, rfl, ?_⟩
    · split_ifs <;> simpa using h1
    · split_ifs
      · rw [WriteString_compact _ _ h1, b1]
      · rw [WriteString_compact _ _ h1, b1]
      · rw [b1]; simp
  obtain ⟨g, hg, hgdef, bg⟩ := hnull
  obtain ⟨m2, b2⟩ := writeIntroduced_compact g " DEFAULT " dflt hg
  have h2 : (writeIntroduced g " DEFAULT " dflt).mode ≠ FormatModeBeautify := by
    rw [m2]; exact hg
  obtain ⟨m3, b3⟩ := writeIntroduced_compact _ " MATERIALIZED " mat h2
  have h3 : (writeIntroduced (writeIntroduced g " DEFAULT " dflt) " MATERIALIZED " mat).mode
      ≠ FormatModeBeautify := by rw [m3]; exact h2
  obtain ⟨m4, b4⟩ := writeIntroduced_compact _ " ALIAS " als h3
  have h4 := h3
  rw [← m4] at h4
  obtain ⟨m5, b5⟩ := writeSpaced_compact _ codec h4
  have h5 := h4
  rw [← m5] at h5
  obtain ⟨m6, b6⟩ := writeSpaced_compact _ ttl h5
  have h6 := h5
  rw [← m6] at h6
  obtain ⟨_, b7⟩ := writeIntroduced_compact _ " COMMENT " comment h6
  show (Expr.FormatSQL _ NewFormatter).String = _
  rw [FormatSQL_ColumnDef, ← hgdef]
  apply String.ext
  simp only [Formatter.String, b7, b6, b5, b4, b3, b2, bg, String.data_append, Format,
    WriteExpr, List.append_assoc]

/-! ## Visitor traversals of particular nodes -/

/-- Witness of C17: the quiet visitor on the join `t, u`, which has a right side and no
constraints: the trace holds the events of the left table, then those of the right
table. -/
theorem join_traversal_order_witness :
    (Expr.Accept quietVisitor joinExample ()).events =
      Event.Enter joinExample ::
        (Expr.Accept quietVisitor (.JoinTableExpr (tableRef "t" 5) 6 none false) ()).events ++
        (Expr.Accept quietVisitor (.JoinTableExpr (tableRef "u" 8) 9 none false) ()).events ++
        [] ++
        [Event.Visit joinExample, Event.Leave joinExample] :=
  join_traversal_order quietVisitor quietVisitor_succeeds 5
    (.JoinTableExpr (tableRef "t" 5) 6 none false)
    (some (.JoinTableExpr (tableRef "u" 8) 9 none false)) none [] ()
    (by intro h; cases h)

/-- C14, as stated, fails: for the `JoinTableExpr` of `FROM t SAMPLE 0.1` and a visitor
whose callbacks all return `nil`, `Accept` returns `nil` and its trace is `Enter`, the
trace of the table, the trace of the sampling clause, `Leave`: the callback
`VisitJoinTableExpr` of the node is not in it, while it is in the trace of the same table
without a sampling clause. -/
theorem joinTableExpr_sample_skips_visit :
    Format (some sampledTable) = "t SAMPLE 0.1" ∧
    (Expr.Accept quietVisitor sampledTable ()).result = Outcome.ok ∧
    (Expr.Accept quietVisitor sampledTable ()).events =
      Event.Enter sampledTable ::
        (Expr.Accept quietVisitor (tableRef "t" 5) ()).events ++
        (Expr.Accept quietVisitor sampleTenth ()).events ++
        [Event.Leave sampledTable] ∧
    Event.Visit sampledTable ∉ (Expr.Accept quietVisitor sampledTable ()).events ∧
    (Expr.Accept quietVisitor plainTable ()).events =
      Event.Enter plainTable ::
        (Expr.Accept quietVisitor (tableRef "t" 5) ()).events ++
        [Event.Visit plainTable, Event.Leave plainTable] := by
  refine ⟨by decide, rfl, rfl, ?_, rfl⟩
  intro h
  have hev : (Expr.Accept quietVisitor sampledTable ()).events =
      [Event.Enter sampledTable,
       Event.Enter (tableRef "t" 5),
       Event.Enter (.TableIdentifier none (unquotedIdent "t" 5)),
       Event.Enter (.Ident (unquotedIdent "t" 5)),
       Event.Visit (.Ident (unquotedIdent "t" 5)),
       Event.Leave (.Ident (unquotedIdent "t" 5)),
       Event.Visit (.TableIdentifier none (unquotedIdent "t" 5)),
       Event.Leave (.TableIdentifier none (unquotedIdent "t" 5)),
       Event.Visit (tableRef "t" 5),
       Event.Leave (tableRef "t" 5),
       Event.Enter sampleTenth,
       Event.Enter (.RatioExpr (.NumberLiteral 14 17 "0.1" 10) none),
       Event.Enter (.NumberLiteral 14 17 "0.1" 10),
       Event.Visit (.NumberLiteral 14 17 "0.1" 10),
       Event.Leave (.NumberLiteral 14 17 "0.1" 10),
       Event.Visit (.RatioExpr (.NumberLiteral 14 17 "0.1" 10) none),
       Event.Leave (.RatioExpr (.NumberLiteral 14 17 "0.1" 10) none),
       Event.Visit sampleTenth,
       Event.Leave sampleTenth,
       Event.Leave sampledTable] := rfl
  rw [hev] at h
  simp [sampledTable, sampleTenth, tableRef] at h

/-- C16, as stated, fails: for `a ? b : c`, which `FormatSQL` renders condition first,
`Accept` traverses the true branch `b`, then the false branch `c`, and the condition `a`
last. -/
theorem ternary_condition_visited_last :
    Format (some ternaryExample) = "a ? b : c" ∧
    (Expr.Accept quietVisitor ternaryExample ()).result = Outcome.ok ∧
    (Expr.Accept quietVisitor ternaryExample ()).events =
      [Event.Enter ternaryExample,
       Event.Enter (.Ident (unquotedIdent "b" 4)),
       Event.Visit (.Ident (unquotedIdent "b" 4)),
       Event.Leave (.Ident (unquotedIdent "b" 4)),
       Event.Enter (.Ident (unquotedIdent "c" 8)),
       Event.Visit (.Ident (unquotedIdent "c" 8)),
       Event.Leave (.Ident (unquotedIdent "c" 8)),
       Event.Enter (.Ident (unquotedIdent "a" 0)),
       Event.Visit (.Ident (unquotedIdent "a" 0)),
       Event.Leave (.Ident (unquotedIdent "a" 0)),
       Event.Visit ternaryExample,
       Event.Leave ternaryExample] ∧
    Expr.Pos ternaryExample = some 0 ∧ Expr.End ternaryExample = some 9 :=
  ⟨by decide, rfl, rfl, by decide, by decide⟩

/-- C18, as stated, fails: `FormatSQL` renders the name and the comment of
`CREATE DATABASE db COMMENT 'x'` and the action of the TTL rule `DELETE`, yet the traces
of `Accept` on these nodes hold the events of the node alone: no child is entered. -/
theorem rendered_children_not_visited :
    Format (some createDatabaseExample) = "CREATE DATABASE db COMMENT 'x'" ∧
    (Expr.Accept quietVisitor createDatabaseExample ()).result = Outcome.ok ∧
    (Expr.Accept quietVisitor createDatabaseExample ()).events =
      [Event.Enter createDatabaseExample, Event.Visit createDatabaseExample,
       Event.Leave createDatabaseExample] ∧
    Format (some ttlRuleExample) = "DELETE" ∧
    (Expr.Accept quietVisitor ttlRuleExample ()).result = Outcome.ok ∧
    (Expr.Accept quietVisitor ttlRuleExample ()).events =
      [Event.Enter ttlRuleExample, Event.Visit ttlRuleExample, Event.Leave ttlRuleExample] :=
  ⟨by decide, rfl, rfl, by decide, rfl, rfl⟩

/-! ## Spans -/

/-- C19, as stated, fails: `End()` of a `TTLExpr` is the end of its expression, whatever
its policy; in `d TO DISK 'hdd'` the expression ends at 1, before the policy starts at 2,
the policy ends at 14, and the item ends at 1, before the end of its policy. -/
theorem ttl_end_ignores_policy :
    (∀ (p : Pos) (e policy : Option Expr), Expr.End (.TTLExpr p e policy) = endOf e) ∧
    Format (some ttlExample) = "d TO DISK 'hdd'" ∧
    Expr.End (.Ident (unquotedIdent "d" 0)) = some 1 ∧
    Expr.Pos ttlPolicyExample = some 2 ∧
    Expr.End ttlPolicyExample = some 14 ∧
    Expr.Pos ttlExample = some 0 ∧
    Expr.End ttlExample = some 1 :=
  ⟨fun _ _ _ => rfl, by decide, by decide, by decide, by decide, by decide, by decide⟩

/-- C20. Span of a binary expression: `Pos()` of a `BinaryOperation` is `Pos()` of its
left operand and `End()` is `End()` of its right operand; when both operands have
well-formed spans and the left one ends no later than the right one starts, the span of
the operation is well formed and contains the spans of both operands. -/
theorem binary_operation_span (l r : Option Expr) (op : TokenKind) (g nt : Bool) :
    (Expr.Pos (.BinaryOperation l op r g nt) = posOf l ∧
      Expr.End (.BinaryOperation l op r g nt) = endOf r) ∧
    ∀ lp le rp re : Pos,
      posOf l = some lp → endOf l = some le → posOf r = some rp → endOf r = some re →
      lp ≤ le → rp ≤ re → le ≤ rp →
      ∃ p e : Pos, Expr.Pos (.BinaryOperation l op r g nt) = some p ∧
        Expr.End (.BinaryOperation l op r g nt) = some e ∧
        p ≤ e ∧ (p ≤ lp ∧ le ≤ e) ∧ (p ≤ rp ∧ re ≤ e) := by
  refine ⟨⟨rfl, rfl⟩, ?_⟩
  intro lp le rp re hlp _ _ hre h1 h2 h3
  refine ⟨lp, re, hlp ▸ rfl, hre ▸ rfl, ?_, ⟨le_refl _, ?_⟩, ⟨?_, le_refl _⟩⟩
  · exact le_trans h1 (le_trans h3 h2)
  · exact le_trans h3 h2
  · exact le_trans h1 h3

/-- Witness of C20: in `a > 1 AND b < 2` (scenario 1) the left operand spans 25 to 30 and
the right operand 35 to 40. -/
theorem binary_operation_span_witness :
    ∃ p e : Pos, Expr.Pos scenario1Where = some p ∧ Expr.End scenario1Where = some e ∧
      p ≤ e ∧ (p ≤ 25 ∧ 30 ≤ e) ∧ (p ≤ 35 ∧ 40 ≤ e) :=
  (binary_operation_span (some (comparison "a" 25 ">" "1" 29))
    (some (comparison "b" 35 "<" "2" 39)) KeywordAnd false false).2 25 30 35 40
    (by decide) (by decide) (by decide) (by decide) (by decide) (by decide) (by decide)

/-! ## The formatter: defaults, configuration, Compact mode -/

/-- C21. Formatter defaults: `NewFormatter()` is in Compact mode, its indent unit is
exactly two spaces, its indent level is 0, its line-start flag is set, and its output is
empty. -/
theorem formatter_defaults :
    NewFormatter.mode = FormatModeCompact ∧
    NewFormatter.indent = "  " ∧
    NewFormatter.indent.data = [whitespace, whitespace] ∧
    NewFormatter.indentLevel = 0 ∧
    NewFormatter.lineStart = true ∧
    NewFormatter.builder = [] ∧
    NewFormatter.String = "" := by
  refine ⟨rfl, rfl, rfl, rfl, rfl, rfl, rfl⟩

/-- C22. Configuration setters: `WithBeautify()` sets the mode to Beautify and
`WithIndent(s)` sets the indent unit to `s`; each leaves every other field as it was; the
two commute; and both orders applied to `NewFormatter()` give the state with mode Beautify
and indent unit `s`. -/
theorem setters_touch_one_field (f : Formatter) (s : String) :
    (f.WithBeautify.mode = FormatModeBeautify ∧ f.WithBeautify.indent = f.indent ∧
      f.WithBeautify.indentLevel = f.indentLevel ∧ f.WithBeautify.lineStart = f.lineStart ∧
      f.WithBeautify.builder = f.builder) ∧
    ((f.WithIndent s).indent = s ∧ (f.WithIndent s).mode = f.mode ∧
      (f.WithIndent s).indentLevel = f.indentLevel ∧
      (f.WithIndent s).lineStart = f.lineStart ∧ (f.WithIndent s).builder = f.builder) ∧
    f.WithBeautify.WithIndent s = (f.WithIndent s).WithBeautify ∧
    NewFormatter.WithBeautify.WithIndent s = (NewFormatter.WithIndent s).WithBeautify ∧
    (NewFormatter.WithBeautify.WithIndent s).mode = FormatModeBeautify ∧
    (NewFormatter.WithBeautify.WithIndent s).indent = s :=
  ⟨⟨rfl, rfl, rfl, rfl, rfl⟩, ⟨rfl, rfl, rfl, rfl, rfl⟩, rfl, rfl, rfl, rfl⟩

theorem apply_compact (f : Formatter) (o : FmtOp) (h : f.mode = FormatModeCompact) :
    (o.apply f).mode = FormatModeCompact ∧
      (o.apply f).builder = f.builder ++ o.compactText := by
  have hne : f.mode ≠ FormatModeBeautify := by rw [h]; decide
  cases o with
  | Indent => simp [FmtOp.apply, FmtOp.compactText, Formatter.Indent, h]
  | Dedent =>
      simp only [FmtOp.apply, FmtOp.compactText, Formatter.Dedent]
      split <;> simp [h]
  | NewLine =>
      have e : f.NewLine = f := by simp [Formatter.NewLine, hne]
      simp [FmtOp.apply, FmtOp.compactText, e, h]
  | Break =>
      refine ⟨?_, ?_⟩
      · simp [FmtOp.apply, h]
      · simp [FmtOp.apply, FmtOp.compactText, Formatter.Break, hne, WriteByte_compact f _ hne]
  | WriteByte b =>
      refine ⟨?_, ?_⟩
      · simp [FmtOp.apply, h]
      · simpa [FmtOp.apply, FmtOp.compactText] using WriteByte_compact f b hne
  | WriteString s =>
      refine ⟨?_, ?_⟩
      · simp [FmtOp.apply, h]
      · simpa [FmtOp.apply, FmtOp.compactText] using WriteString_compact f s hne

theorem runOps_compact (ops : List FmtOp) (f : Formatter) (h : f.mode = FormatModeCompact) :
    (runOps f ops).mode = FormatModeCompact ∧
      (runOps f ops).builder = f.builder ++ compactText ops := by
  induction ops generalizing f with
  | nil => simp [runOps, compactText, h]
  | cons o ops ih =>
      obtain ⟨hm, hb⟩ := apply_compact f o h
      obtain ⟨hm2, hb2⟩ := ih (o.apply f) hm
      have e : runOps f (o :: ops) = runOps (o.apply f) ops := rfl
      rw [e]
      refine ⟨hm2, ?_⟩
      rw [hb2, hb]
      simp [compactText]

theorem compactText_filter (ops : List FmtOp) :
    compactText (ops.filter fun o => !o.isLayout) = compactText ops := by
  induction ops with
  | nil => rfl
  | cons o ops ih =>
      have e : compactText (o :: ops) = o.compactText ++ compactText ops := by
        simp [compactText]
      cases o <;>
        simp_all [List.filter, FmtOp.isLayout, FmtOp.compactText, compactText]

/-- C28. Compact mode emits no layout: from a state in Compact mode, the output of a
sequence of operations is the output so far followed by the bytes passed to
`WriteByte`/`WriteString` and one space per `Break()`, in order; and it is the same from
any other Compact state with the same output so far (whatever its indent level, indent
unit and line-start flag) with the `Indent()`, `Dedent()` and `NewLine()` calls left
out. -/
theorem compact_no_layout (ops : List FmtOp) (f : Formatter)
    (h : f.mode = FormatModeCompact) :
    (runOps f ops).builder = f.builder ++ compactText ops ∧
    ∀ g : Formatter, g.mode = FormatModeCompact → g.builder = f.builder →
      (runOps g (ops.filter fun o => !o.isLayout)).builder = (runOps f ops).builder := by
  refine ⟨(runOps_compact ops f h).2, ?_⟩
  intro g hg hb
  rw [(runOps_compact ops f h).2, (runOps_compact _ g hg).2, compactText_filter, hb]

/-- Witness of C28: a new formatter on `Indent`, `a`, `NewLine`, `Break`, `b`, `Dedent`
against a Compact formatter at indent level 3 with a tab as unit on `a`, `Break`, `b`. -/
theorem compact_no_layout_witness :
    (runOps NewFormatter
        [.Indent, .WriteString "a", .NewLine, .Break, .WriteByte 'b', .Dedent]).builder
      = NewFormatter.builder ++ compactText
        [.Indent, .WriteString "a", .NewLine, .Break, .WriteByte 'b', .Dedent] ∧
    (runOps { NewFormatter with indentLevel := 3, indent := "\t", lineStart := false }
        ([FmtOp.Indent, .WriteString "a", .NewLine, .Break, .WriteByte 'b', .Dedent].filter
          fun o => !o.isLayout)).builder
      = (runOps NewFormatter
          [.Indent, .WriteString "a", .NewLine, .Break, .WriteByte 'b', .Dedent]).builder :=
  ⟨(compact_no_layout [.Indent, .WriteString "a", .NewLine, .Break, .WriteByte 'b', .Dedent]
      NewFormatter rfl).1,
   (compact_no_layout [.Indent, .WriteString "a", .NewLine, .Break, .WriteByte 'b', .Dedent]
      NewFormatter rfl).2
      { NewFormatter with indentLevel := 3, indent := "\t", lineStart := false } rfl rfl⟩

/-! ## ALTER TABLE -/

theorem writeClause_compact (f : Formatter) (x : Option Expr)
    (h : f.mode ≠ FormatModeBeautify) :
    (writeClause f x).mode = f.mode ∧
      (writeClause f x).builder = f.builder ++ (optionalPart " " x).data := by
  cases x with
  | none => exact ⟨rfl, by simp [writeClause, optionalPart]⟩
  | some x =>
      have hb : f.Break = f.WriteByte whitespace := by simp [Formatter.Break, h]
      have hw : (f.WriteByte whitespace).mode ≠ FormatModeBeautify := by simpa using h
      refine ⟨?_, ?_⟩
      · show (x.FormatSQL f.Break).mode = _
        rw [FormatSQL_mode, hb]; simp
      · show (x.FormatSQL f.Break).builder = _
        rw [hb, FormatSQL_compact x _ hw, WriteByte_compact f _ h]
        simp [optionalPart, Format, WriteExpr, Formatter.String, whitespace]

theorem writeAlterExprs_compact (xs : List Expr) (f : Formatter)
    (h : f.mode ≠ FormatModeBeautify) :
    (writeAlterExprs f xs).builder = f.builder ++ (alterClauseList xs).data := by
  induction xs generalizing f with
  | nil => simp [writeAlterExprs_nil, alterClauseList]
  | cons x xs ih =>
      have hb : f.Break = f.WriteByte whitespace := by simp [Formatter.Break, h]
      have hw : (f.WriteByte whitespace).mode ≠ FormatModeBeautify := by simpa using h
      have hx : (x.FormatSQL (f.WriteByte whitespace)).mode ≠ FormatModeBeautify := by
        rw [FormatSQL_mode]; exact hw
      rw [writeAlterExprs_cons, hb]
      by_cases he : xs.isEmpty = true
      · rw [if_pos he, ih _ hx, FormatSQL_compact x _ hw, WriteByte_compact f _ h]
        simp [alterClauseList, he, Format, WriteExpr, Formatter.String, whitespace]
      · rw [if_neg he, ih _ (by simpa using hx), WriteString_compact _ _ hx,
          FormatSQL_compact x _ hw, WriteByte_compact f _ h]
        simp [alterClauseList, he, Format, WriteExpr, Formatter.String, whitespace]

set_option maxRecDepth 8000 in
/-- C25. `ALTER TABLE` re-emits its clauses in order: the Compact rendering of every
`AlterTable` is `ALTER TABLE `, the table, a space and the `ON CLUSTER` clause if present,
then every clause of the list, in list order, after a space, with a comma after every
clause but the last; and the tree of
`ALTER TABLE t ADD COLUMN x UInt8 AFTER y, DROP COLUMN z` renders as exactly that text. -/
theorem alter_table_rendering (p q : Pos) (table : Expr) (cluster : Option Expr)
    (clauses : List Expr) :
    Format (some (.AlterTable p q table cluster clauses))
      = "ALTER TABLE " ++ Format (some table) ++ optionalPart " " cluster
          ++ alterClauseList clauses ∧
    Format (some alterExample) = "ALTER TABLE t ADD COLUMN x UInt8 AFTER y, DROP COLUMN z" := by
  refine ⟨?_, by decide⟩
  have h0 : (NewFormatter.WriteString "ALTER TABLE ").mode ≠ FormatModeBeautify := by
    simpa using compact_ne_beautify
  have h1 : (table.FormatSQL (NewFormatter.WriteString "ALTER TABLE ")).mode
      ≠ FormatModeBeautify := by rw [FormatSQL_mode]; exact h0
  obtain ⟨m2, b2⟩ := writeClause_compact _ cluster h1
  have h2 := h1
  rw [← m2] at h2
  show (Expr.FormatSQL _ NewFormatter).String = _
  rw [FormatSQL_AlterTable]
  apply String.ext
  simp only [Formatter.String, writeAlterExprs_compact _ _ h2, b2, FormatSQL_compact table _ h0,
    WriteString_compact NewFormatter _ compact_ne_beautify, String.data_append, Format,
    WriteExpr,
    List.append_assoc]
  simp [NewFormatter]

/-! ## Spans and optional parts of particular nodes -/

set_option maxRecDepth 8000 in
/-- C30, as stated, fails: `End()` of an `AlterTableDropPartition` is `End()` of its
partition clause also when `Settings` is present; in
`DROP PARTITION 202401 SETTINGS mutations_sync=2` the settings clause ends at 47 and the
node ends at 21, whereas an `AlterTableAddColumn` with the same settings clause ends at
47. -/
theorem drop_partition_end_ignores_settings :
    (∀ (p : Pos) (detached : Bool) (partition settings : Expr) (e : Pos),
      Expr.End settings = some e →
      Expr.End (.AlterTableDropPartition p detached partition (some settings))
        = Expr.End partition) ∧
    Format (some dropPartitionExample) = "DROP PARTITION 202401 SETTINGS mutations_sync=2" ∧
    Expr.End partitionExample = some 21 ∧
    Expr.Pos settingsExample = some 22 ∧
    Expr.End settingsExample = some 47 ∧
    Expr.End dropPartitionExample = some 21 ∧
    Expr.End (.AlterTableAddColumn 0 21
      (.ColumnDef 11 18 (columnName "x" 11) (some (typeUInt8 13)) none none none none none none
        none none none)
      false none (some settingsExample)) = some 47 := by
  refine ⟨?_, by decide, by decide, by decide, by decide, by decide, by decide⟩
  intro p detached partition settings e he
  show (if (some settings).isSome then
      match endOf (some settings) with
      | some _ => Expr.End partition
      | none => none
    else Expr.End partition) = _
  have : endOf (some settings) = some e := he
  simp [this]

/-- C26, as stated, fails: a `DictionaryRangeClause` whose `Min` is absent renders the
keyword `MIN ` all the same, and a `DictionaryLifetimeClause` with no `Value`, no `Min` and
no `Max` renders the empty body `LIFETIME()`. -/
theorem absent_parts_leave_traces :
    Format (some rangeWithoutMin) = "RANGE(MIN  MAX hi)" ∧
    Format (some lifetimeWithoutBounds) = "LIFETIME()" ∧
    (∀ (p q : Pos) (mx : Option Ident) (f : Formatter),
      Expr.FormatSQL (.DictionaryRangeClause p none mx q) f
        = (match mx with
           | some m => m.FormatSQL (((f.WriteString "RANGE(").WriteString "MIN ").WriteString
               " MAX ")
           | none => (f.WriteString "RANGE(").WriteString "MIN ").WriteString ")") := by
  refine ⟨by decide, by decide, ?_⟩
  intro p q mx f
  cases mx <;> rfl

/-! ## Canonical type names -/

theorem Ident_FormatSQL_unquoted (n : Ident) (f : Formatter)
    (h1 : n.QuoteType ≠ BackTicks) (h2 : n.QuoteType ≠ DoubleQuote)
    (h3 : n.QuoteType ≠ SingleQuote) : n.FormatSQL f = f.WriteString n.Name := by
  simp [Ident.FormatSQL, h1, h2, h3]

theorem compact_appends {T : Formatter → Formatter} (hT : CompactUniform T) (f : Formatter)
    (hf : f.mode ≠ FormatModeBeautify) : ∃ t : List Char, (T f).builder = f.builder ++ t := by
  obtain ⟨_, _, t, ht, _⟩ := hT f f hf hf
  exact ⟨t, ht⟩

theorem starts_with_name {T : Formatter → Formatter} (hT : CompactUniform T) (n : Ident)
    (h1 : n.QuoteType ≠ BackTicks) (h2 : n.QuoteType ≠ DoubleQuote)
    (h3 : n.QuoteType ≠ SingleQuote) :
    ∃ rest : String, (T (n.FormatSQL NewFormatter)).String = n.Name ++ rest := by
  have hm : (NewFormatter.WriteString n.Name).mode ≠ FormatModeBeautify := by
    simpa using compact_ne_beautify
  obtain ⟨t, ht⟩ := compact_appends hT (NewFormatter.WriteString n.Name) hm
  refine ⟨String.mk t, ?_⟩
  rw [Ident_FormatSQL_unquoted n _ h1 h2 h3]
  have hw : (NewFormatter.WriteString n.Name).builder = n.Name.data := by
    rw [WriteString_compact NewFormatter _ compact_ne_beautify]
    rfl
  apply String.ext
  rw [Formatter.String, ht, hw]
  simp

/-- C27. Canonical type name: for every column-type node with identifier `n`, `Type()`
returns the name of `n`; and when `n` carries none of the three quote tags, the Compact
rendering of the node starts with that name. -/
theorem canonical_type_name (e : Expr) (n : Ident) (h : e.typeIdentifier = some n) :
    e.Type = some n.Name ∧
    (n.QuoteType ≠ BackTicks → n.QuoteType ≠ DoubleQuote → n.QuoteType ≠ SingleQuote →
      ∃ rest : String, Format (some e) = n.Name ++ rest) := by
  have hC := CompactUniform_closed
  cases e <;> simp only [Expr.typeIdentifier, Option.some.injEq, reduceCtorEq] at h
  all_goals subst h
  all_goals refine ⟨rfl, fun h1 h2 h3 => ?_⟩
  case ScalarType => exact starts_with_name hC.skip _ h1 h2 h3
  case PropertyType => exact starts_with_name hC.skip _ h1 h2 h3
  case TypeWithParams p q ps =>
    exact starts_with_name
      (hC.seq (hC.seq (hC.writeByte '(') (writeCommaSeparated_closed hC ps 0))
        (hC.writeByte ')') :) _ h1 h2 h3
  case ComplexType p q ps =>
    exact starts_with_name
      (hC.seq (hC.seq (hC.writeByte '(') (writeCommaSeparated_closed hC ps 0))
        (hC.writeByte ')') :) _ h1 h2 h3
  case NestedType p q cs =>
    exact starts_with_name
      (hC.seq (hC.seq (hC.writeByte '(') (writeCommaTerminated_closed hC cs))
        (hC.writeByte ')') :) _ h1 h2 h3
  case EnumType p q vs =>
    exact starts_with_name
      (hC.seq (hC.seq (hC.writeByte '(') (writeCommaSeparated_closed hC vs 0))
        (hC.writeByte ')') :) _ h1 h2 h3
  case JSONType o => exact starts_with_name (writeJSONOptions_closed hC o) _ h1 h2 h3

/-- Witness of C27: the type `FixedString(8)`, whose identifier is unquoted. -/
theorem canonical_type_name_witness :
    typeFixedString.Type = some "FixedString" ∧
    ∃ rest : String, Format (some typeFixedString) = "FixedString" ++ rest :=
  ⟨(canonical_type_name typeFixedString (unquotedIdent "FixedString" 0) rfl).1,
   (canonical_type_name typeFixedString (unquotedIdent "FixedString" 0) rfl).2
     (by decide) (by decide) (by decide)⟩

/-! ## The indent unit is a parameter of the Beautify output -/

theorem fillIndent_append (u : String) (a b : List (Option Char)) :
    fillIndent u (a ++ b) = fillIndent u a ++ fillIndent u b := by
  induction a with
  | nil => rfl
  | cons x a ih => cases x <;> simp [fillIndent, ih]

theorem fillIndent_replicate (u : String) (n : Nat) :
    fillIndent u (List.replicate n none) = indentation u n := by
  induction n with
  | zero => rfl
  | succ n ih => simp [List.replicate_succ, fillIndent, ih, indentation]

theorem IndentUniform_WriteByte (c : Char) : IndentUniform (fun f => f.WriteByte c) := by
  intro m k ls
  by_cases hm : m = FormatModeBeautify
  · by_cases hc : c = newline
    · exact ⟨[some newline], k, true, fun b u => by
        simp [Formatter.WriteByte, hm, hc, fillIndent]⟩
    · cases ls with
      | false =>
          exact ⟨[some c], k, false, fun b u => by
            simp [Formatter.WriteByte, Formatter.writeIndentIfNeeded, hm, hc, fillIndent]⟩
      | true =>
          exact ⟨List.replicate k.toNat none ++ [some c], k, false, fun b u => by
            simp [Formatter.WriteByte, Formatter.writeIndentIfNeeded, hm, hc, fillIndent,
              fillIndent_append, fillIndent_replicate, writeIndentLoop_eq]⟩
  · exact ⟨[some c], k, ls, fun b u => by simp [Formatter.WriteByte, hm, fillIndent]⟩

theorem IndentUniform_skip : IndentUniform (fun f => f) :=
  fun m k ls => ⟨[], k, ls, fun b u => by simp [fillIndent]⟩

theorem IndentUniform_seq {T₁ T₂ : Formatter → Formatter} (h₁ : IndentUniform T₁)
    (h₂ : IndentUniform T₂) : IndentUniform (fun f => T₂ (T₁ f)) := by
  intro m k ls
  obtain ⟨s₁, k₁, l₁, e₁⟩ := h₁ m k ls
  obtain ⟨s₂, k₂, l₂, e₂⟩ := h₂ m k₁ l₁
  exact ⟨s₁ ++ s₂, k₂, l₂, fun b u => by
    simp only [e₁, e₂, fillIndent_append, List.append_assoc]⟩

theorem IndentUniform_writeBytes (bs : List Char) :
    IndentUniform (fun f => f.writeBytes bs) := by
  induction bs with
  | nil => exact IndentUniform_skip
  | cons c bs ih => exact IndentUniform_seq (IndentUniform_WriteByte c) ih

theorem IndentUniform_NewLine : IndentUniform (fun f => f.NewLine) := by
  intro m k ls
  by_cases hm : m = FormatModeBeautify
  · obtain ⟨s, k', l', e⟩ := IndentUniform_WriteByte newline m k ls
    exact ⟨s, k', l', fun b u => by
      have := e b u
      simpa [Formatter.NewLine, hm] using this⟩
  · exact ⟨[], k, ls, fun b u => by simp [Formatter.NewLine, hm, fillIndent]⟩

theorem IndentUniform_Break : IndentUniform (fun f => f.Break) := by
  intro m k ls
  by_cases hm : m = FormatModeBeautify
  · obtain ⟨s, k', l', e⟩ := IndentUniform_NewLine m k ls
    exact ⟨s, k', l', fun b u => by
      have := e b u
      simpa [Formatter.Break, hm] using this⟩
  · obtain ⟨s, k', l', e⟩ := IndentUniform_WriteByte whitespace m k ls
    exact ⟨s, k', l', fun b u => by
      have := e b u
      simpa [Formatter.Break, hm] using this⟩

theorem IndentUniform_closed : RenderClosed IndentUniform where
  skip := IndentUniform_skip
  seq := IndentUniform_seq
  writeByte := IndentUniform_WriteByte
  writeString := fun s => IndentUniform_writeBytes s.data
  newLine := IndentUniform_NewLine
  brk := IndentUniform_Break
  indented := by
    intro T h m k ls
    obtain ⟨s, k', l', e⟩ := h m (k + 1) ls
    by_cases hk : k' > 0
    · exact ⟨s, k' - 1, l', fun b u => by
        simp [Formatter.Indent, Formatter.Dedent, e, hk]⟩
    · exact ⟨s, k', l', fun b u => by
        simp [Formatter.Indent, Formatter.Dedent, e, hk]⟩
  onMode := by
    intro c T₁ T₂ h₁ h₂ m k ls
    by_cases hc : c = true ∧ m = FormatModeBeautify
    · obtain ⟨hc1, hm⟩ := hc
      subst hm
      obtain ⟨s, k', l', e⟩ := h₁ FormatModeBeautify k ls
      exact ⟨s, k', l', fun b u => by simp [hc1, e]⟩
    · obtain ⟨s, k', l', e⟩ := h₂ m k ls
      exact ⟨s, k', l', fun b u => by
        have hc2 : ¬ (c = true ∧ m = FormatModeBeautify) := hc
        simp only [hc2, if_false, e]⟩

theorem fillIndent_empty_mem (z : Char) (sk : List (Option Char))
    (h : z ∉ fillIndent "" sk) : ∀ c : Char, some c ∈ sk → c ≠ z := by
  induction sk with
  | nil => intro c hc; simp at hc
  | cons x sk ih =>
      cases x with
      | none =>
          have h2 : z ∉ fillIndent "" sk := by simpa [fillIndent] using h
          intro c hc
          exact ih h2 c (by simpa using hc)
      | some d =>
          have h2 : z ≠ d ∧ z ∉ fillIndent "" sk := by simpa [fillIndent] using h
          intro c hc
          rcases List.mem_cons.1 hc with h3 | h3
          · have : c = d := by simpa using h3
            rw [this]; exact fun h4 => h2.1 h4.symm
          · exact ih h2.2 c h3

theorem openIndent_fillIndent (z : Char) (sk : List (Option Char))
    (h : ∀ c : Char, some c ∈ sk → c ≠ z) :
    openIndent z (fillIndent (String.mk [z]) sk) = sk := by
  induction sk with
  | nil => rfl
  | cons x sk ih =>
      have ih2 := ih (fun c hc => h c (List.mem_cons_of_mem _ hc))
      cases x with
      | none =>
          have e : openIndent z (fillIndent (String.mk [z]) (none :: sk))
              = none :: openIndent z (fillIndent (String.mk [z]) sk) := by
            simp [openIndent, fillIndent]
          rw [e, ih2]
      | some d =>
          have hd : d ≠ z := h d (List.mem_cons_self _ _)
          have e : openIndent z (fillIndent (String.mk [z]) (some d :: sk))
              = some d :: openIndent z (fillIndent (String.mk [z]) sk) := by
            simp [openIndent, fillIndent, hd]
          rw [e, ih2]

/-- The Beautify output is the same for every indent unit, up to the unit itself: the
output for the unit `u` is the output for a one-byte unit `z` that does not occur in the
rendered text, with every `z` replaced by `u`. -/
theorem beautify_indent_parametric (e : Option Expr) (z : Char) (u : String)
    (hz : z ∉ (beautify "" e).data) :
    (beautify u e).data = fillIndent u (openIndent z (beautify (String.mk [z]) e).data) := by
  obtain ⟨sk, k', l', h⟩ :=
    WriteExpr_closed IndentUniform_closed e FormatModeBeautify 0 true
  have hb : ∀ v : String, (beautify v e).data = fillIndent v sk := by
    intro v
    have := h [] v
    have e2 : NewFormatter.WithBeautify.WithIndent v
        = { builder := [], mode := FormatModeBeautify, indentLevel := 0, lineStart := true,
            indent := v } := rfl
    simp only [beautify, e2, this, Formatter.String, List.nil_append]
  rw [hb u, hb (String.mk [z])]
  rw [hb ""] at hz
  rw [openIndent_fillIndent z sk (fillIndent_empty_mem z sk hz)]

theorem fillIndent_map_some (u : String) (bs : List Char) :
    fillIndent u (bs.map some) = bs := by
  induction bs with
  | nil => rfl
  | cons b bs ih => simp [fillIndent, ih]

set_option maxRecDepth 16000 in
theorem customIndentTree_beautify (u : String) :
    beautify u (some customIndentTree)
      = "SELECT\n" ++ u ++ "col1,\n" ++ u ++ "col2\nFROM\n" ++ u ++ "table1\nWHERE\n" ++ u
          ++ "col1 > 10" := by
  have hz : '\t' ∉ (beautify "" (some customIndentTree)).data := by decide
  have hsk : openIndent '\t' (beautify (String.mk ['\t']) (some customIndentTree)).data
      = ("SELECT\n".data.map some ++ [none] ++ "col1,\n".data.map some ++ [none]
          ++ "col2\nFROM\n".data.map some ++ [none] ++ "table1\nWHERE\n".data.map some
          ++ [none] ++ "col1 > 10".data.map some) := by decide
  apply String.ext
  rw [beautify_indent_parametric _ '\t' u hz, hsk]
  simp only [fillIndent_append, fillIndent_map_some, String.data_append]
  simp [fillIndent]

/-- C23. Custom indentation: for every indent unit `u`, the Beautify rendering of the tree
of `SELECT col1, col2 FROM table1 WHERE col1 > 10` with the unit `u` is `SELECT`, a
newline, `u`, `col1,`, a newline, `u`, `col2`, a newline, `FROM`, a newline, `u`,
`table1`, a newline, `WHERE`, a newline, `u`, `col1 > 10`; it contains `SELECT` and
`FROM`; and the outputs for two spaces, four spaces and one tab are pairwise different. -/
theorem custom_indentation (u : String) :
    beautify u (some customIndentTree)
      = "SELECT\n" ++ u ++ "col1,\n" ++ u ++ "col2\nFROM\n" ++ u ++ "table1\nWHERE\n" ++ u
          ++ "col1 > 10" ∧
    (∃ pre post : String, beautify u (some customIndentTree) = pre ++ "SELECT" ++ post) ∧
    (∃ pre post : String, beautify u (some customIndentTree) = pre ++ "FROM" ++ post) ∧
    beautify "  " (some customIndentTree) ≠ beautify "    " (some customIndentTree) ∧
    beautify "  " (some customIndentTree) ≠ beautify "\t" (some customIndentTree) ∧
    beautify "    " (some customIndentTree) ≠ beautify "\t" (some customIndentTree) := by
  have h := customIndentTree_beautify u
  have e1 : ("SELECT\n" : String) = "SELECT" ++ "\n" := by decide
  have e2 : ("col2\nFROM\n" : String) = "col2\n" ++ "FROM" ++ "\n" := by decide
  refine ⟨h, ⟨"", "\n" ++ u ++ "col1,\n" ++ u ++ "col2\nFROM\n" ++ u ++ "table1\nWHERE\n"
      ++ u ++ "col1 > 10", ?_⟩,
    ⟨"SELECT\n" ++ u ++ "col1,\n" ++ u ++ "col2\n",
      "\n" ++ u ++ "table1\nWHERE\n" ++ u ++ "col1 > 10", ?_⟩, ?_, ?_, ?_⟩
  · rw [h, e1]
    simp only [String.append_assoc, String.empty_append]
  · rw [h, e2]
    simp only [String.append_assoc]
  · rw [customIndentTree_beautify, customIndentTree_beautify]; decide
  · rw [customIndentTree_beautify, customIndentTree_beautify]; decide
  · rw [customIndentTree_beautify, customIndentTree_beautify]; decide

/-! ## Induction over the rendering functions, the mode test apart -/

section
variable {P : (Formatter → Formatter) → Prop} (hP : LayoutClosed P)
include hP

theorem Ident_FormatSQL_layout (i : Ident) : P (fun f => i.FormatSQL f) := by
  unfold Ident.FormatSQL
  split
  · exact hP.seq (hP.seq (hP.writeByte _) (hP.writeString _)) (hP.writeByte _)
  · split
    · exact hP.seq (hP.seq (hP.writeByte _) (hP.writeString _)) (hP.writeByte _)
    · split
      · exact hP.seq (hP.seq (hP.writeByte _) (hP.writeString _)) (hP.writeByte _)
      · exact hP.writeString _

theorem writeOperator_layout (op : TokenKind) (g n : Bool) :
    P (fun f => BinaryOperation.writeOperator f op g n) := by
  cases n <;> cases g
  · exact hP.seq hP.skip (hP.writeString op)
  · exact hP.seq (hP.writeString "GLOBAL ") (hP.writeString op)
  · exact hP.seq (hP.writeString "NOT ") (hP.writeString op)
  · exact hP.seq (hP.writeString "NOT ") (hP.writeString op)

theorem writeJSONPathIdents_layout :
    ∀ (xs : List Ident) (i : Nat), P (fun f => writeJSONPathIdents f i xs)
  | [], _ => hP.skip
  | x :: xs, i =>
      (hP.seq (hP.seq (ite_closed (i > 0) (hP.writeByte '.') hP.skip)
        (Ident_FormatSQL_layout hP x)) (writeJSONPathIdents_layout xs (i + 1)) :)

theorem JSONPath_FormatSQL_layout (j : JSONPath) : P (fun f => j.FormatSQL f) :=
  writeJSONPathIdents_layout hP j.Idents 0

theorem writeKeywords_layout :
    ∀ (ks : List String) (i : Nat), P (fun f => writeKeywords f i ks)
  | [], _ => hP.skip
  | k :: ks, i =>
      (hP.seq (hP.seq (ite_closed (i > 0) (hP.writeByte whitespace) hP.skip)
        (hP.writeString k)) (writeKeywords_layout ks (i + 1)) :)

theorem writeRoles_layout : ∀ (rs : List Ident) (i : Nat), P (fun f => writeRoles f i rs)
  | [], _ => hP.skip
  | r :: rs, i =>
      (hP.seq (hP.seq (ite_closed (i > 0) (hP.writeString ", ") hP.skip)
        (Ident_FormatSQL_layout hP r)) (writeRoles_layout rs (i + 1)) :)

theorem writeGrantOptions_layout : ∀ os : List String, P (fun f => writeGrantOptions f os)
  | [] => hP.skip
  | o :: os => (hP.seq (hP.writeString (" WITH " ++ o ++ " OPTION")) (writeGrantOptions_layout os) :)

theorem writeRangeBounds_layout :
    ∀ mn mx : Option Ident, P (fun f => writeRangeBounds f mn mx)
  | none, none => (hP.seq (hP.writeString "MIN ") hP.skip :)
  | some m, none => (hP.seq (hP.writeString "MIN ") (Ident_FormatSQL_layout hP m) :)
  | none, some x =>
      (hP.seq (hP.seq (hP.writeString "MIN ") (hP.writeString " MAX "))
        (Ident_FormatSQL_layout hP x) :)
  | some m, some x =>
      (hP.seq (hP.seq (hP.seq (hP.writeString "MIN ") (Ident_FormatSQL_layout hP m))
        (hP.writeString " MAX ")) (Ident_FormatSQL_layout hP x) :)

set_option linter.unusedSectionVars false in
set_option maxHeartbeats 8000000 in
mutual

theorem FormatSQL_layout : ∀ e : Expr, P (fun f => e.FormatSQL f)
  | .Ident i => Ident_FormatSQL_layout hP i
  | .NumberLiteral _ _ s _ => hP.writeString s
  | .StringLiteral _ _ s =>
      (hP.seq (hP.seq (hP.writeByte singleQuoteByte) (hP.writeString s))
        (hP.writeByte singleQuoteByte) :)
  | .NestedIdentifier i none => Ident_FormatSQL_layout hP i
  | .NestedIdentifier i (some d) =>
      (hP.seq (hP.seq (Ident_FormatSQL_layout hP i) (hP.writeByte '.'))
        (Ident_FormatSQL_layout hP d) :)
  | .TableIdentifier none t => Ident_FormatSQL_layout hP t
  | .TableIdentifier (some d) t =>
      (hP.seq (hP.seq (Ident_FormatSQL_layout hP d) (hP.writeByte '.'))
        (Ident_FormatSQL_layout hP t) :)
  | .BinaryOperation l op r g n =>
      hP.binary l r op g n (WriteExpr_layout l) (WriteExpr_layout r)
  | .NotExpr _ e =>
      (hP.seq (hP.seq (hP.writeString "NOT") (hP.writeByte whitespace)) (WriteExpr_layout e) :)
  | .AliasExpr e _ a =>
      (hP.seq (hP.seq
        (ite_closed (isSelectQuery e = true)
          (hP.seq (hP.seq (hP.writeByte '(') (WriteExpr_layout e)) (hP.writeByte ')'))
          (WriteExpr_layout e))
        (hP.writeString " AS ")) (WriteExpr_layout a) :)
  | .ColumnExpr e none => WriteExpr_layout e
  | .ColumnExpr e (some a) =>
      (hP.seq (hP.seq (WriteExpr_layout e) (hP.writeString " AS "))
        (Ident_FormatSQL_layout hP a) :)
  | .SelectItem e ms none => (hP.seq (WriteExpr_layout e) (writeModifiers_layout ms) :)
  | .SelectItem e ms (some a) =>
      (hP.seq (hP.seq (hP.seq (WriteExpr_layout e) (writeModifiers_layout ms))
        (hP.writeString " AS ")) (Ident_FormatSQL_layout hP a) :)
  | .TableExpr _ _ a e fin =>
      (hP.seq (hP.seq (WriteExpr_layout e) (writeSpaced_layout a))
        (ite_closed (fin = true) (hP.writeString " FINAL") hP.skip) :)
  | .JoinTableExpr t _ s fin =>
      (hP.seq (hP.seq (FormatSQL_layout t) (writeSpaced_layout s))
        (ite_closed (fin = true) (hP.writeString " FINAL") hP.skip) :)
  | .JoinExpr _ l r _ _ => (hP.seq (WriteExpr_layout l) (writeJoinSQL_layout r) :)
  | .FromClause _ e =>
      (hP.seq (hP.writeString "FROM") (hP.indented (hP.seq hP.brk (WriteExpr_layout e))) :)
  | .WhereClause _ e =>
      (hP.seq (hP.writeString "WHERE")
        (ite_closed (isLogicalBinaryOp e = true) (hP.seq hP.brk (WriteExpr_layout e))
          (hP.indented (hP.seq hP.brk (WriteExpr_layout e)))) :)
  | .PrewhereClause _ e => (hP.seq (hP.writeString "PREWHERE ") (WriteExpr_layout e) :)
  | .HavingClause _ e => (hP.seq (hP.writeString "HAVING ") (WriteExpr_layout e) :)
  | .SelectQuery _ _ w t hd d si fr wi pw wh gb _ hv ob lb li se fo ua ud ex =>
      (hP.seq (hP.seq (hP.seq (hP.seq (hP.seq (hP.seq (hP.seq (hP.seq (hP.seq (hP.seq (hP.seq
        (hP.seq (hP.seq (hP.seq (hP.seq (hP.seq
          (writeWith_layout w)
          (hP.writeString "SELECT"))
          (ite_closed (hd = true)
            (hP.seq (hP.writeString " DISTINCT") (writeSpaced_layout d)) hP.skip))
          (writeSpaced_layout t))
          (hP.indented (writeBreakSeparated_layout si 0)))
          (writeClause_layout fr)) (writeClause_layout wi)) (writeClause_layout pw))
          (writeClause_layout wh)) (writeClause_layout gb)) (writeClause_layout hv))
          (writeClause_layout ob)) (writeClause_layout lb)) (writeClause_layout li))
          (writeClause_layout se)) (writeClause_layout fo))
          (ite_closed (ua.isSome = true) (writeSetOperation_layout "UNION ALL" ua)
            (ite_closed (ud.isSome = true) (writeSetOperation_layout "UNION DISTINCT" ud)
              (writeSetOperation_layout "EXCEPT" ex))) :)
  | .WithClause _ _ CTEs =>
      (hP.seq (hP.writeString "WITH ") (writeCommaSeparated_layout CTEs 0) :)
  | .TernaryOperation c t e =>
      (hP.seq (hP.seq (hP.seq (hP.seq (WriteExpr_layout c) (hP.writeString " ? "))
        (WriteExpr_layout t)) (hP.writeString " : ")) (WriteExpr_layout e) :)
  | .NullLiteral _ => hP.writeString "NULL"
  | .NotNullLiteral _ _ => hP.writeString "NOT NULL"
  | .ColumnDef _ _ name ty notNull nullable dflt mat als codec ttl comment _ =>
      (hP.seq (hP.seq (hP.seq (hP.seq (hP.seq (hP.seq (hP.seq (hP.seq
        (FormatSQL_layout name) (writeSpaced_layout ty))
        (ite_closed (notNull.isSome = true) (hP.writeString " NOT NULL")
          (ite_closed (nullable.isSome = true) (hP.writeString " NULL") hP.skip)))
        (writeIntroduced_layout " DEFAULT " dflt))
        (writeIntroduced_layout " MATERIALIZED " mat))
        (writeIntroduced_layout " ALIAS " als))
        (writeSpaced_layout codec)) (writeSpaced_layout ttl))
        (writeIntroduced_layout " COMMENT " comment) :)
  | .CreateDatabase _ _ name ine cluster engine comment =>
      (hP.seq (hP.seq (hP.seq (hP.seq (hP.seq
        (hP.writeString "CREATE DATABASE ")
        (ite_closed (ine = true) (hP.writeString "IF NOT EXISTS ") hP.skip))
        (WriteExpr_layout name)) (writeSpaced_layout cluster)) (writeClause_layout engine))
        (writeIntroduced_layout " COMMENT " comment) :)
  | .AlterTable _ _ t cluster clauses =>
      (hP.seq (hP.seq (hP.seq (hP.writeString "ALTER TABLE ") (FormatSQL_layout t))
        (writeClause_layout cluster)) (writeAlterExprs_layout clauses) :)
  | .AlterTableDropPartition _ detached partition settings =>
      (hP.seq (hP.seq (hP.seq (hP.writeString "DROP ")
        (ite_closed (detached = true) (hP.writeString "DETACHED ") hP.skip))
        (FormatSQL_layout partition)) (writeClause_layout settings) :)
  | .TTLPolicyRuleAction _ _ action codec =>
      (hP.seq (hP.writeString action) (writeSpaced_layout codec) :)
  | .TTLPolicyRule _ vol disk action =>
      ite_closed (vol.isSome = true) (writeIntroduced_layout "TO VOLUME " vol)
        (ite_closed (disk.isSome = true) (writeIntroduced_layout "TO DISK " disk)
          (WriteExpr_layout action))
  | .TTLPolicy item wh gb =>
      (hP.seq (hP.seq (WriteExpr_layout item) (writeSpaced_layout wh))
        (writeSpaced_layout gb) :)
  | .TTLExpr _ e pol => (hP.seq (WriteExpr_layout e) (writeSpaced_layout pol) :)
  | .RatioExpr n d => (hP.seq (FormatSQL_layout n) (writeIntroduced_layout "/" d) :)
  | .SampleClause _ r o =>
      (hP.seq (hP.seq (hP.writeString "SAMPLE ") (FormatSQL_layout r))
        (writeIntroduced_layout " OFFSET " o) :)
  | .ScalarType n => Ident_FormatSQL_layout hP n
  | .PropertyType n => Ident_FormatSQL_layout hP n
  | .TypeWithParams _ _ n ps =>
      (hP.seq (hP.seq (hP.seq (Ident_FormatSQL_layout hP n) (hP.writeByte '('))
        (writeCommaSeparated_layout ps 0)) (hP.writeByte ')') :)
  | .ComplexType _ _ n ps =>
      (hP.seq (hP.seq (hP.seq (Ident_FormatSQL_layout hP n) (hP.writeByte '('))
        (writeCommaSeparated_layout ps 0)) (hP.writeByte ')') :)
  | .NestedType _ _ n cs =>
      (hP.seq (hP.seq (hP.seq (Ident_FormatSQL_layout hP n) (hP.writeByte '('))
        (writeCommaTerminated_layout cs)) (hP.writeByte ')') :)
  | .EnumValue n v =>
      (hP.seq (hP.seq (FormatSQL_layout n) (hP.writeByte '=')) (FormatSQL_layout v) :)
  | .EnumType n _ _ vs =>
      (hP.seq (hP.seq (hP.seq (Ident_FormatSQL_layout hP n) (hP.writeByte '('))
        (writeCommaSeparated_layout vs 0)) (hP.writeByte ')') :)
  | .JSONType n o => (hP.seq (Ident_FormatSQL_layout hP n) (writeJSONOptions_layout o) :)
  | .AlterTableAddColumn _ _ c ine after settings =>
      (hP.seq (hP.seq (hP.seq (hP.seq (hP.writeString "ADD COLUMN ")
        (ite_closed (ine = true) (hP.writeString "IF NOT EXISTS ") hP.skip))
        (FormatSQL_layout c)) (writeIntroduced_layout " AFTER " after))
        (writeClause_layout settings) :)
  | .AlterTableDropColumn _ c ie =>
      (hP.seq (hP.seq (hP.writeString "DROP COLUMN ")
        (ite_closed (ie = true) (hP.writeString "IF EXISTS ") hP.skip))
        (FormatSQL_layout c) :)
  | .PartitionClause _ e id all =>
      (hP.seq (hP.writeString "PARTITION ")
        (ite_closed (id.isSome = true) (WriteExpr_layout id)
          (ite_closed (all = true) (hP.writeString "ALL") (WriteExpr_layout e))) :)
  | .SettingExpr _ n e =>
      (hP.seq (hP.seq (Ident_FormatSQL_layout hP n) (hP.writeByte '=')) (WriteExpr_layout e) :)
  | .SettingsClause _ _ items =>
      (hP.seq (hP.writeString "SETTINGS") (hP.indented (writeBreakSeparated_layout items 0)) :)
  | .DictionaryLifetimeClause _ mn mx v _ =>
      (hP.seq (hP.seq (hP.writeString "LIFETIME(")
        (ite_closed (v.isSome = true) (WriteExpr_layout v)
          (ite_closed (mn.isSome = true ∧ mx.isSome = true)
            (hP.seq (hP.seq (hP.seq (hP.writeString "MIN ") (WriteExpr_layout mn))
              (hP.writeString " MAX ")) (WriteExpr_layout mx))
            hP.skip)))
        (hP.writeString ")") :)
  | .DictionaryRangeClause _ mn mx _ =>
      (hP.seq (hP.seq (hP.writeString "RANGE(") (writeRangeBounds_layout hP mn mx))
        (hP.writeString ")") :)
  | .DictionaryAttribute _ n ty dflt e h i o =>
      (hP.seq (hP.seq (hP.seq (hP.seq (hP.seq (hP.seq (hP.seq
        (Ident_FormatSQL_layout hP n) (hP.writeByte whitespace)) (WriteExpr_layout ty))
        (writeIntroduced_layout " DEFAULT " dflt)) (writeIntroduced_layout " EXPRESSION " e))
        (ite_closed (h = true) (hP.writeString " HIERARCHICAL") hP.skip))
        (ite_closed (i = true) (hP.writeString " INJECTIVE") hP.skip))
        (ite_closed (o = true) (hP.writeString " IS_OBJECT_ID") hP.skip) :)
  | .WhenClause _ _ w th _ e =>
      (hP.seq (hP.seq (hP.seq (hP.seq (hP.writeString "WHEN ") (WriteExpr_layout w))
        (hP.writeString " THEN ")) (WriteExpr_layout th)) (writeIntroduced_layout " ELSE " e) :)
  | .CaseExpr _ _ e ws _ el =>
      (hP.seq (hP.seq (hP.seq (hP.seq (hP.writeString "CASE") (writeSpaced_layout e))
        (hP.indented (hP.seq (writeWhens_layout ws)
          (ite_closed (el.isSome = true)
            (hP.seq (hP.seq hP.brk (hP.writeString "ELSE ")) (WriteExpr_layout el)) hP.skip))))
        hP.brk) (hP.writeString "END") :)
  | .GroupByClause _ _ a e c r t =>
      (hP.seq (hP.writeString "GROUP BY")
        (hP.indented (hP.seq (hP.seq (hP.seq (hP.seq
          (ite_closed (a ≠ "") (hP.seq hP.brk (hP.writeString a)) hP.skip)
          (ite_closed (e.isSome = true)
            (hP.seq (ite_closed (a = "") hP.brk hP.skip) (WriteExpr_layout e)) hP.skip))
          (ite_closed (c = true) (hP.seq hP.brk (hP.writeString "WITH CUBE")) hP.skip))
          (ite_closed (r = true) (hP.seq hP.brk (hP.writeString "WITH ROLLUP")) hP.skip))
          (ite_closed (t = true) (hP.seq hP.brk (hP.writeString "WITH TOTALS")) hP.skip))) :)
  | .ClusterClause _ e => (hP.seq (hP.writeString "ON CLUSTER ") (WriteExpr_layout e) :)
  | .PrivilegeClause _ _ ks ps => (hP.seq (writeKeywords_layout hP ks 0) (WriteExpr_layout ps) :)
  | .GrantPrivilegeStmt _ _ cluster ps target roles ws =>
      (hP.seq (hP.seq (hP.seq (hP.seq (hP.seq (hP.seq (hP.seq
        (hP.writeString "GRANT ") (writeSpaced_layout cluster))
        (writeCommaSeparated_layout ps 0)) (hP.writeString " ON ")) (FormatSQL_layout target))
        (hP.writeString " TO ")) (writeRoles_layout hP roles 0)) (writeGrantOptions_layout hP ws) :)
  | .TableIndex _ n c ty g =>
      (hP.seq (hP.seq (hP.seq (hP.seq (hP.seq (hP.seq (hP.seq (hP.seq (hP.seq (hP.seq
        (hP.seq (hP.seq (hP.writeString "INDEX") (hP.writeByte whitespace))
        (FormatSQL_layout n))
        (ite_closed ((c.FormatSQL NewFormatter).String.length > 0
            ∧ (c.FormatSQL NewFormatter).String.data.head? ≠ some '(')
          (hP.writeByte whitespace) hP.skip))
        (hP.writeString (c.FormatSQL NewFormatter).String))
        (hP.writeByte whitespace)) (hP.writeString "TYPE")) (hP.writeByte whitespace))
        (WriteExpr_layout ty)) (hP.writeByte whitespace)) (hP.writeString "GRANULARITY"))
        (hP.writeByte whitespace)) (FormatSQL_layout g) :)
  | .AlterTableAddIndex _ _ index ine after =>
      (hP.seq (hP.seq (hP.seq (hP.writeString "ADD ") (FormatSQL_layout index))
        (ite_closed (ine = true) (hP.writeString "IF NOT EXISTS ") hP.skip))
        (writeIntroduced_layout " AFTER " after) :)
  | .AlterTableAddProjection _ _ ine proj after =>
      (hP.seq (hP.seq (hP.seq (hP.writeString "ADD PROJECTION ")
        (ite_closed (ine = true) (hP.writeString "IF NOT EXISTS ") hP.skip))
        (FormatSQL_layout proj)) (writeIntroduced_layout " AFTER " after) :)
  | .FormatClause _ n => (hP.seq (hP.writeString "FORMAT ") (Ident_FormatSQL_layout hP n) :)
  | .AssignmentValues _ _ vs =>
      (hP.seq (hP.seq (hP.writeByte '(') (writeCommaSeparated_layout vs 0)) (hP.writeByte ')') :)
  | .InsertStmt _ fmt tk table names vs sel =>
      (hP.seq (hP.seq (hP.seq (hP.seq (hP.seq
        (hP.writeString "INSERT INTO ")
        (ite_closed (tk = true) (hP.writeString "TABLE ") hP.skip))
        (WriteExpr_layout table))
        (ite_closed (names.isSome = true)
          (hP.seq hP.brk (hP.indented (WriteExpr_layout names))) hP.skip))
        (writeSpaced_layout fmt))
        (ite_closed (sel.isSome = true) (writeClause_layout sel)
          (ite_closed (vs.length > 0)
            (hP.seq (hP.seq hP.brk (hP.writeString "VALUES"))
              (hP.indented (writeInsertValues_layout vs)))
            hP.skip)) :)
  | .Node kind nodes children lists =>
      NodeKind_FormatSQL_closed (layoutClosed_base hP) kind ⟨nodes, children, lists⟩
        ⟨⟨formatItems_layout nodes, formatChildren_layout children,
            formatLists_layout lists⟩,
          formatPartsItems_layout nodes, formatPartsChildren_layout children,
          formatPartsLists_layout lists⟩
termination_by e => sizeOf e

theorem writeWhens_layout : ∀ xs : List Expr, P (fun f => writeWhens f xs)
  | [] => hP.skip
  | x :: xs => (hP.seq (hP.seq hP.brk (FormatSQL_layout x)) (writeWhens_layout xs) :)
termination_by xs => sizeOf xs

theorem writeInsertValues_layout : ∀ xs : List Expr, P (fun f => writeInsertValues f xs)
  | [] => hP.skip
  | x :: xs =>
      (hP.seq (hP.seq (hP.seq hP.brk (FormatSQL_layout x))
        (ite_closed (xs.isEmpty = true) hP.skip (hP.writeByte ',')))
        (writeInsertValues_layout xs) :)
termination_by xs => sizeOf xs

theorem writeCommaTerminated_layout :
    ∀ xs : List Expr, P (fun f => writeCommaTerminated f xs)
  | [] => hP.skip
  | x :: xs =>
      (hP.seq (hP.seq (FormatSQL_layout x)
        (ite_closed (xs.isEmpty = true) hP.skip (hP.writeString ", ")))
        (writeCommaTerminated_layout xs) :)
termination_by xs => sizeOf xs

theorem writeAssigned_layout (name : String) :
    ∀ e : Option Expr, P (fun f => writeAssigned f name e)
  | none => hP.skip
  | some x => (hP.seq (hP.seq (hP.writeString name) (hP.writeByte '=')) (FormatSQL_layout x) :)
termination_by e => sizeOf e

theorem writeJSONColumn_layout (wroteAny : Bool) :
    ∀ c : Option (JSONTypeHint Expr), P (fun f => writeJSONColumn f wroteAny c)
  | none => hP.skip
  | some ⟨none, _⟩ => hP.skip
  | some ⟨some _, none⟩ => hP.skip
  | some ⟨some path, some ty⟩ =>
      (hP.seq (hP.seq (hP.seq (ite_closed (wroteAny = true) (hP.writeByte whitespace) hP.skip)
        (JSONPath_FormatSQL_layout hP path)) (hP.writeByte whitespace))
        (FormatSQL_layout ty) :)
termination_by c => sizeOf c

theorem JSONOption_FormatSQL_layout :
    ∀ item : JSONOption Expr, P (fun f => JSONOption.FormatSQL item f)
  | ⟨none, sr, mp, mt, c⟩ =>
      (hP.seq (hP.seq (hP.seq (hP.seq hP.skip
        (writeIntroduced_layout " SKIP REGEXP " sr))
        (writeAssigned_layout "max_dynamic_paths" mp))
        (writeAssigned_layout "max_dynamic_types" mt))
        (writeJSONColumn_layout _ c) :)
  | ⟨some path, sr, mp, mt, c⟩ =>
      (hP.seq (hP.seq (hP.seq (hP.seq
        (hP.seq (hP.writeString "SKIP ") (JSONPath_FormatSQL_layout hP path))
        (writeIntroduced_layout " SKIP REGEXP " sr))
        (writeAssigned_layout "max_dynamic_paths" mp))
        (writeAssigned_layout "max_dynamic_types" mt))
        (writeJSONColumn_layout _ c) :)
termination_by item => sizeOf item

theorem writeJSONItems_layout :
    ∀ (items : List (JSONOption Expr)) (g : Nat) (w : Bool),
      P (fun f => writeJSONItems f g w items)
  | [], _, _ => hP.skip
  | item :: rest, g, w =>
      ite_closed (item.group = g)
        (hP.seq (hP.seq (ite_closed (w = true) (hP.writeString ", ") hP.skip)
          (JSONOption_FormatSQL_layout item)) (writeJSONItems_layout rest g true))
        (writeJSONItems_layout rest g w)
termination_by items _ _ => sizeOf items

theorem writeJSONOptions_layout :
    ∀ o : Option (JSONOptions Expr), P (fun f => writeJSONOptions f o)
  | none => hP.skip
  | some ⟨_, _, items⟩ =>
      (hP.seq (hP.seq (hP.seq (hP.seq (hP.writeByte '(')
        (writeJSONItems_layout items 0 false))
        (writeJSONItems_layout items 1 _))
        (writeJSONItems_layout items 2 _))
        (hP.writeByte ')') :)
termination_by o => sizeOf o

theorem writeWith_layout : ∀ w : Option Expr, P (fun f => writeWith f w)
  | none => hP.skip
  | some e => by
      cases e
      case WithClause p q CTEs =>
        exact (hP.seq (hP.seq (hP.writeString "WITH")
          (hP.indented (writeBreakSeparated_layout CTEs 0))) hP.brk :)
      all_goals exact hP.skip
termination_by w => sizeOf w

theorem writeCommaSeparated_layout :
    ∀ (xs : List Expr) (i : Nat), P (fun f => writeCommaSeparated f i xs)
  | [], _ => hP.skip
  | x :: xs, i =>
      (hP.seq (hP.seq (ite_closed (i > 0) (hP.writeString ", ") hP.skip)
        (FormatSQL_layout x)) (writeCommaSeparated_layout xs (i + 1)) :)
termination_by xs _ => sizeOf xs

theorem writeAlterExprs_layout : ∀ xs : List Expr, P (fun f => writeAlterExprs f xs)
  | [] => hP.skip
  | x :: xs =>
      (hP.seq (hP.seq (hP.seq hP.brk (FormatSQL_layout x))
        (ite_closed (xs.isEmpty = true) hP.skip (hP.writeString ",")))
        (writeAlterExprs_layout xs) :)
termination_by xs => sizeOf xs

theorem writeIntroduced_layout (keyword : String) :
    ∀ e : Option Expr, P (fun f => writeIntroduced f keyword e)
  | none => hP.skip
  | some x => (hP.seq (hP.writeString keyword) (FormatSQL_layout x) :)
termination_by e => sizeOf e

theorem writeSetOperation_layout (keyword : String) :
    ∀ e : Option Expr, P (fun f => writeSetOperation f keyword e)
  | none => hP.skip
  | some u =>
      (hP.seq (hP.seq (hP.seq hP.brk (hP.writeString keyword)) hP.brk) (FormatSQL_layout u) :)
termination_by e => sizeOf e

theorem WriteExpr_layout : ∀ e : Option Expr, P (fun f => WriteExpr f e)
  | none => hP.skip
  | some e => FormatSQL_layout e
termination_by e => sizeOf e

theorem writeModifiers_layout : ∀ ms : List Expr, P (fun f => writeModifiers f ms)
  | [] => hP.skip
  | m :: ms =>
      (hP.seq (hP.seq (hP.writeByte whitespace) (FormatSQL_layout m))
        (writeModifiers_layout ms) :)
termination_by ms => sizeOf ms

theorem writeBreakSeparated_layout :
    ∀ (xs : List Expr) (i : Nat), P (fun f => writeBreakSeparated f i xs)
  | [], _ => hP.skip
  | x :: xs, i =>
      (hP.seq (hP.seq (ite_closed (i = 0) hP.brk (hP.seq (hP.writeByte ',') hP.brk))
        (FormatSQL_layout x)) (writeBreakSeparated_layout xs (i + 1)) :)
termination_by xs _ => sizeOf xs

theorem writeSpaced_layout : ∀ e : Option Expr, P (fun f => writeSpaced f e)
  | none => hP.skip
  | some e => (hP.seq (hP.writeByte whitespace) (FormatSQL_layout e) :)
termination_by e => sizeOf e

theorem writeClause_layout : ∀ e : Option Expr, P (fun f => writeClause f e)
  | none => hP.skip
  | some e => (hP.seq hP.brk (FormatSQL_layout e) :)
termination_by e => sizeOf e

theorem writeJoinSQL_layout : ∀ e : Option Expr, P (fun f => writeJoinSQL f e)
  | none => hP.skip
  | some (.JoinExpr _ l r ms c) =>
      (hP.seq
        (ite_closed (ms.length = 0) (hP.seq (hP.writeByte ',') (WriteExpr_layout l))
          (hP.seq (hP.seq hP.brk (hP.writeString (" ".intercalate ms)))
            (hP.indented (hP.seq (hP.seq hP.brk (WriteExpr_layout l)) (writeSpaced_layout c)))))
        (writeJoinSQL_layout r) :)
  | some e => by
      cases e
      case JoinExpr p l r ms c =>
        exact (hP.seq
          (ite_closed (ms.length = 0) (hP.seq (hP.writeByte ',') (WriteExpr_layout l))
            (hP.seq (hP.seq hP.brk (hP.writeString (" ".intercalate ms)))
              (hP.indented
                (hP.seq (hP.seq hP.brk (WriteExpr_layout l)) (writeSpaced_layout c)))))
          (writeJoinSQL_layout r) :)
      all_goals exact (hP.seq (hP.writeByte ',') (FormatSQL_layout _) :)
termination_by e => sizeOf e

theorem formatItems_layout : ∀ xs : List Expr, ListClosed P (formatItems xs)
  | [] => fun _ h => by cases h
  | x :: rest => fun r h => by
      rcases List.mem_cons.mp h with h | h
      · rw [h]
        exact FormatSQL_layout x
      · exact formatItems_layout rest r h
termination_by xs => sizeOf xs

theorem formatChildren_layout :
    ∀ cs : List (Option Expr), ∀ c ∈ formatChildren cs, OptClosed P c
  | [] => fun _ h => by cases h
  | none :: rest => fun c h => by
      rcases List.mem_cons.mp h with h | h
      · rw [h]
        exact optClosed_none P
      · exact formatChildren_layout rest c h
  | some x :: rest => fun c h => by
      rcases List.mem_cons.mp h with h | h
      · rw [h]
        intro r hr
        cases hr
        exact FormatSQL_layout x
      · exact formatChildren_layout rest c h
termination_by cs => sizeOf cs

theorem formatLists_layout :
    ∀ ls : List (List Expr), ∀ l ∈ formatLists ls, ListClosed P l
  | [] => fun _ h => by cases h
  | xs :: rest => fun l h => by
      rcases List.mem_cons.mp h with h | h
      · rw [h]
        exact formatItems_layout xs
      · exact formatLists_layout rest l h
termination_by ls => sizeOf ls

theorem formatParts_layout (e : Expr) : PartsClosed P (formatParts e) := by
  cases e
  case Node kind nodes children lists =>
    exact ⟨formatItems_layout nodes, formatChildren_layout children,
      formatLists_layout lists⟩
  case SettingsClause p q Items =>
    exact ⟨listClosed_nil P, fun _ h => (by cases h), fun l hl => by
      rcases List.mem_cons.mp hl with hl | hl
      · rw [hl]
        exact formatItems_layout Items
      · cases hl⟩
  all_goals exact partsClosed_empty P
termination_by sizeOf e

theorem formatPartsItems_layout :
    ∀ xs : List Expr, ∀ p ∈ formatPartsItems xs, PartsClosed P p
  | [] => fun _ h => by cases h
  | x :: rest => fun p h => by
      rcases List.mem_cons.mp h with h | h
      · rw [h]
        exact formatParts_layout x
      · exact formatPartsItems_layout rest p h
termination_by xs => sizeOf xs

theorem formatPartsChildren_layout :
    ∀ cs : List (Option Expr), ∀ p ∈ formatPartsChildren cs, PartsClosed P p
  | [] => fun _ h => by cases h
  | none :: rest => fun p h => by
      rcases List.mem_cons.mp h with h | h
      · rw [h]
        exact partsClosed_empty P
      · exact formatPartsChildren_layout rest p h
  | some x :: rest => fun p h => by
      rcases List.mem_cons.mp h with h | h
      · rw [h]
        exact formatParts_layout x
      · exact formatPartsChildren_layout rest p h
termination_by cs => sizeOf cs

theorem formatPartsLists_layout :
    ∀ ls : List (List Expr), ∀ l ∈ formatPartsLists ls, ∀ p ∈ l, PartsClosed P p
  | [] => fun _ h => by cases h
  | xs :: rest => fun l h => by
      rcases List.mem_cons.mp h with h | h
      · rw [h]
        exact formatPartsItems_layout xs
      · exact formatPartsLists_layout rest l h
termination_by ls => sizeOf ls

end

end

/-! ## The two modes differ in layout bytes only -/

theorem squeeze_append (a b : List Char) : squeeze (a ++ b) = squeeze a ++ squeeze b := by
  simp [squeeze]

theorem squeeze_indentation (u : String) (hu : LayoutOnly u) (n : Nat) :
    squeeze (indentation u n) = [] := by
  induction n with
  | zero => rfl
  | succ n ih =>
      have e : indentation u (n + 1) = u.data ++ indentation u n := by
        simp [indentation, List.replicate_succ]
      rw [e, squeeze_append, ih]
      simp only [squeeze, List.append_nil, List.filter_eq_nil_iff]
      intro b hb
      simp [hu b hb]

theorem squeeze_layout (b : Char) (h : isLayoutByte b = true) : squeeze [b] = [] := by
  simp [squeeze, h]

theorem InkIs.cast {T : Formatter → Formatter} {X Y : List Char} (h : InkIs T X)
    (e : X = Y) : InkIs T Y := e ▸ h

theorem InkIs.unique {T : Formatter → Formatter} {X Y : List Char} (hX : InkIs T X)
    (hY : InkIs T Y) : X = Y := by
  have hn : LayoutOnly NewFormatter.indent := by
    intro b hb
    have : b = whitespace := by
      have h2 : b ∈ [whitespace, whitespace] := hb
      simpa using h2
    rw [this]; rfl
  have h1 := (hX NewFormatter hn).2
  have h2 := (hY NewFormatter hn).2
  rw [h1] at h2
  exact List.append_cancel_left h2

theorem InkIs.skip : InkIs (fun f => f) [] := fun f _ => ⟨rfl, by simp⟩

theorem InkIs.seq {T₁ T₂ : Formatter → Formatter} {X₁ X₂ : List Char} (h₁ : InkIs T₁ X₁)
    (h₂ : InkIs T₂ X₂) : InkIs (fun f => T₂ (T₁ f)) (X₁ ++ X₂) := by
  intro f hf
  obtain ⟨i₁, b₁⟩ := h₁ f hf
  obtain ⟨i₂, b₂⟩ := h₂ (T₁ f) (by rw [i₁]; exact hf)
  exact ⟨i₂.trans i₁, by rw [b₂, b₁, List.append_assoc]⟩

theorem InkIs.writeByte (c : Char) : InkIs (fun f => f.WriteByte c) (squeeze [c]) := by
  intro f hf
  refine ⟨by simp, ?_⟩
  by_cases hm : f.mode = FormatModeBeautify
  · by_cases hc : c = newline
    · simp [Formatter.WriteByte, hm, hc, squeeze_append]
    · cases hs : f.lineStart with
      | false =>
          simp [Formatter.WriteByte, Formatter.writeIndentIfNeeded, hm, hc, hs, squeeze_append]
      | true =>
          simp [Formatter.WriteByte, Formatter.writeIndentIfNeeded, hm, hc, hs, squeeze_append,
            writeIndentLoop_eq, squeeze_indentation f.indent hf]
  · simp [Formatter.WriteByte, hm, squeeze_append]

theorem InkIs.writeBytes (bs : List Char) : InkIs (fun f => f.writeBytes bs) (squeeze bs) := by
  induction bs with
  | nil => exact InkIs.skip
  | cons c bs ih =>
      have h := InkIs.seq (InkIs.writeByte c) ih
      have e : squeeze [c] ++ squeeze bs = squeeze (c :: bs) := by
        rw [← squeeze_append]; rfl
      exact h.cast e

theorem InkIs.writeString (s : String) : InkIs (fun f => f.WriteString s) (squeeze s.data) :=
  InkIs.writeBytes s.data

theorem InkIs.newLine : InkIs (fun f => f.NewLine) [] := by
  intro f hf
  by_cases hm : f.mode = FormatModeBeautify
  · have h := InkIs.writeByte newline f hf
    have e : f.NewLine = f.WriteByte newline := by simp [Formatter.NewLine, hm]
    beta_reduce at h ⊢
    rw [e]
    exact ⟨h.1, by rw [h.2, squeeze_layout newline rfl]⟩
  · have e : f.NewLine = f := by simp [Formatter.NewLine, hm]
    beta_reduce
    rw [e]
    exact ⟨rfl, by simp⟩

theorem InkIs.brk : InkIs (fun f => f.Break) [] := by
  intro f hf
  by_cases hm : f.mode = FormatModeBeautify
  · have e : f.Break = f.NewLine := by simp [Formatter.Break, hm]
    beta_reduce
    rw [e]
    exact InkIs.newLine f hf
  · have h := InkIs.writeByte whitespace f hf
    have e : f.Break = f.WriteByte whitespace := by simp [Formatter.Break, hm]
    beta_reduce at h ⊢
    rw [e]
    exact ⟨h.1, by rw [h.2, squeeze_layout whitespace rfl]⟩

theorem InkIs.indented {T : Formatter → Formatter} {X : List Char} (h : InkIs T X) :
    InkIs (fun f => (T f.Indent).Dedent) X := by
  intro f hf
  obtain ⟨i, b⟩ := h f.Indent hf
  have hi : (T f.Indent).Dedent.indent = (T f.Indent).indent := by
    simp only [Formatter.Dedent]; split <;> rfl
  have hb : (T f.Indent).Dedent.builder = (T f.Indent).builder := by
    simp only [Formatter.Dedent]; split <;> rfl
  exact ⟨by rw [hi, i]; rfl, by rw [hb, b]; rfl⟩

theorem InkIs.choice {T₁ T₂ : Formatter → Formatter} {X : List Char}
    (c : Formatter → Prop) [DecidablePred c] (h₁ : InkIs T₁ X) (h₂ : InkIs T₂ X) :
    InkIs (fun f => if c f then T₁ f else T₂ f) X := by
  intro f hf
  by_cases h : c f
  · simpa [h] using h₁ f hf
  · simpa [h] using h₂ f hf

theorem InkIs.writeOperator (op : TokenKind) (g n : Bool) :
    InkIs (fun f => BinaryOperation.writeOperator f op g n)
      (squeeze (BinaryOperation.keyword op g n).data) := by
  have h := InkIs.writeString (BinaryOperation.keyword op g n)
  intro f hf
  beta_reduce
  rw [writeOperator_eq]
  exact h f hf

theorem InkIs.writeLogicalOperand {e : Option Expr} {X : List Char}
    (h : InkIs (fun f => WriteExpr f e) X) : InkIs (fun f => writeLogicalOperand f e) X := by
  have h2 := InkIs.choice (fun _ => isLogicalBinaryOp e = true) h h.indented
  intro f hf
  beta_reduce
  rw [writeLogicalOperand_eq]
  exact h2 f hf

theorem InkIs.spaceUnless (c : Prop) [Decidable c] :
    InkIs (fun f => if c then f.WriteByte whitespace else f) [] :=
  InkIs.choice (fun _ => c) ((InkIs.writeByte whitespace).cast (squeeze_layout _ rfl))
    InkIs.skip

theorem InkUniform_layout : LayoutClosed InkUniform where
  skip := ⟨_, InkIs.skip⟩
  seq := fun ⟨_, h₁⟩ ⟨_, h₂⟩ => ⟨_, h₁.seq h₂⟩
  writeByte := fun b => ⟨_, InkIs.writeByte b⟩
  writeString := fun s => ⟨_, InkIs.writeString s⟩
  newLine := ⟨_, InkIs.newLine⟩
  brk := ⟨_, InkIs.brk⟩
  indented := fun ⟨_, h⟩ => ⟨_, h.indented⟩
  binary := by
    rintro l r op g n ⟨Xl, hl⟩ ⟨Xr, hr⟩
    have hlog := ((((hl.writeLogicalOperand.seq InkIs.newLine).seq
      (InkIs.writeOperator op g n)).seq InkIs.newLine).seq hr.writeLogicalOperand)
    have hcom := ((((hl.seq (InkIs.spaceUnless (op ≠ TokenKindDash))).seq
      (InkIs.writeOperator op g n)).seq (InkIs.spaceUnless (op ≠ TokenKindDash))).seq hr)
    have e : Xl ++ [] ++ squeeze (BinaryOperation.keyword op g n).data ++ [] ++ Xr
        = Xl ++ squeeze (BinaryOperation.keyword op g n).data ++ Xr := by simp
    have h := InkIs.choice
      (fun f => BinaryOperation.isLogicalOp op g n = true ∧ f.mode = FormatModeBeautify)
      (hlog.cast e) (hcom.cast e)
    refine ⟨Xl ++ squeeze (BinaryOperation.keyword op g n).data ++ Xr, fun f hf => ?_⟩
    beta_reduce
    rw [FormatSQL_BinaryOperation]
    have h2 := h f hf
    by_cases hd : op ≠ TokenKindDash
    · simpa [hd] using h2
    · simpa [hd] using h2

/-- C24. Mode equivalence up to layout: for every syntax tree, the Beautify rendering
with the indent unit of two spaces and the Compact rendering are the same text once every
space and every newline is deleted. -/
theorem mode_equivalence_up_to_layout (e : Option Expr) :
    squeeze (beautify "  " e).data = squeeze (Format e).data := by
  obtain ⟨X, h⟩ := WriteExpr_layout InkUniform_layout e
  have hn : LayoutOnly "  " := by
    intro b hb
    have : b = whitespace := by
      have h2 : b ∈ [whitespace, whitespace] := hb
      simpa using h2
    rw [this]; rfl
  have h1 := (h (NewFormatter.WithBeautify.WithIndent "  ") hn).2
  have h2 := (h NewFormatter hn).2
  show squeeze (WriteExpr (NewFormatter.WithBeautify.WithIndent "  ") e).builder
    = squeeze (WriteExpr NewFormatter e).builder
  rw [h1, h2]
  rfl

/-! ## The indent level after a rendering -/

/-- C34. Rendering restores the indent level: in every mode, at every starting indent
level that is not negative, the indent level after `FormatSQL` of a tree is the starting
one; inside a bracket `Indent() ... Dedent()` the level at the `Dedent()` after the
rendering is positive, so that the `Dedent()` is not clamped and takes back the
`Indent()`. -/
theorem rendering_restores_indent_level (e : Expr) (f : Formatter)
    (h : 0 ≤ f.indentLevel) :
    (e.FormatSQL f).indentLevel = f.indentLevel ∧
    (e.FormatSQL f).mode = f.mode ∧
    0 < (e.FormatSQL f.Indent).indentLevel ∧
    (e.FormatSQL f.Indent).Dedent.indentLevel = f.indentLevel := by
  have h1 : (0 : Int) ≤ f.Indent.indentLevel := by
    show (0 : Int) ≤ f.indentLevel + 1
    omega
  have h2 : (e.FormatSQL f.Indent).indentLevel = f.indentLevel + 1 :=
    FormatSQL_indentLevel e f.Indent h1
  refine ⟨FormatSQL_indentLevel e f h, FormatSQL_mode e f, by omega, ?_⟩
  have h3 : (e.FormatSQL f.Indent).indentLevel > 0 := by omega
  unfold Formatter.Dedent
  rw [if_pos h3]
  show (e.FormatSQL f.Indent).indentLevel - 1 = f.indentLevel
  omega

set_option maxRecDepth 16000 in
theorem rendering_restores_indent_level_witness :
    (0 : Int) ≤ NewFormatter.WithBeautify.Indent.indentLevel ∧
    ((caseExample.FormatSQL NewFormatter.WithBeautify.Indent).indentLevel
        = NewFormatter.WithBeautify.Indent.indentLevel ∧
      (caseExample.FormatSQL NewFormatter.WithBeautify.Indent).mode
        = NewFormatter.WithBeautify.Indent.mode ∧
      0 < (caseExample.FormatSQL NewFormatter.WithBeautify.Indent.Indent).indentLevel ∧
      (caseExample.FormatSQL NewFormatter.WithBeautify.Indent.Indent).Dedent.indentLevel
        = NewFormatter.WithBeautify.Indent.indentLevel) :=
  ⟨by decide, rendering_restores_indent_level caseExample NewFormatter.WithBeautify.Indent
    (by decide)⟩

set_option maxRecDepth 16000 in
theorem caseExample_renderings :
    Format (some caseExample) = "CASE WHEN a > 1 THEN 1 ELSE 0 END" ∧
    (caseExample.FormatSQL NewFormatter.WithBeautify).String
      = "CASE\n  WHEN a > 1 THEN 1\n  ELSE 0\nEND" := by
  refine ⟨by decide, by decide⟩

/-! ## The order of the JSON type options -/

theorem writeJSONItems_eq_writeJoined (g : Nat) :
    ∀ (xs : List (JSONOption Expr)) (f : Formatter) (w : Bool),
      writeJSONItems f g w xs = writeJoined f w (xs.filter fun item => item.group = g)
  | [], _, _ => rfl
  | item :: rest, f, w => by
      rw [writeJSONItems_cons]
      by_cases hg : item.group = g
      · rw [if_pos hg, List.filter_cons_of_pos (by simpa using hg)]
        exact writeJSONItems_eq_writeJoined g rest _ true
      · rw [if_neg hg, List.filter_cons_of_neg (by simpa using hg)]
        exact writeJSONItems_eq_writeJoined g rest f w

theorem writeJoined_append :
    ∀ (as bs : List (JSONOption Expr)) (f : Formatter) (w : Bool),
      writeJoined (writeJoined f w as) (w || !as.isEmpty) bs = writeJoined f w (as ++ bs)
  | [], bs, f, w => by simp [writeJoined]
  | a :: as, bs, f, w => by
      have ih := writeJoined_append as bs
        (JSONOption.FormatSQL a (if w then f.WriteString ", " else f)) true
      simp only [Bool.true_or] at ih
      simp only [writeJoined, List.cons_append, List.isEmpty_cons, Bool.not_false,
        Bool.or_true]
      exact ih

theorem any_eq_filter_nonempty (p : JSONOption Expr → Bool) (xs : List (JSONOption Expr)) :
    xs.any p = !(xs.filter p).isEmpty := by
  induction xs with
  | nil => rfl
  | cons x xs ih =>
      cases hp : p x
      · simp [List.filter_cons_of_neg, hp, ih]
      · simp [List.filter_cons_of_pos, hp]

theorem any_first_groups (xs : List (JSONOption Expr)) :
    (xs.any fun item => decide (item.group = 0 ∨ item.group = 1))
      = (false || !((xs.filter fun item => decide (item.group = 0))
          ++ (xs.filter fun item => decide (item.group = 1))).isEmpty) := by
  induction xs with
  | nil => rfl
  | cons x xs ih =>
      by_cases h0 : x.group = 0
      · simp [h0]
      · by_cases h1 : x.group = 1
        · simp [h1]
        · simp only [List.any_cons, h0, h1, or_self, decide_False, Bool.false_or, ih,
            List.filter_cons_of_neg, Bool.false_eq_true, not_false_eq_true]

theorem writeJoined_mode :
    ∀ (items : List (JSONOption Expr)) (f : Formatter) (w : Bool),
      (writeJoined f w items).mode = f.mode
  | [], _, _ => rfl
  | item :: rest, f, w => by
      simp only [writeJoined]
      rw [writeJoined_mode rest, (JSONOption_FormatSQL_closed Framed_closed item _).1]
      cases w
      · rfl
      · exact (RenderClosed.writeString Framed_closed ", " f).1

theorem JSONOption_group_le (item : JSONOption Expr) : item.group ≤ 2 := by
  unfold JSONOption.group
  split_ifs <;> omega

theorem writeJSONOptions_eq_writeJoined (l r : Pos) (xs : List (JSONOption Expr))
    (f : Formatter) :
    writeJSONOptions f (some ⟨l, r, xs⟩)
      = (writeJoined (f.WriteByte '(') false (writtenOrder xs)).WriteByte ')' := by
  rw [writeJSONOptions_some]
  show (writeJSONItems
      (writeJSONItems (writeJSONItems (f.WriteByte '(') 0 false xs) 1
        (xs.any fun item => item.group = 0) xs)
      2 (xs.any fun item => item.group = 0 ∨ item.group = 1) xs).WriteByte ')' = _
  rw [writeJSONItems_eq_writeJoined, writeJSONItems_eq_writeJoined,
    writeJSONItems_eq_writeJoined]
  have e1 : (xs.any fun item => decide (item.group = 0))
      = (false || !(xs.filter fun item => decide (item.group = 0)).isEmpty) := by
    rw [any_eq_filter_nonempty]
    simp
  rw [e1, writeJoined_append, any_first_groups, writeJoined_append]
  simp [writtenOrder]

theorem JSONOption_FormatSQL_compact (item : JSONOption Expr) (f : Formatter)
    (h : f.mode ≠ FormatModeBeautify) :
    (JSONOption.FormatSQL item f).mode = f.mode ∧
    (JSONOption.FormatSQL item f).builder
      = f.builder ++ (JSONOption.FormatSQL item NewFormatter).builder := by
  obtain ⟨hm, _, t, ht, hn⟩ :=
    JSONOption_FormatSQL_closed CompactUniform_closed item f NewFormatter h compact_ne_beautify
  have : (JSONOption.FormatSQL item NewFormatter).builder = t := by
    simpa [NewFormatter] using hn
  exact ⟨hm, by rw [ht, this]⟩

theorem intercalate_go_data (s : String) :
    ∀ (l : List String) (acc : String),
      (String.intercalate.go acc s l).data
        = acc.data ++ (l.map fun a => s.data ++ a.data).flatten
  | [], acc => by simp [String.intercalate.go]
  | a :: l, acc => by
      simp [String.intercalate.go, intercalate_go_data s l]

theorem writeJoined_compact :
    ∀ (items : List (JSONOption Expr)) (f : Formatter), f.mode ≠ FormatModeBeautify →
      (writeJoined f true items).builder
        = f.builder ++ (items.map fun item =>
            (", " : String).data ++ (JSONOption.FormatSQL item NewFormatter).String.data).flatten
  | [], f, _ => by simp [writeJoined]
  | item :: rest, f, h => by
      have hs : (f.WriteString ", ").mode ≠ FormatModeBeautify := by
        have := (RenderClosed.writeString (P := Framed) Framed_closed ", " f).1
        rw [this]
        exact h
      obtain ⟨hm, hb⟩ := JSONOption_FormatSQL_compact item (f.WriteString ", ") hs
      have hm2 : (JSONOption.FormatSQL item (f.WriteString ", ")).mode ≠ FormatModeBeautify := by
        rw [hm]
        exact hs
      simp only [writeJoined, if_true, List.map_cons, List.flatten_cons]
      rw [writeJoined_compact rest _ hm2, hb, WriteString_compact f ", " h]
      simp [Formatter.String, List.append_assoc]

theorem writeJoined_text (items : List (JSONOption Expr)) (f : Formatter)
    (h : f.mode ≠ FormatModeBeautify) :
    (writeJoined f false items).builder
      = f.builder ++ ((", " : String).intercalate
          (items.map fun item => (JSONOption.FormatSQL item NewFormatter).String)).data := by
  cases items with
  | nil => simp [writeJoined, String.intercalate]
  | cons item rest =>
      obtain ⟨hm, hb⟩ := JSONOption_FormatSQL_compact item f h
      have hm2 : (JSONOption.FormatSQL item f).mode ≠ FormatModeBeautify := by
        rw [hm]
        exact h
      simp only [writeJoined, Bool.false_eq_true, if_false, List.map_cons, String.intercalate]
      rw [writeJoined_compact rest _ hm2, hb, intercalate_go_data]
      simp [Formatter.String, List.append_assoc, Function.comp_def]

theorem writtenOrder_perm (xs : List (JSONOption Expr)) :
    (writtenOrder xs).Perm xs := by
  induction xs with
  | nil => exact List.Perm.refl _
  | cons x xs ih =>
      have hx := JSONOption_group_le x
      unfold writtenOrder at ih ⊢
      by_cases h0 : x.group = 0
      · simp only [h0, List.filter_cons_of_pos, decide_True, List.cons_append]
        rw [List.filter_cons_of_neg (by simp [h0]), List.filter_cons_of_neg (by simp [h0])]
        exact List.Perm.cons x ih
      · by_cases h1 : x.group = 1
        · rw [List.filter_cons_of_neg (by simp [h1]), List.filter_cons_of_pos (by simp [h1]),
            List.filter_cons_of_neg (by simp [h1])]
          exact List.perm_middle.trans (List.Perm.cons x ih)
        · have h2 : x.group = 2 := by omega
          rw [List.filter_cons_of_neg (by simp [h2]), List.filter_cons_of_neg (by simp [h2]),
            List.filter_cons_of_pos (by simp [h2])]
          rw [← List.append_assoc]
          refine List.perm_middle.trans (List.Perm.cons x ?_)
          rw [List.append_assoc]
          exact ih

theorem writtenOrder_filter (xs : List (JSONOption Expr)) (g : Nat) :
    (writtenOrder xs).filter (fun item => item.group = g)
      = xs.filter (fun item => item.group = g) := by
  have hnil : ∀ a b : Nat, a ≠ b →
      (xs.filter fun item => decide (item.group = a)).filter (fun item => decide (item.group = b))
        = [] := by
    intro a b hab
    rw [List.filter_filter, List.filter_eq_nil_iff]
    intro item _
    simp only [Bool.and_eq_true, decide_eq_true_eq, not_and]
    intro hb ha
    exact hab (ha.symm.trans hb)
  have hsame : ∀ a : Nat,
      (xs.filter fun item => decide (item.group = a)).filter (fun item => decide (item.group = a))
        = xs.filter fun item => decide (item.group = a) := by
    intro a
    rw [List.filter_filter]
    congr 1
    funext item
    simp
  unfold writtenOrder
  rw [List.filter_append, List.filter_append]
  by_cases h0 : g = 0
  · subst h0
    rw [hsame, hnil 1 0 (by decide), hnil 2 0 (by decide)]
    simp
  · by_cases h1 : g = 1
    · subst h1
      rw [hsame, hnil 0 1 (by decide), hnil 2 1 (by decide)]
      simp
    · by_cases h2 : g = 2
      · subst h2
        rw [hsame, hnil 0 2 (by decide), hnil 1 2 (by decide)]
        simp
      · rw [hnil 0 g (Ne.symm h0), hnil 1 g (Ne.symm h1), hnil 2 g (Ne.symm h2)]
        symm
        rw [List.append_nil, List.append_nil, List.filter_eq_nil_iff]
        intro item _
        have := JSONOption_group_le item
        simp only [decide_eq_true_eq]
        omega

theorem writtenOrder_sorted (xs : List (JSONOption Expr)) :
    (writtenOrder xs).Pairwise (fun a b => a.group ≤ b.group) := by
  have hp : ∀ g : Nat,
      (xs.filter fun item => decide (item.group = g)).Pairwise
        (fun a b => a.group ≤ b.group) := by
    intro g
    rw [List.pairwise_iff_forall_sublist]
    intro a b hab
    have ha := (List.of_mem_filter (hab.subset (List.mem_cons_self _ _)))
    have hb := (List.of_mem_filter
      (hab.subset (List.mem_cons_of_mem _ (List.mem_cons_self _ _))))
    simp only [decide_eq_true_eq] at ha hb
    omega
  unfold writtenOrder
  rw [List.pairwise_append, List.pairwise_append]
  refine ⟨hp 0, ⟨hp 1, hp 2, ?_⟩, ?_⟩
  · intro a ha b hb
    have ha := List.of_mem_filter ha
    have hb := List.of_mem_filter hb
    simp only [decide_eq_true_eq] at ha hb
    omega
  · intro a ha b hb
    have ha := List.of_mem_filter ha
    simp only [decide_eq_true_eq] at ha
    omega

theorem writtenOrder_idem (xs : List (JSONOption Expr)) :
    writtenOrder (writtenOrder xs) = writtenOrder xs := by
  show (writtenOrder xs).filter (fun item => item.group = 0)
      ++ ((writtenOrder xs).filter (fun item => item.group = 1)
        ++ (writtenOrder xs).filter (fun item => item.group = 2)) = _
  rw [writtenOrder_filter, writtenOrder_filter, writtenOrder_filter]
  rfl

theorem JSONOption_group_kind (item : JSONOption Expr) :
    (item.group = 0 ↔ (item.kind = some 0 ∨ item.kind = none)) ∧
    (item.group = 1 ↔ item.kind = some 1) ∧ (item.group = 2 ↔ item.kind = some 2) := by
  unfold JSONOption.kind JSONOption.group
  split_ifs <;> simp

theorem amendedPartition_eq_writtenOrder (xs : List (JSONOption Expr)) :
    amendedPartition xs = writtenOrder xs := by
  unfold amendedPartition writtenOrder
  congr 1
  · apply List.filter_congr
    intro item _
    simp [(JSONOption_group_kind item).1]
  · congr 1
    · apply List.filter_congr
      intro item _
      simp [(JSONOption_group_kind item).2.1]
    · apply List.filter_congr
      intro item _
      simp [(JSONOption_group_kind item).2.2]

theorem amendedPartition_eq_claimedPartition (xs : List (JSONOption Expr))
    (h : ∀ item ∈ xs, item.kind ≠ none) : amendedPartition xs = claimedPartition xs := by
  unfold amendedPartition claimedPartition
  congr 1
  apply List.filter_congr
  intro item hi
  simp [h item hi]

set_option maxRecDepth 16000 in
/-- C33, as stated, fails: an item with no field set is of none of the three kinds of the
claim, yet `FormatSQL` writes it, with the first group: the options `SKIP a`, the item
with no field and `max_dynamic_paths=10` are rendered as
`(, max_dynamic_paths=10, SKIP a)`, with an empty entry, while the three groups of the
claim hold two of the three items and give `(max_dynamic_paths=10, SKIP a)`. -/
theorem json_options_empty_item_is_written :
    (writeJSONOptions NewFormatter (some ⟨4, 35, optionsWithEmptyItem⟩)).String
      = "(, max_dynamic_paths=10, SKIP a)" ∧
    "(" ++ (", " : String).intercalate
        ((claimedPartition optionsWithEmptyItem).map fun item =>
          (JSONOption.FormatSQL item NewFormatter).String) ++ ")"
      = "(max_dynamic_paths=10, SKIP a)" ∧
    (claimedPartition optionsWithEmptyItem).length = 2 ∧
    optionsWithEmptyItem.length = 3 ∧
    (amendedPartition optionsWithEmptyItem).length = 3 := by
  decide

/-- C33, amended.  JSON type options are rendered as a stable three-way partition in which
the first group holds the items with a `max_dynamic_paths` or `max_dynamic_types` option
and the items with no field set, the second the type-hint items, the third the `SKIP` and
`SKIP REGEXP` items: in every state `JSONOptions.FormatSQL` writes `(`, the items in this
order joined by `, `, and `)`, which in Compact mode is the text `(` ++ the renderings of
these items joined by `, ` ++ `)`; the reordered list is a permutation of the items, has
its groups in order, and holds each group in the order of the original list; reordering a
second time changes nothing, and the reordered list is rendered as the original one.  On
a list whose items all have one of the three kinds of the claim, the order is the one of
the claim. -/
theorem json_options_stable_partition (l r : Pos) (xs : List (JSONOption Expr)) :
    (∀ f : Formatter,
      writeJSONOptions f (some ⟨l, r, xs⟩)
        = (writeJoined (f.WriteByte '(') false (amendedPartition xs)).WriteByte ')') ∧
    (writeJSONOptions NewFormatter (some ⟨l, r, xs⟩)).String
      = "(" ++ (", " : String).intercalate
          ((amendedPartition xs).map fun item => (JSONOption.FormatSQL item NewFormatter).String)
        ++ ")" ∧
    (amendedPartition xs).Perm xs ∧
    (amendedPartition xs).Pairwise (fun a b => a.kind.getD 0 ≤ b.kind.getD 0) ∧
    (∀ k : Option Nat, (amendedPartition xs).filter (fun item => item.kind = k)
      = xs.filter (fun item => item.kind = k)) ∧
    amendedPartition (amendedPartition xs) = amendedPartition xs ∧
    (∀ f : Formatter,
      writeJSONOptions f (some ⟨l, r, amendedPartition xs⟩)
        = writeJSONOptions f (some ⟨l, r, xs⟩)) ∧
    ((∀ item ∈ xs, item.kind ≠ none) → amendedPartition xs = claimedPartition xs) := by
  have hgk : ∀ item : JSONOption Expr, item.kind.getD 0 = item.group := by
    intro item
    unfold JSONOption.kind JSONOption.group
    split_ifs <;> rfl
  refine ⟨?_, ?_, ?_, ?_, ?_, ?_, ?_, amendedPartition_eq_claimedPartition xs⟩
  · intro f
    rw [amendedPartition_eq_writtenOrder]
    exact writeJSONOptions_eq_writeJoined l r xs f
  · rw [writeJSONOptions_eq_writeJoined, amendedPartition_eq_writtenOrder]
    have h1 : (NewFormatter.WriteByte '(').mode ≠ FormatModeBeautify := by decide
    have h2 : (writeJoined (NewFormatter.WriteByte '(') false (writtenOrder xs)).mode
        ≠ FormatModeBeautify := by
      rw [writeJoined_mode]
      exact h1
    have h3 : (NewFormatter.WriteByte '(').builder = ['('] := by decide
    apply String.ext
    simp only [Formatter.String]
    rw [WriteByte_compact _ _ h2, writeJoined_text _ _ h1, h3]
    simp only [String.data_append, List.singleton_append, List.cons_append, List.nil_append]
    rfl
  · rw [amendedPartition_eq_writtenOrder]
    exact writtenOrder_perm xs
  · rw [amendedPartition_eq_writtenOrder]
    have := writtenOrder_sorted xs
    simpa only [hgk] using this
  · intro k
    rw [amendedPartition_eq_writtenOrder]
    have hk : ∀ ys : List (JSONOption Expr),
        ys.filter (fun item => decide (item.kind = k))
          = (ys.filter (fun item => decide (item.group = k.getD 0))).filter
              (fun item => decide (item.kind = k)) := by
      intro ys
      rw [List.filter_filter]
      apply List.filter_congr
      intro item _
      by_cases hik : item.kind = k
      · simp [hik, ← hgk item]
      · simp [hik]
    rw [hk, hk xs, writtenOrder_filter]
  · rw [amendedPartition_eq_writtenOrder, amendedPartition_eq_writtenOrder]
    exact writtenOrder_idem xs
  · intro f
    rw [amendedPartition_eq_writtenOrder, writeJSONOptions_eq_writeJoined,
      writeJSONOptions_eq_writeJoined, writtenOrder_idem]

set_option maxRecDepth 16000 in
/-- Witness of C33, amended: the options `(SKIP a, a.b UInt8, max_dynamic_paths=10)`, whose
items all have a kind, are written in the order of the claim. -/
theorem json_options_stable_partition_witness :
    (∀ item ∈ jsonOptionsExample.Items, item.kind ≠ none) ∧
    amendedPartition jsonOptionsExample.Items = claimedPartition jsonOptionsExample.Items :=
  ⟨by decide,
    (json_options_stable_partition 4 44 jsonOptionsExample.Items).2.2.2.2.2.2.2 (by decide)⟩

set_option maxRecDepth 16000 in
theorem jsonOptionsExample_rendering :
    Format (some (.JSONType (unquotedIdent "JSON" 0) (some jsonOptionsExample)))
      = "JSON(max_dynamic_paths=10, a.b UInt8, SKIP a)" := by
  decide

/-! ## Literals, spans and statements: the claims the code does not meet -/

set_option maxRecDepth 16000 in
/-- C31, as stated, fails: in Beautify mode at indent level 1 the bytes written between
the quotes of a `StringLiteral` whose content holds a newline are not its content: the
indentation is written after the newline, so `'a\nb'` is rendered with the content
`a\n  b`, also inside `SELECT 'a\nb'`.  At indent level 0 and in Compact mode the content
is written unchanged. -/
theorem beautify_indents_inside_string_literal :
    Format (some multilineLiteral) = "'a\nb'" ∧
    (Expr.FormatSQL multilineLiteral NewFormatter.WithBeautify).String = "'a\nb'" ∧
    (Expr.FormatSQL multilineLiteral NewFormatter.WithBeautify.Indent).String
      = "  'a\n  b'" ∧
    Format (some multilineSelect) = "SELECT 'a\nb'" ∧
    beautify "  " (some multilineSelect) = "SELECT\n  'a\n  b'" ∧
    (∀ (p q : Pos) (s : String) (f : Formatter), Flat f →
      (Expr.FormatSQL (.StringLiteral p q s) f).builder
        = f.builder ++ ([singleQuoteByte] ++ s.data ++ [singleQuoteByte])) := by
  refine ⟨by decide, by decide, by decide, by decide, by decide, ?_⟩
  intro p q s f hf
  rw [FormatSQL_StringLiteral]
  obtain ⟨h1, hf1⟩ := Flat_WriteByte f singleQuoteByte hf
  obtain ⟨h2, hf2⟩ := Flat_WriteString _ s hf1
  obtain ⟨h3, _⟩ := Flat_WriteByte _ singleQuoteByte hf2
  rw [h3, h2, h1]
  simp

set_option maxRecDepth 16000 in
/-- C32, as stated, fails: `End()` of a `DictionaryAttribute` with a flag set is `NamePos`
plus the length of the keyword of the flag; in `some_long_name UInt64 INJECTIVE` the type
ends at 21 and the attribute ends at 9, before the end of its name and of its type,
whereas the same attribute with no flag ends at 21. -/
theorem dictionary_attribute_end_from_name_pos :
    (∀ (p : Pos) (n : Ident) (ty d e : Option Expr) (h i : Bool),
      Expr.End (.DictionaryAttribute p n ty d e h i true) = some (p + 12)) ∧
    (∀ (p : Pos) (n : Ident) (ty d e : Option Expr) (h : Bool),
      Expr.End (.DictionaryAttribute p n ty d e h true false) = some (p + 9)) ∧
    (∀ (p : Pos) (n : Ident) (ty d e : Option Expr),
      Expr.End (.DictionaryAttribute p n ty d e true false false) = some (p + 12)) ∧
    Format (some injectiveAttribute) = "some_long_name UInt64 INJECTIVE" ∧
    Expr.Pos injectiveAttribute = some 0 ∧
    Expr.Pos (.Ident (unquotedIdent "some_long_name" 0)) = some 0 ∧
    Expr.End (.Ident (unquotedIdent "some_long_name" 0)) = some 14 ∧
    Expr.End (.ScalarType (unquotedIdent "UInt64" 15)) = some 21 ∧
    Expr.End injectiveAttribute = some 9 ∧
    Expr.End plainAttribute = some 21 :=
  ⟨fun _ _ _ _ _ _ _ => rfl, fun _ _ _ _ _ _ => rfl, fun _ _ _ _ _ => rfl, by decide, by decide,
    by decide, by decide, by decide, by decide, by decide⟩

set_option maxRecDepth 16000 in
/-- C35, as stated, fails: in Beautify mode `a > 1 AND b < 2` placed in a `HAVING` or a
`PREWHERE` clause has its left operand on the line of the keyword, with no indentation,
and its right operand on a line of its own, indented; in a `WHERE` clause both operands
are on lines of their own, indented alike. -/
theorem having_prewhere_chain_layout :
    (Expr.FormatSQL (.HavingClause 19 (some scenario1Where)) NewFormatter.WithBeautify).String
      = "HAVING a > 1\nAND\n  b < 2" ∧
    (Expr.FormatSQL (.PrewhereClause 19 (some scenario1Where)) NewFormatter.WithBeautify).String
      = "PREWHERE a > 1\nAND\n  b < 2" ∧
    (Expr.FormatSQL (.WhereClause 19 (some scenario1Where)) NewFormatter.WithBeautify).String
      = "WHERE\n  a > 1\nAND\n  b < 2" ∧
    (∀ (p : Pos) (e : Option Expr) (f : Formatter),
      Expr.FormatSQL (.HavingClause p e) f = WriteExpr (f.WriteString "HAVING ") e ∧
      Expr.FormatSQL (.PrewhereClause p e) f = WriteExpr (f.WriteString "PREWHERE ") e) :=
  ⟨by decide, by decide, by decide, fun _ _ _ => ⟨rfl, rfl⟩⟩

set_option maxRecDepth 16000 in
/-- C36, as stated, fails: `GRANT ON CLUSTER c SELECT ON db.t TO u` is rendered with two
spaces after `GRANT` and with no byte between the cluster name and `SELECT`; without the
cluster clause the statement is rendered with one space after `GRANT`. -/
theorem grant_on_cluster_spacing :
    Format (some grantOnCluster) = "GRANT  ON CLUSTER cSELECT ON db.t TO u" ∧
    Format (some grantPlain) = "GRANT SELECT ON db.t TO u" ∧
    (∀ (p q : Pos) (cluster privilege target : Expr) (rest : List Expr) (roles : List Ident)
        (opts : List String) (f : Formatter),
      Expr.FormatSQL (.GrantPrivilegeStmt p q (some cluster) (privilege :: rest) target roles
          opts) f
        = writeGrantOptions
            (writeRoles
              ((target.FormatSQL
                ((writeCommaSeparated
                  (privilege.FormatSQL
                    (cluster.FormatSQL ((f.WriteString "GRANT ").WriteByte whitespace)))
                  1 rest).WriteString " ON ")).WriteString " TO ")
              0 roles)
            opts) :=
  ⟨by decide, by decide, fun _ _ _ _ _ _ _ _ _ => rfl⟩

set_option maxRecDepth 16000 in
/-- C37, as stated, fails: `AlterTableAddIndex` with `IfNotExists` set writes
`IF NOT EXISTS ` after the index definition, directly after the `GRANULARITY` value, and
not before it; `AlterTableAddColumn` and `AlterTableAddProjection` write it before the
definition. -/
theorem add_index_if_not_exists_misplaced :
    Format (some indexExample) = "INDEX idx x TYPE minmax GRANULARITY 1" ∧
    Format (some addIndexIfNotExists)
      = "ADD INDEX idx x TYPE minmax GRANULARITY 1IF NOT EXISTS " ∧
    Format (some addColumnIfNotExists) = "ADD COLUMN IF NOT EXISTS x UInt8" ∧
    (∀ (p q : Pos) (index : Expr) (f : Formatter),
      Expr.FormatSQL (.AlterTableAddIndex p q index true none) f
        = (index.FormatSQL (f.WriteString "ADD ")).WriteString "IF NOT EXISTS ") ∧
    (∀ (p q : Pos) (projection : Expr) (f : Formatter),
      Expr.FormatSQL (.AlterTableAddProjection p q true projection none) f
        = projection.FormatSQL
            ((f.WriteString "ADD PROJECTION ").WriteString "IF NOT EXISTS ")) :=
  ⟨by decide, by decide, by decide, fun _ _ _ _ => rfl, fun _ _ _ _ => rfl⟩

set_option maxRecDepth 16000 in
/-- C38, as stated, fails: a `BinaryOperation` with both `HasNot` and `HasGlobal` set is
rendered, in every mode, as the same operation with `HasNot` alone: `NOT ` is written and
`GLOBAL ` is not.  With one flag set its modifier is written. -/
theorem global_dropped_when_not_is_set :
    (∀ (l r : Option Expr) (op : TokenKind) (f : Formatter),
      Expr.FormatSQL (.BinaryOperation l op r true true) f
        = Expr.FormatSQL (.BinaryOperation l op r false true) f) ∧
    Format (some globalNotIn) = "a NOT IN b" ∧
    Format (some notInExample) = "a NOT IN b" ∧
    Format (some globalIn) = "a GLOBAL IN b" := by
  refine ⟨?_, by decide, by decide, by decide⟩
  intro l r op f
  rw [FormatSQL_BinaryOperation, FormatSQL_BinaryOperation]
  rfl

/-- C39, as stated, fails: `FormatSQL` renders a `PartitionClause` with `All` set and
neither `ID` nor `Expr` as `PARTITION ALL`, and `Accept` visits it, but `End()` calls
`End()` on the absent expression and fails; with an `ID` or an expression it returns a
position. -/
theorem partition_all_end_fails :
    Format (some partitionAll) = "PARTITION ALL" ∧
    (Expr.Accept quietVisitor partitionAll ()).result = Outcome.ok ∧
    Expr.Pos partitionAll = some 0 ∧
    Expr.End partitionAll = none ∧
    (∀ (p : Pos) (all : Bool), Expr.End (.PartitionClause p none none all) = none) ∧
    Expr.End partitionExample = some 21 ∧
    Expr.End partitionById = some 20 :=
  ⟨by decide, rfl, rfl, rfl, fun _ _ => rfl, by decide, by decide⟩

set_option maxRecDepth 16000 in
/-- C40, as stated, fails: `FormatSQL` renders the `InsertStmt` of
`INSERT INTO t FORMAT JSONEachRow`, which has no `SELECT` and an empty `Values` list, and
`Accept` traverses it, but `End()` indexes the last element of the empty list and fails;
with a `VALUES` list it returns the end of the last element. -/
theorem insert_without_values_end_fails :
    Format (some insertFormatOnly) = "INSERT INTO t FORMAT JSONEachRow" ∧
    (Expr.Accept quietVisitor insertFormatOnly ()).result = Outcome.ok ∧
    Expr.Pos insertFormatOnly = some 0 ∧
    Expr.End insertFormatOnly = none ∧
    (∀ (p : Pos) (fmt : Option Expr) (tk : Bool) (table names : Option Expr),
      Expr.End (.InsertStmt p fmt tk table names [] none) = none) ∧
    Format (some insertValues) = "INSERT INTO t VALUES (1)" ∧
    Expr.End insertValues = some 23 :=
  ⟨by decide, rfl, rfl, rfl, fun _ _ _ _ _ => rfl, by decide, by decide⟩

/-! ## Trees of the node kinds of the generic constructor -/

set_option maxRecDepth 16000 in
theorem orderByExample_renderings :
    Format (some orderByExample) = "ORDER BY a DESC, b" ∧
    beautify "  " (some orderByExample) = "ORDER BY\n  a DESC,\n  b" := by
  refine ⟨by decide, by decide⟩

set_option maxRecDepth 32000 in
theorem createTableExample_renderings :
    Format (some createTableExample)
      = "CREATE TABLE t (a Int, b String) ENGINE = MergeTree ORDER BY a" ∧
    beautify "  " (some createTableExample)
      = "CREATE TABLE t\n(\n  a Int,\n  b String\n)\nENGINE = MergeTree\nORDER BY\n  a" := by
  refine ⟨by decide, by decide⟩

set_option maxRecDepth 16000 in
theorem createUserExample_renderings :
    Format (some createUserExample) = "CREATE USER IF NOT EXISTS u SETTINGS s, t" ∧
    beautify "  " (some createUserExample)
      = "CREATE USER IF NOT EXISTS u\nSETTINGS\n  s,\n  t" := by
  refine ⟨by decide, by decide⟩

set_option maxRecDepth 16000 in
theorem dictionarySchemaExample_renderings :
    Format (some dictionarySchemaExample) = "(id UInt64, name String)" ∧
    beautify "  " (some dictionarySchemaExample) = "(\n  id UInt64,\n  name String\n)" := by
  refine ⟨by decide, by decide⟩

set_option maxRecDepth 32000 in
theorem materializedViewExample_renderings :
    Format (some materializedViewExample)
      = "CREATE MATERIALIZED VIEW v TO d AS SELECT a FROM s" ∧
    beautify "  " (some materializedViewExample)
      = "CREATE MATERIALIZED VIEW v\nTO d\nAS\n  SELECT\n    a\n  FROM\n    s" := by
  refine ⟨by decide!, by decide!⟩

/-- The traversal of `ORDER BY a DESC, b` by a visitor that fails at the identifier `b`:
the second item is left through its `Leave`, and so is the clause; neither callback is
invoked. -/
theorem orderByExample_trace :
    (Expr.Accept (failingAt "b") orderByExample 0).result = Outcome.error "no b" ∧
    (Expr.Accept (failingAt "b") orderByExample 0).events =
      [Event.Enter orderByExample,
        Event.Enter (.Node (.OrderExpr 9 "DESC") []
          [some (.Ident (unquotedIdent "a" 9)), none, none] []),
        Event.Enter (.Ident (unquotedIdent "a" 9)),
        Event.Visit (.Ident (unquotedIdent "a" 9)),
        Event.Leave (.Ident (unquotedIdent "a" 9)),
        Event.Visit (.Node (.OrderExpr 9 "DESC") []
          [some (.Ident (unquotedIdent "a" 9)), none, none] []),
        Event.Leave (.Node (.OrderExpr 9 "DESC") []
          [some (.Ident (unquotedIdent "a" 9)), none, none] []),
        Event.Enter (.Node (.OrderExpr 17 "") []
          [some (.Ident (unquotedIdent "b" 17)), none, none] []),
        Event.Enter (.Ident (unquotedIdent "b" 17)),
        Event.Visit (.Ident (unquotedIdent "b" 17)),
        Event.Leave (.Ident (unquotedIdent "b" 17)),
        Event.Leave (.Node (.OrderExpr 17 "") []
          [some (.Ident (unquotedIdent "b" 17)), none, none] []),
        Event.Leave orderByExample] :=
  ⟨rfl, rfl⟩

/-- The method `(*WindowClause).Accept` visits the name and the expression of each window,
not the window; `(*RenameStmt).Accept` visits the two tables of each pair, not the pair. -/
theorem windowExample_traversal :
    Format (some windowExample) = "WINDOW w AS (PARTITION BY a)" ∧
    windowExample.traversal =
      [some (.Ident (unquotedIdent "w" 7)),
        some (.Node (.WindowExpr 12 27) []
          [some (.Node (.PartitionByClause 13) [] [some (.Ident (unquotedIdent "a" 26))] []),
            none, none] [])] ∧
    Format (some renameExample) = "RENAME TABLE a TO b" ∧
    renameExample.traversal =
      [some (.TableIdentifier none (unquotedIdent "a" 13)),
        some (.TableIdentifier none (unquotedIdent "b" 18))] :=
  ⟨by decide, rfl, by decide, rfl⟩

theorem genericNode_spans :
    orderByExample.Pos = some 0 ∧ orderByExample.End = some 18 ∧
    createTableExample.Pos = some 0 ∧ createTableExample.End = some 62 ∧
    dictionarySchemaExample.End = some 24 ∧ windowExample.End = some 28 ∧
    Expr.Type createTableExample = some "CREATE TABLE" ∧
    Expr.Type createUserExample = some "USER" ∧ Expr.Type orderByExample = none := by
  decide

/-- Methods that read a field of a field: `(*SetStmt).FormatSQL` and
`(*ArrayParamList).FormatSQL` write the items of their list themselves, where `Accept`
visits the list; `(*TopClause).FormatSQL` writes the literal of its number; and
`(*MapLiteral).Accept` visits each key and its value in turn. -/
theorem fieldOfField_examples :
    Format (some setExample) = "SET x=1, y=2" ∧
    setExample.traversal
      = [some (.SettingsClause 4 12
          [.SettingExpr 4 (unquotedIdent "x" 4) (some (.NumberLiteral 6 7 "1" 10)),
            .SettingExpr 9 (unquotedIdent "y" 9) (some (.NumberLiteral 11 12 "2" 10))])] ∧
    Format (some topExample) = "TOP 3 WITH TIES" ∧
    Format (some arrayExample) = "[a, b]" ∧
    arrayExample.traversal
      = [some (.Node (.ColumnExprList 1 5 false) [] []
          [[.Ident (unquotedIdent "a" 1), .Ident (unquotedIdent "b" 4)]])] ∧
    Format (some mapExample) = "\x7b'k': 1\x7d" ∧
    mapExample.traversal = [some (.StringLiteral 2 3 "k"), some (.NumberLiteral 6 7 "1" 10)] :=
  ⟨by decide, rfl, by decide, by decide, rfl, by decide, rfl⟩

end SQLParser
